import Mathlib

/-!
Verification of the OpenSesame Flipper application core
(`src/opensesame_app.c`) against its natural-language specification.

The C code is shallowly embedded: machine integers become `Nat` (all the
quantities involved are provably below 2^32, so no wrap-around modelling is
needed and overflow sites are noted where they matter), fixed C arrays become
`List Nat` of fixed length, and the `bool seen[]` array of the de Bruijn
generator becomes a `Nat` used as a bitmask (`seen.testBit v` plays the role
of `seen[v]`).
-/

set_option maxRecDepth 100000

namespace OpenSesame


/-! ## Target catalog (`opensesame_targets`, opensesame_app.c lines 45-415)

`bits` is the digit count of a code (the spec's `n`), `length` is the number
of radio bits per digit (the spec's `bit_length_per_digit`), `trinary`
selects the alphabet size (k = 3 when true, else 2), and `b0`/`b1`/`b2` are
the per-digit bit patterns. -/

structure OpenSesameTarget where
  frequency : Nat
  bits : Nat
  length : Nat
  trinary : Bool
  b0 : Nat
  b1 : Nat
  b2 : Nat
deriving DecidableEq, Repr

def binTarget (freq bits : Nat) : OpenSesameTarget :=
  { frequency := freq, bits := bits, length := 4, trinary := false
    b0 := 0x8, b1 := 0xe, b2 := 0x0 }

def triTarget (freq bits : Nat) : OpenSesameTarget :=
  { frequency := freq, bits := bits, length := 4, trinary := true
    b0 := 0x020100, b1 := 0x03fd00, b2 := 0x03fdfe }

/-- The 45-entry catalog, in source order (indices 0..44).  Indices 4 and 5
are the meta-targets "All Known Models" and "Generic (Brute)". -/
def opensesame_targets : List OpenSesameTarget :=
  [ binTarget 310000000 10      -- 0  Stanley/Linear 310M
  , triTarget 318000000 8       -- 1  MegaCode 318M
  , binTarget 390000000 9       -- 2  Chamberlain 390M
  , binTarget 315000000 9       -- 3  Chamberlain 315M
  , binTarget 310000000 10      -- 4  All Known Models (meta)
  , binTarget 310000000 10      -- 5  Generic (Brute) (meta)
  , binTarget 300000000 10      -- 6
  , binTarget 315000000 8       -- 7
  , binTarget 390000000 8       -- 8
  , binTarget 390000000 10      -- 9
  , binTarget 315000000 10      -- 10
  , binTarget 310000000 8       -- 11
  , binTarget 300000000 8       -- 12
  , binTarget 315000000 12      -- 13
  , binTarget 390000000 12      -- 14
  , binTarget 310000000 12      -- 15
  , binTarget 300000000 12      -- 16
  , binTarget 318000000 8       -- 17
  , binTarget 318000000 10      -- 18
  , binTarget 318000000 12      -- 19
  , binTarget 303875000 8       -- 20
  , binTarget 303875000 10      -- 21
  , binTarget 433920000 8       -- 22
  , binTarget 433920000 10      -- 23
  , binTarget 303875000 12      -- 24
  , binTarget 433920000 12      -- 25
  , binTarget 310000000 9       -- 26
  , binTarget 300000000 9       -- 27
  , binTarget 318000000 9       -- 28
  , binTarget 303875000 9       -- 29
  , binTarget 433920000 9       -- 30
  , binTarget 310000000 11      -- 31
  , binTarget 315000000 11      -- 32
  , binTarget 390000000 11      -- 33
  , binTarget 300000000 11      -- 34
  , binTarget 318000000 11      -- 35
  , binTarget 433920000 11      -- 36
  , binTarget 310000000 14      -- 37
  , binTarget 315000000 14      -- 38
  , binTarget 390000000 14      -- 39
  , binTarget 300000000 14      -- 40
  , binTarget 318000000 14      -- 41
  , binTarget 433920000 14      -- 42
  , triTarget 315000000 9       -- 43
  , triTarget 390000000 9       -- 44
  ]

def opensesame_total_target_count : Nat := opensesame_targets.length

/-- Catalog lookup, `opensesame_targets[i]` in the C code. -/
def targetAt (i : Nat) : OpenSesameTarget := opensesame_targets.getD i (binTarget 0 0)

/-! ## Code ring buffer (`CodeBuffer`, `opensesame_push_code_to_buffer`,
opensesame_app.c lines 448-512) -/

def CODE_BUFFER_SIZE : Nat := 320

structure CodeBuffer where
  codes : List Nat
  head : Nat
  count : Nat
deriving DecidableEq, Repr

/-- The zero-initialized buffer (the app struct is `memset` to zero, and the
worker resets `head` and `count` to 0 at the start of each run). -/
def emptyBuffer : CodeBuffer :=
  { codes := List.replicate CODE_BUFFER_SIZE 0, head := 0, count := 0 }

/-- `opensesame_push_code_to_buffer` (lines 498-512): compute the write slot
from the old `head`/`count`, advance `head` when full (evicting the oldest
entry) or grow `count` otherwise, then store the code in the slot. -/
def opensesame_push_code_to_buffer (b : CodeBuffer) (code : Nat) : CodeBuffer :=
  let next_idx := (b.head + b.count) % CODE_BUFFER_SIZE
  if b.count = CODE_BUFFER_SIZE then
    { codes := b.codes.set next_idx code
      head := (b.head + 1) % CODE_BUFFER_SIZE
      count := b.count }
  else
    { codes := b.codes.set next_idx code
      head := b.head
      count := b.count + 1 }

/-- Push a whole list of codes, oldest first. -/
def pushList (b : CodeBuffer) (l : List Nat) : CodeBuffer :=
  l.foldl opensesame_push_code_to_buffer b

/-- The retained entries in push order: entry `i` counts `i` slots forward
from `head` (the oldest retained code), wrapping modulo the capacity. -/
def bufferContents (b : CodeBuffer) : List Nat :=
  (List.range b.count).map (fun i => b.codes.getD ((b.head + i) % CODE_BUFFER_SIZE) 0)

/-- Full invariant of the state reached by pushing `l` into the empty buffer. -/
def bufferInv (l : List Nat) (b : CodeBuffer) : Prop :=
  b.codes.length = CODE_BUFFER_SIZE ∧
  b.count = min l.length CODE_BUFFER_SIZE ∧
  b.head = (l.length - b.count) % CODE_BUFFER_SIZE ∧
  ∀ i, i < b.count →
    b.codes.getD ((b.head + i) % CODE_BUFFER_SIZE) 0 = l.getD (l.length - b.count + i) 0

/-! ## Payload encoder (`opensesame_generate_payload`, lines 578-625, and
`opensesame_append_digit_pattern`, lines 680-706)

The payload buffer is a list of bytes (`memset` to zero on entry).  Bits are
written MSB-first inside each byte: bit index `idx` lives in byte `idx / 8`
at in-byte position `7 - idx % 8`. -/

/-- `payload_buffer[byte_index] |= (1 << bit_in_byte_index)` for the byte and
in-byte position derived from the running bit index. -/
def setPayloadBit (buf : List Nat) (bitIndex : Nat) : List Nat :=
  buf.set (bitIndex / 8) ((buf.getD (bitIndex / 8) 0) ||| (1 <<< (7 - bitIndex % 8)))

/-- Read back one bit of the buffer the same way the transmit callback does
(`opensesame_tx_callback`, lines 634-651): byte `idx / 8`, position
`7 - idx % 8`. -/
def readPayloadBit (buf : List Nat) (bitIndex : Nat) : Nat :=
  ((buf.getD (bitIndex / 8) 0) >>> (7 - bitIndex % 8)) &&& 1

/-- The inner `for(j = 0; j < target->length; j++)` loop shared verbatim by
`opensesame_generate_payload` and `opensesame_append_digit_pattern`: emit the
low `length` bits of `bit_pattern`, MSB first, advancing the bit index.  The
recursion counts the remaining bits `r` down from `length`, so the shift
amount `r - 1` matches the source's `length - 1 - j`. -/
def patternBits (bit_pattern : Nat) : Nat → List Nat → Nat → List Nat × Nat
  | 0, buf, idx => (buf, idx)
  | r + 1, buf, idx =>
    let bit_is_set := (bit_pattern >>> r) &&& 1 = 1
    patternBits bit_pattern r (if bit_is_set then setPayloadBit buf idx else buf) (idx + 1)

/-- `opensesame_append_digit_pattern` (lines 680-706): select the digit's
pattern and append its `length` bits at `bit_offset`, returning the new
buffer and bit offset. -/
def opensesame_append_digit_pattern (digit : Nat) (t : OpenSesameTarget)
    (buf : List Nat) (bit_offset : Nat) : List Nat × Nat :=
  let bit_pattern := if digit = 0 then t.b0 else if digit = 1 then t.b1 else t.b2
  patternBits bit_pattern t.length buf bit_offset

/-- The digit loop of `opensesame_generate_payload` (lines 600-624), counting
the remaining digits `r` down from `bits`.  `digit` is a `uint8_t` in the
source, hence the `% 256`; when `divisor` is zero (the over-31-bit guard) the
raw `temp_code` is used as the digit and the divisor chain is frozen. -/
def payloadLoop (t : OpenSesameTarget) (base : Nat) :
    Nat → Nat → Nat → List Nat → Nat → List Nat
  | 0, _, _, buf, _ => buf
  | r + 1, temp_code, divisor, buf, bitIdx =>
    let digit := (if 0 < divisor then temp_code / divisor else temp_code) % 256
    let temp2 := if 0 < divisor then temp_code % divisor else temp_code
    let divisor2 := if 0 < divisor then divisor / base else divisor
    let st := opensesame_append_digit_pattern digit t buf bitIdx
    payloadLoop t base r temp2 divisor2 st.1 st.2

/-- `opensesame_generate_payload` (lines 578-625): zero the buffer, set up the
initial divisor (`pow(base, bits-1)`, or 0 when the keyspace exceeds 32 bits,
the source's locals `base` and `divisor` written inline), then emit each
digit's pattern MSB-first. -/
def opensesame_generate_payload (code : Nat) (t : OpenSesameTarget)
    (payload_buffer_size : Nat) : List Nat :=
  payloadLoop t (if t.trinary then 3 else 2) t.bits code
    (if 0 < t.bits then
      if (t.trinary = false ∧ 31 < t.bits) ∨ (t.trinary = true ∧ 19 < t.bits) then 0
      else if 1 < t.bits then (if t.trinary then 3 else 2) ^ (t.bits - 1) else 1
    else 1)
    (List.replicate payload_buffer_size 0) 0

/-! ### Spec-side re-parse of a payload

Modelled from the spec: the claim `encode(code, target)` followed by
re-parsing "with the target's own digit/bit-pattern mapping" names no source
function, so the decoder below follows the spec's words: cut the buffer into
`bits` groups of `bit_length_per_digit` bits (MSB first), map each group back
to the digit whose pattern's low bits equal it, and recompose base k. -/

def readGroupAt (buf : List Nat) (len off : Nat) : Nat :=
  (List.range len).foldl (fun acc j => acc * 2 + readPayloadBit buf (off + j)) 0

def digitOfGroup (t : OpenSesameTarget) (g : Nat) : Nat :=
  if g = t.b0 % 2 ^ t.length then 0
  else if g = t.b1 % 2 ^ t.length then 1
  else if g = t.b2 % 2 ^ t.length then 2
  else 0

def specParsePayload (t : OpenSesameTarget) (buf : List Nat) : Nat :=
  (List.range t.bits).foldl
    (fun acc i => acc * (if t.trinary then 3 else 2)
      + digitOfGroup t (readGroupAt buf t.length (i * t.length))) 0

/-! ### The spec-side parse, group by group -/

/-- Parse `r` groups starting at bit `off`, MSB-digit-first accumulator. -/
def parseGroupsFrom (t : OpenSesameTarget) (k : Nat) (buf : List Nat) :
    Nat → Nat → Nat → Nat
  | 0, _, acc => acc
  | r + 1, off, acc =>
    parseGroupsFrom t k buf r (off + t.length)
      (acc * k + digitOfGroup t (readGroupAt buf t.length off))

/-! ### Only the low `length` bits of a pattern reach the air (claim C10) -/

/-- The profile with each bit pattern reduced to its low `length` bits. -/
def maskPatterns (t : OpenSesameTarget) : OpenSesameTarget :=
  { t with b0 := t.b0 % 2 ^ t.length, b1 := t.b1 % 2 ^ t.length, b2 := t.b2 % 2 ^ t.length }

/-! ## De Bruijn sequence generation (`opensesame_worker_debruijn`,
lines 961-993: the `seen`/`sequence` construction)

The C `bool seen[num_codes]` array is embedded as a `Nat` bitmask
(`seen.testBit v` ↔ `seen[v]`), and `uint8_t sequence[num_codes]` as a
`List Nat` built in reverse. -/

/-- The inner `for(d = k - 1; d >= 0; d--)` candidate search: try digits
from `cnt - 1` down to 0 and return the first whose successor code is
unseen (`cnt` starts at `k`). -/
def tryDigits (cur seen : Nat) : Nat → Option Nat
  | 0 => none
  | cnt + 1 =>
    if seen.testBit (cur + cnt) then tryDigits cur seen cnt else some cnt

/-- One iteration of the generation loop (lines 968-993): shift the rolling
state, pick the largest unseen digit (marking it seen and appending it), or
fall back to appending digit 0 without marking when every successor has been
seen. -/
def debruijnGenLoop (k divisor : Nat) :
    Nat → Nat × Nat × List Nat → Nat × Nat × List Nat
  | 0, st => st
  | fuel + 1, st =>
    match tryDigits ((st.1 % divisor) * k) st.2.1 k with
    | some d =>
      debruijnGenLoop k divisor fuel
        ((st.1 % divisor) * k + d, st.2.1 ||| (1 <<< ((st.1 % divisor) * k + d)),
         d :: st.2.2)
    | none =>
      debruijnGenLoop k divisor fuel ((st.1 % divisor) * k, st.2.1, 0 :: st.2.2)

/-- The generated digit array: `n` leading zeros, `seen[0]` pre-marked,
then `k^n - n` greedy steps (loop `for(i = n; i < num_codes; i++)`). -/
def debruijn_sequence (k n : Nat) : List Nat :=
  (debruijnGenLoop k (k ^ (n - 1)) (k ^ n - n) (0, 1, List.replicate n 0)).2.2.reverse

/-- The consumption loop of lines 1014-1035 restricted to what it reports:
roll the code register over the digit stream (`r * k + d` while priming,
`(r % divisor) * k + d` afterwards) and record the register value from
position `n - 1` on.  Reported codes accumulate in reverse. -/
def debruijnConsume (k divisor n : Nat) : List Nat → Nat → Nat → List Nat → List Nat
  | [], _, _, acc => acc
  | d :: rest, i, r, acc =>
    let r2 := if i < n then r * k + d else (r % divisor) * k + d
    debruijnConsume k divisor n rest (i + 1) r2 (if n - 1 ≤ i then r2 :: acc else acc)

/-- The `k^n` codes reported by the de Bruijn transmission loop, in order:
the digit stream is the generated sequence read cyclically for
`num_codes + (n - 1)` digits (`sequence[i % num_codes]`), i.e. the sequence
followed by its first `n - 1` digits. -/
def debruijnCodes (k n : Nat) : List Nat :=
  (debruijnConsume k (k ^ (n - 1)) n
    (debruijn_sequence k n ++ (debruijn_sequence k n).take (n - 1)) 0 0 []).reverse

/-! ### Computational twin of the de Bruijn generator

The generator and the transmission register-roll are evaluated in checkpoint
chunks.  To keep every intermediate state a numeral, the digit list is packed
into a single natural number, two bits per digit (`digitAtP`), and the loops
are re-expressed with an eagerly forcing continuation (`forceNat`) so that a
chunk of steps normalizes with bounded recursion depth. -/

def forceNat {α : Sort u} (n : Nat) (kont : Nat → α) : α :=
  Nat.casesOn n (kont 0) fun m => kont (m + 1)

/-- Digit list packed two bits per digit, least-index digit lowest. -/
def encodePacked : List Nat → Nat
  | [] => 0
  | d :: rest => d + 4 * encodePacked rest

/-- Digit `i` of a packed digit list. -/
def digitAtP (P i : Nat) : Nat := (P >>> (2 * i)) &&& 3

/-- One generator step on the packed state `(cur, seen, acc, pos)`. -/
def genStepF (k divisor : Nat) (cur seen acc pos : Nat) : Nat × Nat × Nat × Nat :=
  match tryDigits ((cur % divisor) * k) seen k with
  | some d =>
    ((cur % divisor) * k + d, seen ||| (1 <<< ((cur % divisor) * k + d)),
     acc + (d <<< (2 * pos)), pos + 1)
  | none => ((cur % divisor) * k, seen, acc, pos + 1)

def genTwinStep {α : Sort u} (k divisor cur seen acc pos : Nat)
    (kont : Nat → Nat → Nat → Nat → α) : α :=
  forceNat ((cur % divisor) * k) fun cur2 =>
  match tryDigits cur2 seen k with
  | some d =>
    forceNat (cur2 + d) fun cur3 =>
    forceNat (seen ||| (1 <<< cur3)) fun seen2 =>
    forceNat (acc + (d <<< (2 * pos))) fun acc2 =>
    forceNat (pos + 1) fun pos2 =>
    kont cur3 seen2 acc2 pos2
  | none =>
    forceNat (pos + 1) fun pos2 =>
    kont cur2 seen acc pos2

def genTwin (k divisor : Nat) (fuel : Nat) :
    Nat → Nat → Nat → Nat → Nat × Nat × Nat × Nat :=
  Nat.rec (motive := fun _ => Nat → Nat → Nat → Nat → Nat × Nat × Nat × Nat)
    (fun cur seen acc pos => (cur, seen, acc, pos))
    (fun _ ih cur seen acc pos => genTwinStep k divisor cur seen acc pos ih)
    fuel

/-- One transmission step on the packed state `(i, r, mask, len)`. -/
def consStepF (k n numCodes divisor P : Nat) (i r mask len : Nat) :
    Nat × Nat × Nat × Nat :=
  (i + 1,
   if i < n then r * k + digitAtP P (i % numCodes)
   else (r % divisor) * k + digitAtP P (i % numCodes),
   if n - 1 ≤ i then
     mask ||| (1 <<< (if i < n then r * k + digitAtP P (i % numCodes)
       else (r % divisor) * k + digitAtP P (i % numCodes)))
   else mask,
   if n - 1 ≤ i then len + 1 else len)

def consTwinStep {α : Sort u} (k n numCodes divisor P i r mask len : Nat)
    (kont : Nat → Nat → Nat → Nat → α) : α :=
  forceNat (digitAtP P (i % numCodes)) fun d =>
  forceNat (if i < n then r * k + d else (r % divisor) * k + d) fun r2 =>
  forceNat (if n - 1 ≤ i then mask ||| (1 <<< r2) else mask) fun mask2 =>
  forceNat (if n - 1 ≤ i then len + 1 else len) fun len2 =>
  forceNat (i + 1) fun i2 =>
  kont i2 r2 mask2 len2

def consTwin (k n numCodes divisor P : Nat) (fuel : Nat) :
    Nat → Nat → Nat → Nat → Nat × Nat × Nat × Nat :=
  Nat.rec (motive := fun _ => Nat → Nat → Nat → Nat → Nat × Nat × Nat × Nat)
    (fun i r mask len => (i, r, mask, len))
    (fun _ ih i r mask len => consTwinStep k n numCodes divisor P i r mask len ih)
    fuel

/-! ## Attack engine workers (`opensesame_worker_*`, lines 708-1226)

The worker is a single thread; its interaction with the control context is
the `WORKER_EVENT_STOP` flag, polled via `furi_thread_flags_get()`.  The
embedding numbers the polls of a run and models the flag as raised from an
abstract poll index on (`stopAt = some c`: the flag reads set on every poll
whose index is ≥ c; `none`: the flag is never raised).  The flag is never
cleared by `furi_thread_flags_get`, so once raised it stays observed.
`transmitted` is a ghost log of the `(target index, code)` pairs handed to
`opensesame_transmit_raw`; radio timing, `furi_delay_ms` calls and the
chunk-buffer assembly (which touch no counters and no polls) are not
modelled. -/

inductive AttackMode where
  | Compatibility
  | Stream
  | DeBruijn
  | Replay
deriving DecidableEq, Repr

structure WorkerState where
  polls : Nat
  codes_transmitted : Nat
  current_code : Nat
  max_code : Nat
  buffer : CodeBuffer
  current_attack_target_idx : Nat
  transmitted : List (Nat × Nat)
deriving DecidableEq, Repr

/-- One `furi_thread_flags_get() & WORKER_EVENT_STOP` check. -/
def pollStop (stopAt : Option Nat) (s : WorkerState) : Bool × WorkerState :=
  (match stopAt with
   | none => false
   | some c => decide (c ≤ s.polls),
   { s with polls := s.polls + 1 })

/-- The flag is not raised before the `p`-th poll of the run. -/
def noStopBefore (stopAt : Option Nat) (p : Nat) : Prop :=
  ∀ c, stopAt = some c → p ≤ c

/-- The keyspace guard shared by the compatibility/stream workers and the
payload encoder: more than 31 binary digits (or 19 trinary digits) does not
fit the 32-bit code arithmetic. -/
def keyspaceOversize (t : OpenSesameTarget) : Prop :=
  (t.trinary = false ∧ 31 < t.bits) ∨ (t.trinary = true ∧ 19 < t.bits)

instance (t : OpenSesameTarget) : Decidable (keyspaceOversize t) := by
  unfold keyspaceOversize
  infer_instance

/-- The tighter de Bruijn bound (lines 929-936): more than 13 binary digits
or 8 trinary digits exceeds the generator's working-set budget. -/
def debruijnOversize (t : OpenSesameTarget) : Prop :=
  (t.trinary = false ∧ 13 < t.bits) ∨ (t.trinary = true ∧ 8 < t.bits)

instance (t : OpenSesameTarget) : Decidable (debruijnOversize t) := by
  unfold debruijnOversize
  infer_instance

/-- The per-code loop of `opensesame_worker_compatibility` (lines 764-777):
poll (break on stop), publish `current_code`, bump `codes_transmitted`,
encode and transmit the code, and push it into the ring buffer. -/
def compatCodeLoop (stopAt : Option Nat) (tidx : Nat) :
    Nat → Nat → WorkerState → WorkerState
  | 0, _, s => s
  | fuel + 1, code, s =>
    let p := pollStop stopAt s
    if p.1 then p.2
    else
      compatCodeLoop stopAt tidx fuel (code + 1)
        { p.2 with
          current_code := code
          codes_transmitted := p.2.codes_transmitted + 1
          transmitted := p.2.transmitted ++ [(tidx, code)]
          buffer := opensesame_push_code_to_buffer p.2.buffer code }

/-- The per-target body of `opensesame_worker_compatibility` (lines 737-778),
with the catalog entry `current_target` as a parameter: record the active
target, skip it when its keyspace exceeds the 32-bit bound (or its size is
zero), otherwise enumerate all `k^n` codes. -/
def compatTargetBody (stopAt : Option Nat) (tidx : Nat) (t : OpenSesameTarget)
    (s : WorkerState) : WorkerState :=
  let s1 := { s with current_attack_target_idx := tidx }
  if keyspaceOversize t then s1
  else
    let target_max_code := (if t.trinary then 3 else 2) ^ t.bits
    if target_max_code = 0 then s1
    else compatCodeLoop stopAt tidx target_max_code 0 s1

/-- The target loop of `opensesame_worker_compatibility` (lines 733-786):
skip meta indices 4 and 5 before anything else, then poll (break on stop),
then run the per-target body. -/
def compatSweep (stopAt : Option Nat) : List Nat → WorkerState → WorkerState
  | [], s => s
  | tidx :: rest, s =>
    if tidx = 4 ∨ tidx = 5 then compatSweep stopAt rest s
    else
      let p := pollStop stopAt s
      if p.1 then p.2
      else compatSweep stopAt rest (compatTargetBody stopAt tidx (targetAt tidx) p.2)

/-- The index range the meta-target expansion walks (lines 714-731): all 45
catalog entries for Generic (Brute), entries 0-3 for All Known Models, the
selection itself otherwise. -/
def sweepRange (sel : Nat) : List Nat :=
  if sel = 5 then List.range opensesame_total_target_count
  else if sel = 4 then [0, 1, 2, 3]
  else [sel]

def opensesame_worker_compatibility (sel : Nat) (stopAt : Option Nat)
    (s : WorkerState) : WorkerState :=
  compatSweep stopAt (sweepRange sel) s

/-- `opensesame_worker_stream` (lines 791-886) performs exactly the same
per-target bound checks, poll cadence (one poll per code), counter updates
and ring-buffer pushes as the compatibility worker; it differs only in
batching up to `PAYLOADS_PER_CHUNK` encoded payloads into one radio burst,
which this embedding does not distinguish from per-code bursts. -/
def opensesame_worker_stream (sel : Nat) (stopAt : Option Nat)
    (s : WorkerState) : WorkerState :=
  compatSweep stopAt (sweepRange sel) s

/-- The polls issued by the de Bruijn generation loop (lines 984-992): after
step `i` of the construction, when `i % 50 == 0`, delay and poll; observing
the flag frees the buffers and makes the whole worker return 0. -/
def debruijnGenPollLoop (stopAt : Option Nat) :
    Nat → Nat → WorkerState → WorkerState × Bool
  | 0, _, s => (s, false)
  | fuel + 1, i, s =>
    if i % 50 = 0 then
      let p := pollStop stopAt s
      if p.1 then (p.2, true)
      else debruijnGenPollLoop stopAt fuel (i + 1) p.2
    else debruijnGenPollLoop stopAt fuel (i + 1) s

/-- One digit of the de Bruijn transmission loop (lines 1023-1038): fetch
`sequence[i % num_codes]`, roll the register, and from position `n - 1` on
publish/count/push the register value. -/
def debruijnTxStep (tidx k n numCodes divisor : Nat) (seq : List Nat)
    (i reg : Nat) (s : WorkerState) : Nat × WorkerState :=
  let digit := seq.getD (i % numCodes) 0
  let reg2 := if i < n then reg * k + digit else (reg % divisor) * k + digit
  (reg2,
   if n - 1 ≤ i then
     { s with
       current_code := reg2
       codes_transmitted := s.codes_transmitted + 1
       transmitted := s.transmitted ++ [(tidx, reg2)]
       buffer := opensesame_push_code_to_buffer s.buffer reg2 }
   else s)

/-- The de Bruijn transmission loop (lines 1014-1046): every 10th digit a
poll is made first and observing the flag returns from the worker. -/
def debruijnTxLoop (stopAt : Option Nat) (tidx k n numCodes divisor : Nat)
    (seq : List Nat) : Nat → Nat → Nat → WorkerState → WorkerState × Bool
  | 0, _, _, s => (s, false)
  | fuel + 1, i, reg, s =>
    if i % 10 = 0 then
      let p := pollStop stopAt s
      if p.1 then (p.2, true)
      else
        let st := debruijnTxStep tidx k n numCodes divisor seq i reg p.2
        debruijnTxLoop stopAt tidx k n numCodes divisor seq fuel (i + 1) st.1 st.2
    else
      let st := debruijnTxStep tidx k n numCodes divisor seq i reg s
      debruijnTxLoop stopAt tidx k n numCodes divisor seq fuel (i + 1) st.1 st.2

/-- The per-target body of `opensesame_worker_debruijn` (lines 917-1056),
with the catalog entry as a parameter.  `single` is
`!is_all_known && !is_generic_brute`.  The result's second component is
`some r` when the worker returns immediately with result `r`, `none` when
the sweep proceeds to the next target.  `seen` and `sequence` are one byte
per code, so the 10000-byte allocation ceiling reads `10000 < k ^ n`. -/
def debruijnTargetBody (stopAt : Option Nat) (single : Bool) (tidx : Nat)
    (t : OpenSesameTarget) (s : WorkerState) : WorkerState × Option Int :=
  let s1 := { s with
    buffer := { codes := s.buffer.codes, head := 0, count := 0 }
    current_attack_target_idx := tidx }
  let n := t.bits
  let k := if t.trinary then 3 else 2
  if debruijnOversize t then
    if single then (s1, some (-1)) else (s1, none)
  else
    let num_codes := k ^ n
    if 10000 < num_codes then (s1, some (-1))
    else
      let g := debruijnGenPollLoop stopAt (num_codes - n) n s1
      if g.2 then (g.1, some 0)
      else
        let x := debruijnTxLoop stopAt tidx k n num_codes (k ^ (n - 1))
          (debruijn_sequence k n) (num_codes + (n - 1)) 0 0 g.1
        if x.2 then (x.1, some 0) else (x.1, none)

/-- The target loop of `opensesame_worker_debruijn` (lines 911-1069). -/
def debruijnSweep (stopAt : Option Nat) (single : Bool) :
    List Nat → WorkerState → WorkerState × Int
  | [], s => (s, 0)
  | tidx :: rest, s =>
    if tidx = 4 ∨ tidx = 5 then debruijnSweep stopAt single rest s
    else
      let p := pollStop stopAt s
      if p.1 then (p.2, 0)
      else
        let b := debruijnTargetBody stopAt single tidx (targetAt tidx) p.2
        match b.2 with
        | some r => (b.1, r)
        | none => debruijnSweep stopAt single rest b.1

def opensesame_worker_debruijn (sel : Nat) (stopAt : Option Nat)
    (s : WorkerState) : WorkerState × Int :=
  debruijnSweep stopAt (!(sel == 4 || sel == 5)) (sweepRange sel) s

/-- The retransmission loop of `opensesame_worker_replay` (lines 1100-1106):
five iterations, each polling first, then counting, pushing and
transmitting the saved code. -/
def replayLoop (stopAt : Option Nat) (tidx code : Nat) :
    Nat → WorkerState → WorkerState
  | 0, s => s
  | fuel + 1, s =>
    let p := pollStop stopAt s
    if p.1 then p.2
    else
      replayLoop stopAt tidx code fuel
        { p.2 with
          codes_transmitted := p.2.codes_transmitted + 1
          transmitted := p.2.transmitted ++ [(tidx, code)]
          buffer := opensesame_push_code_to_buffer p.2.buffer code }

/-- `opensesame_worker_replay` (lines 1071-1110): reject meta selections
(index ≥ 4), reject an empty saved slot, otherwise set the display counters
(`max_code = 5`) and retransmit the saved code five times. -/
def opensesame_worker_replay (sel : Nat) (stopAt : Option Nat)
    (saved_code : List Nat) (s : WorkerState) : WorkerState × Int :=
  if 4 ≤ sel then (s, -1)
  else if saved_code.getD sel 0 = 0 then (s, -1)
  else
    (replayLoop stopAt sel (saved_code.getD sel 0) 5
      { s with
        current_code := saved_code.getD sel 0
        max_code := 5
        codes_transmitted := 0 }, 0)

/-- A target's contribution to the aggregate `max_code` (lines 1126-1164):
skipped when too big for de Bruijn in de Bruijn mode, skipped when past the
32-bit `pow` bound, otherwise `k^n`. -/
def maxCodeContribution (mode : AttackMode) (t : OpenSesameTarget) : Nat :=
  if debruijnOversize t ∧ mode = AttackMode.DeBruijn then 0
  else if keyspaceOversize t then 0
  else (if t.trinary then 3 else 2) ^ t.bits

/-- The `max_code` computation of `opensesame_worker_thread`
(lines 1122-1179). -/
def opensesame_max_code (mode : AttackMode) (sel : Nat) : Nat :=
  if sel = 4 then
    ([0, 1, 2, 3].map (fun i => maxCodeContribution mode (targetAt i))).sum
  else if sel = 5 then
    ((List.range opensesame_total_target_count).map
      (fun i => if i = 4 ∨ i = 5 then 0 else maxCodeContribution mode (targetAt i))).sum
  else
    if keyspaceOversize (targetAt sel) then 0
    else (if (targetAt sel).trinary then 3 else 2) ^ (targetAt sel).bits

/-- `opensesame_worker_thread` (lines 1113-1226): record the selection as
the active target, reset the ring buffer, compute `max_code`, dispatch on
the attack mode, and finally run the save-on-stop block (lines 1202-1221):
when a save was requested, the active target index is a saveable one
(< 4) and the ring buffer is non-empty, persist the buffer's oldest code
(slot `head`) for the active target.  Returns the final state, the worker
result and the updated saved-code table. -/
def opensesame_worker_thread (mode : AttackMode) (sel : Nat) (stopAt : Option Nat)
    (saved_code : List Nat) (save_requested : Bool) (s0 : WorkerState) :
    WorkerState × Int × List Nat :=
  let s1 := { s0 with
    current_attack_target_idx := sel
    buffer := { codes := s0.buffer.codes, head := 0, count := 0 }
    max_code := opensesame_max_code mode sel }
  let res : WorkerState × Int :=
    match mode with
    | AttackMode.Compatibility => (opensesame_worker_compatibility sel stopAt s1, 0)
    | AttackMode.Stream => (opensesame_worker_stream sel stopAt s1, 0)
    | AttackMode.DeBruijn => opensesame_worker_debruijn sel stopAt s1
    | AttackMode.Replay => opensesame_worker_replay sel stopAt saved_code s1
  (res.1, res.2,
   if save_requested ∧ res.1.current_attack_target_idx < 4 ∧ 0 < res.1.buffer.count then
     saved_code.set res.1.current_attack_target_idx
       (res.1.buffer.codes.getD res.1.buffer.head 0)
   else saved_code)

/-- The state at `furi_thread_start`: the submenu callback zeroes
`current_code` and `codes_transmitted`; the app struct starts zeroed. -/
def initialWorkerState : WorkerState :=
  { polls := 0, codes_transmitted := 0, current_code := 0, max_code := 0,
    buffer := emptyBuffer, current_attack_target_idx := 0, transmitted := [] }

/-! ### Intermediate states of the C8 scenario (Generic Brute compatibility
run with the stop flag raised from poll 8614 on) -/

def c8_s1 : WorkerState :=
  { initialWorkerState with
    current_attack_target_idx := 5
    buffer := { codes := initialWorkerState.buffer.codes, head := 0, count := 0 }
    max_code := opensesame_max_code AttackMode.Compatibility 5 }

def c8_R0 : WorkerState :=
  compatTargetBody (some 8614) 0 (targetAt 0) { c8_s1 with polls := c8_s1.polls + 1 }

def c8_R1 : WorkerState :=
  compatTargetBody (some 8614) 1 (targetAt 1) { c8_R0 with polls := c8_R0.polls + 1 }

def c8_R2 : WorkerState :=
  compatTargetBody (some 8614) 2 (targetAt 2) { c8_R1 with polls := c8_R1.polls + 1 }

def c8_R3 : WorkerState :=
  compatTargetBody (some 8614) 3 (targetAt 3) { c8_R2 with polls := c8_R2.polls + 1 }

def c8_B6 : WorkerState :=
  compatTargetBody (some 8614) 6 (targetAt 6) { c8_R3 with polls := c8_R3.polls + 1 }

/-- A non-meta index's contribution to a sweep, 0 at the meta slots. -/
def sweepContribution (mode : AttackMode) (i : Nat) : Nat :=
  if i = 4 ∨ i = 5 then 0 else maxCodeContribution mode (targetAt i)

def sweepTotal (mode : AttackMode) (l : List Nat) : Nat :=
  (l.map (sweepContribution mode)).sum

def genPollCount : Nat → Nat → Nat
  | 0, _ => 0
  | fuel + 1, i => (if i % 50 = 0 then 1 else 0) + genPollCount fuel (i + 1)

theorem push_count_le (b : CodeBuffer) (x : Nat)
    (h : b.count ≤ CODE_BUFFER_SIZE) :
    (opensesame_push_code_to_buffer b x).count ≤ CODE_BUFFER_SIZE := by
  by_cases hfull : b.count = CODE_BUFFER_SIZE
  · simp [opensesame_push_code_to_buffer, hfull]
  · simp only [opensesame_push_code_to_buffer, if_neg hfull]
    omega

theorem getD_set_same (l : List Nat) (i x : Nat) (h : i < l.length) :
    (l.set i x).getD i 0 = x := by
  rw [List.getD_eq_getElem _ _ (by simpa using h)]
  exact List.getElem_set_self (by simpa using h)

theorem getD_set_other (l : List Nat) (i j x : Nat) (h : i ≠ j) :
    (l.set i x).getD j 0 = l.getD j 0 := by
  by_cases hj : j < l.length
  · rw [List.getD_eq_getElem _ _ (by simpa using hj), List.getD_eq_getElem _ _ hj]
    exact List.getElem_set_ne h _
  · rw [List.getD_eq_default _ _ (by simpa using Nat.le_of_not_lt hj),
      List.getD_eq_default _ _ (Nat.le_of_not_lt hj)]

theorem bufferInv_nil : bufferInv [] emptyBuffer := by
  refine ⟨by simp [emptyBuffer, CODE_BUFFER_SIZE], by simp [emptyBuffer], by simp [emptyBuffer], ?_⟩
  intro i hi
  simp [emptyBuffer] at hi

theorem bufferInv_push (l : List Nat) (b : CodeBuffer) (x : Nat)
    (h : bufferInv l b) :
    bufferInv (l ++ [x]) (opensesame_push_code_to_buffer b x) := by
  obtain ⟨hlen, hcount, hhead, hread⟩ := h
  have hcap : (0:Nat) < CODE_BUFFER_SIZE := by decide
  by_cases hfull : b.count = CODE_BUFFER_SIZE
  · -- buffer full: evict the oldest entry, overwrite slot `head`
    have hL : CODE_BUFFER_SIZE ≤ l.length := by omega
    have hheadlt : b.head < CODE_BUFFER_SIZE := by
      rw [hhead]; exact Nat.mod_lt _ hcap
    have hslot : (b.head + b.count) % CODE_BUFFER_SIZE = b.head := by
      rw [hfull, Nat.add_mod_right, Nat.mod_eq_of_lt hheadlt]
    unfold opensesame_push_code_to_buffer
    rw [if_pos hfull]
    simp only [hslot]
    refine ⟨by simpa using hlen, ?_, ?_, ?_⟩
    · simp only [List.length_append, List.length_singleton]
      omega
    · simp only [List.length_append, List.length_singleton]
      have h1 : l.length + 1 - b.count = (l.length - b.count) + 1 := by omega
      rw [h1, hhead, Nat.mod_add_mod]
    · intro i hi
      simp only [List.length_append, List.length_singleton] at *
      have hi320 : i < CODE_BUFFER_SIZE := by omega
      have hpos : ((b.head + 1) % CODE_BUFFER_SIZE + i) % CODE_BUFFER_SIZE
          = (b.head + (i + 1)) % CODE_BUFFER_SIZE := by
        rw [Nat.mod_add_mod]
        congr 1
        omega
      rw [hpos]
      by_cases hlast : i + 1 = CODE_BUFFER_SIZE
      · -- the newest entry lands on the evicted slot
        have hp : (b.head + (i + 1)) % CODE_BUFFER_SIZE = b.head := by
          rw [hlast, Nat.add_mod_right, Nat.mod_eq_of_lt hheadlt]
        rw [hp, getD_set_same _ _ _ (by omega)]
        have hidx : l.length + 1 - b.count + i = l.length := by omega
        rw [hidx, List.getD_append_right _ _ _ _ (Nat.le_refl _), Nat.sub_self]
        rfl
      · -- older entries are read through unchanged
        have hne : b.head ≠ (b.head + (i + 1)) % CODE_BUFFER_SIZE := by
          intro hcontra
          rcases Nat.lt_or_ge (b.head + (i + 1)) CODE_BUFFER_SIZE with hlt | hge
          · rw [Nat.mod_eq_of_lt hlt] at hcontra; omega
          · have h2 : b.head + (i + 1) - CODE_BUFFER_SIZE < CODE_BUFFER_SIZE := by omega
            rw [Nat.mod_eq_sub_mod hge, Nat.mod_eq_of_lt h2] at hcontra
            omega
        rw [getD_set_other _ _ _ _ hne]
        have hold := hread (i + 1) (by omega)
        rw [hfull] at hold
        rw [hold]
        have hidx : l.length + 1 - b.count + i = l.length - CODE_BUFFER_SIZE + (i + 1) := by omega
        rw [hidx, List.getD_append _ _ _ _ (by omega)]
  · -- buffer not yet full: append at the first free slot
    have hcnt : b.count < CODE_BUFFER_SIZE := by omega
    have hLlen : l.length = b.count := by omega
    have hhead0 : b.head = 0 := by
      rw [hhead, hLlen, Nat.sub_self, Nat.zero_mod]
    unfold opensesame_push_code_to_buffer
    rw [if_neg hfull]
    simp only [hhead0, Nat.zero_add]
    have hslot : b.count % CODE_BUFFER_SIZE = b.count := Nat.mod_eq_of_lt hcnt
    rw [hslot]
    refine ⟨by simpa using hlen, ?_, ?_, ?_⟩
    · simp only [List.length_append, List.length_singleton]
      omega
    · simp only [List.length_append, List.length_singleton]
      have h1 : l.length + 1 - (b.count + 1) = 0 := by omega
      rw [h1, Nat.zero_mod]
    · intro i hi
      simp only [List.length_append, List.length_singleton] at *
      have hi320 : i < CODE_BUFFER_SIZE := by omega
      have hpos : (0 + i) % CODE_BUFFER_SIZE = i := by
        rw [Nat.zero_add]; exact Nat.mod_eq_of_lt hi320
      rw [hpos]
      have hidx : l.length + 1 - (b.count + 1) + i = i := by omega
      rw [hidx]
      by_cases hlast : i = b.count
      · rw [hlast, getD_set_same _ _ _ (by omega)]
        rw [List.getD_append_right _ _ _ _ (by omega), hLlen, Nat.sub_self]
        rfl
      · rw [getD_set_other _ _ _ _ (fun hcontra => hlast hcontra.symm)]
        have hold := hread i (by omega)
        rw [hhead0] at hold
        rw [hpos] at hold
        rw [hold]
        have hidx2 : l.length - b.count + i = i := by omega
        rw [hidx2, List.getD_append _ _ _ _ (by omega)]

theorem bufferInv_pushList (l : List Nat) : bufferInv l (pushList emptyBuffer l) := by
  induction l using List.reverseRecOn with
  | nil => exact bufferInv_nil
  | append_singleton l x ih =>
    have hfold : pushList emptyBuffer (l ++ [x])
        = opensesame_push_code_to_buffer (pushList emptyBuffer l) x := by
      unfold pushList
      rw [List.foldl_append]
      rfl
    rw [hfold]
    exact bufferInv_push l _ x ih

theorem bufferContents_of_inv (l : List Nat) (b : CodeBuffer) (h : bufferInv l b) :
    bufferContents b = l.drop (l.length - b.count) := by
  obtain ⟨hlen, hcount, hhead, hread⟩ := h
  have hc : b.count ≤ l.length := by omega
  apply List.ext_getElem
  · simp [bufferContents]
    omega
  · intro i h1 h2
    have hi : i < b.count := by simpa [bufferContents] using h1
    have hidx : l.length - b.count + i < l.length := by omega
    have e1 : (bufferContents b)[i] = b.codes.getD ((b.head + i) % CODE_BUFFER_SIZE) 0 := by
      simp [bufferContents]
    have e2 : (l.drop (l.length - b.count))[i] = l.getD (l.length - b.count + i) 0 := by
      rw [List.getElem_drop, List.getD_eq_getElem _ _ hidx]
    rw [e1, e2, hread i hi]

/-! ### Bit-level lemmas about the payload buffer -/

theorem readPayloadBit_eq_testBit (buf : List Nat) (q : Nat) :
    readPayloadBit buf q = if (buf.getD (q / 8) 0).testBit (7 - q % 8) then 1 else 0 := by
  unfold readPayloadBit
  rw [Nat.and_one_is_mod, Nat.shiftRight_eq_div_pow, Nat.testBit_to_div_mod]
  rcases Nat.mod_two_eq_zero_or_one (buf.getD (q / 8) 0 / 2 ^ (7 - q % 8)) with h | h <;>
    rw [h] <;> simp

theorem readPayloadBit_le_one (buf : List Nat) (q : Nat) : readPayloadBit buf q ≤ 1 := by
  rw [readPayloadBit_eq_testBit]
  split <;> omega

theorem readPayloadBit_set_self (buf : List Nat) (p : Nat) (h : p / 8 < buf.length) :
    readPayloadBit (setPayloadBit buf p) p = 1 := by
  rw [readPayloadBit_eq_testBit]
  unfold setPayloadBit
  rw [getD_set_same _ _ _ h, Nat.one_shiftLeft, Nat.testBit_lor, Nat.testBit_two_pow_self]
  simp

theorem readPayloadBit_set_other (buf : List Nat) (p q : Nat) (hne : p ≠ q) :
    readPayloadBit (setPayloadBit buf p) q = readPayloadBit buf q := by
  by_cases hb : q / 8 = p / 8
  · have hbit : q % 8 ≠ p % 8 := by
      intro hcontra
      have hpq : p = q := by omega
      exact hne hpq
    by_cases hlen : p / 8 < buf.length
    · rw [readPayloadBit_eq_testBit, readPayloadBit_eq_testBit]
      unfold setPayloadBit
      rw [hb, getD_set_same _ _ _ hlen, Nat.one_shiftLeft, Nat.testBit_lor,
        Nat.testBit_two_pow_of_ne (by omega : 7 - p % 8 ≠ 7 - q % 8)]
      simp
    · unfold setPayloadBit
      rw [List.set_eq_of_length_le (Nat.le_of_not_lt hlen)]
  · unfold setPayloadBit readPayloadBit
    rw [getD_set_other _ _ _ _ (fun hcontra => hb hcontra.symm)]

theorem setPayloadBit_length (buf : List Nat) (p : Nat) :
    (setPayloadBit buf p).length = buf.length := by
  unfold setPayloadBit
  exact List.length_set ..

theorem readPayloadBit_replicate_zero (s q : Nat) :
    readPayloadBit (List.replicate s 0) q = 0 := by
  rw [readPayloadBit_eq_testBit]
  have h : (List.replicate s 0).getD (q / 8) 0 = 0 := by
    by_cases hq : q / 8 < s
    · rw [List.getD_eq_getElem _ _ (by simpa using hq)]
      simp
    · exact List.getD_eq_default _ _ (by simpa using Nat.le_of_not_lt hq)
  rw [h]
  simp

/-! ### Properties of the shared digit-pattern loop -/

theorem patternBits_snd (p : Nat) (r : Nat) (buf : List Nat) (idx : Nat) :
    (patternBits p r buf idx).2 = idx + r := by
  induction r generalizing buf idx with
  | zero => rfl
  | succ r ih =>
    unfold patternBits
    rw [ih]
    omega

theorem patternBits_length (p : Nat) (r : Nat) (buf : List Nat) (idx : Nat) :
    (patternBits p r buf idx).1.length = buf.length := by
  induction r generalizing buf idx with
  | zero => rfl
  | succ r ih =>
    unfold patternBits
    rw [ih]
    split
    · exact setPayloadBit_length ..
    · rfl

/-- Bits outside the window `[idx, idx + r)` are untouched by the pattern loop. -/
theorem patternBits_read_outside (p : Nat) (r : Nat) (buf : List Nat) (idx q : Nat)
    (hq : q < idx ∨ idx + r ≤ q) :
    readPayloadBit (patternBits p r buf idx).1 q = readPayloadBit buf q := by
  induction r generalizing buf idx with
  | zero => rfl
  | succ r ih =>
    unfold patternBits
    have hqne : idx ≠ q := by omega
    rw [ih _ _ (by omega)]
    split
    · exact readPayloadBit_set_other _ _ _ hqne
    · rfl

/-- Inside the window, the loop deposits the low `r` bits of the pattern, MSB
first, provided the window started out all zero and fits in the buffer. -/
theorem patternBits_read_inside (p : Nat) (r : Nat) (buf : List Nat) (idx q : Nat)
    (h1 : idx ≤ q) (h2 : q < idx + r)
    (hz : ∀ q2, idx ≤ q2 → readPayloadBit buf q2 = 0)
    (hcap : idx + r ≤ 8 * buf.length) :
    readPayloadBit (patternBits p r buf idx).1 q = (p >>> (idx + r - 1 - q)) &&& 1 := by
  induction r generalizing buf idx with
  | zero => omega
  | succ r ih =>
    unfold patternBits
    have hidxlen : idx / 8 < buf.length := by
      have hx : idx < 8 * buf.length := by omega
      omega
    have hbitle : (p >>> r) &&& 1 ≤ 1 := by
      rw [Nat.and_one_is_mod]
      omega
    have hread2 : ∀ q2, readPayloadBit
        (if (p >>> r) &&& 1 = 1 then setPayloadBit buf idx else buf) q2
        = if q2 = idx then (p >>> r) &&& 1 else readPayloadBit buf q2 := by
      intro q2
      by_cases hq2 : q2 = idx
      · subst hq2
        rw [if_pos rfl]
        split
        · rename_i hbit
          rw [readPayloadBit_set_self _ _ hidxlen, hbit]
        · rename_i hbit
          rw [hz q2 (Nat.le_refl _)]
          omega
      · rw [if_neg hq2]
        split
        · exact readPayloadBit_set_other _ _ _ (fun hc => hq2 hc.symm)
        · rfl
    by_cases hq : q = idx
    · subst hq
      rw [patternBits_read_outside _ _ _ _ _ (Or.inl (Nat.lt_succ_self q))]
      rw [hread2 q, if_pos rfl, show q + (r + 1) - 1 - q = r from by omega]
    · have hrw :
          readPayloadBit (patternBits p r
            (if (p >>> r) &&& 1 = 1 then setPayloadBit buf idx else buf) (idx + 1)).1 q
          = (p >>> (idx + 1 + r - 1 - q)) &&& 1 := by
        apply ih
        · omega
        · omega
        · intro q2 hq2
          rw [hread2 q2, if_neg (by omega)]
          exact hz q2 (by omega)
        · have hlen2 : (if (p >>> r) &&& 1 = 1 then setPayloadBit buf idx else buf).length
              = buf.length := by
            split
            · exact setPayloadBit_length ..
            · rfl
          rw [hlen2]
          omega
      rw [hrw, show idx + 1 + r - 1 - q = idx + (r + 1) - 1 - q from by omega]

theorem payloadLoop_length (t : OpenSesameTarget) (base : Nat) (r : Nat) :
    ∀ temp d buf idx, (payloadLoop t base r temp d buf idx).length = buf.length := by
  induction r with
  | zero => intro temp d buf idx; rfl
  | succ r ih =>
    intro temp d buf idx
    unfold payloadLoop
    rw [ih]
    unfold opensesame_append_digit_pattern
    exact patternBits_length ..

/-- The digit loop never touches bits below its starting offset. -/
theorem payloadLoop_read_below (t : OpenSesameTarget) (base : Nat) (r : Nat) :
    ∀ temp d buf idx q, q < idx →
      readPayloadBit (payloadLoop t base r temp d buf idx) q = readPayloadBit buf q := by
  induction r with
  | zero => intro temp d buf idx q _; rfl
  | succ r ih =>
    intro temp d buf idx q hq
    unfold payloadLoop
    rw [ih _ _ _ _ _ (by
      rw [show (opensesame_append_digit_pattern _ t buf idx).2 = idx + t.length from
        patternBits_snd ..]
      omega)]
    exact patternBits_read_outside _ _ _ _ _ (Or.inl hq)

theorem readGroupAt_congr (buf1 buf2 : List Nat) (len off : Nat)
    (h : ∀ j, j < len → readPayloadBit buf1 (off + j) = readPayloadBit buf2 (off + j)) :
    readGroupAt buf1 len off = readGroupAt buf2 len off := by
  unfold readGroupAt
  have haux : ∀ m, m ≤ len → ∀ acc,
      (List.range m).foldl (fun acc j => acc * 2 + readPayloadBit buf1 (off + j)) acc
      = (List.range m).foldl (fun acc j => acc * 2 + readPayloadBit buf2 (off + j)) acc := by
    intro m
    induction m with
    | zero => intro _ _; rfl
    | succ m ihm =>
      intro hm acc
      rw [List.range_succ, List.foldl_append, List.foldl_append,
        ihm (by omega) acc]
      simp only [List.foldl_cons, List.foldl_nil]
      rw [h m (by omega)]
  exact haux len (Nat.le_refl _) 0

/-- Reading back a group whose bits hold the low `len` bits of `p`, MSB first,
recovers `p % 2 ^ len`. -/
theorem readGroupAt_of_bits (buf : List Nat) (len off : Nat) (p : Nat)
    (h : ∀ j, j < len → readPayloadBit buf (off + j) = (p >>> (len - 1 - j)) &&& 1) :
    readGroupAt buf len off = p % 2 ^ len := by
  have haux : ∀ m, m ≤ len →
      (List.range m).foldl (fun acc j => acc * 2 + readPayloadBit buf (off + j)) 0
      = (p >>> (len - m)) % 2 ^ m := by
    intro m
    induction m with
    | zero => intro _; simp [Nat.mod_one]
    | succ m ihm =>
      intro hm
      rw [List.range_succ, List.foldl_append, ihm (by omega)]
      simp only [List.foldl_cons, List.foldl_nil]
      rw [h m (by omega)]
      rw [show len - m = (len - 1 - m) + 1 from by omega,
        show len - (m + 1) = len - 1 - m from by omega,
        Nat.shiftRight_succ, Nat.and_one_is_mod]
      generalize p >>> (len - 1 - m) = v
      have hlt : 2 * (v / 2 % 2 ^ m) + v % 2 < 2 ^ (m + 1) := by
        have hm2 : v / 2 % 2 ^ m < 2 ^ m := Nat.mod_lt _ (Nat.pos_pow_of_pos m (by omega))
        have hv2 : v % 2 < 2 := Nat.mod_lt _ (by omega)
        have hp2 : 2 ^ (m + 1) = 2 * 2 ^ m := by ring
        omega
      have hkey : v % 2 ^ (m + 1) = 2 * (v / 2 % 2 ^ m) + v % 2 := by
        have hv : v = 2 ^ (m + 1) * (v / 2 / 2 ^ m) + (2 * (v / 2 % 2 ^ m) + v % 2) := by
          have e1 : 2 * (v / 2) + v % 2 = v := Nat.div_add_mod v 2
          have e2 : 2 ^ m * (v / 2 / 2 ^ m) + v / 2 % 2 ^ m = v / 2 := Nat.div_add_mod _ _
          calc v = 2 * (v / 2) + v % 2 := e1.symm
          _ = 2 * (2 ^ m * (v / 2 / 2 ^ m) + v / 2 % 2 ^ m) + v % 2 := by rw [e2]
          _ = 2 ^ (m + 1) * (v / 2 / 2 ^ m) + (2 * (v / 2 % 2 ^ m) + v % 2) := by ring
        conv_lhs => rw [hv]
        rw [Nat.mul_add_mod, Nat.mod_eq_of_lt hlt]
      rw [hkey]
      ring
  have hfin := haux len (Nat.le_refl _)
  rw [Nat.sub_self] at hfin
  unfold readGroupAt
  rw [hfin]
  rfl

theorem parseGroupsFrom_eq_range' (t : OpenSesameTarget) (k : Nat) (buf : List Nat) :
    ∀ r j acc, parseGroupsFrom t k buf r (j * t.length) acc
      = (List.range' j r).foldl
          (fun a i => a * k + digitOfGroup t (readGroupAt buf t.length (i * t.length))) acc := by
  intro r
  induction r with
  | zero => intro j acc; rfl
  | succ r ih =>
    intro j acc
    show parseGroupsFrom t k buf r (j * t.length + t.length) _ = _
    rw [show j * t.length + t.length = (j + 1) * t.length from by ring]
    rw [ih (j + 1)]
    rfl

theorem specParsePayload_eq_parseGroups (t : OpenSesameTarget) (buf : List Nat) :
    specParsePayload t buf
      = parseGroupsFrom t (if t.trinary then 3 else 2) buf t.bits 0 0 := by
  unfold specParsePayload
  rw [List.range_eq_range']
  have h := parseGroupsFrom_eq_range' t (if t.trinary then 3 else 2) buf t.bits 0 0
  rw [Nat.zero_mul] at h
  rw [h]

/-- Round trip of the digit loop for a binary profile: emitting `r` digits of
`temp < 2^r` and re-parsing them recovers `temp` under the accumulator. -/
theorem payloadLoop_parse (t : OpenSesameTarget)
    (hb0 : digitOfGroup t (t.b0 % 2 ^ t.length) = 0)
    (hb1 : digitOfGroup t (t.b1 % 2 ^ t.length) = 1) :
    ∀ r temp buf idx acc,
      temp < 2 ^ r →
      (∀ q, idx ≤ q → readPayloadBit buf q = 0) →
      idx + r * t.length ≤ 8 * buf.length →
      parseGroupsFrom t 2 (payloadLoop t 2 r temp (2 ^ (r - 1)) buf idx) r idx acc
        = acc * 2 ^ r + temp := by
  intro r
  induction r with
  | zero =>
    intro temp buf idx acc htemp _ _
    have h0 : temp = 0 := by omega
    simp [parseGroupsFrom, payloadLoop, h0]
  | succ r ih =>
    intro temp buf idx acc htemp hz hcap
    have hpow : (0:Nat) < 2 ^ r := Nat.pos_pow_of_pos r (by omega)
    have hdiglt : temp / 2 ^ r < 2 := by
      rw [Nat.div_lt_iff_lt_mul hpow, ← pow_succ']
      exact htemp
    have hstep : payloadLoop t 2 (r + 1) temp (2 ^ (r + 1 - 1)) buf idx
        = payloadLoop t 2 r (temp % 2 ^ r) (2 ^ (r - 1))
            (opensesame_append_digit_pattern (temp / 2 ^ r) t buf idx).1 (idx + t.length) := by
      show payloadLoop t 2 r _ _ _ _ = _
      have hd256 : (if 0 < 2 ^ (r + 1 - 1) then temp / 2 ^ (r + 1 - 1) else temp) % 256
          = temp / 2 ^ r := by
        rw [if_pos (by simp), Nat.succ_sub_one]
        exact Nat.mod_eq_of_lt (by omega)
      rw [hd256, if_pos (by simp), if_pos (by simp), Nat.succ_sub_one]
      rw [show (opensesame_append_digit_pattern (temp / 2 ^ r) t buf idx).2
          = idx + t.length from patternBits_snd ..]
      cases r with
      | zero => rfl
      | succ r2 =>
        rw [show 2 ^ (r2 + 1) / 2 = 2 ^ (r2 + 1 - 1) from by
          rw [Nat.succ_sub_one, pow_succ]
          simp]
    rw [hstep]
    set digit := temp / 2 ^ r with hdigit
    set pat := if digit = 0 then t.b0 else if digit = 1 then t.b1 else t.b2 with hpat
    have happend : (opensesame_append_digit_pattern digit t buf idx).1
        = (patternBits pat t.length buf idx).1 := rfl
    have hlen1 : (patternBits pat t.length buf idx).1.length = buf.length :=
      patternBits_length ..
    have hmul0 : (r + 1) * t.length = r * t.length + t.length := by ring
    -- the group just written reads back as the selected pattern's low bits
    have hgroup : readGroupAt (patternBits pat t.length buf idx).1 t.length idx
        = pat % 2 ^ t.length := by
      apply readGroupAt_of_bits
      intro j hj
      rw [patternBits_read_inside pat t.length buf idx (idx + j) (by omega) (by omega) hz
        (by omega)]
      rw [show idx + t.length - 1 - (idx + j) = t.length - 1 - j from by omega]
    have hdog : digitOfGroup t (pat % 2 ^ t.length) = digit := by
      have h01 : digit = 0 ∨ digit = 1 := by
        clear_value pat digit
        omega
      rcases h01 with h0 | h1
      · rw [h0] at hpat ⊢
        rw [if_pos rfl] at hpat
        rw [hpat, hb0]
      · rw [h1] at hpat ⊢
        rw [if_neg Nat.one_ne_zero, if_pos rfl] at hpat
        rw [hpat, hb1]
    -- push the parse one group forward
    show parseGroupsFrom t 2 _ r (idx + t.length)
        (acc * 2 + digitOfGroup t (readGroupAt _ t.length idx)) = _
    have hpreserve : readGroupAt
        (payloadLoop t 2 r (temp % 2 ^ r) (2 ^ (r - 1))
          (patternBits pat t.length buf idx).1 (idx + t.length)) t.length idx
        = readGroupAt (patternBits pat t.length buf idx).1 t.length idx := by
      apply readGroupAt_congr
      intro j hj
      exact payloadLoop_read_below t 2 r _ _ _ _ _ (by omega)
    rw [happend, hpreserve, hgroup, hdog]
    have hzrec : ∀ q, idx + t.length ≤ q →
        readPayloadBit (patternBits pat t.length buf idx).1 q = 0 := by
      intro q hq
      rw [patternBits_read_outside _ _ _ _ _ (Or.inr hq)]
      exact hz q (by omega)
    have hcaprec : idx + t.length + r * t.length ≤ 8 * (patternBits pat t.length buf idx).1.length := by
      rw [hlen1]
      have hmul : (r + 1) * t.length = r * t.length + t.length := by ring
      omega
    rw [ih (temp % 2 ^ r) _ (idx + t.length) (acc * 2 + digit)
      (Nat.mod_lt _ hpow) hzrec hcaprec]
    -- accumulator arithmetic
    have hdm : 2 ^ r * digit + temp % 2 ^ r = temp := by
      rw [hdigit]
      exact Nat.div_add_mod temp (2 ^ r)
    calc (acc * 2 + digit) * 2 ^ r + temp % 2 ^ r
        = acc * (2 ^ r * 2) + (2 ^ r * digit + temp % 2 ^ r) := by ring
    _ = acc * 2 ^ (r + 1) + temp := by rw [hdm, pow_succ]

/-- The divisor chain starts at `base ^ (bits - 1)` for every in-range binary
profile (including the degenerate `bits = 0` and `bits = 1` cases). -/
theorem generate_divisor_binary (t : OpenSesameTarget)
    (htri : t.trinary = false) (hbits : t.bits ≤ 31) :
    (if 0 < t.bits then
      if (t.trinary = false ∧ 31 < t.bits) ∨ (t.trinary = true ∧ 19 < t.bits) then 0
      else if 1 < t.bits then (if t.trinary then 3 else 2) ^ (t.bits - 1) else 1
    else 1) = 2 ^ (t.bits - 1) := by
  rw [htri]
  rcases Nat.eq_zero_or_pos t.bits with h0 | hpos
  · rw [h0]
    norm_num
  · rw [if_pos hpos]
    rw [if_neg (by simp [htri]; omega)]
    rcases Nat.lt_or_ge 1 t.bits with h1 | h1
    · rw [if_pos h1]
      norm_num
    · rw [if_neg (by omega)]
      have hb1 : t.bits = 1 := by omega
      rw [hb1]
      norm_num

/-- Binary round trip: re-parsing the generated payload with the profile's
own digit/bit-pattern mapping recovers the code. -/
theorem generate_payload_roundtrip (t : OpenSesameTarget)
    (htri : t.trinary = false) (hbits : t.bits ≤ 31)
    (hb0 : digitOfGroup t (t.b0 % 2 ^ t.length) = 0)
    (hb1 : digitOfGroup t (t.b1 % 2 ^ t.length) = 1)
    (code : Nat) (hcode : code < 2 ^ t.bits) :
    specParsePayload t
      (opensesame_generate_payload code t ((t.bits * t.length + 7) / 8)) = code := by
  have hbase : (if t.trinary then 3 else 2 : Nat) = 2 := by
    rw [htri]
    rfl
  rw [specParsePayload_eq_parseGroups]
  unfold opensesame_generate_payload
  rw [generate_divisor_binary t htri hbits, hbase]
  have hmain := payloadLoop_parse t hb0 hb1 t.bits code
    (List.replicate ((t.bits * t.length + 7) / 8) 0) 0 0 hcode
    (fun q _ => readPayloadBit_replicate_zero _ q)
    (by
      rw [List.length_replicate]
      omega)
  rw [Nat.zero_mul, Nat.zero_add] at hmain
  exact hmain

/-- Every binary profile of the catalog is in range and has recoverable
digit patterns (`b0 = 0x8`, `b1 = 0xe` in the low 4 bits). -/
theorem catalog_binary_facts :
    ∀ i, i < opensesame_total_target_count → (targetAt i).trinary = false →
      ((targetAt i).bits ≤ 31 ∧
       digitOfGroup (targetAt i) ((targetAt i).b0 % 2 ^ (targetAt i).length) = 0 ∧
       digitOfGroup (targetAt i) ((targetAt i).b1 % 2 ^ (targetAt i).length) = 1) := by
  decide

/-- C2 (amended): for every non-meta *binary* target of the catalog and
every code in `[0, 2^n)`, re-parsing the generated payload with the target's
own digit-to-bit-pattern mapping recovers the code exactly.  (The trinary
profiles are excluded: their `length = 4` truncation collapses the patterns
of digits 0 and 1, see the counterexample.) -/
theorem claim_C2 : ∀ i, i < opensesame_total_target_count → i ≠ 4 → i ≠ 5 →
    (targetAt i).trinary = false →
    ∀ code, code < 2 ^ (targetAt i).bits →
    specParsePayload (targetAt i)
      (opensesame_generate_payload code (targetAt i)
        (((targetAt i).bits * (targetAt i).length + 7) / 8)) = code := by
  intro i hi _ _ htri code hcode
  obtain ⟨hb, h0, h1⟩ := catalog_binary_facts i hi htri
  exact generate_payload_roundtrip _ htri hb h0 h1 code hcode

/-- C2 witness: target 0 (Stanley/Linear, binary 10-bit) round-trips
code 523. -/
theorem claim_C2_witness :
    0 < opensesame_total_target_count ∧ (0:Nat) ≠ 4 ∧ (0:Nat) ≠ 5 ∧
    (targetAt 0).trinary = false ∧ 523 < 2 ^ (targetAt 0).bits ∧
    specParsePayload (targetAt 0)
      (opensesame_generate_payload 523 (targetAt 0)
        (((targetAt 0).bits * (targetAt 0).length + 7) / 8)) = 523 :=
  ⟨by decide, by decide, by decide, by decide, by decide,
    claim_C2 0 (by decide) (by decide) (by decide) (by decide) 523 (by decide)⟩

/-- C2 counterexample: on the trinary MegaCode profile (catalog index 1,
`k = 3`, `n = 8`) the payloads of codes 2187 (= 3^7, digit string 10000000)
and 0 (digit string 00000000) coincide, because digits 0 and 1 contribute
identical all-zero 4-bit groups; hence no re-parse of the emitted buffer can
recover the code, and the spec-worded parse returns 0 ≠ 2187. -/
theorem claim_C2_counterexample :
    (targetAt 1).trinary = true ∧
    2187 < 3 ^ (targetAt 1).bits ∧
    opensesame_generate_payload 2187 (targetAt 1)
        (((targetAt 1).bits * (targetAt 1).length + 7) / 8)
      = opensesame_generate_payload 0 (targetAt 1)
        (((targetAt 1).bits * (targetAt 1).length + 7) / 8) ∧
    specParsePayload (targetAt 1)
      (opensesame_generate_payload 2187 (targetAt 1)
        (((targetAt 1).bits * (targetAt 1).length + 7) / 8)) = 0 := by
  decide

theorem patternBits_mod (p R : Nat) :
    ∀ r, r ≤ R → ∀ buf idx, patternBits (p % 2 ^ R) r buf idx = patternBits p r buf idx := by
  intro r
  induction r with
  | zero => intro _ buf idx; rfl
  | succ r ih =>
    intro hr buf idx
    unfold patternBits
    have hbit : ((p % 2 ^ R) >>> r) &&& 1 = (p >>> r) &&& 1 := by
      rw [Nat.shiftRight_eq_div_pow, Nat.shiftRight_eq_div_pow, Nat.and_one_is_mod,
        Nat.and_one_is_mod]
      rw [show 2 ^ R = 2 ^ r * 2 ^ (R - r) from by
        rw [← pow_add]
        congr 1
        omega]
      rw [Nat.mod_mul_right_div_self]
      exact Nat.mod_mod_of_dvd _ (dvd_pow_self 2 (by omega : R - r ≠ 0))
    rw [hbit, ih (by omega)]

theorem append_digit_pattern_maskPatterns (digit : Nat) (t : OpenSesameTarget)
    (buf : List Nat) (off : Nat) :
    opensesame_append_digit_pattern digit (maskPatterns t) buf off
      = opensesame_append_digit_pattern digit t buf off := by
  unfold opensesame_append_digit_pattern maskPatterns
  by_cases h0 : digit = 0
  · rw [if_pos h0, if_pos h0]
    exact patternBits_mod t.b0 t.length t.length (Nat.le_refl _) buf off
  · rw [if_neg h0, if_neg h0]
    by_cases h1 : digit = 1
    · rw [if_pos h1, if_pos h1]
      exact patternBits_mod t.b1 t.length t.length (Nat.le_refl _) buf off
    · rw [if_neg h1, if_neg h1]
      exact patternBits_mod t.b2 t.length t.length (Nat.le_refl _) buf off

theorem payloadLoop_maskPatterns (t : OpenSesameTarget) (base : Nat) :
    ∀ r temp d buf idx,
      payloadLoop (maskPatterns t) base r temp d buf idx
        = payloadLoop t base r temp d buf idx := by
  intro r
  induction r with
  | zero => intro temp d buf idx; rfl
  | succ r ih =>
    intro temp d buf idx
    unfold payloadLoop
    simp only [append_digit_pattern_maskPatterns, ih]

/-- C10: the payload encoder and the de Bruijn digit appender use only the
low `length` bits of each digit pattern — replacing every pattern by its
value modulo `2^length` leaves both outputs unchanged — and on the trinary
profiles (`length = 4`, `b0 = 0x020100`, `b1 = 0x03fd00`) digits 0 and 1
therefore emit identical all-zero 4-bit groups. -/
theorem claim_C10 :
    (∀ code t size, opensesame_generate_payload code (maskPatterns t) size
        = opensesame_generate_payload code t size) ∧
    (∀ digit t buf off, opensesame_append_digit_pattern digit (maskPatterns t) buf off
        = opensesame_append_digit_pattern digit t buf off) ∧
    (∀ freq bits buf off,
        opensesame_append_digit_pattern 0 (triTarget freq bits) buf off
          = opensesame_append_digit_pattern 1 (triTarget freq bits) buf off) := by
  refine ⟨?_, ?_, ?_⟩
  · intro code t size
    unfold opensesame_generate_payload
    exact payloadLoop_maskPatterns t _ t.bits code _ _ 0
  · intro digit t buf off
    exact append_digit_pattern_maskPatterns digit t buf off
  · intro freq bits buf off
    show patternBits 0x020100 4 buf off = patternBits 0x03fd00 4 buf off
    calc patternBits 0x020100 4 buf off
        = patternBits (0x020100 % 2 ^ 4) 4 buf off :=
          (patternBits_mod 0x020100 4 4 (Nat.le_refl _) buf off).symm
    _ = patternBits (0x03fd00 % 2 ^ 4) 4 buf off := by norm_num
    _ = patternBits 0x03fd00 4 buf off :=
          patternBits_mod 0x03fd00 4 4 (Nat.le_refl _) buf off

/-- C7 counterexample: the payload encoder has no failure channel.  On a
profile whose keyspace exceeds 32 bits (binary, 32 digits) it silently emits
payloads, and the distinct codes 2 and 3 produce the *same* buffer (the
frozen `divisor = 0` makes every digit equal the raw code, mapping both to
the `b2` pattern), i.e. a silently incorrect payload rather than a
`KeyspaceTooLarge` failure. -/
theorem claim_C7_counterexample :
    ((binTarget 310000000 32).trinary = false ∧ 31 < (binTarget 310000000 32).bits) ∧
    (2 : Nat) ≠ 3 ∧
    opensesame_generate_payload 2 (binTarget 310000000 32) 16
      = opensesame_generate_payload 3 (binTarget 310000000 32) 16 := by
  decide

/-- C4: pushing `capacity + m` codes (m > 0) into the empty ring buffer
leaves exactly `capacity` entries, equal to the last `capacity` pushed values
in push order (pure FIFO eviction advancing `head`), and every push preserves
`count ≤ capacity`. -/
theorem claim_C4 (L : List Nat) (m : Nat) (hm : 0 < m)
    (hL : L.length = CODE_BUFFER_SIZE + m) :
    (pushList emptyBuffer L).count = CODE_BUFFER_SIZE ∧
    bufferContents (pushList emptyBuffer L) = L.drop m ∧
    (∀ (b : CodeBuffer) (x : Nat), b.count ≤ CODE_BUFFER_SIZE →
      (opensesame_push_code_to_buffer b x).count ≤ CODE_BUFFER_SIZE) := by
  have hinv := bufferInv_pushList L
  have hcount : (pushList emptyBuffer L).count = CODE_BUFFER_SIZE := by
    obtain ⟨-, hc, -, -⟩ := hinv
    rw [hc, hL]
    omega
  refine ⟨hcount, ?_, fun b x h => push_count_le b x h⟩
  have hdrop := bufferContents_of_inv L _ hinv
  rw [hcount] at hdrop
  rw [hdrop]
  congr 1
  omega

/-- C4 witness: 321 pushes into the 320-slot buffer retain the last 320. -/
theorem claim_C4_witness :
    0 < 1 ∧ (List.range 321).length = CODE_BUFFER_SIZE + 1 ∧
    ((pushList emptyBuffer (List.range 321)).count = CODE_BUFFER_SIZE ∧
     bufferContents (pushList emptyBuffer (List.range 321)) = (List.range 321).drop 1 ∧
     (∀ (b : CodeBuffer) (x : Nat), b.count ≤ CODE_BUFFER_SIZE →
       (opensesame_push_code_to_buffer b x).count ≤ CODE_BUFFER_SIZE)) :=
  ⟨Nat.one_pos, by simp [CODE_BUFFER_SIZE],
    claim_C4 (List.range 321) 1 Nat.one_pos (by simp [CODE_BUFFER_SIZE])⟩

/-! ### Closed forms of the compatibility worker -/

theorem pollStop_eq_false (stopAt : Option Nat) (s : WorkerState)
    (h : noStopBefore stopAt (s.polls + 1)) :
    pollStop stopAt s = (false, { s with polls := s.polls + 1 }) := by
  cases stopAt with
  | none => rfl
  | some c =>
    have hc := h c rfl
    show (decide (c ≤ s.polls), _) = _
    have hd : decide (c ≤ s.polls) = false := decide_eq_false (by omega)
    rw [hd]

theorem pollStop_eq_true (c : Nat) (s : WorkerState) (h : c ≤ s.polls) :
    pollStop (some c) s = (true, { s with polls := s.polls + 1 }) := by
  show (decide (c ≤ s.polls), _) = _
  rw [decide_eq_true h]

/-- Unfolding equation for one non-stopped iteration of the per-code loop. -/
theorem compatCodeLoop_step (stopAt : Option Nat) (tidx fuel code : Nat) (s : WorkerState)
    (h : noStopBefore stopAt (s.polls + 1)) :
    compatCodeLoop stopAt tidx (fuel + 1) code s
      = compatCodeLoop stopAt tidx fuel (code + 1)
          { s with
            polls := s.polls + 1
            current_code := code
            codes_transmitted := s.codes_transmitted + 1
            transmitted := s.transmitted ++ [(tidx, code)]
            buffer := opensesame_push_code_to_buffer s.buffer code } := by
  conv_lhs => unfold compatCodeLoop
  rw [pollStop_eq_false stopAt s h]
  rfl

/-- Unfolding equation for the loop iteration that observes the flag. -/
theorem compatCodeLoop_stopped (c : Nat) (tidx fuel code : Nat) (s : WorkerState)
    (h : c ≤ s.polls) :
    compatCodeLoop (some c) tidx (fuel + 1) code s = { s with polls := s.polls + 1 } := by
  conv_lhs => unfold compatCodeLoop
  rw [pollStop_eq_true c s h]
  rfl

/-- Closed form of the per-code loop when the flag stays down for its whole
window: one poll per code, all codes transmitted in increasing order and
pushed into the ring buffer. -/
theorem compatCodeLoop_run (stopAt : Option Nat) (tidx : Nat) :
    ∀ fuel code s, noStopBefore stopAt (s.polls + fuel) →
      compatCodeLoop stopAt tidx fuel code s =
        { polls := s.polls + fuel
          codes_transmitted := s.codes_transmitted + fuel
          current_code := if fuel = 0 then s.current_code else code + (fuel - 1)
          max_code := s.max_code
          buffer := pushList s.buffer (List.range' code fuel)
          current_attack_target_idx := s.current_attack_target_idx
          transmitted := s.transmitted ++ (List.range' code fuel).map (fun c => (tidx, c)) } := by
  intro fuel
  induction fuel with
  | zero =>
    intro code s _
    show s = _
    cases s
    simp [pushList]
  | succ fuel ih =>
    intro code s h
    rw [compatCodeLoop_step stopAt tidx fuel code s (fun c hc => by have := h c hc; omega)]
    rw [ih (code + 1) _ (fun c hc => by have := h c hc; simp only []; omega)]
    simp only []
    have hbuf : pushList (opensesame_push_code_to_buffer s.buffer code)
        (List.range' (code + 1) fuel) = pushList s.buffer (List.range' code (fuel + 1)) := by
      rw [List.range'_succ]
      rfl
    have htx : (s.transmitted ++ [(tidx, code)])
          ++ (List.range' (code + 1) fuel).map (fun c => (tidx, c))
        = s.transmitted ++ (List.range' code (fuel + 1)).map (fun c => (tidx, c)) := by
      rw [List.range'_succ, List.map_cons, List.append_assoc]
      rfl
    rw [hbuf, htx]
    rw [show s.polls + 1 + fuel = s.polls + (fuel + 1) from by omega]
    rw [show s.codes_transmitted + 1 + fuel = s.codes_transmitted + (fuel + 1) from by omega]
    rw [if_neg (Nat.succ_ne_zero fuel)]
    rw [show (if fuel = 0 then code else code + 1 + (fuel - 1)) = code + (fuel + 1 - 1) from by
      cases fuel with
      | zero => simp
      | succ f =>
        rw [if_neg (Nat.succ_ne_zero f)]
        omega]

/-- The per-target body under a quiet flag: an in-bounds target transmits
exactly its whole keyspace in increasing order. -/
theorem compatTargetBody_run (stopAt : Option Nat) (tidx : Nat) (t : OpenSesameTarget)
    (s : WorkerState) (hok : ¬ keyspaceOversize t)
    (h : noStopBefore stopAt (s.polls + (if t.trinary then 3 else 2) ^ t.bits)) :
    compatTargetBody stopAt tidx t s =
      { polls := s.polls + (if t.trinary then 3 else 2) ^ t.bits
        codes_transmitted := s.codes_transmitted + (if t.trinary then 3 else 2) ^ t.bits
        current_code := 0 + ((if t.trinary then 3 else 2) ^ t.bits - 1)
        max_code := s.max_code
        buffer := pushList s.buffer (List.range' 0 ((if t.trinary then 3 else 2) ^ t.bits))
        current_attack_target_idx := tidx
        transmitted := s.transmitted
          ++ (List.range' 0 ((if t.trinary then 3 else 2) ^ t.bits)).map
              (fun c => (tidx, c)) } := by
  have hpos : 0 < (if t.trinary then 3 else 2) ^ t.bits :=
    Nat.pos_pow_of_pos _ (by split <;> omega)
  unfold compatTargetBody
  rw [if_neg hok, if_neg (by omega)]
  rw [compatCodeLoop_run stopAt tidx _ 0 _ (by simpa using h)]
  simp only []
  rw [if_neg (by omega : ¬ (if t.trinary then 3 else 2) ^ t.bits = 0)]

theorem compatTargetBody_oversize (stopAt : Option Nat) (tidx : Nat) (t : OpenSesameTarget)
    (s : WorkerState) (hov : keyspaceOversize t) :
    compatTargetBody stopAt tidx t s = { s with current_attack_target_idx := tidx } := by
  unfold compatTargetBody
  rw [if_pos hov]

theorem maxCodeContribution_of_ne_debruijn (mode : AttackMode) (t : OpenSesameTarget)
    (h : mode ≠ AttackMode.DeBruijn) :
    maxCodeContribution mode t
      = if keyspaceOversize t then 0 else (if t.trinary then 3 else 2) ^ t.bits := by
  unfold maxCodeContribution
  rw [if_neg (fun hc => h hc.2)]

theorem maxCodeContribution_debruijn (t : OpenSesameTarget) :
    maxCodeContribution AttackMode.DeBruijn t
      = if debruijnOversize t then 0
        else (if t.trinary then 3 else 2) ^ t.bits := by
  unfold maxCodeContribution
  by_cases hdb : debruijnOversize t
  · rw [if_pos ⟨hdb, rfl⟩, if_pos hdb]
  · rw [if_neg (fun hc => hdb hc.1), if_neg hdb]
    rw [if_neg ?hks]
    case hks =>
      intro hks
      apply hdb
      unfold keyspaceOversize at hks
      unfold debruijnOversize
      rcases hks with ⟨h1, h2⟩ | ⟨h1, h2⟩
      · exact Or.inl ⟨h1, by omega⟩
      · exact Or.inr ⟨h1, by omega⟩

theorem compatSweep_meta (stopAt : Option Nat) (tidx : Nat) (rest : List Nat)
    (s : WorkerState) (hmeta : tidx = 4 ∨ tidx = 5) :
    compatSweep stopAt (tidx :: rest) s = compatSweep stopAt rest s := by
  conv_lhs => unfold compatSweep
  rw [if_pos hmeta]

theorem compatSweep_cons (stopAt : Option Nat) (tidx : Nat) (rest : List Nat)
    (s : WorkerState) (hmeta : ¬ (tidx = 4 ∨ tidx = 5))
    (h : noStopBefore stopAt (s.polls + 1)) :
    compatSweep stopAt (tidx :: rest) s
      = compatSweep stopAt rest
          (compatTargetBody stopAt tidx (targetAt tidx) { s with polls := s.polls + 1 }) := by
  conv_lhs => unfold compatSweep
  rw [if_neg hmeta, pollStop_eq_false stopAt s h]
  rfl

theorem compatSweep_stopped (c : Nat) (tidx : Nat) (rest : List Nat)
    (s : WorkerState) (hmeta : ¬ (tidx = 4 ∨ tidx = 5)) (h : c ≤ s.polls) :
    compatSweep (some c) (tidx :: rest) s = { s with polls := s.polls + 1 } := by
  conv_lhs => unfold compatSweep
  rw [if_neg hmeta, pollStop_eq_true c s h]
  rfl

/-- With the flag never raised, the compatibility sweep transmits exactly the
keyspace of every in-bounds non-meta target it visits, and does not touch
`max_code` or the pre-existing transmission count semantics. -/
theorem compatSweep_none_counts :
    ∀ (l : List Nat) (s : WorkerState),
      (compatSweep none l s).codes_transmitted
          = s.codes_transmitted + sweepTotal AttackMode.Compatibility l ∧
      (compatSweep none l s).max_code = s.max_code := by
  intro l
  induction l with
  | nil =>
    intro s
    unfold compatSweep
    exact ⟨by simp [sweepTotal], rfl⟩
  | cons tidx rest ih =>
    intro s
    have hnostop : ∀ (s2 : WorkerState) (p : Nat), noStopBefore none p := by
      intro s2 p c hc
      cases hc
    by_cases hmeta : tidx = 4 ∨ tidx = 5
    · rw [compatSweep_meta none tidx rest s hmeta]
      obtain ⟨h1, h2⟩ := ih s
      refine ⟨?_, h2⟩
      rw [h1]
      simp [sweepTotal, sweepContribution, if_pos hmeta]
    · rw [compatSweep_cons none tidx rest s hmeta (hnostop s _)]
      have hcontrib : sweepTotal AttackMode.Compatibility (tidx :: rest)
          = (if keyspaceOversize (targetAt tidx) then 0
              else (if (targetAt tidx).trinary then 3 else 2) ^ (targetAt tidx).bits)
            + sweepTotal AttackMode.Compatibility rest := by
        simp only [sweepTotal, List.map_cons, List.sum_cons, sweepContribution,
          if_neg hmeta]
        rw [maxCodeContribution_of_ne_debruijn _ _ (by intro h; cases h)]
      by_cases hov : keyspaceOversize (targetAt tidx)
      · rw [compatTargetBody_oversize none tidx _ _ hov]
        obtain ⟨h1, h2⟩ := ih _
        refine ⟨?_, h2⟩
        rw [h1]
        show s.codes_transmitted + _ = _
        rw [hcontrib, if_pos hov]
        omega
      · rw [compatTargetBody_run none tidx _ _ hov (hnostop s _)]
        obtain ⟨h1, h2⟩ := ih _
        refine ⟨?_, h2⟩
        rw [h1]
        show s.codes_transmitted + _ + _ = _
        rw [hcontrib, if_neg hov]
        omega

/-- Whatever the stop schedule, the per-code loop transmits at most `fuel`
codes and leaves `max_code` and the flag-independent fields intact. -/
theorem compatCodeLoop_le (stopAt : Option Nat) (tidx : Nat) :
    ∀ fuel code s,
      (compatCodeLoop stopAt tidx fuel code s).codes_transmitted
          ≤ s.codes_transmitted + fuel ∧
      (compatCodeLoop stopAt tidx fuel code s).max_code = s.max_code ∧
      (compatCodeLoop stopAt tidx fuel code s).current_attack_target_idx
          = s.current_attack_target_idx := by
  intro fuel
  induction fuel with
  | zero =>
    intro code s
    unfold compatCodeLoop
    exact ⟨by omega, rfl, rfl⟩
  | succ fuel ih =>
    intro code s
    by_cases hobs : ∃ c, stopAt = some c ∧ c ≤ s.polls
    · obtain ⟨c, rfl, hc⟩ := hobs
      rw [compatCodeLoop_stopped c tidx fuel code s hc]
      refine ⟨?_, rfl, rfl⟩
      show s.codes_transmitted ≤ s.codes_transmitted + (fuel + 1)
      omega
    · have hq : noStopBefore stopAt (s.polls + 1) := by
        intro c hc
        by_contra hlt
        exact hobs ⟨c, hc, by omega⟩
      rw [compatCodeLoop_step stopAt tidx fuel code s hq]
      obtain ⟨h1, h2, h3⟩ := ih (code + 1)
        { s with
          polls := s.polls + 1
          current_code := code
          codes_transmitted := s.codes_transmitted + 1
          transmitted := s.transmitted ++ [(tidx, code)]
          buffer := opensesame_push_code_to_buffer s.buffer code }
      refine ⟨Nat.le_trans h1 ?_, h2, h3⟩
      show s.codes_transmitted + 1 + fuel ≤ s.codes_transmitted + (fuel + 1)
      omega

theorem compatTargetBody_le (stopAt : Option Nat) (tidx : Nat) (t : OpenSesameTarget)
    (s : WorkerState) :
    (compatTargetBody stopAt tidx t s).codes_transmitted
        ≤ s.codes_transmitted
          + (if keyspaceOversize t then 0 else (if t.trinary then 3 else 2) ^ t.bits) ∧
    (compatTargetBody stopAt tidx t s).max_code = s.max_code := by
  by_cases hov : keyspaceOversize t
  · rw [compatTargetBody_oversize stopAt tidx t s hov, if_pos hov]
    refine ⟨?_, rfl⟩
    show s.codes_transmitted ≤ s.codes_transmitted + 0
    omega
  · unfold compatTargetBody
    rw [if_neg hov, if_neg (by
      have : 0 < (if t.trinary then 3 else 2) ^ t.bits :=
        Nat.pos_pow_of_pos _ (by split <;> omega)
      omega)]
    obtain ⟨h1, h2, -⟩ := compatCodeLoop_le stopAt tidx ((if t.trinary then 3 else 2) ^ t.bits)
      0 { s with current_attack_target_idx := tidx }
    rw [if_neg hov]
    exact ⟨h1, h2⟩

theorem compatSweep_le (stopAt : Option Nat) :
    ∀ (l : List Nat) (s : WorkerState),
      (compatSweep stopAt l s).codes_transmitted
          ≤ s.codes_transmitted + sweepTotal AttackMode.Compatibility l ∧
      (compatSweep stopAt l s).max_code = s.max_code := by
  intro l
  induction l with
  | nil =>
    intro s
    unfold compatSweep
    exact ⟨by omega, rfl⟩
  | cons tidx rest ih =>
    intro s
    by_cases hmeta : tidx = 4 ∨ tidx = 5
    · rw [compatSweep_meta stopAt tidx rest s hmeta]
      obtain ⟨h1, h2⟩ := ih s
      refine ⟨Nat.le_trans h1 ?_, h2⟩
      simp [sweepTotal, sweepContribution, if_pos hmeta]
    · have hcontrib : sweepTotal AttackMode.Compatibility (tidx :: rest)
          = (if keyspaceOversize (targetAt tidx) then 0
              else (if (targetAt tidx).trinary then 3 else 2) ^ (targetAt tidx).bits)
            + sweepTotal AttackMode.Compatibility rest := by
        simp only [sweepTotal, List.map_cons, List.sum_cons, sweepContribution,
          if_neg hmeta]
        rw [maxCodeContribution_of_ne_debruijn _ _ (by intro h; cases h)]
      by_cases hobs : ∃ c, stopAt = some c ∧ c ≤ s.polls
      · obtain ⟨c, rfl, hc⟩ := hobs
        rw [compatSweep_stopped c tidx rest s hmeta hc]
        refine ⟨?_, rfl⟩
        show s.codes_transmitted ≤ _
        omega
      · have hq : noStopBefore stopAt (s.polls + 1) := by
          intro c hc
          by_contra hlt
          exact hobs ⟨c, hc, by omega⟩
        rw [compatSweep_cons stopAt tidx rest s hmeta hq]
        obtain ⟨hb1, hb2⟩ := compatTargetBody_le stopAt tidx (targetAt tidx)
          { s with polls := s.polls + 1 }
        obtain ⟨h1, h2⟩ := ih (compatTargetBody stopAt tidx (targetAt tidx)
          { s with polls := s.polls + 1 })
        refine ⟨Nat.le_trans h1 ?_, h2.trans hb2⟩
        rw [hcontrib]
        have hb1t : (compatTargetBody stopAt tidx (targetAt tidx)
            { s with polls := s.polls + 1 }).codes_transmitted
            ≤ s.codes_transmitted
              + (if keyspaceOversize (targetAt tidx) then 0
                  else (if (targetAt tidx).trinary then 3 else 2) ^ (targetAt tidx).bits) :=
          hb1
        omega

/-- If the flag is already up, the compatibility sweep transmits nothing and
returns at its first poll. -/
theorem compatSweep_flag_up (c : Nat) :
    ∀ (l : List Nat) (s : WorkerState), c ≤ s.polls →
      (compatSweep (some c) l s).transmitted = s.transmitted ∧
      (compatSweep (some c) l s).codes_transmitted = s.codes_transmitted := by
  intro l
  induction l with
  | nil =>
    intro s _
    unfold compatSweep
    exact ⟨rfl, rfl⟩
  | cons tidx rest ih =>
    intro s hc
    by_cases hmeta : tidx = 4 ∨ tidx = 5
    · rw [compatSweep_meta (some c) tidx rest s hmeta]
      exact ih s hc
    · rw [compatSweep_stopped c tidx rest s hmeta hc]
      exact ⟨rfl, rfl⟩

/-- C5: in Compatibility mode, a single non-meta in-bounds binary target is
swept by transmitting every code `0, 1, ..., 2^n - 1` exactly once in
strictly increasing numeric order, with `codes_transmitted = max_code = 2^n`
at completion. -/
theorem claim_C5 (sel : Nat) (saved_code : List Nat)
    (hsel : sel < opensesame_total_target_count) (h4 : sel ≠ 4) (h5 : sel ≠ 5)
    (htri : (targetAt sel).trinary = false)
    (hok : ¬ keyspaceOversize (targetAt sel)) :
    ((opensesame_worker_thread AttackMode.Compatibility sel none saved_code false
        initialWorkerState).1.transmitted
      = (List.range' 0 (2 ^ (targetAt sel).bits)).map (fun c => (sel, c))) ∧
    (opensesame_worker_thread AttackMode.Compatibility sel none saved_code false
        initialWorkerState).1.codes_transmitted = 2 ^ (targetAt sel).bits ∧
    (opensesame_worker_thread AttackMode.Compatibility sel none saved_code false
        initialWorkerState).1.max_code = 2 ^ (targetAt sel).bits := by
  have hrange : sweepRange sel = [sel] := by
    unfold sweepRange
    rw [if_neg h5, if_neg h4]
  have hpow : (if (targetAt sel).trinary then 3 else 2) ^ (targetAt sel).bits
      = 2 ^ (targetAt sel).bits := by
    rw [htri]
    rfl
  have hmax : opensesame_max_code AttackMode.Compatibility sel = 2 ^ (targetAt sel).bits := by
    unfold opensesame_max_code
    rw [if_neg h4, if_neg h5, if_neg hok, hpow]
  have hthread : (opensesame_worker_thread AttackMode.Compatibility sel none saved_code false
      initialWorkerState).1
      = compatSweep none [sel]
          { initialWorkerState with
            current_attack_target_idx := sel
            buffer := { codes := initialWorkerState.buffer.codes, head := 0, count := 0 }
            max_code := opensesame_max_code AttackMode.Compatibility sel } := by
    show (compatSweep none (sweepRange sel) _, (0:Int), _).1 = _
    rw [hrange]
  rw [hthread]
  rw [compatSweep_cons none sel [] _ (by omega) (fun c hc => by cases hc)]
  rw [compatTargetBody_run none sel (targetAt sel) _ hok (fun c hc => by cases hc)]
  show ((compatSweep none [] _).transmitted = _) ∧ _
  unfold compatSweep
  rw [hpow]
  refine ⟨by simp [initialWorkerState], by show 0 + 2 ^ (targetAt sel).bits = _; omega, ?_⟩
  show opensesame_max_code AttackMode.Compatibility sel = _
  exact hmax

/-- C5 witness: catalog target 0 (binary, 10 bits). -/
theorem claim_C5_witness :
    0 < opensesame_total_target_count ∧ (0:Nat) ≠ 4 ∧ (0:Nat) ≠ 5 ∧
    (targetAt 0).trinary = false ∧ ¬ keyspaceOversize (targetAt 0) ∧
    (((opensesame_worker_thread AttackMode.Compatibility 0 none [] false
        initialWorkerState).1.transmitted
      = (List.range' 0 (2 ^ (targetAt 0).bits)).map (fun c => (0, c))) ∧
    (opensesame_worker_thread AttackMode.Compatibility 0 none [] false
        initialWorkerState).1.codes_transmitted = 2 ^ (targetAt 0).bits ∧
    (opensesame_worker_thread AttackMode.Compatibility 0 none [] false
        initialWorkerState).1.max_code = 2 ^ (targetAt 0).bits) :=
  ⟨by decide, by decide, by decide, by decide, by decide,
    claim_C5 0 [] (by decide) (by decide) (by decide) (by decide) (by decide)⟩

/-! ### Counting lemmas for the de Bruijn worker -/

theorem pollStop_snd (stopAt : Option Nat) (s : WorkerState) :
    (pollStop stopAt s).2 = { s with polls := s.polls + 1 } := by
  cases stopAt <;> rfl

theorem debruijnGenPollLoop_none :
    ∀ (fuel i : Nat) (s : WorkerState),
      debruijnGenPollLoop none fuel i s
        = ({ s with polls := s.polls + genPollCount fuel i }, false) := by
  intro fuel
  induction fuel with
  | zero =>
    intro i s
    show (s, false) = _
    cases s
    rfl
  | succ fuel ih =>
    intro i s
    unfold debruijnGenPollLoop genPollCount
    by_cases h50 : i % 50 = 0
    · rw [if_pos h50, if_pos h50, pollStop_eq_false none s (fun c hc => by cases hc)]
      show debruijnGenPollLoop none fuel (i + 1) _ = _
      rw [ih (i + 1)]
      show (_, false) = (_, false)
      rw [show s.polls + 1 + genPollCount fuel (i + 1)
        = s.polls + (1 + genPollCount fuel (i + 1)) from by omega]
    · rw [if_neg h50, if_neg h50, ih (i + 1)]
      rw [show s.polls + genPollCount fuel (i + 1)
        = s.polls + (0 + genPollCount fuel (i + 1)) from by omega]

/-- The generation loop only polls: it moves no counters, no buffer, no log. -/
theorem debruijnGenPollLoop_fields (stopAt : Option Nat) :
    ∀ (fuel i : Nat) (s : WorkerState),
      ((debruijnGenPollLoop stopAt fuel i s).1.codes_transmitted = s.codes_transmitted) ∧
      ((debruijnGenPollLoop stopAt fuel i s).1.max_code = s.max_code) ∧
      ((debruijnGenPollLoop stopAt fuel i s).1.transmitted = s.transmitted) ∧
      ((debruijnGenPollLoop stopAt fuel i s).1.buffer = s.buffer) ∧
      ((debruijnGenPollLoop stopAt fuel i s).1.current_attack_target_idx
        = s.current_attack_target_idx) ∧
      s.polls ≤ (debruijnGenPollLoop stopAt fuel i s).1.polls := by
  intro fuel
  induction fuel with
  | zero =>
    intro i s
    unfold debruijnGenPollLoop
    exact ⟨rfl, rfl, rfl, rfl, rfl, Nat.le_refl _⟩
  | succ fuel ih =>
    intro i s
    unfold debruijnGenPollLoop
    by_cases h50 : i % 50 = 0
    · rw [if_pos h50]
      have hsnd := pollStop_snd stopAt s
      cases hb : (pollStop stopAt s).1 with
      | true =>
        rw [show pollStop stopAt s = (true, { s with polls := s.polls + 1 }) from by
          rw [← hb, ← hsnd]]
        exact ⟨rfl, rfl, rfl, rfl, rfl, by show s.polls ≤ s.polls + 1; omega⟩
      | false =>
        rw [show pollStop stopAt s = (false, { s with polls := s.polls + 1 }) from by
          rw [← hb, ← hsnd]]
        show ((debruijnGenPollLoop stopAt fuel (i + 1) _).1.codes_transmitted = _) ∧ _
        obtain ⟨h1, h2, h3, h4, h5, h6⟩ := ih (i + 1) { s with polls := s.polls + 1 }
        exact ⟨h1, h2, h3, h4, h5, by
          refine Nat.le_trans ?_ h6
          show s.polls ≤ s.polls + 1
          omega⟩
    · rw [if_neg h50]
      exact ih (i + 1) s

theorem debruijnTxStep_fields (tidx k n numCodes divisor : Nat) (seq : List Nat)
    (i reg : Nat) (s : WorkerState) :
    ((debruijnTxStep tidx k n numCodes divisor seq i reg s).2.codes_transmitted
      = s.codes_transmitted + (if n - 1 ≤ i then 1 else 0)) ∧
    ((debruijnTxStep tidx k n numCodes divisor seq i reg s).2.max_code = s.max_code) ∧
    ((debruijnTxStep tidx k n numCodes divisor seq i reg s).2.current_attack_target_idx
      = s.current_attack_target_idx) ∧
    ((debruijnTxStep tidx k n numCodes divisor seq i reg s).2.polls = s.polls) := by
  unfold debruijnTxStep
  by_cases hni : n - 1 ≤ i
  · simp only [if_pos hni]
    exact ⟨trivial, trivial, trivial, trivial⟩
  · simp only [if_neg hni]
    exact ⟨rfl, trivial, trivial, trivial⟩

theorem debruijnTxLoop_le (stopAt : Option Nat) (tidx k n numCodes divisor : Nat)
    (seq : List Nat) :
    ∀ (fuel i reg : Nat) (s : WorkerState),
      ((debruijnTxLoop stopAt tidx k n numCodes divisor seq fuel i reg s).1.codes_transmitted
        ≤ s.codes_transmitted + ((i + fuel) - max i (n - 1))) ∧
      ((debruijnTxLoop stopAt tidx k n numCodes divisor seq fuel i reg s).1.max_code
        = s.max_code) ∧
      ((debruijnTxLoop stopAt tidx k n numCodes divisor seq fuel i reg s).1.current_attack_target_idx
        = s.current_attack_target_idx) := by
  intro fuel
  induction fuel with
  | zero =>
    intro i reg s
    unfold debruijnTxLoop
    refine ⟨?_, rfl, rfl⟩
    show s.codes_transmitted ≤ s.codes_transmitted + ((i + 0) - max i (n - 1))
    omega
  | succ fuel ih =>
    intro i reg s
    have hstepeq : ∀ (s2 : WorkerState),
        (debruijnTxLoop stopAt tidx k n numCodes divisor seq fuel (i + 1)
            (debruijnTxStep tidx k n numCodes divisor seq i reg s2).1
            (debruijnTxStep tidx k n numCodes divisor seq i reg s2).2).1.codes_transmitted
          ≤ s2.codes_transmitted + ((i + (fuel + 1)) - max i (n - 1)) ∧
        (debruijnTxLoop stopAt tidx k n numCodes divisor seq fuel (i + 1)
            (debruijnTxStep tidx k n numCodes divisor seq i reg s2).1
            (debruijnTxStep tidx k n numCodes divisor seq i reg s2).2).1.max_code
          = s2.max_code ∧
        (debruijnTxLoop stopAt tidx k n numCodes divisor seq fuel (i + 1)
            (debruijnTxStep tidx k n numCodes divisor seq i reg s2).1
            (debruijnTxStep tidx k n numCodes divisor seq i reg s2).2).1.current_attack_target_idx
          = s2.current_attack_target_idx := by
      intro s2
      obtain ⟨hf1, hf2, hf3, hf4⟩ := debruijnTxStep_fields tidx k n numCodes divisor seq i reg s2
      obtain ⟨hl1, hl2, hl3⟩ := ih (i + 1)
        (debruijnTxStep tidx k n numCodes divisor seq i reg s2).1
        (debruijnTxStep tidx k n numCodes divisor seq i reg s2).2
      refine ⟨?_, hl2.trans hf2, hl3.trans hf3⟩
      rw [hf1] at hl1
      by_cases hni : n - 1 ≤ i
      · rw [if_pos hni] at hl1
        refine Nat.le_trans hl1 ?_
        omega
      · rw [if_neg hni] at hl1
        refine Nat.le_trans hl1 ?_
        omega
    unfold debruijnTxLoop
    by_cases h10 : i % 10 = 0
    · rw [if_pos h10]
      by_cases hobs : ∃ c, stopAt = some c ∧ c ≤ s.polls
      · obtain ⟨c, rfl, hc⟩ := hobs
        rw [pollStop_eq_true c s hc]
        show s.codes_transmitted ≤ _ ∧ _
        exact ⟨by omega, rfl, rfl⟩
      · have hq : noStopBefore stopAt (s.polls + 1) := by
          intro c hc
          by_contra hlt
          exact hobs ⟨c, hc, by omega⟩
        rw [pollStop_eq_false stopAt s hq]
        show (debruijnTxLoop stopAt tidx k n numCodes divisor seq fuel (i + 1) _ _).1.codes_transmitted
          ≤ _ ∧ _
        exact hstepeq { s with polls := s.polls + 1 }
    · rw [if_neg h10]
      exact hstepeq s

theorem debruijnTxLoop_none (tidx k n numCodes divisor : Nat) (seq : List Nat) :
    ∀ (fuel i reg : Nat) (s : WorkerState),
      ((debruijnTxLoop none tidx k n numCodes divisor seq fuel i reg s).2 = false) ∧
      ((debruijnTxLoop none tidx k n numCodes divisor seq fuel i reg s).1.codes_transmitted
        = s.codes_transmitted + ((i + fuel) - max i (n - 1))) ∧
      ((debruijnTxLoop none tidx k n numCodes divisor seq fuel i reg s).1.max_code
        = s.max_code) ∧
      ((debruijnTxLoop none tidx k n numCodes divisor seq fuel i reg s).1.current_attack_target_idx
        = s.current_attack_target_idx) := by
  intro fuel
  induction fuel with
  | zero =>
    intro i reg s
    unfold debruijnTxLoop
    refine ⟨rfl, ?_, rfl, rfl⟩
    show s.codes_transmitted = s.codes_transmitted + ((i + 0) - max i (n - 1))
    omega
  | succ fuel ih =>
    intro i reg s
    have hstepeq : ∀ (s2 : WorkerState),
        ((debruijnTxLoop none tidx k n numCodes divisor seq fuel (i + 1)
            (debruijnTxStep tidx k n numCodes divisor seq i reg s2).1
            (debruijnTxStep tidx k n numCodes divisor seq i reg s2).2).2 = false) ∧
        ((debruijnTxLoop none tidx k n numCodes divisor seq fuel (i + 1)
            (debruijnTxStep tidx k n numCodes divisor seq i reg s2).1
            (debruijnTxStep tidx k n numCodes divisor seq i reg s2).2).1.codes_transmitted
          = s2.codes_transmitted + ((i + (fuel + 1)) - max i (n - 1))) ∧
        ((debruijnTxLoop none tidx k n numCodes divisor seq fuel (i + 1)
            (debruijnTxStep tidx k n numCodes divisor seq i reg s2).1
            (debruijnTxStep tidx k n numCodes divisor seq i reg s2).2).1.max_code
          = s2.max_code) ∧
        ((debruijnTxLoop none tidx k n numCodes divisor seq fuel (i + 1)
            (debruijnTxStep tidx k n numCodes divisor seq i reg s2).1
            (debruijnTxStep tidx k n numCodes divisor seq i reg s2).2).1.current_attack_target_idx
          = s2.current_attack_target_idx) := by
      intro s2
      obtain ⟨hf1, hf2, hf3, hf4⟩ := debruijnTxStep_fields tidx k n numCodes divisor seq i reg s2
      obtain ⟨hl0, hl1, hl2, hl3⟩ := ih (i + 1)
        (debruijnTxStep tidx k n numCodes divisor seq i reg s2).1
        (debruijnTxStep tidx k n numCodes divisor seq i reg s2).2
      refine ⟨hl0, ?_, hl2.trans hf2, hl3.trans hf3⟩
      rw [hl1, hf1]
      by_cases hni : n - 1 ≤ i
      · rw [if_pos hni]
        omega
      · rw [if_neg hni]
        omega
    unfold debruijnTxLoop
    by_cases h10 : i % 10 = 0
    · rw [if_pos h10, pollStop_eq_false none s (fun c hc => by cases hc)]
      show ((debruijnTxLoop none tidx k n numCodes divisor seq fuel (i + 1) _ _).2 = false) ∧ _
      exact hstepeq { s with polls := s.polls + 1 }
    · rw [if_neg h10]
      exact hstepeq s

theorem debruijnTxLoop_flag_up (c tidx k n numCodes divisor : Nat) (seq : List Nat)
    (fuel reg : Nat) (s : WorkerState) (h : c ≤ s.polls) :
    debruijnTxLoop (some c) tidx k n numCodes divisor seq (fuel + 1) 0 reg s
      = ({ s with polls := s.polls + 1 }, true) := by
  unfold debruijnTxLoop
  rw [if_pos (by omega : (0:Nat) % 10 = 0), pollStop_eq_true c s h]
  rfl

theorem keyspaceOversize_debruijn (t : OpenSesameTarget) :
    keyspaceOversize t → debruijnOversize t := by
  intro h
  unfold keyspaceOversize at h
  unfold debruijnOversize
  rcases h with ⟨h1, h2⟩ | ⟨h1, h2⟩
  · exact Or.inl ⟨h1, by omega⟩
  · exact Or.inr ⟨h1, by omega⟩

/-- A target within the de Bruijn bounds always fits the 10000-byte working
buffers (`2^13 = 8192`, `3^8 = 6561`): the allocation-ceiling abort of
lines 947-959 is unreachable for in-bounds targets. -/
theorem debruijn_pow_le_ceiling (t : OpenSesameTarget) (hok : ¬ debruijnOversize t) :
    (if t.trinary then 3 else 2) ^ t.bits ≤ 10000 := by
  unfold debruijnOversize at hok
  cases htri : t.trinary with
  | false =>
    have hbits : t.bits ≤ 13 := by
      by_contra h
      exact hok (Or.inl ⟨htri, by omega⟩)
    show (2:Nat) ^ t.bits ≤ 10000
    calc (2:Nat) ^ t.bits ≤ 2 ^ 13 := Nat.pow_le_pow_right (by omega) hbits
      _ ≤ 10000 := by norm_num
  | true =>
    have hbits : t.bits ≤ 8 := by
      by_contra h
      exact hok (Or.inr ⟨htri, by omega⟩)
    show (3:Nat) ^ t.bits ≤ 10000
    calc (3:Nat) ^ t.bits ≤ 3 ^ 8 := Nat.pow_le_pow_right (by omega) hbits
      _ ≤ 10000 := by norm_num

/-- An oversize target: the de Bruijn body only records the index and resets
the buffer; it aborts the worker (`return -1`) in single mode and hands
control back to the sweep otherwise. -/
theorem debruijnTargetBody_oversize (stopAt : Option Nat) (single : Bool) (tidx : Nat)
    (t : OpenSesameTarget) (s : WorkerState) (hov : debruijnOversize t) :
    debruijnTargetBody stopAt single tidx t s
      = ({ s with
            buffer := { codes := s.buffer.codes, head := 0, count := 0 }
            current_attack_target_idx := tidx },
         if single then some (-1) else none) := by
  unfold debruijnTargetBody
  rw [if_pos hov]
  cases single <;> rfl

/-- Closed form of the de Bruijn per-target body under a quiet flag. -/
theorem debruijnTargetBody_none (tidx : Nat) (t : OpenSesameTarget) (s : WorkerState)
    (hok : ¬ debruijnOversize t) :
    debruijnTargetBody none false tidx t s
      = ((debruijnTxLoop none tidx (if t.trinary then 3 else 2) t.bits
            ((if t.trinary then 3 else 2) ^ t.bits)
            ((if t.trinary then 3 else 2) ^ (t.bits - 1))
            (debruijn_sequence (if t.trinary then 3 else 2) t.bits)
            ((if t.trinary then 3 else 2) ^ t.bits + (t.bits - 1)) 0 0
            { s with
              buffer := { codes := s.buffer.codes, head := 0, count := 0 }
              current_attack_target_idx := tidx
              polls := s.polls
                + genPollCount ((if t.trinary then 3 else 2) ^ t.bits - t.bits) t.bits }).1,
         none) := by
  have hceil := debruijn_pow_le_ceiling t hok
  conv_lhs => unfold debruijnTargetBody
  rw [if_neg hok]
  rw [if_neg (show ¬ 10000 < (if t.trinary then 3 else 2) ^ t.bits from by omega)]
  rw [debruijnGenPollLoop_none]
  simp only []
  rw [if_neg (Bool.false_ne_true)]
  rw [(debruijnTxLoop_none tidx _ _ _ _ _ _ 0 0 _).1]
  rw [if_neg (Bool.false_ne_true)]

/-- Counting form of the previous lemma: under a quiet flag an in-bounds
target contributes exactly `k^n` transmissions and leaves `max_code` alone. -/
theorem debruijnTargetBody_none_counts (tidx : Nat) (t : OpenSesameTarget)
    (s : WorkerState) (hok : ¬ debruijnOversize t) :
    ((debruijnTargetBody none false tidx t s).2 = none) ∧
    ((debruijnTargetBody none false tidx t s).1.codes_transmitted
      = s.codes_transmitted + (if t.trinary then 3 else 2) ^ t.bits) ∧
    ((debruijnTargetBody none false tidx t s).1.max_code = s.max_code) := by
  rw [debruijnTargetBody_none tidx t s hok]
  obtain ⟨h0, h1, h2, h3⟩ := debruijnTxLoop_none tidx (if t.trinary then 3 else 2) t.bits
    ((if t.trinary then 3 else 2) ^ t.bits)
    ((if t.trinary then 3 else 2) ^ (t.bits - 1))
    (debruijn_sequence (if t.trinary then 3 else 2) t.bits)
    ((if t.trinary then 3 else 2) ^ t.bits + (t.bits - 1)) 0 0
    { s with
      buffer := { codes := s.buffer.codes, head := 0, count := 0 }
      current_attack_target_idx := tidx
      polls := s.polls
        + genPollCount ((if t.trinary then 3 else 2) ^ t.bits - t.bits) t.bits }
  refine ⟨rfl, ?_, ?_⟩
  · show (debruijnTxLoop none tidx _ _ _ _ _ _ 0 0 _).1.codes_transmitted = _
    rw [h1]
    simp only []
    omega
  · show (debruijnTxLoop none tidx _ _ _ _ _ _ 0 0 _).1.max_code = _
    rw [h2]

/-- The in-bounds de Bruijn body, written without its intermediate lets:
generation loop first (early return on stop), then the transmission loop. -/
theorem debruijnTargetBody_split (stopAt : Option Nat) (single : Bool) (tidx : Nat)
    (t : OpenSesameTarget) (s : WorkerState) (hov : ¬ debruijnOversize t)
    (hle : ¬ 10000 < (if t.trinary then 3 else 2) ^ t.bits) :
    debruijnTargetBody stopAt single tidx t s
      = (if (debruijnGenPollLoop stopAt ((if t.trinary then 3 else 2) ^ t.bits - t.bits)
              t.bits
              { s with
                buffer := { codes := s.buffer.codes, head := 0, count := 0 }
                current_attack_target_idx := tidx }).2 then
           ((debruijnGenPollLoop stopAt ((if t.trinary then 3 else 2) ^ t.bits - t.bits)
              t.bits
              { s with
                buffer := { codes := s.buffer.codes, head := 0, count := 0 }
                current_attack_target_idx := tidx }).1, some 0)
         else
           if (debruijnTxLoop stopAt tidx (if t.trinary then 3 else 2) t.bits
                ((if t.trinary then 3 else 2) ^ t.bits)
                ((if t.trinary then 3 else 2) ^ (t.bits - 1))
                (debruijn_sequence (if t.trinary then 3 else 2) t.bits)
                ((if t.trinary then 3 else 2) ^ t.bits + (t.bits - 1)) 0 0
                (debruijnGenPollLoop stopAt
                  ((if t.trinary then 3 else 2) ^ t.bits - t.bits) t.bits
                  { s with
                    buffer := { codes := s.buffer.codes, head := 0, count := 0 }
                    current_attack_target_idx := tidx }).1).2 then
             ((debruijnTxLoop stopAt tidx (if t.trinary then 3 else 2) t.bits
                ((if t.trinary then 3 else 2) ^ t.bits)
                ((if t.trinary then 3 else 2) ^ (t.bits - 1))
                (debruijn_sequence (if t.trinary then 3 else 2) t.bits)
                ((if t.trinary then 3 else 2) ^ t.bits + (t.bits - 1)) 0 0
                (debruijnGenPollLoop stopAt
                  ((if t.trinary then 3 else 2) ^ t.bits - t.bits) t.bits
                  { s with
                    buffer := { codes := s.buffer.codes, head := 0, count := 0 }
                    current_attack_target_idx := tidx }).1).1, some 0)
           else
             ((debruijnTxLoop stopAt tidx (if t.trinary then 3 else 2) t.bits
                ((if t.trinary then 3 else 2) ^ t.bits)
                ((if t.trinary then 3 else 2) ^ (t.bits - 1))
                (debruijn_sequence (if t.trinary then 3 else 2) t.bits)
                ((if t.trinary then 3 else 2) ^ t.bits + (t.bits - 1)) 0 0
                (debruijnGenPollLoop stopAt
                  ((if t.trinary then 3 else 2) ^ t.bits - t.bits) t.bits
                  { s with
                    buffer := { codes := s.buffer.codes, head := 0, count := 0 }
                    current_attack_target_idx := tidx }).1).1, none)) := by
  conv_lhs => unfold debruijnTargetBody
  rw [if_neg hov, if_neg hle]

/-- Whatever the stop schedule, the de Bruijn body transmits at most the
target's keyspace (or nothing when oversize) and leaves `max_code` alone. -/
theorem debruijnTargetBody_le (stopAt : Option Nat) (single : Bool) (tidx : Nat)
    (t : OpenSesameTarget) (s : WorkerState) :
    ((debruijnTargetBody stopAt single tidx t s).1.codes_transmitted
      ≤ s.codes_transmitted
        + (if debruijnOversize t then 0 else (if t.trinary then 3 else 2) ^ t.bits)) ∧
    ((debruijnTargetBody stopAt single tidx t s).1.max_code = s.max_code) := by
  by_cases hov : debruijnOversize t
  · rw [debruijnTargetBody_oversize stopAt single tidx t s hov, if_pos hov]
    exact ⟨by show s.codes_transmitted ≤ s.codes_transmitted + 0; omega, rfl⟩
  · rw [if_neg hov]
    have hceil := debruijn_pow_le_ceiling t hov
    rw [debruijnTargetBody_split stopAt single tidx t s hov (by omega)]
    obtain ⟨hg1, hg2, hg3, hg4, hg5, hg6⟩ := debruijnGenPollLoop_fields stopAt
      ((if t.trinary then 3 else 2) ^ t.bits - t.bits) t.bits
      { s with
        buffer := { codes := s.buffer.codes, head := 0, count := 0 }
        current_attack_target_idx := tidx }
    cases hgb : (debruijnGenPollLoop stopAt
        ((if t.trinary then 3 else 2) ^ t.bits - t.bits) t.bits
        { s with
          buffer := { codes := s.buffer.codes, head := 0, count := 0 }
          current_attack_target_idx := tidx }).2 with
    | true =>
      rw [if_pos rfl]
      refine ⟨?_, ?_⟩
      · show (debruijnGenPollLoop stopAt _ _ _).1.codes_transmitted ≤ _
        rw [hg1]
        show s.codes_transmitted ≤ _
        omega
      · show (debruijnGenPollLoop stopAt _ _ _).1.max_code = _
        rw [hg2]
    | false =>
      rw [if_neg Bool.false_ne_true]
      obtain ⟨hx1, hx2, hx3⟩ := debruijnTxLoop_le stopAt tidx (if t.trinary then 3 else 2)
        t.bits ((if t.trinary then 3 else 2) ^ t.bits)
        ((if t.trinary then 3 else 2) ^ (t.bits - 1))
        (debruijn_sequence (if t.trinary then 3 else 2) t.bits)
        ((if t.trinary then 3 else 2) ^ t.bits + (t.bits - 1)) 0 0
        (debruijnGenPollLoop stopAt
          ((if t.trinary then 3 else 2) ^ t.bits - t.bits) t.bits
          { s with
            buffer := { codes := s.buffer.codes, head := 0, count := 0 }
            current_attack_target_idx := tidx }).1
      rw [hg1] at hx1
      rw [hg2] at hx2
      have hcodes : ∀ (u : WorkerState), u.codes_transmitted
            ≤ ({ s with
                buffer := { codes := s.buffer.codes, head := 0, count := 0 }
                current_attack_target_idx := tidx } : WorkerState).codes_transmitted
              + ((0 + ((if t.trinary then 3 else 2) ^ t.bits + (t.bits - 1)))
                  - max 0 (t.bits - 1)) →
          u.codes_transmitted
            ≤ s.codes_transmitted + (if t.trinary then 3 else 2) ^ t.bits := by
        intro u hu
        simp only [] at hu
        omega
      cases hxb : (debruijnTxLoop stopAt tidx (if t.trinary then 3 else 2)
          t.bits ((if t.trinary then 3 else 2) ^ t.bits)
          ((if t.trinary then 3 else 2) ^ (t.bits - 1))
          (debruijn_sequence (if t.trinary then 3 else 2) t.bits)
          ((if t.trinary then 3 else 2) ^ t.bits + (t.bits - 1)) 0 0
          (debruijnGenPollLoop stopAt
            ((if t.trinary then 3 else 2) ^ t.bits - t.bits) t.bits
            { s with
              buffer := { codes := s.buffer.codes, head := 0, count := 0 }
              current_attack_target_idx := tidx }).1).2 with
      | true =>
        rw [if_pos rfl]
        exact ⟨hcodes _ hx1, hx2⟩
      | false =>
        rw [if_neg Bool.false_ne_true]
        exact ⟨hcodes _ hx1, hx2⟩

theorem debruijnSweep_meta (stopAt : Option Nat) (single : Bool) (tidx : Nat)
    (rest : List Nat) (s : WorkerState) (hmeta : tidx = 4 ∨ tidx = 5) :
    debruijnSweep stopAt single (tidx :: rest) s = debruijnSweep stopAt single rest s := by
  conv_lhs => unfold debruijnSweep
  rw [if_pos hmeta]

theorem debruijnSweep_stopped (c : Nat) (single : Bool) (tidx : Nat) (rest : List Nat)
    (s : WorkerState) (hmeta : ¬ (tidx = 4 ∨ tidx = 5)) (h : c ≤ s.polls) :
    debruijnSweep (some c) single (tidx :: rest) s = ({ s with polls := s.polls + 1 }, 0) := by
  conv_lhs => unfold debruijnSweep
  rw [if_neg hmeta, pollStop_eq_true c s h]
  rfl

theorem debruijnSweep_cons (stopAt : Option Nat) (single : Bool) (tidx : Nat)
    (rest : List Nat) (s : WorkerState) (hmeta : ¬ (tidx = 4 ∨ tidx = 5))
    (h : noStopBefore stopAt (s.polls + 1))
    (hb : (debruijnTargetBody stopAt single tidx (targetAt tidx)
        { s with polls := s.polls + 1 }).2 = none) :
    debruijnSweep stopAt single (tidx :: rest) s
      = debruijnSweep stopAt single rest
          (debruijnTargetBody stopAt single tidx (targetAt tidx)
            { s with polls := s.polls + 1 }).1 := by
  conv_lhs => unfold debruijnSweep
  rw [if_neg hmeta, pollStop_eq_false stopAt s h]
  simp only []
  rw [if_neg Bool.false_ne_true, hb]

theorem debruijnSweep_cons_some (stopAt : Option Nat) (single : Bool) (tidx : Nat)
    (rest : List Nat) (s : WorkerState) (r : Int) (hmeta : ¬ (tidx = 4 ∨ tidx = 5))
    (h : noStopBefore stopAt (s.polls + 1))
    (hb : (debruijnTargetBody stopAt single tidx (targetAt tidx)
        { s with polls := s.polls + 1 }).2 = some r) :
    debruijnSweep stopAt single (tidx :: rest) s
      = ((debruijnTargetBody stopAt single tidx (targetAt tidx)
            { s with polls := s.polls + 1 }).1, r) := by
  conv_lhs => unfold debruijnSweep
  rw [if_neg hmeta, pollStop_eq_false stopAt s h]
  simp only []
  rw [if_neg Bool.false_ne_true, hb]

/-- Under a quiet flag a de Bruijn meta-sweep (not single) transmits exactly
`sweepTotal` codes, returns 0 and leaves `max_code` alone. -/
theorem debruijnSweep_none_counts :
    ∀ (l : List Nat) (s : WorkerState),
      ((debruijnSweep none false l s).1.codes_transmitted
        = s.codes_transmitted + sweepTotal AttackMode.DeBruijn l) ∧
      ((debruijnSweep none false l s).1.max_code = s.max_code) ∧
      ((debruijnSweep none false l s).2 = 0) := by
  intro l
  induction l with
  | nil =>
    intro s
    unfold debruijnSweep
    exact ⟨by simp [sweepTotal], rfl, rfl⟩
  | cons tidx rest ih =>
    intro s
    have hnostop : ∀ (p : Nat), noStopBefore none p := by
      intro p c hc
      cases hc
    by_cases hmeta : tidx = 4 ∨ tidx = 5
    · rw [debruijnSweep_meta none false tidx rest s hmeta]
      obtain ⟨h1, h2, h3⟩ := ih s
      refine ⟨?_, h2, h3⟩
      rw [h1]
      simp [sweepTotal, sweepContribution, if_pos hmeta]
    · have hcontrib : sweepTotal AttackMode.DeBruijn (tidx :: rest)
          = (if debruijnOversize (targetAt tidx) then 0
              else (if (targetAt tidx).trinary then 3 else 2) ^ (targetAt tidx).bits)
            + sweepTotal AttackMode.DeBruijn rest := by
        simp only [sweepTotal, List.map_cons, List.sum_cons, sweepContribution,
          if_neg hmeta]
        rw [maxCodeContribution_debruijn]
      by_cases hov : debruijnOversize (targetAt tidx)
      · have hb : (debruijnTargetBody none false tidx (targetAt tidx)
            { s with polls := s.polls + 1 }).2 = none := by
          rw [debruijnTargetBody_oversize none false tidx (targetAt tidx) _ hov]
          rfl
        rw [debruijnSweep_cons none false tidx rest s hmeta (hnostop _) hb]
        rw [debruijnTargetBody_oversize none false tidx (targetAt tidx) _ hov]
        obtain ⟨h1, h2, h3⟩ := ih _
        refine ⟨?_, h2, h3⟩
        rw [h1]
        show s.codes_transmitted + _ = _
        rw [hcontrib, if_pos hov]
        omega
      · obtain ⟨hb, hc1, hc2⟩ := debruijnTargetBody_none_counts tidx (targetAt tidx)
          { s with polls := s.polls + 1 } hov
        rw [debruijnSweep_cons none false tidx rest s hmeta (hnostop _) hb]
        obtain ⟨h1, h2, h3⟩ := ih ((debruijnTargetBody none false tidx (targetAt tidx)
          { s with polls := s.polls + 1 }).1)
        refine ⟨?_, h2.trans hc2, h3⟩
        rw [h1, hc1]
        show s.codes_transmitted + _ + _ = _
        rw [hcontrib, if_neg hov]
        omega

/-- Whatever the stop schedule (and single-target flag), the de Bruijn sweep
transmits at most `sweepTotal` codes and leaves `max_code` alone. -/
theorem debruijnSweep_le (stopAt : Option Nat) (single : Bool) :
    ∀ (l : List Nat) (s : WorkerState),
      ((debruijnSweep stopAt single l s).1.codes_transmitted
        ≤ s.codes_transmitted + sweepTotal AttackMode.DeBruijn l) ∧
      ((debruijnSweep stopAt single l s).1.max_code = s.max_code) := by
  intro l
  induction l with
  | nil =>
    intro s
    unfold debruijnSweep
    refine ⟨?_, rfl⟩
    show s.codes_transmitted ≤ s.codes_transmitted + sweepTotal AttackMode.DeBruijn []
    omega
  | cons tidx rest ih =>
    intro s
    by_cases hmeta : tidx = 4 ∨ tidx = 5
    · rw [debruijnSweep_meta stopAt single tidx rest s hmeta]
      obtain ⟨h1, h2⟩ := ih s
      refine ⟨Nat.le_trans h1 ?_, h2⟩
      simp [sweepTotal, sweepContribution, if_pos hmeta]
    · have hcontrib : sweepTotal AttackMode.DeBruijn (tidx :: rest)
          = (if debruijnOversize (targetAt tidx) then 0
              else (if (targetAt tidx).trinary then 3 else 2) ^ (targetAt tidx).bits)
            + sweepTotal AttackMode.DeBruijn rest := by
        simp only [sweepTotal, List.map_cons, List.sum_cons, sweepContribution,
          if_neg hmeta]
        rw [maxCodeContribution_debruijn]
      by_cases hobs : ∃ c, stopAt = some c ∧ c ≤ s.polls
      · obtain ⟨c, rfl, hc⟩ := hobs
        rw [debruijnSweep_stopped c single tidx rest s hmeta hc]
        refine ⟨?_, rfl⟩
        show s.codes_transmitted ≤ _
        omega
      · have hq : noStopBefore stopAt (s.polls + 1) := by
          intro c hc
          by_contra hlt
          exact hobs ⟨c, hc, by omega⟩
        obtain ⟨hb1, hb2⟩ := debruijnTargetBody_le stopAt single tidx (targetAt tidx)
          { s with polls := s.polls + 1 }
        have hb1s : (debruijnTargetBody stopAt single tidx (targetAt tidx)
              { s with polls := s.polls + 1 }).1.codes_transmitted
            ≤ s.codes_transmitted
              + (if debruijnOversize (targetAt tidx) then 0
                  else (if (targetAt tidx).trinary then 3 else 2) ^ (targetAt tidx).bits) :=
          hb1
        cases hb : (debruijnTargetBody stopAt single tidx (targetAt tidx)
            { s with polls := s.polls + 1 }).2 with
        | some r =>
          rw [debruijnSweep_cons_some stopAt single tidx rest s r hmeta hq hb]
          refine ⟨?_, hb2⟩
          show (debruijnTargetBody stopAt single tidx (targetAt tidx)
            { s with polls := s.polls + 1 }).1.codes_transmitted ≤ _
          rw [hcontrib]
          omega
        | none =>
          rw [debruijnSweep_cons stopAt single tidx rest s hmeta hq hb]
          obtain ⟨h1, h2⟩ := ih ((debruijnTargetBody stopAt single tidx (targetAt tidx)
            { s with polls := s.polls + 1 }).1)
          refine ⟨Nat.le_trans h1 ?_, h2.trans hb2⟩
          rw [hcontrib]
          omega

/-- If the flag is already up, the de Bruijn sweep transmits nothing. -/
theorem debruijnSweep_flag_up (c : Nat) (single : Bool) :
    ∀ (l : List Nat) (s : WorkerState), c ≤ s.polls →
      ((debruijnSweep (some c) single l s).1.transmitted = s.transmitted) ∧
      ((debruijnSweep (some c) single l s).1.codes_transmitted = s.codes_transmitted) := by
  intro l
  induction l with
  | nil =>
    intro s _
    unfold debruijnSweep
    exact ⟨rfl, rfl⟩
  | cons tidx rest ih =>
    intro s hc
    by_cases hmeta : tidx = 4 ∨ tidx = 5
    · rw [debruijnSweep_meta (some c) single tidx rest s hmeta]
      exact ih s hc
    · rw [debruijnSweep_stopped c single tidx rest s hmeta hc]
      exact ⟨rfl, rfl⟩

/-! ### Counting lemmas for the replay worker -/

theorem replayLoop_step (stopAt : Option Nat) (tidx code fuel : Nat) (s : WorkerState)
    (h : noStopBefore stopAt (s.polls + 1)) :
    replayLoop stopAt tidx code (fuel + 1) s
      = replayLoop stopAt tidx code fuel
          { s with
            polls := s.polls + 1
            codes_transmitted := s.codes_transmitted + 1
            transmitted := s.transmitted ++ [(tidx, code)]
            buffer := opensesame_push_code_to_buffer s.buffer code } := by
  conv_lhs => unfold replayLoop
  rw [pollStop_eq_false stopAt s h]
  rfl

theorem replayLoop_stopped (c : Nat) (tidx code fuel : Nat) (s : WorkerState)
    (h : c ≤ s.polls) :
    replayLoop (some c) tidx code (fuel + 1) s = { s with polls := s.polls + 1 } := by
  conv_lhs => unfold replayLoop
  rw [pollStop_eq_true c s h]
  rfl

theorem replayLoop_le (stopAt : Option Nat) (tidx code : Nat) :
    ∀ (fuel : Nat) (s : WorkerState),
      ((replayLoop stopAt tidx code fuel s).codes_transmitted
        ≤ s.codes_transmitted + fuel) ∧
      ((replayLoop stopAt tidx code fuel s).max_code = s.max_code) := by
  intro fuel
  induction fuel with
  | zero =>
    intro s
    unfold replayLoop
    exact ⟨by omega, rfl⟩
  | succ fuel ih =>
    intro s
    by_cases hobs : ∃ c, stopAt = some c ∧ c ≤ s.polls
    · obtain ⟨c, rfl, hc⟩ := hobs
      rw [replayLoop_stopped c tidx code fuel s hc]
      refine ⟨?_, rfl⟩
      show s.codes_transmitted ≤ s.codes_transmitted + (fuel + 1)
      omega
    · have hq : noStopBefore stopAt (s.polls + 1) := by
        intro c hc
        by_contra hlt
        exact hobs ⟨c, hc, by omega⟩
      rw [replayLoop_step stopAt tidx code fuel s hq]
      obtain ⟨h1, h2⟩ := ih
        { s with
          polls := s.polls + 1
          codes_transmitted := s.codes_transmitted + 1
          transmitted := s.transmitted ++ [(tidx, code)]
          buffer := opensesame_push_code_to_buffer s.buffer code }
      refine ⟨Nat.le_trans h1 ?_, h2⟩
      show s.codes_transmitted + 1 + fuel ≤ s.codes_transmitted + (fuel + 1)
      omega

theorem replayLoop_flag_up (c : Nat) (tidx code fuel : Nat) (s : WorkerState)
    (h : c ≤ s.polls) :
    ((replayLoop (some c) tidx code fuel s).transmitted = s.transmitted) ∧
    ((replayLoop (some c) tidx code fuel s).codes_transmitted = s.codes_transmitted) := by
  cases fuel with
  | zero => exact ⟨rfl, rfl⟩
  | succ fuel =>
    rw [replayLoop_stopped c tidx code fuel s h]
    exact ⟨rfl, rfl⟩

/-- `max_code` as computed by `opensesame_worker_thread` for a meta selection
agrees with the sweep-total of per-target contributions. -/
theorem opensesame_max_code_meta (mode : AttackMode) (sel : Nat)
    (h : sel = 4 ∨ sel = 5) :
    opensesame_max_code mode sel = sweepTotal mode (sweepRange sel) := by
  rcases h with rfl | rfl
  · simp [opensesame_max_code, sweepRange, sweepTotal, sweepContribution]
  · unfold opensesame_max_code sweepRange sweepTotal
    rw [if_neg (by omega : ¬ (5:Nat) = 4), if_pos rfl, if_pos rfl]
    rfl

/-- Definitional equation of the de Bruijn worker entry point. -/
theorem opensesame_worker_debruijn_def (sel : Nat) (stopAt : Option Nat) (s : WorkerState) :
    opensesame_worker_debruijn sel stopAt s
      = debruijnSweep stopAt (!(sel == 4 || sel == 5)) (sweepRange sel) s := rfl

/-- `opensesame_worker_thread` in De Bruijn mode, with the result tuple
written out (so its components can be rewritten without forcing the sweep). -/
theorem opensesame_worker_thread_debruijn (sel : Nat) (stopAt : Option Nat)
    (saved_code : List Nat) (save_requested : Bool) (s0 : WorkerState) :
    opensesame_worker_thread AttackMode.DeBruijn sel stopAt saved_code save_requested s0
      = ((opensesame_worker_debruijn sel stopAt
            { s0 with
              current_attack_target_idx := sel
              buffer := { codes := s0.buffer.codes, head := 0, count := 0 }
              max_code := opensesame_max_code AttackMode.DeBruijn sel }).1,
         (opensesame_worker_debruijn sel stopAt
            { s0 with
              current_attack_target_idx := sel
              buffer := { codes := s0.buffer.codes, head := 0, count := 0 }
              max_code := opensesame_max_code AttackMode.DeBruijn sel }).2,
         if save_requested ∧
             (opensesame_worker_debruijn sel stopAt
               { s0 with
              current_attack_target_idx := sel
              buffer := { codes := s0.buffer.codes, head := 0, count := 0 }
              max_code := opensesame_max_code AttackMode.DeBruijn sel }).1.current_attack_target_idx < 4 ∧
             0 < (opensesame_worker_debruijn sel stopAt
               { s0 with
              current_attack_target_idx := sel
              buffer := { codes := s0.buffer.codes, head := 0, count := 0 }
              max_code := opensesame_max_code AttackMode.DeBruijn sel }).1.buffer.count then
           saved_code.set
             (opensesame_worker_debruijn sel stopAt
               { s0 with
              current_attack_target_idx := sel
              buffer := { codes := s0.buffer.codes, head := 0, count := 0 }
              max_code := opensesame_max_code AttackMode.DeBruijn sel }).1.current_attack_target_idx
             ((opensesame_worker_debruijn sel stopAt
               { s0 with
              current_attack_target_idx := sel
              buffer := { codes := s0.buffer.codes, head := 0, count := 0 }
              max_code := opensesame_max_code AttackMode.DeBruijn sel }).1.buffer.codes.getD
               (opensesame_worker_debruijn sel stopAt
                 { s0 with
              current_attack_target_idx := sel
              buffer := { codes := s0.buffer.codes, head := 0, count := 0 }
              max_code := opensesame_max_code AttackMode.DeBruijn sel }).1.buffer.head 0)
         else saved_code) := rfl

/-- Stream mode applies the same per-target bounds as Compatibility mode, so
their sweep totals coincide. -/
theorem sweepTotal_stream_compat (l : List Nat) :
    sweepTotal AttackMode.Stream l = sweepTotal AttackMode.Compatibility l := by
  induction l with
  | nil => rfl
  | cons a l ih =>
    have hc : sweepContribution AttackMode.Stream a
        = sweepContribution AttackMode.Compatibility a := by
      unfold sweepContribution
      by_cases hmeta : a = 4 ∨ a = 5
      · rw [if_pos hmeta, if_pos hmeta]
      · rw [if_neg hmeta, if_neg hmeta,
          maxCodeContribution_of_ne_debruijn AttackMode.Stream _ (by intro h; cases h),
          maxCodeContribution_of_ne_debruijn AttackMode.Compatibility _ (by intro h; cases h)]
    show sweepContribution AttackMode.Stream a + sweepTotal AttackMode.Stream l
        = sweepContribution AttackMode.Compatibility a + sweepTotal AttackMode.Compatibility l
    rw [hc, ih]

/-- C3: for a meta-target run (All Known Models, sel 4, or Generic Brute,
sel 5) in any transmitting mode, `max_code` is the sum of `k^n` over exactly
the real targets of the sweep range that pass the mode's size bounds
(`sweepTotal`), and with no cancellation `codes_transmitted` equals
`max_code` when the sweep completes. -/
theorem claim_C3 (mode : AttackMode) (sel : Nat) (saved_code : List Nat)
    (hmode : mode = AttackMode.Compatibility ∨ mode = AttackMode.Stream
      ∨ mode = AttackMode.DeBruijn)
    (hsel : sel = 4 ∨ sel = 5) :
    ((opensesame_worker_thread mode sel none saved_code false
        initialWorkerState).1.max_code
      = sweepTotal mode (sweepRange sel)) ∧
    ((opensesame_worker_thread mode sel none saved_code false
        initialWorkerState).1.codes_transmitted
      = (opensesame_worker_thread mode sel none saved_code false
          initialWorkerState).1.max_code) := by
  have hmax := opensesame_max_code_meta mode sel hsel
  rcases hmode with rfl | rfl | rfl
  ·
    obtain ⟨h1, h2⟩ := compatSweep_none_counts (sweepRange sel)
      { initialWorkerState with
        current_attack_target_idx := sel
        buffer := { codes := initialWorkerState.buffer.codes, head := 0, count := 0 }
        max_code := opensesame_max_code AttackMode.Compatibility sel }
    have hT : (opensesame_worker_thread AttackMode.Compatibility sel none saved_code false
        initialWorkerState).1
        = compatSweep none (sweepRange sel)
            { initialWorkerState with
              current_attack_target_idx := sel
              buffer := { codes := initialWorkerState.buffer.codes, head := 0, count := 0 }
              max_code := opensesame_max_code AttackMode.Compatibility sel } := rfl
    rw [hT, h1, h2]
    constructor
    · show opensesame_max_code AttackMode.Compatibility sel = _
      exact hmax
    · show 0 + sweepTotal AttackMode.Compatibility (sweepRange sel) = opensesame_max_code AttackMode.Compatibility sel
      rw [hmax]
      omega
  ·
    obtain ⟨h1, h2⟩ := compatSweep_none_counts (sweepRange sel)
      { initialWorkerState with
        current_attack_target_idx := sel
        buffer := { codes := initialWorkerState.buffer.codes, head := 0, count := 0 }
        max_code := opensesame_max_code AttackMode.Stream sel }
    have hT : (opensesame_worker_thread AttackMode.Stream sel none saved_code false
        initialWorkerState).1
        = compatSweep none (sweepRange sel)
            { initialWorkerState with
              current_attack_target_idx := sel
              buffer := { codes := initialWorkerState.buffer.codes, head := 0, count := 0 }
              max_code := opensesame_max_code AttackMode.Stream sel } := rfl
    rw [hT, h1, h2]
    constructor
    · show opensesame_max_code AttackMode.Stream sel = _
      exact hmax
    · show 0 + sweepTotal AttackMode.Compatibility (sweepRange sel)
          = opensesame_max_code AttackMode.Stream sel
      rw [hmax, sweepTotal_stream_compat]
      omega
  ·
    obtain ⟨h1, h2, h3⟩ := debruijnSweep_none_counts (sweepRange sel)
      { initialWorkerState with
        current_attack_target_idx := sel
        buffer := { codes := initialWorkerState.buffer.codes, head := 0, count := 0 }
        max_code := opensesame_max_code AttackMode.DeBruijn sel }
    have hB : (!(sel == 4 || sel == 5)) = false := by
      rcases hsel with rfl | rfl <;> decide
    rw [opensesame_worker_thread_debruijn sel none saved_code false initialWorkerState]
    simp only []
    rw [opensesame_worker_debruijn_def sel none, hB, h1, h2]
    constructor
    · show opensesame_max_code AttackMode.DeBruijn sel = _
      exact hmax
    · show 0 + sweepTotal AttackMode.DeBruijn (sweepRange sel)
          = opensesame_max_code AttackMode.DeBruijn sel
      rw [hmax]
      omega

/-- C3 witness: All Known Models in Compatibility mode. -/
theorem claim_C3_witness :
    (AttackMode.Compatibility = AttackMode.Compatibility
      ∨ AttackMode.Compatibility = AttackMode.Stream
      ∨ AttackMode.Compatibility = AttackMode.DeBruijn) ∧
    ((4:Nat) = 4 ∨ (4:Nat) = 5) ∧
    (((opensesame_worker_thread AttackMode.Compatibility 4 none [] false
        initialWorkerState).1.max_code
      = sweepTotal AttackMode.Compatibility (sweepRange 4)) ∧
    ((opensesame_worker_thread AttackMode.Compatibility 4 none [] false
        initialWorkerState).1.codes_transmitted
      = (opensesame_worker_thread AttackMode.Compatibility 4 none [] false
          initialWorkerState).1.max_code)) :=
  ⟨Or.inl rfl, Or.inl rfl,
    claim_C3 AttackMode.Compatibility 4 [] (Or.inl rfl) (Or.inl rfl)⟩

/-- C6: a de Bruijn keyspace bound violation skips the target inside a sweep
(body result `none`, state only re-indexed) but aborts a single-target run
(`some (-1)`, and `-1` from the worker with nothing transmitted); in-bounds
targets always fit the 10000-byte allocation ceiling, so the allocation
guard never fires for them; the compatibility/stream bound violation
likewise skips the target without transmitting. -/
theorem claim_C6 :
    (∀ (stopAt : Option Nat) (tidx : Nat) (t : OpenSesameTarget) (s : WorkerState),
        debruijnOversize t →
          debruijnTargetBody stopAt false tidx t s
            = ({ s with
                  buffer := { codes := s.buffer.codes, head := 0, count := 0 }
                  current_attack_target_idx := tidx }, none)) ∧
    (∀ (stopAt : Option Nat) (tidx : Nat) (t : OpenSesameTarget) (s : WorkerState),
        debruijnOversize t →
          debruijnTargetBody stopAt true tidx t s
            = ({ s with
                  buffer := { codes := s.buffer.codes, head := 0, count := 0 }
                  current_attack_target_idx := tidx }, some (-1))) ∧
    (∀ (sel : Nat) (s : WorkerState), ¬ (sel = 4 ∨ sel = 5) →
        debruijnOversize (targetAt sel) →
          ((opensesame_worker_debruijn sel none s).2 = -1 ∧
           (opensesame_worker_debruijn sel none s).1.codes_transmitted
             = s.codes_transmitted ∧
           (opensesame_worker_debruijn sel none s).1.transmitted = s.transmitted)) ∧
    (∀ t : OpenSesameTarget, ¬ debruijnOversize t →
        (if t.trinary then 3 else 2) ^ t.bits ≤ 10000) ∧
    (∀ (stopAt : Option Nat) (tidx : Nat) (t : OpenSesameTarget) (s : WorkerState),
        keyspaceOversize t →
          compatTargetBody stopAt tidx t s
            = { s with current_attack_target_idx := tidx }) := by
  refine ⟨?_, ?_, ?_, ?_, ?_⟩
  · intro stopAt tidx t s hov
    rw [debruijnTargetBody_oversize stopAt false tidx t s hov]
    rfl
  · intro stopAt tidx t s hov
    rw [debruijnTargetBody_oversize stopAt true tidx t s hov]
    rfl
  · intro sel s hmeta hov
    have hne : sel ≠ 4 ∧ sel ≠ 5 :=
      ⟨fun h => hmeta (Or.inl h), fun h => hmeta (Or.inr h)⟩
    have hsingle : (!(sel == 4 || sel == 5)) = true := by
      simp [hne.1, hne.2]
    have hrange : sweepRange sel = [sel] := by
      unfold sweepRange
      rw [if_neg hne.2, if_neg hne.1]
    have hb : (debruijnTargetBody none true sel (targetAt sel)
        { s with polls := s.polls + 1 }).2 = some (-1) := by
      rw [debruijnTargetBody_oversize none true sel (targetAt sel) _ hov]
      rfl
    unfold opensesame_worker_debruijn
    rw [hsingle, hrange]
    rw [debruijnSweep_cons_some none true sel [] s (-1) hmeta
      (fun c hc => by cases hc) hb]
    rw [debruijnTargetBody_oversize none true sel (targetAt sel) _ hov]
    exact ⟨rfl, rfl, rfl⟩
  · intro t h
    exact debruijn_pow_le_ceiling t h
  · intro stopAt tidx t s hov
    exact compatTargetBody_oversize stopAt tidx t s hov

/-- C6 witness: catalog target 37 (binary, 14 bits) is over the de Bruijn
bound; target 0 is in bounds; a 32-bit profile trips the compatibility
bound. -/
theorem claim_C6_witness :
    debruijnOversize (targetAt 37) ∧
    (debruijnTargetBody none false 9 (targetAt 37) initialWorkerState
      = ({ initialWorkerState with
            buffer := { codes := initialWorkerState.buffer.codes, head := 0, count := 0 }
            current_attack_target_idx := 9 }, none)) ∧
    (debruijnTargetBody none true 9 (targetAt 37) initialWorkerState
      = ({ initialWorkerState with
            buffer := { codes := initialWorkerState.buffer.codes, head := 0, count := 0 }
            current_attack_target_idx := 9 }, some (-1))) ∧
    (¬ ((37:Nat) = 4 ∨ (37:Nat) = 5) ∧
      (opensesame_worker_debruijn 37 none initialWorkerState).2 = -1) ∧
    (¬ debruijnOversize (targetAt 0) ∧
      (if (targetAt 0).trinary then 3 else 2) ^ (targetAt 0).bits ≤ 10000) ∧
    (keyspaceOversize (binTarget 310000000 32) ∧
      compatTargetBody none 3 (binTarget 310000000 32) initialWorkerState
        = { initialWorkerState with current_attack_target_idx := 3 }) :=
  ⟨by decide,
   claim_C6.1 none 9 (targetAt 37) initialWorkerState (by decide),
   claim_C6.2.1 none 9 (targetAt 37) initialWorkerState (by decide),
   ⟨by decide,
    (claim_C6.2.2.1 37 initialWorkerState (by decide) (by decide)).1⟩,
   ⟨by decide, claim_C6.2.2.2.1 (targetAt 0) (by decide)⟩,
   ⟨by decide,
    claim_C6.2.2.2.2 none 3 (binTarget 310000000 32) initialWorkerState (by decide)⟩⟩

/-- With `divisor = 0` (the over-31-bit guard of `opensesame_generate_payload`)
the divisor chain is frozen, so every step reads the same truncated byte:
codes agreeing modulo 256 produce identical payloads. -/
theorem payloadLoop_frozen (t : OpenSesameTarget) (base : Nat) :
    ∀ (r c1 c2 : Nat) (buf : List Nat) (idx : Nat), c1 % 256 = c2 % 256 →
      payloadLoop t base r c1 0 buf idx = payloadLoop t base r c2 0 buf idx := by
  intro r
  induction r with
  | zero =>
    intro c1 c2 buf idx _
    rfl
  | succ r ih =>
    intro c1 c2 buf idx h
    unfold payloadLoop
    simp only [if_neg (Nat.lt_irrefl 0)]
    rw [h]
    exact ih c1 c2 _ _ h

/-- C7 (amended): the payload encoder never signals failure.  It always
emits a full-size payload; when the keyspace does not fit 32-bit arithmetic
the source freezes `divisor` at 0 and every digit is read from the same
truncated byte, so codes agreeing modulo 256 produce identical (incorrect)
payloads; the 32-bit bound is instead enforced by the workers, which skip
such targets without encoding anything. -/
theorem claim_C7 :
    (∀ (t : OpenSesameTarget) (sz code : Nat),
        (opensesame_generate_payload code t sz).length = sz) ∧
    (∀ (t : OpenSesameTarget) (sz c1 c2 : Nat), keyspaceOversize t →
        c1 % 256 = c2 % 256 →
        opensesame_generate_payload c1 t sz = opensesame_generate_payload c2 t sz) ∧
    (∀ (stopAt : Option Nat) (tidx : Nat) (t : OpenSesameTarget) (s : WorkerState),
        keyspaceOversize t →
          compatTargetBody stopAt tidx t s
            = { s with current_attack_target_idx := tidx }) := by
  refine ⟨?_, ?_, ?_⟩
  · intro t sz code
    unfold opensesame_generate_payload
    rw [payloadLoop_length]
    simp
  · intro t sz c1 c2 hov h
    have hbits : 0 < t.bits := by
      unfold keyspaceOversize at hov
      rcases hov with ⟨h1, h2⟩ | ⟨h1, h2⟩ <;> omega
    unfold opensesame_generate_payload
    rw [if_pos hbits,
      if_pos (show (t.trinary = false ∧ 31 < t.bits) ∨ (t.trinary = true ∧ 19 < t.bits)
        from hov)]
    exact payloadLoop_frozen t (if t.trinary then 3 else 2) t.bits c1 c2 _ 0 h
  · intro stopAt tidx t s hov
    exact compatTargetBody_oversize stopAt tidx t s hov

/-- C7 witness: target 0 encodes in full; a 32-bit profile encodes codes 2 and
258 identically instead of failing; the compatibility worker skips it. -/
theorem claim_C7_witness :
    ((opensesame_generate_payload 523 (targetAt 0) 8).length = 8) ∧
    (keyspaceOversize (binTarget 310000000 32) ∧ (2:Nat) % 256 = 258 % 256 ∧
      opensesame_generate_payload 2 (binTarget 310000000 32) 16
        = opensesame_generate_payload 258 (binTarget 310000000 32) 16) ∧
    (keyspaceOversize (binTarget 310000000 32) ∧
      compatTargetBody none 7 (binTarget 310000000 32) initialWorkerState
        = { initialWorkerState with current_attack_target_idx := 7 }) :=
  ⟨claim_C7.1 (targetAt 0) 8 523,
   ⟨by decide, by decide,
    claim_C7.2.1 (binTarget 310000000 32) 16 2 258 (by decide) (by decide)⟩,
   ⟨by decide,
    claim_C7.2.2 none 7 (binTarget 310000000 32) initialWorkerState (by decide)⟩⟩

/-! ### The aggregate `max_code` dominates every sweep total -/

/-- Stream and Replay apply the same per-target bound as Compatibility, so
all non-de-Bruijn sweep totals agree with the Compatibility one. -/
theorem sweepTotal_eq_compat (mode : AttackMode) (hm : mode ≠ AttackMode.DeBruijn) :
    ∀ (l : List Nat), sweepTotal mode l = sweepTotal AttackMode.Compatibility l := by
  intro l
  induction l with
  | nil => rfl
  | cons a l ih =>
    have hc : sweepContribution mode a = sweepContribution AttackMode.Compatibility a := by
      unfold sweepContribution
      by_cases hmeta : a = 4 ∨ a = 5
      · rw [if_pos hmeta, if_pos hmeta]
      · rw [if_neg hmeta, if_neg hmeta,
          maxCodeContribution_of_ne_debruijn mode _ hm,
          maxCodeContribution_of_ne_debruijn AttackMode.Compatibility _ (by intro h; cases h)]
    show sweepContribution mode a + sweepTotal mode l
        = sweepContribution AttackMode.Compatibility a + sweepTotal AttackMode.Compatibility l
    rw [hc, ih]

/-- For every selection, the non-de-Bruijn `max_code` equals the sweep total
it will be compared against. -/
theorem opensesame_max_code_eq_total (mode : AttackMode) (hm : mode ≠ AttackMode.DeBruijn)
    (sel : Nat) :
    opensesame_max_code mode sel = sweepTotal mode (sweepRange sel) := by
  by_cases h4 : sel = 4
  · subst h4
    exact opensesame_max_code_meta mode 4 (Or.inl rfl)
  · by_cases h5 : sel = 5
    · subst h5
      exact opensesame_max_code_meta mode 5 (Or.inr rfl)
    · have hmeta : ¬ (sel = 4 ∨ sel = 5) := fun h => h.elim h4 h5
      unfold opensesame_max_code sweepRange
      rw [if_neg h4, if_neg h5, if_neg h5, if_neg h4]
      show _ = sweepContribution mode sel + 0
      unfold sweepContribution
      rw [if_neg hmeta, maxCodeContribution_of_ne_debruijn mode _ hm]
      omega

/-- The de Bruijn sweep total never exceeds the displayed `max_code` (for a
single target over the de Bruijn bound but within 32 bits, `max_code` is the
full keyspace while the sweep aborts at 0 codes). -/
theorem sweepTotal_debruijn_le (sel : Nat) :
    sweepTotal AttackMode.DeBruijn (sweepRange sel)
      ≤ opensesame_max_code AttackMode.DeBruijn sel := by
  by_cases h4 : sel = 4
  · subst h4
    rw [opensesame_max_code_meta AttackMode.DeBruijn 4 (Or.inl rfl)]
  · by_cases h5 : sel = 5
    · subst h5
      rw [opensesame_max_code_meta AttackMode.DeBruijn 5 (Or.inr rfl)]
    · have hmeta : ¬ (sel = 4 ∨ sel = 5) := fun h => h.elim h4 h5
      unfold opensesame_max_code sweepRange
      rw [if_neg h4, if_neg h5, if_neg h5, if_neg h4]
      show sweepContribution AttackMode.DeBruijn sel + 0 ≤ _
      unfold sweepContribution
      rw [if_neg hmeta, maxCodeContribution_debruijn]
      by_cases hov : debruijnOversize (targetAt sel)
      · rw [if_pos hov]
        omega
      · rw [if_neg hov,
          if_neg (fun hks => hov (keyspaceOversize_debruijn (targetAt sel) hks))]
        omega

/-- `opensesame_worker_thread` in Replay mode, with the result tuple written
out. -/
theorem opensesame_worker_thread_replay (sel : Nat) (stopAt : Option Nat)
    (saved_code : List Nat) (save_requested : Bool) (s0 : WorkerState) :
    opensesame_worker_thread AttackMode.Replay sel stopAt saved_code save_requested s0
      = ((opensesame_worker_replay sel stopAt saved_code
            { s0 with
              current_attack_target_idx := sel
              buffer := { codes := s0.buffer.codes, head := 0, count := 0 }
              max_code := opensesame_max_code AttackMode.Replay sel }).1,
         (opensesame_worker_replay sel stopAt saved_code
            { s0 with
              current_attack_target_idx := sel
              buffer := { codes := s0.buffer.codes, head := 0, count := 0 }
              max_code := opensesame_max_code AttackMode.Replay sel }).2,
         if save_requested ∧
             (opensesame_worker_replay sel stopAt saved_code
               { s0 with
              current_attack_target_idx := sel
              buffer := { codes := s0.buffer.codes, head := 0, count := 0 }
              max_code := opensesame_max_code AttackMode.Replay sel }).1.current_attack_target_idx < 4 ∧
             0 < (opensesame_worker_replay sel stopAt saved_code
               { s0 with
              current_attack_target_idx := sel
              buffer := { codes := s0.buffer.codes, head := 0, count := 0 }
              max_code := opensesame_max_code AttackMode.Replay sel }).1.buffer.count then
           saved_code.set
             (opensesame_worker_replay sel stopAt saved_code
               { s0 with
              current_attack_target_idx := sel
              buffer := { codes := s0.buffer.codes, head := 0, count := 0 }
              max_code := opensesame_max_code AttackMode.Replay sel }).1.current_attack_target_idx
             ((opensesame_worker_replay sel stopAt saved_code
               { s0 with
              current_attack_target_idx := sel
              buffer := { codes := s0.buffer.codes, head := 0, count := 0 }
              max_code := opensesame_max_code AttackMode.Replay sel }).1.buffer.codes.getD
               (opensesame_worker_replay sel stopAt saved_code
                 { s0 with
              current_attack_target_idx := sel
              buffer := { codes := s0.buffer.codes, head := 0, count := 0 }
              max_code := opensesame_max_code AttackMode.Replay sel }).1.buffer.head 0)
         else saved_code) := rfl

/-- The replay worker either rejects the request (state untouched) or runs
the 5-shot loop with `max_code = 5` and at most 5 transmissions. -/
theorem opensesame_worker_replay_cases (sel : Nat) (stopAt : Option Nat)
    (saved_code : List Nat) (s : WorkerState) :
    (opensesame_worker_replay sel stopAt saved_code s).1 = s ∨
    ((opensesame_worker_replay sel stopAt saved_code s).1.codes_transmitted ≤ 5 ∧
     (opensesame_worker_replay sel stopAt saved_code s).1.max_code = 5) := by
  unfold opensesame_worker_replay
  by_cases h4 : 4 ≤ sel
  · rw [if_pos h4]
    exact Or.inl rfl
  · rw [if_neg h4]
    by_cases hz : saved_code.getD sel 0 = 0
    · rw [if_pos hz]
      exact Or.inl rfl
    · rw [if_neg hz]
      obtain ⟨hr1, hr2⟩ := replayLoop_le stopAt sel (saved_code.getD sel 0) 5
        { s with
          current_code := saved_code.getD sel 0
          max_code := 5
          codes_transmitted := 0 }
      refine Or.inr ⟨?_, ?_⟩
      · show (replayLoop stopAt sel (saved_code.getD sel 0) 5 _).codes_transmitted ≤ 5
        refine Nat.le_trans hr1 ?_
        show 0 + 5 ≤ 5
        omega
      · show (replayLoop stopAt sel (saved_code.getD sel 0) 5 _).max_code = 5
        rw [hr2]

/-- C9: the run invariant and cooperative cancellation.  Whatever the stop
schedule, a completed or cancelled run ends with
`codes_transmitted ≤ max_code` (in Replay mode also `≤ 5`); and once the
flag is up, every worker observes it at its first poll and transmits
nothing further. -/
theorem claim_C9 :
    (∀ (mode : AttackMode) (sel : Nat) (stopAt : Option Nat) (saved_code : List Nat)
        (save_requested : Bool),
        (opensesame_worker_thread mode sel stopAt saved_code save_requested
            initialWorkerState).1.codes_transmitted
          ≤ (opensesame_worker_thread mode sel stopAt saved_code save_requested
              initialWorkerState).1.max_code) ∧
    (∀ (sel : Nat) (stopAt : Option Nat) (saved_code : List Nat) (s : WorkerState),
        s.codes_transmitted = 0 →
        (opensesame_worker_replay sel stopAt saved_code s).1.codes_transmitted ≤ 5) ∧
    (∀ (c sel : Nat) (s : WorkerState), c ≤ s.polls →
        (compatSweep (some c) (sweepRange sel) s).transmitted = s.transmitted ∧
        (compatSweep (some c) (sweepRange sel) s).codes_transmitted
          = s.codes_transmitted) ∧
    (∀ (c sel : Nat) (single : Bool) (s : WorkerState), c ≤ s.polls →
        (debruijnSweep (some c) single (sweepRange sel) s).1.transmitted
          = s.transmitted ∧
        (debruijnSweep (some c) single (sweepRange sel) s).1.codes_transmitted
          = s.codes_transmitted) ∧
    (∀ (c tidx code fuel : Nat) (s : WorkerState), c ≤ s.polls →
        (replayLoop (some c) tidx code fuel s).transmitted = s.transmitted ∧
        (replayLoop (some c) tidx code fuel s).codes_transmitted
          = s.codes_transmitted) := by
  refine ⟨?_, ?_, ?_, ?_, ?_⟩
  · intro mode sel stopAt saved_code save_requested
    cases mode with
    | Compatibility =>
      have hT : (opensesame_worker_thread AttackMode.Compatibility sel stopAt saved_code
          save_requested initialWorkerState).1
          = compatSweep stopAt (sweepRange sel)
              { initialWorkerState with
          current_attack_target_idx := sel
          buffer := { codes := initialWorkerState.buffer.codes, head := 0, count := 0 }
          max_code := opensesame_max_code AttackMode.Compatibility sel } := rfl
      rw [hT]
      obtain ⟨h1, h2⟩ := compatSweep_le stopAt (sweepRange sel)
        { initialWorkerState with
          current_attack_target_idx := sel
          buffer := { codes := initialWorkerState.buffer.codes, head := 0, count := 0 }
          max_code := opensesame_max_code AttackMode.Compatibility sel }
      rw [h2]
      refine Nat.le_trans h1 ?_
      show 0 + sweepTotal AttackMode.Compatibility (sweepRange sel)
          ≤ opensesame_max_code AttackMode.Compatibility sel
      rw [opensesame_max_code_eq_total AttackMode.Compatibility (by intro h; cases h) sel]
      omega
    | Stream =>
      have hT : (opensesame_worker_thread AttackMode.Stream sel stopAt saved_code
          save_requested initialWorkerState).1
          = compatSweep stopAt (sweepRange sel)
              { initialWorkerState with
          current_attack_target_idx := sel
          buffer := { codes := initialWorkerState.buffer.codes, head := 0, count := 0 }
          max_code := opensesame_max_code AttackMode.Stream sel } := rfl
      rw [hT]
      obtain ⟨h1, h2⟩ := compatSweep_le stopAt (sweepRange sel)
        { initialWorkerState with
          current_attack_target_idx := sel
          buffer := { codes := initialWorkerState.buffer.codes, head := 0, count := 0 }
          max_code := opensesame_max_code AttackMode.Stream sel }
      rw [h2]
      refine Nat.le_trans h1 ?_
      show 0 + sweepTotal AttackMode.Compatibility (sweepRange sel)
          ≤ opensesame_max_code AttackMode.Stream sel
      rw [opensesame_max_code_eq_total AttackMode.Stream (by intro h; cases h) sel,
        sweepTotal_eq_compat AttackMode.Stream (by intro h; cases h)]
      omega
    | DeBruijn =>
      rw [opensesame_worker_thread_debruijn sel stopAt saved_code save_requested
        initialWorkerState]
      simp only []
      rw [opensesame_worker_debruijn_def sel stopAt]
      obtain ⟨h1, h2⟩ := debruijnSweep_le stopAt (!(sel == 4 || sel == 5)) (sweepRange sel)
        { initialWorkerState with
          current_attack_target_idx := sel
          buffer := { codes := initialWorkerState.buffer.codes, head := 0, count := 0 }
          max_code := opensesame_max_code AttackMode.DeBruijn sel }
      rw [h2]
      refine Nat.le_trans h1 ?_
      show 0 + sweepTotal AttackMode.DeBruijn (sweepRange sel)
          ≤ opensesame_max_code AttackMode.DeBruijn sel
      have hle := sweepTotal_debruijn_le sel
      omega
    | Replay =>
      rw [opensesame_worker_thread_replay sel stopAt saved_code save_requested
        initialWorkerState]
      simp only []
      rcases opensesame_worker_replay_cases sel stopAt saved_code
        { initialWorkerState with
          current_attack_target_idx := sel
          buffer := { codes := initialWorkerState.buffer.codes, head := 0, count := 0 }
          max_code := opensesame_max_code AttackMode.Replay sel } with h | ⟨h1, h2⟩
      · rw [h]
        exact Nat.zero_le _
      · rw [h2]
        exact h1
  · intro sel stopAt saved_code s hz
    rcases opensesame_worker_replay_cases sel stopAt saved_code s with h | ⟨h1, -⟩
    · rw [h, hz]
      omega
    · exact h1
  · intro c sel s hc
    exact compatSweep_flag_up c (sweepRange sel) s hc
  · intro c sel single s hc
    exact debruijnSweep_flag_up c single (sweepRange sel) s hc
  · intro c tidx code fuel s hc
    exact replayLoop_flag_up c tidx code fuel s hc

/-- C9 witness: concrete stop schedules on catalog targets. -/
theorem claim_C9_witness :
    ((opensesame_worker_thread AttackMode.Compatibility 0 (some 3) [] false
        initialWorkerState).1.codes_transmitted
      ≤ (opensesame_worker_thread AttackMode.Compatibility 0 (some 3) [] false
          initialWorkerState).1.max_code) ∧
    (initialWorkerState.codes_transmitted = 0 ∧
      (opensesame_worker_replay 0 (some 3) [7] initialWorkerState).1.codes_transmitted
        ≤ 5) ∧
    ((0:Nat) ≤ initialWorkerState.polls ∧
      (compatSweep (some 0) (sweepRange 2) initialWorkerState).transmitted
        = initialWorkerState.transmitted) ∧
    ((0:Nat) ≤ initialWorkerState.polls ∧
      (debruijnSweep (some 0) true (sweepRange 2) initialWorkerState).1.codes_transmitted
        = initialWorkerState.codes_transmitted) ∧
    ((0:Nat) ≤ initialWorkerState.polls ∧
      (replayLoop (some 0) 1 9 5 initialWorkerState).transmitted
        = initialWorkerState.transmitted) :=
  ⟨claim_C9.1 AttackMode.Compatibility 0 (some 3) [] false,
   ⟨rfl, claim_C9.2.1 0 (some 3) [7] initialWorkerState rfl⟩,
   ⟨Nat.zero_le _, (claim_C9.2.2.1 0 2 initialWorkerState (Nat.zero_le _)).1⟩,
   ⟨Nat.zero_le _, (claim_C9.2.2.2.1 0 2 true initialWorkerState (Nat.zero_le _)).2⟩,
   ⟨Nat.zero_le _, (claim_C9.2.2.2.2 0 1 9 5 initialWorkerState (Nat.zero_le _)).1⟩⟩

/-- `opensesame_worker_thread` with its result tuple written out; valid for
every mode. -/
theorem opensesame_worker_thread_parts (mode : AttackMode) (sel : Nat)
    (stopAt : Option Nat) (saved_code : List Nat) (save_requested : Bool)
    (s0 : WorkerState) :
    opensesame_worker_thread mode sel stopAt saved_code save_requested s0
      = ((opensesame_worker_thread mode sel stopAt saved_code save_requested s0).1,
         (opensesame_worker_thread mode sel stopAt saved_code save_requested s0).2.1,
         if save_requested ∧
             (opensesame_worker_thread mode sel stopAt saved_code save_requested
               s0).1.current_attack_target_idx < 4 ∧
             0 < (opensesame_worker_thread mode sel stopAt saved_code save_requested
               s0).1.buffer.count then
           saved_code.set
             (opensesame_worker_thread mode sel stopAt saved_code save_requested
               s0).1.current_attack_target_idx
             ((opensesame_worker_thread mode sel stopAt saved_code save_requested
               s0).1.buffer.codes.getD
               (opensesame_worker_thread mode sel stopAt saved_code save_requested
                 s0).1.buffer.head 0)
         else saved_code) := rfl

/-- The per-target body when the flag is already up at its first poll: one
poll, nothing transmitted. -/
theorem compatTargetBody_stopped (c : Nat) (tidx : Nat) (t : OpenSesameTarget)
    (s : WorkerState) (hok : ¬ keyspaceOversize t) (h : c ≤ s.polls) :
    compatTargetBody (some c) tidx t s
      = { s with current_attack_target_idx := tidx, polls := s.polls + 1 } := by
  have hpos : 0 < (if t.trinary then 3 else 2) ^ t.bits :=
    Nat.pos_pow_of_pos _ (by split <;> omega)
  obtain ⟨f, hf⟩ : ∃ f, (if t.trinary then 3 else 2) ^ t.bits = f + 1 :=
    ⟨(if t.trinary then 3 else 2) ^ t.bits - 1, by omega⟩
  unfold compatTargetBody
  rw [if_neg hok, if_neg (by omega), hf]
  rw [compatCodeLoop_stopped c tidx f 0 { s with current_attack_target_idx := tidx } h]

theorem pushList_append (b : CodeBuffer) (l1 l2 : List Nat) :
    pushList (pushList b l1) l2 = pushList b (l1 ++ l2) := by
  unfold pushList
  rw [List.foldl_append]

/-- With the flag already up, the compatibility sweep changes nothing but the
poll counter. -/
theorem compatSweep_flag_up_all (c : Nat) :
    ∀ (l : List Nat) (s : WorkerState), c ≤ s.polls →
      ((compatSweep (some c) l s).transmitted = s.transmitted ∧
       (compatSweep (some c) l s).codes_transmitted = s.codes_transmitted ∧
       (compatSweep (some c) l s).buffer = s.buffer ∧
       (compatSweep (some c) l s).current_attack_target_idx
         = s.current_attack_target_idx ∧
       (compatSweep (some c) l s).max_code = s.max_code) := by
  intro l
  induction l with
  | nil =>
    intro s _
    unfold compatSweep
    exact ⟨rfl, rfl, rfl, rfl, rfl⟩
  | cons tidx rest ih =>
    intro s hc
    by_cases hmeta : tidx = 4 ∨ tidx = 5
    · rw [compatSweep_meta (some c) tidx rest s hmeta]
      exact ih s hc
    · rw [compatSweep_stopped c tidx rest s hmeta hc]
      exact ⟨rfl, rfl, rfl, rfl, rfl⟩

theorem compatSweep_stop_idx (c : Nat) (l : List Nat) (s : WorkerState)
    (h : c ≤ s.polls) :
    (compatSweep (some c) l s).current_attack_target_idx
      = s.current_attack_target_idx :=
  (compatSweep_flag_up_all c l s h).2.2.2.1

theorem compatSweep_stop_buffer (c : Nat) (l : List Nat) (s : WorkerState)
    (h : c ≤ s.polls) :
    (compatSweep (some c) l s).buffer = s.buffer :=
  (compatSweep_flag_up_all c l s h).2.2.1

theorem compatSweep_stop_codes (c : Nat) (l : List Nat) (s : WorkerState)
    (h : c ≤ s.polls) :
    (compatSweep (some c) l s).codes_transmitted = s.codes_transmitted :=
  (compatSweep_flag_up_all c l s h).2.1

/-- Definitional equation of the compatibility worker entry point. -/
theorem opensesame_worker_compatibility_def (sel : Nat) (stopAt : Option Nat)
    (s : WorkerState) :
    opensesame_worker_compatibility sel stopAt s
      = compatSweep stopAt (sweepRange sel) s := rfl

/-- `opensesame_worker_thread` in Compatibility mode, with the result tuple
written out. -/
theorem opensesame_worker_thread_compat (sel : Nat) (stopAt : Option Nat)
    (saved_code : List Nat) (save_requested : Bool) (s0 : WorkerState) :
    opensesame_worker_thread AttackMode.Compatibility sel stopAt saved_code
        save_requested s0
      = (opensesame_worker_compatibility sel stopAt
            { s0 with
              current_attack_target_idx := sel
              buffer := { codes := s0.buffer.codes, head := 0, count := 0 }
              max_code := opensesame_max_code AttackMode.Compatibility sel },
         0,
         if save_requested ∧
             (opensesame_worker_compatibility sel stopAt
               { s0 with
              current_attack_target_idx := sel
              buffer := { codes := s0.buffer.codes, head := 0, count := 0 }
              max_code := opensesame_max_code AttackMode.Compatibility sel }).current_attack_target_idx < 4 ∧
             0 < (opensesame_worker_compatibility sel stopAt
               { s0 with
              current_attack_target_idx := sel
              buffer := { codes := s0.buffer.codes, head := 0, count := 0 }
              max_code := opensesame_max_code AttackMode.Compatibility sel }).buffer.count then
           saved_code.set
             (opensesame_worker_compatibility sel stopAt
               { s0 with
              current_attack_target_idx := sel
              buffer := { codes := s0.buffer.codes, head := 0, count := 0 }
              max_code := opensesame_max_code AttackMode.Compatibility sel }).current_attack_target_idx
             ((opensesame_worker_compatibility sel stopAt
               { s0 with
              current_attack_target_idx := sel
              buffer := { codes := s0.buffer.codes, head := 0, count := 0 }
              max_code := opensesame_max_code AttackMode.Compatibility sel }).buffer.codes.getD
               (opensesame_worker_compatibility sel stopAt
                 { s0 with
              current_attack_target_idx := sel
              buffer := { codes := s0.buffer.codes, head := 0, count := 0 }
              max_code := opensesame_max_code AttackMode.Compatibility sel }).buffer.head 0)
         else saved_code) := rfl

theorem c8_R0_eq : c8_R0
    = { polls := ({ c8_s1 with polls := c8_s1.polls + 1 } : WorkerState).polls
          + (if (targetAt 0).trinary then 3 else 2) ^ (targetAt 0).bits
        codes_transmitted :=
          ({ c8_s1 with polls := c8_s1.polls + 1 } : WorkerState).codes_transmitted
          + (if (targetAt 0).trinary then 3 else 2) ^ (targetAt 0).bits
        current_code := 0 + ((if (targetAt 0).trinary then 3 else 2) ^ (targetAt 0).bits - 1)
        max_code := ({ c8_s1 with polls := c8_s1.polls + 1 } : WorkerState).max_code
        buffer := pushList ({ c8_s1 with polls := c8_s1.polls + 1 } : WorkerState).buffer
          (List.range' 0 ((if (targetAt 0).trinary then 3 else 2) ^ (targetAt 0).bits))
        current_attack_target_idx := 0
        transmitted := ({ c8_s1 with polls := c8_s1.polls + 1 } : WorkerState).transmitted
          ++ (List.range' 0 ((if (targetAt 0).trinary then 3 else 2) ^ (targetAt 0).bits)).map
              (fun c => (0, c)) } := by
  unfold c8_R0
  exact compatTargetBody_run (some 8614) 0 (targetAt 0)
    { c8_s1 with polls := c8_s1.polls + 1 } (by decide)
    (fun c' hc => by cases hc; decide)

theorem c8_R0_polls : c8_R0.polls = 1025 := by
  rw [c8_R0_eq]
  simp only []
  decide

theorem c8_R0_codes : c8_R0.codes_transmitted = 1024 := by
  rw [c8_R0_eq]
  simp only []
  decide

theorem c8_R0_buffer : c8_R0.buffer = pushList emptyBuffer (List.range' 0 1024) := by
  rw [c8_R0_eq]
  simp only []
  rfl

theorem c8_R1_eq : c8_R1
    = { polls := ({ c8_R0 with polls := c8_R0.polls + 1 } : WorkerState).polls
          + (if (targetAt 1).trinary then 3 else 2) ^ (targetAt 1).bits
        codes_transmitted :=
          ({ c8_R0 with polls := c8_R0.polls + 1 } : WorkerState).codes_transmitted
          + (if (targetAt 1).trinary then 3 else 2) ^ (targetAt 1).bits
        current_code := 0 + ((if (targetAt 1).trinary then 3 else 2) ^ (targetAt 1).bits - 1)
        max_code := ({ c8_R0 with polls := c8_R0.polls + 1 } : WorkerState).max_code
        buffer := pushList ({ c8_R0 with polls := c8_R0.polls + 1 } : WorkerState).buffer
          (List.range' 0 ((if (targetAt 1).trinary then 3 else 2) ^ (targetAt 1).bits))
        current_attack_target_idx := 1
        transmitted := ({ c8_R0 with polls := c8_R0.polls + 1 } : WorkerState).transmitted
          ++ (List.range' 0 ((if (targetAt 1).trinary then 3 else 2) ^ (targetAt 1).bits)).map
              (fun c => (1, c)) } := by
  unfold c8_R1
  exact compatTargetBody_run (some 8614) 1 (targetAt 1)
    { c8_R0 with polls := c8_R0.polls + 1 } (by decide)
    (fun c' hc => by cases hc; simp only []; rw [c8_R0_polls]; decide)

theorem c8_R1_polls : c8_R1.polls = 7587 := by
  rw [c8_R1_eq]
  simp only []
  rw [c8_R0_polls]
  decide

theorem c8_R1_codes : c8_R1.codes_transmitted = 7585 := by
  rw [c8_R1_eq]
  simp only []
  rw [c8_R0_codes]
  decide

theorem c8_R1_buffer : c8_R1.buffer = pushList (pushList emptyBuffer (List.range' 0 1024)) (List.range' 0 6561) := by
  rw [c8_R1_eq]
  simp only []
  rw [c8_R0_buffer]
  rfl

theorem c8_R2_eq : c8_R2
    = { polls := ({ c8_R1 with polls := c8_R1.polls + 1 } : WorkerState).polls
          + (if (targetAt 2).trinary then 3 else 2) ^ (targetAt 2).bits
        codes_transmitted :=
          ({ c8_R1 with polls := c8_R1.polls + 1 } : WorkerState).codes_transmitted
          + (if (targetAt 2).trinary then 3 else 2) ^ (targetAt 2).bits
        current_code := 0 + ((if (targetAt 2).trinary then 3 else 2) ^ (targetAt 2).bits - 1)
        max_code := ({ c8_R1 with polls := c8_R1.polls + 1 } : WorkerState).max_code
        buffer := pushList ({ c8_R1 with polls := c8_R1.polls + 1 } : WorkerState).buffer
          (List.range' 0 ((if (targetAt 2).trinary then 3 else 2) ^ (targetAt 2).bits))
        current_attack_target_idx := 2
        transmitted := ({ c8_R1 with polls := c8_R1.polls + 1 } : WorkerState).transmitted
          ++ (List.range' 0 ((if (targetAt 2).trinary then 3 else 2) ^ (targetAt 2).bits)).map
              (fun c => (2, c)) } := by
  unfold c8_R2
  exact compatTargetBody_run (some 8614) 2 (targetAt 2)
    { c8_R1 with polls := c8_R1.polls + 1 } (by decide)
    (fun c' hc => by cases hc; simp only []; rw [c8_R1_polls]; decide)

theorem c8_R2_polls : c8_R2.polls = 8100 := by
  rw [c8_R2_eq]
  simp only []
  rw [c8_R1_polls]
  decide

theorem c8_R2_codes : c8_R2.codes_transmitted = 8097 := by
  rw [c8_R2_eq]
  simp only []
  rw [c8_R1_codes]
  decide

theorem c8_R2_buffer : c8_R2.buffer = pushList (pushList (pushList emptyBuffer (List.range' 0 1024)) (List.range' 0 6561)) (List.range' 0 512) := by
  rw [c8_R2_eq]
  simp only []
  rw [c8_R1_buffer]
  rfl

theorem c8_R3_eq : c8_R3
    = { polls := ({ c8_R2 with polls := c8_R2.polls + 1 } : WorkerState).polls
          + (if (targetAt 3).trinary then 3 else 2) ^ (targetAt 3).bits
        codes_transmitted :=
          ({ c8_R2 with polls := c8_R2.polls + 1 } : WorkerState).codes_transmitted
          + (if (targetAt 3).trinary then 3 else 2) ^ (targetAt 3).bits
        current_code := 0 + ((if (targetAt 3).trinary then 3 else 2) ^ (targetAt 3).bits - 1)
        max_code := ({ c8_R2 with polls := c8_R2.polls + 1 } : WorkerState).max_code
        buffer := pushList ({ c8_R2 with polls := c8_R2.polls + 1 } : WorkerState).buffer
          (List.range' 0 ((if (targetAt 3).trinary then 3 else 2) ^ (targetAt 3).bits))
        current_attack_target_idx := 3
        transmitted := ({ c8_R2 with polls := c8_R2.polls + 1 } : WorkerState).transmitted
          ++ (List.range' 0 ((if (targetAt 3).trinary then 3 else 2) ^ (targetAt 3).bits)).map
              (fun c => (3, c)) } := by
  unfold c8_R3
  exact compatTargetBody_run (some 8614) 3 (targetAt 3)
    { c8_R2 with polls := c8_R2.polls + 1 } (by decide)
    (fun c' hc => by cases hc; simp only []; rw [c8_R2_polls]; decide)

theorem c8_R3_polls : c8_R3.polls = 8613 := by
  rw [c8_R3_eq]
  simp only []
  rw [c8_R2_polls]
  decide

theorem c8_R3_codes : c8_R3.codes_transmitted = 8609 := by
  rw [c8_R3_eq]
  simp only []
  rw [c8_R2_codes]
  decide

theorem c8_R3_buffer : c8_R3.buffer = pushList (pushList (pushList (pushList emptyBuffer (List.range' 0 1024)) (List.range' 0 6561)) (List.range' 0 512)) (List.range' 0 512) := by
  rw [c8_R3_eq]
  simp only []
  rw [c8_R2_buffer]
  rfl

theorem c8_B6_eq : c8_B6
    = { { c8_R3 with polls := c8_R3.polls + 1 } with
        current_attack_target_idx := 6
        polls := ({ c8_R3 with polls := c8_R3.polls + 1 } : WorkerState).polls + 1 } := by
  unfold c8_B6
  exact compatTargetBody_stopped 8614 6 (targetAt 6)
    { c8_R3 with polls := c8_R3.polls + 1 } (by decide)
    (by simp only []; rw [c8_R3_polls])

theorem c8_B6_idx : c8_B6.current_attack_target_idx = 6 := by
  rw [c8_B6_eq]

theorem c8_B6_polls : c8_B6.polls = 8615 := by
  rw [c8_B6_eq]
  simp only []
  rw [c8_R3_polls]

theorem c8_B6_codes : c8_B6.codes_transmitted = 8609 := by
  rw [c8_B6_eq]
  simp only []
  rw [c8_R3_codes]

theorem c8_B6_count : c8_B6.buffer.count = 320 := by
  have hbuf : c8_B6.buffer = c8_R3.buffer := by
    rw [c8_B6_eq]
  rw [hbuf, c8_R3_buffer, pushList_append, pushList_append, pushList_append]
  obtain ⟨-, hcnt, -, -⟩ := bufferInv_pushList
    (List.range' 0 1024 ++ (List.range' 0 6561 ++ (List.range' 0 512
      ++ List.range' 0 512)))
  rw [hcnt]
  rw [List.length_append, List.length_append, List.length_append,
    List.length_range', List.length_range', List.length_range']
  decide

/-- The whole Generic (Brute) compatibility sweep under a stop flag raised
from poll 8614 on: targets 0-3 run to completion, the meta slots are
skipped, target 6 is entered and stopped at its first code poll, and the
target-7 entry poll ends the sweep. -/
theorem c8_sweep : compatSweep (some 8614) (sweepRange 5) c8_s1
    = { c8_B6 with polls := c8_B6.polls + 1 } := by
  rw [show sweepRange 5 = 0 :: 1 :: 2 :: 3 :: 4 :: 5 :: 6 :: 7 :: List.range' 8 37 from
    by decide]
  rw [compatSweep_cons (some 8614) 0 _ _ (by decide) (fun c' hc => by cases hc; decide)]
  rw [show compatTargetBody (some 8614) 0 (targetAt 0)
    { c8_s1 with polls := c8_s1.polls + 1 } = c8_R0 from rfl]
  rw [compatSweep_cons (some 8614) 1 _ _ (by decide)
    (fun c' hc => by cases hc; rw [c8_R0_polls]; decide)]
  rw [show compatTargetBody (some 8614) 1 (targetAt 1)
    { c8_R0 with polls := c8_R0.polls + 1 } = c8_R1 from rfl]
  rw [compatSweep_cons (some 8614) 2 _ _ (by decide)
    (fun c' hc => by cases hc; rw [c8_R1_polls]; decide)]
  rw [show compatTargetBody (some 8614) 2 (targetAt 2)
    { c8_R1 with polls := c8_R1.polls + 1 } = c8_R2 from rfl]
  rw [compatSweep_cons (some 8614) 3 _ _ (by decide)
    (fun c' hc => by cases hc; rw [c8_R2_polls]; decide)]
  rw [show compatTargetBody (some 8614) 3 (targetAt 3)
    { c8_R2 with polls := c8_R2.polls + 1 } = c8_R3 from rfl]
  rw [compatSweep_meta (some 8614) 4 _ _ (Or.inl rfl)]
  rw [compatSweep_meta (some 8614) 5 _ _ (Or.inr rfl)]
  rw [compatSweep_cons (some 8614) 6 _ _ (by decide)
    (fun c' hc => by cases hc; rw [c8_R3_polls])]
  rw [show compatTargetBody (some 8614) 6 (targetAt 6)
    { c8_R3 with polls := c8_R3.polls + 1 } = c8_B6 from rfl]
  rw [compatSweep_stopped 8614 7 _ _ (by decide) (by rw [c8_B6_polls]; decide)]

theorem withPolls_idx (s : WorkerState) (p : Nat) :
    ({ s with polls := p } : WorkerState).current_attack_target_idx
      = s.current_attack_target_idx := rfl

theorem withPolls_buffer (s : WorkerState) (p : Nat) :
    ({ s with polls := p } : WorkerState).buffer = s.buffer := rfl

theorem withPolls_codes (s : WorkerState) (p : Nat) :
    ({ s with polls := p } : WorkerState).codes_transmitted
      = s.codes_transmitted := rfl

/-- C8 counterexample: a Generic (Brute) compatibility run, stopped at its
8615th poll with a save request pending, halts inside catalog target 6 after
transmitting 8609 codes with a full ring buffer - yet the saved-code table is
left untouched, because the active target index 6 has no save slot. -/
theorem claim_C8_counterexample :
    ((opensesame_worker_thread AttackMode.Compatibility 5 (some 8614) [0, 0, 0, 0] true
        initialWorkerState).1.current_attack_target_idx = 6) ∧
    (0 < (opensesame_worker_thread AttackMode.Compatibility 5 (some 8614) [0, 0, 0, 0] true
        initialWorkerState).1.buffer.count) ∧
    (0 < (opensesame_worker_thread AttackMode.Compatibility 5 (some 8614) [0, 0, 0, 0] true
        initialWorkerState).1.codes_transmitted) ∧
    ((opensesame_worker_thread AttackMode.Compatibility 5 (some 8614) [0, 0, 0, 0] true
        initialWorkerState).2.2 = [0, 0, 0, 0]) := by
  rw [opensesame_worker_thread_compat 5 (some 8614) [0, 0, 0, 0] true initialWorkerState]
  simp only []
  rw [opensesame_worker_compatibility_def 5 (some 8614)]
  rw [show ({ initialWorkerState with
        current_attack_target_idx := 5
        buffer := { codes := initialWorkerState.buffer.codes, head := 0, count := 0 }
        max_code := opensesame_max_code AttackMode.Compatibility 5 } : WorkerState)
      = c8_s1 from rfl]
  rw [c8_sweep]
  rw [withPolls_idx, withPolls_buffer, withPolls_codes]
  rw [c8_B6_idx, c8_B6_count, c8_B6_codes]
  refine ⟨rfl, by decide, by decide, ?_⟩
  rw [if_neg (fun h => absurd h.2.1 (by decide))]

/-- C8 (amended): when a run ends with a save request pending and the ring
buffer non-empty, the oldest retained code (slot `head`) is persisted for the
active target only if its index is below 4 (the save slots); for an active
index of 4 or more - e.g. a Generic (Brute) sweep stopped past target 3 -
the request is silently dropped. -/
theorem claim_C8 (mode : AttackMode) (sel : Nat) (stopAt : Option Nat)
    (saved_code : List Nat) (s0 : WorkerState) :
    ((opensesame_worker_thread mode sel stopAt saved_code true
          s0).1.current_attack_target_idx < 4 →
      0 < (opensesame_worker_thread mode sel stopAt saved_code true s0).1.buffer.count →
      (opensesame_worker_thread mode sel stopAt saved_code true s0).2.2
        = saved_code.set
            (opensesame_worker_thread mode sel stopAt saved_code true
              s0).1.current_attack_target_idx
            ((opensesame_worker_thread mode sel stopAt saved_code true
              s0).1.buffer.codes.getD
              (opensesame_worker_thread mode sel stopAt saved_code true
                s0).1.buffer.head 0)) ∧
    (4 ≤ (opensesame_worker_thread mode sel stopAt saved_code true
          s0).1.current_attack_target_idx →
      (opensesame_worker_thread mode sel stopAt saved_code true s0).2.2 = saved_code) := by
  constructor
  · intro h1 h2
    rw [opensesame_worker_thread_parts mode sel stopAt saved_code true s0]
    simp only []
    rw [if_pos ⟨trivial, h1, h2⟩]
  · intro h4
    rw [opensesame_worker_thread_parts mode sel stopAt saved_code true s0]
    simp only []
    rw [if_neg ?hcond2]
    case hcond2 =>
      intro hcond
      obtain ⟨-, hlt, -⟩ := hcond
      omega

/-- C8 witness: a completed Replay run on target 0 persists the buffer head. -/
theorem claim_C8_witness :
    ((opensesame_worker_thread AttackMode.Replay 0 none [9, 0, 0, 0] true
        initialWorkerState).1.current_attack_target_idx < 4) ∧
    (0 < (opensesame_worker_thread AttackMode.Replay 0 none [9, 0, 0, 0] true
        initialWorkerState).1.buffer.count) ∧
    ((opensesame_worker_thread AttackMode.Replay 0 none [9, 0, 0, 0] true
        initialWorkerState).2.2
      = [9, 0, 0, 0].set
          (opensesame_worker_thread AttackMode.Replay 0 none [9, 0, 0, 0] true
            initialWorkerState).1.current_attack_target_idx
          ((opensesame_worker_thread AttackMode.Replay 0 none [9, 0, 0, 0] true
            initialWorkerState).1.buffer.codes.getD
            (opensesame_worker_thread AttackMode.Replay 0 none [9, 0, 0, 0] true
              initialWorkerState).1.buffer.head 0)) :=
  ⟨by decide, by decide,
   (claim_C8 AttackMode.Replay 0 none [9, 0, 0, 0] initialWorkerState).1
     (by decide) (by decide)⟩

/-! ### Chunked evaluation and bridge lemmas for the de Bruijn generator -/

theorem forceNat_eq {α : Sort u} (n : Nat) (kont : Nat → α) : forceNat n kont = kont n := by
  cases n <;> rfl

theorem genTwinStep_eq {α : Sort u} (k divisor cur seen acc pos : Nat)
    (kont : Nat → Nat → Nat → Nat → α) :
    genTwinStep k divisor cur seen acc pos kont
      = kont (genStepF k divisor cur seen acc pos).1
          (genStepF k divisor cur seen acc pos).2.1
          (genStepF k divisor cur seen acc pos).2.2.1
          (genStepF k divisor cur seen acc pos).2.2.2 := by
  unfold genTwinStep genStepF
  simp only [forceNat_eq]
  cases htry : tryDigits ((cur % divisor) * k) seen k with
  | none => rfl
  | some d => rfl

theorem genTwin_zero (k divisor cur seen acc pos : Nat) :
    genTwin k divisor 0 cur seen acc pos = (cur, seen, acc, pos) := rfl

theorem genTwin_succ (k divisor fuel cur seen acc pos : Nat) :
    genTwin k divisor (fuel + 1) cur seen acc pos
      = genTwin k divisor fuel
          (genStepF k divisor cur seen acc pos).1
          (genStepF k divisor cur seen acc pos).2.1
          (genStepF k divisor cur seen acc pos).2.2.1
          (genStepF k divisor cur seen acc pos).2.2.2 := by
  show genTwinStep k divisor cur seen acc pos (genTwin k divisor fuel) = _
  rw [genTwinStep_eq]

theorem genTwin_add (k divisor a : Nat) :
    ∀ (b cur seen acc pos : Nat),
      genTwin k divisor (a + b) cur seen acc pos
        = genTwin k divisor a
            (genTwin k divisor b cur seen acc pos).1
            (genTwin k divisor b cur seen acc pos).2.1
            (genTwin k divisor b cur seen acc pos).2.2.1
            (genTwin k divisor b cur seen acc pos).2.2.2 := by
  intro b
  induction b with
  | zero =>
    intro cur seen acc pos
    rfl
  | succ b ih =>
    intro cur seen acc pos
    show genTwin k divisor ((a + b) + 1) cur seen acc pos = _
    rw [genTwin_succ, ih, genTwin_succ]

theorem genTwin_chunk (k divisor a b cur seen acc pos c2 s2 a2 p2 : Nat)
    (h : genTwin k divisor b cur seen acc pos = (c2, s2, a2, p2)) :
    genTwin k divisor (a + b) cur seen acc pos = genTwin k divisor a c2 s2 a2 p2 := by
  rw [genTwin_add, h]

theorem consTwinStep_eq {α : Sort u} (k n numCodes divisor P i r mask len : Nat)
    (kont : Nat → Nat → Nat → Nat → α) :
    consTwinStep k n numCodes divisor P i r mask len kont
      = kont (consStepF k n numCodes divisor P i r mask len).1
          (consStepF k n numCodes divisor P i r mask len).2.1
          (consStepF k n numCodes divisor P i r mask len).2.2.1
          (consStepF k n numCodes divisor P i r mask len).2.2.2 := by
  unfold consTwinStep consStepF
  simp only [forceNat_eq]

theorem consTwin_zero (k n numCodes divisor P i r mask len : Nat) :
    consTwin k n numCodes divisor P 0 i r mask len = (i, r, mask, len) := rfl

theorem consTwin_succ (k n numCodes divisor P fuel i r mask len : Nat) :
    consTwin k n numCodes divisor P (fuel + 1) i r mask len
      = consTwin k n numCodes divisor P fuel
          (consStepF k n numCodes divisor P i r mask len).1
          (consStepF k n numCodes divisor P i r mask len).2.1
          (consStepF k n numCodes divisor P i r mask len).2.2.1
          (consStepF k n numCodes divisor P i r mask len).2.2.2 := by
  show consTwinStep k n numCodes divisor P i r mask len
    (consTwin k n numCodes divisor P fuel) = _
  rw [consTwinStep_eq]

theorem consTwin_add (k n numCodes divisor P a : Nat) :
    ∀ (b i r mask len : Nat),
      consTwin k n numCodes divisor P (a + b) i r mask len
        = consTwin k n numCodes divisor P a
            (consTwin k n numCodes divisor P b i r mask len).1
            (consTwin k n numCodes divisor P b i r mask len).2.1
            (consTwin k n numCodes divisor P b i r mask len).2.2.1
            (consTwin k n numCodes divisor P b i r mask len).2.2.2 := by
  intro b
  induction b with
  | zero =>
    intro i r mask len
    rfl
  | succ b ih =>
    intro i r mask len
    show consTwin k n numCodes divisor P ((a + b) + 1) i r mask len = _
    rw [consTwin_succ, ih, consTwin_succ]

theorem consTwin_chunk (k n numCodes divisor P a b i r mask len i2 r2 m2 l2 : Nat)
    (h : consTwin k n numCodes divisor P b i r mask len = (i2, r2, m2, l2)) :
    consTwin k n numCodes divisor P (a + b) i r mask len
      = consTwin k n numCodes divisor P a i2 r2 m2 l2 := by
  rw [consTwin_add, h]

theorem encodePacked_append (l : List Nat) (d : Nat) :
    encodePacked (l ++ [d]) = encodePacked l + (d <<< (2 * l.length)) := by
  induction l with
  | nil =>
    show d + 4 * 0 = 0 + (d <<< 0)
    rw [Nat.shiftLeft_eq]
    omega
  | cons a t ih =>
    show a + 4 * encodePacked (t ++ [d]) = (a + 4 * encodePacked t) + (d <<< (2 * (t.length + 1)))
    rw [ih, Nat.shiftLeft_eq, Nat.shiftLeft_eq,
      show 2 * (t.length + 1) = 2 * t.length + 2 from by omega, pow_add]
    ring

theorem encodePacked_replicate_zero : ∀ (n : Nat), encodePacked (List.replicate n 0) = 0 := by
  intro n
  induction n with
  | zero => rfl
  | succ n ih =>
    show 0 + 4 * encodePacked (List.replicate n 0) = 0
    rw [ih]

theorem encodePacked_digitAt :
    ∀ (l : List Nat), (∀ d ∈ l, d < 4) → ∀ j, j < l.length →
      digitAtP (encodePacked l) j = l.getD j 0 := by
  intro l
  induction l with
  | nil =>
    intro _ j hj
    simp at hj
  | cons a t ih =>
    intro hb j hj
    have ha : a < 4 := hb a (List.mem_cons_self a t)
    cases j with
    | zero =>
      show (((a + 4 * encodePacked t) >>> 0) &&& 3) = a
      rw [Nat.shiftRight_zero, show (3:Nat) = 2 ^ 2 - 1 from rfl,
        Nat.and_pow_two_sub_one_eq_mod]
      omega
    | succ j =>
      show (((a + 4 * encodePacked t) >>> (2 * (j + 1))) &&& 3) = t.getD j 0
      have hs : (a + 4 * encodePacked t) >>> (2 * (j + 1))
          = encodePacked t >>> (2 * j) := by
        rw [show 2 * (j + 1) = 2 + 2 * j from by omega, Nat.shiftRight_add]
        congr 1
        rw [Nat.shiftRight_eq_div_pow]
        rw [show (2:Nat) ^ 2 = 4 from rfl]
        omega
      rw [hs]
      exact ih (fun d hd => hb d (List.mem_cons_of_mem a hd)) j (by
        simp at hj
        omega)

theorem tryDigits_lt (cur seen : Nat) :
    ∀ (cnt d : Nat), tryDigits cur seen cnt = some d → d < cnt := by
  intro cnt
  induction cnt with
  | zero =>
    intro d h
    cases h
  | succ cnt ih =>
    intro d h
    unfold tryDigits at h
    by_cases hb : seen.testBit (cur + cnt)
    · rw [if_pos hb] at h
      have := ih d h
      omega
    · rw [if_neg hb] at h
      cases h
      omega

theorem debruijnGenLoop_digits_lt (k divisor : Nat) (hk : k ≤ 4) :
    ∀ (fuel cur seen : Nat) (revSeq : List Nat), (∀ d ∈ revSeq, d < 4) →
      ∀ d ∈ (debruijnGenLoop k divisor fuel (cur, seen, revSeq)).2.2, d < 4 := by
  intro fuel
  induction fuel with
  | zero =>
    intro cur seen revSeq hb
    exact hb
  | succ fuel ih =>
    intro cur seen revSeq hb
    show ∀ d ∈ (debruijnGenLoop k divisor (fuel + 1) (cur, seen, revSeq)).2.2, d < 4
    conv in debruijnGenLoop k divisor (fuel + 1) _ => unfold debruijnGenLoop
    cases htry : tryDigits ((cur % divisor) * k) seen k with
    | some d0 =>
      have hd0 : d0 < 4 := by
        have := tryDigits_lt ((cur % divisor) * k) seen k d0 htry
        omega
      exact ih _ _ (d0 :: revSeq) (by
        intro d hd
        rcases List.mem_cons.mp hd with rfl | hd
        · exact hd0
        · exact hb d hd)
    | none =>
      exact ih _ _ (0 :: revSeq) (by
        intro d hd
        rcases List.mem_cons.mp hd with rfl | hd
        · omega
        · exact hb d hd)

theorem debruijnGenLoop_length (k divisor : Nat) :
    ∀ (fuel cur seen : Nat) (revSeq : List Nat),
      (debruijnGenLoop k divisor fuel (cur, seen, revSeq)).2.2.length
        = revSeq.length + fuel := by
  intro fuel
  induction fuel with
  | zero =>
    intro cur seen revSeq
    rfl
  | succ fuel ih =>
    intro cur seen revSeq
    conv_lhs => unfold debruijnGenLoop
    cases htry : tryDigits ((cur % divisor) * k) seen k with
    | some d0 =>
      rw [ih]
      show revSeq.length + 1 + fuel = revSeq.length + (fuel + 1)
      omega
    | none =>
      rw [ih]
      show revSeq.length + 1 + fuel = revSeq.length + (fuel + 1)
      omega

/-- The packed twin computes exactly the generator loop of the worker:
same `cur`, same `seen`, digit list in packed form, position = length. -/
theorem genTwin_loop_bridge (k divisor : Nat) :
    ∀ (fuel cur seen : Nat) (revSeq : List Nat),
      genTwin k divisor fuel cur seen (encodePacked revSeq.reverse) revSeq.length
        = ((debruijnGenLoop k divisor fuel (cur, seen, revSeq)).1,
           (debruijnGenLoop k divisor fuel (cur, seen, revSeq)).2.1,
           encodePacked (debruijnGenLoop k divisor fuel (cur, seen, revSeq)).2.2.reverse,
           (debruijnGenLoop k divisor fuel (cur, seen, revSeq)).2.2.length) := by
  intro fuel
  induction fuel with
  | zero =>
    intro cur seen revSeq
    rfl
  | succ fuel ih =>
    intro cur seen revSeq
    rw [genTwin_succ]
    conv_rhs => unfold debruijnGenLoop
    cases htry : tryDigits ((cur % divisor) * k) seen k with
    | some d =>
      have hstep : genStepF k divisor cur seen (encodePacked revSeq.reverse) revSeq.length
          = ((cur % divisor) * k + d,
             seen ||| (1 <<< ((cur % divisor) * k + d)),
             encodePacked ((d :: revSeq).reverse),
             (d :: revSeq).length) := by
        unfold genStepF
        rw [htry]
        rw [List.reverse_cons, encodePacked_append, List.length_reverse]
        rfl
      rw [hstep]
      exact ih ((cur % divisor) * k + d) (seen ||| (1 <<< ((cur % divisor) * k + d)))
        (d :: revSeq)
    | none =>
      have hstep : genStepF k divisor cur seen (encodePacked revSeq.reverse) revSeq.length
          = ((cur % divisor) * k, seen,
             encodePacked ((0 :: revSeq).reverse),
             (0 :: revSeq).length) := by
        unfold genStepF
        rw [htry]
        rw [List.reverse_cons, encodePacked_append, List.length_reverse,
          Nat.zero_shiftLeft]
        rfl
      rw [hstep]
      exact ih ((cur % divisor) * k) seen (0 :: revSeq)

/-- Specialization of the bridge to the canonical start state of
`debruijn_sequence`. -/
theorem genTwin_sequence (k n : Nat) :
    genTwin k (k ^ (n - 1)) (k ^ n - n) 0 1 0 n
      = ((debruijnGenLoop k (k ^ (n - 1)) (k ^ n - n) (0, 1, List.replicate n 0)).1,
         (debruijnGenLoop k (k ^ (n - 1)) (k ^ n - n) (0, 1, List.replicate n 0)).2.1,
         encodePacked (debruijn_sequence k n),
         (debruijn_sequence k n).length) := by
  have h0 : encodePacked ((List.replicate n 0).reverse) = 0 := by
    rw [List.reverse_replicate]
    exact encodePacked_replicate_zero n
  have hl : (List.replicate n 0).length = n := List.length_replicate ..
  have := genTwin_loop_bridge k (k ^ (n - 1)) (k ^ n - n) 0 1 (List.replicate n 0)
  rw [h0, hl] at this
  rw [this]
  unfold debruijn_sequence
  rw [List.length_reverse]

theorem debruijnConsume_acc_mem (k divisor n : Nat) :
    ∀ (ds : List Nat) (i r : Nat) (acc : List Nat) (c : Nat), c ∈ acc →
      c ∈ debruijnConsume k divisor n ds i r acc := by
  intro ds
  induction ds with
  | nil =>
    intro i r acc c hc
    exact hc
  | cons d rest ih =>
    intro i r acc c hc
    show c ∈ debruijnConsume k divisor n rest (i + 1) _ _
    apply ih
    by_cases hge : n - 1 ≤ i
    · rw [if_pos hge]
      exact List.mem_cons_of_mem _ hc
    · rw [if_neg hge]
      exact hc

/-- The packed consume twin tracks the register roll of `debruijnConsume`:
every bit of its mask is a reported code, and its length counter is the
number of reported codes. -/
theorem consTwin_loop_bridge (k n numCodes divisor P : Nat) :
    ∀ (ds : List Nat) (i r mask len : Nat) (acc : List Nat),
      (∀ j, j < ds.length → ds.getD j 0 = digitAtP P ((i + j) % numCodes)) →
      (∀ v, mask.testBit v → v ∈ acc) →
      len = acc.length →
      ((∀ v, (consTwin k n numCodes divisor P ds.length i r mask len).2.2.1.testBit v
          → v ∈ debruijnConsume k divisor n ds i r acc) ∧
       (consTwin k n numCodes divisor P ds.length i r mask len).2.2.2
          = (debruijnConsume k divisor n ds i r acc).length) := by
  intro ds
  induction ds with
  | nil =>
    intro i r mask len acc _ hmask hlen
    exact ⟨hmask, hlen⟩
  | cons dd rest ih =>
    intro i r mask len acc hd hmask hlen
    have hd0 : dd = digitAtP P (i % numCodes) := by
      have := hd 0 (by simp)
      simpa using this
    have hd' : ∀ j, j < rest.length →
        rest.getD j 0 = digitAtP P (((i + 1) + j) % numCodes) := by
      intro j hj
      have := hd (j + 1) (by simp; omega)
      rw [show i + (j + 1) = (i + 1) + j from by omega] at this
      simpa using this
    have hlhs : consTwin k n numCodes divisor P (dd :: rest).length i r mask len
        = consTwin k n numCodes divisor P rest.length (i + 1)
            (if i < n then r * k + dd else (r % divisor) * k + dd)
            (if n - 1 ≤ i then
               mask ||| (1 <<< (if i < n then r * k + dd else (r % divisor) * k + dd))
             else mask)
            (if n - 1 ≤ i then len + 1 else len) := by
      show consTwin k n numCodes divisor P (rest.length + 1) i r mask len = _
      rw [consTwin_succ]
      have hstep : consStepF k n numCodes divisor P i r mask len
          = (i + 1,
             if i < n then r * k + dd else (r % divisor) * k + dd,
             if n - 1 ≤ i then
               mask ||| (1 <<< (if i < n then r * k + dd else (r % divisor) * k + dd))
             else mask,
             if n - 1 ≤ i then len + 1 else len) := by
        unfold consStepF
        rw [← hd0]
      rw [hstep]
    have hrhs : debruijnConsume k divisor n (dd :: rest) i r acc
        = debruijnConsume k divisor n rest (i + 1)
            (if i < n then r * k + dd else (r % divisor) * k + dd)
            (if n - 1 ≤ i then
               (if i < n then r * k + dd else (r % divisor) * k + dd) :: acc
             else acc) := rfl
    rw [hlhs, hrhs]
    by_cases hge : n - 1 ≤ i
    · rw [if_pos hge, if_pos hge, if_pos hge]
      refine ih (i + 1) _ _ _ _ hd' ?_ ?_
      · intro v hv
        rw [Nat.testBit_lor, Bool.or_eq_true] at hv
        rcases hv with hv | hv
        · exact List.mem_cons_of_mem _ (hmask v hv)
        · rw [Nat.one_shiftLeft, Nat.testBit_two_pow] at hv
          have := of_decide_eq_true hv
          rw [← this]
          exact List.mem_cons_self _ _
      · rw [hlen]
        rfl
    · rw [if_neg hge, if_neg hge, if_neg hge]
      exact ih (i + 1) _ _ _ _ hd' hmask hlen

/-- From full coverage and exact length, no code repeats. -/
theorem codes_complete (M : Nat) (cs : List Nat)
    (hlen : cs.length = M) (hcov : ∀ v, v < M → v ∈ cs) :
    cs.Nodup := by
  have hsub : Finset.range M ⊆ cs.toFinset := by
    intro v hv
    rw [List.mem_toFinset]
    exact hcov v (Finset.mem_range.mp hv)
  have hcard : M ≤ cs.toFinset.card := by
    have := Finset.card_le_card hsub
    simpa using this
  rw [List.card_toFinset] at hcard
  have hsubl : cs.dedup.Sublist cs := List.dedup_sublist cs
  have hlen2 : cs.dedup.length ≤ cs.length := hsubl.length_le
  have heq : cs.dedup = cs := hsubl.eq_of_length (by omega)
  exact List.dedup_eq_self.mp heq

theorem seq_digits_lt (k n : Nat) (hk : k ≤ 4) :
    ∀ d ∈ debruijn_sequence k n, d < 4 := by
  intro d hd
  unfold debruijn_sequence at hd
  rw [List.mem_reverse] at hd
  exact debruijnGenLoop_digits_lt k (k ^ (n - 1)) hk (k ^ n - n) 0 1
    (List.replicate n 0) (by
      intro e he
      rw [List.eq_of_mem_replicate he]
      omega) d hd

theorem seq_length (k n : Nat) (hn : n ≤ k ^ n) :
    (debruijn_sequence k n).length = k ^ n := by
  unfold debruijn_sequence
  rw [List.length_reverse, debruijnGenLoop_length, List.length_replicate]
  omega

/-- Everything the C1 instances need, from the two twin evaluations: the
generator twin reaching packed digits `P` and the consume twin reaching the
full mask `2 ^ k ^ n - 1` with exactly `k ^ n` reported codes. -/
theorem debruijn_correct_of_twin (k n c s P L i2 r2 : Nat)
    (hk2 : 2 ≤ k) (hk4 : k ≤ 4) (hn : 1 ≤ n) (hnN : n ≤ k ^ n)
    (hgen : genTwin k (k ^ (n - 1)) (k ^ n - n) 0 1 0 n = (c, s, P, L))
    (hcons : consTwin k n (k ^ n) (k ^ (n - 1)) P (k ^ n + (n - 1)) 0 0 0 0
        = (i2, r2, 2 ^ k ^ n - 1, k ^ n)) :
    (debruijnCodes k n).Nodup ∧ (debruijnCodes k n).length = k ^ n ∧
      ∀ v, v < k ^ n → v ∈ debruijnCodes k n := by
  have hseqlen : (debruijn_sequence k n).length = k ^ n := seq_length k n hnN
  have hdig : ∀ d ∈ debruijn_sequence k n, d < 4 := seq_digits_lt k n hk4
  have hP : encodePacked (debruijn_sequence k n) = P := by
    have h2 := genTwin_sequence k n
    rw [hgen] at h2
    exact (congrArg (fun t : Nat × Nat × Nat × Nat => t.2.2.1) h2).symm
  have hds_len : (debruijn_sequence k n
      ++ (debruijn_sequence k n).take (n - 1)).length = k ^ n + (n - 1) := by
    rw [List.length_append, hseqlen, List.length_take, hseqlen]
    omega
  have hstream : ∀ j, j < (debruijn_sequence k n
      ++ (debruijn_sequence k n).take (n - 1)).length →
      (debruijn_sequence k n ++ (debruijn_sequence k n).take (n - 1)).getD j 0
        = digitAtP P ((0 + j) % k ^ n) := by
    intro j hj
    rw [Nat.zero_add]
    by_cases hjN : j < k ^ n
    · rw [List.getD_eq_getElem?_getD, List.getElem?_append_left (by omega),
        ← List.getD_eq_getElem?_getD, Nat.mod_eq_of_lt hjN, ← hP]
      exact (encodePacked_digitAt _ hdig j (by omega)).symm
    · have hjn : k ^ n ≤ j := Nat.le_of_not_lt hjN
      have hjlt : j < k ^ n + (n - 1) := by omega
      rw [List.getD_eq_getElem?_getD, List.getElem?_append_right (by omega),
        hseqlen, List.getElem?_take_of_lt (by omega),
        ← List.getD_eq_getElem?_getD]
      have hmod : j % (k ^ n) = j - k ^ n := by
        rw [Nat.mod_eq_sub_mod hjn, Nat.mod_eq_of_lt (by omega)]
      rw [hmod, ← hP]
      exact (encodePacked_digitAt _ hdig (j - k ^ n) (by omega)).symm
  have hmask0 : ∀ v : Nat, (0 : Nat).testBit v → v ∈ ([] : List Nat) := by
    intro v hv
    rw [Nat.zero_testBit] at hv
    cases hv
  have hb := consTwin_loop_bridge k n (k ^ n) (k ^ (n - 1)) P
    (debruijn_sequence k n ++ (debruijn_sequence k n).take (n - 1))
    0 0 0 0 [] hstream hmask0 rfl
  rw [hds_len, hcons] at hb
  have hcov : ∀ v, v < k ^ n → v ∈ debruijnConsume k (k ^ (n - 1)) n
      (debruijn_sequence k n ++ (debruijn_sequence k n).take (n - 1)) 0 0 [] := by
    intro v hv
    apply hb.1
    show (2 ^ k ^ n - 1).testBit v = true
    rw [Nat.testBit_two_pow_sub_one]
    exact decide_eq_true hv
  have hlen3 : (debruijnConsume k (k ^ (n - 1)) n
      (debruijn_sequence k n ++ (debruijn_sequence k n).take (n - 1))
      0 0 []).length = k ^ n := by
    have h4 := hb.2
    rw [← h4]
  have hclen : (debruijnCodes k n).length = k ^ n := by
    unfold debruijnCodes
    rw [List.length_reverse]
    exact hlen3
  have hcmem : ∀ v, v < k ^ n → v ∈ debruijnCodes k n := by
    intro v hv
    unfold debruijnCodes
    rw [List.mem_reverse]
    exact hcov v hv
  exact ⟨codes_complete (k ^ n) _ hclen hcmem, hclen, hcmem⟩

theorem c1_gen_2_1 : genTwin 2 1 1 0 1 0 1 = (1, 3, 4, 2) := by rfl

theorem c1_cons_2_1 : consTwin 2 1 2 1 4 2 0 0 0 0 = (2, 1, 3, 2) := by rfl

theorem c1_inst_2_1 :
    (debruijnCodes 2 1).Nodup ∧ (debruijnCodes 2 1).length = 2 ^ 1 ∧
      ∀ v, v < 2 ^ 1 → v ∈ debruijnCodes 2 1 := by
  have hg : genTwin 2 (2 ^ (1 - 1)) (2 ^ 1 - 1) 0 1 0 1
      = (1, 3, 4, 2) := c1_gen_2_1
  have hm : (2 : Nat) ^ 2 ^ 1 - 1 = 3 := by norm_num
  have hc : consTwin 2 1 (2 ^ 1) (2 ^ (1 - 1)) 4 (2 ^ 1 + (1 - 1)) 0 0 0 0
      = (2, 1, 2 ^ 2 ^ 1 - 1, 2 ^ 1) := by
    rw [hm]
    exact c1_cons_2_1
  exact debruijn_correct_of_twin 2 1 1 3 4 2 2 1 (by decide) (by decide)
    (by decide) (by decide) hg hc

theorem c1_gen_2_2 : genTwin 2 2 2 0 1 0 2 = (3, 11, 80, 4) := by rfl

theorem c1_cons_2_2 : consTwin 2 2 4 2 80 5 0 0 0 0 = (5, 2, 15, 4) := by rfl

theorem c1_inst_2_2 :
    (debruijnCodes 2 2).Nodup ∧ (debruijnCodes 2 2).length = 2 ^ 2 ∧
      ∀ v, v < 2 ^ 2 → v ∈ debruijnCodes 2 2 := by
  have hg : genTwin 2 (2 ^ (2 - 1)) (2 ^ 2 - 2) 0 1 0 2
      = (3, 11, 80, 4) := c1_gen_2_2
  have hm : (2 : Nat) ^ 2 ^ 2 - 1 = 15 := by norm_num
  have hc : consTwin 2 2 (2 ^ 2) (2 ^ (2 - 1)) 80 (2 ^ 2 + (2 - 1)) 0 0 0 0
      = (5, 2, 2 ^ 2 ^ 2 - 1, 2 ^ 2) := by
    rw [hm]
    exact c1_cons_2_2
  exact debruijn_correct_of_twin 2 2 3 11 80 4 5 2 (by decide) (by decide)
    (by decide) (by decide) hg hc

theorem c1_gen_2_3 : genTwin 2 4 5 0 1 0 3 = (5, 235, 17728, 8) := by rfl

theorem c1_cons_2_3 : consTwin 2 3 8 4 17728 10 0 0 0 0 = (10, 4, 255, 8) := by rfl

theorem c1_inst_2_3 :
    (debruijnCodes 2 3).Nodup ∧ (debruijnCodes 2 3).length = 2 ^ 3 ∧
      ∀ v, v < 2 ^ 3 → v ∈ debruijnCodes 2 3 := by
  have hg : genTwin 2 (2 ^ (3 - 1)) (2 ^ 3 - 3) 0 1 0 3
      = (5, 235, 17728, 8) := c1_gen_2_3
  have hm : (2 : Nat) ^ 2 ^ 3 - 1 = 255 := by norm_num
  have hc : consTwin 2 3 (2 ^ 3) (2 ^ (3 - 1)) 17728 (2 ^ 3 + (3 - 1)) 0 0 0 0
      = (10, 4, 2 ^ 2 ^ 3 - 1, 2 ^ 3) := by
    rw [hm]
    exact c1_cons_2_3
  exact debruijn_correct_of_twin 2 3 5 235 17728 8 10 4 (by decide) (by decide)
    (by decide) (by decide) hg hc

theorem c1_gen_2_4 : genTwin 2 8 12 0 1 0 4 = (5, 64239, 1142183168, 16) := by rfl

theorem c1_cons_2_4 : consTwin 2 4 16 8 1142183168 19 0 0 0 0 = (19, 8, 65535, 16) := by rfl

theorem c1_inst_2_4 :
    (debruijnCodes 2 4).Nodup ∧ (debruijnCodes 2 4).length = 2 ^ 4 ∧
      ∀ v, v < 2 ^ 4 → v ∈ debruijnCodes 2 4 := by
  have hg : genTwin 2 (2 ^ (4 - 1)) (2 ^ 4 - 4) 0 1 0 4
      = (5, 64239, 1142183168, 16) := c1_gen_2_4
  have hm : (2 : Nat) ^ 2 ^ 4 - 1 = 65535 := by norm_num
  have hc : consTwin 2 4 (2 ^ 4) (2 ^ (4 - 1)) 1142183168 (2 ^ 4 + (4 - 1)) 0 0 0 0
      = (19, 8, 2 ^ 2 ^ 4 - 1, 2 ^ 4) := by
    rw [hm]
    exact c1_cons_2_4
  exact debruijn_correct_of_twin 2 4 5 64239 1142183168 16 19 8 (by decide) (by decide)
    (by decide) (by decide) hg hc

theorem c1_gen_2_5 : genTwin 2 16 27 0 1 0 5 = (9, 4294639343, 4688269498766414848, 32) := by rfl

theorem c1_cons_2_5 : consTwin 2 5 32 16 4688269498766414848 36 0 0 0 0 = (36, 16, 4294967295, 32) := by rfl

theorem c1_inst_2_5 :
    (debruijnCodes 2 5).Nodup ∧ (debruijnCodes 2 5).length = 2 ^ 5 ∧
      ∀ v, v < 2 ^ 5 → v ∈ debruijnCodes 2 5 := by
  have hg : genTwin 2 (2 ^ (5 - 1)) (2 ^ 5 - 5) 0 1 0 5
      = (9, 4294639343, 4688269498766414848, 32) := c1_gen_2_5
  have hm : (2 : Nat) ^ 2 ^ 5 - 1 = 4294967295 := by norm_num
  have hc : consTwin 2 5 (2 ^ 5) (2 ^ (5 - 1)) 4688269498766414848 (2 ^ 5 + (5 - 1)) 0 0 0 0
      = (36, 16, 2 ^ 2 ^ 5 - 1, 2 ^ 5) := by
    rw [hm]
    exact c1_cons_2_5
  exact debruijn_correct_of_twin 2 5 9 4294639343 4688269498766414848 32 36 16 (by decide) (by decide)
    (by decide) (by decide) hg hc

theorem c1_gen_2_6 : genTwin 2 32 58 0 1 0 6 = (9, 18446744000694779647, 86405356848915679457687827742819962880, 64) := by rfl

theorem c1_cons_2_6 : consTwin 2 6 64 32 86405356848915679457687827742819962880 69 0 0 0 0 = (69, 32, 18446744073709551615, 64) := by rfl

theorem c1_inst_2_6 :
    (debruijnCodes 2 6).Nodup ∧ (debruijnCodes 2 6).length = 2 ^ 6 ∧
      ∀ v, v < 2 ^ 6 → v ∈ debruijnCodes 2 6 := by
  have hg : genTwin 2 (2 ^ (6 - 1)) (2 ^ 6 - 6) 0 1 0 6
      = (9, 18446744000694779647, 86405356848915679457687827742819962880, 64) := c1_gen_2_6
  have hm : (2 : Nat) ^ 2 ^ 6 - 1 = 18446744073709551615 := by norm_num
  have hc : consTwin 2 6 (2 ^ 6) (2 ^ (6 - 1)) 86405356848915679457687827742819962880 (2 ^ 6 + (6 - 1)) 0 0 0 0
      = (69, 32, 2 ^ 2 ^ 6 - 1, 2 ^ 6) := by
    rw [hm]
    exact c1_cons_2_6
  exact debruijn_correct_of_twin 2 6 9 18446744000694779647 86405356848915679457687827742819962880 64 69 32 (by decide) (by decide)
    (by decide) (by decide) hg hc

theorem c1_gen_2_7 : genTwin 2 64 121 0 1 0 7 = (17, 340282366920938463149779958157230931711, 29062869203612910214057876146746776729642990904037347423168408469771476353024, 128) := by rfl

theorem c1_cons_2_7 : consTwin 2 7 128 64 29062869203612910214057876146746776729642990904037347423168408469771476353024 134 0 0 0 0 = (134, 64, 340282366920938463463374607431768211455, 128) := by rfl

theorem c1_inst_2_7 :
    (debruijnCodes 2 7).Nodup ∧ (debruijnCodes 2 7).length = 2 ^ 7 ∧
      ∀ v, v < 2 ^ 7 → v ∈ debruijnCodes 2 7 := by
  have hg : genTwin 2 (2 ^ (7 - 1)) (2 ^ 7 - 7) 0 1 0 7
      = (17, 340282366920938463149779958157230931711, 29062869203612910214057876146746776729642990904037347423168408469771476353024, 128) := c1_gen_2_7
  have hm : (2 : Nat) ^ 2 ^ 7 - 1 = 340282366920938463463374607431768211455 := by norm_num
  have hc : consTwin 2 7 (2 ^ 7) (2 ^ (7 - 1)) 29062869203612910214057876146746776729642990904037347423168408469771476353024 (2 ^ 7 + (7 - 1)) 0 0 0 0
      = (134, 64, 2 ^ 2 ^ 7 - 1, 2 ^ 7) := by
    rw [hm]
    exact c1_cons_2_7
  exact debruijn_correct_of_twin 2 7 17 340282366920938463149779958157230931711 29062869203612910214057876146746776729642990904037347423168408469771476353024 128 134 64 (by decide) (by decide)
    (by decide) (by decide) hg hc

theorem c1_gen_2_8 : genTwin 2 128 248 0 1 0 8 = (17, 115792089237316195423570985008687907765817416366959378929056715248674162016255, 3365058531443077485665585071800307265289620065808891817435024214587647700917367625826937353307441417581333531816133903346592513784513579648578319780478976, 256) := by rfl

theorem c1_cons_2_8 : consTwin 2 8 256 128 3365058531443077485665585071800307265289620065808891817435024214587647700917367625826937353307441417581333531816133903346592513784513579648578319780478976 263 0 0 0 0 = (263, 128, 115792089237316195423570985008687907853269984665640564039457584007913129639935, 256) := by rfl

theorem c1_inst_2_8 :
    (debruijnCodes 2 8).Nodup ∧ (debruijnCodes 2 8).length = 2 ^ 8 ∧
      ∀ v, v < 2 ^ 8 → v ∈ debruijnCodes 2 8 := by
  have hg : genTwin 2 (2 ^ (8 - 1)) (2 ^ 8 - 8) 0 1 0 8
      = (17, 115792089237316195423570985008687907765817416366959378929056715248674162016255, 3365058531443077485665585071800307265289620065808891817435024214587647700917367625826937353307441417581333531816133903346592513784513579648578319780478976, 256) := c1_gen_2_8
  have hm : (2 : Nat) ^ 2 ^ 8 - 1 = 115792089237316195423570985008687907853269984665640564039457584007913129639935 := by norm_num
  have hc : consTwin 2 8 (2 ^ 8) (2 ^ (8 - 1)) 3365058531443077485665585071800307265289620065808891817435024214587647700917367625826937353307441417581333531816133903346592513784513579648578319780478976 (2 ^ 8 + (8 - 1)) 0 0 0 0
      = (263, 128, 2 ^ 2 ^ 8 - 1, 2 ^ 8) := by
    rw [hm]
    exact c1_cons_2_8
  exact debruijn_correct_of_twin 2 8 17 115792089237316195423570985008687907765817416366959378929056715248674162016255 3365058531443077485665585071800307265289620065808891817435024214587647700917367625826937353307441417581333531816133903346592513784513579648578319780478976 256 263 128 (by decide) (by decide)
    (by decide) (by decide) hg hc

theorem c1_gen_2_9 : genTwin 2 256 503 0 1 0 9 = (33, 13407807929942597099574024998205846127479365820592393377723561443721764030043788409867884035943045684542799065868189879994446601899927001254353261786234879, 44986388848005418291989714405776763092837150969406876309185340484430067788790372353326474899641699128409821697030806734868624607161544376075271965878181364215638561495508625494695803627074376081869372960215812161631106494563578193477113601893698927226523310017085379870051601224613506390436018882674823528448, 512) := by rfl

theorem c1_cons_2_9_s512 : consTwin 2 9 512 256 44986388848005418291989714405776763092837150969406876309185340484430067788790372353326474899641699128409821697030806734868624607161544376075271965878181364215638561495508625494695803627074376081869372960215812161631106494563578193477113601893698927226523310017085379870051601224613506390436018882674823528448 512 0 0 0 0 = (512, 33, 13407807929942597099574024998205846127479365820592393377723561443721764030043788409867884035943045684542799065868189879994446601899927001254353261786234879, 504) := by rfl

theorem c1_cons_2_9 : consTwin 2 9 512 256 44986388848005418291989714405776763092837150969406876309185340484430067788790372353326474899641699128409821697030806734868624607161544376075271965878181364215638561495508625494695803627074376081869372960215812161631106494563578193477113601893698927226523310017085379870051601224613506390436018882674823528448 520 0 0 0 0 = (520, 256, 13407807929942597099574024998205846127479365820592393377723561443721764030073546976801874298166903427690031858186486050853753882811946569946433649006084095, 512) :=
  (congrArg (fun m => consTwin 2 9 512 256 44986388848005418291989714405776763092837150969406876309185340484430067788790372353326474899641699128409821697030806734868624607161544376075271965878181364215638561495508625494695803627074376081869372960215812161631106494563578193477113601893698927226523310017085379870051601224613506390436018882674823528448 m 0 0 0 0)
      (by norm_num : (520 : Nat) = 8 + 512)).trans
    ((consTwin_chunk 2 9 512 256 44986388848005418291989714405776763092837150969406876309185340484430067788790372353326474899641699128409821697030806734868624607161544376075271965878181364215638561495508625494695803627074376081869372960215812161631106494563578193477113601893698927226523310017085379870051601224613506390436018882674823528448 8 512 0 0 0 0 512 33 13407807929942597099574024998205846127479365820592393377723561443721764030043788409867884035943045684542799065868189879994446601899927001254353261786234879 504 c1_cons_2_9_s512).trans (by rfl))

theorem c1_inst_2_9 :
    (debruijnCodes 2 9).Nodup ∧ (debruijnCodes 2 9).length = 2 ^ 9 ∧
      ∀ v, v < 2 ^ 9 → v ∈ debruijnCodes 2 9 := by
  have hg : genTwin 2 (2 ^ (9 - 1)) (2 ^ 9 - 9) 0 1 0 9
      = (33, 13407807929942597099574024998205846127479365820592393377723561443721764030043788409867884035943045684542799065868189879994446601899927001254353261786234879, 44986388848005418291989714405776763092837150969406876309185340484430067788790372353326474899641699128409821697030806734868624607161544376075271965878181364215638561495508625494695803627074376081869372960215812161631106494563578193477113601893698927226523310017085379870051601224613506390436018882674823528448, 512) := c1_gen_2_9
  have hm : (2 : Nat) ^ 2 ^ 9 - 1 = 13407807929942597099574024998205846127479365820592393377723561443721764030073546976801874298166903427690031858186486050853753882811946569946433649006084095 := by norm_num
  have hc : consTwin 2 9 (2 ^ 9) (2 ^ (9 - 1)) 44986388848005418291989714405776763092837150969406876309185340484430067788790372353326474899641699128409821697030806734868624607161544376075271965878181364215638561495508625494695803627074376081869372960215812161631106494563578193477113601893698927226523310017085379870051601224613506390436018882674823528448 (2 ^ 9 + (9 - 1)) 0 0 0 0
      = (520, 256, 2 ^ 2 ^ 9 - 1, 2 ^ 9) := by
    rw [hm]
    exact c1_cons_2_9
  exact debruijn_correct_of_twin 2 9 33 13407807929942597099574024998205846127479365820592393377723561443721764030043788409867884035943045684542799065868189879994446601899927001254353261786234879 44986388848005418291989714405776763092837150969406876309185340484430067788790372353326474899641699128409821697030806734868624607161544376075271965878181364215638561495508625494695803627074376081869372960215812161631106494563578193477113601893698927226523310017085379870051601224613506390436018882674823528448 512 520 256 (by decide) (by decide)
    (by decide) (by decide) hg hc

theorem c1_gen_2_10_s512 : genTwin 2 512 512 0 1 0 10 = (801, 179769313486231590772930519078902470476781254629505137971286083082717871603058416163759464259777263284284941152598188713027501404800929112388074590140048396411261540987760890360060918435835913474682597063735158418418398783401571585750294402766647681932920270302452423919711026319816668151343796708908568985739, 47172414501368267547712645988492372404058594330410029554694632885742509644181132224012621079533801179583682098549341100781490642402433519255450272502810573396498391583493373261569022481225727379281050425476915337674609128612663199042353316343673711074046230753047284429482304574617653309901026614647218716386787328, 522) := by rfl

theorem c1_gen_2_10 : genTwin 2 512 1014 0 1 0 10 = (33, 179769313486231590772930519078902473361797697894230657273430081157732675805500963132708477322407536021120113879871393357658789768814416622492847430638595416869463245438750702399994803063589478921668919267289136722500957433103532803496681740671600663365085745561826243628973918413352261930687242194325270953983, 8087143345656653354824899242422981926053074918225018395654219433694772595947835560486964180765109071483729633185995457506976945677873310867932068169305740932190733141567688344667289173340152775729808029942443999190934041445439557315184578281474363761340682828758908901399928393387697112656134196393307211127286229344346110531698682083861000466351954731410891411519948984048668834667840009519214894919778881400423137123935466057799913175506919161611637176712559783513221806843012941933060186936011055470690723343839118434838224653636615881601772496225415770885681108778670769204962180182404438879317426147714105606144, 1024) :=
  (congrArg (fun m => genTwin 2 512 m 0 1 0 10)
      (by norm_num : (1014 : Nat) = 502 + 512)).trans
    ((genTwin_chunk 2 512 502 512 0 1 0 10 801 179769313486231590772930519078902470476781254629505137971286083082717871603058416163759464259777263284284941152598188713027501404800929112388074590140048396411261540987760890360060918435835913474682597063735158418418398783401571585750294402766647681932920270302452423919711026319816668151343796708908568985739 47172414501368267547712645988492372404058594330410029554694632885742509644181132224012621079533801179583682098549341100781490642402433519255450272502810573396498391583493373261569022481225727379281050425476915337674609128612663199042353316343673711074046230753047284429482304574617653309901026614647218716386787328 522 c1_gen_2_10_s512).trans (by rfl))

theorem c1_cons_2_10_s512 : consTwin 2 10 1024 512 8087143345656653354824899242422981926053074918225018395654219433694772595947835560486964180765109071483729633185995457506976945677873310867932068169305740932190733141567688344667289173340152775729808029942443999190934041445439557315184578281474363761340682828758908901399928393387697112656134196393307211127286229344346110531698682083861000466351954731410891411519948984048668834667840009519214894919778881400423137123935466057799913175506919161611637176712559783513221806843012941933060186936011055470690723343839118434838224653636615881601772496225415770885681108778670769204962180182404438879317426147714105606144 512 0 0 0 0 = (512, 805, 179769313486231590772930519078902435854470862122547553024345938793872210755014297351945446797575359567156021903524331303433283396471707507002633186459131907589782384666136580544690226919914367958583689789471164515652381663632817191013667407231607242102480027098329542023427820507438462270942947861537841266827, 503) := by rfl

theorem c1_cons_2_10_s1024 : consTwin 2 10 1024 512 8087143345656653354824899242422981926053074918225018395654219433694772595947835560486964180765109071483729633185995457506976945677873310867932068169305740932190733141567688344667289173340152775729808029942443999190934041445439557315184578281474363761340682828758908901399928393387697112656134196393307211127286229344346110531698682083861000466351954731410891411519948984048668834667840009519214894919778881400423137123935466057799913175506919161611637176712559783513221806843012941933060186936011055470690723343839118434838224653636615881601772496225415770885681108778670769204962180182404438879317426147714105606144 1024 0 0 0 0 = (1024, 33, 179769313486231590772930519078902473361797697894230657273430081157732675805500963132708477322407536021120113879871393357658789768814416622492847430638595416869463245438750702399994803063589478921668919267289136722500957433103532803496681740671600663365085745561826243628973918413352261930687242194325270953983, 1015) :=
  (congrArg (fun m => consTwin 2 10 1024 512 8087143345656653354824899242422981926053074918225018395654219433694772595947835560486964180765109071483729633185995457506976945677873310867932068169305740932190733141567688344667289173340152775729808029942443999190934041445439557315184578281474363761340682828758908901399928393387697112656134196393307211127286229344346110531698682083861000466351954731410891411519948984048668834667840009519214894919778881400423137123935466057799913175506919161611637176712559783513221806843012941933060186936011055470690723343839118434838224653636615881601772496225415770885681108778670769204962180182404438879317426147714105606144 m 0 0 0 0)
      (by norm_num : (1024 : Nat) = 512 + 512)).trans
    ((consTwin_chunk 2 10 1024 512 8087143345656653354824899242422981926053074918225018395654219433694772595947835560486964180765109071483729633185995457506976945677873310867932068169305740932190733141567688344667289173340152775729808029942443999190934041445439557315184578281474363761340682828758908901399928393387697112656134196393307211127286229344346110531698682083861000466351954731410891411519948984048668834667840009519214894919778881400423137123935466057799913175506919161611637176712559783513221806843012941933060186936011055470690723343839118434838224653636615881601772496225415770885681108778670769204962180182404438879317426147714105606144 512 512 0 0 0 0 512 805 179769313486231590772930519078902435854470862122547553024345938793872210755014297351945446797575359567156021903524331303433283396471707507002633186459131907589782384666136580544690226919914367958583689789471164515652381663632817191013667407231607242102480027098329542023427820507438462270942947861537841266827 503 c1_cons_2_10_s512).trans (by rfl))

theorem c1_cons_2_10 : consTwin 2 10 1024 512 8087143345656653354824899242422981926053074918225018395654219433694772595947835560486964180765109071483729633185995457506976945677873310867932068169305740932190733141567688344667289173340152775729808029942443999190934041445439557315184578281474363761340682828758908901399928393387697112656134196393307211127286229344346110531698682083861000466351954731410891411519948984048668834667840009519214894919778881400423137123935466057799913175506919161611637176712559783513221806843012941933060186936011055470690723343839118434838224653636615881601772496225415770885681108778670769204962180182404438879317426147714105606144 1033 0 0 0 0 = (1033, 512, 179769313486231590772930519078902473361797697894230657273430081157732675805500963132708477322407536021120113879871393357658789768814416622492847430639474124377767893424865485276302219601246094119453082952085005768838150682342462881473913110540827237163350510684586298239947245938479716304835356329624224137215, 1024) :=
  (congrArg (fun m => consTwin 2 10 1024 512 8087143345656653354824899242422981926053074918225018395654219433694772595947835560486964180765109071483729633185995457506976945677873310867932068169305740932190733141567688344667289173340152775729808029942443999190934041445439557315184578281474363761340682828758908901399928393387697112656134196393307211127286229344346110531698682083861000466351954731410891411519948984048668834667840009519214894919778881400423137123935466057799913175506919161611637176712559783513221806843012941933060186936011055470690723343839118434838224653636615881601772496225415770885681108778670769204962180182404438879317426147714105606144 m 0 0 0 0)
      (by norm_num : (1033 : Nat) = 9 + 1024)).trans
    ((consTwin_chunk 2 10 1024 512 8087143345656653354824899242422981926053074918225018395654219433694772595947835560486964180765109071483729633185995457506976945677873310867932068169305740932190733141567688344667289173340152775729808029942443999190934041445439557315184578281474363761340682828758908901399928393387697112656134196393307211127286229344346110531698682083861000466351954731410891411519948984048668834667840009519214894919778881400423137123935466057799913175506919161611637176712559783513221806843012941933060186936011055470690723343839118434838224653636615881601772496225415770885681108778670769204962180182404438879317426147714105606144 9 1024 0 0 0 0 1024 33 179769313486231590772930519078902473361797697894230657273430081157732675805500963132708477322407536021120113879871393357658789768814416622492847430638595416869463245438750702399994803063589478921668919267289136722500957433103532803496681740671600663365085745561826243628973918413352261930687242194325270953983 1015 c1_cons_2_10_s1024).trans (by rfl))

theorem c1_inst_2_10 :
    (debruijnCodes 2 10).Nodup ∧ (debruijnCodes 2 10).length = 2 ^ 10 ∧
      ∀ v, v < 2 ^ 10 → v ∈ debruijnCodes 2 10 := by
  have hg : genTwin 2 (2 ^ (10 - 1)) (2 ^ 10 - 10) 0 1 0 10
      = (33, 179769313486231590772930519078902473361797697894230657273430081157732675805500963132708477322407536021120113879871393357658789768814416622492847430638595416869463245438750702399994803063589478921668919267289136722500957433103532803496681740671600663365085745561826243628973918413352261930687242194325270953983, 8087143345656653354824899242422981926053074918225018395654219433694772595947835560486964180765109071483729633185995457506976945677873310867932068169305740932190733141567688344667289173340152775729808029942443999190934041445439557315184578281474363761340682828758908901399928393387697112656134196393307211127286229344346110531698682083861000466351954731410891411519948984048668834667840009519214894919778881400423137123935466057799913175506919161611637176712559783513221806843012941933060186936011055470690723343839118434838224653636615881601772496225415770885681108778670769204962180182404438879317426147714105606144, 1024) := c1_gen_2_10
  have hm : (2 : Nat) ^ 2 ^ 10 - 1 = 179769313486231590772930519078902473361797697894230657273430081157732675805500963132708477322407536021120113879871393357658789768814416622492847430639474124377767893424865485276302219601246094119453082952085005768838150682342462881473913110540827237163350510684586298239947245938479716304835356329624224137215 := by norm_num
  have hc : consTwin 2 10 (2 ^ 10) (2 ^ (10 - 1)) 8087143345656653354824899242422981926053074918225018395654219433694772595947835560486964180765109071483729633185995457506976945677873310867932068169305740932190733141567688344667289173340152775729808029942443999190934041445439557315184578281474363761340682828758908901399928393387697112656134196393307211127286229344346110531698682083861000466351954731410891411519948984048668834667840009519214894919778881400423137123935466057799913175506919161611637176712559783513221806843012941933060186936011055470690723343839118434838224653636615881601772496225415770885681108778670769204962180182404438879317426147714105606144 (2 ^ 10 + (10 - 1)) 0 0 0 0
      = (1033, 512, 2 ^ 2 ^ 10 - 1, 2 ^ 10) := by
    rw [hm]
    exact c1_cons_2_10
  exact debruijn_correct_of_twin 2 10 33 179769313486231590772930519078902473361797697894230657273430081157732675805500963132708477322407536021120113879871393357658789768814416622492847430638595416869463245438750702399994803063589478921668919267289136722500957433103532803496681740671600663365085745561826243628973918413352261930687242194325270953983 8087143345656653354824899242422981926053074918225018395654219433694772595947835560486964180765109071483729633185995457506976945677873310867932068169305740932190733141567688344667289173340152775729808029942443999190934041445439557315184578281474363761340682828758908901399928393387697112656134196393307211127286229344346110531698682083861000466351954731410891411519948984048668834667840009519214894919778881400423137123935466057799913175506919161611637176712559783513221806843012941933060186936011055470690723343839118434838224653636615881601772496225415770885681108778670769204962180182404438879317426147714105606144 1024 1033 512 (by decide) (by decide)
    (by decide) (by decide) hg hc

theorem c1_gen_2_11_s512 : genTwin 2 1024 512 0 1 0 11 = (1118, 32317006071311007300714876688228062500975511259441011598932189083159582729531027780164168535638306740113429605469861831572814989733723100508589368918053407001731062219595317604416682029060715741013571064707147513936842919921330131193681123525078505248274221753174589978548201611346861408295155143893567916502064535629248181702748034222235238468747285126960792655769909767416068953322900048350838024428837472928625870274832917100371799398034768955793196690230018441460867954277309256330435467943619672961677846352108773143239577583581699087018452741305704618094409597202450461204318003045109395649612239720068061102219, 62634699821979302684323683587772991402167741621475404501586720571495436127373503666928857231913718671041179078464846070218358260032844136468003810258052323912354600133573161128860195223878944393737257430822663760412229836216142545549245361829743212172697587954298319845190328995561291314152506410239499283397083136, 523) := by rfl

theorem c1_gen_2_11_s1024 : genTwin 2 1024 1024 0 1 0 11 = (1836, 32317006071311007300714876688669951960444102669715484032130345425888398695943720779628213483291073309402401661396823831981225718771246660808023030246162545783942782484212044568026471855563964556832754239696930775389608966359131458651698250029343131335606221572471588357811007094837184681789631375099304182939852820850346743575425683307909920253353296835931428684515934981443399051114374985477461812501685007561897261773847619654092377530650390678073469006345903922355479761944737671765099388882359887393117040861654902817482118919990441344699939381944250802605397841759590181794589937124068240330909521549153171193995, 2681180448318083495643811670460855492872065433331287138772046413036572773207232047087281050176508281199270528664528653792172416089020546497174413263670379035118067505920504985368159486831297402038403753564468456869170574332381316020650169432695447476406694063265880928912300294286920814294220843310806928758974932759732491937827589035671201247851914749511610712274547964785653346191235821926359120532853974642565673070593957036418079123015776959051296630815564964925450081649789394830856949870804707888819215478221442205419484112876524143151215168659310494379927822693660446391331558119293045239741284965876576701021945856, 1035) :=
  (congrArg (fun m => genTwin 2 1024 m 0 1 0 11)
      (by norm_num : (1024 : Nat) = 512 + 512)).trans
    ((genTwin_chunk 2 1024 512 512 0 1 0 11 1118 32317006071311007300714876688228062500975511259441011598932189083159582729531027780164168535638306740113429605469861831572814989733723100508589368918053407001731062219595317604416682029060715741013571064707147513936842919921330131193681123525078505248274221753174589978548201611346861408295155143893567916502064535629248181702748034222235238468747285126960792655769909767416068953322900048350838024428837472928625870274832917100371799398034768955793196690230018441460867954277309256330435467943619672961677846352108773143239577583581699087018452741305704618094409597202450461204318003045109395649612239720068061102219 62634699821979302684323683587772991402167741621475404501586720571495436127373503666928857231913718671041179078464846070218358260032844136468003810258052323912354600133573161128860195223878944393737257430822663760412229836216142545549245361829743212172697587954298319845190328995561291314152506410239499283397083136 523 c1_gen_2_11_s512).trans (by rfl))

theorem c1_gen_2_11_s1536 : genTwin 2 1024 1536 0 1 0 11 = (564, 32317006071311007300714876688669951960444102669715484032130345427524655138867890893197201411522913463688717960921880795570944863635751919525122147041715184960994516583868804174370245532140777460006445006251045917165383060323675121567120267047889910219221048158540482188920162076252665017099256031672295793343978745879047969457468829833066973647184842603797157143060230250158484966636235946700565753901301730635980589650752255991316075485297398812027202175816999329378069899410215215162582734469820953644506863971846114492678932696939915513018607093652268226140785403577124200195685667227561835932234784858106845257931, 410506857593950472286952201661100789360292640345303007739422298939188852752786001669083433724695222399150070883080259183378000073522788190797039802681173249742045201372145457991007176036506431795247188693374229437808747545173949118314693912204308156645729001990774788328680045956506052955975867828364579558266658877229242638914650109094133194929087301166108227387436273169973412845750123678508400371269024781654372137736167166911686329552415738720201382852213533634580950627633894822961004362656586507459176408434480786284697030979566936941723950466687686400757276396892938728132636879955184611825065603711080113745077290246296171004055217096115824812958650453013561238255015843835834533188086887096112692224614849310860770467322830083284464720137606720621656897488248801856872699295311656870286853025635103483996253353853524600625045495304457890337215102339793024092038426514242076639992448705760353481882536478109684745143058432, 1547) :=
  (congrArg (fun m => genTwin 2 1024 m 0 1 0 11)
      (by norm_num : (1536 : Nat) = 512 + 1024)).trans
    ((genTwin_chunk 2 1024 512 1024 0 1 0 11 1836 32317006071311007300714876688669951960444102669715484032130345425888398695943720779628213483291073309402401661396823831981225718771246660808023030246162545783942782484212044568026471855563964556832754239696930775389608966359131458651698250029343131335606221572471588357811007094837184681789631375099304182939852820850346743575425683307909920253353296835931428684515934981443399051114374985477461812501685007561897261773847619654092377530650390678073469006345903922355479761944737671765099388882359887393117040861654902817482118919990441344699939381944250802605397841759590181794589937124068240330909521549153171193995 2681180448318083495643811670460855492872065433331287138772046413036572773207232047087281050176508281199270528664528653792172416089020546497174413263670379035118067505920504985368159486831297402038403753564468456869170574332381316020650169432695447476406694063265880928912300294286920814294220843310806928758974932759732491937827589035671201247851914749511610712274547964785653346191235821926359120532853974642565673070593957036418079123015776959051296630815564964925450081649789394830856949870804707888819215478221442205419484112876524143151215168659310494379927822693660446391331558119293045239741284965876576701021945856 1035 c1_gen_2_11_s1024).trans (by rfl))

theorem c1_gen_2_11 : genTwin 2 1024 2037 0 1 0 11 = (65, 32317006071311007300714876688669951960444102669715484032130345427524655138867890893197201411522913463688717960921898019494119559150490921095088152386448283120630877367300996091750197750389652106796057638384067568276792218642619756161838094338476170470581645852036305042887575891541065808607552399123930373740372835442508577935137545912533172782720449141131736329290576825004651927591839485834780314241488900577040258586955376473493272361879457590661635794017594439646056304054057066182166555959206254675965219540535550633873692097007406578830496053465791144659560316365753492800300842561407726942217597664727702437887, 261161027046093531661130115911845827178688246568265728507143515480541573105511333067500356355684630745357434735324221219055146937560644417944877854573480207778500210475985807794321108942294032649536877032051451490648006903129023118627126694144610060075611886784736994841656870423411970903657092830847451409149530674373791292584198868909790881570628765996522472315636627074532199374469823960268514460240122988261452335049116670079287944644165072159475924008700836372033405785751951882982220344650654990430772787669339173598682032322028163762287122541175659029634523927165897040376302708368307337638359457266002876938241373162777625533127344077145373560764626442055449127167911053713393815899124891666766687145542780518918024757364281934289178753624031558877335370897279943806563238999075947794488890303468414188545551284490576695702606397935623273049299930820424231959057544900514291051408963750581417028009502989712068188009819986990220457904190240646984521465185298182067656476947736005003751821497500942551214931323437461255736367918338962223829730776239703221217797485575770790810612952150031796239502719755664900331893793219799065732658947224740262739943468498428727507681510638040473772666520689456068738772098270591976871034880, 2048) :=
  (congrArg (fun m => genTwin 2 1024 m 0 1 0 11)
      (by norm_num : (2037 : Nat) = 501 + 1536)).trans
    ((genTwin_chunk 2 1024 501 1536 0 1 0 11 564 32317006071311007300714876688669951960444102669715484032130345427524655138867890893197201411522913463688717960921880795570944863635751919525122147041715184960994516583868804174370245532140777460006445006251045917165383060323675121567120267047889910219221048158540482188920162076252665017099256031672295793343978745879047969457468829833066973647184842603797157143060230250158484966636235946700565753901301730635980589650752255991316075485297398812027202175816999329378069899410215215162582734469820953644506863971846114492678932696939915513018607093652268226140785403577124200195685667227561835932234784858106845257931 410506857593950472286952201661100789360292640345303007739422298939188852752786001669083433724695222399150070883080259183378000073522788190797039802681173249742045201372145457991007176036506431795247188693374229437808747545173949118314693912204308156645729001990774788328680045956506052955975867828364579558266658877229242638914650109094133194929087301166108227387436273169973412845750123678508400371269024781654372137736167166911686329552415738720201382852213533634580950627633894822961004362656586507459176408434480786284697030979566936941723950466687686400757276396892938728132636879955184611825065603711080113745077290246296171004055217096115824812958650453013561238255015843835834533188086887096112692224614849310860770467322830083284464720137606720621656897488248801856872699295311656870286853025635103483996253353853524600625045495304457890337215102339793024092038426514242076639992448705760353481882536478109684745143058432 1547 c1_gen_2_11_s1536).trans (by rfl))

theorem c1_cons_2_11_s512 : consTwin 2 11 2048 1024 261161027046093531661130115911845827178688246568265728507143515480541573105511333067500356355684630745357434735324221219055146937560644417944877854573480207778500210475985807794321108942294032649536877032051451490648006903129023118627126694144610060075611886784736994841656870423411970903657092830847451409149530674373791292584198868909790881570628765996522472315636627074532199374469823960268514460240122988261452335049116670079287944644165072159475924008700836372033405785751951882982220344650654990430772787669339173598682032322028163762287122541175659029634523927165897040376302708368307337638359457266002876938241373162777625533127344077145373560764626442055449127167911053713393815899124891666766687145542780518918024757364281934289178753624031558877335370897279943806563238999075947794488890303468414188545551284490576695702606397935623273049299930820424231959057544900514291051408963750581417028009502989712068188009819986990220457904190240646984521465185298182067656476947736005003751821497500942551214931323437461255736367918338962223829730776239703221217797485575770790810612952150031796239502719755664900331893793219799065732658947224740262739943468498428727507681510638040473772666520689456068738772098270591976871034880 512 0 0 0 0 = (512, 1182, 32317006071311007300714876686596470650514881780207361438417825864522203855455193269963953870542356756106279229629268733870743125103318117025062707143595484129962210285620448360519074575364316993390236788097681860593976418789277349662219073823646081146794987914953969426989092283625675653524633814275421159727524273499376993492293553267237226382734880827390261049284801552844566695463053510472564865021157748110146126048922748680236781036546946015000297768802422061267172557499386058784023439106923385082136943929485835620271098598714889920119064153766155711096795523628101373546198823835897213284659882012084145258635, 502) := by rfl

theorem c1_cons_2_11_s1024 : consTwin 2 11 2048 1024 261161027046093531661130115911845827178688246568265728507143515480541573105511333067500356355684630745357434735324221219055146937560644417944877854573480207778500210475985807794321108942294032649536877032051451490648006903129023118627126694144610060075611886784736994841656870423411970903657092830847451409149530674373791292584198868909790881570628765996522472315636627074532199374469823960268514460240122988261452335049116670079287944644165072159475924008700836372033405785751951882982220344650654990430772787669339173598682032322028163762287122541175659029634523927165897040376302708368307337638359457266002876938241373162777625533127344077145373560764626442055449127167911053713393815899124891666766687145542780518918024757364281934289178753624031558877335370897279943806563238999075947794488890303468414188545551284490576695702606397935623273049299930820424231959057544900514291051408963750581417028009502989712068188009819986990220457904190240646984521465185298182067656476947736005003751821497500942551214931323437461255736367918338962223829730776239703221217797485575770790810612952150031796239502719755664900331893793219799065732658947224740262739943468498428727507681510638040473772666520689456068738772098270591976871034880 1024 0 0 0 0 = (1024, 1840, 32317006071311007300714876688669951960444102669715484032130345420978505568099490515257093998177271901993682329452075838840905355766164247996571186705250359093275946481970615423307582390661985168783107688119637709545710897282108780358978587170249055489346793131878030926212439069351793361354683877180700365595461752086779475811358122122917961587734289051470724590966362012699462700424516689484747092018447924212522741473317205148119180504538048923004776038081539126560392914459456321194270348643251384200810867030499905370011742030964919373988591499947246481545264783301603452004351303236280750780771405096956240904331, 1014) :=
  (congrArg (fun m => consTwin 2 11 2048 1024 261161027046093531661130115911845827178688246568265728507143515480541573105511333067500356355684630745357434735324221219055146937560644417944877854573480207778500210475985807794321108942294032649536877032051451490648006903129023118627126694144610060075611886784736994841656870423411970903657092830847451409149530674373791292584198868909790881570628765996522472315636627074532199374469823960268514460240122988261452335049116670079287944644165072159475924008700836372033405785751951882982220344650654990430772787669339173598682032322028163762287122541175659029634523927165897040376302708368307337638359457266002876938241373162777625533127344077145373560764626442055449127167911053713393815899124891666766687145542780518918024757364281934289178753624031558877335370897279943806563238999075947794488890303468414188545551284490576695702606397935623273049299930820424231959057544900514291051408963750581417028009502989712068188009819986990220457904190240646984521465185298182067656476947736005003751821497500942551214931323437461255736367918338962223829730776239703221217797485575770790810612952150031796239502719755664900331893793219799065732658947224740262739943468498428727507681510638040473772666520689456068738772098270591976871034880 m 0 0 0 0)
      (by norm_num : (1024 : Nat) = 512 + 512)).trans
    ((consTwin_chunk 2 11 2048 1024 261161027046093531661130115911845827178688246568265728507143515480541573105511333067500356355684630745357434735324221219055146937560644417944877854573480207778500210475985807794321108942294032649536877032051451490648006903129023118627126694144610060075611886784736994841656870423411970903657092830847451409149530674373791292584198868909790881570628765996522472315636627074532199374469823960268514460240122988261452335049116670079287944644165072159475924008700836372033405785751951882982220344650654990430772787669339173598682032322028163762287122541175659029634523927165897040376302708368307337638359457266002876938241373162777625533127344077145373560764626442055449127167911053713393815899124891666766687145542780518918024757364281934289178753624031558877335370897279943806563238999075947794488890303468414188545551284490576695702606397935623273049299930820424231959057544900514291051408963750581417028009502989712068188009819986990220457904190240646984521465185298182067656476947736005003751821497500942551214931323437461255736367918338962223829730776239703221217797485575770790810612952150031796239502719755664900331893793219799065732658947224740262739943468498428727507681510638040473772666520689456068738772098270591976871034880 512 512 0 0 0 0 512 1182 32317006071311007300714876686596470650514881780207361438417825864522203855455193269963953870542356756106279229629268733870743125103318117025062707143595484129962210285620448360519074575364316993390236788097681860593976418789277349662219073823646081146794987914953969426989092283625675653524633814275421159727524273499376993492293553267237226382734880827390261049284801552844566695463053510472564865021157748110146126048922748680236781036546946015000297768802422061267172557499386058784023439106923385082136943929485835620271098598714889920119064153766155711096795523628101373546198823835897213284659882012084145258635 502 c1_cons_2_11_s512).trans (by rfl))

theorem c1_cons_2_11_s1536 : consTwin 2 11 2048 1024 261161027046093531661130115911845827178688246568265728507143515480541573105511333067500356355684630745357434735324221219055146937560644417944877854573480207778500210475985807794321108942294032649536877032051451490648006903129023118627126694144610060075611886784736994841656870423411970903657092830847451409149530674373791292584198868909790881570628765996522472315636627074532199374469823960268514460240122988261452335049116670079287944644165072159475924008700836372033405785751951882982220344650654990430772787669339173598682032322028163762287122541175659029634523927165897040376302708368307337638359457266002876938241373162777625533127344077145373560764626442055449127167911053713393815899124891666766687145542780518918024757364281934289178753624031558877335370897279943806563238999075947794488890303468414188545551284490576695702606397935623273049299930820424231959057544900514291051408963750581417028009502989712068188009819986990220457904190240646984521465185298182067656476947736005003751821497500942551214931323437461255736367918338962223829730776239703221217797485575770790810612952150031796239502719755664900331893793219799065732658947224740262739943468498428727507681510638040473772666520689456068738772098270591976871034880 1536 0 0 0 0 = (1536, 692, 32317006071311007300714876688669951960444102669715484032130345427524655138867890893197201411522913463688717960921670827745626043670997876694180058207094057398728269926272266616311561502133605174191214665148576155814619517152591888044270380133678006033715091098753706457422634755320017119969111683181001010072670745286553266389637428469949449099309908306263463839815208379408248670051090604389737461917918055747789515146648812293692974054931669949728985582152536707294118463411510476820830314605326821827668946146605205818310971279905618981403119008135610655181359375723470363138358775317572168312724563490384772128971, 1526) :=
  (congrArg (fun m => consTwin 2 11 2048 1024 261161027046093531661130115911845827178688246568265728507143515480541573105511333067500356355684630745357434735324221219055146937560644417944877854573480207778500210475985807794321108942294032649536877032051451490648006903129023118627126694144610060075611886784736994841656870423411970903657092830847451409149530674373791292584198868909790881570628765996522472315636627074532199374469823960268514460240122988261452335049116670079287944644165072159475924008700836372033405785751951882982220344650654990430772787669339173598682032322028163762287122541175659029634523927165897040376302708368307337638359457266002876938241373162777625533127344077145373560764626442055449127167911053713393815899124891666766687145542780518918024757364281934289178753624031558877335370897279943806563238999075947794488890303468414188545551284490576695702606397935623273049299930820424231959057544900514291051408963750581417028009502989712068188009819986990220457904190240646984521465185298182067656476947736005003751821497500942551214931323437461255736367918338962223829730776239703221217797485575770790810612952150031796239502719755664900331893793219799065732658947224740262739943468498428727507681510638040473772666520689456068738772098270591976871034880 m 0 0 0 0)
      (by norm_num : (1536 : Nat) = 512 + 1024)).trans
    ((consTwin_chunk 2 11 2048 1024 261161027046093531661130115911845827178688246568265728507143515480541573105511333067500356355684630745357434735324221219055146937560644417944877854573480207778500210475985807794321108942294032649536877032051451490648006903129023118627126694144610060075611886784736994841656870423411970903657092830847451409149530674373791292584198868909790881570628765996522472315636627074532199374469823960268514460240122988261452335049116670079287944644165072159475924008700836372033405785751951882982220344650654990430772787669339173598682032322028163762287122541175659029634523927165897040376302708368307337638359457266002876938241373162777625533127344077145373560764626442055449127167911053713393815899124891666766687145542780518918024757364281934289178753624031558877335370897279943806563238999075947794488890303468414188545551284490576695702606397935623273049299930820424231959057544900514291051408963750581417028009502989712068188009819986990220457904190240646984521465185298182067656476947736005003751821497500942551214931323437461255736367918338962223829730776239703221217797485575770790810612952150031796239502719755664900331893793219799065732658947224740262739943468498428727507681510638040473772666520689456068738772098270591976871034880 512 1024 0 0 0 0 1024 1840 32317006071311007300714876688669951960444102669715484032130345420978505568099490515257093998177271901993682329452075838840905355766164247996571186705250359093275946481970615423307582390661985168783107688119637709545710897282108780358978587170249055489346793131878030926212439069351793361354683877180700365595461752086779475811358122122917961587734289051470724590966362012699462700424516689484747092018447924212522741473317205148119180504538048923004776038081539126560392914459456321194270348643251384200810867030499905370011742030964919373988591499947246481545264783301603452004351303236280750780771405096956240904331 1014 c1_cons_2_11_s1024).trans (by rfl))

theorem c1_cons_2_11_s2048 : consTwin 2 11 2048 1024 261161027046093531661130115911845827178688246568265728507143515480541573105511333067500356355684630745357434735324221219055146937560644417944877854573480207778500210475985807794321108942294032649536877032051451490648006903129023118627126694144610060075611886784736994841656870423411970903657092830847451409149530674373791292584198868909790881570628765996522472315636627074532199374469823960268514460240122988261452335049116670079287944644165072159475924008700836372033405785751951882982220344650654990430772787669339173598682032322028163762287122541175659029634523927165897040376302708368307337638359457266002876938241373162777625533127344077145373560764626442055449127167911053713393815899124891666766687145542780518918024757364281934289178753624031558877335370897279943806563238999075947794488890303468414188545551284490576695702606397935623273049299930820424231959057544900514291051408963750581417028009502989712068188009819986990220457904190240646984521465185298182067656476947736005003751821497500942551214931323437461255736367918338962223829730776239703221217797485575770790810612952150031796239502719755664900331893793219799065732658947224740262739943468498428727507681510638040473772666520689456068738772098270591976871034880 2048 0 0 0 0 = (2048, 65, 32317006071311007300714876688669951960444102669715484032130345427524655138867890893197201411522913463688717960921898019494119559150490921095088152386448283120630877367300996091750197750389652106796057638384067568276792218642619756161838094338476170470581645852036305042887575891541065808607552399123930373740372835442508577935137545912533172782720449141131736329290576825004651927591839485834780314241488900577040258586955376473493272361879457590661635794017594439646056304054057066182166555959206254675965219540535550633873692097007406578830496053465791144659560316365753492800300842561407726942217597664727702437887, 2038) :=
  (congrArg (fun m => consTwin 2 11 2048 1024 261161027046093531661130115911845827178688246568265728507143515480541573105511333067500356355684630745357434735324221219055146937560644417944877854573480207778500210475985807794321108942294032649536877032051451490648006903129023118627126694144610060075611886784736994841656870423411970903657092830847451409149530674373791292584198868909790881570628765996522472315636627074532199374469823960268514460240122988261452335049116670079287944644165072159475924008700836372033405785751951882982220344650654990430772787669339173598682032322028163762287122541175659029634523927165897040376302708368307337638359457266002876938241373162777625533127344077145373560764626442055449127167911053713393815899124891666766687145542780518918024757364281934289178753624031558877335370897279943806563238999075947794488890303468414188545551284490576695702606397935623273049299930820424231959057544900514291051408963750581417028009502989712068188009819986990220457904190240646984521465185298182067656476947736005003751821497500942551214931323437461255736367918338962223829730776239703221217797485575770790810612952150031796239502719755664900331893793219799065732658947224740262739943468498428727507681510638040473772666520689456068738772098270591976871034880 m 0 0 0 0)
      (by norm_num : (2048 : Nat) = 512 + 1536)).trans
    ((consTwin_chunk 2 11 2048 1024 261161027046093531661130115911845827178688246568265728507143515480541573105511333067500356355684630745357434735324221219055146937560644417944877854573480207778500210475985807794321108942294032649536877032051451490648006903129023118627126694144610060075611886784736994841656870423411970903657092830847451409149530674373791292584198868909790881570628765996522472315636627074532199374469823960268514460240122988261452335049116670079287944644165072159475924008700836372033405785751951882982220344650654990430772787669339173598682032322028163762287122541175659029634523927165897040376302708368307337638359457266002876938241373162777625533127344077145373560764626442055449127167911053713393815899124891666766687145542780518918024757364281934289178753624031558877335370897279943806563238999075947794488890303468414188545551284490576695702606397935623273049299930820424231959057544900514291051408963750581417028009502989712068188009819986990220457904190240646984521465185298182067656476947736005003751821497500942551214931323437461255736367918338962223829730776239703221217797485575770790810612952150031796239502719755664900331893793219799065732658947224740262739943468498428727507681510638040473772666520689456068738772098270591976871034880 512 1536 0 0 0 0 1536 692 32317006071311007300714876688669951960444102669715484032130345427524655138867890893197201411522913463688717960921670827745626043670997876694180058207094057398728269926272266616311561502133605174191214665148576155814619517152591888044270380133678006033715091098753706457422634755320017119969111683181001010072670745286553266389637428469949449099309908306263463839815208379408248670051090604389737461917918055747789515146648812293692974054931669949728985582152536707294118463411510476820830314605326821827668946146605205818310971279905618981403119008135610655181359375723470363138358775317572168312724563490384772128971 1526 c1_cons_2_11_s1536).trans (by rfl))

theorem c1_cons_2_11 : consTwin 2 11 2048 1024 261161027046093531661130115911845827178688246568265728507143515480541573105511333067500356355684630745357434735324221219055146937560644417944877854573480207778500210475985807794321108942294032649536877032051451490648006903129023118627126694144610060075611886784736994841656870423411970903657092830847451409149530674373791292584198868909790881570628765996522472315636627074532199374469823960268514460240122988261452335049116670079287944644165072159475924008700836372033405785751951882982220344650654990430772787669339173598682032322028163762287122541175659029634523927165897040376302708368307337638359457266002876938241373162777625533127344077145373560764626442055449127167911053713393815899124891666766687145542780518918024757364281934289178753624031558877335370897279943806563238999075947794488890303468414188545551284490576695702606397935623273049299930820424231959057544900514291051408963750581417028009502989712068188009819986990220457904190240646984521465185298182067656476947736005003751821497500942551214931323437461255736367918338962223829730776239703221217797485575770790810612952150031796239502719755664900331893793219799065732658947224740262739943468498428727507681510638040473772666520689456068738772098270591976871034880 2058 0 0 0 0 = (2058, 1024, 32317006071311007300714876688669951960444102669715484032130345427524655138867890893197201411522913463688717960921898019494119559150490921095088152386448283120630877367300996091750197750389652106796057638384067568276792218642619756161838094338476170470581645852036305042887575891541065808607552399123930385521914333389668342420684974786564569494856176035326322058077805659331026192708460314150258592864177116725943603718461857357598351152301645904403697613233287231227125684710820209725157101726931323469678542580656697935045997268352998638215525166389437335543602135433229604645318478604952148193555853611059596230655, 2048) :=
  (congrArg (fun m => consTwin 2 11 2048 1024 261161027046093531661130115911845827178688246568265728507143515480541573105511333067500356355684630745357434735324221219055146937560644417944877854573480207778500210475985807794321108942294032649536877032051451490648006903129023118627126694144610060075611886784736994841656870423411970903657092830847451409149530674373791292584198868909790881570628765996522472315636627074532199374469823960268514460240122988261452335049116670079287944644165072159475924008700836372033405785751951882982220344650654990430772787669339173598682032322028163762287122541175659029634523927165897040376302708368307337638359457266002876938241373162777625533127344077145373560764626442055449127167911053713393815899124891666766687145542780518918024757364281934289178753624031558877335370897279943806563238999075947794488890303468414188545551284490576695702606397935623273049299930820424231959057544900514291051408963750581417028009502989712068188009819986990220457904190240646984521465185298182067656476947736005003751821497500942551214931323437461255736367918338962223829730776239703221217797485575770790810612952150031796239502719755664900331893793219799065732658947224740262739943468498428727507681510638040473772666520689456068738772098270591976871034880 m 0 0 0 0)
      (by norm_num : (2058 : Nat) = 10 + 2048)).trans
    ((consTwin_chunk 2 11 2048 1024 261161027046093531661130115911845827178688246568265728507143515480541573105511333067500356355684630745357434735324221219055146937560644417944877854573480207778500210475985807794321108942294032649536877032051451490648006903129023118627126694144610060075611886784736994841656870423411970903657092830847451409149530674373791292584198868909790881570628765996522472315636627074532199374469823960268514460240122988261452335049116670079287944644165072159475924008700836372033405785751951882982220344650654990430772787669339173598682032322028163762287122541175659029634523927165897040376302708368307337638359457266002876938241373162777625533127344077145373560764626442055449127167911053713393815899124891666766687145542780518918024757364281934289178753624031558877335370897279943806563238999075947794488890303468414188545551284490576695702606397935623273049299930820424231959057544900514291051408963750581417028009502989712068188009819986990220457904190240646984521465185298182067656476947736005003751821497500942551214931323437461255736367918338962223829730776239703221217797485575770790810612952150031796239502719755664900331893793219799065732658947224740262739943468498428727507681510638040473772666520689456068738772098270591976871034880 10 2048 0 0 0 0 2048 65 32317006071311007300714876688669951960444102669715484032130345427524655138867890893197201411522913463688717960921898019494119559150490921095088152386448283120630877367300996091750197750389652106796057638384067568276792218642619756161838094338476170470581645852036305042887575891541065808607552399123930373740372835442508577935137545912533172782720449141131736329290576825004651927591839485834780314241488900577040258586955376473493272361879457590661635794017594439646056304054057066182166555959206254675965219540535550633873692097007406578830496053465791144659560316365753492800300842561407726942217597664727702437887 2038 c1_cons_2_11_s2048).trans (by rfl))

theorem c1_inst_2_11 :
    (debruijnCodes 2 11).Nodup ∧ (debruijnCodes 2 11).length = 2 ^ 11 ∧
      ∀ v, v < 2 ^ 11 → v ∈ debruijnCodes 2 11 := by
  have hg : genTwin 2 (2 ^ (11 - 1)) (2 ^ 11 - 11) 0 1 0 11
      = (65, 32317006071311007300714876688669951960444102669715484032130345427524655138867890893197201411522913463688717960921898019494119559150490921095088152386448283120630877367300996091750197750389652106796057638384067568276792218642619756161838094338476170470581645852036305042887575891541065808607552399123930373740372835442508577935137545912533172782720449141131736329290576825004651927591839485834780314241488900577040258586955376473493272361879457590661635794017594439646056304054057066182166555959206254675965219540535550633873692097007406578830496053465791144659560316365753492800300842561407726942217597664727702437887, 261161027046093531661130115911845827178688246568265728507143515480541573105511333067500356355684630745357434735324221219055146937560644417944877854573480207778500210475985807794321108942294032649536877032051451490648006903129023118627126694144610060075611886784736994841656870423411970903657092830847451409149530674373791292584198868909790881570628765996522472315636627074532199374469823960268514460240122988261452335049116670079287944644165072159475924008700836372033405785751951882982220344650654990430772787669339173598682032322028163762287122541175659029634523927165897040376302708368307337638359457266002876938241373162777625533127344077145373560764626442055449127167911053713393815899124891666766687145542780518918024757364281934289178753624031558877335370897279943806563238999075947794488890303468414188545551284490576695702606397935623273049299930820424231959057544900514291051408963750581417028009502989712068188009819986990220457904190240646984521465185298182067656476947736005003751821497500942551214931323437461255736367918338962223829730776239703221217797485575770790810612952150031796239502719755664900331893793219799065732658947224740262739943468498428727507681510638040473772666520689456068738772098270591976871034880, 2048) := c1_gen_2_11
  have hm : (2 : Nat) ^ 2 ^ 11 - 1 = 32317006071311007300714876688669951960444102669715484032130345427524655138867890893197201411522913463688717960921898019494119559150490921095088152386448283120630877367300996091750197750389652106796057638384067568276792218642619756161838094338476170470581645852036305042887575891541065808607552399123930385521914333389668342420684974786564569494856176035326322058077805659331026192708460314150258592864177116725943603718461857357598351152301645904403697613233287231227125684710820209725157101726931323469678542580656697935045997268352998638215525166389437335543602135433229604645318478604952148193555853611059596230655 := by norm_num
  have hc : consTwin 2 11 (2 ^ 11) (2 ^ (11 - 1)) 261161027046093531661130115911845827178688246568265728507143515480541573105511333067500356355684630745357434735324221219055146937560644417944877854573480207778500210475985807794321108942294032649536877032051451490648006903129023118627126694144610060075611886784736994841656870423411970903657092830847451409149530674373791292584198868909790881570628765996522472315636627074532199374469823960268514460240122988261452335049116670079287944644165072159475924008700836372033405785751951882982220344650654990430772787669339173598682032322028163762287122541175659029634523927165897040376302708368307337638359457266002876938241373162777625533127344077145373560764626442055449127167911053713393815899124891666766687145542780518918024757364281934289178753624031558877335370897279943806563238999075947794488890303468414188545551284490576695702606397935623273049299930820424231959057544900514291051408963750581417028009502989712068188009819986990220457904190240646984521465185298182067656476947736005003751821497500942551214931323437461255736367918338962223829730776239703221217797485575770790810612952150031796239502719755664900331893793219799065732658947224740262739943468498428727507681510638040473772666520689456068738772098270591976871034880 (2 ^ 11 + (11 - 1)) 0 0 0 0
      = (2058, 1024, 2 ^ 2 ^ 11 - 1, 2 ^ 11) := by
    rw [hm]
    exact c1_cons_2_11
  exact debruijn_correct_of_twin 2 11 65 32317006071311007300714876688669951960444102669715484032130345427524655138867890893197201411522913463688717960921898019494119559150490921095088152386448283120630877367300996091750197750389652106796057638384067568276792218642619756161838094338476170470581645852036305042887575891541065808607552399123930373740372835442508577935137545912533172782720449141131736329290576825004651927591839485834780314241488900577040258586955376473493272361879457590661635794017594439646056304054057066182166555959206254675965219540535550633873692097007406578830496053465791144659560316365753492800300842561407726942217597664727702437887 261161027046093531661130115911845827178688246568265728507143515480541573105511333067500356355684630745357434735324221219055146937560644417944877854573480207778500210475985807794321108942294032649536877032051451490648006903129023118627126694144610060075611886784736994841656870423411970903657092830847451409149530674373791292584198868909790881570628765996522472315636627074532199374469823960268514460240122988261452335049116670079287944644165072159475924008700836372033405785751951882982220344650654990430772787669339173598682032322028163762287122541175659029634523927165897040376302708368307337638359457266002876938241373162777625533127344077145373560764626442055449127167911053713393815899124891666766687145542780518918024757364281934289178753624031558877335370897279943806563238999075947794488890303468414188545551284490576695702606397935623273049299930820424231959057544900514291051408963750581417028009502989712068188009819986990220457904190240646984521465185298182067656476947736005003751821497500942551214931323437461255736367918338962223829730776239703221217797485575770790810612952150031796239502719755664900331893793219799065732658947224740262739943468498428727507681510638040473772666520689456068738772098270591976871034880 2048 2058 1024 (by decide) (by decide)
    (by decide) (by decide) hg hc

theorem c1_gen_2_12_s512 : genTwin 2 2048 512 0 1 0 12 = (3925, 1044388881413152506691752706217154410336445763128291656577048657927883923106397139903927756095493290465460887603101094247717331351774192737495157461007066585148143781840320471688411842903428727141984584099079040209663315589474399997280829682740895044891783053000717944278541370437599988390096533738196168040615442011379587572989099545185353962824429119353188910914910629762819595679081015324443927275947368120299166831415756924010918701605636433709873951325792835322684382500713025908615952656773110716100433581894151920050817627997756010315487065199766177009018367875713206429112554705327508449612609538363763305828276108203053451867268181660485371613112028381536305417578303374119499065705597911510554614097690461684857816766164826124380354426356388910232953002196251769556754119374945686992152552832438600122054132658065660367312707469139411020452237205375310595129556514199221870454966267809788798730408867445815107789416374087016250343941858837327073943603946464921507989344007591301784030009339616832190196118513777629821408792763999615395925462478259212344817812535263432431093345039364559775391635885345546888461326849638987008585090950467527866463774663636038556069296536401539185930084955980273034530781547552053403509096587, 804277347979898601695756849815408605156161833166772542056224783513516416380268112772321164734351371807343149363005958361479323501325406446697606088541031300230826558326920875856622966500122971193180275377595745988453779859302340354265205749127812786100801191104239584607273966440458142102098823475309056567210409984, 524) := by rfl

theorem c1_gen_2_12_s1024 : genTwin 2 2048 1024 0 1 0 12 = (489, 1044388881413152506691752710716624382579964249047383776749632180223886531428203846382462093095869510861786712369346016296042152081824386361674457353501854272058028187630572431363245523021406923823987900370246080073052799511634781776999060762600868147051391953068106399132931818952870467925294416719337015050003728920995453861290759240884051105302407141545577140529181509657285281585277335877408606276925217151099109751584730338503342754391168170693307163952360158880453411017137069545229515316987419330815257225768692342542689854530536785616746465616334275270405423870709683035447778437296002878486710818706925969766067807664226265061223120681720367741004545760931550457764678821363815051249431351614995213336766032425025675724374484494867386951338443966849113722652118310851757572498479210108959282024882123454240684729845631830700300316703434634184193301139529418451222852491485855218683190268243623238287125559573392357699360792831320382963485165526500348998826679179475796811722182465581990102913948312367603480263631297396774455332721056760941552110049159054697719774633995130789823067551044840351441609374812608630987795115274457284850590765481285086030614250294407648216169876873776269324121431107062759749480422613388508561547, 137841081812379196705522569531842558171031371293967459911105393298983503635408571820935286730555686394182967085879096112100935142967200161459153704934562115846329719342835701249932089441777442752739727449002564350114622956033575286720760735822357638249888930805276749940572273450884760891947681536103734458720934883515226312078266989302039256874424444180964205610230010929533763707443783087524836578652645791491141656827400541064196707218960926528866006313811747919059660530131568215644757833689679250521496355813816035331200814771943823336968569937682990768115904233866342731408602324255347168332773971328691704858545225728, 1036) :=
  (congrArg (fun m => genTwin 2 2048 m 0 1 0 12)
      (by norm_num : (1024 : Nat) = 512 + 512)).trans
    ((genTwin_chunk 2 2048 512 512 0 1 0 12 3925 1044388881413152506691752706217154410336445763128291656577048657927883923106397139903927756095493290465460887603101094247717331351774192737495157461007066585148143781840320471688411842903428727141984584099079040209663315589474399997280829682740895044891783053000717944278541370437599988390096533738196168040615442011379587572989099545185353962824429119353188910914910629762819595679081015324443927275947368120299166831415756924010918701605636433709873951325792835322684382500713025908615952656773110716100433581894151920050817627997756010315487065199766177009018367875713206429112554705327508449612609538363763305828276108203053451867268181660485371613112028381536305417578303374119499065705597911510554614097690461684857816766164826124380354426356388910232953002196251769556754119374945686992152552832438600122054132658065660367312707469139411020452237205375310595129556514199221870454966267809788798730408867445815107789416374087016250343941858837327073943603946464921507989344007591301784030009339616832190196118513777629821408792763999615395925462478259212344817812535263432431093345039364559775391635885345546888461326849638987008585090950467527866463774663636038556069296536401539185930084955980273034530781547552053403509096587 804277347979898601695756849815408605156161833166772542056224783513516416380268112772321164734351371807343149363005958361479323501325406446697606088541031300230826558326920875856622966500122971193180275377595745988453779859302340354265205749127812786100801191104239584607273966440458142102098823475309056567210409984 524 c1_gen_2_12_s512).trans (by rfl))

theorem c1_gen_2_12_s1536 : genTwin 2 2048 1536 0 1 0 12 = (631, 1044388881413152506691752710716624382579964249047383780384233483283953907971557456848816136839926447929010468210464309365964124629099798412700835612313950926915020524339596108869158132518055716401100302445572190387418503984890610883256776601689807477672215474509887869004002321370085495736182262084554198673872740578517311754849191908119104906094145434278196547564415576597986785982058821463732656396335100934725196005482092373388659282134695351706068311121077030231890855618431646156802976905093857922660900530329552956798298850311290222736184897114735646795529451414245876361073897942236344541916511968382993762446132208171637741694828902868519865778195449001639479338498848824432345327453586112480279354129667117508739531221443570626610243449201422075873591659703241885656615225031152786303941455799484662143554518572952849005126977799017764314166851877168275575112401752199035104715743866142690316192842269235540498235373733138882075022827270946831990568984597676636489256004102494622586505736842610752766105409805031163798478713856043650713473672865683921955534352498648537143084329444751272428732611680456059019761702680048306017952053232330870637829012573773744064674785536649365556065913998198956602251346700657446083790684299, 32107045069827047573582128955073746363908829337141888742719551720701643283627282627411989317777815951814589482651643219011327214670201995427800860351779359995681973791814041667591863470307980264998783286163010740336902309000565006986998147848003432163933590884416391657082262525376904226116117807660005159392974033938156470378767488343477557573449751237152701634374025885695578987197570845074949551557115857072618571312272952867674504473915879708311147486012429805024340792818251914274136154189223461438725160481146359952540400515693531294323978055300442245328254265088025744646417736370518485590196457409226155672429164381168667146494614150972532997720191994831563549613071421669278906439327901337648676848256307107141750331967447592620149539192739678584622180833549568296086765513761152459045105742762497163056830261012492637267908713041691578266244057994851155131308329195003026775339920129692578721623900756863391336708578476032, 1548) :=
  (congrArg (fun m => genTwin 2 2048 m 0 1 0 12)
      (by norm_num : (1536 : Nat) = 512 + 1024)).trans
    ((genTwin_chunk 2 2048 512 1024 0 1 0 12 489 1044388881413152506691752710716624382579964249047383776749632180223886531428203846382462093095869510861786712369346016296042152081824386361674457353501854272058028187630572431363245523021406923823987900370246080073052799511634781776999060762600868147051391953068106399132931818952870467925294416719337015050003728920995453861290759240884051105302407141545577140529181509657285281585277335877408606276925217151099109751584730338503342754391168170693307163952360158880453411017137069545229515316987419330815257225768692342542689854530536785616746465616334275270405423870709683035447778437296002878486710818706925969766067807664226265061223120681720367741004545760931550457764678821363815051249431351614995213336766032425025675724374484494867386951338443966849113722652118310851757572498479210108959282024882123454240684729845631830700300316703434634184193301139529418451222852491485855218683190268243623238287125559573392357699360792831320382963485165526500348998826679179475796811722182465581990102913948312367603480263631297396774455332721056760941552110049159054697719774633995130789823067551044840351441609374812608630987795115274457284850590765481285086030614250294407648216169876873776269324121431107062759749480422613388508561547 137841081812379196705522569531842558171031371293967459911105393298983503635408571820935286730555686394182967085879096112100935142967200161459153704934562115846329719342835701249932089441777442752739727449002564350114622956033575286720760735822357638249888930805276749940572273450884760891947681536103734458720934883515226312078266989302039256874424444180964205610230010929533763707443783087524836578652645791491141656827400541064196707218960926528866006313811747919059660530131568215644757833689679250521496355813816035331200814771943823336968569937682990768115904233866342731408602324255347168332773971328691704858545225728 1036 c1_gen_2_12_s1024).trans (by rfl))

theorem c1_gen_2_12_s2048 : genTwin 2 2048 2048 0 1 0 12 = (462, 1044388881413152506691752710716624382579964249047383780384233483283953907971557456848826811934997558340890106714439262835931624912516695097589483220719430216552058790968786993330297955323235549270099917125635960892153084821332205909563823606312591024182171446286800519233205271360390132375482523710463038853696568978114786160435884515286500790832481837842584632155534381080988741177922278084040718712119966174523789298858957671974858091119685805802138257289948261250345617804493831525907101077957898041065568330995020169517720079635397769427884780200649033108247483618682480355838532431182462552721555625329623120724795086692680924205013880063930621022313987729738536109815415788925308487002213921479431367794617192711337173872718964576928504146820757188804856953205948182729645278418573837711733550365620493049589345870328016649113071658851898125164523395106045111314085688959999728529833472402182374636648828563314999864349456056840287493296075645321433877050190698442686859517022712898433025103761504181367625460615641187485824046982088194280313404236193963697614866128464460311649021167749745357545106603840394782067917120294255666124999829014426670292234030041630663991393615757537182730377878522391381988502652162365043865862283, 1438750124138583553332365800784117226857119056614880538383485633908354278790403868990133071119244337185759396311938383624668002643163893488627672863137200877027059446647073408909688788316147285494392047945594072983783053738733114395234573941213133289115224924903858862981269687424405476651038732872441141316754915496220338662580236601822859385099731989984926614571929997074159473438940145319225858335600305170006922493466430023771236393729289128557484873661794029058952416873968472681604799254609873530151398257252616770908659417966712426497353382250588161573253368427197758543742896470376566494373226989232404983151580754837741175092215294678065524402408619829320348500597608439211933914712999271767354301690698785020043080181282210499909413239888240045867689665312562292151889699510449531938930103237324874022507468127443124380274667361742544180583673671339485732231616547146028614202695594126313467549949466855788118387113416231282868102875736742225016389015783550707947117530881878566930903443156859478629821018650947577964422757745312267245037857370808749149589661236631192922469695221014844686739355098565059171522793781231020879093462231961274561274712762831464672015104340465282510440438278197948220416944317919899347480061822369792, 2060) :=
  (congrArg (fun m => genTwin 2 2048 m 0 1 0 12)
      (by norm_num : (2048 : Nat) = 512 + 1536)).trans
    ((genTwin_chunk 2 2048 512 1536 0 1 0 12 631 1044388881413152506691752710716624382579964249047383780384233483283953907971557456848816136839926447929010468210464309365964124629099798412700835612313950926915020524339596108869158132518055716401100302445572190387418503984890610883256776601689807477672215474509887869004002321370085495736182262084554198673872740578517311754849191908119104906094145434278196547564415576597986785982058821463732656396335100934725196005482092373388659282134695351706068311121077030231890855618431646156802976905093857922660900530329552956798298850311290222736184897114735646795529451414245876361073897942236344541916511968382993762446132208171637741694828902868519865778195449001639479338498848824432345327453586112480279354129667117508739531221443570626610243449201422075873591659703241885656615225031152786303941455799484662143554518572952849005126977799017764314166851877168275575112401752199035104715743866142690316192842269235540498235373733138882075022827270946831990568984597676636489256004102494622586505736842610752766105409805031163798478713856043650713473672865683921955534352498648537143084329444751272428732611680456059019761702680048306017952053232330870637829012573773744064674785536649365556065913998198956602251346700657446083790684299 32107045069827047573582128955073746363908829337141888742719551720701643283627282627411989317777815951814589482651643219011327214670201995427800860351779359995681973791814041667591863470307980264998783286163010740336902309000565006986998147848003432163933590884416391657082262525376904226116117807660005159392974033938156470378767488343477557573449751237152701634374025885695578987197570845074949551557115857072618571312272952867674504473915879708311147486012429805024340792818251914274136154189223461438725160481146359952540400515693531294323978055300442245328254265088025744646417736370518485590196457409226155672429164381168667146494614150972532997720191994831563549613071421669278906439327901337648676848256307107141750331967447592620149539192739678584622180833549568296086765513761152459045105742762497163056830261012492637267908713041691578266244057994851155131308329195003026775339920129692578721623900756863391336708578476032 1548 c1_gen_2_12_s1536).trans (by rfl))

theorem c1_gen_2_12_s2560 : genTwin 2 2048 2560 0 1 0 12 = (1795, 1044388881413152506691752710716624382579964249047383780384233483283953907971557456848826811934997558340890106714439262837987573438185793607263236087851358656949043538656515010872099438220536430165701150149143853201179941358269395471513551633907816676321505607970997805357274225991274133117567890198843111280605982486220141385824448309262036994230366104424557794025158225824516008969918046443848256168245779006622746934964445987859805157632331872005077898710545350392502863255897988189917027607482788493443599901490034428756959793181944254747729213762937478037312314161237960838032942850921260297117537987609912878465629454005014759617547504634948601271441549634970589734176518042250529415301210385254013383756017353170081204821334172113856033279114048172280336627061969810797607359018432106055347113474889454499047988862079328699198821566770337644896809855183962562512036181757303608249022366850382029178948706835541268119865423155690812570919241160838933200650725454800022476254722870444870640709797152774819141790695932715160227011910075385341602190812538758724062048966967088522721374326408706411341966907723042394134642223919439324939766158494437315837117638842672529488024884602848381745841050924748217356399931461032929220673675, 984361629639904854375790723718512198891610736119900986784228982213018570780615752676926219965334712159211619880034033429081255050933582790717384995618088372708008166360491972892311619574170175434641205942677793190290861463292325003943613854710504108115864024584453356538105180690031924444739552425978657644417023846514431661345547274354066601524467924927000712105404056455826560416002509535862850384174254620221034829451164013063219824078621384709041985100677625295213847260837337159613026497983335923345077432763396714447281084890721601052947528232448739868006588836180493412448328833443987802699437927944753453405629403552792418654788200704319262933128010483172106494233262261620515275758745488086449573672770348398319079848614200366507508279639727110187925654532742539703253190510945025902344514067143414471432048932068490641999495974297478481211607821196095031493427346360865882067949796384493264566516361156919534583822968173009679931766301898531718493979422303764073753504017900112619351885982270515876264461511084830984212645273256079936927705060938306672115203200573391112015718603425844444729209568219477224268101263444829509358206582903909617047430590990698017648384308193675987427003978763333383158168593796573999628677208008830326496662190797045938546624634401262613518055510100794797963018833887453978016399478044314349839498633360973313202281781854172268031539457226082948771377638842197061812815532559575412897340603942517034135644561025335280134191819128292098422512765363662742723411373321305184933049961419244802003884647901036544, 2572) :=
  (congrArg (fun m => genTwin 2 2048 m 0 1 0 12)
      (by norm_num : (2560 : Nat) = 512 + 2048)).trans
    ((genTwin_chunk 2 2048 512 2048 0 1 0 12 462 1044388881413152506691752710716624382579964249047383780384233483283953907971557456848826811934997558340890106714439262835931624912516695097589483220719430216552058790968786993330297955323235549270099917125635960892153084821332205909563823606312591024182171446286800519233205271360390132375482523710463038853696568978114786160435884515286500790832481837842584632155534381080988741177922278084040718712119966174523789298858957671974858091119685805802138257289948261250345617804493831525907101077957898041065568330995020169517720079635397769427884780200649033108247483618682480355838532431182462552721555625329623120724795086692680924205013880063930621022313987729738536109815415788925308487002213921479431367794617192711337173872718964576928504146820757188804856953205948182729645278418573837711733550365620493049589345870328016649113071658851898125164523395106045111314085688959999728529833472402182374636648828563314999864349456056840287493296075645321433877050190698442686859517022712898433025103761504181367625460615641187485824046982088194280313404236193963697614866128464460311649021167749745357545106603840394782067917120294255666124999829014426670292234030041630663991393615757537182730377878522391381988502652162365043865862283 1438750124138583553332365800784117226857119056614880538383485633908354278790403868990133071119244337185759396311938383624668002643163893488627672863137200877027059446647073408909688788316147285494392047945594072983783053738733114395234573941213133289115224924903858862981269687424405476651038732872441141316754915496220338662580236601822859385099731989984926614571929997074159473438940145319225858335600305170006922493466430023771236393729289128557484873661794029058952416873968472681604799254609873530151398257252616770908659417966712426497353382250588161573253368427197758543742896470376566494373226989232404983151580754837741175092215294678065524402408619829320348500597608439211933914712999271767354301690698785020043080181282210499909413239888240045867689665312562292151889699510449531938930103237324874022507468127443124380274667361742544180583673671339485732231616547146028614202695594126313467549949466855788118387113416231282868102875736742225016389015783550707947117530881878566930903443156859478629821018650947577964422757745312267245037857370808749149589661236631192922469695221014844686739355098565059171522793781231020879093462231961274561274712762831464672015104340465282510440438278197948220416944317919899347480061822369792 2060 c1_gen_2_12_s2048).trans (by rfl))

theorem c1_gen_2_12_s3072 : genTwin 2 2048 3072 0 1 0 12 = (842, 1044388881413152506691752710716624382579964249047383780384233483283953907971557456848826811934997558340890106714439262837987573438185793607263236087851365277945956976543709998340361590134383718314428070011855946226376315080468572454094633813244503541898182640729292481772092127281054410084532809355456280683131650879214476909183256028310738904271026752712456097024881295512412938172971581860005565480434798380869235485727417072885402572855210491457293075603313900326426751842094175271696230512227538789075732493848183410852528281486633424829057895922380472563232095359529896370866793960783612245256407106535425555087197123449396842611090913686662686549127668296983142691299299319115406673948156547276167379769290498779624062723551130777262292324611592766474383486574823756525008208736559661688828042117017397901090193201206626263518228218419305770166582587941177756964776594360027572803322529387465289037062432256339841667378485886989895194284815666599398262460240016797886966417007920910408674428211436898687553634397249882141025404974093891901856722774464376148278317375963151236627828818338328421478532239288153409610597768440053979553190258606303837447134950434198557339101603277235775374083560380410320297917887304155622119891147, 37640247841030886394932182549825640252784857615705968313509414060567866303661867803055162003555528018316965391472311218881140939533873399684055640086980840488581242316804568107064815765077383795371850661308119804728298778755734555858107938033287804891680667157333168393888820418447892981457633943470635406105899964837771146218969257816806886031943404655465489397845206772764779029343753674119684486143399634071798761184769105634238491827886416228113605046072873673127898322217229081001393946323419065467203182310666703861650414576498938239288797728555812852231398570091873487246900607359581385044209309094293867307289041567946799951591084032559542162911695916971133560997908621619207206959321623579180271408129481940943154064909910017767944591174571740134466926686425713811232031501115017626413378737915768414663372130150352154129517495055799180892668845255676235415254876509193543659509766315018780529252488688864164172041001464054919726875463621059863397239551293405583845547989030049308811464666813969039174508938494629359421555247726971372017916245321047284127425816525327909436675921034150353016509975927194285175363924577021671663521933104795184021747253384410635943809874365632624422432465238271858734585583904200222996972780000676900978358644432658013530992358900450197514762591741743586167761947021110476065780773597018168779060479463803792054002429333584108234372100525119707413504754520423082743881901274016971605324579844902487096304151947464607453277392819152200588226265535216498229764583163526438253570652186856072454145130538453361154002665220361350830124642210616930655483870751686363116130971273124469942533116598899325245914566105754234812053699144680003783992030328125606547012518387231856771606314321152771394283624495759291796884569073438217595479608418800194205922939777676634140171057710235649803642181673059343610122444767062130688, 3084) :=
  (congrArg (fun m => genTwin 2 2048 m 0 1 0 12)
      (by norm_num : (3072 : Nat) = 512 + 2560)).trans
    ((genTwin_chunk 2 2048 512 2560 0 1 0 12 1795 1044388881413152506691752710716624382579964249047383780384233483283953907971557456848826811934997558340890106714439262837987573438185793607263236087851358656949043538656515010872099438220536430165701150149143853201179941358269395471513551633907816676321505607970997805357274225991274133117567890198843111280605982486220141385824448309262036994230366104424557794025158225824516008969918046443848256168245779006622746934964445987859805157632331872005077898710545350392502863255897988189917027607482788493443599901490034428756959793181944254747729213762937478037312314161237960838032942850921260297117537987609912878465629454005014759617547504634948601271441549634970589734176518042250529415301210385254013383756017353170081204821334172113856033279114048172280336627061969810797607359018432106055347113474889454499047988862079328699198821566770337644896809855183962562512036181757303608249022366850382029178948706835541268119865423155690812570919241160838933200650725454800022476254722870444870640709797152774819141790695932715160227011910075385341602190812538758724062048966967088522721374326408706411341966907723042394134642223919439324939766158494437315837117638842672529488024884602848381745841050924748217356399931461032929220673675 984361629639904854375790723718512198891610736119900986784228982213018570780615752676926219965334712159211619880034033429081255050933582790717384995618088372708008166360491972892311619574170175434641205942677793190290861463292325003943613854710504108115864024584453356538105180690031924444739552425978657644417023846514431661345547274354066601524467924927000712105404056455826560416002509535862850384174254620221034829451164013063219824078621384709041985100677625295213847260837337159613026497983335923345077432763396714447281084890721601052947528232448739868006588836180493412448328833443987802699437927944753453405629403552792418654788200704319262933128010483172106494233262261620515275758745488086449573672770348398319079848614200366507508279639727110187925654532742539703253190510945025902344514067143414471432048932068490641999495974297478481211607821196095031493427346360865882067949796384493264566516361156919534583822968173009679931766301898531718493979422303764073753504017900112619351885982270515876264461511084830984212645273256079936927705060938306672115203200573391112015718603425844444729209568219477224268101263444829509358206582903909617047430590990698017648384308193675987427003978763333383158168593796573999628677208008830326496662190797045938546624634401262613518055510100794797963018833887453978016399478044314349839498633360973313202281781854172268031539457226082948771377638842197061812815532559575412897340603942517034135644561025335280134191819128292098422512765363662742723411373321305184933049961419244802003884647901036544 2572 c1_gen_2_12_s2560).trans (by rfl))

theorem c1_gen_2_12_s3584 : genTwin 2 2048 3584 0 1 0 12 = (2244, 1044388881413152506691752710716624382579964249047383780384233483283953907971557456848826811934997558340890106714439262837987573438185793607263236087851365277945956976543709998340361590134383718314428070011855946226376318839397712745672334684344586617496807908705803704071284048740118609112217441501597425264563358941539017676490790629900464353045078582532524685192197978336054206306687205802564494354018644499191867072048112790230057174043008321879798539641994955167100243780211174289895122976003639804410519787687125602289516316222320104792409961011551734492703935302435979512574064867350285139817674826032919578497388891694427348778118549390594953806487730838180505654633079901625591468056828958588090796114524829382560704998603268775172043335621637342945109819720409736494640768565619225656524004709871640662376766142762467713144928084424934720944775549021128208885243092171072795641589879368027175849318128677942041638185793896878730673280587030495681032187579000232409172423561416731738614932718697042699108407141189437676570431948526785504270096753702945977185354085104878171968019280541372925776634655784981755266421749666244333952857427435523851045237733010695238138315890392743077383014044889253093293058787338088058032550091, 1598328097163337207376044890815742905681141120379849720766941565151648771770761732138917514596351886871817813604251961467547461635346923158269115924309206426832623090413835469086071937218715622048220955087966919992486730191835102937609787730632104365180157203952341638851367461044545414112586727411528518060221375872660000915183996043461755562390091167396611576469411409047886806612389637496688115878363741263434733634946789913013927184770799090897125764391340900824708454416251462670682776507106593747659575294317035940620024978372666632062418003872979392836819433000398583922181238906479459765795194019792816944693305597662014538297632013936974508481349735995539250254428012252280334914735119092567408473686092446604737518952901288171506351152693641930080658755714074820759464070811776348859054351353946981387856301800752869726139660532443836067596755390179966265780750765007290195624616062270089631792999343786240074390926472420671427937163626599223066798183516597180733601546882408404612883674561769306595132424451336181812817789324804433688014498199124303510725430042397245126500411505334543871403896031264195268648559241742590999701590432465359516772526240519466026841815435105409164574327546695534183468193798290790968772349572598925755160071680931072600605134267131528836283184769374797974562170963186888309236663423304969730907081299103522474805988605994047693300931038462006578690963503442582949315933367714391716507770238208501269920955738467729784410092192236127098234222708786120721204312166017516643379694399411183695447666892538124201797591325623860929629570309783125384253836722523467338461269942042751737648619360284279019280738772032509130847906829796140641915767596555017186078020038124791513878428567445000285357151146296183364764557078269863901698726736029079420063891621894118640079839849214106115366904422354762852470403578069175111825293466108328471824535829647365204357532691970742502330829831518110446071909992342862762581389792038725606775704906282964830586677536079610681304122997298662587222287937754449419629591142334942817805999948175792197299899542202909702338423783065084642250941434483748794538164799092596012858349356264479260672, 3596) :=
  (congrArg (fun m => genTwin 2 2048 m 0 1 0 12)
      (by norm_num : (3584 : Nat) = 512 + 3072)).trans
    ((genTwin_chunk 2 2048 512 3072 0 1 0 12 842 1044388881413152506691752710716624382579964249047383780384233483283953907971557456848826811934997558340890106714439262837987573438185793607263236087851365277945956976543709998340361590134383718314428070011855946226376315080468572454094633813244503541898182640729292481772092127281054410084532809355456280683131650879214476909183256028310738904271026752712456097024881295512412938172971581860005565480434798380869235485727417072885402572855210491457293075603313900326426751842094175271696230512227538789075732493848183410852528281486633424829057895922380472563232095359529896370866793960783612245256407106535425555087197123449396842611090913686662686549127668296983142691299299319115406673948156547276167379769290498779624062723551130777262292324611592766474383486574823756525008208736559661688828042117017397901090193201206626263518228218419305770166582587941177756964776594360027572803322529387465289037062432256339841667378485886989895194284815666599398262460240016797886966417007920910408674428211436898687553634397249882141025404974093891901856722774464376148278317375963151236627828818338328421478532239288153409610597768440053979553190258606303837447134950434198557339101603277235775374083560380410320297917887304155622119891147 37640247841030886394932182549825640252784857615705968313509414060567866303661867803055162003555528018316965391472311218881140939533873399684055640086980840488581242316804568107064815765077383795371850661308119804728298778755734555858107938033287804891680667157333168393888820418447892981457633943470635406105899964837771146218969257816806886031943404655465489397845206772764779029343753674119684486143399634071798761184769105634238491827886416228113605046072873673127898322217229081001393946323419065467203182310666703861650414576498938239288797728555812852231398570091873487246900607359581385044209309094293867307289041567946799951591084032559542162911695916971133560997908621619207206959321623579180271408129481940943154064909910017767944591174571740134466926686425713811232031501115017626413378737915768414663372130150352154129517495055799180892668845255676235415254876509193543659509766315018780529252488688864164172041001464054919726875463621059863397239551293405583845547989030049308811464666813969039174508938494629359421555247726971372017916245321047284127425816525327909436675921034150353016509975927194285175363924577021671663521933104795184021747253384410635943809874365632624422432465238271858734585583904200222996972780000676900978358644432658013530992358900450197514762591741743586167761947021110476065780773597018168779060479463803792054002429333584108234372100525119707413504754520423082743881901274016971605324579844902487096304151947464607453277392819152200588226265535216498229764583163526438253570652186856072454145130538453361154002665220361350830124642210616930655483870751686363116130971273124469942533116598899325245914566105754234812053699144680003783992030328125606547012518387231856771606314321152771394283624495759291796884569073438217595479608418800194205922939777676634140171057710235649803642181673059343610122444767062130688 3084 c1_gen_2_12_s3072).trans (by rfl))

theorem c1_gen_2_12 : genTwin 2 2048 4084 0 1 0 12 = (65, 1044388881413152506691752710716624382579964249047383780384233483283953907971557456848826811934997558340890106714439262837987573438185793607263236087851365277945956976543709998340361590134383718314428070011855946226376318839397712745672334684344586617496807908705803704071284048740118609114467977783598029006686938976881787785946905630190260940599579453432823469303026696443059025015972399867714215541693835559885291486318237914434496734087811872639496475100189041349008417061675093668333850551032972088269550769983616369411933015213796825837188091833656751221318492846368125550225998300412344784862595674492055816539593274686972912185632610285990940163539895873985172671460637140195366090205838980087223267077581334494767938942262823469623374905800800509962323224846227366283297648910199644018576429517638298059836646929807768764558876539842186833190322947455670737910014043903904729669867880574322022719179873446994912576182620670120530900366860091948143280970886453410324564182660486861339838032160296988958093309679291544592304452848849199621187893339111788723290388387741038032797542373529446672969448069913462098131673979067830721579477880728759278816293156378152956646524088593399773341317700443248671651590046129065383566508031, 272753611955062536683350005473171192293851647702469714378922006906606437731016836147342992696068020621432562466849890026874299532293720512910726944176721468721248545460026445293647997294060281691372005748819150565671483246318006669195314029140537031268637378945840102207874175372697968306927240915038016252505993662262754197867099568362688433885889590208572857035717622467857359974365394274888933658883294299349534954800131633697716514032722192626170926815014060120708593004147967031163044181190242662361923389682735114043221942646220748113196757383272866810895346679513631116612717768661534953300565395283683012657306015255630165759543931964725134268693365893095675304353190066995256623638741356508129257431761403615087767245703403020035657027728562939320685797136856889460568198201999076624083874078209986580782857320731605979256830575437535078690452766304641961875560135129406213712550656497522496021616990033454153300533081143103411659861173367407842809963938841098078759739014305119180816927682854267910656473031971774624795551584400352497839425430168466288704422637077962397724315240130140182851066238251693905221100374466768430124541390335636343743131636362200203874147688127019107833501369023458135611522029280384641537070356614181640206729082194335997858100558840486233777755251387148730638619845977947496559373671605154634563631329932828291517619031616708400195637325139403011616950039383642212520308518960004794213479726024036297105494291277467506895465874462832921912835514698708982919083516321360958026360127372897585976631740321299185120746749761653191856581624867518132517830581457734281094303098230556288638752086449691411848362001600372626077258378700803270824652101960931720472474469339125326816165186859085622352255517577807462302202615046550940107373009614090280223474191161869071066358129918226162174773275600396374248714599666950826548414310297791066293030224053519698212977645623358606790453148969631327975962483727508454108980569216936634565582027060740954675703835721283990914734620461335815506422637324356008961854445934164841637689629923580353717687503033631767452957942921169262738422022081454303657979648207085360215492175139179456660808466597205254665670150742217253933847281256328964469707757088831048170694472267193244234448858624193247146349975042162239353089172355392773772185245500786639364806461939568449756331233007645108737409453029634847647728106589908163459598290194442684770554054390029607259278010921292238657662318804992000, 4096) :=
  (congrArg (fun m => genTwin 2 2048 m 0 1 0 12)
      (by norm_num : (4084 : Nat) = 500 + 3584)).trans
    ((genTwin_chunk 2 2048 500 3584 0 1 0 12 2244 1044388881413152506691752710716624382579964249047383780384233483283953907971557456848826811934997558340890106714439262837987573438185793607263236087851365277945956976543709998340361590134383718314428070011855946226376318839397712745672334684344586617496807908705803704071284048740118609112217441501597425264563358941539017676490790629900464353045078582532524685192197978336054206306687205802564494354018644499191867072048112790230057174043008321879798539641994955167100243780211174289895122976003639804410519787687125602289516316222320104792409961011551734492703935302435979512574064867350285139817674826032919578497388891694427348778118549390594953806487730838180505654633079901625591468056828958588090796114524829382560704998603268775172043335621637342945109819720409736494640768565619225656524004709871640662376766142762467713144928084424934720944775549021128208885243092171072795641589879368027175849318128677942041638185793896878730673280587030495681032187579000232409172423561416731738614932718697042699108407141189437676570431948526785504270096753702945977185354085104878171968019280541372925776634655784981755266421749666244333952857427435523851045237733010695238138315890392743077383014044889253093293058787338088058032550091 1598328097163337207376044890815742905681141120379849720766941565151648771770761732138917514596351886871817813604251961467547461635346923158269115924309206426832623090413835469086071937218715622048220955087966919992486730191835102937609787730632104365180157203952341638851367461044545414112586727411528518060221375872660000915183996043461755562390091167396611576469411409047886806612389637496688115878363741263434733634946789913013927184770799090897125764391340900824708454416251462670682776507106593747659575294317035940620024978372666632062418003872979392836819433000398583922181238906479459765795194019792816944693305597662014538297632013936974508481349735995539250254428012252280334914735119092567408473686092446604737518952901288171506351152693641930080658755714074820759464070811776348859054351353946981387856301800752869726139660532443836067596755390179966265780750765007290195624616062270089631792999343786240074390926472420671427937163626599223066798183516597180733601546882408404612883674561769306595132424451336181812817789324804433688014498199124303510725430042397245126500411505334543871403896031264195268648559241742590999701590432465359516772526240519466026841815435105409164574327546695534183468193798290790968772349572598925755160071680931072600605134267131528836283184769374797974562170963186888309236663423304969730907081299103522474805988605994047693300931038462006578690963503442582949315933367714391716507770238208501269920955738467729784410092192236127098234222708786120721204312166017516643379694399411183695447666892538124201797591325623860929629570309783125384253836722523467338461269942042751737648619360284279019280738772032509130847906829796140641915767596555017186078020038124791513878428567445000285357151146296183364764557078269863901698726736029079420063891621894118640079839849214106115366904422354762852470403578069175111825293466108328471824535829647365204357532691970742502330829831518110446071909992342862762581389792038725606775704906282964830586677536079610681304122997298662587222287937754449419629591142334942817805999948175792197299899542202909702338423783065084642250941434483748794538164799092596012858349356264479260672 3596 c1_gen_2_12_s3584).trans (by rfl))

theorem c1_cons_2_12_s512 : consTwin 2 12 4096 2048 272753611955062536683350005473171192293851647702469714378922006906606437731016836147342992696068020621432562466849890026874299532293720512910726944176721468721248545460026445293647997294060281691372005748819150565671483246318006669195314029140537031268637378945840102207874175372697968306927240915038016252505993662262754197867099568362688433885889590208572857035717622467857359974365394274888933658883294299349534954800131633697716514032722192626170926815014060120708593004147967031163044181190242662361923389682735114043221942646220748113196757383272866810895346679513631116612717768661534953300565395283683012657306015255630165759543931964725134268693365893095675304353190066995256623638741356508129257431761403615087767245703403020035657027728562939320685797136856889460568198201999076624083874078209986580782857320731605979256830575437535078690452766304641961875560135129406213712550656497522496021616990033454153300533081143103411659861173367407842809963938841098078759739014305119180816927682854267910656473031971774624795551584400352497839425430168466288704422637077962397724315240130140182851066238251693905221100374466768430124541390335636343743131636362200203874147688127019107833501369023458135611522029280384641537070356614181640206729082194335997858100558840486233777755251387148730638619845977947496559373671605154634563631329932828291517619031616708400195637325139403011616950039383642212520308518960004794213479726024036297105494291277467506895465874462832921912835514698708982919083516321360958026360127372897585976631740321299185120746749761653191856581624867518132517830581457734281094303098230556288638752086449691411848362001600372626077258378700803270824652101960931720472474469339125326816165186859085622352255517577807462302202615046550940107373009614090280223474191161869071066358129918226162174773275600396374248714599666950826548414310297791066293030224053519698212977645623358606790453148969631327975962483727508454108980569216936634565582027060740954675703835721283990914734620461335815506422637324356008961854445934164841637689629923580353717687503033631767452957942921169262738422022081454303657979648207085360215492175139179456660808466597205254665670150742217253933847281256328964469707757088831048170694472267193244234448858624193247146349975042162239353089172355392773772185245500786639364806461939568449756331233007645108737409453029634847647728106589908163459598290194442684770554054390029607259278010921292238657662318804992000 512 0 0 0 0 = (512, 3929, 1044388881413152506691752692718744493603588418064459814668634867206395528807133330982328586262841950646007421437481169867239377780468283529559941981336414256131001364383232346054245883929541276128001848197905922367474538594252067800045678803810099417826553983498201558721227399338630809244086235943097628203115047415361288352746364844745373670199205892951358729476221315257057553209613036766280243997768910820565692079722422194114008734190609971985019771925906522758029614352885006730641788192921810148751540876007572144206473429834504794592062711011029401668679603392469785292000003595116195073880794139411348355781356220785895082160077748796283767946550240608683537068283194432999693854043926659555281611244052085688160060799475989788954869628376648318441787505792743019300472805110897614413130299080711664204227254493599954941336967729739810340585260462926104114889605025110239707823195861350729539266831637749835747313186861703366538016540131689537564471246171743088054810396457403246638473926373878762559225374661981351742438982305584986910521268753478385551289265707097105311187023623636258917849860254035754891309267422231760552622974244465505819607310614571751306251766271727932383431620379292146282338437734808663979724931211, 501) := by rfl

theorem c1_cons_2_12_s1024 : consTwin 2 12 4096 2048 272753611955062536683350005473171192293851647702469714378922006906606437731016836147342992696068020621432562466849890026874299532293720512910726944176721468721248545460026445293647997294060281691372005748819150565671483246318006669195314029140537031268637378945840102207874175372697968306927240915038016252505993662262754197867099568362688433885889590208572857035717622467857359974365394274888933658883294299349534954800131633697716514032722192626170926815014060120708593004147967031163044181190242662361923389682735114043221942646220748113196757383272866810895346679513631116612717768661534953300565395283683012657306015255630165759543931964725134268693365893095675304353190066995256623638741356508129257431761403615087767245703403020035657027728562939320685797136856889460568198201999076624083874078209986580782857320731605979256830575437535078690452766304641961875560135129406213712550656497522496021616990033454153300533081143103411659861173367407842809963938841098078759739014305119180816927682854267910656473031971774624795551584400352497839425430168466288704422637077962397724315240130140182851066238251693905221100374466768430124541390335636343743131636362200203874147688127019107833501369023458135611522029280384641537070356614181640206729082194335997858100558840486233777755251387148730638619845977947496559373671605154634563631329932828291517619031616708400195637325139403011616950039383642212520308518960004794213479726024036297105494291277467506895465874462832921912835514698708982919083516321360958026360127372897585976631740321299185120746749761653191856581624867518132517830581457734281094303098230556288638752086449691411848362001600372626077258378700803270824652101960931720472474469339125326816165186859085622352255517577807462302202615046550940107373009614090280223474191161869071066358129918226162174773275600396374248714599666950826548414310297791066293030224053519698212977645623358606790453148969631327975962483727508454108980569216936634565582027060740954675703835721283990914734620461335815506422637324356008961854445934164841637689629923580353717687503033631767452957942921169262738422022081454303657979648207085360215492175139179456660808466597205254665670150742217253933847281256328964469707757088831048170694472267193244234448858624193247146349975042162239353089172355392773772185245500786639364806461939568449756331233007645108737409453029634847647728106589908163459598290194442684770554054390029607259278010921292238657662318804992000 1024 0 0 0 0 = (1024, 1514, 1044388881413152506691752710716624382579964249047383765845703485482726150656199138463359223115961373490400782193834257070163195891979019338569841297834461084559232466667946539555648057227480489292496926511767634578001257485279514546184003451084104666829874948309467241411448794436026623489479549572983833077766271017425068429442231345718553446681606538297722333438730925940187265811433847711716976868605718675747275661721485129289741969896112202822557517079515116388734197121960625996170899252019423432611193997688856372802578728335650565894457832962334147015006692178530195885336377605671468527209351593710112679873594803316404282991124613936861691042162755036687766934292029689227934959640663788003498159654751935417979900784260756206238094719628277234516401295099651476754077975724714741362211194228084153688112462572301004346587513707017295495142262150747928195088897072913075248820115196629449203138918995998444610802786499743696348812167808346136492890467496613242806992583590705230351614761559016381606903952069947211799035859433249843814961786695464498518363306986035007222236132391110858009584268001958376187728975539273372660443908045749736573058178928921264887625719791004781390238685278838398155501086261734328246351200395, 1013) :=
  (congrArg (fun m => consTwin 2 12 4096 2048 272753611955062536683350005473171192293851647702469714378922006906606437731016836147342992696068020621432562466849890026874299532293720512910726944176721468721248545460026445293647997294060281691372005748819150565671483246318006669195314029140537031268637378945840102207874175372697968306927240915038016252505993662262754197867099568362688433885889590208572857035717622467857359974365394274888933658883294299349534954800131633697716514032722192626170926815014060120708593004147967031163044181190242662361923389682735114043221942646220748113196757383272866810895346679513631116612717768661534953300565395283683012657306015255630165759543931964725134268693365893095675304353190066995256623638741356508129257431761403615087767245703403020035657027728562939320685797136856889460568198201999076624083874078209986580782857320731605979256830575437535078690452766304641961875560135129406213712550656497522496021616990033454153300533081143103411659861173367407842809963938841098078759739014305119180816927682854267910656473031971774624795551584400352497839425430168466288704422637077962397724315240130140182851066238251693905221100374466768430124541390335636343743131636362200203874147688127019107833501369023458135611522029280384641537070356614181640206729082194335997858100558840486233777755251387148730638619845977947496559373671605154634563631329932828291517619031616708400195637325139403011616950039383642212520308518960004794213479726024036297105494291277467506895465874462832921912835514698708982919083516321360958026360127372897585976631740321299185120746749761653191856581624867518132517830581457734281094303098230556288638752086449691411848362001600372626077258378700803270824652101960931720472474469339125326816165186859085622352255517577807462302202615046550940107373009614090280223474191161869071066358129918226162174773275600396374248714599666950826548414310297791066293030224053519698212977645623358606790453148969631327975962483727508454108980569216936634565582027060740954675703835721283990914734620461335815506422637324356008961854445934164841637689629923580353717687503033631767452957942921169262738422022081454303657979648207085360215492175139179456660808466597205254665670150742217253933847281256328964469707757088831048170694472267193244234448858624193247146349975042162239353089172355392773772185245500786639364806461939568449756331233007645108737409453029634847647728106589908163459598290194442684770554054390029607259278010921292238657662318804992000 m 0 0 0 0)
      (by norm_num : (1024 : Nat) = 512 + 512)).trans
    ((consTwin_chunk 2 12 4096 2048 272753611955062536683350005473171192293851647702469714378922006906606437731016836147342992696068020621432562466849890026874299532293720512910726944176721468721248545460026445293647997294060281691372005748819150565671483246318006669195314029140537031268637378945840102207874175372697968306927240915038016252505993662262754197867099568362688433885889590208572857035717622467857359974365394274888933658883294299349534954800131633697716514032722192626170926815014060120708593004147967031163044181190242662361923389682735114043221942646220748113196757383272866810895346679513631116612717768661534953300565395283683012657306015255630165759543931964725134268693365893095675304353190066995256623638741356508129257431761403615087767245703403020035657027728562939320685797136856889460568198201999076624083874078209986580782857320731605979256830575437535078690452766304641961875560135129406213712550656497522496021616990033454153300533081143103411659861173367407842809963938841098078759739014305119180816927682854267910656473031971774624795551584400352497839425430168466288704422637077962397724315240130140182851066238251693905221100374466768430124541390335636343743131636362200203874147688127019107833501369023458135611522029280384641537070356614181640206729082194335997858100558840486233777755251387148730638619845977947496559373671605154634563631329932828291517619031616708400195637325139403011616950039383642212520308518960004794213479726024036297105494291277467506895465874462832921912835514698708982919083516321360958026360127372897585976631740321299185120746749761653191856581624867518132517830581457734281094303098230556288638752086449691411848362001600372626077258378700803270824652101960931720472474469339125326816165186859085622352255517577807462302202615046550940107373009614090280223474191161869071066358129918226162174773275600396374248714599666950826548414310297791066293030224053519698212977645623358606790453148969631327975962483727508454108980569216936634565582027060740954675703835721283990914734620461335815506422637324356008961854445934164841637689629923580353717687503033631767452957942921169262738422022081454303657979648207085360215492175139179456660808466597205254665670150742217253933847281256328964469707757088831048170694472267193244234448858624193247146349975042162239353089172355392773772185245500786639364806461939568449756331233007645108737409453029634847647728106589908163459598290194442684770554054390029607259278010921292238657662318804992000 512 512 0 0 0 0 512 3929 1044388881413152506691752692718744493603588418064459814668634867206395528807133330982328586262841950646007421437481169867239377780468283529559941981336414256131001364383232346054245883929541276128001848197905922367474538594252067800045678803810099417826553983498201558721227399338630809244086235943097628203115047415361288352746364844745373670199205892951358729476221315257057553209613036766280243997768910820565692079722422194114008734190609971985019771925906522758029614352885006730641788192921810148751540876007572144206473429834504794592062711011029401668679603392469785292000003595116195073880794139411348355781356220785895082160077748796283767946550240608683537068283194432999693854043926659555281611244052085688160060799475989788954869628376648318441787505792743019300472805110897614413130299080711664204227254493599954941336967729739810340585260462926104114889605025110239707823195861350729539266831637749835747313186861703366538016540131689537564471246171743088054810396457403246638473926373878762559225374661981351742438982305584986910521268753478385551289265707097105311187023623636258917849860254035754891309267422231760552622974244465505819607310614571751306251766271727932383431620379292146282338437734808663979724931211 501 c1_cons_2_12_s512).trans (by rfl))

theorem c1_cons_2_12_s1536 : consTwin 2 12 4096 2048 272753611955062536683350005473171192293851647702469714378922006906606437731016836147342992696068020621432562466849890026874299532293720512910726944176721468721248545460026445293647997294060281691372005748819150565671483246318006669195314029140537031268637378945840102207874175372697968306927240915038016252505993662262754197867099568362688433885889590208572857035717622467857359974365394274888933658883294299349534954800131633697716514032722192626170926815014060120708593004147967031163044181190242662361923389682735114043221942646220748113196757383272866810895346679513631116612717768661534953300565395283683012657306015255630165759543931964725134268693365893095675304353190066995256623638741356508129257431761403615087767245703403020035657027728562939320685797136856889460568198201999076624083874078209986580782857320731605979256830575437535078690452766304641961875560135129406213712550656497522496021616990033454153300533081143103411659861173367407842809963938841098078759739014305119180816927682854267910656473031971774624795551584400352497839425430168466288704422637077962397724315240130140182851066238251693905221100374466768430124541390335636343743131636362200203874147688127019107833501369023458135611522029280384641537070356614181640206729082194335997858100558840486233777755251387148730638619845977947496559373671605154634563631329932828291517619031616708400195637325139403011616950039383642212520308518960004794213479726024036297105494291277467506895465874462832921912835514698708982919083516321360958026360127372897585976631740321299185120746749761653191856581624867518132517830581457734281094303098230556288638752086449691411848362001600372626077258378700803270824652101960931720472474469339125326816165186859085622352255517577807462302202615046550940107373009614090280223474191161869071066358129918226162174773275600396374248714599666950826548414310297791066293030224053519698212977645623358606790453148969631327975962483727508454108980569216936634565582027060740954675703835721283990914734620461335815506422637324356008961854445934164841637689629923580353717687503033631767452957942921169262738422022081454303657979648207085360215492175139179456660808466597205254665670150742217253933847281256328964469707757088831048170694472267193244234448858624193247146349975042162239353089172355392773772185245500786639364806461939568449756331233007645108737409453029634847647728106589908163459598290194442684770554054390029607259278010921292238657662318804992000 1536 0 0 0 0 = (1536, 887, 1044388881413152506691752710716624382579964249047383780384233483283953907971557456848782536515470983563832220378380192904616516827063226019466734654647460694866606964153513373430684749989617684578587797566204733285342429783764570400757980893523171231631994023923934970796827632327968455396933753630474872399024759505617959892494971789606429968289404398721187886415180222241341276636180079147566635522559912278131640504868394049028623196871501244845837498838492772697515157131252117782717351584526642921994673030235919591500132921659213543373994178337289325964461107333973599431365615542107683267086045641952384782279277186438446484676422734285137312339496474801522153760182099191191496901308752890826807235326151779605977453296979735125573332072819982449332634289626510521856364715474633398439753962769805903868489715559555327638236642925761844811775162246367098902223219840033610167394348202554994616576104021038099555854817902427416798683258095843852791521929154787269848303819759298988477663314563377782078816889814970911623008667451809469482451828929946042966245156787096825572828411257976289025473335683325277676101751304169171672713701443724305349690066631509974128938232882721208413152562093652059084108454482525492161089159307, 1525) :=
  (congrArg (fun m => consTwin 2 12 4096 2048 272753611955062536683350005473171192293851647702469714378922006906606437731016836147342992696068020621432562466849890026874299532293720512910726944176721468721248545460026445293647997294060281691372005748819150565671483246318006669195314029140537031268637378945840102207874175372697968306927240915038016252505993662262754197867099568362688433885889590208572857035717622467857359974365394274888933658883294299349534954800131633697716514032722192626170926815014060120708593004147967031163044181190242662361923389682735114043221942646220748113196757383272866810895346679513631116612717768661534953300565395283683012657306015255630165759543931964725134268693365893095675304353190066995256623638741356508129257431761403615087767245703403020035657027728562939320685797136856889460568198201999076624083874078209986580782857320731605979256830575437535078690452766304641961875560135129406213712550656497522496021616990033454153300533081143103411659861173367407842809963938841098078759739014305119180816927682854267910656473031971774624795551584400352497839425430168466288704422637077962397724315240130140182851066238251693905221100374466768430124541390335636343743131636362200203874147688127019107833501369023458135611522029280384641537070356614181640206729082194335997858100558840486233777755251387148730638619845977947496559373671605154634563631329932828291517619031616708400195637325139403011616950039383642212520308518960004794213479726024036297105494291277467506895465874462832921912835514698708982919083516321360958026360127372897585976631740321299185120746749761653191856581624867518132517830581457734281094303098230556288638752086449691411848362001600372626077258378700803270824652101960931720472474469339125326816165186859085622352255517577807462302202615046550940107373009614090280223474191161869071066358129918226162174773275600396374248714599666950826548414310297791066293030224053519698212977645623358606790453148969631327975962483727508454108980569216936634565582027060740954675703835721283990914734620461335815506422637324356008961854445934164841637689629923580353717687503033631767452957942921169262738422022081454303657979648207085360215492175139179456660808466597205254665670150742217253933847281256328964469707757088831048170694472267193244234448858624193247146349975042162239353089172355392773772185245500786639364806461939568449756331233007645108737409453029634847647728106589908163459598290194442684770554054390029607259278010921292238657662318804992000 m 0 0 0 0)
      (by norm_num : (1536 : Nat) = 512 + 1024)).trans
    ((consTwin_chunk 2 12 4096 2048 272753611955062536683350005473171192293851647702469714378922006906606437731016836147342992696068020621432562466849890026874299532293720512910726944176721468721248545460026445293647997294060281691372005748819150565671483246318006669195314029140537031268637378945840102207874175372697968306927240915038016252505993662262754197867099568362688433885889590208572857035717622467857359974365394274888933658883294299349534954800131633697716514032722192626170926815014060120708593004147967031163044181190242662361923389682735114043221942646220748113196757383272866810895346679513631116612717768661534953300565395283683012657306015255630165759543931964725134268693365893095675304353190066995256623638741356508129257431761403615087767245703403020035657027728562939320685797136856889460568198201999076624083874078209986580782857320731605979256830575437535078690452766304641961875560135129406213712550656497522496021616990033454153300533081143103411659861173367407842809963938841098078759739014305119180816927682854267910656473031971774624795551584400352497839425430168466288704422637077962397724315240130140182851066238251693905221100374466768430124541390335636343743131636362200203874147688127019107833501369023458135611522029280384641537070356614181640206729082194335997858100558840486233777755251387148730638619845977947496559373671605154634563631329932828291517619031616708400195637325139403011616950039383642212520308518960004794213479726024036297105494291277467506895465874462832921912835514698708982919083516321360958026360127372897585976631740321299185120746749761653191856581624867518132517830581457734281094303098230556288638752086449691411848362001600372626077258378700803270824652101960931720472474469339125326816165186859085622352255517577807462302202615046550940107373009614090280223474191161869071066358129918226162174773275600396374248714599666950826548414310297791066293030224053519698212977645623358606790453148969631327975962483727508454108980569216936634565582027060740954675703835721283990914734620461335815506422637324356008961854445934164841637689629923580353717687503033631767452957942921169262738422022081454303657979648207085360215492175139179456660808466597205254665670150742217253933847281256328964469707757088831048170694472267193244234448858624193247146349975042162239353089172355392773772185245500786639364806461939568449756331233007645108737409453029634847647728106589908163459598290194442684770554054390029607259278010921292238657662318804992000 512 1024 0 0 0 0 1024 1514 1044388881413152506691752710716624382579964249047383765845703485482726150656199138463359223115961373490400782193834257070163195891979019338569841297834461084559232466667946539555648057227480489292496926511767634578001257485279514546184003451084104666829874948309467241411448794436026623489479549572983833077766271017425068429442231345718553446681606538297722333438730925940187265811433847711716976868605718675747275661721485129289741969896112202822557517079515116388734197121960625996170899252019423432611193997688856372802578728335650565894457832962334147015006692178530195885336377605671468527209351593710112679873594803316404282991124613936861691042162755036687766934292029689227934959640663788003498159654751935417979900784260756206238094719628277234516401295099651476754077975724714741362211194228084153688112462572301004346587513707017295495142262150747928195088897072913075248820115196629449203138918995998444610802786499743696348812167808346136492890467496613242806992583590705230351614761559016381606903952069947211799035859433249843814961786695464498518363306986035007222236132391110858009584268001958376187728975539273372660443908045749736573058178928921264887625719791004781390238685278838398155501086261734328246351200395 1013 c1_cons_2_12_s1024).trans (by rfl))

theorem c1_cons_2_12_s2048 : consTwin 2 12 4096 2048 272753611955062536683350005473171192293851647702469714378922006906606437731016836147342992696068020621432562466849890026874299532293720512910726944176721468721248545460026445293647997294060281691372005748819150565671483246318006669195314029140537031268637378945840102207874175372697968306927240915038016252505993662262754197867099568362688433885889590208572857035717622467857359974365394274888933658883294299349534954800131633697716514032722192626170926815014060120708593004147967031163044181190242662361923389682735114043221942646220748113196757383272866810895346679513631116612717768661534953300565395283683012657306015255630165759543931964725134268693365893095675304353190066995256623638741356508129257431761403615087767245703403020035657027728562939320685797136856889460568198201999076624083874078209986580782857320731605979256830575437535078690452766304641961875560135129406213712550656497522496021616990033454153300533081143103411659861173367407842809963938841098078759739014305119180816927682854267910656473031971774624795551584400352497839425430168466288704422637077962397724315240130140182851066238251693905221100374466768430124541390335636343743131636362200203874147688127019107833501369023458135611522029280384641537070356614181640206729082194335997858100558840486233777755251387148730638619845977947496559373671605154634563631329932828291517619031616708400195637325139403011616950039383642212520308518960004794213479726024036297105494291277467506895465874462832921912835514698708982919083516321360958026360127372897585976631740321299185120746749761653191856581624867518132517830581457734281094303098230556288638752086449691411848362001600372626077258378700803270824652101960931720472474469339125326816165186859085622352255517577807462302202615046550940107373009614090280223474191161869071066358129918226162174773275600396374248714599666950826548414310297791066293030224053519698212977645623358606790453148969631327975962483727508454108980569216936634565582027060740954675703835721283990914734620461335815506422637324356008961854445934164841637689629923580353717687503033631767452957942921169262738422022081454303657979648207085360215492175139179456660808466597205254665670150742217253933847281256328964469707757088831048170694472267193244234448858624193247146349975042162239353089172355392773772185245500786639364806461939568449756331233007645108737409453029634847647728106589908163459598290194442684770554054390029607259278010921292238657662318804992000 2048 0 0 0 0 = (2048, 1488, 1044388881413152506691752710716624382579964249047383780384233483283953907971557456848826811934997558340890106714439236329949259255197015012483508748412947864500788923953923748768017308071227593297020143825571187583861602977958415759411354504871356303879322851034221160833145867011051508324423257917133963057218818455949772643450904281381168363229056108783352213577290827746870585436503563447550660368278494881105508356083665985220381155452768574199012018543859279095816215592318394623996528378019932867942345779894989380307702035496200049739016705030971357088039208582551387138655146070908851147284812425747320197409595762544591662122134550661782602145399139410966937472742079284465842965231243285836827487594855447981787464484913307640040835556306980069417618986301426256782305723790683030150892927156978215410130503039139443687411989142240394754677207525194410419869590091633066159056665258182968861747670187565946075330925363618562761174588535201784160305312376044744711884444154962210782014336390464526393605943985014123921086644750104273875405558679792239551567246479734578457626266388704377527662530020007955989749803920357428765814150393623701300430013789309273706371273187646643804397310859205439873784709895545819644406317195, 2037) :=
  (congrArg (fun m => consTwin 2 12 4096 2048 272753611955062536683350005473171192293851647702469714378922006906606437731016836147342992696068020621432562466849890026874299532293720512910726944176721468721248545460026445293647997294060281691372005748819150565671483246318006669195314029140537031268637378945840102207874175372697968306927240915038016252505993662262754197867099568362688433885889590208572857035717622467857359974365394274888933658883294299349534954800131633697716514032722192626170926815014060120708593004147967031163044181190242662361923389682735114043221942646220748113196757383272866810895346679513631116612717768661534953300565395283683012657306015255630165759543931964725134268693365893095675304353190066995256623638741356508129257431761403615087767245703403020035657027728562939320685797136856889460568198201999076624083874078209986580782857320731605979256830575437535078690452766304641961875560135129406213712550656497522496021616990033454153300533081143103411659861173367407842809963938841098078759739014305119180816927682854267910656473031971774624795551584400352497839425430168466288704422637077962397724315240130140182851066238251693905221100374466768430124541390335636343743131636362200203874147688127019107833501369023458135611522029280384641537070356614181640206729082194335997858100558840486233777755251387148730638619845977947496559373671605154634563631329932828291517619031616708400195637325139403011616950039383642212520308518960004794213479726024036297105494291277467506895465874462832921912835514698708982919083516321360958026360127372897585976631740321299185120746749761653191856581624867518132517830581457734281094303098230556288638752086449691411848362001600372626077258378700803270824652101960931720472474469339125326816165186859085622352255517577807462302202615046550940107373009614090280223474191161869071066358129918226162174773275600396374248714599666950826548414310297791066293030224053519698212977645623358606790453148969631327975962483727508454108980569216936634565582027060740954675703835721283990914734620461335815506422637324356008961854445934164841637689629923580353717687503033631767452957942921169262738422022081454303657979648207085360215492175139179456660808466597205254665670150742217253933847281256328964469707757088831048170694472267193244234448858624193247146349975042162239353089172355392773772185245500786639364806461939568449756331233007645108737409453029634847647728106589908163459598290194442684770554054390029607259278010921292238657662318804992000 m 0 0 0 0)
      (by norm_num : (2048 : Nat) = 512 + 1536)).trans
    ((consTwin_chunk 2 12 4096 2048 272753611955062536683350005473171192293851647702469714378922006906606437731016836147342992696068020621432562466849890026874299532293720512910726944176721468721248545460026445293647997294060281691372005748819150565671483246318006669195314029140537031268637378945840102207874175372697968306927240915038016252505993662262754197867099568362688433885889590208572857035717622467857359974365394274888933658883294299349534954800131633697716514032722192626170926815014060120708593004147967031163044181190242662361923389682735114043221942646220748113196757383272866810895346679513631116612717768661534953300565395283683012657306015255630165759543931964725134268693365893095675304353190066995256623638741356508129257431761403615087767245703403020035657027728562939320685797136856889460568198201999076624083874078209986580782857320731605979256830575437535078690452766304641961875560135129406213712550656497522496021616990033454153300533081143103411659861173367407842809963938841098078759739014305119180816927682854267910656473031971774624795551584400352497839425430168466288704422637077962397724315240130140182851066238251693905221100374466768430124541390335636343743131636362200203874147688127019107833501369023458135611522029280384641537070356614181640206729082194335997858100558840486233777755251387148730638619845977947496559373671605154634563631329932828291517619031616708400195637325139403011616950039383642212520308518960004794213479726024036297105494291277467506895465874462832921912835514698708982919083516321360958026360127372897585976631740321299185120746749761653191856581624867518132517830581457734281094303098230556288638752086449691411848362001600372626077258378700803270824652101960931720472474469339125326816165186859085622352255517577807462302202615046550940107373009614090280223474191161869071066358129918226162174773275600396374248714599666950826548414310297791066293030224053519698212977645623358606790453148969631327975962483727508454108980569216936634565582027060740954675703835721283990914734620461335815506422637324356008961854445934164841637689629923580353717687503033631767452957942921169262738422022081454303657979648207085360215492175139179456660808466597205254665670150742217253933847281256328964469707757088831048170694472267193244234448858624193247146349975042162239353089172355392773772185245500786639364806461939568449756331233007645108737409453029634847647728106589908163459598290194442684770554054390029607259278010921292238657662318804992000 512 1536 0 0 0 0 1536 887 1044388881413152506691752710716624382579964249047383780384233483283953907971557456848782536515470983563832220378380192904616516827063226019466734654647460694866606964153513373430684749989617684578587797566204733285342429783764570400757980893523171231631994023923934970796827632327968455396933753630474872399024759505617959892494971789606429968289404398721187886415180222241341276636180079147566635522559912278131640504868394049028623196871501244845837498838492772697515157131252117782717351584526642921994673030235919591500132921659213543373994178337289325964461107333973599431365615542107683267086045641952384782279277186438446484676422734285137312339496474801522153760182099191191496901308752890826807235326151779605977453296979735125573332072819982449332634289626510521856364715474633398439753962769805903868489715559555327638236642925761844811775162246367098902223219840033610167394348202554994616576104021038099555854817902427416798683258095843852791521929154787269848303819759298988477663314563377782078816889814970911623008667451809469482451828929946042966245156787096825572828411257976289025473335683325277676101751304169171672713701443724305349690066631509974128938232882721208413152562093652059084108454482525492161089159307 1525 c1_cons_2_12_s1536).trans (by rfl))

theorem c1_cons_2_12_s2560 : consTwin 2 12 4096 2048 272753611955062536683350005473171192293851647702469714378922006906606437731016836147342992696068020621432562466849890026874299532293720512910726944176721468721248545460026445293647997294060281691372005748819150565671483246318006669195314029140537031268637378945840102207874175372697968306927240915038016252505993662262754197867099568362688433885889590208572857035717622467857359974365394274888933658883294299349534954800131633697716514032722192626170926815014060120708593004147967031163044181190242662361923389682735114043221942646220748113196757383272866810895346679513631116612717768661534953300565395283683012657306015255630165759543931964725134268693365893095675304353190066995256623638741356508129257431761403615087767245703403020035657027728562939320685797136856889460568198201999076624083874078209986580782857320731605979256830575437535078690452766304641961875560135129406213712550656497522496021616990033454153300533081143103411659861173367407842809963938841098078759739014305119180816927682854267910656473031971774624795551584400352497839425430168466288704422637077962397724315240130140182851066238251693905221100374466768430124541390335636343743131636362200203874147688127019107833501369023458135611522029280384641537070356614181640206729082194335997858100558840486233777755251387148730638619845977947496559373671605154634563631329932828291517619031616708400195637325139403011616950039383642212520308518960004794213479726024036297105494291277467506895465874462832921912835514698708982919083516321360958026360127372897585976631740321299185120746749761653191856581624867518132517830581457734281094303098230556288638752086449691411848362001600372626077258378700803270824652101960931720472474469339125326816165186859085622352255517577807462302202615046550940107373009614090280223474191161869071066358129918226162174773275600396374248714599666950826548414310297791066293030224053519698212977645623358606790453148969631327975962483727508454108980569216936634565582027060740954675703835721283990914734620461335815506422637324356008961854445934164841637689629923580353717687503033631767452957942921169262738422022081454303657979648207085360215492175139179456660808466597205254665670150742217253933847281256328964469707757088831048170694472267193244234448858624193247146349975042162239353089172355392773772185245500786639364806461939568449756331233007645108737409453029634847647728106589908163459598290194442684770554054390029607259278010921292238657662318804992000 2560 0 0 0 0 = (2560, 1796, 1044388881413152506691752710716624382579964249047383780384233483283953907971557456848826811934997558340890106714439262837987573438185793607263236087851338716064221890431551296642991749619286033013498258345951279433251097815200430669914229821926075998491258141498991564091151347292381765610607698751382225545075627729877189043980093066739917216491395876527526978517319043286840424301194026525815799844028695011374904795236577052145225955191543877668866429851789042763244758310939299306174578235840697757772255678988653415873033016805645149660673865914785199864182190293418145185275493210032388880778043719702781128618314853207848513740918198378729106391515004890381509359432475654402176525279041047432976105721329998529554319337661806375388886186530618354306544216335411550199952198616355672169652482692929181820383121081942741398810978556956223727153042115857043979286212020375622840893832324929848193597119083213918455712693190462859797404444321224255601939527922432072114753326356228575681406899879860417904681782570718228744718426659882684940327302275206197049209364301039671113767525045705023703333380890416526145307738984044211324637623750373886361680669501186691317819027238143521270397638292122196544504538882538464471119085707, 2549) :=
  (congrArg (fun m => consTwin 2 12 4096 2048 272753611955062536683350005473171192293851647702469714378922006906606437731016836147342992696068020621432562466849890026874299532293720512910726944176721468721248545460026445293647997294060281691372005748819150565671483246318006669195314029140537031268637378945840102207874175372697968306927240915038016252505993662262754197867099568362688433885889590208572857035717622467857359974365394274888933658883294299349534954800131633697716514032722192626170926815014060120708593004147967031163044181190242662361923389682735114043221942646220748113196757383272866810895346679513631116612717768661534953300565395283683012657306015255630165759543931964725134268693365893095675304353190066995256623638741356508129257431761403615087767245703403020035657027728562939320685797136856889460568198201999076624083874078209986580782857320731605979256830575437535078690452766304641961875560135129406213712550656497522496021616990033454153300533081143103411659861173367407842809963938841098078759739014305119180816927682854267910656473031971774624795551584400352497839425430168466288704422637077962397724315240130140182851066238251693905221100374466768430124541390335636343743131636362200203874147688127019107833501369023458135611522029280384641537070356614181640206729082194335997858100558840486233777755251387148730638619845977947496559373671605154634563631329932828291517619031616708400195637325139403011616950039383642212520308518960004794213479726024036297105494291277467506895465874462832921912835514698708982919083516321360958026360127372897585976631740321299185120746749761653191856581624867518132517830581457734281094303098230556288638752086449691411848362001600372626077258378700803270824652101960931720472474469339125326816165186859085622352255517577807462302202615046550940107373009614090280223474191161869071066358129918226162174773275600396374248714599666950826548414310297791066293030224053519698212977645623358606790453148969631327975962483727508454108980569216936634565582027060740954675703835721283990914734620461335815506422637324356008961854445934164841637689629923580353717687503033631767452957942921169262738422022081454303657979648207085360215492175139179456660808466597205254665670150742217253933847281256328964469707757088831048170694472267193244234448858624193247146349975042162239353089172355392773772185245500786639364806461939568449756331233007645108737409453029634847647728106589908163459598290194442684770554054390029607259278010921292238657662318804992000 m 0 0 0 0)
      (by norm_num : (2560 : Nat) = 512 + 2048)).trans
    ((consTwin_chunk 2 12 4096 2048 272753611955062536683350005473171192293851647702469714378922006906606437731016836147342992696068020621432562466849890026874299532293720512910726944176721468721248545460026445293647997294060281691372005748819150565671483246318006669195314029140537031268637378945840102207874175372697968306927240915038016252505993662262754197867099568362688433885889590208572857035717622467857359974365394274888933658883294299349534954800131633697716514032722192626170926815014060120708593004147967031163044181190242662361923389682735114043221942646220748113196757383272866810895346679513631116612717768661534953300565395283683012657306015255630165759543931964725134268693365893095675304353190066995256623638741356508129257431761403615087767245703403020035657027728562939320685797136856889460568198201999076624083874078209986580782857320731605979256830575437535078690452766304641961875560135129406213712550656497522496021616990033454153300533081143103411659861173367407842809963938841098078759739014305119180816927682854267910656473031971774624795551584400352497839425430168466288704422637077962397724315240130140182851066238251693905221100374466768430124541390335636343743131636362200203874147688127019107833501369023458135611522029280384641537070356614181640206729082194335997858100558840486233777755251387148730638619845977947496559373671605154634563631329932828291517619031616708400195637325139403011616950039383642212520308518960004794213479726024036297105494291277467506895465874462832921912835514698708982919083516321360958026360127372897585976631740321299185120746749761653191856581624867518132517830581457734281094303098230556288638752086449691411848362001600372626077258378700803270824652101960931720472474469339125326816165186859085622352255517577807462302202615046550940107373009614090280223474191161869071066358129918226162174773275600396374248714599666950826548414310297791066293030224053519698212977645623358606790453148969631327975962483727508454108980569216936634565582027060740954675703835721283990914734620461335815506422637324356008961854445934164841637689629923580353717687503033631767452957942921169262738422022081454303657979648207085360215492175139179456660808466597205254665670150742217253933847281256328964469707757088831048170694472267193244234448858624193247146349975042162239353089172355392773772185245500786639364806461939568449756331233007645108737409453029634847647728106589908163459598290194442684770554054390029607259278010921292238657662318804992000 512 2048 0 0 0 0 2048 1488 1044388881413152506691752710716624382579964249047383780384233483283953907971557456848826811934997558340890106714439236329949259255197015012483508748412947864500788923953923748768017308071227593297020143825571187583861602977958415759411354504871356303879322851034221160833145867011051508324423257917133963057218818455949772643450904281381168363229056108783352213577290827746870585436503563447550660368278494881105508356083665985220381155452768574199012018543859279095816215592318394623996528378019932867942345779894989380307702035496200049739016705030971357088039208582551387138655146070908851147284812425747320197409595762544591662122134550661782602145399139410966937472742079284465842965231243285836827487594855447981787464484913307640040835556306980069417618986301426256782305723790683030150892927156978215410130503039139443687411989142240394754677207525194410419869590091633066159056665258182968861747670187565946075330925363618562761174588535201784160305312376044744711884444154962210782014336390464526393605943985014123921086644750104273875405558679792239551567246479734578457626266388704377527662530020007955989749803920357428765814150393623701300430013789309273706371273187646643804397310859205439873784709895545819644406317195 2037 c1_cons_2_12_s2048).trans (by rfl))

theorem c1_cons_2_12_s3072 : consTwin 2 12 4096 2048 272753611955062536683350005473171192293851647702469714378922006906606437731016836147342992696068020621432562466849890026874299532293720512910726944176721468721248545460026445293647997294060281691372005748819150565671483246318006669195314029140537031268637378945840102207874175372697968306927240915038016252505993662262754197867099568362688433885889590208572857035717622467857359974365394274888933658883294299349534954800131633697716514032722192626170926815014060120708593004147967031163044181190242662361923389682735114043221942646220748113196757383272866810895346679513631116612717768661534953300565395283683012657306015255630165759543931964725134268693365893095675304353190066995256623638741356508129257431761403615087767245703403020035657027728562939320685797136856889460568198201999076624083874078209986580782857320731605979256830575437535078690452766304641961875560135129406213712550656497522496021616990033454153300533081143103411659861173367407842809963938841098078759739014305119180816927682854267910656473031971774624795551584400352497839425430168466288704422637077962397724315240130140182851066238251693905221100374466768430124541390335636343743131636362200203874147688127019107833501369023458135611522029280384641537070356614181640206729082194335997858100558840486233777755251387148730638619845977947496559373671605154634563631329932828291517619031616708400195637325139403011616950039383642212520308518960004794213479726024036297105494291277467506895465874462832921912835514698708982919083516321360958026360127372897585976631740321299185120746749761653191856581624867518132517830581457734281094303098230556288638752086449691411848362001600372626077258378700803270824652101960931720472474469339125326816165186859085622352255517577807462302202615046550940107373009614090280223474191161869071066358129918226162174773275600396374248714599666950826548414310297791066293030224053519698212977645623358606790453148969631327975962483727508454108980569216936634565582027060740954675703835721283990914734620461335815506422637324356008961854445934164841637689629923580353717687503033631767452957942921169262738422022081454303657979648207085360215492175139179456660808466597205254665670150742217253933847281256328964469707757088831048170694472267193244234448858624193247146349975042162239353089172355392773772185245500786639364806461939568449756331233007645108737409453029634847647728106589908163459598290194442684770554054390029607259278010921292238657662318804992000 3072 0 0 0 0 = (3072, 843, 1044388881413152506691752710716624382579964249047383780384233483283953907971557456848826811934997558340890106714439262837987573438185793607263236087851365277945956976543709998340361590134383718314428070011855946226376303246092151556968258004173324933252886756196415152922543994456478577599055691470895208020548338102293090019924589362226146367648547648508300521098591352676162186171308297955060697546193941512014753218072531056422957427519396507667996320424727136469829802789970049378865052798837684007049373442461397906876414888065741961521502454594197059538505846217439079012717366185105913219478929167430506207175012223666964049522997107470899237447201399899430948792166412546820342252055382314647462455431409159856762277092453782202322331127534135255191351132552696105955145375618834934787050150802375811270538811344190117934308784083507649257496983175721662707554256729609229521332658217945609390144944122644356930221047039972063546628042015687917825937123435692140290382580845625079058228293273269959502484230973399614950937854200593193656984048564386718209819490180860948499157747144100071935025025147628727919565201874635225388833748775062891507740134584578886843991703647357331313248120351043610358606684392926029857603772619, 3061) :=
  (congrArg (fun m => consTwin 2 12 4096 2048 272753611955062536683350005473171192293851647702469714378922006906606437731016836147342992696068020621432562466849890026874299532293720512910726944176721468721248545460026445293647997294060281691372005748819150565671483246318006669195314029140537031268637378945840102207874175372697968306927240915038016252505993662262754197867099568362688433885889590208572857035717622467857359974365394274888933658883294299349534954800131633697716514032722192626170926815014060120708593004147967031163044181190242662361923389682735114043221942646220748113196757383272866810895346679513631116612717768661534953300565395283683012657306015255630165759543931964725134268693365893095675304353190066995256623638741356508129257431761403615087767245703403020035657027728562939320685797136856889460568198201999076624083874078209986580782857320731605979256830575437535078690452766304641961875560135129406213712550656497522496021616990033454153300533081143103411659861173367407842809963938841098078759739014305119180816927682854267910656473031971774624795551584400352497839425430168466288704422637077962397724315240130140182851066238251693905221100374466768430124541390335636343743131636362200203874147688127019107833501369023458135611522029280384641537070356614181640206729082194335997858100558840486233777755251387148730638619845977947496559373671605154634563631329932828291517619031616708400195637325139403011616950039383642212520308518960004794213479726024036297105494291277467506895465874462832921912835514698708982919083516321360958026360127372897585976631740321299185120746749761653191856581624867518132517830581457734281094303098230556288638752086449691411848362001600372626077258378700803270824652101960931720472474469339125326816165186859085622352255517577807462302202615046550940107373009614090280223474191161869071066358129918226162174773275600396374248714599666950826548414310297791066293030224053519698212977645623358606790453148969631327975962483727508454108980569216936634565582027060740954675703835721283990914734620461335815506422637324356008961854445934164841637689629923580353717687503033631767452957942921169262738422022081454303657979648207085360215492175139179456660808466597205254665670150742217253933847281256328964469707757088831048170694472267193244234448858624193247146349975042162239353089172355392773772185245500786639364806461939568449756331233007645108737409453029634847647728106589908163459598290194442684770554054390029607259278010921292238657662318804992000 m 0 0 0 0)
      (by norm_num : (3072 : Nat) = 512 + 2560)).trans
    ((consTwin_chunk 2 12 4096 2048 272753611955062536683350005473171192293851647702469714378922006906606437731016836147342992696068020621432562466849890026874299532293720512910726944176721468721248545460026445293647997294060281691372005748819150565671483246318006669195314029140537031268637378945840102207874175372697968306927240915038016252505993662262754197867099568362688433885889590208572857035717622467857359974365394274888933658883294299349534954800131633697716514032722192626170926815014060120708593004147967031163044181190242662361923389682735114043221942646220748113196757383272866810895346679513631116612717768661534953300565395283683012657306015255630165759543931964725134268693365893095675304353190066995256623638741356508129257431761403615087767245703403020035657027728562939320685797136856889460568198201999076624083874078209986580782857320731605979256830575437535078690452766304641961875560135129406213712550656497522496021616990033454153300533081143103411659861173367407842809963938841098078759739014305119180816927682854267910656473031971774624795551584400352497839425430168466288704422637077962397724315240130140182851066238251693905221100374466768430124541390335636343743131636362200203874147688127019107833501369023458135611522029280384641537070356614181640206729082194335997858100558840486233777755251387148730638619845977947496559373671605154634563631329932828291517619031616708400195637325139403011616950039383642212520308518960004794213479726024036297105494291277467506895465874462832921912835514698708982919083516321360958026360127372897585976631740321299185120746749761653191856581624867518132517830581457734281094303098230556288638752086449691411848362001600372626077258378700803270824652101960931720472474469339125326816165186859085622352255517577807462302202615046550940107373009614090280223474191161869071066358129918226162174773275600396374248714599666950826548414310297791066293030224053519698212977645623358606790453148969631327975962483727508454108980569216936634565582027060740954675703835721283990914734620461335815506422637324356008961854445934164841637689629923580353717687503033631767452957942921169262738422022081454303657979648207085360215492175139179456660808466597205254665670150742217253933847281256328964469707757088831048170694472267193244234448858624193247146349975042162239353089172355392773772185245500786639364806461939568449756331233007645108737409453029634847647728106589908163459598290194442684770554054390029607259278010921292238657662318804992000 512 2560 0 0 0 0 2560 1796 1044388881413152506691752710716624382579964249047383780384233483283953907971557456848826811934997558340890106714439262837987573438185793607263236087851338716064221890431551296642991749619286033013498258345951279433251097815200430669914229821926075998491258141498991564091151347292381765610607698751382225545075627729877189043980093066739917216491395876527526978517319043286840424301194026525815799844028695011374904795236577052145225955191543877668866429851789042763244758310939299306174578235840697757772255678988653415873033016805645149660673865914785199864182190293418145185275493210032388880778043719702781128618314853207848513740918198378729106391515004890381509359432475654402176525279041047432976105721329998529554319337661806375388886186530618354306544216335411550199952198616355672169652482692929181820383121081942741398810978556956223727153042115857043979286212020375622840893832324929848193597119083213918455712693190462859797404444321224255601939527922432072114753326356228575681406899879860417904681782570718228744718426659882684940327302275206197049209364301039671113767525045705023703333380890416526145307738984044211324637623750373886361680669501186691317819027238143521270397638292122196544504538882538464471119085707 2549 c1_cons_2_12_s2560).trans (by rfl))

theorem c1_cons_2_12_s3584 : consTwin 2 12 4096 2048 272753611955062536683350005473171192293851647702469714378922006906606437731016836147342992696068020621432562466849890026874299532293720512910726944176721468721248545460026445293647997294060281691372005748819150565671483246318006669195314029140537031268637378945840102207874175372697968306927240915038016252505993662262754197867099568362688433885889590208572857035717622467857359974365394274888933658883294299349534954800131633697716514032722192626170926815014060120708593004147967031163044181190242662361923389682735114043221942646220748113196757383272866810895346679513631116612717768661534953300565395283683012657306015255630165759543931964725134268693365893095675304353190066995256623638741356508129257431761403615087767245703403020035657027728562939320685797136856889460568198201999076624083874078209986580782857320731605979256830575437535078690452766304641961875560135129406213712550656497522496021616990033454153300533081143103411659861173367407842809963938841098078759739014305119180816927682854267910656473031971774624795551584400352497839425430168466288704422637077962397724315240130140182851066238251693905221100374466768430124541390335636343743131636362200203874147688127019107833501369023458135611522029280384641537070356614181640206729082194335997858100558840486233777755251387148730638619845977947496559373671605154634563631329932828291517619031616708400195637325139403011616950039383642212520308518960004794213479726024036297105494291277467506895465874462832921912835514698708982919083516321360958026360127372897585976631740321299185120746749761653191856581624867518132517830581457734281094303098230556288638752086449691411848362001600372626077258378700803270824652101960931720472474469339125326816165186859085622352255517577807462302202615046550940107373009614090280223474191161869071066358129918226162174773275600396374248714599666950826548414310297791066293030224053519698212977645623358606790453148969631327975962483727508454108980569216936634565582027060740954675703835721283990914734620461335815506422637324356008961854445934164841637689629923580353717687503033631767452957942921169262738422022081454303657979648207085360215492175139179456660808466597205254665670150742217253933847281256328964469707757088831048170694472267193244234448858624193247146349975042162239353089172355392773772185245500786639364806461939568449756331233007645108737409453029634847647728106589908163459598290194442684770554054390029607259278010921292238657662318804992000 3584 0 0 0 0 = (3584, 2756, 1044388881413152506691752710716624382579964249047383780384233483283953907971557456848826811934997558340890106714439262837987573438185793607263236087851365277945956976543709998340361590134383718314428070011855946226376318839397712745672334684344586617496807908705803704071284048740118609084782352870383792071436925136913396689682465807427889973385461480532547529907350121645334312200064614980784475292128168543482097276951847218692230986907208419028366761431423200759194435634875062231599752640628297547358026561678543706840021325543610550924136729365669921174290455797618847988640177540568059819355229606140330104890935904055831958775101533597642446530647946272988751111494870744325876431545424463495247387559474463851330252237994699623261366748404243775206313184794028652210360118829436562572630810685243315434085191593197824655176606796105826304014742116444244683372396852807188084356798589710401037131989876052374995340908975668876947929152157613177432396526671363011919898891820174779124437100376574595519373503745438332533232375532653040793539364813030114715970062267118845639042794946932348113083910655625024501351233841863105120804223779501042784710954014329893468930793710331096297230160923264670695302773530835822720311161035, 3573) :=
  (congrArg (fun m => consTwin 2 12 4096 2048 272753611955062536683350005473171192293851647702469714378922006906606437731016836147342992696068020621432562466849890026874299532293720512910726944176721468721248545460026445293647997294060281691372005748819150565671483246318006669195314029140537031268637378945840102207874175372697968306927240915038016252505993662262754197867099568362688433885889590208572857035717622467857359974365394274888933658883294299349534954800131633697716514032722192626170926815014060120708593004147967031163044181190242662361923389682735114043221942646220748113196757383272866810895346679513631116612717768661534953300565395283683012657306015255630165759543931964725134268693365893095675304353190066995256623638741356508129257431761403615087767245703403020035657027728562939320685797136856889460568198201999076624083874078209986580782857320731605979256830575437535078690452766304641961875560135129406213712550656497522496021616990033454153300533081143103411659861173367407842809963938841098078759739014305119180816927682854267910656473031971774624795551584400352497839425430168466288704422637077962397724315240130140182851066238251693905221100374466768430124541390335636343743131636362200203874147688127019107833501369023458135611522029280384641537070356614181640206729082194335997858100558840486233777755251387148730638619845977947496559373671605154634563631329932828291517619031616708400195637325139403011616950039383642212520308518960004794213479726024036297105494291277467506895465874462832921912835514698708982919083516321360958026360127372897585976631740321299185120746749761653191856581624867518132517830581457734281094303098230556288638752086449691411848362001600372626077258378700803270824652101960931720472474469339125326816165186859085622352255517577807462302202615046550940107373009614090280223474191161869071066358129918226162174773275600396374248714599666950826548414310297791066293030224053519698212977645623358606790453148969631327975962483727508454108980569216936634565582027060740954675703835721283990914734620461335815506422637324356008961854445934164841637689629923580353717687503033631767452957942921169262738422022081454303657979648207085360215492175139179456660808466597205254665670150742217253933847281256328964469707757088831048170694472267193244234448858624193247146349975042162239353089172355392773772185245500786639364806461939568449756331233007645108737409453029634847647728106589908163459598290194442684770554054390029607259278010921292238657662318804992000 m 0 0 0 0)
      (by norm_num : (3584 : Nat) = 512 + 3072)).trans
    ((consTwin_chunk 2 12 4096 2048 272753611955062536683350005473171192293851647702469714378922006906606437731016836147342992696068020621432562466849890026874299532293720512910726944176721468721248545460026445293647997294060281691372005748819150565671483246318006669195314029140537031268637378945840102207874175372697968306927240915038016252505993662262754197867099568362688433885889590208572857035717622467857359974365394274888933658883294299349534954800131633697716514032722192626170926815014060120708593004147967031163044181190242662361923389682735114043221942646220748113196757383272866810895346679513631116612717768661534953300565395283683012657306015255630165759543931964725134268693365893095675304353190066995256623638741356508129257431761403615087767245703403020035657027728562939320685797136856889460568198201999076624083874078209986580782857320731605979256830575437535078690452766304641961875560135129406213712550656497522496021616990033454153300533081143103411659861173367407842809963938841098078759739014305119180816927682854267910656473031971774624795551584400352497839425430168466288704422637077962397724315240130140182851066238251693905221100374466768430124541390335636343743131636362200203874147688127019107833501369023458135611522029280384641537070356614181640206729082194335997858100558840486233777755251387148730638619845977947496559373671605154634563631329932828291517619031616708400195637325139403011616950039383642212520308518960004794213479726024036297105494291277467506895465874462832921912835514698708982919083516321360958026360127372897585976631740321299185120746749761653191856581624867518132517830581457734281094303098230556288638752086449691411848362001600372626077258378700803270824652101960931720472474469339125326816165186859085622352255517577807462302202615046550940107373009614090280223474191161869071066358129918226162174773275600396374248714599666950826548414310297791066293030224053519698212977645623358606790453148969631327975962483727508454108980569216936634565582027060740954675703835721283990914734620461335815506422637324356008961854445934164841637689629923580353717687503033631767452957942921169262738422022081454303657979648207085360215492175139179456660808466597205254665670150742217253933847281256328964469707757088831048170694472267193244234448858624193247146349975042162239353089172355392773772185245500786639364806461939568449756331233007645108737409453029634847647728106589908163459598290194442684770554054390029607259278010921292238657662318804992000 512 3072 0 0 0 0 3072 843 1044388881413152506691752710716624382579964249047383780384233483283953907971557456848826811934997558340890106714439262837987573438185793607263236087851365277945956976543709998340361590134383718314428070011855946226376303246092151556968258004173324933252886756196415152922543994456478577599055691470895208020548338102293090019924589362226146367648547648508300521098591352676162186171308297955060697546193941512014753218072531056422957427519396507667996320424727136469829802789970049378865052798837684007049373442461397906876414888065741961521502454594197059538505846217439079012717366185105913219478929167430506207175012223666964049522997107470899237447201399899430948792166412546820342252055382314647462455431409159856762277092453782202322331127534135255191351132552696105955145375618834934787050150802375811270538811344190117934308784083507649257496983175721662707554256729609229521332658217945609390144944122644356930221047039972063546628042015687917825937123435692140290382580845625079058228293273269959502484230973399614950937854200593193656984048564386718209819490180860948499157747144100071935025025147628727919565201874635225388833748775062891507740134584578886843991703647357331313248120351043610358606684392926029857603772619 3061 c1_cons_2_12_s3072).trans (by rfl))

theorem c1_cons_2_12_s4096 : consTwin 2 12 4096 2048 272753611955062536683350005473171192293851647702469714378922006906606437731016836147342992696068020621432562466849890026874299532293720512910726944176721468721248545460026445293647997294060281691372005748819150565671483246318006669195314029140537031268637378945840102207874175372697968306927240915038016252505993662262754197867099568362688433885889590208572857035717622467857359974365394274888933658883294299349534954800131633697716514032722192626170926815014060120708593004147967031163044181190242662361923389682735114043221942646220748113196757383272866810895346679513631116612717768661534953300565395283683012657306015255630165759543931964725134268693365893095675304353190066995256623638741356508129257431761403615087767245703403020035657027728562939320685797136856889460568198201999076624083874078209986580782857320731605979256830575437535078690452766304641961875560135129406213712550656497522496021616990033454153300533081143103411659861173367407842809963938841098078759739014305119180816927682854267910656473031971774624795551584400352497839425430168466288704422637077962397724315240130140182851066238251693905221100374466768430124541390335636343743131636362200203874147688127019107833501369023458135611522029280384641537070356614181640206729082194335997858100558840486233777755251387148730638619845977947496559373671605154634563631329932828291517619031616708400195637325139403011616950039383642212520308518960004794213479726024036297105494291277467506895465874462832921912835514698708982919083516321360958026360127372897585976631740321299185120746749761653191856581624867518132517830581457734281094303098230556288638752086449691411848362001600372626077258378700803270824652101960931720472474469339125326816165186859085622352255517577807462302202615046550940107373009614090280223474191161869071066358129918226162174773275600396374248714599666950826548414310297791066293030224053519698212977645623358606790453148969631327975962483727508454108980569216936634565582027060740954675703835721283990914734620461335815506422637324356008961854445934164841637689629923580353717687503033631767452957942921169262738422022081454303657979648207085360215492175139179456660808466597205254665670150742217253933847281256328964469707757088831048170694472267193244234448858624193247146349975042162239353089172355392773772185245500786639364806461939568449756331233007645108737409453029634847647728106589908163459598290194442684770554054390029607259278010921292238657662318804992000 4096 0 0 0 0 = (4096, 65, 1044388881413152506691752710716624382579964249047383780384233483283953907971557456848826811934997558340890106714439262837987573438185793607263236087851365277945956976543709998340361590134383718314428070011855946226376318839397712745672334684344586617496807908705803704071284048740118609114467977783598029006686938976881787785946905630190260940599579453432823469303026696443059025015972399867714215541693835559885291486318237914434496734087811872639496475100189041349008417061675093668333850551032972088269550769983616369411933015213796825837188091833656751221318492846368125550225998300412344784862595674492055816539593274686972912185632610285990940163539895873985172671460637140195366090205838980087223267077581334494767938942262823469623374905800800509962323224846227366283297648910199644018576429517638298059836646929807768764558876539842186833190322947455670737910014043903904729669867880574322022719179873446994912576182620670120530900366860091948143280970886453410324564182660486861339838032160296988958093309679291544592304452848849199621187893339111788723290388387741038032797542373529446672969448069913462098131673979067830721579477880728759278816293156378152956646524088593399773341317700443248671651590046129065383566508031, 4085) :=
  (congrArg (fun m => consTwin 2 12 4096 2048 272753611955062536683350005473171192293851647702469714378922006906606437731016836147342992696068020621432562466849890026874299532293720512910726944176721468721248545460026445293647997294060281691372005748819150565671483246318006669195314029140537031268637378945840102207874175372697968306927240915038016252505993662262754197867099568362688433885889590208572857035717622467857359974365394274888933658883294299349534954800131633697716514032722192626170926815014060120708593004147967031163044181190242662361923389682735114043221942646220748113196757383272866810895346679513631116612717768661534953300565395283683012657306015255630165759543931964725134268693365893095675304353190066995256623638741356508129257431761403615087767245703403020035657027728562939320685797136856889460568198201999076624083874078209986580782857320731605979256830575437535078690452766304641961875560135129406213712550656497522496021616990033454153300533081143103411659861173367407842809963938841098078759739014305119180816927682854267910656473031971774624795551584400352497839425430168466288704422637077962397724315240130140182851066238251693905221100374466768430124541390335636343743131636362200203874147688127019107833501369023458135611522029280384641537070356614181640206729082194335997858100558840486233777755251387148730638619845977947496559373671605154634563631329932828291517619031616708400195637325139403011616950039383642212520308518960004794213479726024036297105494291277467506895465874462832921912835514698708982919083516321360958026360127372897585976631740321299185120746749761653191856581624867518132517830581457734281094303098230556288638752086449691411848362001600372626077258378700803270824652101960931720472474469339125326816165186859085622352255517577807462302202615046550940107373009614090280223474191161869071066358129918226162174773275600396374248714599666950826548414310297791066293030224053519698212977645623358606790453148969631327975962483727508454108980569216936634565582027060740954675703835721283990914734620461335815506422637324356008961854445934164841637689629923580353717687503033631767452957942921169262738422022081454303657979648207085360215492175139179456660808466597205254665670150742217253933847281256328964469707757088831048170694472267193244234448858624193247146349975042162239353089172355392773772185245500786639364806461939568449756331233007645108737409453029634847647728106589908163459598290194442684770554054390029607259278010921292238657662318804992000 m 0 0 0 0)
      (by norm_num : (4096 : Nat) = 512 + 3584)).trans
    ((consTwin_chunk 2 12 4096 2048 272753611955062536683350005473171192293851647702469714378922006906606437731016836147342992696068020621432562466849890026874299532293720512910726944176721468721248545460026445293647997294060281691372005748819150565671483246318006669195314029140537031268637378945840102207874175372697968306927240915038016252505993662262754197867099568362688433885889590208572857035717622467857359974365394274888933658883294299349534954800131633697716514032722192626170926815014060120708593004147967031163044181190242662361923389682735114043221942646220748113196757383272866810895346679513631116612717768661534953300565395283683012657306015255630165759543931964725134268693365893095675304353190066995256623638741356508129257431761403615087767245703403020035657027728562939320685797136856889460568198201999076624083874078209986580782857320731605979256830575437535078690452766304641961875560135129406213712550656497522496021616990033454153300533081143103411659861173367407842809963938841098078759739014305119180816927682854267910656473031971774624795551584400352497839425430168466288704422637077962397724315240130140182851066238251693905221100374466768430124541390335636343743131636362200203874147688127019107833501369023458135611522029280384641537070356614181640206729082194335997858100558840486233777755251387148730638619845977947496559373671605154634563631329932828291517619031616708400195637325139403011616950039383642212520308518960004794213479726024036297105494291277467506895465874462832921912835514698708982919083516321360958026360127372897585976631740321299185120746749761653191856581624867518132517830581457734281094303098230556288638752086449691411848362001600372626077258378700803270824652101960931720472474469339125326816165186859085622352255517577807462302202615046550940107373009614090280223474191161869071066358129918226162174773275600396374248714599666950826548414310297791066293030224053519698212977645623358606790453148969631327975962483727508454108980569216936634565582027060740954675703835721283990914734620461335815506422637324356008961854445934164841637689629923580353717687503033631767452957942921169262738422022081454303657979648207085360215492175139179456660808466597205254665670150742217253933847281256328964469707757088831048170694472267193244234448858624193247146349975042162239353089172355392773772185245500786639364806461939568449756331233007645108737409453029634847647728106589908163459598290194442684770554054390029607259278010921292238657662318804992000 512 3584 0 0 0 0 3584 2756 1044388881413152506691752710716624382579964249047383780384233483283953907971557456848826811934997558340890106714439262837987573438185793607263236087851365277945956976543709998340361590134383718314428070011855946226376318839397712745672334684344586617496807908705803704071284048740118609084782352870383792071436925136913396689682465807427889973385461480532547529907350121645334312200064614980784475292128168543482097276951847218692230986907208419028366761431423200759194435634875062231599752640628297547358026561678543706840021325543610550924136729365669921174290455797618847988640177540568059819355229606140330104890935904055831958775101533597642446530647946272988751111494870744325876431545424463495247387559474463851330252237994699623261366748404243775206313184794028652210360118829436562572630810685243315434085191593197824655176606796105826304014742116444244683372396852807188084356798589710401037131989876052374995340908975668876947929152157613177432396526671363011919898891820174779124437100376574595519373503745438332533232375532653040793539364813030114715970062267118845639042794946932348113083910655625024501351233841863105120804223779501042784710954014329893468930793710331096297230160923264670695302773530835822720311161035 3573 c1_cons_2_12_s3584).trans (by rfl))

theorem c1_cons_2_12 : consTwin 2 12 4096 2048 272753611955062536683350005473171192293851647702469714378922006906606437731016836147342992696068020621432562466849890026874299532293720512910726944176721468721248545460026445293647997294060281691372005748819150565671483246318006669195314029140537031268637378945840102207874175372697968306927240915038016252505993662262754197867099568362688433885889590208572857035717622467857359974365394274888933658883294299349534954800131633697716514032722192626170926815014060120708593004147967031163044181190242662361923389682735114043221942646220748113196757383272866810895346679513631116612717768661534953300565395283683012657306015255630165759543931964725134268693365893095675304353190066995256623638741356508129257431761403615087767245703403020035657027728562939320685797136856889460568198201999076624083874078209986580782857320731605979256830575437535078690452766304641961875560135129406213712550656497522496021616990033454153300533081143103411659861173367407842809963938841098078759739014305119180816927682854267910656473031971774624795551584400352497839425430168466288704422637077962397724315240130140182851066238251693905221100374466768430124541390335636343743131636362200203874147688127019107833501369023458135611522029280384641537070356614181640206729082194335997858100558840486233777755251387148730638619845977947496559373671605154634563631329932828291517619031616708400195637325139403011616950039383642212520308518960004794213479726024036297105494291277467506895465874462832921912835514698708982919083516321360958026360127372897585976631740321299185120746749761653191856581624867518132517830581457734281094303098230556288638752086449691411848362001600372626077258378700803270824652101960931720472474469339125326816165186859085622352255517577807462302202615046550940107373009614090280223474191161869071066358129918226162174773275600396374248714599666950826548414310297791066293030224053519698212977645623358606790453148969631327975962483727508454108980569216936634565582027060740954675703835721283990914734620461335815506422637324356008961854445934164841637689629923580353717687503033631767452957942921169262738422022081454303657979648207085360215492175139179456660808466597205254665670150742217253933847281256328964469707757088831048170694472267193244234448858624193247146349975042162239353089172355392773772185245500786639364806461939568449756331233007645108737409453029634847647728106589908163459598290194442684770554054390029607259278010921292238657662318804992000 4107 0 0 0 0 = (4107, 2048, 1044388881413152506691752710716624382579964249047383780384233483283953907971557456848826811934997558340890106714439262837987573438185793607263236087851365277945956976543709998340361590134383718314428070011855946226376318839397712745672334684344586617496807908705803704071284048740118609114467977783598029006686938976881787785946905630190260940599579453432823469303026696443059025015972399867714215541693835559885291486318237914434496734087811872639496475100189041349008417061675093668333850551032972088269550769983616369411933015213796825837188091833656751221318492846368125550225998300412344784862595674492194617023806505913245610825731835380087608622102834270197698202313169017678006675195485079921636419370285375124784014907159135459982790513399611551794271106831134090584272884279791554849782954323534517065223269061394905987693002122963395687782878948440616007412945674919823050571642377154816321380631045902916136926708342856440730447899971901781465763473223850267253059899795996090799469201774624817718449867455659250178329070473119433165550807568221846571746373296884912819520317457002440926616910874148385078411929804522981857338977648103126085903001302413467189726673216491511131602920781738033436090243804708340403154190335, 4096) :=
  (congrArg (fun m => consTwin 2 12 4096 2048 272753611955062536683350005473171192293851647702469714378922006906606437731016836147342992696068020621432562466849890026874299532293720512910726944176721468721248545460026445293647997294060281691372005748819150565671483246318006669195314029140537031268637378945840102207874175372697968306927240915038016252505993662262754197867099568362688433885889590208572857035717622467857359974365394274888933658883294299349534954800131633697716514032722192626170926815014060120708593004147967031163044181190242662361923389682735114043221942646220748113196757383272866810895346679513631116612717768661534953300565395283683012657306015255630165759543931964725134268693365893095675304353190066995256623638741356508129257431761403615087767245703403020035657027728562939320685797136856889460568198201999076624083874078209986580782857320731605979256830575437535078690452766304641961875560135129406213712550656497522496021616990033454153300533081143103411659861173367407842809963938841098078759739014305119180816927682854267910656473031971774624795551584400352497839425430168466288704422637077962397724315240130140182851066238251693905221100374466768430124541390335636343743131636362200203874147688127019107833501369023458135611522029280384641537070356614181640206729082194335997858100558840486233777755251387148730638619845977947496559373671605154634563631329932828291517619031616708400195637325139403011616950039383642212520308518960004794213479726024036297105494291277467506895465874462832921912835514698708982919083516321360958026360127372897585976631740321299185120746749761653191856581624867518132517830581457734281094303098230556288638752086449691411848362001600372626077258378700803270824652101960931720472474469339125326816165186859085622352255517577807462302202615046550940107373009614090280223474191161869071066358129918226162174773275600396374248714599666950826548414310297791066293030224053519698212977645623358606790453148969631327975962483727508454108980569216936634565582027060740954675703835721283990914734620461335815506422637324356008961854445934164841637689629923580353717687503033631767452957942921169262738422022081454303657979648207085360215492175139179456660808466597205254665670150742217253933847281256328964469707757088831048170694472267193244234448858624193247146349975042162239353089172355392773772185245500786639364806461939568449756331233007645108737409453029634847647728106589908163459598290194442684770554054390029607259278010921292238657662318804992000 m 0 0 0 0)
      (by norm_num : (4107 : Nat) = 11 + 4096)).trans
    ((consTwin_chunk 2 12 4096 2048 272753611955062536683350005473171192293851647702469714378922006906606437731016836147342992696068020621432562466849890026874299532293720512910726944176721468721248545460026445293647997294060281691372005748819150565671483246318006669195314029140537031268637378945840102207874175372697968306927240915038016252505993662262754197867099568362688433885889590208572857035717622467857359974365394274888933658883294299349534954800131633697716514032722192626170926815014060120708593004147967031163044181190242662361923389682735114043221942646220748113196757383272866810895346679513631116612717768661534953300565395283683012657306015255630165759543931964725134268693365893095675304353190066995256623638741356508129257431761403615087767245703403020035657027728562939320685797136856889460568198201999076624083874078209986580782857320731605979256830575437535078690452766304641961875560135129406213712550656497522496021616990033454153300533081143103411659861173367407842809963938841098078759739014305119180816927682854267910656473031971774624795551584400352497839425430168466288704422637077962397724315240130140182851066238251693905221100374466768430124541390335636343743131636362200203874147688127019107833501369023458135611522029280384641537070356614181640206729082194335997858100558840486233777755251387148730638619845977947496559373671605154634563631329932828291517619031616708400195637325139403011616950039383642212520308518960004794213479726024036297105494291277467506895465874462832921912835514698708982919083516321360958026360127372897585976631740321299185120746749761653191856581624867518132517830581457734281094303098230556288638752086449691411848362001600372626077258378700803270824652101960931720472474469339125326816165186859085622352255517577807462302202615046550940107373009614090280223474191161869071066358129918226162174773275600396374248714599666950826548414310297791066293030224053519698212977645623358606790453148969631327975962483727508454108980569216936634565582027060740954675703835721283990914734620461335815506422637324356008961854445934164841637689629923580353717687503033631767452957942921169262738422022081454303657979648207085360215492175139179456660808466597205254665670150742217253933847281256328964469707757088831048170694472267193244234448858624193247146349975042162239353089172355392773772185245500786639364806461939568449756331233007645108737409453029634847647728106589908163459598290194442684770554054390029607259278010921292238657662318804992000 11 4096 0 0 0 0 4096 65 1044388881413152506691752710716624382579964249047383780384233483283953907971557456848826811934997558340890106714439262837987573438185793607263236087851365277945956976543709998340361590134383718314428070011855946226376318839397712745672334684344586617496807908705803704071284048740118609114467977783598029006686938976881787785946905630190260940599579453432823469303026696443059025015972399867714215541693835559885291486318237914434496734087811872639496475100189041349008417061675093668333850551032972088269550769983616369411933015213796825837188091833656751221318492846368125550225998300412344784862595674492055816539593274686972912185632610285990940163539895873985172671460637140195366090205838980087223267077581334494767938942262823469623374905800800509962323224846227366283297648910199644018576429517638298059836646929807768764558876539842186833190322947455670737910014043903904729669867880574322022719179873446994912576182620670120530900366860091948143280970886453410324564182660486861339838032160296988958093309679291544592304452848849199621187893339111788723290388387741038032797542373529446672969448069913462098131673979067830721579477880728759278816293156378152956646524088593399773341317700443248671651590046129065383566508031 4085 c1_cons_2_12_s4096).trans (by rfl))

theorem c1_inst_2_12 :
    (debruijnCodes 2 12).Nodup ∧ (debruijnCodes 2 12).length = 2 ^ 12 ∧
      ∀ v, v < 2 ^ 12 → v ∈ debruijnCodes 2 12 := by
  have hg : genTwin 2 (2 ^ (12 - 1)) (2 ^ 12 - 12) 0 1 0 12
      = (65, 1044388881413152506691752710716624382579964249047383780384233483283953907971557456848826811934997558340890106714439262837987573438185793607263236087851365277945956976543709998340361590134383718314428070011855946226376318839397712745672334684344586617496807908705803704071284048740118609114467977783598029006686938976881787785946905630190260940599579453432823469303026696443059025015972399867714215541693835559885291486318237914434496734087811872639496475100189041349008417061675093668333850551032972088269550769983616369411933015213796825837188091833656751221318492846368125550225998300412344784862595674492055816539593274686972912185632610285990940163539895873985172671460637140195366090205838980087223267077581334494767938942262823469623374905800800509962323224846227366283297648910199644018576429517638298059836646929807768764558876539842186833190322947455670737910014043903904729669867880574322022719179873446994912576182620670120530900366860091948143280970886453410324564182660486861339838032160296988958093309679291544592304452848849199621187893339111788723290388387741038032797542373529446672969448069913462098131673979067830721579477880728759278816293156378152956646524088593399773341317700443248671651590046129065383566508031, 272753611955062536683350005473171192293851647702469714378922006906606437731016836147342992696068020621432562466849890026874299532293720512910726944176721468721248545460026445293647997294060281691372005748819150565671483246318006669195314029140537031268637378945840102207874175372697968306927240915038016252505993662262754197867099568362688433885889590208572857035717622467857359974365394274888933658883294299349534954800131633697716514032722192626170926815014060120708593004147967031163044181190242662361923389682735114043221942646220748113196757383272866810895346679513631116612717768661534953300565395283683012657306015255630165759543931964725134268693365893095675304353190066995256623638741356508129257431761403615087767245703403020035657027728562939320685797136856889460568198201999076624083874078209986580782857320731605979256830575437535078690452766304641961875560135129406213712550656497522496021616990033454153300533081143103411659861173367407842809963938841098078759739014305119180816927682854267910656473031971774624795551584400352497839425430168466288704422637077962397724315240130140182851066238251693905221100374466768430124541390335636343743131636362200203874147688127019107833501369023458135611522029280384641537070356614181640206729082194335997858100558840486233777755251387148730638619845977947496559373671605154634563631329932828291517619031616708400195637325139403011616950039383642212520308518960004794213479726024036297105494291277467506895465874462832921912835514698708982919083516321360958026360127372897585976631740321299185120746749761653191856581624867518132517830581457734281094303098230556288638752086449691411848362001600372626077258378700803270824652101960931720472474469339125326816165186859085622352255517577807462302202615046550940107373009614090280223474191161869071066358129918226162174773275600396374248714599666950826548414310297791066293030224053519698212977645623358606790453148969631327975962483727508454108980569216936634565582027060740954675703835721283990914734620461335815506422637324356008961854445934164841637689629923580353717687503033631767452957942921169262738422022081454303657979648207085360215492175139179456660808466597205254665670150742217253933847281256328964469707757088831048170694472267193244234448858624193247146349975042162239353089172355392773772185245500786639364806461939568449756331233007645108737409453029634847647728106589908163459598290194442684770554054390029607259278010921292238657662318804992000, 4096) := c1_gen_2_12
  have hm : (2 : Nat) ^ 2 ^ 12 - 1 = 1044388881413152506691752710716624382579964249047383780384233483283953907971557456848826811934997558340890106714439262837987573438185793607263236087851365277945956976543709998340361590134383718314428070011855946226376318839397712745672334684344586617496807908705803704071284048740118609114467977783598029006686938976881787785946905630190260940599579453432823469303026696443059025015972399867714215541693835559885291486318237914434496734087811872639496475100189041349008417061675093668333850551032972088269550769983616369411933015213796825837188091833656751221318492846368125550225998300412344784862595674492194617023806505913245610825731835380087608622102834270197698202313169017678006675195485079921636419370285375124784014907159135459982790513399611551794271106831134090584272884279791554849782954323534517065223269061394905987693002122963395687782878948440616007412945674919823050571642377154816321380631045902916136926708342856440730447899971901781465763473223850267253059899795996090799469201774624817718449867455659250178329070473119433165550807568221846571746373296884912819520317457002440926616910874148385078411929804522981857338977648103126085903001302413467189726673216491511131602920781738033436090243804708340403154190335 := by norm_num
  have hc : consTwin 2 12 (2 ^ 12) (2 ^ (12 - 1)) 272753611955062536683350005473171192293851647702469714378922006906606437731016836147342992696068020621432562466849890026874299532293720512910726944176721468721248545460026445293647997294060281691372005748819150565671483246318006669195314029140537031268637378945840102207874175372697968306927240915038016252505993662262754197867099568362688433885889590208572857035717622467857359974365394274888933658883294299349534954800131633697716514032722192626170926815014060120708593004147967031163044181190242662361923389682735114043221942646220748113196757383272866810895346679513631116612717768661534953300565395283683012657306015255630165759543931964725134268693365893095675304353190066995256623638741356508129257431761403615087767245703403020035657027728562939320685797136856889460568198201999076624083874078209986580782857320731605979256830575437535078690452766304641961875560135129406213712550656497522496021616990033454153300533081143103411659861173367407842809963938841098078759739014305119180816927682854267910656473031971774624795551584400352497839425430168466288704422637077962397724315240130140182851066238251693905221100374466768430124541390335636343743131636362200203874147688127019107833501369023458135611522029280384641537070356614181640206729082194335997858100558840486233777755251387148730638619845977947496559373671605154634563631329932828291517619031616708400195637325139403011616950039383642212520308518960004794213479726024036297105494291277467506895465874462832921912835514698708982919083516321360958026360127372897585976631740321299185120746749761653191856581624867518132517830581457734281094303098230556288638752086449691411848362001600372626077258378700803270824652101960931720472474469339125326816165186859085622352255517577807462302202615046550940107373009614090280223474191161869071066358129918226162174773275600396374248714599666950826548414310297791066293030224053519698212977645623358606790453148969631327975962483727508454108980569216936634565582027060740954675703835721283990914734620461335815506422637324356008961854445934164841637689629923580353717687503033631767452957942921169262738422022081454303657979648207085360215492175139179456660808466597205254665670150742217253933847281256328964469707757088831048170694472267193244234448858624193247146349975042162239353089172355392773772185245500786639364806461939568449756331233007645108737409453029634847647728106589908163459598290194442684770554054390029607259278010921292238657662318804992000 (2 ^ 12 + (12 - 1)) 0 0 0 0
      = (4107, 2048, 2 ^ 2 ^ 12 - 1, 2 ^ 12) := by
    rw [hm]
    exact c1_cons_2_12
  exact debruijn_correct_of_twin 2 12 65 1044388881413152506691752710716624382579964249047383780384233483283953907971557456848826811934997558340890106714439262837987573438185793607263236087851365277945956976543709998340361590134383718314428070011855946226376318839397712745672334684344586617496807908705803704071284048740118609114467977783598029006686938976881787785946905630190260940599579453432823469303026696443059025015972399867714215541693835559885291486318237914434496734087811872639496475100189041349008417061675093668333850551032972088269550769983616369411933015213796825837188091833656751221318492846368125550225998300412344784862595674492055816539593274686972912185632610285990940163539895873985172671460637140195366090205838980087223267077581334494767938942262823469623374905800800509962323224846227366283297648910199644018576429517638298059836646929807768764558876539842186833190322947455670737910014043903904729669867880574322022719179873446994912576182620670120530900366860091948143280970886453410324564182660486861339838032160296988958093309679291544592304452848849199621187893339111788723290388387741038032797542373529446672969448069913462098131673979067830721579477880728759278816293156378152956646524088593399773341317700443248671651590046129065383566508031 272753611955062536683350005473171192293851647702469714378922006906606437731016836147342992696068020621432562466849890026874299532293720512910726944176721468721248545460026445293647997294060281691372005748819150565671483246318006669195314029140537031268637378945840102207874175372697968306927240915038016252505993662262754197867099568362688433885889590208572857035717622467857359974365394274888933658883294299349534954800131633697716514032722192626170926815014060120708593004147967031163044181190242662361923389682735114043221942646220748113196757383272866810895346679513631116612717768661534953300565395283683012657306015255630165759543931964725134268693365893095675304353190066995256623638741356508129257431761403615087767245703403020035657027728562939320685797136856889460568198201999076624083874078209986580782857320731605979256830575437535078690452766304641961875560135129406213712550656497522496021616990033454153300533081143103411659861173367407842809963938841098078759739014305119180816927682854267910656473031971774624795551584400352497839425430168466288704422637077962397724315240130140182851066238251693905221100374466768430124541390335636343743131636362200203874147688127019107833501369023458135611522029280384641537070356614181640206729082194335997858100558840486233777755251387148730638619845977947496559373671605154634563631329932828291517619031616708400195637325139403011616950039383642212520308518960004794213479726024036297105494291277467506895465874462832921912835514698708982919083516321360958026360127372897585976631740321299185120746749761653191856581624867518132517830581457734281094303098230556288638752086449691411848362001600372626077258378700803270824652101960931720472474469339125326816165186859085622352255517577807462302202615046550940107373009614090280223474191161869071066358129918226162174773275600396374248714599666950826548414310297791066293030224053519698212977645623358606790453148969631327975962483727508454108980569216936634565582027060740954675703835721283990914734620461335815506422637324356008961854445934164841637689629923580353717687503033631767452957942921169262738422022081454303657979648207085360215492175139179456660808466597205254665670150742217253933847281256328964469707757088831048170694472267193244234448858624193247146349975042162239353089172355392773772185245500786639364806461939568449756331233007645108737409453029634847647728106589908163459598290194442684770554054390029607259278010921292238657662318804992000 4096 4107 2048 (by decide) (by decide)
    (by decide) (by decide) hg hc

theorem c1_gen_2_13_s512 : genTwin 2 4096 512 0 1 0 13 = (6959, 1090748135619415929462983041739501578793901613604803509577671890784201772939796440121283573733031166014803698781888129604587769186472726581550279341083856739796238131468467351119725993022651288399714199030008556969467185678702192551264655856445793240706836327574952235343381853700426542157128996343077484715898929420298058665982956303606438435546023369359771017772236095038664355333000525088693383872260383437289072741144096977510028319618612934829567005294507688984556691353381889668178975626751654422077663627290111541658078427099212006358191224230381248126800407682161426348512031654027288370491490677223567977695904843441877332460246441615518582613467462195850225747203127557166120262949139692841707522962287610294420791093569500992330974604448596603774377577032425142604915423213048965237103763286994337961136244988113025417572668091072504616401128157795398411203337900868359934642171678322352462618520583393570437743984309394042994436045060537546278523200248688207399985857564006736806881030660633130540409445327718103097834228897664012867407378197664798318613573519916044671162263885324759835408718095428395874496087273947358798530875986812861367676669240328872097642809811202916931954053187106563646867408144071447859650149194418555331449158000186773625781855561045208315383358435117503113749021223103434154542974330250084620728072829459254387596324167494856694779282068196124560409338803402765496067815516526545762922430467972394820204481930618505288010097003256211858101599686075321604300716664141729866186624493652786716223423319478861810830316183251770401585408164474229256442778565744732914975946887353577496561021936020046865724576116977954228781003363951298324117073250672459501902091718657457214226355118195183472958106580790716055087307366088144136940426235323188546272562123607346760872191042455915470585593824987283367676920752920349894258493720015775396465354028325159702565585105404380683298724470244228522745452812965627160905121357893130039109269610786021349800874694172075670737470838308026329063191018052514148572888437229141801160180635886819016463503044973529488437160030548876655152772035054565286229977006884917522853685354846620639253736647028947580787972069012847101131214174022378909167563811322352791240323995666448431931053422786399958663981857617795178129883700874256783369144713834966007092022145326825610182248259032515848046500243730295483743217466241486188783500360686773169973583479533361992638545184015040312821116727908663435, 4008666812895364052457045300638690024934825025875946584113103479201658996137263693890415024911634701970522286659957643046613688866352750093300279744215462028649678991284635012835673791075468846289216743383044717075656116313480113138945310114397429816397614646840243399920310264966905229038930262348386875301097897984, 525) := by rfl

theorem c1_gen_2_13_s1024 : genTwin 2 4096 1024 0 1 0 13 = (1526, 1090748135619415929462984244733782862448264161995237598885386224586183176267236349624551703675949614860232142264472617857828981841000264733586778333913605069489006310532996898510993246298094688239453000272079808585035017473121136931938657279856041564485145564846028416647598584241238251211159096161837502943864894447925856968583037502823861517174681296345242801593563850242151158781376810688090141499519187462232494884363429287041832172718418328822173556374068855716366154701343867742552484305106370169705749680747391682370405789995664114216263913881112431252409592910143493417594674359610165123330716243003693531868295768567597922555869413797672177608423359517452941922134440660264888375034467681110603308889481815451014811856045459707863461677310865435882372395775836531507403572847063163391904667177275236061254896258095027961525774260771936315413079861025122078373033594366115600495191578280810516595618106652202262673723519721043085346552147143404271551540841357014534140450963977115329204067841659507097810117847436566075434861985670859142058947162062969530261586729514673614856160991632850934898599960244181056656248308000298598798630307294276339509032159760800301099367431270325749783334508607564634222846476331842543163096629053905941039406475374883412885979855866473559379004452601183103795800642564575430594855628365593527759214196310198782200522484780476591406272040214375471197412246243856017847715211301638804557158662254074230602303173095175126356212364234420155633131831984710790067753287155939712916835833840239142330473567032213727971759801146214364899267837334508973659183359971517209540234665085775764738306208656464853621279030671615479943718089430629297589943481722869995615620854833617031676939684189936986022610514630103229986615621109155761760953988956036815732933066174815057780190211537992413324140637316452813734453009502186580524631561787325992605931574304775669905134449446300462388973302913953646738195762540113585099462202604005281994762919783038705570060810692971402684511009058909217480514539991011474491441978684454598454261827569831058672215904032471139824816747564169868112247965046338488226670340746283444264021750638670760822322658420230140833635763408713364070638170364445834268280886521678214094500181706280372509860347272545924630704345658905495467486314498391522923230671564992796097329504873870617025277830861893928104109438020115490281552527437425203228902921946730884267718483879180983141000340355721066828244564070924427, 172255849792059766230017444928901775854042982179034254599827854814534058029510226549181531170125537020149739509096187530033446046738942195521060713444807830557240187851235854449681964470093593942480896050307049489237276730633159078603775596571754261581698641224280911979147246601931938630524704944039393067429554872421784031315449985734757780926630518322584349700689529307852719709764098460758423431011194946637860450157390766167715698516456803212279473601275495247466595926236854947437538283876805562594877236389315545597025882059645011465524929525470929284130318352966754003364867237879105222471415773207203556588043370496, 1037) :=
  (congrArg (fun m => genTwin 2 4096 m 0 1 0 13)
      (by norm_num : (1024 : Nat) = 512 + 512)).trans
    ((genTwin_chunk 2 4096 512 512 0 1 0 13 6959 1090748135619415929462983041739501578793901613604803509577671890784201772939796440121283573733031166014803698781888129604587769186472726581550279341083856739796238131468467351119725993022651288399714199030008556969467185678702192551264655856445793240706836327574952235343381853700426542157128996343077484715898929420298058665982956303606438435546023369359771017772236095038664355333000525088693383872260383437289072741144096977510028319618612934829567005294507688984556691353381889668178975626751654422077663627290111541658078427099212006358191224230381248126800407682161426348512031654027288370491490677223567977695904843441877332460246441615518582613467462195850225747203127557166120262949139692841707522962287610294420791093569500992330974604448596603774377577032425142604915423213048965237103763286994337961136244988113025417572668091072504616401128157795398411203337900868359934642171678322352462618520583393570437743984309394042994436045060537546278523200248688207399985857564006736806881030660633130540409445327718103097834228897664012867407378197664798318613573519916044671162263885324759835408718095428395874496087273947358798530875986812861367676669240328872097642809811202916931954053187106563646867408144071447859650149194418555331449158000186773625781855561045208315383358435117503113749021223103434154542974330250084620728072829459254387596324167494856694779282068196124560409338803402765496067815516526545762922430467972394820204481930618505288010097003256211858101599686075321604300716664141729866186624493652786716223423319478861810830316183251770401585408164474229256442778565744732914975946887353577496561021936020046865724576116977954228781003363951298324117073250672459501902091718657457214226355118195183472958106580790716055087307366088144136940426235323188546272562123607346760872191042455915470585593824987283367676920752920349894258493720015775396465354028325159702565585105404380683298724470244228522745452812965627160905121357893130039109269610786021349800874694172075670737470838308026329063191018052514148572888437229141801160180635886819016463503044973529488437160030548876655152772035054565286229977006884917522853685354846620639253736647028947580787972069012847101131214174022378909167563811322352791240323995666448431931053422786399958663981857617795178129883700874256783369144713834966007092022145326825610182248259032515848046500243730295483743217466241486188783500360686773169973583479533361992638545184015040312821116727908663435 4008666812895364052457045300638690024934825025875946584113103479201658996137263693890415024911634701970522286659957643046613688866352750093300279744215462028649678991284635012835673791075468846289216743383044717075656116313480113138945310114397429816397614646840243399920310264966905229038930262348386875301097897984 525 c1_gen_2_13_s512).trans (by rfl))

theorem c1_gen_2_13_s1536 : genTwin 2 4096 1536 0 1 0 13 = (7713, 1090748135619415929462984244733782862448264161996232692431832786189721331643341900579081371073315179543939998293844015866640386556038117002225875657356260654348914086739713866685898834149979710226494110492340462192597216694772857191641268511826296406431150923814522480035309025445915385909876238034400879666927618988691926047179614096217639174466700579047465673999477080344687132703710171539937418154362540670071618258495809828890268020847380968354239540938993779353130982015311530938578574103323879063405143023508901872813123583232632944245925669796063576315444046910409129276756184532383416886621020131980325422143161675586897865783119961591206348091116594705199523620620629043888660124522592392329995852695122834434641815610794389873275261323774767047471427689664930941582223766140310446213149823667770776263273190547083207397705346872491204212094719402889485488950789113712747646316926376172748916192410136250062656067185969426159754417753369804124150270049321239859266270293686198099644684552417545223577312008074848167498349001499482873603691184222501912964157999778904105861695249788833358913927949853728117105942459056092678351174898028812005113996812486708623351690529486815958324396366097310597259610660290593397422809922669796269061289708071149258764711240100416112475798500713008483482907192434757434996399650538576532726476920513693702246345807396693552096604881133493980689519691040215311142346296812421371291942955605409643785712364096895563232976324627523466307822610816519509782021764714326525801682479497223717470808151944333004078571679630036536809720247380250089536758900069257470987718764593601654667941773860726362726343698478863319788875594790239965999036231153045110551180914455491730403413984654089769753410153966217155450534889031772838529376269914076973019988414475621209792329856568008334475222768152910686822738810042530348255812404800214718599873394988373864627419376315071489694916180332930079558393127326527925652824796960296871744411795560506146564488201823822057713197301867789050643137275436793144580413019999852167808003372057632744828248972461710383642446945165440617451437633651464220713346148017241321190038929565063755423844053646584100417318729394912279195541043996102375999414289991373834029825799226535043528563045466210850203300614873749973938926692992420477827003841537637828402989693896020451633543536121171176802646534552187604766068479227378056012657602665820688094386302437543643957605538831394528777556654093561266315, 97564694604956867971018641841093362536990242014137971598170924387829994978803651555914243621220896692179926447984259913039947140777699595351462452682009968284807027651800349329821372424865024852201891907672785880699995651420608152544118181691337244395703622276366696678600858490091341350626273868762625738046323059797226244982130888490935139828259255425821534897757154636737954775858250518984448033756100204608024351330943856408968415311875885303231806746548196390007056839105937031377547498530256759737736594253636906569536314744729750637027125492735851818911604710701604524758199227286319897675016565280841204237629621093841579702752603248894970690724862158773452093900640704292819099836046609075366144092048237434915167834331553765193360107658678637663979993871475274569240850806726391878130523436962936041812304736485485444623894594659570774499151224725069110935385635636090282273163298626870109300380403649969154909151772540928, 1549) :=
  (congrArg (fun m => genTwin 2 4096 m 0 1 0 13)
      (by norm_num : (1536 : Nat) = 512 + 1024)).trans
    ((genTwin_chunk 2 4096 512 1024 0 1 0 13 1526 1090748135619415929462984244733782862448264161995237598885386224586183176267236349624551703675949614860232142264472617857828981841000264733586778333913605069489006310532996898510993246298094688239453000272079808585035017473121136931938657279856041564485145564846028416647598584241238251211159096161837502943864894447925856968583037502823861517174681296345242801593563850242151158781376810688090141499519187462232494884363429287041832172718418328822173556374068855716366154701343867742552484305106370169705749680747391682370405789995664114216263913881112431252409592910143493417594674359610165123330716243003693531868295768567597922555869413797672177608423359517452941922134440660264888375034467681110603308889481815451014811856045459707863461677310865435882372395775836531507403572847063163391904667177275236061254896258095027961525774260771936315413079861025122078373033594366115600495191578280810516595618106652202262673723519721043085346552147143404271551540841357014534140450963977115329204067841659507097810117847436566075434861985670859142058947162062969530261586729514673614856160991632850934898599960244181056656248308000298598798630307294276339509032159760800301099367431270325749783334508607564634222846476331842543163096629053905941039406475374883412885979855866473559379004452601183103795800642564575430594855628365593527759214196310198782200522484780476591406272040214375471197412246243856017847715211301638804557158662254074230602303173095175126356212364234420155633131831984710790067753287155939712916835833840239142330473567032213727971759801146214364899267837334508973659183359971517209540234665085775764738306208656464853621279030671615479943718089430629297589943481722869995615620854833617031676939684189936986022610514630103229986615621109155761760953988956036815732933066174815057780190211537992413324140637316452813734453009502186580524631561787325992605931574304775669905134449446300462388973302913953646738195762540113585099462202604005281994762919783038705570060810692971402684511009058909217480514539991011474491441978684454598454261827569831058672215904032471139824816747564169868112247965046338488226670340746283444264021750638670760822322658420230140833635763408713364070638170364445834268280886521678214094500181706280372509860347272545924630704345658905495467486314498391522923230671564992796097329504873870617025277830861893928104109438020115490281552527437425203228902921946730884267718483879180983141000340355721066828244564070924427 172255849792059766230017444928901775854042982179034254599827854814534058029510226549181531170125537020149739509096187530033446046738942195521060713444807830557240187851235854449681964470093593942480896050307049489237276730633159078603775596571754261581698641224280911979147246601931938630524704944039393067429554872421784031315449985734757780926630518322584349700689529307852719709764098460758423431011194946637860450157390766167715698516456803212279473601275495247466595926236854947437538283876805562594877236389315545597025882059645011465524929525470929284130318352966754003364867237879105222471415773207203556588043370496 1037 c1_gen_2_13_s1024).trans (by rfl))

theorem c1_gen_2_13_s2048 : genTwin 2 4096 2048 0 1 0 13 = (3517, 1090748135619415929462984244733782862448264161996232692431832786189721331849119295216264234525201987057729139376386773657083234346696640998298831093903460013220869799066118580814377212408112577838242362531533642881393473613161151806844085954191991510620991025973866181607417329162206189370437635673956345346415332539042725942294599556080457263880588693548608692173980918121960270613455165046568760379268234093859436659236631240460776807883265646856358737397918896885163520614705148334450723266519002299285387032583326702438772497394600793757270775063396771936894257551776402881167969386782376622310139247346742325791646757770271603684862531203789670947990172456212452315908977282996597704586325370255378016745870391098194035265436794126850713138275648394028945782911871414520064179665298805648957559316792209023600962826486724790893341252488978969285681141166626805262225050996565267538976059186659219457373437744310003807870722483732685255549038524298162510960677954281464976549615937780471774258286238733904309940099931074808086744898843200712183048392833249134506836830509585483356301294454557217445921433580936175425835803366785378400054283224038336323066901095439140443745145623124067083605933003890255857977137951137719728219493571975602392368612802608694903851448983683968304527316237362077063483412445596458615429982203669189692778939101843104442261756100109450304224024076944681202290459516237223852996843083019454552961096632045238183055859163635821749066428589764913792827594747017565765081432568687219082480049603120535247747594945082636735723560253484373557709103119415437005387869725771538654118644744619080219477359635227044092367443366334220704250788514437543912455162425403957153775654259102946337746667536572838643650873146115914671777215318679493687339220275011229710689025885530886845854944336550841921395374643959921363448596632511926599795004124178262563297636651647326783573023221015978194190069324420902224112532446934284370420324287833322371777502245350751181217380467094133194480976766151509354555614642690897572641143619180978932425413640831733594110367945726757343742536723041024306168416253367053121541144682528060756626241260267088439882990465101841590344984222354151362116805177254443591677633659905625358331330479871742466035288601235093963380775958554282732426116216200671070904549119278002124891419359841018789447871710952962811600356892383415954735615015830707717697316963091352780950090726850581385902166958366514095828966483984523, 18977753571595535588389166833484921100803964302028309528121083260409746175698745476613816634526877431996353995278743521201892035470226084318297571586168240360529033196428544890752989098022820260653403546701811439582404486854733939879132916428780554137860827166388930625887250832751251790374135380436072231000031160441901626164922034080043129080398227071316822856989770646783322234567602426152047223418914390596969785128584171343503292116819611919072028763257777976593986534927176839283528596904653267511912226792978492249565818725235739567163486930875733123624628321206937129544497187235946263144899097508604086149386396654234187148141532640694195417682403808292384119121156816625368297349441669657210290003844553581400985089357307589910309459516491882264324811983256091823481137007627334710963676487756965821385469682431499195007151272015500060904040046641643755780179321019886974427811853437092950678526302478369537917955019280763425178096080305682501778041555997048271329237278118830314198536031470729856988740826799919199302332466094219290782578958652845080002045844882914369451224446440736967004634591489992912793857042880566253338834914699338495199225080460848370779233933666572268958826678645743924986820460529991382384224016982343680, 2061) :=
  (congrArg (fun m => genTwin 2 4096 m 0 1 0 13)
      (by norm_num : (2048 : Nat) = 512 + 1536)).trans
    ((genTwin_chunk 2 4096 512 1536 0 1 0 13 7713 1090748135619415929462984244733782862448264161996232692431832786189721331643341900579081371073315179543939998293844015866640386556038117002225875657356260654348914086739713866685898834149979710226494110492340462192597216694772857191641268511826296406431150923814522480035309025445915385909876238034400879666927618988691926047179614096217639174466700579047465673999477080344687132703710171539937418154362540670071618258495809828890268020847380968354239540938993779353130982015311530938578574103323879063405143023508901872813123583232632944245925669796063576315444046910409129276756184532383416886621020131980325422143161675586897865783119961591206348091116594705199523620620629043888660124522592392329995852695122834434641815610794389873275261323774767047471427689664930941582223766140310446213149823667770776263273190547083207397705346872491204212094719402889485488950789113712747646316926376172748916192410136250062656067185969426159754417753369804124150270049321239859266270293686198099644684552417545223577312008074848167498349001499482873603691184222501912964157999778904105861695249788833358913927949853728117105942459056092678351174898028812005113996812486708623351690529486815958324396366097310597259610660290593397422809922669796269061289708071149258764711240100416112475798500713008483482907192434757434996399650538576532726476920513693702246345807396693552096604881133493980689519691040215311142346296812421371291942955605409643785712364096895563232976324627523466307822610816519509782021764714326525801682479497223717470808151944333004078571679630036536809720247380250089536758900069257470987718764593601654667941773860726362726343698478863319788875594790239965999036231153045110551180914455491730403413984654089769753410153966217155450534889031772838529376269914076973019988414475621209792329856568008334475222768152910686822738810042530348255812404800214718599873394988373864627419376315071489694916180332930079558393127326527925652824796960296871744411795560506146564488201823822057713197301867789050643137275436793144580413019999852167808003372057632744828248972461710383642446945165440617451437633651464220713346148017241321190038929565063755423844053646584100417318729394912279195541043996102375999414289991373834029825799226535043528563045466210850203300614873749973938926692992420477827003841537637828402989693896020451633543536121171176802646534552187604766068479227378056012657602665820688094386302437543643957605538831394528777556654093561266315 97564694604956867971018641841093362536990242014137971598170924387829994978803651555914243621220896692179926447984259913039947140777699595351462452682009968284807027651800349329821372424865024852201891907672785880699995651420608152544118181691337244395703622276366696678600858490091341350626273868762625738046323059797226244982130888490935139828259255425821534897757154636737954775858250518984448033756100204608024351330943856408968415311875885303231806746548196390007056839105937031377547498530256759737736594253636906569536314744729750637027125492735851818911604710701604524758199227286319897675016565280841204237629621093841579702752603248894970690724862158773452093900640704292819099836046609075366144092048237434915167834331553765193360107658678637663979993871475274569240850806726391878130523436962936041812304736485485444623894594659570774499151224725069110935385635636090282273163298626870109300380403649969154909151772540928 1549 c1_gen_2_13_s1536).trans (by rfl))

theorem c1_gen_2_13_s2560 : genTwin 2 4096 2560 0 1 0 13 = (1943, 1090748135619415929462984244733782862448264161996232692431832786189721331849119295216264234525201987223957291796157025273109870283064959809173104805390499097854273422025029673537206552113362058668352645856252517873002604169755758422424020206960024099328679619963253525511090919655857817874025498864507142175207055595452800711502669217250082791328678940770169005339503646912614950538674131820309946082242922667242325834022133691206680803008435922780026881635534352757465105953696156261007494348383557841540747849877105083655584654911760882753272433593788570627914932342422705589864818300883646578039301515334130479950244526031818542057067686574093951128419517689131019987038075838977079337529612200023313442820927564911872760420651456056578762415598672049313334449698199217274627247030203133147839704129805361968891793003254371886480932887847805483198423694420085620385315321608069131489894812905090841319825994696568612724672945703193677695970360835932341046075796282044209456329548421638196870234398654373627525254990994744839105220823319655797596867082271955972225770424490374738219719970950678174416173161819042663333063259285371296310702480865439295952340835211341004793349409760016848932702993063570203246921501277155442450872360145508284014181186225142839222742530455170736421165861915019725897615560099334920720987923022295130629668813586460604873449902959344331080544640826433614954424937051757932873508636099380042721211137162381344127100433221533913196594068956062537392506969473644439007608118466476187810998132596430234993141475315936655075159134670056833606389077470877436789982550825384778455388111951688197167061295686886437235904975014780511738040158324371117873367077530255749601017678343017916555215507349888874732591150417926704170612525067224112764687646537656027560178823379710851989622807354142436944598644901246381879264017114023252189018459360331524495316640154498660281652225176723763744040061197887002595626962780039216406527309779560398676429802560184993313785795161331345894015577648257349054124528984457194057290109768607681113193230596096092299941690094652462713113738517664374777020680719012080646293358255248714068076226465015364763662861935420968915287320963117600446660984740200089505358903077337455624393044093395454157645859200097091945246981663136494326588818733053602227823268381331740136886514776405851973339901517338924209969386376610152325410051833676271774464062114431777181722956889455505404511207078252540106136064083656843, 4146812257145993883504476431355189877962123442889962092003253950020660636986468942887915124284748694479929540707383230383190938948785030477704985640146695241889479272051144337578460590127328160799443793293573501618661878961510942986846942693846603669170031854779930064798872839856719069698589428293379150131198020061844950458176873311221898906550718140711298421644737121429053381395674343426066021147686267898432023037165331861272880244814624372542835073842812678240420364452344899069810024383127793301888467985248339388990347558140006822471630136527328014724504675747770380438858674028180683690019794154236603085153371165872248327993327806541665460271655860949705910023242891624505579132043817775396639089208760450430732735158381636675477229979179792347302277432631783390228383632399518952865177266302532093893367748651486755701296963689006503750122001960265811357730911951874530317218093783554212093850983228688544345271474887865411360591382764969665853442209078773868962396944300838855970982194534513581842268797128413702675488955313220562546584589097871242453630966199706989650263559621561807169828736503207334193676747188463844575948046116595790646112441515216658211810134719596824023880337270650589350345118602213708127336567443344650847426581608833073669397483583475833782975127571016877789650315310791739240313390049746949671958826207619349741886673014553235860495052024244492104297841557086051376517165901084945605041560480543939947515724684158167763425848810526702516037721037824042938784306142227751251775568666327841680354282335132188672, 2573) :=
  (congrArg (fun m => genTwin 2 4096 m 0 1 0 13)
      (by norm_num : (2560 : Nat) = 512 + 2048)).trans
    ((genTwin_chunk 2 4096 512 2048 0 1 0 13 3517 1090748135619415929462984244733782862448264161996232692431832786189721331849119295216264234525201987057729139376386773657083234346696640998298831093903460013220869799066118580814377212408112577838242362531533642881393473613161151806844085954191991510620991025973866181607417329162206189370437635673956345346415332539042725942294599556080457263880588693548608692173980918121960270613455165046568760379268234093859436659236631240460776807883265646856358737397918896885163520614705148334450723266519002299285387032583326702438772497394600793757270775063396771936894257551776402881167969386782376622310139247346742325791646757770271603684862531203789670947990172456212452315908977282996597704586325370255378016745870391098194035265436794126850713138275648394028945782911871414520064179665298805648957559316792209023600962826486724790893341252488978969285681141166626805262225050996565267538976059186659219457373437744310003807870722483732685255549038524298162510960677954281464976549615937780471774258286238733904309940099931074808086744898843200712183048392833249134506836830509585483356301294454557217445921433580936175425835803366785378400054283224038336323066901095439140443745145623124067083605933003890255857977137951137719728219493571975602392368612802608694903851448983683968304527316237362077063483412445596458615429982203669189692778939101843104442261756100109450304224024076944681202290459516237223852996843083019454552961096632045238183055859163635821749066428589764913792827594747017565765081432568687219082480049603120535247747594945082636735723560253484373557709103119415437005387869725771538654118644744619080219477359635227044092367443366334220704250788514437543912455162425403957153775654259102946337746667536572838643650873146115914671777215318679493687339220275011229710689025885530886845854944336550841921395374643959921363448596632511926599795004124178262563297636651647326783573023221015978194190069324420902224112532446934284370420324287833322371777502245350751181217380467094133194480976766151509354555614642690897572641143619180978932425413640831733594110367945726757343742536723041024306168416253367053121541144682528060756626241260267088439882990465101841590344984222354151362116805177254443591677633659905625358331330479871742466035288601235093963380775958554282732426116216200671070904549119278002124891419359841018789447871710952962811600356892383415954735615015830707717697316963091352780950090726850581385902166958366514095828966483984523 18977753571595535588389166833484921100803964302028309528121083260409746175698745476613816634526877431996353995278743521201892035470226084318297571586168240360529033196428544890752989098022820260653403546701811439582404486854733939879132916428780554137860827166388930625887250832751251790374135380436072231000031160441901626164922034080043129080398227071316822856989770646783322234567602426152047223418914390596969785128584171343503292116819611919072028763257777976593986534927176839283528596904653267511912226792978492249565818725235739567163486930875733123624628321206937129544497187235946263144899097508604086149386396654234187148141532640694195417682403808292384119121156816625368297349441669657210290003844553581400985089357307589910309459516491882264324811983256091823481137007627334710963676487756965821385469682431499195007151272015500060904040046641643755780179321019886974427811853437092950678526302478369537917955019280763425178096080305682501778041555997048271329237278118830314198536031470729856988740826799919199302332466094219290782578958652845080002045844882914369451224446440736967004634591489992912793857042880566253338834914699338495199225080460848370779233933666572268958826678645743924986820460529991382384224016982343680 2061 c1_gen_2_13_s2048).trans (by rfl))

theorem c1_gen_2_13_s3072 : genTwin 2 4096 3072 0 1 0 13 = (4167, 1090748135619415929462984244733782862448264161996232692431832786189721331849119295216264234525201987223957291796157025273109870820177184063610979765077547884183346031933419868121187274782411799432080663399188914140076230032460238636775290196914077496169461697759799671040774178850620655304196715637770156473337307144763717485631156072444290913434782977229725839782012856575943435619715579359916959581153676205799906588847576310828879047236285967749122143671091244110481000818975624347193267297806245798582761882611726960710682004937715531780529620805226922085712363512458571012770034553154189270398020234526522719530123752006084322696355888128654607693860873151731393737244822136364185497321592952817255000353248174393618915084279023000271450142541308559282029268616144112101970229105609314835006619726736893939019513506889489477025372434297323573104313934931958838279895596383771811118147581413230142633968019826186606997850680570982652032422537479310706219474814073971951167661236667680625569280534241354433700661031843552458367069532856912286455220217911988443079305590638585201288389086946536833742112214547741367585663337686729150308108596471416342389638001388292462863919180435668374280202420043830645823003041577251951720361865295351527454203180024831988731584467579246068010428936826517745565298025730226309190589495128053491647395739711627161918652528698853048492534079082296360403520548433668147525035485003535836755226431488560038485545121108855083722990198744252063095308256517784097729590193245004632245013089773279423516150709348026443892953991709363015934952471832229280481225181849876277442140466729001612263449638866632440974925312332572903980384956273370782092706567565396277882968453670269245660131521512447910800863783055854050481506625661127211006672467919649095504913083109825013956550289342212870681467129729677041386298263336755085219944920961822920220323840655874380756529596191986993235606873469736857420902625043405209605022149655415151650854593809846929377303056202747598159519073302009835339817450977248363943472827450164276568234225465953217966186596367415039067400568151592127563838412700251826448676491852082167384822682435057628387371813070265933446309603385744129772853247035275195176844755784404078595456114573802460766936271110684165922969809133869540330393977757329716403806131837253315077709116594914076454513898186981032663886577724145336122314558041550335365086961901131231494098382411025768375120083948265143770199268270309515, 743350041748813674891636528649911759717074504780674685290671387668058514619063464193231579563653527061280177261226497961022317109233825012384305822525680809171586187790891022988683862968335851599938675905986460398208326859893747408812570809189732492367659213532585644883694256407382576007098270130017990797695624223869271754925845133027369836832085723355274512013019996060842320347091715399154146276616452470370245103384018442532458709407255221200061622796727002065361168405814201311004231175516151319108735189812353303169840694101464336345957398318425096004406813871933401223936479291656225826680887613358536163671357470067374451294456889324703267327058871109558158642472976902059195207719136771134016059297241049866503411349327670992721532119838555772796375438887987263793633022765071908979173501511549565490349334324426908498973861751928499897157839337138783634934796416719412000695363844527423326327401871637721672476005865611594376156377930457036672685752093456186866708937185459194936105593237932245064809600787769369174233641998271414503809237803907438872009597379069758329799333382434609887693928539874483343359496305908970031135538402932109807701933650012749925010572811192657866376568255720956130940139781145193743109494209002850520181618153626656707266255078552278951307451814955032200501681810695765194315694646778660288579776484467660237560897273319297511853251762181034527974741561880759345376320321819369742227924940876650484406460176885931836705851059631927747391912247682288248531780309781603110391614419551448654734104245693521731871582944655633585827906179496544810928542327075619466970205231637700698627572097792016761179683723691187051546497194754503914567164632449882957272718709293059647939676521271718847044839080000312268317781670571426044823101687750743202910660907943960540896704024786134960222405849868020435528091327563286183936, 3085) :=
  (congrArg (fun m => genTwin 2 4096 m 0 1 0 13)
      (by norm_num : (3072 : Nat) = 512 + 2560)).trans
    ((genTwin_chunk 2 4096 512 2560 0 1 0 13 1943 1090748135619415929462984244733782862448264161996232692431832786189721331849119295216264234525201987223957291796157025273109870283064959809173104805390499097854273422025029673537206552113362058668352645856252517873002604169755758422424020206960024099328679619963253525511090919655857817874025498864507142175207055595452800711502669217250082791328678940770169005339503646912614950538674131820309946082242922667242325834022133691206680803008435922780026881635534352757465105953696156261007494348383557841540747849877105083655584654911760882753272433593788570627914932342422705589864818300883646578039301515334130479950244526031818542057067686574093951128419517689131019987038075838977079337529612200023313442820927564911872760420651456056578762415598672049313334449698199217274627247030203133147839704129805361968891793003254371886480932887847805483198423694420085620385315321608069131489894812905090841319825994696568612724672945703193677695970360835932341046075796282044209456329548421638196870234398654373627525254990994744839105220823319655797596867082271955972225770424490374738219719970950678174416173161819042663333063259285371296310702480865439295952340835211341004793349409760016848932702993063570203246921501277155442450872360145508284014181186225142839222742530455170736421165861915019725897615560099334920720987923022295130629668813586460604873449902959344331080544640826433614954424937051757932873508636099380042721211137162381344127100433221533913196594068956062537392506969473644439007608118466476187810998132596430234993141475315936655075159134670056833606389077470877436789982550825384778455388111951688197167061295686886437235904975014780511738040158324371117873367077530255749601017678343017916555215507349888874732591150417926704170612525067224112764687646537656027560178823379710851989622807354142436944598644901246381879264017114023252189018459360331524495316640154498660281652225176723763744040061197887002595626962780039216406527309779560398676429802560184993313785795161331345894015577648257349054124528984457194057290109768607681113193230596096092299941690094652462713113738517664374777020680719012080646293358255248714068076226465015364763662861935420968915287320963117600446660984740200089505358903077337455624393044093395454157645859200097091945246981663136494326588818733053602227823268381331740136886514776405851973339901517338924209969386376610152325410051833676271774464062114431777181722956889455505404511207078252540106136064083656843 4146812257145993883504476431355189877962123442889962092003253950020660636986468942887915124284748694479929540707383230383190938948785030477704985640146695241889479272051144337578460590127328160799443793293573501618661878961510942986846942693846603669170031854779930064798872839856719069698589428293379150131198020061844950458176873311221898906550718140711298421644737121429053381395674343426066021147686267898432023037165331861272880244814624372542835073842812678240420364452344899069810024383127793301888467985248339388990347558140006822471630136527328014724504675747770380438858674028180683690019794154236603085153371165872248327993327806541665460271655860949705910023242891624505579132043817775396639089208760450430732735158381636675477229979179792347302277432631783390228383632399518952865177266302532093893367748651486755701296963689006503750122001960265811357730911951874530317218093783554212093850983228688544345271474887865411360591382764969665853442209078773868962396944300838855970982194534513581842268797128413702675488955313220562546584589097871242453630966199706989650263559621561807169828736503207334193676747188463844575948046116595790646112441515216658211810134719596824023880337270650589350345118602213708127336567443344650847426581608833073669397483583475833782975127571016877789650315310791739240313390049746949671958826207619349741886673014553235860495052024244492104297841557086051376517165901084945605041560480543939947515724684158167763425848810526702516037721037824042938784306142227751251775568666327841680354282335132188672 2573 c1_gen_2_13_s2560).trans (by rfl))

theorem c1_gen_2_13_s3584 : genTwin 2 4096 3584 0 1 0 13 = (3308, 1090748135619415929462984244733782862448264161996232692431832786189721331849119295216264234525201987223957291796157025273109870820177184063610979765077554799078906298842192989538609825228047878827437255704200228223028051097290182689202860073762498663396489392668345019760235938016807973660561816066132922764014053091402348340639561754313006518784225034992802874468357879204778625374325174490600895154177347808760704660539116614321749139631933052275744249088150619866689310283716322362106764432104345457193505387040983430465254268767368590110666550418129083027491216097940138834385060739094842006174595777119093614879722860896257458420036301652550628842414760119119267155033856914333533832366476386370059497001323385604096550640870949020417262832294568689671901928848788673685809228349516536038493439441363608007222441271197490596681406683967536943170426652442354850266087056454444527817034658034037560286325095821433522299103177279960021429604610317190356873481593177757534213009331362438847628428583276899674932237127268348494760724549755584881561418784778392947175579277163008737227724578964761989216758703699704100671770798392682061379725920654492798356503362593552018560492115684727627552574407656166185518381751813977906340547677708154745079195481613690190827850234903713330078378773619159476247361304580103297696397258030911301381333328607536058130270536547143568872873509438059296504226752183816245027415805582230954952143044158830796481609403672263014356680325026120109974020964450333007672654793116811725087324982733087683537059321439376923741332952956879374111435090124136315454511519850649107485366601270034725563507532859441692215707331296964932294579751196346518208294219741841568536671866938592721716092431316174462680016835578733078618308509875618825709064052540028521481416662276236431967413301925310819790564880083833160848206977697181478984378343395531019017277472090874019913486183365094385746495849993310972311487349365130350923201017044625941729305825400844768055480669292158842380334717520380518347334159967661319542998974695733017023432307473386973980887503644341019396883247575707813603867477748977338758816676412879294625255972322657315028350754207781160083087592593493258715308248597649600347106457690186956208771046920345564147710469679285802828210252165158212096562013309111473946380327952638353476001802408971731959468405997198556139868911691126205032212306223708616450459648328809687279300192488514366817065512032142122054405867895308427, 8083374479564071280508279188074822823389795269896473905939930131787756372161618456371300740819120242543390794112816199272368568942078047384452865437150735434939340595948562669390481779103976783470434474565864580606418123179069733470019126435244858870171119738955725489839173226180047568285096824267480501636857398606016372581264539829818890099371558381633958844530231242320358216932446011783153689865233026484127367133407190278860416138361347969093881742165299658757618154004877547679392145539701827722975237540170890615648167538572790236763235469562027163920082520479402737808246672535525244036728520420365504059834490700309210790463404353728332326895174735070622854915152997687955821852773619239775218914666725125686184446020591149420499921911709283104086463518468616283827240412968287202635569295660515889091687814557591758173766427316235881003564236380829715209174514784493577494660783969678983571079861523609753018277309296126243112504822640206150538729869501002585516787955117330697166966941653702184734541717986649638689329025458353435539786264361765003849189376718541332537979561489226228329776031643081268588205585564145314977878508105335639517039175988890907690970422961756683625611264747645299036211167955917244533511760778087878594479312044489643175487092234077484769848958864369984074322346099129147597735647571499591000810037482498444992691795825506629569999881940598682040759449207985674585921777597427925209956315570679647926820627575933791129065612873016808286207384995702845880883850851628512003461839797432025032699515604425666445113934243722727656255459400918721170590858432225149870158102765534371080808368366218867081676092503691869345379336124488495034355567517995939962885821095302548508921563636376726002927987686890924113939541457896350156475602346043036086140244103182108332119462156940230716794403811234369115032750175197519320935260039378253433084323335201258385005871805821340862325962151608949330586336179733888572156129304475310056817777430734321546189556173157446733495922997611701461661112198648313672803479039200020775791633726066212543230496512652198114662972680655409760229104503288339040995916576545702246807413127798895673344, 3597) :=
  (congrArg (fun m => genTwin 2 4096 m 0 1 0 13)
      (by norm_num : (3584 : Nat) = 512 + 3072)).trans
    ((genTwin_chunk 2 4096 512 3072 0 1 0 13 4167 1090748135619415929462984244733782862448264161996232692431832786189721331849119295216264234525201987223957291796157025273109870820177184063610979765077547884183346031933419868121187274782411799432080663399188914140076230032460238636775290196914077496169461697759799671040774178850620655304196715637770156473337307144763717485631156072444290913434782977229725839782012856575943435619715579359916959581153676205799906588847576310828879047236285967749122143671091244110481000818975624347193267297806245798582761882611726960710682004937715531780529620805226922085712363512458571012770034553154189270398020234526522719530123752006084322696355888128654607693860873151731393737244822136364185497321592952817255000353248174393618915084279023000271450142541308559282029268616144112101970229105609314835006619726736893939019513506889489477025372434297323573104313934931958838279895596383771811118147581413230142633968019826186606997850680570982652032422537479310706219474814073971951167661236667680625569280534241354433700661031843552458367069532856912286455220217911988443079305590638585201288389086946536833742112214547741367585663337686729150308108596471416342389638001388292462863919180435668374280202420043830645823003041577251951720361865295351527454203180024831988731584467579246068010428936826517745565298025730226309190589495128053491647395739711627161918652528698853048492534079082296360403520548433668147525035485003535836755226431488560038485545121108855083722990198744252063095308256517784097729590193245004632245013089773279423516150709348026443892953991709363015934952471832229280481225181849876277442140466729001612263449638866632440974925312332572903980384956273370782092706567565396277882968453670269245660131521512447910800863783055854050481506625661127211006672467919649095504913083109825013956550289342212870681467129729677041386298263336755085219944920961822920220323840655874380756529596191986993235606873469736857420902625043405209605022149655415151650854593809846929377303056202747598159519073302009835339817450977248363943472827450164276568234225465953217966186596367415039067400568151592127563838412700251826448676491852082167384822682435057628387371813070265933446309603385744129772853247035275195176844755784404078595456114573802460766936271110684165922969809133869540330393977757329716403806131837253315077709116594914076454513898186981032663886577724145336122314558041550335365086961901131231494098382411025768375120083948265143770199268270309515 743350041748813674891636528649911759717074504780674685290671387668058514619063464193231579563653527061280177261226497961022317109233825012384305822525680809171586187790891022988683862968335851599938675905986460398208326859893747408812570809189732492367659213532585644883694256407382576007098270130017990797695624223869271754925845133027369836832085723355274512013019996060842320347091715399154146276616452470370245103384018442532458709407255221200061622796727002065361168405814201311004231175516151319108735189812353303169840694101464336345957398318425096004406813871933401223936479291656225826680887613358536163671357470067374451294456889324703267327058871109558158642472976902059195207719136771134016059297241049866503411349327670992721532119838555772796375438887987263793633022765071908979173501511549565490349334324426908498973861751928499897157839337138783634934796416719412000695363844527423326327401871637721672476005865611594376156377930457036672685752093456186866708937185459194936105593237932245064809600787769369174233641998271414503809237803907438872009597379069758329799333382434609887693928539874483343359496305908970031135538402932109807701933650012749925010572811192657866376568255720956130940139781145193743109494209002850520181618153626656707266255078552278951307451814955032200501681810695765194315694646778660288579776484467660237560897273319297511853251762181034527974741561880759345376320321819369742227924940876650484406460176885931836705851059631927747391912247682288248531780309781603110391614419551448654734104245693521731871582944655633585827906179496544810928542327075619466970205231637700698627572097792016761179683723691187051546497194754503914567164632449882957272718709293059647939676521271718847044839080000312268317781670571426044823101687750743202910660907943960540896704024786134960222405849868020435528091327563286183936 3085 c1_gen_2_13_s3072).trans (by rfl))

theorem c1_gen_2_13_s4096 : genTwin 2 4096 4096 0 1 0 13 = (7460, 1090748135619415929462984244733782862448264161996232692431832786189721331849119295216264234525201987223957291796157025273109870820177184063610979765077554799078906298842192989538609825228048205159696851613591638196771886527270363897162554611121347039870131175895364997231684593053647618826794614579856602676670284281845766201416027057181639415606083092192539523869977559755142393385005991916740618694464874621182058914711872919357237000234037863530043973031841406043613439866394386826249380336389331586500189959534764592293074496983128343392368979929700500012564760381971186227050701553207010436869272987630414576750713810351239178351559494594285235615902635256235222997641067348999734276083202560956229200589500349721164379300701157245738841179640572111391483149457583326045476502493780648650434908610575782044895357344774630460713862413420547963475341444929648414551550748829990720527773279545086492053903764215340499683195247781807849161420955303453860677388921279523907370706156162745252208094516312923887398763675043771772732741535212668592783826143758042225596524988568034627934051506397465507787155287495428073399685021064090449230982341444632012013525606961653447501316917290031696559345666178758758965083325807537427790571157206667258235229183790268850862514991236173710080276051641520382645591726180263532046203696847746288064873459079852895996392991218176300281032666797308546649103097108789182886229359135109665289311428685952146850805259044554923815717686679311734541813025979515326521254735101637219572890141421557611964326306042753400387095992425428497260553411973245835948728491758105116413823038773305116137575231668991021617299271205016650719505913296684945345440075431171408774629748273276829587621454259449212326266750295191498925467947165053473336001254311054830166659973871886447665944647077473047732522639679674311185398927936578080661495716327781009571255220967487246368733919279027268138433183769893927170349384845445559573731985493368636265837669895187171823796261775924714820871845988722553315551514074192323749580293836890341592478450021109179975082077167915399308513810704155849338620504313381462967656345201348354141605362272075797800748262016124741530052673314409375379235215845114725784544344377121253830542460603732689255563897495342971953436122415744039001021884840207500898649044293873120684476239791462851439318047726747131140533198711925646921853876934197501396167489653183464721168034394467914380807372106668502145132889945194635, 1161905357228316056413098492536990648824477079258869998506444130105424314969367665590951110131884902143806007508335010387696690190184222185328809902500771124798065089775268511128430135934819759720368856113024314613853255601762754875236979295974242439557099149210819440099800694921444633383492815538120451787540019008633950142494746848405523718781959994231526288415047698602945110982364235137931063764446466944435005999006861771301647729608453045520190145074497992538501627164287977593398565769863354600700039973989712223912519546203571653189766792092216185876020508571705649391475685691370898765138009264607404708671637149360794256603560459436470679937641056178436889036243340008128588482419422519522299985791965678846245608607435916484537762924880233963985975585672090534937325138094320089419662245406133754647875538476340772960482090164196785137397950444516639066714533990012450765076648570717316213704427147855617770935678959671796956502404432054978615620256636053791205416109164322616765926025999511066839793208136043512865140576512764124540339831184116866557647511906006887352936274144033893981440314436986728255394756204761037269191711216471938446193608895146682476509953396245264970945125115984732986687478386302422946303525221849683283022309707294593881065460803152026741053909216283601848447401922356211475867431499992889889042380831284971952824152664552426408472081692324649946802982533949872016679874766742889073031296811356181688602091118097024135918478317412577006078256866890837376742826262566155772041207643142884613347191951295618854138034395468523983322115355322768573723705773522070261653706175476920331776156233052890496443223567366535230548861326562776157902263604012836336086898784602066369250723633563402702204009180277658942484076518010849968253279418417783959754115779020258933486201499322762656091534110299588085096553338568664751887801062555443940595592858217252791062687584098795362022333288564088198979877408074224364512769968488101640560017588301871000468540304059697755708092096857550095964013583720424874732173431417177406117615502297391637321505505133338824256742026078673956505385160396399859107514459430013459163485151987361431862216373067946481345214542262815859702763672162148634689312941112720777446519459057632249123571881650546524193412753941051575639620476060792035196309146579895226328713187072608284560087974848229264442885485349599177234687271342416729262937341350454161618087292580451395492493144329246878990353259554456681316352, 4109) :=
  (congrArg (fun m => genTwin 2 4096 m 0 1 0 13)
      (by norm_num : (4096 : Nat) = 512 + 3584)).trans
    ((genTwin_chunk 2 4096 512 3584 0 1 0 13 3308 1090748135619415929462984244733782862448264161996232692431832786189721331849119295216264234525201987223957291796157025273109870820177184063610979765077554799078906298842192989538609825228047878827437255704200228223028051097290182689202860073762498663396489392668345019760235938016807973660561816066132922764014053091402348340639561754313006518784225034992802874468357879204778625374325174490600895154177347808760704660539116614321749139631933052275744249088150619866689310283716322362106764432104345457193505387040983430465254268767368590110666550418129083027491216097940138834385060739094842006174595777119093614879722860896257458420036301652550628842414760119119267155033856914333533832366476386370059497001323385604096550640870949020417262832294568689671901928848788673685809228349516536038493439441363608007222441271197490596681406683967536943170426652442354850266087056454444527817034658034037560286325095821433522299103177279960021429604610317190356873481593177757534213009331362438847628428583276899674932237127268348494760724549755584881561418784778392947175579277163008737227724578964761989216758703699704100671770798392682061379725920654492798356503362593552018560492115684727627552574407656166185518381751813977906340547677708154745079195481613690190827850234903713330078378773619159476247361304580103297696397258030911301381333328607536058130270536547143568872873509438059296504226752183816245027415805582230954952143044158830796481609403672263014356680325026120109974020964450333007672654793116811725087324982733087683537059321439376923741332952956879374111435090124136315454511519850649107485366601270034725563507532859441692215707331296964932294579751196346518208294219741841568536671866938592721716092431316174462680016835578733078618308509875618825709064052540028521481416662276236431967413301925310819790564880083833160848206977697181478984378343395531019017277472090874019913486183365094385746495849993310972311487349365130350923201017044625941729305825400844768055480669292158842380334717520380518347334159967661319542998974695733017023432307473386973980887503644341019396883247575707813603867477748977338758816676412879294625255972322657315028350754207781160083087592593493258715308248597649600347106457690186956208771046920345564147710469679285802828210252165158212096562013309111473946380327952638353476001802408971731959468405997198556139868911691126205032212306223708616450459648328809687279300192488514366817065512032142122054405867895308427 8083374479564071280508279188074822823389795269896473905939930131787756372161618456371300740819120242543390794112816199272368568942078047384452865437150735434939340595948562669390481779103976783470434474565864580606418123179069733470019126435244858870171119738955725489839173226180047568285096824267480501636857398606016372581264539829818890099371558381633958844530231242320358216932446011783153689865233026484127367133407190278860416138361347969093881742165299658757618154004877547679392145539701827722975237540170890615648167538572790236763235469562027163920082520479402737808246672535525244036728520420365504059834490700309210790463404353728332326895174735070622854915152997687955821852773619239775218914666725125686184446020591149420499921911709283104086463518468616283827240412968287202635569295660515889091687814557591758173766427316235881003564236380829715209174514784493577494660783969678983571079861523609753018277309296126243112504822640206150538729869501002585516787955117330697166966941653702184734541717986649638689329025458353435539786264361765003849189376718541332537979561489226228329776031643081268588205585564145314977878508105335639517039175988890907690970422961756683625611264747645299036211167955917244533511760778087878594479312044489643175487092234077484769848958864369984074322346099129147597735647571499591000810037482498444992691795825506629569999881940598682040759449207985674585921777597427925209956315570679647926820627575933791129065612873016808286207384995702845880883850851628512003461839797432025032699515604425666445113934243722727656255459400918721170590858432225149870158102765534371080808368366218867081676092503691869345379336124488495034355567517995939962885821095302548508921563636376726002927987686890924113939541457896350156475602346043036086140244103182108332119462156940230716794403811234369115032750175197519320935260039378253433084323335201258385005871805821340862325962151608949330586336179733888572156129304475310056817777430734321546189556173157446733495922997611701461661112198648313672803479039200020775791633726066212543230496512652198114662972680655409760229104503288339040995916576545702246807413127798895673344 3597 c1_gen_2_13_s3584).trans (by rfl))

theorem c1_gen_2_13_s4608 : genTwin 2 4096 4608 0 1 0 13 = (5532, 1090748135619415929462984244733782862448264161996232692431832786189721331849119295216264234525201987223957291796157025273109870820177184063610979765077554799078906298842192989538609825228048205159696851613591638196771886542609324560121290553901886301017900240431281816621037860091880073489834692389330760496556018212329920702464133859746493720133176521162608759076652486892680836628509390491831995891773280445880355081282933681943186878723752299722809629717935872486499420574147751441791544868146074352489971785690073771932327448319909377404422048589655539022848624431646930362632757684587375730624321525017414711003531038737643016551889692491999419846876045155417036327707498259203446032060968084862556052518881613570712664608271967251180006832940686122458955421587035206454446877359854057117560374968732785100772760589567079271323838739880178636777811179709598833452087481831301376300597680513565025710610571313749584074187739905180915750180820697132128796831555339266033675908781694477861540687909497585755259182958239122825156736059507867196833967341546459269529416819392540553542115421609942942555103147107773900148972818064284555060244522886453247164250483900361574388148729258343169984614755837137135559326970180794429408715264351705582866102875980283320027774515563837494656606012881084249923278025681061104203813135985877535204259674957729406556592058703657444210250220246858469842699573960838548639850404305858496319606532867263689414937314309437333232597369164719369706419596853315918103755351050788858705491439108487760097341654553079503156560704673487260404101461992648636462605788571217295920460749636066972962132233541743164572643862294787830797618413368091756758817128375359468455801698057168900332232262516996158495832026834111126041232227209643569679295100039039712591965492066646004396453855625635101941470494339490977863183048180962550682800722298641825426998737691804110962514415235719073428938353142072383606332959542302569254966433526832871609717507705503827939508185405599545892621270040314524707387082672792433999926331818054435564836382997125096224358873273881358094053768582587675958260491845303489017549342060980337469656222222186597044332923918474893278649021392318101890655462082602666848278723215880757041468225036819291269972197239959624774921166681020142783027298141155995367379682192096372104784341158624630888809722811375798583675343081009480252694643726156589305984790555715321022157919302770212261339529441355142778013447985610891, 270114788880792629662737413749132479221889443766771394321186733159251559024006840397874803384502417251920342561751291345966813726110399919980890020083275966727081779818845647109561997223798949665497195726821520788998207172937631399770109347627711113840044591900267640714850504067800010807146934112442457684146999351780409515247062514086338902343341324707338078480246986173949620253105751719366727465752464122317949419114398867583040742418386487122322313618979922788798490015179233352459980704445036531523874544797825469959302321465013600926370875405114505102722352415626009234668775807565116829819054280148477345383536614153167513510316015428197483246489824508684828281090087704387672203465718784285521734119554078646799257873735453491273670356370897256459449200995033862753496580849887587879958919573808192238851976359768157054767547439831194367210670743233599327704397382282537099679309862739714451397098860761280104817621420093374750849185064398682355498319188629852040069465113482398743027565252480234510201817113265662776381767308830470011319858269178398187692493781514362948743784959885945007817860917520215684626182679262779834853482410093010191610065889242477234518967184784839684502358612717675512607392811231515763817136700224612696733977891438020890516643790637451447594054451088149647514756687013064599668249741923677524870797064367245007818295064262806878555188395748769454015776957344473112803543479646352474349572934536587292000814550022844159472564811733423188794499941521333095554178051302353831969182938305608409444349077307285165181526700946187810159086154002734408639998090958277435404015859524421132173578757186604795943100301537522677866053987121845630843288686030516071299829572219942724502977793501410450246971610671553871026796092528671622501522266906276980370928645947445751429368860090688634682464051394915234725746200031562899866622938508004003627552749948629558308101233165088999641577098713626743817626381669165176713176520689132505239488716848658996721320095046956200442529332216897094686449572104728639448746499341682607637005716022992597043627335711350421186872013518017324156621769956300911523398155599952002033963081648168087600981687696673617346941640144148799894257047350914106598789021746551923462600807893081557449137193371593044419660709440872210217247269597474495558898997147081259670788708137310689874708697618710585935210491050714181815583028314320859991842803050303229592422500952641386072829063307692783632256440855464853121279043985961772714172803651598478333431526535618416145378725327960332967387074435066755301943970013740723627986877172063520015424011525356172852378511520305798901599145817841714811478873387236802912345781329085086063754575177045484739528315666885519421469326870817545820005671607909244676737745938665616919494656, 4621) :=
  (congrArg (fun m => genTwin 2 4096 m 0 1 0 13)
      (by norm_num : (4608 : Nat) = 512 + 4096)).trans
    ((genTwin_chunk 2 4096 512 4096 0 1 0 13 7460 1090748135619415929462984244733782862448264161996232692431832786189721331849119295216264234525201987223957291796157025273109870820177184063610979765077554799078906298842192989538609825228048205159696851613591638196771886527270363897162554611121347039870131175895364997231684593053647618826794614579856602676670284281845766201416027057181639415606083092192539523869977559755142393385005991916740618694464874621182058914711872919357237000234037863530043973031841406043613439866394386826249380336389331586500189959534764592293074496983128343392368979929700500012564760381971186227050701553207010436869272987630414576750713810351239178351559494594285235615902635256235222997641067348999734276083202560956229200589500349721164379300701157245738841179640572111391483149457583326045476502493780648650434908610575782044895357344774630460713862413420547963475341444929648414551550748829990720527773279545086492053903764215340499683195247781807849161420955303453860677388921279523907370706156162745252208094516312923887398763675043771772732741535212668592783826143758042225596524988568034627934051506397465507787155287495428073399685021064090449230982341444632012013525606961653447501316917290031696559345666178758758965083325807537427790571157206667258235229183790268850862514991236173710080276051641520382645591726180263532046203696847746288064873459079852895996392991218176300281032666797308546649103097108789182886229359135109665289311428685952146850805259044554923815717686679311734541813025979515326521254735101637219572890141421557611964326306042753400387095992425428497260553411973245835948728491758105116413823038773305116137575231668991021617299271205016650719505913296684945345440075431171408774629748273276829587621454259449212326266750295191498925467947165053473336001254311054830166659973871886447665944647077473047732522639679674311185398927936578080661495716327781009571255220967487246368733919279027268138433183769893927170349384845445559573731985493368636265837669895187171823796261775924714820871845988722553315551514074192323749580293836890341592478450021109179975082077167915399308513810704155849338620504313381462967656345201348354141605362272075797800748262016124741530052673314409375379235215845114725784544344377121253830542460603732689255563897495342971953436122415744039001021884840207500898649044293873120684476239791462851439318047726747131140533198711925646921853876934197501396167489653183464721168034394467914380807372106668502145132889945194635 1161905357228316056413098492536990648824477079258869998506444130105424314969367665590951110131884902143806007508335010387696690190184222185328809902500771124798065089775268511128430135934819759720368856113024314613853255601762754875236979295974242439557099149210819440099800694921444633383492815538120451787540019008633950142494746848405523718781959994231526288415047698602945110982364235137931063764446466944435005999006861771301647729608453045520190145074497992538501627164287977593398565769863354600700039973989712223912519546203571653189766792092216185876020508571705649391475685691370898765138009264607404708671637149360794256603560459436470679937641056178436889036243340008128588482419422519522299985791965678846245608607435916484537762924880233963985975585672090534937325138094320089419662245406133754647875538476340772960482090164196785137397950444516639066714533990012450765076648570717316213704427147855617770935678959671796956502404432054978615620256636053791205416109164322616765926025999511066839793208136043512865140576512764124540339831184116866557647511906006887352936274144033893981440314436986728255394756204761037269191711216471938446193608895146682476509953396245264970945125115984732986687478386302422946303525221849683283022309707294593881065460803152026741053909216283601848447401922356211475867431499992889889042380831284971952824152664552426408472081692324649946802982533949872016679874766742889073031296811356181688602091118097024135918478317412577006078256866890837376742826262566155772041207643142884613347191951295618854138034395468523983322115355322768573723705773522070261653706175476920331776156233052890496443223567366535230548861326562776157902263604012836336086898784602066369250723633563402702204009180277658942484076518010849968253279418417783959754115779020258933486201499322762656091534110299588085096553338568664751887801062555443940595592858217252791062687584098795362022333288564088198979877408074224364512769968488101640560017588301871000468540304059697755708092096857550095964013583720424874732173431417177406117615502297391637321505505133338824256742026078673956505385160396399859107514459430013459163485151987361431862216373067946481345214542262815859702763672162148634689312941112720777446519459057632249123571881650546524193412753941051575639620476060792035196309146579895226328713187072608284560087974848229264442885485349599177234687271342416729262937341350454161618087292580451395492493144329246878990353259554456681316352 4109 c1_gen_2_13_s4096).trans (by rfl))

theorem c1_gen_2_13_s5120 : genTwin 2 4096 5120 0 1 0 13 = (2952, 1090748135619415929462984244733782862448264161996232692431832786189721331849119295216264234525201987223957291796157025273109870820177184063610979765077554799078906298842192989538609825228048205159696851613591638196771886542609324560121290553901886301017900252535799917200010079600026535836688834591992115417417519214650171467223075798748813251612223551758756888817518909997397672589806956899906157078234993789005576438701310866101940995561853453383132390925434773553810122628854077038245748815972573819803748192732435594135806198494043956052517597471839024480181062973030184106210922908686677135414013793752715097319349058737273992434926776347309697505965335891405310860223968154791468887520095816309729134139192687746989515574489086894711278222042056642509884953487897959193630980176114311334212592301108256761086506244658955541740260707459267120724770157402466785448218492611630510620500196633043066300838999971731258913263702787246133320667561029534424636169489508504384997769372847311056914833971967232117692468012959480973320010698634087210823640732134159135799201968490595508411452684862048367151652243831681129131676277767461600850746808693921258135376933308678956919280441931715910864654611599446511442890916163661533939997031914754644632063047973829266259056875469451798498277306184679402861983968566180081227842303884493555306809673444335903941068798408723363805803331203973244431495698544190806798730730214692221865724535673521190264857724242372761495697711787345330124119654194192238034758743768921808730979883669069920760469660586387723336654835667617231253169063298147902844335791998506936988388408792583134859292326440397226201773196333877646508255574123359879598909952072508886530689935820746841107119412338067562587922256132437501028562104806874424079942366025592436180062516926795789453834834469485338742378313538568097028516233002590777530653187523615579587235195467243296670580616807782318567068533940443054835909006862439684533430554427008252311377421724139088372911710572495441717094978787709127771413236442615370475173726661828261647758898929101790370036591015728743016053047798261113080238755239648169836927775714684293258781985929152981849422028558575049074191282776038697292164967415461734360272468358880712488395256123285629127840165226447391605555808188626549431270409382375145781319510535251116248783192284247749752119178527926820604788632909396550974388302558774964100893784269400240394807268032351089131088900767715086057897228270354571, 9288017811593294427832339173482002545408835037284647638858830515575199158153353534960889798328011191936900322729187039845827201903371790621541097433790204124631324151597407207634062083697929783894424547145469280065131384673756792943587072944465402734581441894570735839156855014640576560211002745066943867464389171828214050115158743425000544495848480602286927709446409695882747563163671326886629087729934475881346452940298252743990449806658308456112556583937931495876590965723757418873356834360079809897931477507482789795754134744857029952199500957490626838862183338834958015966902443342404506148758845152730446805462821430601180214824541943771169168684350475817192947852012244916036512850382292818690201253289724310985017881193298383991875847892389169746702646917404696149465900082121864965756798634816008483566342107130757323076177293186626673613588140501685186607362587653863306836140810664685564309270386650293135757556246902080226030330176953551745926254031440941031628943207074711784515643457015706653918557158257449312923844763506048798525541223107562050669505099337244562170548428704343233945677167436129480614310358710961086840524601914833000017725975974943472505841885798745893640394521664317578440761571712775843195163155517370305985050398019070390052000989438230569198155683032282123016893710883916977609946234019299574544572854589375828823952106802768395820252765305918319241031873342286813565936163801452768154398776984536139556225385319759025683438133950712341633327959150077451597882806049662897595044422431141561634739711893753803002375497277754130207675149080765081507414517760129107119108509724063490287726338400193986618257517231910423995326268524981333797881167739207023504717429117792477592444771039901416960854604225447729446294634685546067423972681511442861635004671416251664137985829538657405347881721203704062935588458568564265539995213136548171502989764505128673707440165392916063424434410225799332694256228986351197824200222279677809689473943184403507554600977579618873973698198000719129457390119841893388480567409368200635063528408707216792684931647432670522486465239934600860173320304624914381024995649590534647113365361557547103170348986207111717966633551057468987728466821499247416968699588528285252108109426559292132874347914619038911474219247117458245686524244694887213878933134876861355882628754715965371126247883106753959295512418960878972193890742031882894725493780978270082785605231002747961699761009796211676227473919783238642089412316334529839039129019679632743159774715015185976522712073796836646381960491580969229005468189072186846743267756987075801517413249762743254408452847378662511882859068561567154162581544492720727759126045401634493693936786912702037826469470256387657990119446208290997407940201362362377400997835668629999170811330071699242730946657494998843941931562141402600147964369322284790137319117993521374071452658078659366495590019247756119497452148563849872870645408226503765366360272173232126801389428978041600890005430751754139875392719536939214717469313268578878692118737607770813283177234316784853415542913786905901168739745792, 5133) :=
  (congrArg (fun m => genTwin 2 4096 m 0 1 0 13)
      (by norm_num : (5120 : Nat) = 512 + 4608)).trans
    ((genTwin_chunk 2 4096 512 4608 0 1 0 13 5532 1090748135619415929462984244733782862448264161996232692431832786189721331849119295216264234525201987223957291796157025273109870820177184063610979765077554799078906298842192989538609825228048205159696851613591638196771886542609324560121290553901886301017900240431281816621037860091880073489834692389330760496556018212329920702464133859746493720133176521162608759076652486892680836628509390491831995891773280445880355081282933681943186878723752299722809629717935872486499420574147751441791544868146074352489971785690073771932327448319909377404422048589655539022848624431646930362632757684587375730624321525017414711003531038737643016551889692491999419846876045155417036327707498259203446032060968084862556052518881613570712664608271967251180006832940686122458955421587035206454446877359854057117560374968732785100772760589567079271323838739880178636777811179709598833452087481831301376300597680513565025710610571313749584074187739905180915750180820697132128796831555339266033675908781694477861540687909497585755259182958239122825156736059507867196833967341546459269529416819392540553542115421609942942555103147107773900148972818064284555060244522886453247164250483900361574388148729258343169984614755837137135559326970180794429408715264351705582866102875980283320027774515563837494656606012881084249923278025681061104203813135985877535204259674957729406556592058703657444210250220246858469842699573960838548639850404305858496319606532867263689414937314309437333232597369164719369706419596853315918103755351050788858705491439108487760097341654553079503156560704673487260404101461992648636462605788571217295920460749636066972962132233541743164572643862294787830797618413368091756758817128375359468455801698057168900332232262516996158495832026834111126041232227209643569679295100039039712591965492066646004396453855625635101941470494339490977863183048180962550682800722298641825426998737691804110962514415235719073428938353142072383606332959542302569254966433526832871609717507705503827939508185405599545892621270040314524707387082672792433999926331818054435564836382997125096224358873273881358094053768582587675958260491845303489017549342060980337469656222222186597044332923918474893278649021392318101890655462082602666848278723215880757041468225036819291269972197239959624774921166681020142783027298141155995367379682192096372104784341158624630888809722811375798583675343081009480252694643726156589305984790555715321022157919302770212261339529441355142778013447985610891 270114788880792629662737413749132479221889443766771394321186733159251559024006840397874803384502417251920342561751291345966813726110399919980890020083275966727081779818845647109561997223798949665497195726821520788998207172937631399770109347627711113840044591900267640714850504067800010807146934112442457684146999351780409515247062514086338902343341324707338078480246986173949620253105751719366727465752464122317949419114398867583040742418386487122322313618979922788798490015179233352459980704445036531523874544797825469959302321465013600926370875405114505102722352415626009234668775807565116829819054280148477345383536614153167513510316015428197483246489824508684828281090087704387672203465718784285521734119554078646799257873735453491273670356370897256459449200995033862753496580849887587879958919573808192238851976359768157054767547439831194367210670743233599327704397382282537099679309862739714451397098860761280104817621420093374750849185064398682355498319188629852040069465113482398743027565252480234510201817113265662776381767308830470011319858269178398187692493781514362948743784959885945007817860917520215684626182679262779834853482410093010191610065889242477234518967184784839684502358612717675512607392811231515763817136700224612696733977891438020890516643790637451447594054451088149647514756687013064599668249741923677524870797064367245007818295064262806878555188395748769454015776957344473112803543479646352474349572934536587292000814550022844159472564811733423188794499941521333095554178051302353831969182938305608409444349077307285165181526700946187810159086154002734408639998090958277435404015859524421132173578757186604795943100301537522677866053987121845630843288686030516071299829572219942724502977793501410450246971610671553871026796092528671622501522266906276980370928645947445751429368860090688634682464051394915234725746200031562899866622938508004003627552749948629558308101233165088999641577098713626743817626381669165176713176520689132505239488716848658996721320095046956200442529332216897094686449572104728639448746499341682607637005716022992597043627335711350421186872013518017324156621769956300911523398155599952002033963081648168087600981687696673617346941640144148799894257047350914106598789021746551923462600807893081557449137193371593044419660709440872210217247269597474495558898997147081259670788708137310689874708697618710585935210491050714181815583028314320859991842803050303229592422500952641386072829063307692783632256440855464853121279043985961772714172803651598478333431526535618416145378725327960332967387074435066755301943970013740723627986877172063520015424011525356172852378511520305798901599145817841714811478873387236802912345781329085086063754575177045484739528315666885519421469326870817545820005671607909244676737745938665616919494656 4621 c1_gen_2_13_s4608).trans (by rfl))

theorem c1_gen_2_13_s5632 : genTwin 2 4096 5632 0 1 0 13 = (3347, 1090748135619415929462984244733782862448264161996232692431832786189721331849119295216264234525201987223957291796157025273109870820177184063610979765077554799078906298842192989538609825228048205159696851613591638196771886542609324560121290553901886301017900252535799917200010079600026535836800905297805880952350501630195475653911005312364560014847426035293551245843924085408867166598347875904217018363800589481362225488096705172620058126408005975324148430305943205095970825155822186401215025464405535803747507553247977882044651166442021712742852985908803806729635395184351940951365762319692402527622415562303976922266717011891354712011213017576482617359928371439429258592138353637111174662984492970226647757852672089231245892432882950156146194899009892085162897590491396146011215306529881045670827552927804808021591939090791436677280141277478816559863125845101861106644064155630673947152865133297618533788974334160097361926133422258475084488495231670027493951975435997213403911358945418377795299053277557251164132980790269176936743646320807717887833312326902470024418722630077046814239901749805463679746422716054057255850061770609739429225989392449713638100460732384553704682838080778411584164954747607914618249618123704259788853043169731025356508978451031297443346392157789901511713724079312052881071503744336633529443526799453161176127643057268876319561083501796062434495185643730255780010034204010723790514997063183809864993766296908475513932888595718589429261798318212158807144437931522364273686109928576148099066112233053672466757456219019513676372635265826590439652773359792822358162657344106578275712524361315163972511629247893351990298819749634805338202311041394520877644682530407833614611452070693387781915269853048183369991150706880223339742008254166270384021751619868532416627420923889102351041525091566466683627012832875806619873503559261312984002010504596837548436371040911688043342639861489055558529933770570421207138021791556996560239255133581190488592954844854629327959798660999308775809125261252111967610638608357729448348921376212479571554881478569321480667392600128032886522498882454438506532131033660433021954401555144603565748792058766775213567868195408593854460624514587009818098561475607056475812678925053089589753866244778372059903754509965695888412193283916184210392327201994450160925810920812687095912906734563652253761356294711347638241140969056706934224904817783871682032690924508202135935768642859625338281338138841779315710236099050791115, 133309723101439297606288728804101461010393300273211674361218104200257756704458901022881189202193651787257371324114710646111055969389810883002461386214642254124190528009315605674070261826683054737605281180042651828965648219970502050535505952965847964633665775888686652828604298732128277494854753255408132836954890389585072093634624432037782445374538806096852186596638994324796437921453779308787926064279656929660566322471109566581583048762206432327601233059563911317205915542574393884667144507660223035835481342747937248830524480877435436134936779778685741151717162093115265402650304375171343225233068121347625728265258314236832915813611246994151564576673649108473628948653402906752604072021100924885541518088254071143995572811925367903644711633980082833422424429767905638554016383747164938089498186092305033643330373637443767629296676324356395902330228726411540234988401419124672272157472898780259727236482580575716124238389204639286953730656938671768180799431030402765381584006135175551773293243058020080994504939222964522132487485331567867917567300447445571164077308175356580831098697002280777716349716656631734606799976781147825531832661787515466369084409423138497423243504921665314861204599506322524834211245186706223041286775084021072379154147069395136211157018428146477121694285580324381236479453448361222203528530095032565986042058375064073556911310081642314088438333875556481077878483976575659918563351214817717061562921102501252118035862654393920376587232511586346710905661134631418103396181653175733140674172757917779826126839176852642376463197902070599351217198955942063697468901516312448063743055584779291200078566713027133193490947885769263046315542562709550217557679010208271424159961348118780360313603597376476826197498230372760278588080593629169431886767693457204682779185866904690633715691762308948341520708838341518358794387108117798921597515940467536041852914600737564380030337694622258784264721031144471658049608997268197281137212225327213593802349795252126693007856530195395856871776180193719826928656758084851905628775970958748131174406291947589677529959238029062701182906872721285362470754072654634394156135662651076313286283651409958385422253799503189337041648789700671339181363860083590112397788120437597976399742464761261649427603554433844866426125744640935160465378846149115623378753731474865875674792441734406731606289384706967391722350480602235042766393768705917721466377801391786203504242310786060207728468603078762778423954011040255965934747054736042725578548214814702070341076288256093060522096119878048037740176765566298695477073619717672093889994593507920987787015600825787871273998719074650173328201807812260849550784363991756155242717867205941520480877979859961176079598702240722650778430793723979797998098294238486432970071578042296975114668441984849326405452019245525616024031365774425044815849964413804164871188288930656418789995172517513599028483528546072397070722642654671213042060170563897176867970924410745204078807676768297657291806247589800049917026245818629322647370568175975242938343350865081919631834952222391735483251900842649986003791165926392237045726502556584494537993238898015106637113524010549828421016064768785587310876130282049448387377167518109083115887634788586319990120807654927469114003165486641214196759771503516013330539138342900585391782758888218982233834113088695073260844921281029394149649482105254079306211838025916974307665608966144, 5645) :=
  (congrArg (fun m => genTwin 2 4096 m 0 1 0 13)
      (by norm_num : (5632 : Nat) = 512 + 5120)).trans
    ((genTwin_chunk 2 4096 512 5120 0 1 0 13 2952 1090748135619415929462984244733782862448264161996232692431832786189721331849119295216264234525201987223957291796157025273109870820177184063610979765077554799078906298842192989538609825228048205159696851613591638196771886542609324560121290553901886301017900252535799917200010079600026535836688834591992115417417519214650171467223075798748813251612223551758756888817518909997397672589806956899906157078234993789005576438701310866101940995561853453383132390925434773553810122628854077038245748815972573819803748192732435594135806198494043956052517597471839024480181062973030184106210922908686677135414013793752715097319349058737273992434926776347309697505965335891405310860223968154791468887520095816309729134139192687746989515574489086894711278222042056642509884953487897959193630980176114311334212592301108256761086506244658955541740260707459267120724770157402466785448218492611630510620500196633043066300838999971731258913263702787246133320667561029534424636169489508504384997769372847311056914833971967232117692468012959480973320010698634087210823640732134159135799201968490595508411452684862048367151652243831681129131676277767461600850746808693921258135376933308678956919280441931715910864654611599446511442890916163661533939997031914754644632063047973829266259056875469451798498277306184679402861983968566180081227842303884493555306809673444335903941068798408723363805803331203973244431495698544190806798730730214692221865724535673521190264857724242372761495697711787345330124119654194192238034758743768921808730979883669069920760469660586387723336654835667617231253169063298147902844335791998506936988388408792583134859292326440397226201773196333877646508255574123359879598909952072508886530689935820746841107119412338067562587922256132437501028562104806874424079942366025592436180062516926795789453834834469485338742378313538568097028516233002590777530653187523615579587235195467243296670580616807782318567068533940443054835909006862439684533430554427008252311377421724139088372911710572495441717094978787709127771413236442615370475173726661828261647758898929101790370036591015728743016053047798261113080238755239648169836927775714684293258781985929152981849422028558575049074191282776038697292164967415461734360272468358880712488395256123285629127840165226447391605555808188626549431270409382375145781319510535251116248783192284247749752119178527926820604788632909396550974388302558774964100893784269400240394807268032351089131088900767715086057897228270354571 9288017811593294427832339173482002545408835037284647638858830515575199158153353534960889798328011191936900322729187039845827201903371790621541097433790204124631324151597407207634062083697929783894424547145469280065131384673756792943587072944465402734581441894570735839156855014640576560211002745066943867464389171828214050115158743425000544495848480602286927709446409695882747563163671326886629087729934475881346452940298252743990449806658308456112556583937931495876590965723757418873356834360079809897931477507482789795754134744857029952199500957490626838862183338834958015966902443342404506148758845152730446805462821430601180214824541943771169168684350475817192947852012244916036512850382292818690201253289724310985017881193298383991875847892389169746702646917404696149465900082121864965756798634816008483566342107130757323076177293186626673613588140501685186607362587653863306836140810664685564309270386650293135757556246902080226030330176953551745926254031440941031628943207074711784515643457015706653918557158257449312923844763506048798525541223107562050669505099337244562170548428704343233945677167436129480614310358710961086840524601914833000017725975974943472505841885798745893640394521664317578440761571712775843195163155517370305985050398019070390052000989438230569198155683032282123016893710883916977609946234019299574544572854589375828823952106802768395820252765305918319241031873342286813565936163801452768154398776984536139556225385319759025683438133950712341633327959150077451597882806049662897595044422431141561634739711893753803002375497277754130207675149080765081507414517760129107119108509724063490287726338400193986618257517231910423995326268524981333797881167739207023504717429117792477592444771039901416960854604225447729446294634685546067423972681511442861635004671416251664137985829538657405347881721203704062935588458568564265539995213136548171502989764505128673707440165392916063424434410225799332694256228986351197824200222279677809689473943184403507554600977579618873973698198000719129457390119841893388480567409368200635063528408707216792684931647432670522486465239934600860173320304624914381024995649590534647113365361557547103170348986207111717966633551057468987728466821499247416968699588528285252108109426559292132874347914619038911474219247117458245686524244694887213878933134876861355882628754715965371126247883106753959295512418960878972193890742031882894725493780978270082785605231002747961699761009796211676227473919783238642089412316334529839039129019679632743159774715015185976522712073796836646381960491580969229005468189072186846743267756987075801517413249762743254408452847378662511882859068561567154162581544492720727759126045401634493693936786912702037826469470256387657990119446208290997407940201362362377400997835668629999170811330071699242730946657494998843941931562141402600147964369322284790137319117993521374071452658078659366495590019247756119497452148563849872870645408226503765366360272173232126801389428978041600890005430751754139875392719536939214717469313268578878692118737607770813283177234316784853415542913786905901168739745792 5133 c1_gen_2_13_s5120).trans (by rfl))

theorem c1_gen_2_13_s6144 : genTwin 2 4096 6144 0 1 0 13 = (4458, 1090748135619415929462984244733782862448264161996232692431832786189721331849119295216264234525201987223957291796157025273109870820177184063610979765077554799078906298842192989538609825228048205159696851613591638196771886542609324560121290553901886301017900252535799917200010079600026535836800905297805880952350501630195475653911005312364560014847426035293551245843928918752768696279344088055617515694349945406677824476639560993275389181631349867255669798494431664876500914153158401182273840400170588672233990851893082737659085654905357477808085764580169594358152960596563102273104400218016586451410157434732051655253771840994724066482014866013563325868298676424542696919196251531216643256997359377399458002018886525854990206034619332663779238345016996711190261543962376332826857048468054535729667854411469499538601700198252110489270149227460892094816851704911391322059121615151329798405488757867427578992426055907002879779861228169538624513836139498519781174445948425602814417044971687110461093028426366163183804733007533846957372625797222754457711405791465702069866030449046149745691490360140693812580227344416067958372450999683512318964590602221634382179771090395915935531550166532897195610073416868601318297901844691366658320087850657318021740903878161764246738691462804305940144288039774485149853787509824858747185526907113982307305069161512853557756533377477219221549173826225961762177789129161122836307713066891683577683349285624877922745107456809469011308358465632434277231734982342850614963145733194154563362331182137907227090138701034805456631861390540505746783083486016559685745035583219482998188265417416305766190769991017460851538184750391627100584066183059682940432895915672205846060282755280580382271637407537291630766210370417731221527966086761234980717985996846967377533109767192863911394035268527434549285595340391848740649850326493471468922270530765176986474189988179108514756802881679233413482704654238040369031841235294952951333784351748936923273623279896296907809205011463826575226629308143711081835088924118898287520525861231361952782787089037582815079008223542998428552976817042712292802916701258365930674498817740946996725530699086273874950863251065354176305948539261205898007094978966851783625047112774810318081994786245037082194056725538653509574928894138822293674441424582506925669097543557247287092707437539065580999474776564055077631836201493313971904754448686773109192264817660441123870321182474248526347732213170159260998466984910840011, 5100253535065759711942527729770233308389159740130627967343364079850182466421614959920425280700726084568705354976237693936883368810695631455890932389704895606585742432146791785921530857295305896110921707510087885104993789592448193688713143915113853655128495508762666443544500437065815407046701382828646498902619058749589688134745632693491922372152752634500222177348952512892850189849547535161782611742909368431105633425581836401384044461013209387086733999658628795413439987788571150877890494581241510031903247646259151087730481509158633026186400479742769960980378437691833759532003356601940582024529543374297903502001122700998835962429880683151332334511024158416982008128563776586424587319733293079374433915844395378681796771797570009330009811598130456825390532639500914312549774481040105701585753195632841759450881868118558737459907795754375698481471392337532999243610180533134669157125202285952159492199492608277078148985508092413082084619902024975218457740054409617483133842156532755037197421202274881247973377408934217203940664688501480511380222926581224409748371185991158793718206598486761478210555022426717729966685459635878065579336877395770865903825827264807335309650465799118868023782096002344875596430695789267164411829223560085938161363853401140860359247243811172719385727105989417094938192091960453008948196993132215025202813479804533212650745977374355144751131100101959572110278309406221206613566126098775835130644236351952337271632517294840091209068586373748643165692370253706718378239781771848676947795271490345986027055871131620828951108004347989078693374602383246037095272879268914207770815045678120709968094102318875761855137924136249105742393637603027638612075391330427101205850882510913837363428891278831398646057034671271859894213360842762110546582017511139732718746345673486989299255719099623001183966595796973407052500533100306274782209630128934398071841073506622404138989488387003374972350155710224963883051644290847291391701104128654178560453674054724964908307295975645495638132787039942244376094945054772321222133910694306335674310295422355796314121703430408404191229909385501949602361708442784340557809049188111690050145072515010081678923205269294302388074288826566400992825810189044224942640421501546100190336074510650261875464268620672162898238934112035188159302781467154431229519906435734515456872527135069342270320370588883039481402502259545219701199864614480747689755113338024000170609514912553076943318747066452293711922790521436191325972838495852116926604562099150223135827555395610014124741826637738465382005628110871176615147557871707043055441644951551700912246847446217090784964206518443314306479391842087506485809876345067854860886600515008729262863062062506951830695544257590895365841649544903578546439532494252201315327572975611097819734631224604525305184594275144929164134101213297698190224212075748974836317928371300935370665726917245619032582981152760266693170658531452193715243763796748996962829587051174059657095847937163527825032000998628191846995646586435750972895998284791389382261393037857348956899265189348062279478229926866783472333398420846398423077738191744233262191925146637515919892321006579899620064172860640515302782710804993113611754130256777690366202958877498534031327215536239609335144988834351892668856572483100044550132008817372310757890470551179692095964364271358255285174914652215554976946001986537529235590707040290311204133798513922104624047720819410119781394803594832618010805248048875025944528693450274285398527176202519864522880005452954920702028592038186361744622111379221462757965067123631171264807681688092963100313364699256425998309738488958436282958309956142916593149981155912015711797891639799017621490069990350809034221763956834304, 6157) :=
  (congrArg (fun m => genTwin 2 4096 m 0 1 0 13)
      (by norm_num : (6144 : Nat) = 512 + 5632)).trans
    ((genTwin_chunk 2 4096 512 5632 0 1 0 13 3347 1090748135619415929462984244733782862448264161996232692431832786189721331849119295216264234525201987223957291796157025273109870820177184063610979765077554799078906298842192989538609825228048205159696851613591638196771886542609324560121290553901886301017900252535799917200010079600026535836800905297805880952350501630195475653911005312364560014847426035293551245843924085408867166598347875904217018363800589481362225488096705172620058126408005975324148430305943205095970825155822186401215025464405535803747507553247977882044651166442021712742852985908803806729635395184351940951365762319692402527622415562303976922266717011891354712011213017576482617359928371439429258592138353637111174662984492970226647757852672089231245892432882950156146194899009892085162897590491396146011215306529881045670827552927804808021591939090791436677280141277478816559863125845101861106644064155630673947152865133297618533788974334160097361926133422258475084488495231670027493951975435997213403911358945418377795299053277557251164132980790269176936743646320807717887833312326902470024418722630077046814239901749805463679746422716054057255850061770609739429225989392449713638100460732384553704682838080778411584164954747607914618249618123704259788853043169731025356508978451031297443346392157789901511713724079312052881071503744336633529443526799453161176127643057268876319561083501796062434495185643730255780010034204010723790514997063183809864993766296908475513932888595718589429261798318212158807144437931522364273686109928576148099066112233053672466757456219019513676372635265826590439652773359792822358162657344106578275712524361315163972511629247893351990298819749634805338202311041394520877644682530407833614611452070693387781915269853048183369991150706880223339742008254166270384021751619868532416627420923889102351041525091566466683627012832875806619873503559261312984002010504596837548436371040911688043342639861489055558529933770570421207138021791556996560239255133581190488592954844854629327959798660999308775809125261252111967610638608357729448348921376212479571554881478569321480667392600128032886522498882454438506532131033660433021954401555144603565748792058766775213567868195408593854460624514587009818098561475607056475812678925053089589753866244778372059903754509965695888412193283916184210392327201994450160925810920812687095912906734563652253761356294711347638241140969056706934224904817783871682032690924508202135935768642859625338281338138841779315710236099050791115 133309723101439297606288728804101461010393300273211674361218104200257756704458901022881189202193651787257371324114710646111055969389810883002461386214642254124190528009315605674070261826683054737605281180042651828965648219970502050535505952965847964633665775888686652828604298732128277494854753255408132836954890389585072093634624432037782445374538806096852186596638994324796437921453779308787926064279656929660566322471109566581583048762206432327601233059563911317205915542574393884667144507660223035835481342747937248830524480877435436134936779778685741151717162093115265402650304375171343225233068121347625728265258314236832915813611246994151564576673649108473628948653402906752604072021100924885541518088254071143995572811925367903644711633980082833422424429767905638554016383747164938089498186092305033643330373637443767629296676324356395902330228726411540234988401419124672272157472898780259727236482580575716124238389204639286953730656938671768180799431030402765381584006135175551773293243058020080994504939222964522132487485331567867917567300447445571164077308175356580831098697002280777716349716656631734606799976781147825531832661787515466369084409423138497423243504921665314861204599506322524834211245186706223041286775084021072379154147069395136211157018428146477121694285580324381236479453448361222203528530095032565986042058375064073556911310081642314088438333875556481077878483976575659918563351214817717061562921102501252118035862654393920376587232511586346710905661134631418103396181653175733140674172757917779826126839176852642376463197902070599351217198955942063697468901516312448063743055584779291200078566713027133193490947885769263046315542562709550217557679010208271424159961348118780360313603597376476826197498230372760278588080593629169431886767693457204682779185866904690633715691762308948341520708838341518358794387108117798921597515940467536041852914600737564380030337694622258784264721031144471658049608997268197281137212225327213593802349795252126693007856530195395856871776180193719826928656758084851905628775970958748131174406291947589677529959238029062701182906872721285362470754072654634394156135662651076313286283651409958385422253799503189337041648789700671339181363860083590112397788120437597976399742464761261649427603554433844866426125744640935160465378846149115623378753731474865875674792441734406731606289384706967391722350480602235042766393768705917721466377801391786203504242310786060207728468603078762778423954011040255965934747054736042725578548214814702070341076288256093060522096119878048037740176765566298695477073619717672093889994593507920987787015600825787871273998719074650173328201807812260849550784363991756155242717867205941520480877979859961176079598702240722650778430793723979797998098294238486432970071578042296975114668441984849326405452019245525616024031365774425044815849964413804164871188288930656418789995172517513599028483528546072397070722642654671213042060170563897176867970924410745204078807676768297657291806247589800049917026245818629322647370568175975242938343350865081919631834952222391735483251900842649986003791165926392237045726502556584494537993238898015106637113524010549828421016064768785587310876130282049448387377167518109083115887634788586319990120807654927469114003165486641214196759771503516013330539138342900585391782758888218982233834113088695073260844921281029394149649482105254079306211838025916974307665608966144 5645 c1_gen_2_13_s5632).trans (by rfl))

theorem c1_gen_2_13_s6656 : genTwin 2 4096 6656 0 1 0 13 = (3332, 1090748135619415929462984244733782862448264161996232692431832786189721331849119295216264234525201987223957291796157025273109870820177184063610979765077554799078906298842192989538609825228048205159696851613591638196771886542609324560121290553901886301017900252535799917200010079600026535836800905297805880952350501630195475653911005312364560014847426035293551245843928918752768696279344088055617515694349945406677825140814900616105920256438504578013326493565835921890511009186082056760718181274357025322760229617010781289526010652878409442218169934867829583843298215910479843554414834415012975757554269271744363287897596719827831613674965258033046749685586173214543648717587091799339675457786196951618813651957273729231528417950237208202209425931880206639264522503907137968790662992930753503617276721482148994299441551207469324889084724736648435839740124788726083986690805922270761588015477119441363186868686539925392655811454841954074655982119956365742550434233105844449711229931407672864109204307761951045600590991966920619753612545430128130260931575370291448984842055869008330754250105266580964693929269756941968980024358764496127487043653665193060008928779938061150469884447190779319482713083458156121553462976952812892231926901672704757373132347720796739308958097987619437896473092716685124319446772572561179600911394923347752814281142891974029243722590105849400148075470106325263914918287110190248832697679040164224946553357181824255722850178606821723851778593527653264868574536297321763842556200587186489583598972228160379273636435383793463809366775032546848651947804531554423811718766773302942985778884469019993919173968532424048586905521945811953565103004962260934478180149118273718225827435301679137086373937732277086445366887090098151083896278262357341748837496817477135374568352855747766702745863566246479176993657495563239615448573705075708314642171898494928159590777631135892281585130113365450077583274231872131814051465877213184641963272101383667635838665046430595223745743627107590614481215999318965662421274788672332445220403562619075782531503680445550886248212585256440773120161834837141184826322318830537222791817401176670486266249432197703934249633276005007516148403093434850807145671109560900121585672974506320898859360044385954286995023022092389334925921598489335052323101703003474570028225172169371229988412436805601174355895426772231052530600722415711196494603321401081091430642849194429531813324943252430271506850562648022038183540529687486667, 214791256995782270150615067856321715752574768917662669377915380269705386696110843125975797291321947159678371916579001306472804190543852421619019663556873940758704796484890083443177137156416318427223910313692808890138043542730378443290303301339029962995503768936001983929895923516566075835931656906546362933038622210547697360926738910544254384124920494282877085774414755968014678508196023407343120177494151322819296006541561863838701447713238532048636958969452825194256067598311490994718510005920116654144153174026778192959501091517866704972745245807316810231183165412365966013838282493529822996812200000641326330674582046945815332591174065153519579231516220160044311209856889945664030417472402424208236470224629101410374916193761626517170374197619139424599937492795858553593038567066355147294075512328177864775035738006060480516080077490162098074319757850208049533797282707276429752432326009061406676800577081286747470387329360246748357129344136850078122419750319844660246411151425856873983728643416397871953007779768813586793830612223624515834459813219689426031286992711053301426014852362408415464255841353407005472959814071453099031899252770012759379683897377405668348926814196392780358951504547432557995583968129676516842041356467831673922810446085268883203926643716527404674204346443422101815558668101211366226046475250429333860016655657866848380921462929928438826360978087911645919169505491286503975225458639027047361780730151255599379139927821837952981860765832870570186533842934569509682378579675241227184373955938951366377371653285996968324641656139160342492276131049815898672762673717367386293222818913897538278405470160232421287611150070760541063292063188876539340436585956782115067202251962448911664187417037650469044413647025918398791767972843689348418300429858319909608252077445273702228429297488588436774030682746066794500567049898179879155327478908494380605971959692694224732474952980267555957492726425670691014408030874172861915783100740520251837248047439946076518670928308965138165196807868055119640812387937012738607244517124382392434873458474620049732943454839843364513811131177212554475379216789320914060237382484828381033653504489840843044808396898338609737325033741672905666929608443480502487932702574872758204847794515580288033565601424981170313379571218844605705109605338355677899314346086232519057226884911428732837613341978652973625435601795458226086668004878851624241218362700405983189696820262363554112231855495313524735750765202741595725581697070583356541649675083129706047289777884130595918253339102054311375540224786249259534148788734742438833888826993226163025292181504893962862651713746100965276020137063574478894247706223911235318682883367853855908621259301572904992786706818733534633379787685890040226898014268888270934276969565690248414322524849860614673079521599938371998239072162279353808929624528632829656391184083956366341066311975893590924798136208916065908462080065956928995940814825211300037747191497471352034298222806156092198786601338844797785712409982053322965578762420115462722866271471983501339303868431363312817314254020781417180221197807631129598197372515793249904573156555730160760761343361427569783935504864209633302594182020614875807377010671941395352632437375075608118157187286591851907040139444000091563415952438269959173906353319720003772289649193774426353602518211916605990798137012717247258398746395351095010108506508905294494864761869334209672998360406574295404356773373499285463654624746202239305007126617354202293695521823942842171798722677475832108541018122282878811351844762593604594173770669107789433117983750261503148927501341772648343168507074770424333611107887082306050033079986396969557345923401930177898513182332852924667850731844054925911917783352222371718425742230199859581678948670270344920208507850505023049226195866889440097085439354128266733899399831675414441671291855128995518204643726507399601888774228727421632170880908413149761022597732479852024799131798406357013310110792478859070287045245567203014685512927438989228121729301536047104, 6669) :=
  (congrArg (fun m => genTwin 2 4096 m 0 1 0 13)
      (by norm_num : (6656 : Nat) = 512 + 6144)).trans
    ((genTwin_chunk 2 4096 512 6144 0 1 0 13 4458 1090748135619415929462984244733782862448264161996232692431832786189721331849119295216264234525201987223957291796157025273109870820177184063610979765077554799078906298842192989538609825228048205159696851613591638196771886542609324560121290553901886301017900252535799917200010079600026535836800905297805880952350501630195475653911005312364560014847426035293551245843928918752768696279344088055617515694349945406677824476639560993275389181631349867255669798494431664876500914153158401182273840400170588672233990851893082737659085654905357477808085764580169594358152960596563102273104400218016586451410157434732051655253771840994724066482014866013563325868298676424542696919196251531216643256997359377399458002018886525854990206034619332663779238345016996711190261543962376332826857048468054535729667854411469499538601700198252110489270149227460892094816851704911391322059121615151329798405488757867427578992426055907002879779861228169538624513836139498519781174445948425602814417044971687110461093028426366163183804733007533846957372625797222754457711405791465702069866030449046149745691490360140693812580227344416067958372450999683512318964590602221634382179771090395915935531550166532897195610073416868601318297901844691366658320087850657318021740903878161764246738691462804305940144288039774485149853787509824858747185526907113982307305069161512853557756533377477219221549173826225961762177789129161122836307713066891683577683349285624877922745107456809469011308358465632434277231734982342850614963145733194154563362331182137907227090138701034805456631861390540505746783083486016559685745035583219482998188265417416305766190769991017460851538184750391627100584066183059682940432895915672205846060282755280580382271637407537291630766210370417731221527966086761234980717985996846967377533109767192863911394035268527434549285595340391848740649850326493471468922270530765176986474189988179108514756802881679233413482704654238040369031841235294952951333784351748936923273623279896296907809205011463826575226629308143711081835088924118898287520525861231361952782787089037582815079008223542998428552976817042712292802916701258365930674498817740946996725530699086273874950863251065354176305948539261205898007094978966851783625047112774810318081994786245037082194056725538653509574928894138822293674441424582506925669097543557247287092707437539065580999474776564055077631836201493313971904754448686773109192264817660441123870321182474248526347732213170159260998466984910840011 5100253535065759711942527729770233308389159740130627967343364079850182466421614959920425280700726084568705354976237693936883368810695631455890932389704895606585742432146791785921530857295305896110921707510087885104993789592448193688713143915113853655128495508762666443544500437065815407046701382828646498902619058749589688134745632693491922372152752634500222177348952512892850189849547535161782611742909368431105633425581836401384044461013209387086733999658628795413439987788571150877890494581241510031903247646259151087730481509158633026186400479742769960980378437691833759532003356601940582024529543374297903502001122700998835962429880683151332334511024158416982008128563776586424587319733293079374433915844395378681796771797570009330009811598130456825390532639500914312549774481040105701585753195632841759450881868118558737459907795754375698481471392337532999243610180533134669157125202285952159492199492608277078148985508092413082084619902024975218457740054409617483133842156532755037197421202274881247973377408934217203940664688501480511380222926581224409748371185991158793718206598486761478210555022426717729966685459635878065579336877395770865903825827264807335309650465799118868023782096002344875596430695789267164411829223560085938161363853401140860359247243811172719385727105989417094938192091960453008948196993132215025202813479804533212650745977374355144751131100101959572110278309406221206613566126098775835130644236351952337271632517294840091209068586373748643165692370253706718378239781771848676947795271490345986027055871131620828951108004347989078693374602383246037095272879268914207770815045678120709968094102318875761855137924136249105742393637603027638612075391330427101205850882510913837363428891278831398646057034671271859894213360842762110546582017511139732718746345673486989299255719099623001183966595796973407052500533100306274782209630128934398071841073506622404138989488387003374972350155710224963883051644290847291391701104128654178560453674054724964908307295975645495638132787039942244376094945054772321222133910694306335674310295422355796314121703430408404191229909385501949602361708442784340557809049188111690050145072515010081678923205269294302388074288826566400992825810189044224942640421501546100190336074510650261875464268620672162898238934112035188159302781467154431229519906435734515456872527135069342270320370588883039481402502259545219701199864614480747689755113338024000170609514912553076943318747066452293711922790521436191325972838495852116926604562099150223135827555395610014124741826637738465382005628110871176615147557871707043055441644951551700912246847446217090784964206518443314306479391842087506485809876345067854860886600515008729262863062062506951830695544257590895365841649544903578546439532494252201315327572975611097819734631224604525305184594275144929164134101213297698190224212075748974836317928371300935370665726917245619032582981152760266693170658531452193715243763796748996962829587051174059657095847937163527825032000998628191846995646586435750972895998284791389382261393037857348956899265189348062279478229926866783472333398420846398423077738191744233262191925146637515919892321006579899620064172860640515302782710804993113611754130256777690366202958877498534031327215536239609335144988834351892668856572483100044550132008817372310757890470551179692095964364271358255285174914652215554976946001986537529235590707040290311204133798513922104624047720819410119781394803594832618010805248048875025944528693450274285398527176202519864522880005452954920702028592038186361744622111379221462757965067123631171264807681688092963100313364699256425998309738488958436282958309956142916593149981155912015711797891639799017621490069990350809034221763956834304 6157 c1_gen_2_13_s6144).trans (by rfl))

theorem c1_gen_2_13_s7168 : genTwin 2 4096 7168 0 1 0 13 = (4108, 1090748135619415929462984244733782862448264161996232692431832786189721331849119295216264234525201987223957291796157025273109870820177184063610979765077554799078906298842192989538609825228048205159696851613591638196771886542609324560121290553901886301017900252535799917200010079600026535836800905297805880952350501630195475653911005312364560014847426035293551245843928918752768696279344088055617515694349945406677825140814900616105920256438504578013326493565836047242407382442812245131517757519164899226365743722432277368075027627883045206501792761700945699164048158122611334795102022619584432639178131783704765892462023066577394952027591747955419038741681250365147197215851376666436790389005465332575072600485178206097683474191994384681874245966373173790393393807370831633452094257035087491679027303275790062052639187216789254586442460079415230503894874755504537066359499343261311972701398616617084468692334396620102664865248454041970374535265169011083347210709378493321949403463179440658251235347435219749211489784950684184343337674658723454835215623253150199744614601734840803512929393898958178727850893530395123595787445115532257312432098465968732995319649360338862802937883934206295354038336689482497546394901875279221584877636695270682431770083534265248120527435248513237844638550247799930163049701219193784419483249838652343712005477945831429123843331583042548025871306330112066061903593828748384154838304275624915044277547765972727090128212670654941623056491732422170126166926837708230823348008002360421259615174568886526366994402074904988082302267578386972065405033702692167738485916266314673455711784555492194975871766801061128637848986257546459669340883072954452174838170486297502350914284549889603243880219885811725761346982616755769615257075783976721845094936846633134993158050215653436954990793264595897763708268773986109579952711162913584584002868724807090772868368473182622789769991895002558234910508175518210500034777985487135110675206703604609565091241338396734592638164977946568589347981178324103899662837696031631950436507324449369559169410378573527556276691140405005740751772349268954230250520013563606797837538400941975919280427125545231126130708354003885528429302923869650827113395700301401552105548038541972689791185938832814009745248215034240100789523139236639522443792764158231566405892907426481022029509853502389036024422336959202629178447865606115010388121106180930376415177237328534389502864219849691537842660842062965350597759670759256267, 48253420363648454928143888006023970688344302129211228825229199068608550501944202496755348778379694598268478185092965662054370643700411403830872961259607114740171066131643491255622875698133157075078943530522108002986058432724868264644822598690116254365373941351459354552802529297695522199077970596186971189273293889553830223350146267361543013360929923473252873000624643352461112012957957594965730689257005580411372502904784939052109216577296213846080432120607014977621250099542503625303708623962762129711124004125142189466612757956353122093852876371504010641783257780260442008546711017526912480288811115722891403142775693305791495250964023295541492594945441746140905964282744519289790156696823668777478472797292148798746497473384399106589926306676519571853922694219808513143330396782998496647631338423529318041212850911543087841474052536413260943924919109121837114250505925134708739090783569231355795645163290436781829537957844719386595029448809204917605671010352349838621380711277811672907227571419182114940622538417224203261557138451376490395272757291559065505797990274374664119607576087154968216365582292858180784427833281773134705663939761306321666707723385531323589857475596395691676352638782806716940566020599796766962652146661770391590099659469980619245334186180818176752390482073485452611456740882022463391593229777972073259481749729867212226139950838793521380129049860106624213239335575067474535319774187229150488653687244993414110103622721556164261059247354037405996702591669513211961564141404208089984479712814547362408413878362654277526212642625635311072946914424850158683754732972957394144417204620831869564349623314402939602779371204351480463365361978513289456956975581081783886308434612232228203460405046418075657754026273134847442412073111923441193375740861243028759288894666351506490008839020944137764369927251332167825372365500543413855208338767476182562805098781589870209140975154123431117914820138238441907183558359707655540384128062056191810920640874125903604476645779629790479701721775727370895255429211019666370171616670039024674361547943845895823718212296813049980648422623932372280397115308377809471743462445879853183033172609607192084152448473515376588639353060054061143698174693313104807418944823289030335943599339942286578085326367292643822975879432937873937691068154525431559893857137920670451645904649419859589452792436368810683616170050466476808961973911976950148498414816490753346985576208517126158875005838751164014776801449495815972685896496576575164391930864174542384754450708064967250284509723941149497677950238475269815561356552442212207689346062773679729858381574455768890849238673714990388160306228967323777156565266036600748250502632116000847743421687133375871775755464360512157766687711444471566614336152458862999374534735086696177183514733516461663726621383061924806538646750302827316778901535987624334776872278237891865784023495475882468060683905245342151837180680069353006755043104074379251485323380521056401963314807653184310136040216463764129722233720859915082342813190434384048439274837065798781803213263803856742233824503152073522354549016358811881613281440090038278538201269305809001914871832851028320800331161431071300188358796918077537149162470688800741950132914652527361716926632465833432961316554146564444217098587167817957575408944681085079011107980162026707899162411999223616612543567438091813958208401621266164994462862277197421787851679582752375443278341220471592709756201921266815100058925287669137810741002424410285783446646632637707525724907689842129854901723415542980905461014017810329348274827118584166167461355150106903294597458382163083916806412041645980830054105630589934663628523881580694855029681839758795286397769835596051154208462882056052591227669674332574198075716522049518100501881403851907239229374100359982464610765083247746044049221819055967617922098946559505340834774500218094012235811815948214634201560246622190832649261530816406334786539281672320907418874068733494018956306251647511383058076154125482259029555671278800918359183121544703638379225409637748339662493862732156847196682329867827481291729752509200540146320301223825962538960093162299141099789522309024595501428484210083634932282521624237405131575869149411055357264576771807827093476351606877056009618099107902293732672340939005574662199942977593975311351821389431363092093203029950464, 7181) :=
  (congrArg (fun m => genTwin 2 4096 m 0 1 0 13)
      (by norm_num : (7168 : Nat) = 512 + 6656)).trans
    ((genTwin_chunk 2 4096 512 6656 0 1 0 13 3332 1090748135619415929462984244733782862448264161996232692431832786189721331849119295216264234525201987223957291796157025273109870820177184063610979765077554799078906298842192989538609825228048205159696851613591638196771886542609324560121290553901886301017900252535799917200010079600026535836800905297805880952350501630195475653911005312364560014847426035293551245843928918752768696279344088055617515694349945406677825140814900616105920256438504578013326493565835921890511009186082056760718181274357025322760229617010781289526010652878409442218169934867829583843298215910479843554414834415012975757554269271744363287897596719827831613674965258033046749685586173214543648717587091799339675457786196951618813651957273729231528417950237208202209425931880206639264522503907137968790662992930753503617276721482148994299441551207469324889084724736648435839740124788726083986690805922270761588015477119441363186868686539925392655811454841954074655982119956365742550434233105844449711229931407672864109204307761951045600590991966920619753612545430128130260931575370291448984842055869008330754250105266580964693929269756941968980024358764496127487043653665193060008928779938061150469884447190779319482713083458156121553462976952812892231926901672704757373132347720796739308958097987619437896473092716685124319446772572561179600911394923347752814281142891974029243722590105849400148075470106325263914918287110190248832697679040164224946553357181824255722850178606821723851778593527653264868574536297321763842556200587186489583598972228160379273636435383793463809366775032546848651947804531554423811718766773302942985778884469019993919173968532424048586905521945811953565103004962260934478180149118273718225827435301679137086373937732277086445366887090098151083896278262357341748837496817477135374568352855747766702745863566246479176993657495563239615448573705075708314642171898494928159590777631135892281585130113365450077583274231872131814051465877213184641963272101383667635838665046430595223745743627107590614481215999318965662421274788672332445220403562619075782531503680445550886248212585256440773120161834837141184826322318830537222791817401176670486266249432197703934249633276005007516148403093434850807145671109560900121585672974506320898859360044385954286995023022092389334925921598489335052323101703003474570028225172169371229988412436805601174355895426772231052530600722415711196494603321401081091430642849194429531813324943252430271506850562648022038183540529687486667 214791256995782270150615067856321715752574768917662669377915380269705386696110843125975797291321947159678371916579001306472804190543852421619019663556873940758704796484890083443177137156416318427223910313692808890138043542730378443290303301339029962995503768936001983929895923516566075835931656906546362933038622210547697360926738910544254384124920494282877085774414755968014678508196023407343120177494151322819296006541561863838701447713238532048636958969452825194256067598311490994718510005920116654144153174026778192959501091517866704972745245807316810231183165412365966013838282493529822996812200000641326330674582046945815332591174065153519579231516220160044311209856889945664030417472402424208236470224629101410374916193761626517170374197619139424599937492795858553593038567066355147294075512328177864775035738006060480516080077490162098074319757850208049533797282707276429752432326009061406676800577081286747470387329360246748357129344136850078122419750319844660246411151425856873983728643416397871953007779768813586793830612223624515834459813219689426031286992711053301426014852362408415464255841353407005472959814071453099031899252770012759379683897377405668348926814196392780358951504547432557995583968129676516842041356467831673922810446085268883203926643716527404674204346443422101815558668101211366226046475250429333860016655657866848380921462929928438826360978087911645919169505491286503975225458639027047361780730151255599379139927821837952981860765832870570186533842934569509682378579675241227184373955938951366377371653285996968324641656139160342492276131049815898672762673717367386293222818913897538278405470160232421287611150070760541063292063188876539340436585956782115067202251962448911664187417037650469044413647025918398791767972843689348418300429858319909608252077445273702228429297488588436774030682746066794500567049898179879155327478908494380605971959692694224732474952980267555957492726425670691014408030874172861915783100740520251837248047439946076518670928308965138165196807868055119640812387937012738607244517124382392434873458474620049732943454839843364513811131177212554475379216789320914060237382484828381033653504489840843044808396898338609737325033741672905666929608443480502487932702574872758204847794515580288033565601424981170313379571218844605705109605338355677899314346086232519057226884911428732837613341978652973625435601795458226086668004878851624241218362700405983189696820262363554112231855495313524735750765202741595725581697070583356541649675083129706047289777884130595918253339102054311375540224786249259534148788734742438833888826993226163025292181504893962862651713746100965276020137063574478894247706223911235318682883367853855908621259301572904992786706818733534633379787685890040226898014268888270934276969565690248414322524849860614673079521599938371998239072162279353808929624528632829656391184083956366341066311975893590924798136208916065908462080065956928995940814825211300037747191497471352034298222806156092198786601338844797785712409982053322965578762420115462722866271471983501339303868431363312817314254020781417180221197807631129598197372515793249904573156555730160760761343361427569783935504864209633302594182020614875807377010671941395352632437375075608118157187286591851907040139444000091563415952438269959173906353319720003772289649193774426353602518211916605990798137012717247258398746395351095010108506508905294494864761869334209672998360406574295404356773373499285463654624746202239305007126617354202293695521823942842171798722677475832108541018122282878811351844762593604594173770669107789433117983750261503148927501341772648343168507074770424333611107887082306050033079986396969557345923401930177898513182332852924667850731844054925911917783352222371718425742230199859581678948670270344920208507850505023049226195866889440097085439354128266733899399831675414441671291855128995518204643726507399601888774228727421632170880908413149761022597732479852024799131798406357013310110792478859070287045245567203014685512927438989228121729301536047104 6669 c1_gen_2_13_s6656).trans (by rfl))

theorem c1_gen_2_13_s7680 : genTwin 2 4096 7680 0 1 0 13 = (341, 1090748135619415929462984244733782862448264161996232692431832786189721331849119295216264234525201987223957291796157025273109870820177184063610979765077554799078906298842192989538609825228048205159696851613591638196771886542609324560121290553901886301017900252535799917200010079600026535836800905297805880952350501630195475653911005312364560014847426035293551245843928918752768696279344088055617515694349945406677825140814900616105920256438504578013326493565836047242407382442812245131517757519164899226365743722432277368075027627883045206501792761700945699168497257879683851737049996900961120515655050115561271491492515342105748966629547032786321505730828430221664970324396138635251626409516168005427623435996308921691446181187406395310665404885739434832877428167407495370993511868756359970390117021823616749458620969857005711170971678344676017415833321245322318128266766083857273391040758349270487982371297173012831455907637123772264541724053637816422197016842615658971658799009744769370591525997691396979360515513510703922660044453868697960656973593916715225803195457842420318118594604250384660710718542258575428658249012275590208809499403325085363143422679472050575901293364209043637637040899853680840830028819788481008880958131483725198913863785803788266760550972200605086738034472095484117916284418705739468766211325600897114511317611393783400304721643860873298181903625217164423703790687240355215596832405323179156910487272654139782741295468472454261610662004298654343069652825203539611331585620006905125077911940102946070354553191973996942285324685115603805599584632054634848280256582555926452560936616382922023955649792074021923584446689444743693077793523794185657855729927818705507923913980617133201683181130981739799690810124746602201499309833044990779027916272865552509855527479087862569384240725277920134128464563173978791900030611737935025737170888730849329902237835347209312913652879217853911222969887443558106468097825006912842530728288648789033381920050785958964408752147331311745481326029173941573030405172445812684216773407691188198291318870197633992010778041093741018925011871548580556935462719082120286395107359629586340897089649210617816219935499585846592157558138404786903966071654960205426119836223245735811214033173611238726146037334132920352389415686176411566540918461673829672442461845764822528679814111868519799322486031430107119609441687513033831666729875289058608271511207112067797888327622030376005475264554768927211073450834776866487535, 118435419894331123780686565985851162624172566061576976367960918893771083117004509801765626973132071317365821356609553731689532519398892446715941501476979183754249974434199446140960761818554780632414467049664005240503261448593998399532332650113715843696557107982562583331394168446579957452710810378282197580560318575660568170692614516777502880945632802815079605497550715958629224111029675634901953297102439370806984458403193401228175148267872059659274126951186855894875932806281762015351545648020162428735680542210321880493507884785442323924753646802109291025293281445314121488444858921298938766608858036983305843953096741494989125110134418639533049589034959033693481016448097281216713340486556467725638027096452676441185868915276854086756173483343899739182015505942725759562207825625055703208770936891105518421361551248306991836247410646467433452577359564048575914029530375598420361771692727070177658180522059736787484362381464170303498780706313014492049631720072471636119461922372003482164655170756546363190871378951366215000293904611018355445411811723574626874774330558921609046482702467324659163456902359469288810719867624164696656843457624839348947081253628367683255029789816867293542597474539155766576407969702283517012448192493369434489236269969523071152684256099314795632610893492349879858308468308245635122314660362239062256769407174600308499055346222874714990499913027022283515838871830498448876075990220447948791873171063894403528191381842044392756560552514127731140452556793159345757536873786712083769234576591931047146497863388714190674878370775202418629872577249918224722857269235550319939315814082735466199535948411042663481920835658400616382591738439638374746156403719819779902642945544330478840806671261472161430099214326673588967356410237545869735243064182135330861245310401989045695711704870870317521341852595704184973673893740894794489748758259470618240193461086611604322698609691191121288615453207680172207890861791950315731678067563433847265134280029202935433899391957146966107858499209112146559251474543848929427227250014396641444046389706342647292043476665572246913869414097339385654465527322264133896152650813590661143147807643757284738210562199083288762228235712895126734107029871372753294402587943700322937533303997196752685168833491743043149624138524086502414698866201616524986085197831608645208459467488642606367657539343070394544255747116223956121794843132116238496448116861499661381784803465900944306159094791871171758102683445535713474427458171076366655162499676133765449454061468236348372079209295629853002823511152261236833443419634162672498224872921880921226303760273566731558191441698213318573879580864462589646049764726557102832684401780197326368208604531919110005395501665319438798371970942092944878389247097468895914119127568674702120000424431652857543306735370047294625477691886855235221778321455246432320623946240332315355463505209552187132699110760141187714982243913703463861866800260209408001530283397573700187442442074053251710919447488596058907351125787383664683258853368522633531427451018489718649653643686701275982281135053559731703464192833870774146520865387838369712380682885194913085166677618620460601662778273939212843732726539343429061593864121460246802566354256162342470058872105833932042264504720356500971093337449889205381278707811196129563816636672429282142572878545166978077935947656802803986114278686920500942604814897823140968583196677065983272978766003997339703077122963669479087709176018594085127730571762948155822241858537728499636287825419641141515382954841943893803430390493276787577882691718654169763044799530654695057932923938873471656777519305650353670690874462734317571469446693176135092508694095331934606751628244718195291172062259726593839273575797668766354689806970152088751347163987374151135131507248898751118119837307987184625172118732781284017024336219048087600037588443304289456558489530436225657632283144601769681082072220030419289290425317191745320810046432681523581355859177348519346431401192076586075808918100450325222889910697907045872639842133383685612157017351374314748308386036243739434220181566401545833864936593312579994938012579269046794222580167181435419934605026725861081111221578806021101112011952239901886436669038153899298191763262917832413269419519754752999941624547092101562647350888766800369909817307898892827637533812625278679903607095932142576182538870161659039402754782186693361584990893316909545104147777346671998012364923767904327290118541715831510739318217955305087184757417798837271854942255395252058732493986908720704158644069226859357484827540123870844995976591575660804581110302361589325919609023049454957316000642359380309704704, 7693) :=
  (congrArg (fun m => genTwin 2 4096 m 0 1 0 13)
      (by norm_num : (7680 : Nat) = 512 + 7168)).trans
    ((genTwin_chunk 2 4096 512 7168 0 1 0 13 4108 1090748135619415929462984244733782862448264161996232692431832786189721331849119295216264234525201987223957291796157025273109870820177184063610979765077554799078906298842192989538609825228048205159696851613591638196771886542609324560121290553901886301017900252535799917200010079600026535836800905297805880952350501630195475653911005312364560014847426035293551245843928918752768696279344088055617515694349945406677825140814900616105920256438504578013326493565836047242407382442812245131517757519164899226365743722432277368075027627883045206501792761700945699164048158122611334795102022619584432639178131783704765892462023066577394952027591747955419038741681250365147197215851376666436790389005465332575072600485178206097683474191994384681874245966373173790393393807370831633452094257035087491679027303275790062052639187216789254586442460079415230503894874755504537066359499343261311972701398616617084468692334396620102664865248454041970374535265169011083347210709378493321949403463179440658251235347435219749211489784950684184343337674658723454835215623253150199744614601734840803512929393898958178727850893530395123595787445115532257312432098465968732995319649360338862802937883934206295354038336689482497546394901875279221584877636695270682431770083534265248120527435248513237844638550247799930163049701219193784419483249838652343712005477945831429123843331583042548025871306330112066061903593828748384154838304275624915044277547765972727090128212670654941623056491732422170126166926837708230823348008002360421259615174568886526366994402074904988082302267578386972065405033702692167738485916266314673455711784555492194975871766801061128637848986257546459669340883072954452174838170486297502350914284549889603243880219885811725761346982616755769615257075783976721845094936846633134993158050215653436954990793264595897763708268773986109579952711162913584584002868724807090772868368473182622789769991895002558234910508175518210500034777985487135110675206703604609565091241338396734592638164977946568589347981178324103899662837696031631950436507324449369559169410378573527556276691140405005740751772349268954230250520013563606797837538400941975919280427125545231126130708354003885528429302923869650827113395700301401552105548038541972689791185938832814009745248215034240100789523139236639522443792764158231566405892907426481022029509853502389036024422336959202629178447865606115010388121106180930376415177237328534389502864219849691537842660842062965350597759670759256267 48253420363648454928143888006023970688344302129211228825229199068608550501944202496755348778379694598268478185092965662054370643700411403830872961259607114740171066131643491255622875698133157075078943530522108002986058432724868264644822598690116254365373941351459354552802529297695522199077970596186971189273293889553830223350146267361543013360929923473252873000624643352461112012957957594965730689257005580411372502904784939052109216577296213846080432120607014977621250099542503625303708623962762129711124004125142189466612757956353122093852876371504010641783257780260442008546711017526912480288811115722891403142775693305791495250964023295541492594945441746140905964282744519289790156696823668777478472797292148798746497473384399106589926306676519571853922694219808513143330396782998496647631338423529318041212850911543087841474052536413260943924919109121837114250505925134708739090783569231355795645163290436781829537957844719386595029448809204917605671010352349838621380711277811672907227571419182114940622538417224203261557138451376490395272757291559065505797990274374664119607576087154968216365582292858180784427833281773134705663939761306321666707723385531323589857475596395691676352638782806716940566020599796766962652146661770391590099659469980619245334186180818176752390482073485452611456740882022463391593229777972073259481749729867212226139950838793521380129049860106624213239335575067474535319774187229150488653687244993414110103622721556164261059247354037405996702591669513211961564141404208089984479712814547362408413878362654277526212642625635311072946914424850158683754732972957394144417204620831869564349623314402939602779371204351480463365361978513289456956975581081783886308434612232228203460405046418075657754026273134847442412073111923441193375740861243028759288894666351506490008839020944137764369927251332167825372365500543413855208338767476182562805098781589870209140975154123431117914820138238441907183558359707655540384128062056191810920640874125903604476645779629790479701721775727370895255429211019666370171616670039024674361547943845895823718212296813049980648422623932372280397115308377809471743462445879853183033172609607192084152448473515376588639353060054061143698174693313104807418944823289030335943599339942286578085326367292643822975879432937873937691068154525431559893857137920670451645904649419859589452792436368810683616170050466476808961973911976950148498414816490753346985576208517126158875005838751164014776801449495815972685896496576575164391930864174542384754450708064967250284509723941149497677950238475269815561356552442212207689346062773679729858381574455768890849238673714990388160306228967323777156565266036600748250502632116000847743421687133375871775755464360512157766687711444471566614336152458862999374534735086696177183514733516461663726621383061924806538646750302827316778901535987624334776872278237891865784023495475882468060683905245342151837180680069353006755043104074379251485323380521056401963314807653184310136040216463764129722233720859915082342813190434384048439274837065798781803213263803856742233824503152073522354549016358811881613281440090038278538201269305809001914871832851028320800331161431071300188358796918077537149162470688800741950132914652527361716926632465833432961316554146564444217098587167817957575408944681085079011107980162026707899162411999223616612543567438091813958208401621266164994462862277197421787851679582752375443278341220471592709756201921266815100058925287669137810741002424410285783446646632637707525724907689842129854901723415542980905461014017810329348274827118584166167461355150106903294597458382163083916806412041645980830054105630589934663628523881580694855029681839758795286397769835596051154208462882056052591227669674332574198075716522049518100501881403851907239229374100359982464610765083247746044049221819055967617922098946559505340834774500218094012235811815948214634201560246622190832649261530816406334786539281672320907418874068733494018956306251647511383058076154125482259029555671278800918359183121544703638379225409637748339662493862732156847196682329867827481291729752509200540146320301223825962538960093162299141099789522309024595501428484210083634932282521624237405131575869149411055357264576771807827093476351606877056009618099107902293732672340939005574662199942977593975311351821389431363092093203029950464 7181 c1_gen_2_13_s7168).trans (by rfl))

theorem c1_gen_2_13 : genTwin 2 4096 8179 0 1 0 13 = (129, 1090748135619415929462984244733782862448264161996232692431832786189721331849119295216264234525201987223957291796157025273109870820177184063610979765077554799078906298842192989538609825228048205159696851613591638196771886542609324560121290553901886301017900252535799917200010079600026535836800905297805880952350501630195475653911005312364560014847426035293551245843928918752768696279344088055617515694349945406677825140814900616105920256438504578013326493565836047242407382442812245131517757519164899226365743722432277368075027627883045206501792761700945699168497257879683851737049996900961120515655050115561271491492515342105748966629547032786321505730828430221664970324396138635251626409516168005427623435996308921691446181187406395310665404885739434832877428167407495370993511868756359970390117021823616749458620969857006263612082706715408157066575137281027022310927564910276759160520878304632411049364568754920967322982459184763427383790272448438018526977764941072715611580434690827459339991961414242741410599117426060556483763756314527611362658628383368621157993638020878537675545336789915694234433955666315070087213535470255670312004130725495834508357439653828936077080978550578912967907352780054935621561090795845172949630356836459976365823908456065115401516241840661051021695300605376862382268411768889406130230772603092848603504681117144275444289333769100429038188462989547454284891161093490827642112400916375668481205343789681487297523864770532203513608198392052405125784385366119067951988641313066388760422675528539700575701595956351226072804765878569472935231341098343643768030705773967545344564386872092719084024451401499954103397942765498993960151547480358191875097260900977587678237373600503249297433099066899969229828358743432494402979537057090366913949045323234285875708715624276964889608112364325219073459427148199345627855277914837706660144352551668863633069338790751394919268736883601747265435442962068604448244544182022829722876635286384940904969450410299814842264721297080906128289180650841830228405037185508619959663620137186450778488553193962095702461349864915383970878843035870628401828449800315018617515141703199814082585475922946202437499180010944897882007430248380958146680890989522755515609374165789682174211764329660152813658123442585094130300995454774201205465416595764889346571878635279777497011557809995121767600623029718884675987835737235897296492174342899056329713061484543253658446681214846845018110364550869655408299133046081191935, 297451032133399501847248817215338247289551159626559455664302910133102053229655088195192431137407574390169395265311080797077991204274544404233615846072283678915493208441212965665353799757256873373822590540376634932975518914480288693615689509986536747798453854370110751566241770075081060955033783220024393287694765782015063869045650538513548745651229066213342854201974766681111045859662205283187454552427805701620011304614378119564874854509920342040775491725421807341288964437555602632428304681756428767300355660554340010248654067159596346304558937949162725435642714210429785583522342700092081938177434283539175478855683275288872901248453586370473179426989812812137901180970309803333085882655413996721608823754469051590718947157906146685330930518689523616402699548830030420096923194453704971866109821138688317956706053251669319568077342130819177190283586828048144669122775385905546075266146478901848075744297484141146146567313305913820534823058900796432902915393388017501626847436892719799351551442349107801434446004208515713531391737717608204008488671650763098448225977660380080112936703729268754624668049592334132540516452810898908190600712014614371651398701948303914585148687549322273487074165441225579730679140686081965765190524735735293606037595209962137504195409490825952020461827824126425769121043132607049786252161739767841633680469059803586322803288679681893606975749057479227354849919315905219367386407103204917808537942569679290237711581064832972856087632439867150900440617137408768027459370616675922323306982409711684198866787439894723421241805185760473194657465518343652245204969131533909882201717298852054552955248336714603817319701512020013879293258517557480615565212688468684362297325467369149568597434085596027129385474377776085993094684324727105622963371092233915088588928797739249688033947889543318861827756608246651707761860891400427570853000697252689785368805703063546467900818836345905621087416683921473461588676521493847782881067125675288486623331896099188041329556385394035585018631866955505318788044228674564433093543586520174624425106581518876121759153944016108496101809358099864849932159161850597827681196928080156942250428256551271037802384407753497009784596320407610250765041444970209145490586790173151537436054981557448376835174345853009833684322613859332644309811451925240090861598181678953621317272372832718100750575633696065166270562046117837675542162409217338642139528364814175957951813844820059067682567136737363947833089926400983067300191943882273070074990178650251486080463888149143388014873246777541219223966585586415109164362531578948298595683038038723404277793948813998233995542171915682130961825385715950256612162846891451666719638958547763059717850472234524916620523128917858373915756611970570265289498397779077371068501686741637073177354827994910456464722148675603152321826369034418698321891536876958952544272650622343731625396612719301341051562694233388685378184657962133239783815860750186800824411991049888069583947459547851096821328478646762477746739559280335760930960908682128949247573941880070551973622887306750511738510760647214207130361200533662907314118097345426330662197195878405701693708839909208678019626822378675385500142088856721652096186782556507592089765788303194908691945987055362266914588716779317456794219888705461149991153292077068405587985571600004034770207581832512199694415878751080411277569147875159316496430705155422013461903809186559113931922208029801161527422494499633431759562726076942854919674297427613915724219006173887509963584407665892500436695035160322400009872360268520690297991606607899730991927419747642687690027561845517428538194550219963585660748175276618490497233313322298914007464236209530587781644349218670546494001615660143878711584098439158345809683034442881734121424825367853658723084571377206772058086259481707708969468397777099882708271738760375342259244099842736023589445329906169239163941617593870470084497478275510592057370097026626294765221876692942383496932142779109589748498512225348872401469298752275688730852326089561133559822871751515582471817551521585979418110548608058398985831199932267961221217183452373377355644827775197108891482990494585992984940503517781965924335626648594939240541543044165483934137107366698422534591931360703660865116595001046279395852357463404938409895035159424654245082432591678033593405950800763624299509153040566223233988282357537007264710246212405408459089834707880526691638979002994481000306397284646885553298616132629760515318028290672364562147422015209141044771105225831982711198321142736853807780318007036277958059345109312025000563207066151881799454771146401823437756458160308318043886372511463952246322039279186024587745776232736467279513188290939309610912654521661137685114303709351255215702585120882156859733081905116166542580895951892804617095313526449414847964350072702081257097010869492121628981109652772574875202140969437581414966053622834601835745624633730358531202708324001258165810042285064192, 8192) :=
  (congrArg (fun m => genTwin 2 4096 m 0 1 0 13)
      (by norm_num : (8179 : Nat) = 499 + 7680)).trans
    ((genTwin_chunk 2 4096 499 7680 0 1 0 13 341 1090748135619415929462984244733782862448264161996232692431832786189721331849119295216264234525201987223957291796157025273109870820177184063610979765077554799078906298842192989538609825228048205159696851613591638196771886542609324560121290553901886301017900252535799917200010079600026535836800905297805880952350501630195475653911005312364560014847426035293551245843928918752768696279344088055617515694349945406677825140814900616105920256438504578013326493565836047242407382442812245131517757519164899226365743722432277368075027627883045206501792761700945699168497257879683851737049996900961120515655050115561271491492515342105748966629547032786321505730828430221664970324396138635251626409516168005427623435996308921691446181187406395310665404885739434832877428167407495370993511868756359970390117021823616749458620969857005711170971678344676017415833321245322318128266766083857273391040758349270487982371297173012831455907637123772264541724053637816422197016842615658971658799009744769370591525997691396979360515513510703922660044453868697960656973593916715225803195457842420318118594604250384660710718542258575428658249012275590208809499403325085363143422679472050575901293364209043637637040899853680840830028819788481008880958131483725198913863785803788266760550972200605086738034472095484117916284418705739468766211325600897114511317611393783400304721643860873298181903625217164423703790687240355215596832405323179156910487272654139782741295468472454261610662004298654343069652825203539611331585620006905125077911940102946070354553191973996942285324685115603805599584632054634848280256582555926452560936616382922023955649792074021923584446689444743693077793523794185657855729927818705507923913980617133201683181130981739799690810124746602201499309833044990779027916272865552509855527479087862569384240725277920134128464563173978791900030611737935025737170888730849329902237835347209312913652879217853911222969887443558106468097825006912842530728288648789033381920050785958964408752147331311745481326029173941573030405172445812684216773407691188198291318870197633992010778041093741018925011871548580556935462719082120286395107359629586340897089649210617816219935499585846592157558138404786903966071654960205426119836223245735811214033173611238726146037334132920352389415686176411566540918461673829672442461845764822528679814111868519799322486031430107119609441687513033831666729875289058608271511207112067797888327622030376005475264554768927211073450834776866487535 118435419894331123780686565985851162624172566061576976367960918893771083117004509801765626973132071317365821356609553731689532519398892446715941501476979183754249974434199446140960761818554780632414467049664005240503261448593998399532332650113715843696557107982562583331394168446579957452710810378282197580560318575660568170692614516777502880945632802815079605497550715958629224111029675634901953297102439370806984458403193401228175148267872059659274126951186855894875932806281762015351545648020162428735680542210321880493507884785442323924753646802109291025293281445314121488444858921298938766608858036983305843953096741494989125110134418639533049589034959033693481016448097281216713340486556467725638027096452676441185868915276854086756173483343899739182015505942725759562207825625055703208770936891105518421361551248306991836247410646467433452577359564048575914029530375598420361771692727070177658180522059736787484362381464170303498780706313014492049631720072471636119461922372003482164655170756546363190871378951366215000293904611018355445411811723574626874774330558921609046482702467324659163456902359469288810719867624164696656843457624839348947081253628367683255029789816867293542597474539155766576407969702283517012448192493369434489236269969523071152684256099314795632610893492349879858308468308245635122314660362239062256769407174600308499055346222874714990499913027022283515838871830498448876075990220447948791873171063894403528191381842044392756560552514127731140452556793159345757536873786712083769234576591931047146497863388714190674878370775202418629872577249918224722857269235550319939315814082735466199535948411042663481920835658400616382591738439638374746156403719819779902642945544330478840806671261472161430099214326673588967356410237545869735243064182135330861245310401989045695711704870870317521341852595704184973673893740894794489748758259470618240193461086611604322698609691191121288615453207680172207890861791950315731678067563433847265134280029202935433899391957146966107858499209112146559251474543848929427227250014396641444046389706342647292043476665572246913869414097339385654465527322264133896152650813590661143147807643757284738210562199083288762228235712895126734107029871372753294402587943700322937533303997196752685168833491743043149624138524086502414698866201616524986085197831608645208459467488642606367657539343070394544255747116223956121794843132116238496448116861499661381784803465900944306159094791871171758102683445535713474427458171076366655162499676133765449454061468236348372079209295629853002823511152261236833443419634162672498224872921880921226303760273566731558191441698213318573879580864462589646049764726557102832684401780197326368208604531919110005395501665319438798371970942092944878389247097468895914119127568674702120000424431652857543306735370047294625477691886855235221778321455246432320623946240332315355463505209552187132699110760141187714982243913703463861866800260209408001530283397573700187442442074053251710919447488596058907351125787383664683258853368522633531427451018489718649653643686701275982281135053559731703464192833870774146520865387838369712380682885194913085166677618620460601662778273939212843732726539343429061593864121460246802566354256162342470058872105833932042264504720356500971093337449889205381278707811196129563816636672429282142572878545166978077935947656802803986114278686920500942604814897823140968583196677065983272978766003997339703077122963669479087709176018594085127730571762948155822241858537728499636287825419641141515382954841943893803430390493276787577882691718654169763044799530654695057932923938873471656777519305650353670690874462734317571469446693176135092508694095331934606751628244718195291172062259726593839273575797668766354689806970152088751347163987374151135131507248898751118119837307987184625172118732781284017024336219048087600037588443304289456558489530436225657632283144601769681082072220030419289290425317191745320810046432681523581355859177348519346431401192076586075808918100450325222889910697907045872639842133383685612157017351374314748308386036243739434220181566401545833864936593312579994938012579269046794222580167181435419934605026725861081111221578806021101112011952239901886436669038153899298191763262917832413269419519754752999941624547092101562647350888766800369909817307898892827637533812625278679903607095932142576182538870161659039402754782186693361584990893316909545104147777346671998012364923767904327290118541715831510739318217955305087184757417798837271854942255395252058732493986908720704158644069226859357484827540123870844995976591575660804581110302361589325919609023049454957316000642359380309704704 7693 c1_gen_2_13_s7680).trans (by rfl))

theorem c1_cons_2_13_s512 : consTwin 2 13 8192 4096 297451032133399501847248817215338247289551159626559455664302910133102053229655088195192431137407574390169395265311080797077991204274544404233615846072283678915493208441212965665353799757256873373822590540376634932975518914480288693615689509986536747798453854370110751566241770075081060955033783220024393287694765782015063869045650538513548745651229066213342854201974766681111045859662205283187454552427805701620011304614378119564874854509920342040775491725421807341288964437555602632428304681756428767300355660554340010248654067159596346304558937949162725435642714210429785583522342700092081938177434283539175478855683275288872901248453586370473179426989812812137901180970309803333085882655413996721608823754469051590718947157906146685330930518689523616402699548830030420096923194453704971866109821138688317956706053251669319568077342130819177190283586828048144669122775385905546075266146478901848075744297484141146146567313305913820534823058900796432902915393388017501626847436892719799351551442349107801434446004208515713531391737717608204008488671650763098448225977660380080112936703729268754624668049592334132540516452810898908190600712014614371651398701948303914585148687549322273487074165441225579730679140686081965765190524735735293606037595209962137504195409490825952020461827824126425769121043132607049786252161739767841633680469059803586322803288679681893606975749057479227354849919315905219367386407103204917808537942569679290237711581064832972856087632439867150900440617137408768027459370616675922323306982409711684198866787439894723421241805185760473194657465518343652245204969131533909882201717298852054552955248336714603817319701512020013879293258517557480615565212688468684362297325467369149568597434085596027129385474377776085993094684324727105622963371092233915088588928797739249688033947889543318861827756608246651707761860891400427570853000697252689785368805703063546467900818836345905621087416683921473461588676521493847782881067125675288486623331896099188041329556385394035585018631866955505318788044228674564433093543586520174624425106581518876121759153944016108496101809358099864849932159161850597827681196928080156942250428256551271037802384407753497009784596320407610250765041444970209145490586790173151537436054981557448376835174345853009833684322613859332644309811451925240090861598181678953621317272372832718100750575633696065166270562046117837675542162409217338642139528364814175957951813844820059067682567136737363947833089926400983067300191943882273070074990178650251486080463888149143388014873246777541219223966585586415109164362531578948298595683038038723404277793948813998233995542171915682130961825385715950256612162846891451666719638958547763059717850472234524916620523128917858373915756611970570265289498397779077371068501686741637073177354827994910456464722148675603152321826369034418698321891536876958952544272650622343731625396612719301341051562694233388685378184657962133239783815860750186800824411991049888069583947459547851096821328478646762477746739559280335760930960908682128949247573941880070551973622887306750511738510760647214207130361200533662907314118097345426330662197195878405701693708839909208678019626822378675385500142088856721652096186782556507592089765788303194908691945987055362266914588716779317456794219888705461149991153292077068405587985571600004034770207581832512199694415878751080411277569147875159316496430705155422013461903809186559113931922208029801161527422494499633431759562726076942854919674297427613915724219006173887509963584407665892500436695035160322400009872360268520690297991606607899730991927419747642687690027561845517428538194550219963585660748175276618490497233313322298914007464236209530587781644349218670546494001615660143878711584098439158345809683034442881734121424825367853658723084571377206772058086259481707708969468397777099882708271738760375342259244099842736023589445329906169239163941617593870470084497478275510592057370097026626294765221876692942383496932142779109589748498512225348872401469298752275688730852326089561133559822871751515582471817551521585979418110548608058398985831199932267961221217183452373377355644827775197108891482990494585992984940503517781965924335626648594939240541543044165483934137107366698422534591931360703660865116595001046279395852357463404938409895035159424654245082432591678033593405950800763624299509153040566223233988282357537007264710246212405408459089834707880526691638979002994481000306397284646885553298616132629760515318028290672364562147422015209141044771105225831982711198321142736853807780318007036277958059345109312025000563207066151881799454771146401823437756458160308318043886372511463952246322039279186024587745776232736467279513188290939309610912654521661137685114303709351255215702585120882156859733081905116166542580895951892804617095313526449414847964350072702081257097010869492121628981109652772574875202140969437581414966053622834601835745624633730358531202708324001258165810042285064192 512 0 0 0 0 = (512, 6991, 1090748135619415929462979432756657727828409902902177854156999072420993928206957088913611113681866730118941946845735158976177825376541882760264413948615968409646423618530320382358387588074143974201988988506982803174779538275844553781681976091978813825609168232286008493743631722750052723811655640082957645393224240466603055153550876304062484538136073848257876760565862174998996429803619841702448019192000813793085457432278184055618366884147257120824638568873580843407498587520821131522922960937262619281634479777266159844335604789524920302399179257613786517082745837712577692123413927919796379241809578326058144903322041800476451641199535762132270285331352098470068899865261957961609445742328785315043733298847491106732954970293819677455898377916377194782922322568876526167818884792182199698165461610607738021337567679303251284158837365766679171475514308919753769721831343921037768635421855426374082011516606566870290787696609224149675144291681506817440240767219886217169849212815731033115522129747309902840959681648530549474483430249733916885596177849660152391839363397420629101078624250928373881442009395334772135421162656961949792765082605335296628145902995976846022180252826954958619085342091252996931135716744567849661794215333394499542153633505686533383642977152084964624045811486126374152646233013491676529624898795524985498130617413887667195515524855604550720958300896208801700200248028097356007404528290346946439737718609045325271638381568730655072448367925504514521136333699653398945053893770439473348401749841584883790177087076342292922960799451621723227116935952280843809036463748802433947619872339964155465033528154185283771048552468480787113883230386455349910579428352456175129801784880928509769969175525519122294926581921766295814626666818802696990096750073175389973173468993676892480308762199683310326489010091901087517547056463887697208987955388734326932564549510193986800773892334036332648204215374836454177314342178781871366065828241079009666562537065020253744993409482607275588212788604887126960411861873680565654582772838900429060295845897870545625989652305927478404715504894016622787732736186937781072956793795003037421540265902027120331421771648932341409414818495572399652808861995049814858744722420501486490890198020199595340671371073117163866900887935242657679284524888809506698862597058404831816023759164014806783781305072155554996408339165490298007875928523212461901631836396932639978617834099811373246265544530841408824748557061620179697803, 500) := by rfl

theorem c1_cons_2_13_s1024 : consTwin 2 13 8192 4096 297451032133399501847248817215338247289551159626559455664302910133102053229655088195192431137407574390169395265311080797077991204274544404233615846072283678915493208441212965665353799757256873373822590540376634932975518914480288693615689509986536747798453854370110751566241770075081060955033783220024393287694765782015063869045650538513548745651229066213342854201974766681111045859662205283187454552427805701620011304614378119564874854509920342040775491725421807341288964437555602632428304681756428767300355660554340010248654067159596346304558937949162725435642714210429785583522342700092081938177434283539175478855683275288872901248453586370473179426989812812137901180970309803333085882655413996721608823754469051590718947157906146685330930518689523616402699548830030420096923194453704971866109821138688317956706053251669319568077342130819177190283586828048144669122775385905546075266146478901848075744297484141146146567313305913820534823058900796432902915393388017501626847436892719799351551442349107801434446004208515713531391737717608204008488671650763098448225977660380080112936703729268754624668049592334132540516452810898908190600712014614371651398701948303914585148687549322273487074165441225579730679140686081965765190524735735293606037595209962137504195409490825952020461827824126425769121043132607049786252161739767841633680469059803586322803288679681893606975749057479227354849919315905219367386407103204917808537942569679290237711581064832972856087632439867150900440617137408768027459370616675922323306982409711684198866787439894723421241805185760473194657465518343652245204969131533909882201717298852054552955248336714603817319701512020013879293258517557480615565212688468684362297325467369149568597434085596027129385474377776085993094684324727105622963371092233915088588928797739249688033947889543318861827756608246651707761860891400427570853000697252689785368805703063546467900818836345905621087416683921473461588676521493847782881067125675288486623331896099188041329556385394035585018631866955505318788044228674564433093543586520174624425106581518876121759153944016108496101809358099864849932159161850597827681196928080156942250428256551271037802384407753497009784596320407610250765041444970209145490586790173151537436054981557448376835174345853009833684322613859332644309811451925240090861598181678953621317272372832718100750575633696065166270562046117837675542162409217338642139528364814175957951813844820059067682567136737363947833089926400983067300191943882273070074990178650251486080463888149143388014873246777541219223966585586415109164362531578948298595683038038723404277793948813998233995542171915682130961825385715950256612162846891451666719638958547763059717850472234524916620523128917858373915756611970570265289498397779077371068501686741637073177354827994910456464722148675603152321826369034418698321891536876958952544272650622343731625396612719301341051562694233388685378184657962133239783815860750186800824411991049888069583947459547851096821328478646762477746739559280335760930960908682128949247573941880070551973622887306750511738510760647214207130361200533662907314118097345426330662197195878405701693708839909208678019626822378675385500142088856721652096186782556507592089765788303194908691945987055362266914588716779317456794219888705461149991153292077068405587985571600004034770207581832512199694415878751080411277569147875159316496430705155422013461903809186559113931922208029801161527422494499633431759562726076942854919674297427613915724219006173887509963584407665892500436695035160322400009872360268520690297991606607899730991927419747642687690027561845517428538194550219963585660748175276618490497233313322298914007464236209530587781644349218670546494001615660143878711584098439158345809683034442881734121424825367853658723084571377206772058086259481707708969468397777099882708271738760375342259244099842736023589445329906169239163941617593870470084497478275510592057370097026626294765221876692942383496932142779109589748498512225348872401469298752275688730852326089561133559822871751515582471817551521585979418110548608058398985831199932267961221217183452373377355644827775197108891482990494585992984940503517781965924335626648594939240541543044165483934137107366698422534591931360703660865116595001046279395852357463404938409895035159424654245082432591678033593405950800763624299509153040566223233988282357537007264710246212405408459089834707880526691638979002994481000306397284646885553298616132629760515318028290672364562147422015209141044771105225831982711198321142736853807780318007036277958059345109312025000563207066151881799454771146401823437756458160308318043886372511463952246322039279186024587745776232736467279513188290939309610912654521661137685114303709351255215702585120882156859733081905116166542580895951892804617095313526449414847964350072702081257097010869492121628981109652772574875202140969437581414966053622834601835745624633730358531202708324001258165810042285064192 1024 0 0 0 0 = (1024, 2550, 1090748135619415929462984244733782862448264161992252318245916215123173352429128694872998567885448318073552499921414955347639607463240071937380739539180707469639036380144653461154345106935518558855603579060108655808999887307475674475937149604655764845389917639418426776024601155389842814946939708190643690052899700974746810990694302516451408025161855633736659630687302312154509291480951599547150439776288408040103176041170111754137542599296797432514238154145361703997292846224930954429722197797751157052174933305023348329922652088118751608752656701323392324992280178631575143381945036662235801013434612851403816556271414082169476335308207362396410238140963591397970742932886340415325382172571690414620749457104106278838190719199483147828013333165661250372629140568912088648359898577855706845236796147603072565848216660425614636555880448961981381308389909016843562967896942346214703379519652664210126015850673115724893296313294089561837287682469970928803651470337379518225700879278186867761680830314195421324650468663615197073277469701017342013237299317019514322475920617410269350051859417371281749795688176540163997681339297867857150034589230850900806298945778762447218199301490994337411390654880314933498633748987149734147429025620132276838392718035922899492099344634395997109433550431308445443084483350503362818574776831296264526802876173153745319587259216153520609499622841911208748909422600197717064689917651839678531129459729212715258386967176341126628916623265771424208410198004026608043436004292867025657206855463581286827538194280890489541123669816007169779419890642993437469639558037374432999487043148794258292160563073565345981675354490933283202167767367802339172313800259610186911866343598244564188732323969874203408928084354979858072859600242760068432012820042200093223442195528706375414727939543141675655050418267227556149201831621343776223135945737180225956605375131693208520072311265126651865069156073409791687885164491135288745193428819592504942831125334457544942850548230484425181439700552092600108020513721116457726242791826978253494786625076378953423184950834119191256956262339762715654414041522417629570199798426019688804068783419799862087788816201130155314180124136378871043297372956261521185741791603417859196121480845683980663248034738484453844028827256493100193286953356886771216441042662276784282414480162879602327188827751013462414639242385046217785769659523659840228979949724473067194778311765769795415148369459597556712059671543186236407947, 1012) :=
  (congrArg (fun m => consTwin 2 13 8192 4096 297451032133399501847248817215338247289551159626559455664302910133102053229655088195192431137407574390169395265311080797077991204274544404233615846072283678915493208441212965665353799757256873373822590540376634932975518914480288693615689509986536747798453854370110751566241770075081060955033783220024393287694765782015063869045650538513548745651229066213342854201974766681111045859662205283187454552427805701620011304614378119564874854509920342040775491725421807341288964437555602632428304681756428767300355660554340010248654067159596346304558937949162725435642714210429785583522342700092081938177434283539175478855683275288872901248453586370473179426989812812137901180970309803333085882655413996721608823754469051590718947157906146685330930518689523616402699548830030420096923194453704971866109821138688317956706053251669319568077342130819177190283586828048144669122775385905546075266146478901848075744297484141146146567313305913820534823058900796432902915393388017501626847436892719799351551442349107801434446004208515713531391737717608204008488671650763098448225977660380080112936703729268754624668049592334132540516452810898908190600712014614371651398701948303914585148687549322273487074165441225579730679140686081965765190524735735293606037595209962137504195409490825952020461827824126425769121043132607049786252161739767841633680469059803586322803288679681893606975749057479227354849919315905219367386407103204917808537942569679290237711581064832972856087632439867150900440617137408768027459370616675922323306982409711684198866787439894723421241805185760473194657465518343652245204969131533909882201717298852054552955248336714603817319701512020013879293258517557480615565212688468684362297325467369149568597434085596027129385474377776085993094684324727105622963371092233915088588928797739249688033947889543318861827756608246651707761860891400427570853000697252689785368805703063546467900818836345905621087416683921473461588676521493847782881067125675288486623331896099188041329556385394035585018631866955505318788044228674564433093543586520174624425106581518876121759153944016108496101809358099864849932159161850597827681196928080156942250428256551271037802384407753497009784596320407610250765041444970209145490586790173151537436054981557448376835174345853009833684322613859332644309811451925240090861598181678953621317272372832718100750575633696065166270562046117837675542162409217338642139528364814175957951813844820059067682567136737363947833089926400983067300191943882273070074990178650251486080463888149143388014873246777541219223966585586415109164362531578948298595683038038723404277793948813998233995542171915682130961825385715950256612162846891451666719638958547763059717850472234524916620523128917858373915756611970570265289498397779077371068501686741637073177354827994910456464722148675603152321826369034418698321891536876958952544272650622343731625396612719301341051562694233388685378184657962133239783815860750186800824411991049888069583947459547851096821328478646762477746739559280335760930960908682128949247573941880070551973622887306750511738510760647214207130361200533662907314118097345426330662197195878405701693708839909208678019626822378675385500142088856721652096186782556507592089765788303194908691945987055362266914588716779317456794219888705461149991153292077068405587985571600004034770207581832512199694415878751080411277569147875159316496430705155422013461903809186559113931922208029801161527422494499633431759562726076942854919674297427613915724219006173887509963584407665892500436695035160322400009872360268520690297991606607899730991927419747642687690027561845517428538194550219963585660748175276618490497233313322298914007464236209530587781644349218670546494001615660143878711584098439158345809683034442881734121424825367853658723084571377206772058086259481707708969468397777099882708271738760375342259244099842736023589445329906169239163941617593870470084497478275510592057370097026626294765221876692942383496932142779109589748498512225348872401469298752275688730852326089561133559822871751515582471817551521585979418110548608058398985831199932267961221217183452373377355644827775197108891482990494585992984940503517781965924335626648594939240541543044165483934137107366698422534591931360703660865116595001046279395852357463404938409895035159424654245082432591678033593405950800763624299509153040566223233988282357537007264710246212405408459089834707880526691638979002994481000306397284646885553298616132629760515318028290672364562147422015209141044771105225831982711198321142736853807780318007036277958059345109312025000563207066151881799454771146401823437756458160308318043886372511463952246322039279186024587745776232736467279513188290939309610912654521661137685114303709351255215702585120882156859733081905116166542580895951892804617095313526449414847964350072702081257097010869492121628981109652772574875202140969437581414966053622834601835745624633730358531202708324001258165810042285064192 m 0 0 0 0)
      (by norm_num : (1024 : Nat) = 512 + 512)).trans
    ((consTwin_chunk 2 13 8192 4096 297451032133399501847248817215338247289551159626559455664302910133102053229655088195192431137407574390169395265311080797077991204274544404233615846072283678915493208441212965665353799757256873373822590540376634932975518914480288693615689509986536747798453854370110751566241770075081060955033783220024393287694765782015063869045650538513548745651229066213342854201974766681111045859662205283187454552427805701620011304614378119564874854509920342040775491725421807341288964437555602632428304681756428767300355660554340010248654067159596346304558937949162725435642714210429785583522342700092081938177434283539175478855683275288872901248453586370473179426989812812137901180970309803333085882655413996721608823754469051590718947157906146685330930518689523616402699548830030420096923194453704971866109821138688317956706053251669319568077342130819177190283586828048144669122775385905546075266146478901848075744297484141146146567313305913820534823058900796432902915393388017501626847436892719799351551442349107801434446004208515713531391737717608204008488671650763098448225977660380080112936703729268754624668049592334132540516452810898908190600712014614371651398701948303914585148687549322273487074165441225579730679140686081965765190524735735293606037595209962137504195409490825952020461827824126425769121043132607049786252161739767841633680469059803586322803288679681893606975749057479227354849919315905219367386407103204917808537942569679290237711581064832972856087632439867150900440617137408768027459370616675922323306982409711684198866787439894723421241805185760473194657465518343652245204969131533909882201717298852054552955248336714603817319701512020013879293258517557480615565212688468684362297325467369149568597434085596027129385474377776085993094684324727105622963371092233915088588928797739249688033947889543318861827756608246651707761860891400427570853000697252689785368805703063546467900818836345905621087416683921473461588676521493847782881067125675288486623331896099188041329556385394035585018631866955505318788044228674564433093543586520174624425106581518876121759153944016108496101809358099864849932159161850597827681196928080156942250428256551271037802384407753497009784596320407610250765041444970209145490586790173151537436054981557448376835174345853009833684322613859332644309811451925240090861598181678953621317272372832718100750575633696065166270562046117837675542162409217338642139528364814175957951813844820059067682567136737363947833089926400983067300191943882273070074990178650251486080463888149143388014873246777541219223966585586415109164362531578948298595683038038723404277793948813998233995542171915682130961825385715950256612162846891451666719638958547763059717850472234524916620523128917858373915756611970570265289498397779077371068501686741637073177354827994910456464722148675603152321826369034418698321891536876958952544272650622343731625396612719301341051562694233388685378184657962133239783815860750186800824411991049888069583947459547851096821328478646762477746739559280335760930960908682128949247573941880070551973622887306750511738510760647214207130361200533662907314118097345426330662197195878405701693708839909208678019626822378675385500142088856721652096186782556507592089765788303194908691945987055362266914588716779317456794219888705461149991153292077068405587985571600004034770207581832512199694415878751080411277569147875159316496430705155422013461903809186559113931922208029801161527422494499633431759562726076942854919674297427613915724219006173887509963584407665892500436695035160322400009872360268520690297991606607899730991927419747642687690027561845517428538194550219963585660748175276618490497233313322298914007464236209530587781644349218670546494001615660143878711584098439158345809683034442881734121424825367853658723084571377206772058086259481707708969468397777099882708271738760375342259244099842736023589445329906169239163941617593870470084497478275510592057370097026626294765221876692942383496932142779109589748498512225348872401469298752275688730852326089561133559822871751515582471817551521585979418110548608058398985831199932267961221217183452373377355644827775197108891482990494585992984940503517781965924335626648594939240541543044165483934137107366698422534591931360703660865116595001046279395852357463404938409895035159424654245082432591678033593405950800763624299509153040566223233988282357537007264710246212405408459089834707880526691638979002994481000306397284646885553298616132629760515318028290672364562147422015209141044771105225831982711198321142736853807780318007036277958059345109312025000563207066151881799454771146401823437756458160308318043886372511463952246322039279186024587745776232736467279513188290939309610912654521661137685114303709351255215702585120882156859733081905116166542580895951892804617095313526449414847964350072702081257097010869492121628981109652772574875202140969437581414966053622834601835745624633730358531202708324001258165810042285064192 512 512 0 0 0 0 512 6991 1090748135619415929462979432756657727828409902902177854156999072420993928206957088913611113681866730118941946845735158976177825376541882760264413948615968409646423618530320382358387588074143974201988988506982803174779538275844553781681976091978813825609168232286008493743631722750052723811655640082957645393224240466603055153550876304062484538136073848257876760565862174998996429803619841702448019192000813793085457432278184055618366884147257120824638568873580843407498587520821131522922960937262619281634479777266159844335604789524920302399179257613786517082745837712577692123413927919796379241809578326058144903322041800476451641199535762132270285331352098470068899865261957961609445742328785315043733298847491106732954970293819677455898377916377194782922322568876526167818884792182199698165461610607738021337567679303251284158837365766679171475514308919753769721831343921037768635421855426374082011516606566870290787696609224149675144291681506817440240767219886217169849212815731033115522129747309902840959681648530549474483430249733916885596177849660152391839363397420629101078624250928373881442009395334772135421162656961949792765082605335296628145902995976846022180252826954958619085342091252996931135716744567849661794215333394499542153633505686533383642977152084964624045811486126374152646233013491676529624898795524985498130617413887667195515524855604550720958300896208801700200248028097356007404528290346946439737718609045325271638381568730655072448367925504514521136333699653398945053893770439473348401749841584883790177087076342292922960799451621723227116935952280843809036463748802433947619872339964155465033528154185283771048552468480787113883230386455349910579428352456175129801784880928509769969175525519122294926581921766295814626666818802696990096750073175389973173468993676892480308762199683310326489010091901087517547056463887697208987955388734326932564549510193986800773892334036332648204215374836454177314342178781871366065828241079009666562537065020253744993409482607275588212788604887126960411861873680565654582772838900429060295845897870545625989652305927478404715504894016622787732736186937781072956793795003037421540265902027120331421771648932341409414818495572399652808861995049814858744722420501486490890198020199595340671371073117163866900887935242657679284524888809506698862597058404831816023759164014806783781305072155554996408339165490298007875928523212461901631836396932639978617834099811373246265544530841408824748557061620179697803 500 c1_cons_2_13_s512).trans (by rfl))

theorem c1_cons_2_13_s1536 : consTwin 2 13 8192 4096 297451032133399501847248817215338247289551159626559455664302910133102053229655088195192431137407574390169395265311080797077991204274544404233615846072283678915493208441212965665353799757256873373822590540376634932975518914480288693615689509986536747798453854370110751566241770075081060955033783220024393287694765782015063869045650538513548745651229066213342854201974766681111045859662205283187454552427805701620011304614378119564874854509920342040775491725421807341288964437555602632428304681756428767300355660554340010248654067159596346304558937949162725435642714210429785583522342700092081938177434283539175478855683275288872901248453586370473179426989812812137901180970309803333085882655413996721608823754469051590718947157906146685330930518689523616402699548830030420096923194453704971866109821138688317956706053251669319568077342130819177190283586828048144669122775385905546075266146478901848075744297484141146146567313305913820534823058900796432902915393388017501626847436892719799351551442349107801434446004208515713531391737717608204008488671650763098448225977660380080112936703729268754624668049592334132540516452810898908190600712014614371651398701948303914585148687549322273487074165441225579730679140686081965765190524735735293606037595209962137504195409490825952020461827824126425769121043132607049786252161739767841633680469059803586322803288679681893606975749057479227354849919315905219367386407103204917808537942569679290237711581064832972856087632439867150900440617137408768027459370616675922323306982409711684198866787439894723421241805185760473194657465518343652245204969131533909882201717298852054552955248336714603817319701512020013879293258517557480615565212688468684362297325467369149568597434085596027129385474377776085993094684324727105622963371092233915088588928797739249688033947889543318861827756608246651707761860891400427570853000697252689785368805703063546467900818836345905621087416683921473461588676521493847782881067125675288486623331896099188041329556385394035585018631866955505318788044228674564433093543586520174624425106581518876121759153944016108496101809358099864849932159161850597827681196928080156942250428256551271037802384407753497009784596320407610250765041444970209145490586790173151537436054981557448376835174345853009833684322613859332644309811451925240090861598181678953621317272372832718100750575633696065166270562046117837675542162409217338642139528364814175957951813844820059067682567136737363947833089926400983067300191943882273070074990178650251486080463888149143388014873246777541219223966585586415109164362531578948298595683038038723404277793948813998233995542171915682130961825385715950256612162846891451666719638958547763059717850472234524916620523128917858373915756611970570265289498397779077371068501686741637073177354827994910456464722148675603152321826369034418698321891536876958952544272650622343731625396612719301341051562694233388685378184657962133239783815860750186800824411991049888069583947459547851096821328478646762477746739559280335760930960908682128949247573941880070551973622887306750511738510760647214207130361200533662907314118097345426330662197195878405701693708839909208678019626822378675385500142088856721652096186782556507592089765788303194908691945987055362266914588716779317456794219888705461149991153292077068405587985571600004034770207581832512199694415878751080411277569147875159316496430705155422013461903809186559113931922208029801161527422494499633431759562726076942854919674297427613915724219006173887509963584407665892500436695035160322400009872360268520690297991606607899730991927419747642687690027561845517428538194550219963585660748175276618490497233313322298914007464236209530587781644349218670546494001615660143878711584098439158345809683034442881734121424825367853658723084571377206772058086259481707708969468397777099882708271738760375342259244099842736023589445329906169239163941617593870470084497478275510592057370097026626294765221876692942383496932142779109589748498512225348872401469298752275688730852326089561133559822871751515582471817551521585979418110548608058398985831199932267961221217183452373377355644827775197108891482990494585992984940503517781965924335626648594939240541543044165483934137107366698422534591931360703660865116595001046279395852357463404938409895035159424654245082432591678033593405950800763624299509153040566223233988282357537007264710246212405408459089834707880526691638979002994481000306397284646885553298616132629760515318028290672364562147422015209141044771105225831982711198321142736853807780318007036277958059345109312025000563207066151881799454771146401823437756458160308318043886372511463952246322039279186024587745776232736467279513188290939309610912654521661137685114303709351255215702585120882156859733081905116166542580895951892804617095313526449414847964350072702081257097010869492121628981109652772574875202140969437581414966053622834601835745624633730358531202708324001258165810042285064192 1536 0 0 0 0 = (1536, 7717, 1090748135619415929462984244733782862448264161996232692431832786189721331026000333579207222537567962542256506485352299198151315803220937835477031379173204181135666490984026711315002805600482766472316379770936329591505055415982889627976661934922534829805733709068274223043073459641415190368723509577508971718047781194783297057853474185910380069804077450662754125234790383759192177799924380063585191049261157562838998250635577895702509783116434038350351636874466654663244539251916527254866716967714525494095645300773373900162812452549769810246937095547101890344032165069310330684692295507179834482835180098999223012728704833379531446691371929244179027457423765744511689877538093489397360315046389772124375216216194586491340349090181776447955030656774945896253442213594705886616448194162065435031209149817640234154972555386935293365200752146390785921804779644414260836683542651738076345921450527237558024424637362501758769922449980260456113108877942108108447097265808237692413381201438863337841620114897433514514314578232365476020274932807574181891179613866525132802167434828767382495554678088822102650530774966214843817445751529770239265959822697849452261862212493496712625894895259075603964956370784163842906775841767371862329284965740754623329165143752569888816583444979503748354654525775869404614871071827865112318459655373186002071143171194242216955642923880168334656506321567234604878069461190602947173264367954302648138169988905619963386706667713238845263335277855835752679136844392460107965993616970573511613251108668527010213709610495257411922052042061720627744692875358610224370557396966683599773588797531340101027158533151653533693587575077078896532002826656956215714084450634135089297072202481980990823398458195271934823805088943112555131120443097269779892734869508464551599242053402772664612309524078854583423938950902571987763437554667591661221097068266293582797080426275649516851488193034947457836032121575203038928601810509642876854923896963580810906299847369150145826888551951769949991332123659689948787446823834366326967592396128680238535020606481278403142571043402322058371476990220253502422055819189195567739738280298673803078143240656091832922083519691976260982099086595003700481363098049250228371657444109447067046620289776784237603805898363018426526869712461001519656687778618397850166374523227429325146144856060282582333304120485143588777478572334136304797122315240308794646230389570041329293848868342465793396284173416137768143819347546859405451, 1524) :=
  (congrArg (fun m => consTwin 2 13 8192 4096 297451032133399501847248817215338247289551159626559455664302910133102053229655088195192431137407574390169395265311080797077991204274544404233615846072283678915493208441212965665353799757256873373822590540376634932975518914480288693615689509986536747798453854370110751566241770075081060955033783220024393287694765782015063869045650538513548745651229066213342854201974766681111045859662205283187454552427805701620011304614378119564874854509920342040775491725421807341288964437555602632428304681756428767300355660554340010248654067159596346304558937949162725435642714210429785583522342700092081938177434283539175478855683275288872901248453586370473179426989812812137901180970309803333085882655413996721608823754469051590718947157906146685330930518689523616402699548830030420096923194453704971866109821138688317956706053251669319568077342130819177190283586828048144669122775385905546075266146478901848075744297484141146146567313305913820534823058900796432902915393388017501626847436892719799351551442349107801434446004208515713531391737717608204008488671650763098448225977660380080112936703729268754624668049592334132540516452810898908190600712014614371651398701948303914585148687549322273487074165441225579730679140686081965765190524735735293606037595209962137504195409490825952020461827824126425769121043132607049786252161739767841633680469059803586322803288679681893606975749057479227354849919315905219367386407103204917808537942569679290237711581064832972856087632439867150900440617137408768027459370616675922323306982409711684198866787439894723421241805185760473194657465518343652245204969131533909882201717298852054552955248336714603817319701512020013879293258517557480615565212688468684362297325467369149568597434085596027129385474377776085993094684324727105622963371092233915088588928797739249688033947889543318861827756608246651707761860891400427570853000697252689785368805703063546467900818836345905621087416683921473461588676521493847782881067125675288486623331896099188041329556385394035585018631866955505318788044228674564433093543586520174624425106581518876121759153944016108496101809358099864849932159161850597827681196928080156942250428256551271037802384407753497009784596320407610250765041444970209145490586790173151537436054981557448376835174345853009833684322613859332644309811451925240090861598181678953621317272372832718100750575633696065166270562046117837675542162409217338642139528364814175957951813844820059067682567136737363947833089926400983067300191943882273070074990178650251486080463888149143388014873246777541219223966585586415109164362531578948298595683038038723404277793948813998233995542171915682130961825385715950256612162846891451666719638958547763059717850472234524916620523128917858373915756611970570265289498397779077371068501686741637073177354827994910456464722148675603152321826369034418698321891536876958952544272650622343731625396612719301341051562694233388685378184657962133239783815860750186800824411991049888069583947459547851096821328478646762477746739559280335760930960908682128949247573941880070551973622887306750511738510760647214207130361200533662907314118097345426330662197195878405701693708839909208678019626822378675385500142088856721652096186782556507592089765788303194908691945987055362266914588716779317456794219888705461149991153292077068405587985571600004034770207581832512199694415878751080411277569147875159316496430705155422013461903809186559113931922208029801161527422494499633431759562726076942854919674297427613915724219006173887509963584407665892500436695035160322400009872360268520690297991606607899730991927419747642687690027561845517428538194550219963585660748175276618490497233313322298914007464236209530587781644349218670546494001615660143878711584098439158345809683034442881734121424825367853658723084571377206772058086259481707708969468397777099882708271738760375342259244099842736023589445329906169239163941617593870470084497478275510592057370097026626294765221876692942383496932142779109589748498512225348872401469298752275688730852326089561133559822871751515582471817551521585979418110548608058398985831199932267961221217183452373377355644827775197108891482990494585992984940503517781965924335626648594939240541543044165483934137107366698422534591931360703660865116595001046279395852357463404938409895035159424654245082432591678033593405950800763624299509153040566223233988282357537007264710246212405408459089834707880526691638979002994481000306397284646885553298616132629760515318028290672364562147422015209141044771105225831982711198321142736853807780318007036277958059345109312025000563207066151881799454771146401823437756458160308318043886372511463952246322039279186024587745776232736467279513188290939309610912654521661137685114303709351255215702585120882156859733081905116166542580895951892804617095313526449414847964350072702081257097010869492121628981109652772574875202140969437581414966053622834601835745624633730358531202708324001258165810042285064192 m 0 0 0 0)
      (by norm_num : (1536 : Nat) = 512 + 1024)).trans
    ((consTwin_chunk 2 13 8192 4096 297451032133399501847248817215338247289551159626559455664302910133102053229655088195192431137407574390169395265311080797077991204274544404233615846072283678915493208441212965665353799757256873373822590540376634932975518914480288693615689509986536747798453854370110751566241770075081060955033783220024393287694765782015063869045650538513548745651229066213342854201974766681111045859662205283187454552427805701620011304614378119564874854509920342040775491725421807341288964437555602632428304681756428767300355660554340010248654067159596346304558937949162725435642714210429785583522342700092081938177434283539175478855683275288872901248453586370473179426989812812137901180970309803333085882655413996721608823754469051590718947157906146685330930518689523616402699548830030420096923194453704971866109821138688317956706053251669319568077342130819177190283586828048144669122775385905546075266146478901848075744297484141146146567313305913820534823058900796432902915393388017501626847436892719799351551442349107801434446004208515713531391737717608204008488671650763098448225977660380080112936703729268754624668049592334132540516452810898908190600712014614371651398701948303914585148687549322273487074165441225579730679140686081965765190524735735293606037595209962137504195409490825952020461827824126425769121043132607049786252161739767841633680469059803586322803288679681893606975749057479227354849919315905219367386407103204917808537942569679290237711581064832972856087632439867150900440617137408768027459370616675922323306982409711684198866787439894723421241805185760473194657465518343652245204969131533909882201717298852054552955248336714603817319701512020013879293258517557480615565212688468684362297325467369149568597434085596027129385474377776085993094684324727105622963371092233915088588928797739249688033947889543318861827756608246651707761860891400427570853000697252689785368805703063546467900818836345905621087416683921473461588676521493847782881067125675288486623331896099188041329556385394035585018631866955505318788044228674564433093543586520174624425106581518876121759153944016108496101809358099864849932159161850597827681196928080156942250428256551271037802384407753497009784596320407610250765041444970209145490586790173151537436054981557448376835174345853009833684322613859332644309811451925240090861598181678953621317272372832718100750575633696065166270562046117837675542162409217338642139528364814175957951813844820059067682567136737363947833089926400983067300191943882273070074990178650251486080463888149143388014873246777541219223966585586415109164362531578948298595683038038723404277793948813998233995542171915682130961825385715950256612162846891451666719638958547763059717850472234524916620523128917858373915756611970570265289498397779077371068501686741637073177354827994910456464722148675603152321826369034418698321891536876958952544272650622343731625396612719301341051562694233388685378184657962133239783815860750186800824411991049888069583947459547851096821328478646762477746739559280335760930960908682128949247573941880070551973622887306750511738510760647214207130361200533662907314118097345426330662197195878405701693708839909208678019626822378675385500142088856721652096186782556507592089765788303194908691945987055362266914588716779317456794219888705461149991153292077068405587985571600004034770207581832512199694415878751080411277569147875159316496430705155422013461903809186559113931922208029801161527422494499633431759562726076942854919674297427613915724219006173887509963584407665892500436695035160322400009872360268520690297991606607899730991927419747642687690027561845517428538194550219963585660748175276618490497233313322298914007464236209530587781644349218670546494001615660143878711584098439158345809683034442881734121424825367853658723084571377206772058086259481707708969468397777099882708271738760375342259244099842736023589445329906169239163941617593870470084497478275510592057370097026626294765221876692942383496932142779109589748498512225348872401469298752275688730852326089561133559822871751515582471817551521585979418110548608058398985831199932267961221217183452373377355644827775197108891482990494585992984940503517781965924335626648594939240541543044165483934137107366698422534591931360703660865116595001046279395852357463404938409895035159424654245082432591678033593405950800763624299509153040566223233988282357537007264710246212405408459089834707880526691638979002994481000306397284646885553298616132629760515318028290672364562147422015209141044771105225831982711198321142736853807780318007036277958059345109312025000563207066151881799454771146401823437756458160308318043886372511463952246322039279186024587745776232736467279513188290939309610912654521661137685114303709351255215702585120882156859733081905116166542580895951892804617095313526449414847964350072702081257097010869492121628981109652772574875202140969437581414966053622834601835745624633730358531202708324001258165810042285064192 512 1024 0 0 0 0 1024 2550 1090748135619415929462984244733782862448264161992252318245916215123173352429128694872998567885448318073552499921414955347639607463240071937380739539180707469639036380144653461154345106935518558855603579060108655808999887307475674475937149604655764845389917639418426776024601155389842814946939708190643690052899700974746810990694302516451408025161855633736659630687302312154509291480951599547150439776288408040103176041170111754137542599296797432514238154145361703997292846224930954429722197797751157052174933305023348329922652088118751608752656701323392324992280178631575143381945036662235801013434612851403816556271414082169476335308207362396410238140963591397970742932886340415325382172571690414620749457104106278838190719199483147828013333165661250372629140568912088648359898577855706845236796147603072565848216660425614636555880448961981381308389909016843562967896942346214703379519652664210126015850673115724893296313294089561837287682469970928803651470337379518225700879278186867761680830314195421324650468663615197073277469701017342013237299317019514322475920617410269350051859417371281749795688176540163997681339297867857150034589230850900806298945778762447218199301490994337411390654880314933498633748987149734147429025620132276838392718035922899492099344634395997109433550431308445443084483350503362818574776831296264526802876173153745319587259216153520609499622841911208748909422600197717064689917651839678531129459729212715258386967176341126628916623265771424208410198004026608043436004292867025657206855463581286827538194280890489541123669816007169779419890642993437469639558037374432999487043148794258292160563073565345981675354490933283202167767367802339172313800259610186911866343598244564188732323969874203408928084354979858072859600242760068432012820042200093223442195528706375414727939543141675655050418267227556149201831621343776223135945737180225956605375131693208520072311265126651865069156073409791687885164491135288745193428819592504942831125334457544942850548230484425181439700552092600108020513721116457726242791826978253494786625076378953423184950834119191256956262339762715654414041522417629570199798426019688804068783419799862087788816201130155314180124136378871043297372956261521185741791603417859196121480845683980663248034738484453844028827256493100193286953356886771216441042662276784282414480162879602327188827751013462414639242385046217785769659523659840228979949724473067194778311765769795415148369459597556712059671543186236407947 1012 c1_cons_2_13_s1024).trans (by rfl))

theorem c1_cons_2_13_s2048 : consTwin 2 13 8192 4096 297451032133399501847248817215338247289551159626559455664302910133102053229655088195192431137407574390169395265311080797077991204274544404233615846072283678915493208441212965665353799757256873373822590540376634932975518914480288693615689509986536747798453854370110751566241770075081060955033783220024393287694765782015063869045650538513548745651229066213342854201974766681111045859662205283187454552427805701620011304614378119564874854509920342040775491725421807341288964437555602632428304681756428767300355660554340010248654067159596346304558937949162725435642714210429785583522342700092081938177434283539175478855683275288872901248453586370473179426989812812137901180970309803333085882655413996721608823754469051590718947157906146685330930518689523616402699548830030420096923194453704971866109821138688317956706053251669319568077342130819177190283586828048144669122775385905546075266146478901848075744297484141146146567313305913820534823058900796432902915393388017501626847436892719799351551442349107801434446004208515713531391737717608204008488671650763098448225977660380080112936703729268754624668049592334132540516452810898908190600712014614371651398701948303914585148687549322273487074165441225579730679140686081965765190524735735293606037595209962137504195409490825952020461827824126425769121043132607049786252161739767841633680469059803586322803288679681893606975749057479227354849919315905219367386407103204917808537942569679290237711581064832972856087632439867150900440617137408768027459370616675922323306982409711684198866787439894723421241805185760473194657465518343652245204969131533909882201717298852054552955248336714603817319701512020013879293258517557480615565212688468684362297325467369149568597434085596027129385474377776085993094684324727105622963371092233915088588928797739249688033947889543318861827756608246651707761860891400427570853000697252689785368805703063546467900818836345905621087416683921473461588676521493847782881067125675288486623331896099188041329556385394035585018631866955505318788044228674564433093543586520174624425106581518876121759153944016108496101809358099864849932159161850597827681196928080156942250428256551271037802384407753497009784596320407610250765041444970209145490586790173151537436054981557448376835174345853009833684322613859332644309811451925240090861598181678953621317272372832718100750575633696065166270562046117837675542162409217338642139528364814175957951813844820059067682567136737363947833089926400983067300191943882273070074990178650251486080463888149143388014873246777541219223966585586415109164362531578948298595683038038723404277793948813998233995542171915682130961825385715950256612162846891451666719638958547763059717850472234524916620523128917858373915756611970570265289498397779077371068501686741637073177354827994910456464722148675603152321826369034418698321891536876958952544272650622343731625396612719301341051562694233388685378184657962133239783815860750186800824411991049888069583947459547851096821328478646762477746739559280335760930960908682128949247573941880070551973622887306750511738510760647214207130361200533662907314118097345426330662197195878405701693708839909208678019626822378675385500142088856721652096186782556507592089765788303194908691945987055362266914588716779317456794219888705461149991153292077068405587985571600004034770207581832512199694415878751080411277569147875159316496430705155422013461903809186559113931922208029801161527422494499633431759562726076942854919674297427613915724219006173887509963584407665892500436695035160322400009872360268520690297991606607899730991927419747642687690027561845517428538194550219963585660748175276618490497233313322298914007464236209530587781644349218670546494001615660143878711584098439158345809683034442881734121424825367853658723084571377206772058086259481707708969468397777099882708271738760375342259244099842736023589445329906169239163941617593870470084497478275510592057370097026626294765221876692942383496932142779109589748498512225348872401469298752275688730852326089561133559822871751515582471817551521585979418110548608058398985831199932267961221217183452373377355644827775197108891482990494585992984940503517781965924335626648594939240541543044165483934137107366698422534591931360703660865116595001046279395852357463404938409895035159424654245082432591678033593405950800763624299509153040566223233988282357537007264710246212405408459089834707880526691638979002994481000306397284646885553298616132629760515318028290672364562147422015209141044771105225831982711198321142736853807780318007036277958059345109312025000563207066151881799454771146401823437756458160308318043886372511463952246322039279186024587745776232736467279513188290939309610912654521661137685114303709351255215702585120882156859733081905116166542580895951892804617095313526449414847964350072702081257097010869492121628981109652772574875202140969437581414966053622834601835745624633730358531202708324001258165810042285064192 2048 0 0 0 0 = (2048, 3645, 1090748135619415929462984244733782862448264161996232692431832786189721331849119295216264234525201986559044592945330256559240799821319864975730648082713424134198624502339416587258406867335995655019233973426594464670604840206815067838189061028819548476460081349287645025618419087169435843623324152921269948207561265361368037119622828132265689750571579086210044631032500993334298268903895022716306536957335839317152370242513047908648549843387593190174288837349322884877864077637213953607874114332135154508685517800071369946149406988557070996449445706358628798408624024933792150684264714532097435436308888179990055978385301236973824759620085749615226624652263013997025805724606512053336592960959467216115372459446807822282017165451351359764037993783237719754830273723621685581586898961572490362330161721806216811853402801012439986833535756205036111791803216844337267142203464418840860817843249565170610217212852579067910676958854083814391328314891263144881740871221214409815206989772907628854844419486203155363414597268706485925414486921440879607889936790598997816564385104079812385569980386885174168491083632071645840489510003066796415419609466491193343644060690123355497965486154227884887328018757284520192099800975163898110885113633043776697070649942738515058076543464763868969159674972917926367399393395314363886340079207455813737015310388980622066640895646707842677986435736524089542604947279865763939359689170912851701450121580865093292158120558947288369325328414668181994986437953139693960791193693646960234366966787469763946152128549916264199012321009490320819762210013245123242252027308604414768428164827573596283627112322757632000541488416535754170443547656909416340416181919286595579516454703056062670889661727316472951321356519363940139464997252694288000402881332469810882979988163924987649834572903891913622839603909463346184257663974328625969381874298645223964140882331507861560089351156787091083383710325137111313956702348587815240043214328876986863252561789596101233131085602006169479260903475483969177837724912733359237704003268945358190863544916133790859368648963425287313237675852505429563261943556303190405986882600656502878419804342324723458396123015484141748100306110877071714568372638183878073448865732627940379142544819763687821563842927930098557106420621743884406451124193521793654635432242297605574859158034228670070515181404744660767628767334398460991273355274887241309783009851146364949124099989397608353402540263543516796866804858436905369739, 2036) :=
  (congrArg (fun m => consTwin 2 13 8192 4096 297451032133399501847248817215338247289551159626559455664302910133102053229655088195192431137407574390169395265311080797077991204274544404233615846072283678915493208441212965665353799757256873373822590540376634932975518914480288693615689509986536747798453854370110751566241770075081060955033783220024393287694765782015063869045650538513548745651229066213342854201974766681111045859662205283187454552427805701620011304614378119564874854509920342040775491725421807341288964437555602632428304681756428767300355660554340010248654067159596346304558937949162725435642714210429785583522342700092081938177434283539175478855683275288872901248453586370473179426989812812137901180970309803333085882655413996721608823754469051590718947157906146685330930518689523616402699548830030420096923194453704971866109821138688317956706053251669319568077342130819177190283586828048144669122775385905546075266146478901848075744297484141146146567313305913820534823058900796432902915393388017501626847436892719799351551442349107801434446004208515713531391737717608204008488671650763098448225977660380080112936703729268754624668049592334132540516452810898908190600712014614371651398701948303914585148687549322273487074165441225579730679140686081965765190524735735293606037595209962137504195409490825952020461827824126425769121043132607049786252161739767841633680469059803586322803288679681893606975749057479227354849919315905219367386407103204917808537942569679290237711581064832972856087632439867150900440617137408768027459370616675922323306982409711684198866787439894723421241805185760473194657465518343652245204969131533909882201717298852054552955248336714603817319701512020013879293258517557480615565212688468684362297325467369149568597434085596027129385474377776085993094684324727105622963371092233915088588928797739249688033947889543318861827756608246651707761860891400427570853000697252689785368805703063546467900818836345905621087416683921473461588676521493847782881067125675288486623331896099188041329556385394035585018631866955505318788044228674564433093543586520174624425106581518876121759153944016108496101809358099864849932159161850597827681196928080156942250428256551271037802384407753497009784596320407610250765041444970209145490586790173151537436054981557448376835174345853009833684322613859332644309811451925240090861598181678953621317272372832718100750575633696065166270562046117837675542162409217338642139528364814175957951813844820059067682567136737363947833089926400983067300191943882273070074990178650251486080463888149143388014873246777541219223966585586415109164362531578948298595683038038723404277793948813998233995542171915682130961825385715950256612162846891451666719638958547763059717850472234524916620523128917858373915756611970570265289498397779077371068501686741637073177354827994910456464722148675603152321826369034418698321891536876958952544272650622343731625396612719301341051562694233388685378184657962133239783815860750186800824411991049888069583947459547851096821328478646762477746739559280335760930960908682128949247573941880070551973622887306750511738510760647214207130361200533662907314118097345426330662197195878405701693708839909208678019626822378675385500142088856721652096186782556507592089765788303194908691945987055362266914588716779317456794219888705461149991153292077068405587985571600004034770207581832512199694415878751080411277569147875159316496430705155422013461903809186559113931922208029801161527422494499633431759562726076942854919674297427613915724219006173887509963584407665892500436695035160322400009872360268520690297991606607899730991927419747642687690027561845517428538194550219963585660748175276618490497233313322298914007464236209530587781644349218670546494001615660143878711584098439158345809683034442881734121424825367853658723084571377206772058086259481707708969468397777099882708271738760375342259244099842736023589445329906169239163941617593870470084497478275510592057370097026626294765221876692942383496932142779109589748498512225348872401469298752275688730852326089561133559822871751515582471817551521585979418110548608058398985831199932267961221217183452373377355644827775197108891482990494585992984940503517781965924335626648594939240541543044165483934137107366698422534591931360703660865116595001046279395852357463404938409895035159424654245082432591678033593405950800763624299509153040566223233988282357537007264710246212405408459089834707880526691638979002994481000306397284646885553298616132629760515318028290672364562147422015209141044771105225831982711198321142736853807780318007036277958059345109312025000563207066151881799454771146401823437756458160308318043886372511463952246322039279186024587745776232736467279513188290939309610912654521661137685114303709351255215702585120882156859733081905116166542580895951892804617095313526449414847964350072702081257097010869492121628981109652772574875202140969437581414966053622834601835745624633730358531202708324001258165810042285064192 m 0 0 0 0)
      (by norm_num : (2048 : Nat) = 512 + 1536)).trans
    ((consTwin_chunk 2 13 8192 4096 297451032133399501847248817215338247289551159626559455664302910133102053229655088195192431137407574390169395265311080797077991204274544404233615846072283678915493208441212965665353799757256873373822590540376634932975518914480288693615689509986536747798453854370110751566241770075081060955033783220024393287694765782015063869045650538513548745651229066213342854201974766681111045859662205283187454552427805701620011304614378119564874854509920342040775491725421807341288964437555602632428304681756428767300355660554340010248654067159596346304558937949162725435642714210429785583522342700092081938177434283539175478855683275288872901248453586370473179426989812812137901180970309803333085882655413996721608823754469051590718947157906146685330930518689523616402699548830030420096923194453704971866109821138688317956706053251669319568077342130819177190283586828048144669122775385905546075266146478901848075744297484141146146567313305913820534823058900796432902915393388017501626847436892719799351551442349107801434446004208515713531391737717608204008488671650763098448225977660380080112936703729268754624668049592334132540516452810898908190600712014614371651398701948303914585148687549322273487074165441225579730679140686081965765190524735735293606037595209962137504195409490825952020461827824126425769121043132607049786252161739767841633680469059803586322803288679681893606975749057479227354849919315905219367386407103204917808537942569679290237711581064832972856087632439867150900440617137408768027459370616675922323306982409711684198866787439894723421241805185760473194657465518343652245204969131533909882201717298852054552955248336714603817319701512020013879293258517557480615565212688468684362297325467369149568597434085596027129385474377776085993094684324727105622963371092233915088588928797739249688033947889543318861827756608246651707761860891400427570853000697252689785368805703063546467900818836345905621087416683921473461588676521493847782881067125675288486623331896099188041329556385394035585018631866955505318788044228674564433093543586520174624425106581518876121759153944016108496101809358099864849932159161850597827681196928080156942250428256551271037802384407753497009784596320407610250765041444970209145490586790173151537436054981557448376835174345853009833684322613859332644309811451925240090861598181678953621317272372832718100750575633696065166270562046117837675542162409217338642139528364814175957951813844820059067682567136737363947833089926400983067300191943882273070074990178650251486080463888149143388014873246777541219223966585586415109164362531578948298595683038038723404277793948813998233995542171915682130961825385715950256612162846891451666719638958547763059717850472234524916620523128917858373915756611970570265289498397779077371068501686741637073177354827994910456464722148675603152321826369034418698321891536876958952544272650622343731625396612719301341051562694233388685378184657962133239783815860750186800824411991049888069583947459547851096821328478646762477746739559280335760930960908682128949247573941880070551973622887306750511738510760647214207130361200533662907314118097345426330662197195878405701693708839909208678019626822378675385500142088856721652096186782556507592089765788303194908691945987055362266914588716779317456794219888705461149991153292077068405587985571600004034770207581832512199694415878751080411277569147875159316496430705155422013461903809186559113931922208029801161527422494499633431759562726076942854919674297427613915724219006173887509963584407665892500436695035160322400009872360268520690297991606607899730991927419747642687690027561845517428538194550219963585660748175276618490497233313322298914007464236209530587781644349218670546494001615660143878711584098439158345809683034442881734121424825367853658723084571377206772058086259481707708969468397777099882708271738760375342259244099842736023589445329906169239163941617593870470084497478275510592057370097026626294765221876692942383496932142779109589748498512225348872401469298752275688730852326089561133559822871751515582471817551521585979418110548608058398985831199932267961221217183452373377355644827775197108891482990494585992984940503517781965924335626648594939240541543044165483934137107366698422534591931360703660865116595001046279395852357463404938409895035159424654245082432591678033593405950800763624299509153040566223233988282357537007264710246212405408459089834707880526691638979002994481000306397284646885553298616132629760515318028290672364562147422015209141044771105225831982711198321142736853807780318007036277958059345109312025000563207066151881799454771146401823437756458160308318043886372511463952246322039279186024587745776232736467279513188290939309610912654521661137685114303709351255215702585120882156859733081905116166542580895951892804617095313526449414847964350072702081257097010869492121628981109652772574875202140969437581414966053622834601835745624633730358531202708324001258165810042285064192 512 1536 0 0 0 0 1536 7717 1090748135619415929462984244733782862448264161996232692431832786189721331026000333579207222537567962542256506485352299198151315803220937835477031379173204181135666490984026711315002805600482766472316379770936329591505055415982889627976661934922534829805733709068274223043073459641415190368723509577508971718047781194783297057853474185910380069804077450662754125234790383759192177799924380063585191049261157562838998250635577895702509783116434038350351636874466654663244539251916527254866716967714525494095645300773373900162812452549769810246937095547101890344032165069310330684692295507179834482835180098999223012728704833379531446691371929244179027457423765744511689877538093489397360315046389772124375216216194586491340349090181776447955030656774945896253442213594705886616448194162065435031209149817640234154972555386935293365200752146390785921804779644414260836683542651738076345921450527237558024424637362501758769922449980260456113108877942108108447097265808237692413381201438863337841620114897433514514314578232365476020274932807574181891179613866525132802167434828767382495554678088822102650530774966214843817445751529770239265959822697849452261862212493496712625894895259075603964956370784163842906775841767371862329284965740754623329165143752569888816583444979503748354654525775869404614871071827865112318459655373186002071143171194242216955642923880168334656506321567234604878069461190602947173264367954302648138169988905619963386706667713238845263335277855835752679136844392460107965993616970573511613251108668527010213709610495257411922052042061720627744692875358610224370557396966683599773588797531340101027158533151653533693587575077078896532002826656956215714084450634135089297072202481980990823398458195271934823805088943112555131120443097269779892734869508464551599242053402772664612309524078854583423938950902571987763437554667591661221097068266293582797080426275649516851488193034947457836032121575203038928601810509642876854923896963580810906299847369150145826888551951769949991332123659689948787446823834366326967592396128680238535020606481278403142571043402322058371476990220253502422055819189195567739738280298673803078143240656091832922083519691976260982099086595003700481363098049250228371657444109447067046620289776784237603805898363018426526869712461001519656687778618397850166374523227429325146144856060282582333304120485143588777478572334136304797122315240308794646230389570041329293848868342465793396284173416137768143819347546859405451 1524 c1_cons_2_13_s1536).trans (by rfl))

theorem c1_cons_2_13_s2560 : consTwin 2 13 8192 4096 297451032133399501847248817215338247289551159626559455664302910133102053229655088195192431137407574390169395265311080797077991204274544404233615846072283678915493208441212965665353799757256873373822590540376634932975518914480288693615689509986536747798453854370110751566241770075081060955033783220024393287694765782015063869045650538513548745651229066213342854201974766681111045859662205283187454552427805701620011304614378119564874854509920342040775491725421807341288964437555602632428304681756428767300355660554340010248654067159596346304558937949162725435642714210429785583522342700092081938177434283539175478855683275288872901248453586370473179426989812812137901180970309803333085882655413996721608823754469051590718947157906146685330930518689523616402699548830030420096923194453704971866109821138688317956706053251669319568077342130819177190283586828048144669122775385905546075266146478901848075744297484141146146567313305913820534823058900796432902915393388017501626847436892719799351551442349107801434446004208515713531391737717608204008488671650763098448225977660380080112936703729268754624668049592334132540516452810898908190600712014614371651398701948303914585148687549322273487074165441225579730679140686081965765190524735735293606037595209962137504195409490825952020461827824126425769121043132607049786252161739767841633680469059803586322803288679681893606975749057479227354849919315905219367386407103204917808537942569679290237711581064832972856087632439867150900440617137408768027459370616675922323306982409711684198866787439894723421241805185760473194657465518343652245204969131533909882201717298852054552955248336714603817319701512020013879293258517557480615565212688468684362297325467369149568597434085596027129385474377776085993094684324727105622963371092233915088588928797739249688033947889543318861827756608246651707761860891400427570853000697252689785368805703063546467900818836345905621087416683921473461588676521493847782881067125675288486623331896099188041329556385394035585018631866955505318788044228674564433093543586520174624425106581518876121759153944016108496101809358099864849932159161850597827681196928080156942250428256551271037802384407753497009784596320407610250765041444970209145490586790173151537436054981557448376835174345853009833684322613859332644309811451925240090861598181678953621317272372832718100750575633696065166270562046117837675542162409217338642139528364814175957951813844820059067682567136737363947833089926400983067300191943882273070074990178650251486080463888149143388014873246777541219223966585586415109164362531578948298595683038038723404277793948813998233995542171915682130961825385715950256612162846891451666719638958547763059717850472234524916620523128917858373915756611970570265289498397779077371068501686741637073177354827994910456464722148675603152321826369034418698321891536876958952544272650622343731625396612719301341051562694233388685378184657962133239783815860750186800824411991049888069583947459547851096821328478646762477746739559280335760930960908682128949247573941880070551973622887306750511738510760647214207130361200533662907314118097345426330662197195878405701693708839909208678019626822378675385500142088856721652096186782556507592089765788303194908691945987055362266914588716779317456794219888705461149991153292077068405587985571600004034770207581832512199694415878751080411277569147875159316496430705155422013461903809186559113931922208029801161527422494499633431759562726076942854919674297427613915724219006173887509963584407665892500436695035160322400009872360268520690297991606607899730991927419747642687690027561845517428538194550219963585660748175276618490497233313322298914007464236209530587781644349218670546494001615660143878711584098439158345809683034442881734121424825367853658723084571377206772058086259481707708969468397777099882708271738760375342259244099842736023589445329906169239163941617593870470084497478275510592057370097026626294765221876692942383496932142779109589748498512225348872401469298752275688730852326089561133559822871751515582471817551521585979418110548608058398985831199932267961221217183452373377355644827775197108891482990494585992984940503517781965924335626648594939240541543044165483934137107366698422534591931360703660865116595001046279395852357463404938409895035159424654245082432591678033593405950800763624299509153040566223233988282357537007264710246212405408459089834707880526691638979002994481000306397284646885553298616132629760515318028290672364562147422015209141044771105225831982711198321142736853807780318007036277958059345109312025000563207066151881799454771146401823437756458160308318043886372511463952246322039279186024587745776232736467279513188290939309610912654521661137685114303709351255215702585120882156859733081905116166542580895951892804617095313526449414847964350072702081257097010869492121628981109652772574875202140969437581414966053622834601835745624633730358531202708324001258165810042285064192 2560 0 0 0 0 = (2560, 6040, 1090748135619415929462984244733782862448264161996232692431832786189721331849119295216264234525201987223957291796157025273109863837718263128390279388952932778764511784568195699005475776655177515382032362673981073176278150100716801576713503353280796707346192669697402841496346081098219750223212431707760834810051687969049521170197622396228472153283518507320808861548416064274096713486409676760095272605770763715089860983739712619708155808436383585775047163764652056688574364615318364073530270972590603669175308901645900737696056655752784759162288587958163954146979458208068393680312082276922451133248320127129328754652465973571839529599530776817534794196502385068319046430132103752023597367742097407134499488977501277825060587896740926783184329336202373357998535223264429072623054557633536996724599993560018653734297626523918007625281082191436441078404456380749248966822541440789240581117349695084648420602499391810487623799916261560346932525072093650162385920355676015602781699706000598021629523619943909250640584701941053654213511324718962328519248290825771157968945942268828304850308549276793770122936404899823685257693446334388749528566193701858162710879034160116270610940557445172644497937322312123479930791053253583087983068798683057142305885845157357940644791675747771814711606365105860020891379265807608765488471716386692588547844086915227145391648565865962969056055232371728996595406036355377283016740697264736323333825930249757111963607936874264187680356337501071488591572709577688855662466997685311950360858332207162047436027386468394114059081125871035496391240309772484026920650243042354976909387176541271689175180625692883730977543207348837401649810524734881339328433623864637815424436410742116094182202014947630521191704019284590002560124787966423690923759255892076467060278161262157537665068786165735343800672720406190057533775929803961381672391768402408138000462658087573406435914606076467447113712187037531524903369715249372455883829997153364853354394641036925431733030834716852817984074931952094019509958664400145294058301795581257400739184523787498540525327443182901793500274932874974070851458770876762932175978211579421462320974191062757332587591936368787189924364572431275978104240238038986830438850906068617011988580489738351656551353370124124426907756700307364210500181164603242798453701842954987571044712717863383755626830242462147907904993953702296790879696380506264071418526660532245622917387943987534280526642381260300272173375547484525330571, 2548) :=
  (congrArg (fun m => consTwin 2 13 8192 4096 297451032133399501847248817215338247289551159626559455664302910133102053229655088195192431137407574390169395265311080797077991204274544404233615846072283678915493208441212965665353799757256873373822590540376634932975518914480288693615689509986536747798453854370110751566241770075081060955033783220024393287694765782015063869045650538513548745651229066213342854201974766681111045859662205283187454552427805701620011304614378119564874854509920342040775491725421807341288964437555602632428304681756428767300355660554340010248654067159596346304558937949162725435642714210429785583522342700092081938177434283539175478855683275288872901248453586370473179426989812812137901180970309803333085882655413996721608823754469051590718947157906146685330930518689523616402699548830030420096923194453704971866109821138688317956706053251669319568077342130819177190283586828048144669122775385905546075266146478901848075744297484141146146567313305913820534823058900796432902915393388017501626847436892719799351551442349107801434446004208515713531391737717608204008488671650763098448225977660380080112936703729268754624668049592334132540516452810898908190600712014614371651398701948303914585148687549322273487074165441225579730679140686081965765190524735735293606037595209962137504195409490825952020461827824126425769121043132607049786252161739767841633680469059803586322803288679681893606975749057479227354849919315905219367386407103204917808537942569679290237711581064832972856087632439867150900440617137408768027459370616675922323306982409711684198866787439894723421241805185760473194657465518343652245204969131533909882201717298852054552955248336714603817319701512020013879293258517557480615565212688468684362297325467369149568597434085596027129385474377776085993094684324727105622963371092233915088588928797739249688033947889543318861827756608246651707761860891400427570853000697252689785368805703063546467900818836345905621087416683921473461588676521493847782881067125675288486623331896099188041329556385394035585018631866955505318788044228674564433093543586520174624425106581518876121759153944016108496101809358099864849932159161850597827681196928080156942250428256551271037802384407753497009784596320407610250765041444970209145490586790173151537436054981557448376835174345853009833684322613859332644309811451925240090861598181678953621317272372832718100750575633696065166270562046117837675542162409217338642139528364814175957951813844820059067682567136737363947833089926400983067300191943882273070074990178650251486080463888149143388014873246777541219223966585586415109164362531578948298595683038038723404277793948813998233995542171915682130961825385715950256612162846891451666719638958547763059717850472234524916620523128917858373915756611970570265289498397779077371068501686741637073177354827994910456464722148675603152321826369034418698321891536876958952544272650622343731625396612719301341051562694233388685378184657962133239783815860750186800824411991049888069583947459547851096821328478646762477746739559280335760930960908682128949247573941880070551973622887306750511738510760647214207130361200533662907314118097345426330662197195878405701693708839909208678019626822378675385500142088856721652096186782556507592089765788303194908691945987055362266914588716779317456794219888705461149991153292077068405587985571600004034770207581832512199694415878751080411277569147875159316496430705155422013461903809186559113931922208029801161527422494499633431759562726076942854919674297427613915724219006173887509963584407665892500436695035160322400009872360268520690297991606607899730991927419747642687690027561845517428538194550219963585660748175276618490497233313322298914007464236209530587781644349218670546494001615660143878711584098439158345809683034442881734121424825367853658723084571377206772058086259481707708969468397777099882708271738760375342259244099842736023589445329906169239163941617593870470084497478275510592057370097026626294765221876692942383496932142779109589748498512225348872401469298752275688730852326089561133559822871751515582471817551521585979418110548608058398985831199932267961221217183452373377355644827775197108891482990494585992984940503517781965924335626648594939240541543044165483934137107366698422534591931360703660865116595001046279395852357463404938409895035159424654245082432591678033593405950800763624299509153040566223233988282357537007264710246212405408459089834707880526691638979002994481000306397284646885553298616132629760515318028290672364562147422015209141044771105225831982711198321142736853807780318007036277958059345109312025000563207066151881799454771146401823437756458160308318043886372511463952246322039279186024587745776232736467279513188290939309610912654521661137685114303709351255215702585120882156859733081905116166542580895951892804617095313526449414847964350072702081257097010869492121628981109652772574875202140969437581414966053622834601835745624633730358531202708324001258165810042285064192 m 0 0 0 0)
      (by norm_num : (2560 : Nat) = 512 + 2048)).trans
    ((consTwin_chunk 2 13 8192 4096 297451032133399501847248817215338247289551159626559455664302910133102053229655088195192431137407574390169395265311080797077991204274544404233615846072283678915493208441212965665353799757256873373822590540376634932975518914480288693615689509986536747798453854370110751566241770075081060955033783220024393287694765782015063869045650538513548745651229066213342854201974766681111045859662205283187454552427805701620011304614378119564874854509920342040775491725421807341288964437555602632428304681756428767300355660554340010248654067159596346304558937949162725435642714210429785583522342700092081938177434283539175478855683275288872901248453586370473179426989812812137901180970309803333085882655413996721608823754469051590718947157906146685330930518689523616402699548830030420096923194453704971866109821138688317956706053251669319568077342130819177190283586828048144669122775385905546075266146478901848075744297484141146146567313305913820534823058900796432902915393388017501626847436892719799351551442349107801434446004208515713531391737717608204008488671650763098448225977660380080112936703729268754624668049592334132540516452810898908190600712014614371651398701948303914585148687549322273487074165441225579730679140686081965765190524735735293606037595209962137504195409490825952020461827824126425769121043132607049786252161739767841633680469059803586322803288679681893606975749057479227354849919315905219367386407103204917808537942569679290237711581064832972856087632439867150900440617137408768027459370616675922323306982409711684198866787439894723421241805185760473194657465518343652245204969131533909882201717298852054552955248336714603817319701512020013879293258517557480615565212688468684362297325467369149568597434085596027129385474377776085993094684324727105622963371092233915088588928797739249688033947889543318861827756608246651707761860891400427570853000697252689785368805703063546467900818836345905621087416683921473461588676521493847782881067125675288486623331896099188041329556385394035585018631866955505318788044228674564433093543586520174624425106581518876121759153944016108496101809358099864849932159161850597827681196928080156942250428256551271037802384407753497009784596320407610250765041444970209145490586790173151537436054981557448376835174345853009833684322613859332644309811451925240090861598181678953621317272372832718100750575633696065166270562046117837675542162409217338642139528364814175957951813844820059067682567136737363947833089926400983067300191943882273070074990178650251486080463888149143388014873246777541219223966585586415109164362531578948298595683038038723404277793948813998233995542171915682130961825385715950256612162846891451666719638958547763059717850472234524916620523128917858373915756611970570265289498397779077371068501686741637073177354827994910456464722148675603152321826369034418698321891536876958952544272650622343731625396612719301341051562694233388685378184657962133239783815860750186800824411991049888069583947459547851096821328478646762477746739559280335760930960908682128949247573941880070551973622887306750511738510760647214207130361200533662907314118097345426330662197195878405701693708839909208678019626822378675385500142088856721652096186782556507592089765788303194908691945987055362266914588716779317456794219888705461149991153292077068405587985571600004034770207581832512199694415878751080411277569147875159316496430705155422013461903809186559113931922208029801161527422494499633431759562726076942854919674297427613915724219006173887509963584407665892500436695035160322400009872360268520690297991606607899730991927419747642687690027561845517428538194550219963585660748175276618490497233313322298914007464236209530587781644349218670546494001615660143878711584098439158345809683034442881734121424825367853658723084571377206772058086259481707708969468397777099882708271738760375342259244099842736023589445329906169239163941617593870470084497478275510592057370097026626294765221876692942383496932142779109589748498512225348872401469298752275688730852326089561133559822871751515582471817551521585979418110548608058398985831199932267961221217183452373377355644827775197108891482990494585992984940503517781965924335626648594939240541543044165483934137107366698422534591931360703660865116595001046279395852357463404938409895035159424654245082432591678033593405950800763624299509153040566223233988282357537007264710246212405408459089834707880526691638979002994481000306397284646885553298616132629760515318028290672364562147422015209141044771105225831982711198321142736853807780318007036277958059345109312025000563207066151881799454771146401823437756458160308318043886372511463952246322039279186024587745776232736467279513188290939309610912654521661137685114303709351255215702585120882156859733081905116166542580895951892804617095313526449414847964350072702081257097010869492121628981109652772574875202140969437581414966053622834601835745624633730358531202708324001258165810042285064192 512 2048 0 0 0 0 2048 3645 1090748135619415929462984244733782862448264161996232692431832786189721331849119295216264234525201986559044592945330256559240799821319864975730648082713424134198624502339416587258406867335995655019233973426594464670604840206815067838189061028819548476460081349287645025618419087169435843623324152921269948207561265361368037119622828132265689750571579086210044631032500993334298268903895022716306536957335839317152370242513047908648549843387593190174288837349322884877864077637213953607874114332135154508685517800071369946149406988557070996449445706358628798408624024933792150684264714532097435436308888179990055978385301236973824759620085749615226624652263013997025805724606512053336592960959467216115372459446807822282017165451351359764037993783237719754830273723621685581586898961572490362330161721806216811853402801012439986833535756205036111791803216844337267142203464418840860817843249565170610217212852579067910676958854083814391328314891263144881740871221214409815206989772907628854844419486203155363414597268706485925414486921440879607889936790598997816564385104079812385569980386885174168491083632071645840489510003066796415419609466491193343644060690123355497965486154227884887328018757284520192099800975163898110885113633043776697070649942738515058076543464763868969159674972917926367399393395314363886340079207455813737015310388980622066640895646707842677986435736524089542604947279865763939359689170912851701450121580865093292158120558947288369325328414668181994986437953139693960791193693646960234366966787469763946152128549916264199012321009490320819762210013245123242252027308604414768428164827573596283627112322757632000541488416535754170443547656909416340416181919286595579516454703056062670889661727316472951321356519363940139464997252694288000402881332469810882979988163924987649834572903891913622839603909463346184257663974328625969381874298645223964140882331507861560089351156787091083383710325137111313956702348587815240043214328876986863252561789596101233131085602006169479260903475483969177837724912733359237704003268945358190863544916133790859368648963425287313237675852505429563261943556303190405986882600656502878419804342324723458396123015484141748100306110877071714568372638183878073448865732627940379142544819763687821563842927930098557106420621743884406451124193521793654635432242297605574859158034228670070515181404744660767628767334398460991273355274887241309783009851146364949124099989397608353402540263543516796866804858436905369739 2036 c1_cons_2_13_s2048).trans (by rfl))

theorem c1_cons_2_13_s3072 : consTwin 2 13 8192 4096 297451032133399501847248817215338247289551159626559455664302910133102053229655088195192431137407574390169395265311080797077991204274544404233615846072283678915493208441212965665353799757256873373822590540376634932975518914480288693615689509986536747798453854370110751566241770075081060955033783220024393287694765782015063869045650538513548745651229066213342854201974766681111045859662205283187454552427805701620011304614378119564874854509920342040775491725421807341288964437555602632428304681756428767300355660554340010248654067159596346304558937949162725435642714210429785583522342700092081938177434283539175478855683275288872901248453586370473179426989812812137901180970309803333085882655413996721608823754469051590718947157906146685330930518689523616402699548830030420096923194453704971866109821138688317956706053251669319568077342130819177190283586828048144669122775385905546075266146478901848075744297484141146146567313305913820534823058900796432902915393388017501626847436892719799351551442349107801434446004208515713531391737717608204008488671650763098448225977660380080112936703729268754624668049592334132540516452810898908190600712014614371651398701948303914585148687549322273487074165441225579730679140686081965765190524735735293606037595209962137504195409490825952020461827824126425769121043132607049786252161739767841633680469059803586322803288679681893606975749057479227354849919315905219367386407103204917808537942569679290237711581064832972856087632439867150900440617137408768027459370616675922323306982409711684198866787439894723421241805185760473194657465518343652245204969131533909882201717298852054552955248336714603817319701512020013879293258517557480615565212688468684362297325467369149568597434085596027129385474377776085993094684324727105622963371092233915088588928797739249688033947889543318861827756608246651707761860891400427570853000697252689785368805703063546467900818836345905621087416683921473461588676521493847782881067125675288486623331896099188041329556385394035585018631866955505318788044228674564433093543586520174624425106581518876121759153944016108496101809358099864849932159161850597827681196928080156942250428256551271037802384407753497009784596320407610250765041444970209145490586790173151537436054981557448376835174345853009833684322613859332644309811451925240090861598181678953621317272372832718100750575633696065166270562046117837675542162409217338642139528364814175957951813844820059067682567136737363947833089926400983067300191943882273070074990178650251486080463888149143388014873246777541219223966585586415109164362531578948298595683038038723404277793948813998233995542171915682130961825385715950256612162846891451666719638958547763059717850472234524916620523128917858373915756611970570265289498397779077371068501686741637073177354827994910456464722148675603152321826369034418698321891536876958952544272650622343731625396612719301341051562694233388685378184657962133239783815860750186800824411991049888069583947459547851096821328478646762477746739559280335760930960908682128949247573941880070551973622887306750511738510760647214207130361200533662907314118097345426330662197195878405701693708839909208678019626822378675385500142088856721652096186782556507592089765788303194908691945987055362266914588716779317456794219888705461149991153292077068405587985571600004034770207581832512199694415878751080411277569147875159316496430705155422013461903809186559113931922208029801161527422494499633431759562726076942854919674297427613915724219006173887509963584407665892500436695035160322400009872360268520690297991606607899730991927419747642687690027561845517428538194550219963585660748175276618490497233313322298914007464236209530587781644349218670546494001615660143878711584098439158345809683034442881734121424825367853658723084571377206772058086259481707708969468397777099882708271738760375342259244099842736023589445329906169239163941617593870470084497478275510592057370097026626294765221876692942383496932142779109589748498512225348872401469298752275688730852326089561133559822871751515582471817551521585979418110548608058398985831199932267961221217183452373377355644827775197108891482990494585992984940503517781965924335626648594939240541543044165483934137107366698422534591931360703660865116595001046279395852357463404938409895035159424654245082432591678033593405950800763624299509153040566223233988282357537007264710246212405408459089834707880526691638979002994481000306397284646885553298616132629760515318028290672364562147422015209141044771105225831982711198321142736853807780318007036277958059345109312025000563207066151881799454771146401823437756458160308318043886372511463952246322039279186024587745776232736467279513188290939309610912654521661137685114303709351255215702585120882156859733081905116166542580895951892804617095313526449414847964350072702081257097010869492121628981109652772574875202140969437581414966053622834601835745624633730358531202708324001258165810042285064192 3072 0 0 0 0 = (3072, 4183, 1090748135619415929462984244733782862448264161996232692431832786189721331849119295216264234525201987223957291796157025273109870820177184063610979765077527058144952762232624662863522044812272991450633911487110366402712145896716447657199643262590756023099129494742867439178440432008182591698804346945127238182413522976418178506989585161461660212124696804406887056421087185666119006399277943079271389049614420969193746165333418309315753009094316617555174269561924597063168861047251367365261848418428399317075393419928046403458800989619394290286394330848039478614689917050160114986295108771731669851898358784657467942398673787717827934591154368120603570203173851812094296672098710667702835293018828356488964477955964528699113049924394495455807488222576681668185413225255971484353755480175426172572048052541552807513528879174377132054478479846231351606929530642633566095132037063381740495023670493594807124204422193392540594852605915991408964405348909698479215655673808801619871829350345798098473301334563965885550531347392624104451517677787546550262304661868544623024404035509104544935555564316486078317076890515559291816354990940508229990420472298803181884745108435605515028237495011948760210596792412944173774968133077009165733479860392034860772537728034763054106145894449346968010354425821147634278454829207744712196149207750472832127049284016440487529731215305669079433741723164175114935285134006900407328420154614564531525899548984726565994559127038985510894627085000167753689203352091635156273134480172460743192519543090185518633954491360478853908946238584137114357469655030414924297051550187152639858254703199326966057795559853858186662243166098580572107217740896263715433415785620651164212641474927425794889341176915169625577905432172949293230061675332413934364237488089453301885840626180149167592539945456466495035040982118426994002648593965586339803236671622451689657656399921055622755356760150719777415208682528378184299304470703141595005021761922659890130737453796414484998287506747403505539943577448755525863258506833914441671878010660157766686041963787163617970992569746693517135092155280116064069024624684609830883828284008059173960562535483312184781694784426659513818591650431634320334511703604485004414052344450084162613540590495442884459955293643064371473142535269252401763120915856595426230165970601824300762519436485066441582381503606381005592124187517092048251891397488995935494491819600789935077654430341715846135842628022746996181471700904245756043, 3060) :=
  (congrArg (fun m => consTwin 2 13 8192 4096 297451032133399501847248817215338247289551159626559455664302910133102053229655088195192431137407574390169395265311080797077991204274544404233615846072283678915493208441212965665353799757256873373822590540376634932975518914480288693615689509986536747798453854370110751566241770075081060955033783220024393287694765782015063869045650538513548745651229066213342854201974766681111045859662205283187454552427805701620011304614378119564874854509920342040775491725421807341288964437555602632428304681756428767300355660554340010248654067159596346304558937949162725435642714210429785583522342700092081938177434283539175478855683275288872901248453586370473179426989812812137901180970309803333085882655413996721608823754469051590718947157906146685330930518689523616402699548830030420096923194453704971866109821138688317956706053251669319568077342130819177190283586828048144669122775385905546075266146478901848075744297484141146146567313305913820534823058900796432902915393388017501626847436892719799351551442349107801434446004208515713531391737717608204008488671650763098448225977660380080112936703729268754624668049592334132540516452810898908190600712014614371651398701948303914585148687549322273487074165441225579730679140686081965765190524735735293606037595209962137504195409490825952020461827824126425769121043132607049786252161739767841633680469059803586322803288679681893606975749057479227354849919315905219367386407103204917808537942569679290237711581064832972856087632439867150900440617137408768027459370616675922323306982409711684198866787439894723421241805185760473194657465518343652245204969131533909882201717298852054552955248336714603817319701512020013879293258517557480615565212688468684362297325467369149568597434085596027129385474377776085993094684324727105622963371092233915088588928797739249688033947889543318861827756608246651707761860891400427570853000697252689785368805703063546467900818836345905621087416683921473461588676521493847782881067125675288486623331896099188041329556385394035585018631866955505318788044228674564433093543586520174624425106581518876121759153944016108496101809358099864849932159161850597827681196928080156942250428256551271037802384407753497009784596320407610250765041444970209145490586790173151537436054981557448376835174345853009833684322613859332644309811451925240090861598181678953621317272372832718100750575633696065166270562046117837675542162409217338642139528364814175957951813844820059067682567136737363947833089926400983067300191943882273070074990178650251486080463888149143388014873246777541219223966585586415109164362531578948298595683038038723404277793948813998233995542171915682130961825385715950256612162846891451666719638958547763059717850472234524916620523128917858373915756611970570265289498397779077371068501686741637073177354827994910456464722148675603152321826369034418698321891536876958952544272650622343731625396612719301341051562694233388685378184657962133239783815860750186800824411991049888069583947459547851096821328478646762477746739559280335760930960908682128949247573941880070551973622887306750511738510760647214207130361200533662907314118097345426330662197195878405701693708839909208678019626822378675385500142088856721652096186782556507592089765788303194908691945987055362266914588716779317456794219888705461149991153292077068405587985571600004034770207581832512199694415878751080411277569147875159316496430705155422013461903809186559113931922208029801161527422494499633431759562726076942854919674297427613915724219006173887509963584407665892500436695035160322400009872360268520690297991606607899730991927419747642687690027561845517428538194550219963585660748175276618490497233313322298914007464236209530587781644349218670546494001615660143878711584098439158345809683034442881734121424825367853658723084571377206772058086259481707708969468397777099882708271738760375342259244099842736023589445329906169239163941617593870470084497478275510592057370097026626294765221876692942383496932142779109589748498512225348872401469298752275688730852326089561133559822871751515582471817551521585979418110548608058398985831199932267961221217183452373377355644827775197108891482990494585992984940503517781965924335626648594939240541543044165483934137107366698422534591931360703660865116595001046279395852357463404938409895035159424654245082432591678033593405950800763624299509153040566223233988282357537007264710246212405408459089834707880526691638979002994481000306397284646885553298616132629760515318028290672364562147422015209141044771105225831982711198321142736853807780318007036277958059345109312025000563207066151881799454771146401823437756458160308318043886372511463952246322039279186024587745776232736467279513188290939309610912654521661137685114303709351255215702585120882156859733081905116166542580895951892804617095313526449414847964350072702081257097010869492121628981109652772574875202140969437581414966053622834601835745624633730358531202708324001258165810042285064192 m 0 0 0 0)
      (by norm_num : (3072 : Nat) = 512 + 2560)).trans
    ((consTwin_chunk 2 13 8192 4096 297451032133399501847248817215338247289551159626559455664302910133102053229655088195192431137407574390169395265311080797077991204274544404233615846072283678915493208441212965665353799757256873373822590540376634932975518914480288693615689509986536747798453854370110751566241770075081060955033783220024393287694765782015063869045650538513548745651229066213342854201974766681111045859662205283187454552427805701620011304614378119564874854509920342040775491725421807341288964437555602632428304681756428767300355660554340010248654067159596346304558937949162725435642714210429785583522342700092081938177434283539175478855683275288872901248453586370473179426989812812137901180970309803333085882655413996721608823754469051590718947157906146685330930518689523616402699548830030420096923194453704971866109821138688317956706053251669319568077342130819177190283586828048144669122775385905546075266146478901848075744297484141146146567313305913820534823058900796432902915393388017501626847436892719799351551442349107801434446004208515713531391737717608204008488671650763098448225977660380080112936703729268754624668049592334132540516452810898908190600712014614371651398701948303914585148687549322273487074165441225579730679140686081965765190524735735293606037595209962137504195409490825952020461827824126425769121043132607049786252161739767841633680469059803586322803288679681893606975749057479227354849919315905219367386407103204917808537942569679290237711581064832972856087632439867150900440617137408768027459370616675922323306982409711684198866787439894723421241805185760473194657465518343652245204969131533909882201717298852054552955248336714603817319701512020013879293258517557480615565212688468684362297325467369149568597434085596027129385474377776085993094684324727105622963371092233915088588928797739249688033947889543318861827756608246651707761860891400427570853000697252689785368805703063546467900818836345905621087416683921473461588676521493847782881067125675288486623331896099188041329556385394035585018631866955505318788044228674564433093543586520174624425106581518876121759153944016108496101809358099864849932159161850597827681196928080156942250428256551271037802384407753497009784596320407610250765041444970209145490586790173151537436054981557448376835174345853009833684322613859332644309811451925240090861598181678953621317272372832718100750575633696065166270562046117837675542162409217338642139528364814175957951813844820059067682567136737363947833089926400983067300191943882273070074990178650251486080463888149143388014873246777541219223966585586415109164362531578948298595683038038723404277793948813998233995542171915682130961825385715950256612162846891451666719638958547763059717850472234524916620523128917858373915756611970570265289498397779077371068501686741637073177354827994910456464722148675603152321826369034418698321891536876958952544272650622343731625396612719301341051562694233388685378184657962133239783815860750186800824411991049888069583947459547851096821328478646762477746739559280335760930960908682128949247573941880070551973622887306750511738510760647214207130361200533662907314118097345426330662197195878405701693708839909208678019626822378675385500142088856721652096186782556507592089765788303194908691945987055362266914588716779317456794219888705461149991153292077068405587985571600004034770207581832512199694415878751080411277569147875159316496430705155422013461903809186559113931922208029801161527422494499633431759562726076942854919674297427613915724219006173887509963584407665892500436695035160322400009872360268520690297991606607899730991927419747642687690027561845517428538194550219963585660748175276618490497233313322298914007464236209530587781644349218670546494001615660143878711584098439158345809683034442881734121424825367853658723084571377206772058086259481707708969468397777099882708271738760375342259244099842736023589445329906169239163941617593870470084497478275510592057370097026626294765221876692942383496932142779109589748498512225348872401469298752275688730852326089561133559822871751515582471817551521585979418110548608058398985831199932267961221217183452373377355644827775197108891482990494585992984940503517781965924335626648594939240541543044165483934137107366698422534591931360703660865116595001046279395852357463404938409895035159424654245082432591678033593405950800763624299509153040566223233988282357537007264710246212405408459089834707880526691638979002994481000306397284646885553298616132629760515318028290672364562147422015209141044771105225831982711198321142736853807780318007036277958059345109312025000563207066151881799454771146401823437756458160308318043886372511463952246322039279186024587745776232736467279513188290939309610912654521661137685114303709351255215702585120882156859733081905116166542580895951892804617095313526449414847964350072702081257097010869492121628981109652772574875202140969437581414966053622834601835745624633730358531202708324001258165810042285064192 512 2560 0 0 0 0 2560 6040 1090748135619415929462984244733782862448264161996232692431832786189721331849119295216264234525201987223957291796157025273109863837718263128390279388952932778764511784568195699005475776655177515382032362673981073176278150100716801576713503353280796707346192669697402841496346081098219750223212431707760834810051687969049521170197622396228472153283518507320808861548416064274096713486409676760095272605770763715089860983739712619708155808436383585775047163764652056688574364615318364073530270972590603669175308901645900737696056655752784759162288587958163954146979458208068393680312082276922451133248320127129328754652465973571839529599530776817534794196502385068319046430132103752023597367742097407134499488977501277825060587896740926783184329336202373357998535223264429072623054557633536996724599993560018653734297626523918007625281082191436441078404456380749248966822541440789240581117349695084648420602499391810487623799916261560346932525072093650162385920355676015602781699706000598021629523619943909250640584701941053654213511324718962328519248290825771157968945942268828304850308549276793770122936404899823685257693446334388749528566193701858162710879034160116270610940557445172644497937322312123479930791053253583087983068798683057142305885845157357940644791675747771814711606365105860020891379265807608765488471716386692588547844086915227145391648565865962969056055232371728996595406036355377283016740697264736323333825930249757111963607936874264187680356337501071488591572709577688855662466997685311950360858332207162047436027386468394114059081125871035496391240309772484026920650243042354976909387176541271689175180625692883730977543207348837401649810524734881339328433623864637815424436410742116094182202014947630521191704019284590002560124787966423690923759255892076467060278161262157537665068786165735343800672720406190057533775929803961381672391768402408138000462658087573406435914606076467447113712187037531524903369715249372455883829997153364853354394641036925431733030834716852817984074931952094019509958664400145294058301795581257400739184523787498540525327443182901793500274932874974070851458770876762932175978211579421462320974191062757332587591936368787189924364572431275978104240238038986830438850906068617011988580489738351656551353370124124426907756700307364210500181164603242798453701842954987571044712717863383755626830242462147907904993953702296790879696380506264071418526660532245622917387943987534280526642381260300272173375547484525330571 2548 c1_cons_2_13_s2560).trans (by rfl))

theorem c1_cons_2_13_s3584 : consTwin 2 13 8192 4096 297451032133399501847248817215338247289551159626559455664302910133102053229655088195192431137407574390169395265311080797077991204274544404233615846072283678915493208441212965665353799757256873373822590540376634932975518914480288693615689509986536747798453854370110751566241770075081060955033783220024393287694765782015063869045650538513548745651229066213342854201974766681111045859662205283187454552427805701620011304614378119564874854509920342040775491725421807341288964437555602632428304681756428767300355660554340010248654067159596346304558937949162725435642714210429785583522342700092081938177434283539175478855683275288872901248453586370473179426989812812137901180970309803333085882655413996721608823754469051590718947157906146685330930518689523616402699548830030420096923194453704971866109821138688317956706053251669319568077342130819177190283586828048144669122775385905546075266146478901848075744297484141146146567313305913820534823058900796432902915393388017501626847436892719799351551442349107801434446004208515713531391737717608204008488671650763098448225977660380080112936703729268754624668049592334132540516452810898908190600712014614371651398701948303914585148687549322273487074165441225579730679140686081965765190524735735293606037595209962137504195409490825952020461827824126425769121043132607049786252161739767841633680469059803586322803288679681893606975749057479227354849919315905219367386407103204917808537942569679290237711581064832972856087632439867150900440617137408768027459370616675922323306982409711684198866787439894723421241805185760473194657465518343652245204969131533909882201717298852054552955248336714603817319701512020013879293258517557480615565212688468684362297325467369149568597434085596027129385474377776085993094684324727105622963371092233915088588928797739249688033947889543318861827756608246651707761860891400427570853000697252689785368805703063546467900818836345905621087416683921473461588676521493847782881067125675288486623331896099188041329556385394035585018631866955505318788044228674564433093543586520174624425106581518876121759153944016108496101809358099864849932159161850597827681196928080156942250428256551271037802384407753497009784596320407610250765041444970209145490586790173151537436054981557448376835174345853009833684322613859332644309811451925240090861598181678953621317272372832718100750575633696065166270562046117837675542162409217338642139528364814175957951813844820059067682567136737363947833089926400983067300191943882273070074990178650251486080463888149143388014873246777541219223966585586415109164362531578948298595683038038723404277793948813998233995542171915682130961825385715950256612162846891451666719638958547763059717850472234524916620523128917858373915756611970570265289498397779077371068501686741637073177354827994910456464722148675603152321826369034418698321891536876958952544272650622343731625396612719301341051562694233388685378184657962133239783815860750186800824411991049888069583947459547851096821328478646762477746739559280335760930960908682128949247573941880070551973622887306750511738510760647214207130361200533662907314118097345426330662197195878405701693708839909208678019626822378675385500142088856721652096186782556507592089765788303194908691945987055362266914588716779317456794219888705461149991153292077068405587985571600004034770207581832512199694415878751080411277569147875159316496430705155422013461903809186559113931922208029801161527422494499633431759562726076942854919674297427613915724219006173887509963584407665892500436695035160322400009872360268520690297991606607899730991927419747642687690027561845517428538194550219963585660748175276618490497233313322298914007464236209530587781644349218670546494001615660143878711584098439158345809683034442881734121424825367853658723084571377206772058086259481707708969468397777099882708271738760375342259244099842736023589445329906169239163941617593870470084497478275510592057370097026626294765221876692942383496932142779109589748498512225348872401469298752275688730852326089561133559822871751515582471817551521585979418110548608058398985831199932267961221217183452373377355644827775197108891482990494585992984940503517781965924335626648594939240541543044165483934137107366698422534591931360703660865116595001046279395852357463404938409895035159424654245082432591678033593405950800763624299509153040566223233988282357537007264710246212405408459089834707880526691638979002994481000306397284646885553298616132629760515318028290672364562147422015209141044771105225831982711198321142736853807780318007036277958059345109312025000563207066151881799454771146401823437756458160308318043886372511463952246322039279186024587745776232736467279513188290939309610912654521661137685114303709351255215702585120882156859733081905116166542580895951892804617095313526449414847964350072702081257097010869492121628981109652772574875202140969437581414966053622834601835745624633730358531202708324001258165810042285064192 3584 0 0 0 0 = (3584, 4332, 1090748135619415929462984244733782862448264161996232692431832786189721331849119295216264234525201987223957291796157025273109870820177184063610979765077554799078906298842192989538609825228046899591818003840099339532642513061238101282987624274339874731589457426195357497174881746957854313796413322566681754735848644182770832735720798895571893603489954145153075513906897360590480924543213684377301135910822778403667616557571311932270068803525642138933351398866177587622956481416129036907652787054441315722354986452852570274417399586470631475366340957557045566554728965252977163102474518669184703183265078287777587142318471166178093741614208482573288366192072658983731932312062485773982263861785244301462075271345908862597523615690192080072823764112785529105451088325730909893617190925958648894493368375083109307224721698353171597580757356902049578961070346833265935837206084503530804697090538163753077900208051695332292555658859463282426263720346375093836084658759355600061805692589729883866448340836771119928456201620425576672557215971000904854139234748546201745499659098713842070714168317998488145928117536341085248776904780247302832593367820756594082054948308588852540870722985937872473737689408884981959410458068360577939937380594365880593117842109964600246740529776756740669645060923560153478977051009137779636159864286476478820891341549956538637471106672382094441314514297180408203216730522552056598189959092338309707731348157067203629999493809525554372075852870692823206218353985583367229092171340709940202531472328102803304637887210771271584942649945203155757216194455171036850159490823781476616287158666574954139308896398279205095097413957288648084000208197028548341911984523207767315936281720711028537993433549028687594626966278958030611534782298041456315143405054714313656331011145525169182196750668645419092165352030420871413519419545797388041318440735096375269701103246788493706399070947879047395933545680883348287741533283668223793545492191706178170850760398088532292640952014943667335143222764016508697037159362574889063457062462656523153804333815077955769939053263768970048479440358100143147499748065241974673353834918987103531476875034209820196667388349984711576835664082336139685225267199586622250749004239702546511036350494174125370016149406455990292283761616301304227110114842164007285316317303268749305838114049641220087211842639521997473400735710207570243190124367305741516019186827604429510965225532441085011976155256100542411738089043641696829579, 3572) :=
  (congrArg (fun m => consTwin 2 13 8192 4096 297451032133399501847248817215338247289551159626559455664302910133102053229655088195192431137407574390169395265311080797077991204274544404233615846072283678915493208441212965665353799757256873373822590540376634932975518914480288693615689509986536747798453854370110751566241770075081060955033783220024393287694765782015063869045650538513548745651229066213342854201974766681111045859662205283187454552427805701620011304614378119564874854509920342040775491725421807341288964437555602632428304681756428767300355660554340010248654067159596346304558937949162725435642714210429785583522342700092081938177434283539175478855683275288872901248453586370473179426989812812137901180970309803333085882655413996721608823754469051590718947157906146685330930518689523616402699548830030420096923194453704971866109821138688317956706053251669319568077342130819177190283586828048144669122775385905546075266146478901848075744297484141146146567313305913820534823058900796432902915393388017501626847436892719799351551442349107801434446004208515713531391737717608204008488671650763098448225977660380080112936703729268754624668049592334132540516452810898908190600712014614371651398701948303914585148687549322273487074165441225579730679140686081965765190524735735293606037595209962137504195409490825952020461827824126425769121043132607049786252161739767841633680469059803586322803288679681893606975749057479227354849919315905219367386407103204917808537942569679290237711581064832972856087632439867150900440617137408768027459370616675922323306982409711684198866787439894723421241805185760473194657465518343652245204969131533909882201717298852054552955248336714603817319701512020013879293258517557480615565212688468684362297325467369149568597434085596027129385474377776085993094684324727105622963371092233915088588928797739249688033947889543318861827756608246651707761860891400427570853000697252689785368805703063546467900818836345905621087416683921473461588676521493847782881067125675288486623331896099188041329556385394035585018631866955505318788044228674564433093543586520174624425106581518876121759153944016108496101809358099864849932159161850597827681196928080156942250428256551271037802384407753497009784596320407610250765041444970209145490586790173151537436054981557448376835174345853009833684322613859332644309811451925240090861598181678953621317272372832718100750575633696065166270562046117837675542162409217338642139528364814175957951813844820059067682567136737363947833089926400983067300191943882273070074990178650251486080463888149143388014873246777541219223966585586415109164362531578948298595683038038723404277793948813998233995542171915682130961825385715950256612162846891451666719638958547763059717850472234524916620523128917858373915756611970570265289498397779077371068501686741637073177354827994910456464722148675603152321826369034418698321891536876958952544272650622343731625396612719301341051562694233388685378184657962133239783815860750186800824411991049888069583947459547851096821328478646762477746739559280335760930960908682128949247573941880070551973622887306750511738510760647214207130361200533662907314118097345426330662197195878405701693708839909208678019626822378675385500142088856721652096186782556507592089765788303194908691945987055362266914588716779317456794219888705461149991153292077068405587985571600004034770207581832512199694415878751080411277569147875159316496430705155422013461903809186559113931922208029801161527422494499633431759562726076942854919674297427613915724219006173887509963584407665892500436695035160322400009872360268520690297991606607899730991927419747642687690027561845517428538194550219963585660748175276618490497233313322298914007464236209530587781644349218670546494001615660143878711584098439158345809683034442881734121424825367853658723084571377206772058086259481707708969468397777099882708271738760375342259244099842736023589445329906169239163941617593870470084497478275510592057370097026626294765221876692942383496932142779109589748498512225348872401469298752275688730852326089561133559822871751515582471817551521585979418110548608058398985831199932267961221217183452373377355644827775197108891482990494585992984940503517781965924335626648594939240541543044165483934137107366698422534591931360703660865116595001046279395852357463404938409895035159424654245082432591678033593405950800763624299509153040566223233988282357537007264710246212405408459089834707880526691638979002994481000306397284646885553298616132629760515318028290672364562147422015209141044771105225831982711198321142736853807780318007036277958059345109312025000563207066151881799454771146401823437756458160308318043886372511463952246322039279186024587745776232736467279513188290939309610912654521661137685114303709351255215702585120882156859733081905116166542580895951892804617095313526449414847964350072702081257097010869492121628981109652772574875202140969437581414966053622834601835745624633730358531202708324001258165810042285064192 m 0 0 0 0)
      (by norm_num : (3584 : Nat) = 512 + 3072)).trans
    ((consTwin_chunk 2 13 8192 4096 297451032133399501847248817215338247289551159626559455664302910133102053229655088195192431137407574390169395265311080797077991204274544404233615846072283678915493208441212965665353799757256873373822590540376634932975518914480288693615689509986536747798453854370110751566241770075081060955033783220024393287694765782015063869045650538513548745651229066213342854201974766681111045859662205283187454552427805701620011304614378119564874854509920342040775491725421807341288964437555602632428304681756428767300355660554340010248654067159596346304558937949162725435642714210429785583522342700092081938177434283539175478855683275288872901248453586370473179426989812812137901180970309803333085882655413996721608823754469051590718947157906146685330930518689523616402699548830030420096923194453704971866109821138688317956706053251669319568077342130819177190283586828048144669122775385905546075266146478901848075744297484141146146567313305913820534823058900796432902915393388017501626847436892719799351551442349107801434446004208515713531391737717608204008488671650763098448225977660380080112936703729268754624668049592334132540516452810898908190600712014614371651398701948303914585148687549322273487074165441225579730679140686081965765190524735735293606037595209962137504195409490825952020461827824126425769121043132607049786252161739767841633680469059803586322803288679681893606975749057479227354849919315905219367386407103204917808537942569679290237711581064832972856087632439867150900440617137408768027459370616675922323306982409711684198866787439894723421241805185760473194657465518343652245204969131533909882201717298852054552955248336714603817319701512020013879293258517557480615565212688468684362297325467369149568597434085596027129385474377776085993094684324727105622963371092233915088588928797739249688033947889543318861827756608246651707761860891400427570853000697252689785368805703063546467900818836345905621087416683921473461588676521493847782881067125675288486623331896099188041329556385394035585018631866955505318788044228674564433093543586520174624425106581518876121759153944016108496101809358099864849932159161850597827681196928080156942250428256551271037802384407753497009784596320407610250765041444970209145490586790173151537436054981557448376835174345853009833684322613859332644309811451925240090861598181678953621317272372832718100750575633696065166270562046117837675542162409217338642139528364814175957951813844820059067682567136737363947833089926400983067300191943882273070074990178650251486080463888149143388014873246777541219223966585586415109164362531578948298595683038038723404277793948813998233995542171915682130961825385715950256612162846891451666719638958547763059717850472234524916620523128917858373915756611970570265289498397779077371068501686741637073177354827994910456464722148675603152321826369034418698321891536876958952544272650622343731625396612719301341051562694233388685378184657962133239783815860750186800824411991049888069583947459547851096821328478646762477746739559280335760930960908682128949247573941880070551973622887306750511738510760647214207130361200533662907314118097345426330662197195878405701693708839909208678019626822378675385500142088856721652096186782556507592089765788303194908691945987055362266914588716779317456794219888705461149991153292077068405587985571600004034770207581832512199694415878751080411277569147875159316496430705155422013461903809186559113931922208029801161527422494499633431759562726076942854919674297427613915724219006173887509963584407665892500436695035160322400009872360268520690297991606607899730991927419747642687690027561845517428538194550219963585660748175276618490497233313322298914007464236209530587781644349218670546494001615660143878711584098439158345809683034442881734121424825367853658723084571377206772058086259481707708969468397777099882708271738760375342259244099842736023589445329906169239163941617593870470084497478275510592057370097026626294765221876692942383496932142779109589748498512225348872401469298752275688730852326089561133559822871751515582471817551521585979418110548608058398985831199932267961221217183452373377355644827775197108891482990494585992984940503517781965924335626648594939240541543044165483934137107366698422534591931360703660865116595001046279395852357463404938409895035159424654245082432591678033593405950800763624299509153040566223233988282357537007264710246212405408459089834707880526691638979002994481000306397284646885553298616132629760515318028290672364562147422015209141044771105225831982711198321142736853807780318007036277958059345109312025000563207066151881799454771146401823437756458160308318043886372511463952246322039279186024587745776232736467279513188290939309610912654521661137685114303709351255215702585120882156859733081905116166542580895951892804617095313526449414847964350072702081257097010869492121628981109652772574875202140969437581414966053622834601835745624633730358531202708324001258165810042285064192 512 3072 0 0 0 0 3072 4183 1090748135619415929462984244733782862448264161996232692431832786189721331849119295216264234525201987223957291796157025273109870820177184063610979765077527058144952762232624662863522044812272991450633911487110366402712145896716447657199643262590756023099129494742867439178440432008182591698804346945127238182413522976418178506989585161461660212124696804406887056421087185666119006399277943079271389049614420969193746165333418309315753009094316617555174269561924597063168861047251367365261848418428399317075393419928046403458800989619394290286394330848039478614689917050160114986295108771731669851898358784657467942398673787717827934591154368120603570203173851812094296672098710667702835293018828356488964477955964528699113049924394495455807488222576681668185413225255971484353755480175426172572048052541552807513528879174377132054478479846231351606929530642633566095132037063381740495023670493594807124204422193392540594852605915991408964405348909698479215655673808801619871829350345798098473301334563965885550531347392624104451517677787546550262304661868544623024404035509104544935555564316486078317076890515559291816354990940508229990420472298803181884745108435605515028237495011948760210596792412944173774968133077009165733479860392034860772537728034763054106145894449346968010354425821147634278454829207744712196149207750472832127049284016440487529731215305669079433741723164175114935285134006900407328420154614564531525899548984726565994559127038985510894627085000167753689203352091635156273134480172460743192519543090185518633954491360478853908946238584137114357469655030414924297051550187152639858254703199326966057795559853858186662243166098580572107217740896263715433415785620651164212641474927425794889341176915169625577905432172949293230061675332413934364237488089453301885840626180149167592539945456466495035040982118426994002648593965586339803236671622451689657656399921055622755356760150719777415208682528378184299304470703141595005021761922659890130737453796414484998287506747403505539943577448755525863258506833914441671878010660157766686041963787163617970992569746693517135092155280116064069024624684609830883828284008059173960562535483312184781694784426659513818591650431634320334511703604485004414052344450084162613540590495442884459955293643064371473142535269252401763120915856595426230165970601824300762519436485066441582381503606381005592124187517092048251891397488995935494491819600789935077654430341715846135842628022746996181471700904245756043 3060 c1_cons_2_13_s3072).trans (by rfl))

theorem c1_cons_2_13_s4096 : consTwin 2 13 8192 4096 297451032133399501847248817215338247289551159626559455664302910133102053229655088195192431137407574390169395265311080797077991204274544404233615846072283678915493208441212965665353799757256873373822590540376634932975518914480288693615689509986536747798453854370110751566241770075081060955033783220024393287694765782015063869045650538513548745651229066213342854201974766681111045859662205283187454552427805701620011304614378119564874854509920342040775491725421807341288964437555602632428304681756428767300355660554340010248654067159596346304558937949162725435642714210429785583522342700092081938177434283539175478855683275288872901248453586370473179426989812812137901180970309803333085882655413996721608823754469051590718947157906146685330930518689523616402699548830030420096923194453704971866109821138688317956706053251669319568077342130819177190283586828048144669122775385905546075266146478901848075744297484141146146567313305913820534823058900796432902915393388017501626847436892719799351551442349107801434446004208515713531391737717608204008488671650763098448225977660380080112936703729268754624668049592334132540516452810898908190600712014614371651398701948303914585148687549322273487074165441225579730679140686081965765190524735735293606037595209962137504195409490825952020461827824126425769121043132607049786252161739767841633680469059803586322803288679681893606975749057479227354849919315905219367386407103204917808537942569679290237711581064832972856087632439867150900440617137408768027459370616675922323306982409711684198866787439894723421241805185760473194657465518343652245204969131533909882201717298852054552955248336714603817319701512020013879293258517557480615565212688468684362297325467369149568597434085596027129385474377776085993094684324727105622963371092233915088588928797739249688033947889543318861827756608246651707761860891400427570853000697252689785368805703063546467900818836345905621087416683921473461588676521493847782881067125675288486623331896099188041329556385394035585018631866955505318788044228674564433093543586520174624425106581518876121759153944016108496101809358099864849932159161850597827681196928080156942250428256551271037802384407753497009784596320407610250765041444970209145490586790173151537436054981557448376835174345853009833684322613859332644309811451925240090861598181678953621317272372832718100750575633696065166270562046117837675542162409217338642139528364814175957951813844820059067682567136737363947833089926400983067300191943882273070074990178650251486080463888149143388014873246777541219223966585586415109164362531578948298595683038038723404277793948813998233995542171915682130961825385715950256612162846891451666719638958547763059717850472234524916620523128917858373915756611970570265289498397779077371068501686741637073177354827994910456464722148675603152321826369034418698321891536876958952544272650622343731625396612719301341051562694233388685378184657962133239783815860750186800824411991049888069583947459547851096821328478646762477746739559280335760930960908682128949247573941880070551973622887306750511738510760647214207130361200533662907314118097345426330662197195878405701693708839909208678019626822378675385500142088856721652096186782556507592089765788303194908691945987055362266914588716779317456794219888705461149991153292077068405587985571600004034770207581832512199694415878751080411277569147875159316496430705155422013461903809186559113931922208029801161527422494499633431759562726076942854919674297427613915724219006173887509963584407665892500436695035160322400009872360268520690297991606607899730991927419747642687690027561845517428538194550219963585660748175276618490497233313322298914007464236209530587781644349218670546494001615660143878711584098439158345809683034442881734121424825367853658723084571377206772058086259481707708969468397777099882708271738760375342259244099842736023589445329906169239163941617593870470084497478275510592057370097026626294765221876692942383496932142779109589748498512225348872401469298752275688730852326089561133559822871751515582471817551521585979418110548608058398985831199932267961221217183452373377355644827775197108891482990494585992984940503517781965924335626648594939240541543044165483934137107366698422534591931360703660865116595001046279395852357463404938409895035159424654245082432591678033593405950800763624299509153040566223233988282357537007264710246212405408459089834707880526691638979002994481000306397284646885553298616132629760515318028290672364562147422015209141044771105225831982711198321142736853807780318007036277958059345109312025000563207066151881799454771146401823437756458160308318043886372511463952246322039279186024587745776232736467279513188290939309610912654521661137685114303709351255215702585120882156859733081905116166542580895951892804617095313526449414847964350072702081257097010869492121628981109652772574875202140969437581414966053622834601835745624633730358531202708324001258165810042285064192 4096 0 0 0 0 = (4096, 7462, 1090748135619415929462984244733782862448264161996232692431832786189721331849119295216264234525201987223957291796157025273109870820177184063610979765077554799078906298842192989538609825228048205159696851613591638196771886478990320332932331504971964981069110755562216716287449401406556669337508693580987618295241862687280818349842797665175820252898961683899412164451381121717843878280249738685589293630824340362450261313505207654443952469222856940781277457251555683353515434882134146135602467474223150098929518321062218603346665369386914184511881830646507205161668033750763444781624786051516150553933255901324538517120091203210547577460111179375273453499325246077784872603395906037377692409289071343100685141712826690844295814375998562196448479680235579404203624258376532755891475787407042338062215879809760824011137486597437780266744498377151494047153640114312707036450651522073746413404050058233053640458494571308479641582686707540909949159019600118451623731009368890612325692596686791033302578770029687930635823174349589404055760688217742438970751627777411264332768251973078481187460416351615989697194442809993493759304565097789247055888017163280656702123059504207105199922715794172765968587882950839721935771883098877017227576033378017421998459803292255542282263462961287118679094595352184761132409539024609711676022200029295650185536615552733719240604215263616973846936393391475919924103383238419275876945925626547078589128052959700150973874787825106873448096456635305713344744836081099976139061036958922644021798924974208474653655997208947749402374977332689105889138643201290611331265912523707837059957356825098910731137307256468523143475379438861855921398290734832010160567730095963519316908173398738896967798209248017453441889847644205199913329749110429359657654970441455306637981089321704870127163445276581380844205840934483370028541101146323965034424966001158914658842135310755250391415752078786810414982227256456562902140313130932880716886087815004509771637393205803616185559436998811236377269201720776554305234994586979226699051494529162653744677387359036820000927503836311018286100784731937775472234822570842826294220035663150751984811918394239023934334194438884018889271154850707718431488709791147528010153161751424464164932193253132286913954028293415027531635605012366538158828671411468463850348289495498613126323362911083957072862010020422244736230776537072393646801197610541150677407789844026232068293107350184720860213586062990003464855727989405565067, 4084) :=
  (congrArg (fun m => consTwin 2 13 8192 4096 297451032133399501847248817215338247289551159626559455664302910133102053229655088195192431137407574390169395265311080797077991204274544404233615846072283678915493208441212965665353799757256873373822590540376634932975518914480288693615689509986536747798453854370110751566241770075081060955033783220024393287694765782015063869045650538513548745651229066213342854201974766681111045859662205283187454552427805701620011304614378119564874854509920342040775491725421807341288964437555602632428304681756428767300355660554340010248654067159596346304558937949162725435642714210429785583522342700092081938177434283539175478855683275288872901248453586370473179426989812812137901180970309803333085882655413996721608823754469051590718947157906146685330930518689523616402699548830030420096923194453704971866109821138688317956706053251669319568077342130819177190283586828048144669122775385905546075266146478901848075744297484141146146567313305913820534823058900796432902915393388017501626847436892719799351551442349107801434446004208515713531391737717608204008488671650763098448225977660380080112936703729268754624668049592334132540516452810898908190600712014614371651398701948303914585148687549322273487074165441225579730679140686081965765190524735735293606037595209962137504195409490825952020461827824126425769121043132607049786252161739767841633680469059803586322803288679681893606975749057479227354849919315905219367386407103204917808537942569679290237711581064832972856087632439867150900440617137408768027459370616675922323306982409711684198866787439894723421241805185760473194657465518343652245204969131533909882201717298852054552955248336714603817319701512020013879293258517557480615565212688468684362297325467369149568597434085596027129385474377776085993094684324727105622963371092233915088588928797739249688033947889543318861827756608246651707761860891400427570853000697252689785368805703063546467900818836345905621087416683921473461588676521493847782881067125675288486623331896099188041329556385394035585018631866955505318788044228674564433093543586520174624425106581518876121759153944016108496101809358099864849932159161850597827681196928080156942250428256551271037802384407753497009784596320407610250765041444970209145490586790173151537436054981557448376835174345853009833684322613859332644309811451925240090861598181678953621317272372832718100750575633696065166270562046117837675542162409217338642139528364814175957951813844820059067682567136737363947833089926400983067300191943882273070074990178650251486080463888149143388014873246777541219223966585586415109164362531578948298595683038038723404277793948813998233995542171915682130961825385715950256612162846891451666719638958547763059717850472234524916620523128917858373915756611970570265289498397779077371068501686741637073177354827994910456464722148675603152321826369034418698321891536876958952544272650622343731625396612719301341051562694233388685378184657962133239783815860750186800824411991049888069583947459547851096821328478646762477746739559280335760930960908682128949247573941880070551973622887306750511738510760647214207130361200533662907314118097345426330662197195878405701693708839909208678019626822378675385500142088856721652096186782556507592089765788303194908691945987055362266914588716779317456794219888705461149991153292077068405587985571600004034770207581832512199694415878751080411277569147875159316496430705155422013461903809186559113931922208029801161527422494499633431759562726076942854919674297427613915724219006173887509963584407665892500436695035160322400009872360268520690297991606607899730991927419747642687690027561845517428538194550219963585660748175276618490497233313322298914007464236209530587781644349218670546494001615660143878711584098439158345809683034442881734121424825367853658723084571377206772058086259481707708969468397777099882708271738760375342259244099842736023589445329906169239163941617593870470084497478275510592057370097026626294765221876692942383496932142779109589748498512225348872401469298752275688730852326089561133559822871751515582471817551521585979418110548608058398985831199932267961221217183452373377355644827775197108891482990494585992984940503517781965924335626648594939240541543044165483934137107366698422534591931360703660865116595001046279395852357463404938409895035159424654245082432591678033593405950800763624299509153040566223233988282357537007264710246212405408459089834707880526691638979002994481000306397284646885553298616132629760515318028290672364562147422015209141044771105225831982711198321142736853807780318007036277958059345109312025000563207066151881799454771146401823437756458160308318043886372511463952246322039279186024587745776232736467279513188290939309610912654521661137685114303709351255215702585120882156859733081905116166542580895951892804617095313526449414847964350072702081257097010869492121628981109652772574875202140969437581414966053622834601835745624633730358531202708324001258165810042285064192 m 0 0 0 0)
      (by norm_num : (4096 : Nat) = 512 + 3584)).trans
    ((consTwin_chunk 2 13 8192 4096 297451032133399501847248817215338247289551159626559455664302910133102053229655088195192431137407574390169395265311080797077991204274544404233615846072283678915493208441212965665353799757256873373822590540376634932975518914480288693615689509986536747798453854370110751566241770075081060955033783220024393287694765782015063869045650538513548745651229066213342854201974766681111045859662205283187454552427805701620011304614378119564874854509920342040775491725421807341288964437555602632428304681756428767300355660554340010248654067159596346304558937949162725435642714210429785583522342700092081938177434283539175478855683275288872901248453586370473179426989812812137901180970309803333085882655413996721608823754469051590718947157906146685330930518689523616402699548830030420096923194453704971866109821138688317956706053251669319568077342130819177190283586828048144669122775385905546075266146478901848075744297484141146146567313305913820534823058900796432902915393388017501626847436892719799351551442349107801434446004208515713531391737717608204008488671650763098448225977660380080112936703729268754624668049592334132540516452810898908190600712014614371651398701948303914585148687549322273487074165441225579730679140686081965765190524735735293606037595209962137504195409490825952020461827824126425769121043132607049786252161739767841633680469059803586322803288679681893606975749057479227354849919315905219367386407103204917808537942569679290237711581064832972856087632439867150900440617137408768027459370616675922323306982409711684198866787439894723421241805185760473194657465518343652245204969131533909882201717298852054552955248336714603817319701512020013879293258517557480615565212688468684362297325467369149568597434085596027129385474377776085993094684324727105622963371092233915088588928797739249688033947889543318861827756608246651707761860891400427570853000697252689785368805703063546467900818836345905621087416683921473461588676521493847782881067125675288486623331896099188041329556385394035585018631866955505318788044228674564433093543586520174624425106581518876121759153944016108496101809358099864849932159161850597827681196928080156942250428256551271037802384407753497009784596320407610250765041444970209145490586790173151537436054981557448376835174345853009833684322613859332644309811451925240090861598181678953621317272372832718100750575633696065166270562046117837675542162409217338642139528364814175957951813844820059067682567136737363947833089926400983067300191943882273070074990178650251486080463888149143388014873246777541219223966585586415109164362531578948298595683038038723404277793948813998233995542171915682130961825385715950256612162846891451666719638958547763059717850472234524916620523128917858373915756611970570265289498397779077371068501686741637073177354827994910456464722148675603152321826369034418698321891536876958952544272650622343731625396612719301341051562694233388685378184657962133239783815860750186800824411991049888069583947459547851096821328478646762477746739559280335760930960908682128949247573941880070551973622887306750511738510760647214207130361200533662907314118097345426330662197195878405701693708839909208678019626822378675385500142088856721652096186782556507592089765788303194908691945987055362266914588716779317456794219888705461149991153292077068405587985571600004034770207581832512199694415878751080411277569147875159316496430705155422013461903809186559113931922208029801161527422494499633431759562726076942854919674297427613915724219006173887509963584407665892500436695035160322400009872360268520690297991606607899730991927419747642687690027561845517428538194550219963585660748175276618490497233313322298914007464236209530587781644349218670546494001615660143878711584098439158345809683034442881734121424825367853658723084571377206772058086259481707708969468397777099882708271738760375342259244099842736023589445329906169239163941617593870470084497478275510592057370097026626294765221876692942383496932142779109589748498512225348872401469298752275688730852326089561133559822871751515582471817551521585979418110548608058398985831199932267961221217183452373377355644827775197108891482990494585992984940503517781965924335626648594939240541543044165483934137107366698422534591931360703660865116595001046279395852357463404938409895035159424654245082432591678033593405950800763624299509153040566223233988282357537007264710246212405408459089834707880526691638979002994481000306397284646885553298616132629760515318028290672364562147422015209141044771105225831982711198321142736853807780318007036277958059345109312025000563207066151881799454771146401823437756458160308318043886372511463952246322039279186024587745776232736467279513188290939309610912654521661137685114303709351255215702585120882156859733081905116166542580895951892804617095313526449414847964350072702081257097010869492121628981109652772574875202140969437581414966053622834601835745624633730358531202708324001258165810042285064192 512 3584 0 0 0 0 3584 4332 1090748135619415929462984244733782862448264161996232692431832786189721331849119295216264234525201987223957291796157025273109870820177184063610979765077554799078906298842192989538609825228046899591818003840099339532642513061238101282987624274339874731589457426195357497174881746957854313796413322566681754735848644182770832735720798895571893603489954145153075513906897360590480924543213684377301135910822778403667616557571311932270068803525642138933351398866177587622956481416129036907652787054441315722354986452852570274417399586470631475366340957557045566554728965252977163102474518669184703183265078287777587142318471166178093741614208482573288366192072658983731932312062485773982263861785244301462075271345908862597523615690192080072823764112785529105451088325730909893617190925958648894493368375083109307224721698353171597580757356902049578961070346833265935837206084503530804697090538163753077900208051695332292555658859463282426263720346375093836084658759355600061805692589729883866448340836771119928456201620425576672557215971000904854139234748546201745499659098713842070714168317998488145928117536341085248776904780247302832593367820756594082054948308588852540870722985937872473737689408884981959410458068360577939937380594365880593117842109964600246740529776756740669645060923560153478977051009137779636159864286476478820891341549956538637471106672382094441314514297180408203216730522552056598189959092338309707731348157067203629999493809525554372075852870692823206218353985583367229092171340709940202531472328102803304637887210771271584942649945203155757216194455171036850159490823781476616287158666574954139308896398279205095097413957288648084000208197028548341911984523207767315936281720711028537993433549028687594626966278958030611534782298041456315143405054714313656331011145525169182196750668645419092165352030420871413519419545797388041318440735096375269701103246788493706399070947879047395933545680883348287741533283668223793545492191706178170850760398088532292640952014943667335143222764016508697037159362574889063457062462656523153804333815077955769939053263768970048479440358100143147499748065241974673353834918987103531476875034209820196667388349984711576835664082336139685225267199586622250749004239702546511036350494174125370016149406455990292283761616301304227110114842164007285316317303268749305838114049641220087211842639521997473400735710207570243190124367305741516019186827604429510965225532441085011976155256100542411738089043641696829579 3572 c1_cons_2_13_s3584).trans (by rfl))

theorem c1_cons_2_13_s4608 : consTwin 2 13 8192 4096 297451032133399501847248817215338247289551159626559455664302910133102053229655088195192431137407574390169395265311080797077991204274544404233615846072283678915493208441212965665353799757256873373822590540376634932975518914480288693615689509986536747798453854370110751566241770075081060955033783220024393287694765782015063869045650538513548745651229066213342854201974766681111045859662205283187454552427805701620011304614378119564874854509920342040775491725421807341288964437555602632428304681756428767300355660554340010248654067159596346304558937949162725435642714210429785583522342700092081938177434283539175478855683275288872901248453586370473179426989812812137901180970309803333085882655413996721608823754469051590718947157906146685330930518689523616402699548830030420096923194453704971866109821138688317956706053251669319568077342130819177190283586828048144669122775385905546075266146478901848075744297484141146146567313305913820534823058900796432902915393388017501626847436892719799351551442349107801434446004208515713531391737717608204008488671650763098448225977660380080112936703729268754624668049592334132540516452810898908190600712014614371651398701948303914585148687549322273487074165441225579730679140686081965765190524735735293606037595209962137504195409490825952020461827824126425769121043132607049786252161739767841633680469059803586322803288679681893606975749057479227354849919315905219367386407103204917808537942569679290237711581064832972856087632439867150900440617137408768027459370616675922323306982409711684198866787439894723421241805185760473194657465518343652245204969131533909882201717298852054552955248336714603817319701512020013879293258517557480615565212688468684362297325467369149568597434085596027129385474377776085993094684324727105622963371092233915088588928797739249688033947889543318861827756608246651707761860891400427570853000697252689785368805703063546467900818836345905621087416683921473461588676521493847782881067125675288486623331896099188041329556385394035585018631866955505318788044228674564433093543586520174624425106581518876121759153944016108496101809358099864849932159161850597827681196928080156942250428256551271037802384407753497009784596320407610250765041444970209145490586790173151537436054981557448376835174345853009833684322613859332644309811451925240090861598181678953621317272372832718100750575633696065166270562046117837675542162409217338642139528364814175957951813844820059067682567136737363947833089926400983067300191943882273070074990178650251486080463888149143388014873246777541219223966585586415109164362531578948298595683038038723404277793948813998233995542171915682130961825385715950256612162846891451666719638958547763059717850472234524916620523128917858373915756611970570265289498397779077371068501686741637073177354827994910456464722148675603152321826369034418698321891536876958952544272650622343731625396612719301341051562694233388685378184657962133239783815860750186800824411991049888069583947459547851096821328478646762477746739559280335760930960908682128949247573941880070551973622887306750511738510760647214207130361200533662907314118097345426330662197195878405701693708839909208678019626822378675385500142088856721652096186782556507592089765788303194908691945987055362266914588716779317456794219888705461149991153292077068405587985571600004034770207581832512199694415878751080411277569147875159316496430705155422013461903809186559113931922208029801161527422494499633431759562726076942854919674297427613915724219006173887509963584407665892500436695035160322400009872360268520690297991606607899730991927419747642687690027561845517428538194550219963585660748175276618490497233313322298914007464236209530587781644349218670546494001615660143878711584098439158345809683034442881734121424825367853658723084571377206772058086259481707708969468397777099882708271738760375342259244099842736023589445329906169239163941617593870470084497478275510592057370097026626294765221876692942383496932142779109589748498512225348872401469298752275688730852326089561133559822871751515582471817551521585979418110548608058398985831199932267961221217183452373377355644827775197108891482990494585992984940503517781965924335626648594939240541543044165483934137107366698422534591931360703660865116595001046279395852357463404938409895035159424654245082432591678033593405950800763624299509153040566223233988282357537007264710246212405408459089834707880526691638979002994481000306397284646885553298616132629760515318028290672364562147422015209141044771105225831982711198321142736853807780318007036277958059345109312025000563207066151881799454771146401823437756458160308318043886372511463952246322039279186024587745776232736467279513188290939309610912654521661137685114303709351255215702585120882156859733081905116166542580895951892804617095313526449414847964350072702081257097010869492121628981109652772574875202140969437581414966053622834601835745624633730358531202708324001258165810042285064192 4608 0 0 0 0 = (4608, 5660, 1090748135619415929462984244733782862448264161996232692431832786189721331849119295216264234525201987223957291796157025273109870820177184063610979765077554799078906298842192989538609825228048205159696851613591638196771886542609324560121290553901886301017900204109413997608835576846468478307182896745271332422816882121513238176938665700400974061112867222346534006559321450651650140250291720396492461192281750121369686305116534765120890580965179959236738604379042546981075041734125554292766859043299063570444256490467786117623994981568082730607263106672863674924306565249316352511660499138513600119148875651392442009552563265044320869120622650464671954729077099504862262193426311784484642634930430701046290138445843134213149795650469038815185913827185591921081860655348515169433993266249953956187939564309551597213327702922597246245093363702818857668801839960475153929359681764115665782224163024744191152269665711063997502460580763346765722331153989725533643901779493756722787511660017532469360155989748351361965194959315300184499775331080998344558377007381019433414977581309418893079569102440647883654536598913832951899994421910598105900067242390826037247849890640002931362213499841784617051264818087691695738248481907336352339603108345778148489465761723755815699858318154399987937208417978010560004794202371065778048277900980817691251382290238166412812363710814239288495081227207194541163266383825296632703452101022605522204421573090512904343546290347448501839254832961389727421216563160425509390511672423245670426660033697333547924454498105128942963283621296375065483382824459026471237931601971141723606897547053117429109587251636451951668441971627773546360667172103614675816951421609234333531232801772499471968079614851171959077790143077510404912168534332906244628238973540892542450846684209636835563437006156098055180816343202793477106665948017874860728803128487063824809925238230276633591356510037560750579881807812890943487545194052884042785028974111523507829422078900121821183792818054588683461333534402207161491267407972014366791068712892839227659848218615620744553441351276770679463873524990043230618276919780483249094598102103075004165468254948783977276820416023623556747847083105647281776625466972699161907489573926290176142882392112922161683794768941521818355431050269592528668564075848005849429997911549078160725595265114648944021007614631078909384174655620722795790419096619236960118859423164419314426719702052005694407536350770398109370391507312647913611, 4596) :=
  (congrArg (fun m => consTwin 2 13 8192 4096 297451032133399501847248817215338247289551159626559455664302910133102053229655088195192431137407574390169395265311080797077991204274544404233615846072283678915493208441212965665353799757256873373822590540376634932975518914480288693615689509986536747798453854370110751566241770075081060955033783220024393287694765782015063869045650538513548745651229066213342854201974766681111045859662205283187454552427805701620011304614378119564874854509920342040775491725421807341288964437555602632428304681756428767300355660554340010248654067159596346304558937949162725435642714210429785583522342700092081938177434283539175478855683275288872901248453586370473179426989812812137901180970309803333085882655413996721608823754469051590718947157906146685330930518689523616402699548830030420096923194453704971866109821138688317956706053251669319568077342130819177190283586828048144669122775385905546075266146478901848075744297484141146146567313305913820534823058900796432902915393388017501626847436892719799351551442349107801434446004208515713531391737717608204008488671650763098448225977660380080112936703729268754624668049592334132540516452810898908190600712014614371651398701948303914585148687549322273487074165441225579730679140686081965765190524735735293606037595209962137504195409490825952020461827824126425769121043132607049786252161739767841633680469059803586322803288679681893606975749057479227354849919315905219367386407103204917808537942569679290237711581064832972856087632439867150900440617137408768027459370616675922323306982409711684198866787439894723421241805185760473194657465518343652245204969131533909882201717298852054552955248336714603817319701512020013879293258517557480615565212688468684362297325467369149568597434085596027129385474377776085993094684324727105622963371092233915088588928797739249688033947889543318861827756608246651707761860891400427570853000697252689785368805703063546467900818836345905621087416683921473461588676521493847782881067125675288486623331896099188041329556385394035585018631866955505318788044228674564433093543586520174624425106581518876121759153944016108496101809358099864849932159161850597827681196928080156942250428256551271037802384407753497009784596320407610250765041444970209145490586790173151537436054981557448376835174345853009833684322613859332644309811451925240090861598181678953621317272372832718100750575633696065166270562046117837675542162409217338642139528364814175957951813844820059067682567136737363947833089926400983067300191943882273070074990178650251486080463888149143388014873246777541219223966585586415109164362531578948298595683038038723404277793948813998233995542171915682130961825385715950256612162846891451666719638958547763059717850472234524916620523128917858373915756611970570265289498397779077371068501686741637073177354827994910456464722148675603152321826369034418698321891536876958952544272650622343731625396612719301341051562694233388685378184657962133239783815860750186800824411991049888069583947459547851096821328478646762477746739559280335760930960908682128949247573941880070551973622887306750511738510760647214207130361200533662907314118097345426330662197195878405701693708839909208678019626822378675385500142088856721652096186782556507592089765788303194908691945987055362266914588716779317456794219888705461149991153292077068405587985571600004034770207581832512199694415878751080411277569147875159316496430705155422013461903809186559113931922208029801161527422494499633431759562726076942854919674297427613915724219006173887509963584407665892500436695035160322400009872360268520690297991606607899730991927419747642687690027561845517428538194550219963585660748175276618490497233313322298914007464236209530587781644349218670546494001615660143878711584098439158345809683034442881734121424825367853658723084571377206772058086259481707708969468397777099882708271738760375342259244099842736023589445329906169239163941617593870470084497478275510592057370097026626294765221876692942383496932142779109589748498512225348872401469298752275688730852326089561133559822871751515582471817551521585979418110548608058398985831199932267961221217183452373377355644827775197108891482990494585992984940503517781965924335626648594939240541543044165483934137107366698422534591931360703660865116595001046279395852357463404938409895035159424654245082432591678033593405950800763624299509153040566223233988282357537007264710246212405408459089834707880526691638979002994481000306397284646885553298616132629760515318028290672364562147422015209141044771105225831982711198321142736853807780318007036277958059345109312025000563207066151881799454771146401823437756458160308318043886372511463952246322039279186024587745776232736467279513188290939309610912654521661137685114303709351255215702585120882156859733081905116166542580895951892804617095313526449414847964350072702081257097010869492121628981109652772574875202140969437581414966053622834601835745624633730358531202708324001258165810042285064192 m 0 0 0 0)
      (by norm_num : (4608 : Nat) = 512 + 4096)).trans
    ((consTwin_chunk 2 13 8192 4096 297451032133399501847248817215338247289551159626559455664302910133102053229655088195192431137407574390169395265311080797077991204274544404233615846072283678915493208441212965665353799757256873373822590540376634932975518914480288693615689509986536747798453854370110751566241770075081060955033783220024393287694765782015063869045650538513548745651229066213342854201974766681111045859662205283187454552427805701620011304614378119564874854509920342040775491725421807341288964437555602632428304681756428767300355660554340010248654067159596346304558937949162725435642714210429785583522342700092081938177434283539175478855683275288872901248453586370473179426989812812137901180970309803333085882655413996721608823754469051590718947157906146685330930518689523616402699548830030420096923194453704971866109821138688317956706053251669319568077342130819177190283586828048144669122775385905546075266146478901848075744297484141146146567313305913820534823058900796432902915393388017501626847436892719799351551442349107801434446004208515713531391737717608204008488671650763098448225977660380080112936703729268754624668049592334132540516452810898908190600712014614371651398701948303914585148687549322273487074165441225579730679140686081965765190524735735293606037595209962137504195409490825952020461827824126425769121043132607049786252161739767841633680469059803586322803288679681893606975749057479227354849919315905219367386407103204917808537942569679290237711581064832972856087632439867150900440617137408768027459370616675922323306982409711684198866787439894723421241805185760473194657465518343652245204969131533909882201717298852054552955248336714603817319701512020013879293258517557480615565212688468684362297325467369149568597434085596027129385474377776085993094684324727105622963371092233915088588928797739249688033947889543318861827756608246651707761860891400427570853000697252689785368805703063546467900818836345905621087416683921473461588676521493847782881067125675288486623331896099188041329556385394035585018631866955505318788044228674564433093543586520174624425106581518876121759153944016108496101809358099864849932159161850597827681196928080156942250428256551271037802384407753497009784596320407610250765041444970209145490586790173151537436054981557448376835174345853009833684322613859332644309811451925240090861598181678953621317272372832718100750575633696065166270562046117837675542162409217338642139528364814175957951813844820059067682567136737363947833089926400983067300191943882273070074990178650251486080463888149143388014873246777541219223966585586415109164362531578948298595683038038723404277793948813998233995542171915682130961825385715950256612162846891451666719638958547763059717850472234524916620523128917858373915756611970570265289498397779077371068501686741637073177354827994910456464722148675603152321826369034418698321891536876958952544272650622343731625396612719301341051562694233388685378184657962133239783815860750186800824411991049888069583947459547851096821328478646762477746739559280335760930960908682128949247573941880070551973622887306750511738510760647214207130361200533662907314118097345426330662197195878405701693708839909208678019626822378675385500142088856721652096186782556507592089765788303194908691945987055362266914588716779317456794219888705461149991153292077068405587985571600004034770207581832512199694415878751080411277569147875159316496430705155422013461903809186559113931922208029801161527422494499633431759562726076942854919674297427613915724219006173887509963584407665892500436695035160322400009872360268520690297991606607899730991927419747642687690027561845517428538194550219963585660748175276618490497233313322298914007464236209530587781644349218670546494001615660143878711584098439158345809683034442881734121424825367853658723084571377206772058086259481707708969468397777099882708271738760375342259244099842736023589445329906169239163941617593870470084497478275510592057370097026626294765221876692942383496932142779109589748498512225348872401469298752275688730852326089561133559822871751515582471817551521585979418110548608058398985831199932267961221217183452373377355644827775197108891482990494585992984940503517781965924335626648594939240541543044165483934137107366698422534591931360703660865116595001046279395852357463404938409895035159424654245082432591678033593405950800763624299509153040566223233988282357537007264710246212405408459089834707880526691638979002994481000306397284646885553298616132629760515318028290672364562147422015209141044771105225831982711198321142736853807780318007036277958059345109312025000563207066151881799454771146401823437756458160308318043886372511463952246322039279186024587745776232736467279513188290939309610912654521661137685114303709351255215702585120882156859733081905116166542580895951892804617095313526449414847964350072702081257097010869492121628981109652772574875202140969437581414966053622834601835745624633730358531202708324001258165810042285064192 512 4096 0 0 0 0 4096 7462 1090748135619415929462984244733782862448264161996232692431832786189721331849119295216264234525201987223957291796157025273109870820177184063610979765077554799078906298842192989538609825228048205159696851613591638196771886478990320332932331504971964981069110755562216716287449401406556669337508693580987618295241862687280818349842797665175820252898961683899412164451381121717843878280249738685589293630824340362450261313505207654443952469222856940781277457251555683353515434882134146135602467474223150098929518321062218603346665369386914184511881830646507205161668033750763444781624786051516150553933255901324538517120091203210547577460111179375273453499325246077784872603395906037377692409289071343100685141712826690844295814375998562196448479680235579404203624258376532755891475787407042338062215879809760824011137486597437780266744498377151494047153640114312707036450651522073746413404050058233053640458494571308479641582686707540909949159019600118451623731009368890612325692596686791033302578770029687930635823174349589404055760688217742438970751627777411264332768251973078481187460416351615989697194442809993493759304565097789247055888017163280656702123059504207105199922715794172765968587882950839721935771883098877017227576033378017421998459803292255542282263462961287118679094595352184761132409539024609711676022200029295650185536615552733719240604215263616973846936393391475919924103383238419275876945925626547078589128052959700150973874787825106873448096456635305713344744836081099976139061036958922644021798924974208474653655997208947749402374977332689105889138643201290611331265912523707837059957356825098910731137307256468523143475379438861855921398290734832010160567730095963519316908173398738896967798209248017453441889847644205199913329749110429359657654970441455306637981089321704870127163445276581380844205840934483370028541101146323965034424966001158914658842135310755250391415752078786810414982227256456562902140313130932880716886087815004509771637393205803616185559436998811236377269201720776554305234994586979226699051494529162653744677387359036820000927503836311018286100784731937775472234822570842826294220035663150751984811918394239023934334194438884018889271154850707718431488709791147528010153161751424464164932193253132286913954028293415027531635605012366538158828671411468463850348289495498613126323362911083957072862010020422244736230776537072393646801197610541150677407789844026232068293107350184720860213586062990003464855727989405565067 4084 c1_cons_2_13_s4096).trans (by rfl))

theorem c1_cons_2_13_s5120 : consTwin 2 13 8192 4096 297451032133399501847248817215338247289551159626559455664302910133102053229655088195192431137407574390169395265311080797077991204274544404233615846072283678915493208441212965665353799757256873373822590540376634932975518914480288693615689509986536747798453854370110751566241770075081060955033783220024393287694765782015063869045650538513548745651229066213342854201974766681111045859662205283187454552427805701620011304614378119564874854509920342040775491725421807341288964437555602632428304681756428767300355660554340010248654067159596346304558937949162725435642714210429785583522342700092081938177434283539175478855683275288872901248453586370473179426989812812137901180970309803333085882655413996721608823754469051590718947157906146685330930518689523616402699548830030420096923194453704971866109821138688317956706053251669319568077342130819177190283586828048144669122775385905546075266146478901848075744297484141146146567313305913820534823058900796432902915393388017501626847436892719799351551442349107801434446004208515713531391737717608204008488671650763098448225977660380080112936703729268754624668049592334132540516452810898908190600712014614371651398701948303914585148687549322273487074165441225579730679140686081965765190524735735293606037595209962137504195409490825952020461827824126425769121043132607049786252161739767841633680469059803586322803288679681893606975749057479227354849919315905219367386407103204917808537942569679290237711581064832972856087632439867150900440617137408768027459370616675922323306982409711684198866787439894723421241805185760473194657465518343652245204969131533909882201717298852054552955248336714603817319701512020013879293258517557480615565212688468684362297325467369149568597434085596027129385474377776085993094684324727105622963371092233915088588928797739249688033947889543318861827756608246651707761860891400427570853000697252689785368805703063546467900818836345905621087416683921473461588676521493847782881067125675288486623331896099188041329556385394035585018631866955505318788044228674564433093543586520174624425106581518876121759153944016108496101809358099864849932159161850597827681196928080156942250428256551271037802384407753497009784596320407610250765041444970209145490586790173151537436054981557448376835174345853009833684322613859332644309811451925240090861598181678953621317272372832718100750575633696065166270562046117837675542162409217338642139528364814175957951813844820059067682567136737363947833089926400983067300191943882273070074990178650251486080463888149143388014873246777541219223966585586415109164362531578948298595683038038723404277793948813998233995542171915682130961825385715950256612162846891451666719638958547763059717850472234524916620523128917858373915756611970570265289498397779077371068501686741637073177354827994910456464722148675603152321826369034418698321891536876958952544272650622343731625396612719301341051562694233388685378184657962133239783815860750186800824411991049888069583947459547851096821328478646762477746739559280335760930960908682128949247573941880070551973622887306750511738510760647214207130361200533662907314118097345426330662197195878405701693708839909208678019626822378675385500142088856721652096186782556507592089765788303194908691945987055362266914588716779317456794219888705461149991153292077068405587985571600004034770207581832512199694415878751080411277569147875159316496430705155422013461903809186559113931922208029801161527422494499633431759562726076942854919674297427613915724219006173887509963584407665892500436695035160322400009872360268520690297991606607899730991927419747642687690027561845517428538194550219963585660748175276618490497233313322298914007464236209530587781644349218670546494001615660143878711584098439158345809683034442881734121424825367853658723084571377206772058086259481707708969468397777099882708271738760375342259244099842736023589445329906169239163941617593870470084497478275510592057370097026626294765221876692942383496932142779109589748498512225348872401469298752275688730852326089561133559822871751515582471817551521585979418110548608058398985831199932267961221217183452373377355644827775197108891482990494585992984940503517781965924335626648594939240541543044165483934137107366698422534591931360703660865116595001046279395852357463404938409895035159424654245082432591678033593405950800763624299509153040566223233988282357537007264710246212405408459089834707880526691638979002994481000306397284646885553298616132629760515318028290672364562147422015209141044771105225831982711198321142736853807780318007036277958059345109312025000563207066151881799454771146401823437756458160308318043886372511463952246322039279186024587745776232736467279513188290939309610912654521661137685114303709351255215702585120882156859733081905116166542580895951892804617095313526449414847964350072702081257097010869492121628981109652772574875202140969437581414966053622834601835745624633730358531202708324001258165810042285064192 5120 0 0 0 0 = (5120, 5000, 1090748135619415929462984244733782862448264161996232692431832786189721331849119295216264234525201987223957291796157025273109870820177184063610979765077554799078906298842192989538609825228048205159696851613591638196771886542609324560121290553901886301017900252535799917200010079600026535836241133005632366922389236520943431344891383890079012626210250818078064196993996363538808224257755471475707827156902774364013053623142395452045514782628550212501709543123249319018914029905496147041768741165974104498454902575917347012044448348041090128073572748142957111559748321850058754175061756085345112154845233548319532595744494190494945242931223217114160590501537535378574408380234536737590947240323722899915736042310121537215120194910162472239834203498737056340197272732283148802717453771349305107614334307818224863615625762530907118147656831643507085633821023995729552422737007338943014902814688598249360282207285912248604079767693858465730799757442285022841890868972574962721443211872743741163825501270634411683351817663530695715501561283207312663736285829825079239429507017567576028930476674069280886840200311627780091367163341731457073765201004397366471260953918302613974462639828948909013999455429485466260545320265336634320862188040569751856502639697921172338527491779461442325585585573969794960912009252212478777068978142128886269341529345217384735544193102154133500968748387092267871686023598470140429090982827429369916914345848713400231955228235753139170706582872643979525225449583764768811620298877971071398894378788359061907300221209796290333322979143152748464813108130445114931427456784502016947957152762598338603385470017392059213241411578042735730779415828014463149737011964293477902474740276337220332363169830147429824039133286954964471807671811203219659305010230759322362135319407611866903029442827554568782960082893605327855370397173993920380619816491928125730004880233173087474006336170568573193460111458058288385726867000608741642741128032684191196457866296423987296180014472844945842120146049167995892633585724207063877228719881835674727892453609992667635917397787206769267689082347218869705259867293263572904697983617979112897829627435747309501406584216153561556360677674596682690270054801540821074673339159698518217931799509649475066252435814490674199034586730238840903793001530287188280001227404597027301120166106663280106673011055857853286412141943881241279129974385959029139466407574000186763998659800254104700343782792835978549456042241572686839947, 5108) :=
  (congrArg (fun m => consTwin 2 13 8192 4096 297451032133399501847248817215338247289551159626559455664302910133102053229655088195192431137407574390169395265311080797077991204274544404233615846072283678915493208441212965665353799757256873373822590540376634932975518914480288693615689509986536747798453854370110751566241770075081060955033783220024393287694765782015063869045650538513548745651229066213342854201974766681111045859662205283187454552427805701620011304614378119564874854509920342040775491725421807341288964437555602632428304681756428767300355660554340010248654067159596346304558937949162725435642714210429785583522342700092081938177434283539175478855683275288872901248453586370473179426989812812137901180970309803333085882655413996721608823754469051590718947157906146685330930518689523616402699548830030420096923194453704971866109821138688317956706053251669319568077342130819177190283586828048144669122775385905546075266146478901848075744297484141146146567313305913820534823058900796432902915393388017501626847436892719799351551442349107801434446004208515713531391737717608204008488671650763098448225977660380080112936703729268754624668049592334132540516452810898908190600712014614371651398701948303914585148687549322273487074165441225579730679140686081965765190524735735293606037595209962137504195409490825952020461827824126425769121043132607049786252161739767841633680469059803586322803288679681893606975749057479227354849919315905219367386407103204917808537942569679290237711581064832972856087632439867150900440617137408768027459370616675922323306982409711684198866787439894723421241805185760473194657465518343652245204969131533909882201717298852054552955248336714603817319701512020013879293258517557480615565212688468684362297325467369149568597434085596027129385474377776085993094684324727105622963371092233915088588928797739249688033947889543318861827756608246651707761860891400427570853000697252689785368805703063546467900818836345905621087416683921473461588676521493847782881067125675288486623331896099188041329556385394035585018631866955505318788044228674564433093543586520174624425106581518876121759153944016108496101809358099864849932159161850597827681196928080156942250428256551271037802384407753497009784596320407610250765041444970209145490586790173151537436054981557448376835174345853009833684322613859332644309811451925240090861598181678953621317272372832718100750575633696065166270562046117837675542162409217338642139528364814175957951813844820059067682567136737363947833089926400983067300191943882273070074990178650251486080463888149143388014873246777541219223966585586415109164362531578948298595683038038723404277793948813998233995542171915682130961825385715950256612162846891451666719638958547763059717850472234524916620523128917858373915756611970570265289498397779077371068501686741637073177354827994910456464722148675603152321826369034418698321891536876958952544272650622343731625396612719301341051562694233388685378184657962133239783815860750186800824411991049888069583947459547851096821328478646762477746739559280335760930960908682128949247573941880070551973622887306750511738510760647214207130361200533662907314118097345426330662197195878405701693708839909208678019626822378675385500142088856721652096186782556507592089765788303194908691945987055362266914588716779317456794219888705461149991153292077068405587985571600004034770207581832512199694415878751080411277569147875159316496430705155422013461903809186559113931922208029801161527422494499633431759562726076942854919674297427613915724219006173887509963584407665892500436695035160322400009872360268520690297991606607899730991927419747642687690027561845517428538194550219963585660748175276618490497233313322298914007464236209530587781644349218670546494001615660143878711584098439158345809683034442881734121424825367853658723084571377206772058086259481707708969468397777099882708271738760375342259244099842736023589445329906169239163941617593870470084497478275510592057370097026626294765221876692942383496932142779109589748498512225348872401469298752275688730852326089561133559822871751515582471817551521585979418110548608058398985831199932267961221217183452373377355644827775197108891482990494585992984940503517781965924335626648594939240541543044165483934137107366698422534591931360703660865116595001046279395852357463404938409895035159424654245082432591678033593405950800763624299509153040566223233988282357537007264710246212405408459089834707880526691638979002994481000306397284646885553298616132629760515318028290672364562147422015209141044771105225831982711198321142736853807780318007036277958059345109312025000563207066151881799454771146401823437756458160308318043886372511463952246322039279186024587745776232736467279513188290939309610912654521661137685114303709351255215702585120882156859733081905116166542580895951892804617095313526449414847964350072702081257097010869492121628981109652772574875202140969437581414966053622834601835745624633730358531202708324001258165810042285064192 m 0 0 0 0)
      (by norm_num : (5120 : Nat) = 512 + 4608)).trans
    ((consTwin_chunk 2 13 8192 4096 297451032133399501847248817215338247289551159626559455664302910133102053229655088195192431137407574390169395265311080797077991204274544404233615846072283678915493208441212965665353799757256873373822590540376634932975518914480288693615689509986536747798453854370110751566241770075081060955033783220024393287694765782015063869045650538513548745651229066213342854201974766681111045859662205283187454552427805701620011304614378119564874854509920342040775491725421807341288964437555602632428304681756428767300355660554340010248654067159596346304558937949162725435642714210429785583522342700092081938177434283539175478855683275288872901248453586370473179426989812812137901180970309803333085882655413996721608823754469051590718947157906146685330930518689523616402699548830030420096923194453704971866109821138688317956706053251669319568077342130819177190283586828048144669122775385905546075266146478901848075744297484141146146567313305913820534823058900796432902915393388017501626847436892719799351551442349107801434446004208515713531391737717608204008488671650763098448225977660380080112936703729268754624668049592334132540516452810898908190600712014614371651398701948303914585148687549322273487074165441225579730679140686081965765190524735735293606037595209962137504195409490825952020461827824126425769121043132607049786252161739767841633680469059803586322803288679681893606975749057479227354849919315905219367386407103204917808537942569679290237711581064832972856087632439867150900440617137408768027459370616675922323306982409711684198866787439894723421241805185760473194657465518343652245204969131533909882201717298852054552955248336714603817319701512020013879293258517557480615565212688468684362297325467369149568597434085596027129385474377776085993094684324727105622963371092233915088588928797739249688033947889543318861827756608246651707761860891400427570853000697252689785368805703063546467900818836345905621087416683921473461588676521493847782881067125675288486623331896099188041329556385394035585018631866955505318788044228674564433093543586520174624425106581518876121759153944016108496101809358099864849932159161850597827681196928080156942250428256551271037802384407753497009784596320407610250765041444970209145490586790173151537436054981557448376835174345853009833684322613859332644309811451925240090861598181678953621317272372832718100750575633696065166270562046117837675542162409217338642139528364814175957951813844820059067682567136737363947833089926400983067300191943882273070074990178650251486080463888149143388014873246777541219223966585586415109164362531578948298595683038038723404277793948813998233995542171915682130961825385715950256612162846891451666719638958547763059717850472234524916620523128917858373915756611970570265289498397779077371068501686741637073177354827994910456464722148675603152321826369034418698321891536876958952544272650622343731625396612719301341051562694233388685378184657962133239783815860750186800824411991049888069583947459547851096821328478646762477746739559280335760930960908682128949247573941880070551973622887306750511738510760647214207130361200533662907314118097345426330662197195878405701693708839909208678019626822378675385500142088856721652096186782556507592089765788303194908691945987055362266914588716779317456794219888705461149991153292077068405587985571600004034770207581832512199694415878751080411277569147875159316496430705155422013461903809186559113931922208029801161527422494499633431759562726076942854919674297427613915724219006173887509963584407665892500436695035160322400009872360268520690297991606607899730991927419747642687690027561845517428538194550219963585660748175276618490497233313322298914007464236209530587781644349218670546494001615660143878711584098439158345809683034442881734121424825367853658723084571377206772058086259481707708969468397777099882708271738760375342259244099842736023589445329906169239163941617593870470084497478275510592057370097026626294765221876692942383496932142779109589748498512225348872401469298752275688730852326089561133559822871751515582471817551521585979418110548608058398985831199932267961221217183452373377355644827775197108891482990494585992984940503517781965924335626648594939240541543044165483934137107366698422534591931360703660865116595001046279395852357463404938409895035159424654245082432591678033593405950800763624299509153040566223233988282357537007264710246212405408459089834707880526691638979002994481000306397284646885553298616132629760515318028290672364562147422015209141044771105225831982711198321142736853807780318007036277958059345109312025000563207066151881799454771146401823437756458160308318043886372511463952246322039279186024587745776232736467279513188290939309610912654521661137685114303709351255215702585120882156859733081905116166542580895951892804617095313526449414847964350072702081257097010869492121628981109652772574875202140969437581414966053622834601835745624633730358531202708324001258165810042285064192 512 4608 0 0 0 0 4608 5660 1090748135619415929462984244733782862448264161996232692431832786189721331849119295216264234525201987223957291796157025273109870820177184063610979765077554799078906298842192989538609825228048205159696851613591638196771886542609324560121290553901886301017900204109413997608835576846468478307182896745271332422816882121513238176938665700400974061112867222346534006559321450651650140250291720396492461192281750121369686305116534765120890580965179959236738604379042546981075041734125554292766859043299063570444256490467786117623994981568082730607263106672863674924306565249316352511660499138513600119148875651392442009552563265044320869120622650464671954729077099504862262193426311784484642634930430701046290138445843134213149795650469038815185913827185591921081860655348515169433993266249953956187939564309551597213327702922597246245093363702818857668801839960475153929359681764115665782224163024744191152269665711063997502460580763346765722331153989725533643901779493756722787511660017532469360155989748351361965194959315300184499775331080998344558377007381019433414977581309418893079569102440647883654536598913832951899994421910598105900067242390826037247849890640002931362213499841784617051264818087691695738248481907336352339603108345778148489465761723755815699858318154399987937208417978010560004794202371065778048277900980817691251382290238166412812363710814239288495081227207194541163266383825296632703452101022605522204421573090512904343546290347448501839254832961389727421216563160425509390511672423245670426660033697333547924454498105128942963283621296375065483382824459026471237931601971141723606897547053117429109587251636451951668441971627773546360667172103614675816951421609234333531232801772499471968079614851171959077790143077510404912168534332906244628238973540892542450846684209636835563437006156098055180816343202793477106665948017874860728803128487063824809925238230276633591356510037560750579881807812890943487545194052884042785028974111523507829422078900121821183792818054588683461333534402207161491267407972014366791068712892839227659848218615620744553441351276770679463873524990043230618276919780483249094598102103075004165468254948783977276820416023623556747847083105647281776625466972699161907489573926290176142882392112922161683794768941521818355431050269592528668564075848005849429997911549078160725595265114648944021007614631078909384174655620722795790419096619236960118859423164419314426719702052005694407536350770398109370391507312647913611 4596 c1_cons_2_13_s4608).trans (by rfl))

theorem c1_cons_2_13_s5632 : consTwin 2 13 8192 4096 297451032133399501847248817215338247289551159626559455664302910133102053229655088195192431137407574390169395265311080797077991204274544404233615846072283678915493208441212965665353799757256873373822590540376634932975518914480288693615689509986536747798453854370110751566241770075081060955033783220024393287694765782015063869045650538513548745651229066213342854201974766681111045859662205283187454552427805701620011304614378119564874854509920342040775491725421807341288964437555602632428304681756428767300355660554340010248654067159596346304558937949162725435642714210429785583522342700092081938177434283539175478855683275288872901248453586370473179426989812812137901180970309803333085882655413996721608823754469051590718947157906146685330930518689523616402699548830030420096923194453704971866109821138688317956706053251669319568077342130819177190283586828048144669122775385905546075266146478901848075744297484141146146567313305913820534823058900796432902915393388017501626847436892719799351551442349107801434446004208515713531391737717608204008488671650763098448225977660380080112936703729268754624668049592334132540516452810898908190600712014614371651398701948303914585148687549322273487074165441225579730679140686081965765190524735735293606037595209962137504195409490825952020461827824126425769121043132607049786252161739767841633680469059803586322803288679681893606975749057479227354849919315905219367386407103204917808537942569679290237711581064832972856087632439867150900440617137408768027459370616675922323306982409711684198866787439894723421241805185760473194657465518343652245204969131533909882201717298852054552955248336714603817319701512020013879293258517557480615565212688468684362297325467369149568597434085596027129385474377776085993094684324727105622963371092233915088588928797739249688033947889543318861827756608246651707761860891400427570853000697252689785368805703063546467900818836345905621087416683921473461588676521493847782881067125675288486623331896099188041329556385394035585018631866955505318788044228674564433093543586520174624425106581518876121759153944016108496101809358099864849932159161850597827681196928080156942250428256551271037802384407753497009784596320407610250765041444970209145490586790173151537436054981557448376835174345853009833684322613859332644309811451925240090861598181678953621317272372832718100750575633696065166270562046117837675542162409217338642139528364814175957951813844820059067682567136737363947833089926400983067300191943882273070074990178650251486080463888149143388014873246777541219223966585586415109164362531578948298595683038038723404277793948813998233995542171915682130961825385715950256612162846891451666719638958547763059717850472234524916620523128917858373915756611970570265289498397779077371068501686741637073177354827994910456464722148675603152321826369034418698321891536876958952544272650622343731625396612719301341051562694233388685378184657962133239783815860750186800824411991049888069583947459547851096821328478646762477746739559280335760930960908682128949247573941880070551973622887306750511738510760647214207130361200533662907314118097345426330662197195878405701693708839909208678019626822378675385500142088856721652096186782556507592089765788303194908691945987055362266914588716779317456794219888705461149991153292077068405587985571600004034770207581832512199694415878751080411277569147875159316496430705155422013461903809186559113931922208029801161527422494499633431759562726076942854919674297427613915724219006173887509963584407665892500436695035160322400009872360268520690297991606607899730991927419747642687690027561845517428538194550219963585660748175276618490497233313322298914007464236209530587781644349218670546494001615660143878711584098439158345809683034442881734121424825367853658723084571377206772058086259481707708969468397777099882708271738760375342259244099842736023589445329906169239163941617593870470084497478275510592057370097026626294765221876692942383496932142779109589748498512225348872401469298752275688730852326089561133559822871751515582471817551521585979418110548608058398985831199932267961221217183452373377355644827775197108891482990494585992984940503517781965924335626648594939240541543044165483934137107366698422534591931360703660865116595001046279395852357463404938409895035159424654245082432591678033593405950800763624299509153040566223233988282357537007264710246212405408459089834707880526691638979002994481000306397284646885553298616132629760515318028290672364562147422015209141044771105225831982711198321142736853807780318007036277958059345109312025000563207066151881799454771146401823437756458160308318043886372511463952246322039279186024587745776232736467279513188290939309610912654521661137685114303709351255215702585120882156859733081905116166542580895951892804617095313526449414847964350072702081257097010869492121628981109652772574875202140969437581414966053622834601835745624633730358531202708324001258165810042285064192 5632 0 0 0 0 = (5632, 3363, 1090748135619415929462984244733782862448264161996232692431832786189721331849119295216264234525201987223957291796157025273109870820177184063610979765077554799078906298842192989538609825228048205159696851613591638196771886542609324560121290553901886301017900252535799917200010079600026535836800905297805880952350501630195475653911005312364560014847426035293551245843908619703418422758831554101262550808800369064049949189037447836154684829449437799302828193792509859011912966247537699525921388340989149271910440979231477418306166487272081232567946236227679441711814989038003050638340715662686137430620487760323385579682009508201073505764704163896001472157022053677897537768732373695047448762428966597204590283130813864609756862987743668603568457549600152361587120000506056391233927278087016113630354822640516619873764356823395570202431229924676108711453380606910663143686940987195233402824282719978367673947812158753905782054443568050118751885202837359388060917693503015703911113107262950696285064556368008343124433677463628715525641636916426282916623375239764190332120226100180708789119617709061780012184966168620385289612660793476751516312790798013744630628142674727151080964801680376534278617213731873837690367567129035510912082090363725275319208120460248629639377911935958748323634658073484533981019300390774109431348586474392912865195364691503786598377116047538290036619699234286046253937719251298127319463481117411414572733838197956083151734191858876819169367475832502922673433989549885921718295829153719207295303985248539661899924009495694709228765121178403305584378193615879359855698577556941447382307083357914211936498550672970983434597429904144365511346741587708010426189081614671433015156897340220037637725232004305090146112706103967152341179659168353868350430213047942080875196661520580166808942284888266027648801959489672096587785612358778010883980543724421521771940120909127993877085822789922286355586403394619212089591242363902196990894318114161585164066190533080125014359612006005526321742645418101979736818448430844937478793459770168819813574869123987680101920888561390299438451584638230171247076707805207786938980519350467132502801104656585278041857449731216959303155745779293515574356953855541376741630642865837337970969962681715019177724477034874362365948463042478124959015783925012263729082151469089339450433304792029950564664990018148687606654411695003009929883462901704576056108472123361076835485322051865295361256618312923546242810545795110068427, 5620) :=
  (congrArg (fun m => consTwin 2 13 8192 4096 297451032133399501847248817215338247289551159626559455664302910133102053229655088195192431137407574390169395265311080797077991204274544404233615846072283678915493208441212965665353799757256873373822590540376634932975518914480288693615689509986536747798453854370110751566241770075081060955033783220024393287694765782015063869045650538513548745651229066213342854201974766681111045859662205283187454552427805701620011304614378119564874854509920342040775491725421807341288964437555602632428304681756428767300355660554340010248654067159596346304558937949162725435642714210429785583522342700092081938177434283539175478855683275288872901248453586370473179426989812812137901180970309803333085882655413996721608823754469051590718947157906146685330930518689523616402699548830030420096923194453704971866109821138688317956706053251669319568077342130819177190283586828048144669122775385905546075266146478901848075744297484141146146567313305913820534823058900796432902915393388017501626847436892719799351551442349107801434446004208515713531391737717608204008488671650763098448225977660380080112936703729268754624668049592334132540516452810898908190600712014614371651398701948303914585148687549322273487074165441225579730679140686081965765190524735735293606037595209962137504195409490825952020461827824126425769121043132607049786252161739767841633680469059803586322803288679681893606975749057479227354849919315905219367386407103204917808537942569679290237711581064832972856087632439867150900440617137408768027459370616675922323306982409711684198866787439894723421241805185760473194657465518343652245204969131533909882201717298852054552955248336714603817319701512020013879293258517557480615565212688468684362297325467369149568597434085596027129385474377776085993094684324727105622963371092233915088588928797739249688033947889543318861827756608246651707761860891400427570853000697252689785368805703063546467900818836345905621087416683921473461588676521493847782881067125675288486623331896099188041329556385394035585018631866955505318788044228674564433093543586520174624425106581518876121759153944016108496101809358099864849932159161850597827681196928080156942250428256551271037802384407753497009784596320407610250765041444970209145490586790173151537436054981557448376835174345853009833684322613859332644309811451925240090861598181678953621317272372832718100750575633696065166270562046117837675542162409217338642139528364814175957951813844820059067682567136737363947833089926400983067300191943882273070074990178650251486080463888149143388014873246777541219223966585586415109164362531578948298595683038038723404277793948813998233995542171915682130961825385715950256612162846891451666719638958547763059717850472234524916620523128917858373915756611970570265289498397779077371068501686741637073177354827994910456464722148675603152321826369034418698321891536876958952544272650622343731625396612719301341051562694233388685378184657962133239783815860750186800824411991049888069583947459547851096821328478646762477746739559280335760930960908682128949247573941880070551973622887306750511738510760647214207130361200533662907314118097345426330662197195878405701693708839909208678019626822378675385500142088856721652096186782556507592089765788303194908691945987055362266914588716779317456794219888705461149991153292077068405587985571600004034770207581832512199694415878751080411277569147875159316496430705155422013461903809186559113931922208029801161527422494499633431759562726076942854919674297427613915724219006173887509963584407665892500436695035160322400009872360268520690297991606607899730991927419747642687690027561845517428538194550219963585660748175276618490497233313322298914007464236209530587781644349218670546494001615660143878711584098439158345809683034442881734121424825367853658723084571377206772058086259481707708969468397777099882708271738760375342259244099842736023589445329906169239163941617593870470084497478275510592057370097026626294765221876692942383496932142779109589748498512225348872401469298752275688730852326089561133559822871751515582471817551521585979418110548608058398985831199932267961221217183452373377355644827775197108891482990494585992984940503517781965924335626648594939240541543044165483934137107366698422534591931360703660865116595001046279395852357463404938409895035159424654245082432591678033593405950800763624299509153040566223233988282357537007264710246212405408459089834707880526691638979002994481000306397284646885553298616132629760515318028290672364562147422015209141044771105225831982711198321142736853807780318007036277958059345109312025000563207066151881799454771146401823437756458160308318043886372511463952246322039279186024587745776232736467279513188290939309610912654521661137685114303709351255215702585120882156859733081905116166542580895951892804617095313526449414847964350072702081257097010869492121628981109652772574875202140969437581414966053622834601835745624633730358531202708324001258165810042285064192 m 0 0 0 0)
      (by norm_num : (5632 : Nat) = 512 + 5120)).trans
    ((consTwin_chunk 2 13 8192 4096 297451032133399501847248817215338247289551159626559455664302910133102053229655088195192431137407574390169395265311080797077991204274544404233615846072283678915493208441212965665353799757256873373822590540376634932975518914480288693615689509986536747798453854370110751566241770075081060955033783220024393287694765782015063869045650538513548745651229066213342854201974766681111045859662205283187454552427805701620011304614378119564874854509920342040775491725421807341288964437555602632428304681756428767300355660554340010248654067159596346304558937949162725435642714210429785583522342700092081938177434283539175478855683275288872901248453586370473179426989812812137901180970309803333085882655413996721608823754469051590718947157906146685330930518689523616402699548830030420096923194453704971866109821138688317956706053251669319568077342130819177190283586828048144669122775385905546075266146478901848075744297484141146146567313305913820534823058900796432902915393388017501626847436892719799351551442349107801434446004208515713531391737717608204008488671650763098448225977660380080112936703729268754624668049592334132540516452810898908190600712014614371651398701948303914585148687549322273487074165441225579730679140686081965765190524735735293606037595209962137504195409490825952020461827824126425769121043132607049786252161739767841633680469059803586322803288679681893606975749057479227354849919315905219367386407103204917808537942569679290237711581064832972856087632439867150900440617137408768027459370616675922323306982409711684198866787439894723421241805185760473194657465518343652245204969131533909882201717298852054552955248336714603817319701512020013879293258517557480615565212688468684362297325467369149568597434085596027129385474377776085993094684324727105622963371092233915088588928797739249688033947889543318861827756608246651707761860891400427570853000697252689785368805703063546467900818836345905621087416683921473461588676521493847782881067125675288486623331896099188041329556385394035585018631866955505318788044228674564433093543586520174624425106581518876121759153944016108496101809358099864849932159161850597827681196928080156942250428256551271037802384407753497009784596320407610250765041444970209145490586790173151537436054981557448376835174345853009833684322613859332644309811451925240090861598181678953621317272372832718100750575633696065166270562046117837675542162409217338642139528364814175957951813844820059067682567136737363947833089926400983067300191943882273070074990178650251486080463888149143388014873246777541219223966585586415109164362531578948298595683038038723404277793948813998233995542171915682130961825385715950256612162846891451666719638958547763059717850472234524916620523128917858373915756611970570265289498397779077371068501686741637073177354827994910456464722148675603152321826369034418698321891536876958952544272650622343731625396612719301341051562694233388685378184657962133239783815860750186800824411991049888069583947459547851096821328478646762477746739559280335760930960908682128949247573941880070551973622887306750511738510760647214207130361200533662907314118097345426330662197195878405701693708839909208678019626822378675385500142088856721652096186782556507592089765788303194908691945987055362266914588716779317456794219888705461149991153292077068405587985571600004034770207581832512199694415878751080411277569147875159316496430705155422013461903809186559113931922208029801161527422494499633431759562726076942854919674297427613915724219006173887509963584407665892500436695035160322400009872360268520690297991606607899730991927419747642687690027561845517428538194550219963585660748175276618490497233313322298914007464236209530587781644349218670546494001615660143878711584098439158345809683034442881734121424825367853658723084571377206772058086259481707708969468397777099882708271738760375342259244099842736023589445329906169239163941617593870470084497478275510592057370097026626294765221876692942383496932142779109589748498512225348872401469298752275688730852326089561133559822871751515582471817551521585979418110548608058398985831199932267961221217183452373377355644827775197108891482990494585992984940503517781965924335626648594939240541543044165483934137107366698422534591931360703660865116595001046279395852357463404938409895035159424654245082432591678033593405950800763624299509153040566223233988282357537007264710246212405408459089834707880526691638979002994481000306397284646885553298616132629760515318028290672364562147422015209141044771105225831982711198321142736853807780318007036277958059345109312025000563207066151881799454771146401823437756458160308318043886372511463952246322039279186024587745776232736467279513188290939309610912654521661137685114303709351255215702585120882156859733081905116166542580895951892804617095313526449414847964350072702081257097010869492121628981109652772574875202140969437581414966053622834601835745624633730358531202708324001258165810042285064192 512 5120 0 0 0 0 5120 5000 1090748135619415929462984244733782862448264161996232692431832786189721331849119295216264234525201987223957291796157025273109870820177184063610979765077554799078906298842192989538609825228048205159696851613591638196771886542609324560121290553901886301017900252535799917200010079600026535836241133005632366922389236520943431344891383890079012626210250818078064196993996363538808224257755471475707827156902774364013053623142395452045514782628550212501709543123249319018914029905496147041768741165974104498454902575917347012044448348041090128073572748142957111559748321850058754175061756085345112154845233548319532595744494190494945242931223217114160590501537535378574408380234536737590947240323722899915736042310121537215120194910162472239834203498737056340197272732283148802717453771349305107614334307818224863615625762530907118147656831643507085633821023995729552422737007338943014902814688598249360282207285912248604079767693858465730799757442285022841890868972574962721443211872743741163825501270634411683351817663530695715501561283207312663736285829825079239429507017567576028930476674069280886840200311627780091367163341731457073765201004397366471260953918302613974462639828948909013999455429485466260545320265336634320862188040569751856502639697921172338527491779461442325585585573969794960912009252212478777068978142128886269341529345217384735544193102154133500968748387092267871686023598470140429090982827429369916914345848713400231955228235753139170706582872643979525225449583764768811620298877971071398894378788359061907300221209796290333322979143152748464813108130445114931427456784502016947957152762598338603385470017392059213241411578042735730779415828014463149737011964293477902474740276337220332363169830147429824039133286954964471807671811203219659305010230759322362135319407611866903029442827554568782960082893605327855370397173993920380619816491928125730004880233173087474006336170568573193460111458058288385726867000608741642741128032684191196457866296423987296180014472844945842120146049167995892633585724207063877228719881835674727892453609992667635917397787206769267689082347218869705259867293263572904697983617979112897829627435747309501406584216153561556360677674596682690270054801540821074673339159698518217931799509649475066252435814490674199034586730238840903793001530287188280001227404597027301120166106663280106673011055857853286412141943881241279129974385959029139466407574000186763998659800254104700343782792835978549456042241572686839947 5108 c1_cons_2_13_s5120).trans (by rfl))

theorem c1_cons_2_13_s6144 : consTwin 2 13 8192 4096 297451032133399501847248817215338247289551159626559455664302910133102053229655088195192431137407574390169395265311080797077991204274544404233615846072283678915493208441212965665353799757256873373822590540376634932975518914480288693615689509986536747798453854370110751566241770075081060955033783220024393287694765782015063869045650538513548745651229066213342854201974766681111045859662205283187454552427805701620011304614378119564874854509920342040775491725421807341288964437555602632428304681756428767300355660554340010248654067159596346304558937949162725435642714210429785583522342700092081938177434283539175478855683275288872901248453586370473179426989812812137901180970309803333085882655413996721608823754469051590718947157906146685330930518689523616402699548830030420096923194453704971866109821138688317956706053251669319568077342130819177190283586828048144669122775385905546075266146478901848075744297484141146146567313305913820534823058900796432902915393388017501626847436892719799351551442349107801434446004208515713531391737717608204008488671650763098448225977660380080112936703729268754624668049592334132540516452810898908190600712014614371651398701948303914585148687549322273487074165441225579730679140686081965765190524735735293606037595209962137504195409490825952020461827824126425769121043132607049786252161739767841633680469059803586322803288679681893606975749057479227354849919315905219367386407103204917808537942569679290237711581064832972856087632439867150900440617137408768027459370616675922323306982409711684198866787439894723421241805185760473194657465518343652245204969131533909882201717298852054552955248336714603817319701512020013879293258517557480615565212688468684362297325467369149568597434085596027129385474377776085993094684324727105622963371092233915088588928797739249688033947889543318861827756608246651707761860891400427570853000697252689785368805703063546467900818836345905621087416683921473461588676521493847782881067125675288486623331896099188041329556385394035585018631866955505318788044228674564433093543586520174624425106581518876121759153944016108496101809358099864849932159161850597827681196928080156942250428256551271037802384407753497009784596320407610250765041444970209145490586790173151537436054981557448376835174345853009833684322613859332644309811451925240090861598181678953621317272372832718100750575633696065166270562046117837675542162409217338642139528364814175957951813844820059067682567136737363947833089926400983067300191943882273070074990178650251486080463888149143388014873246777541219223966585586415109164362531578948298595683038038723404277793948813998233995542171915682130961825385715950256612162846891451666719638958547763059717850472234524916620523128917858373915756611970570265289498397779077371068501686741637073177354827994910456464722148675603152321826369034418698321891536876958952544272650622343731625396612719301341051562694233388685378184657962133239783815860750186800824411991049888069583947459547851096821328478646762477746739559280335760930960908682128949247573941880070551973622887306750511738510760647214207130361200533662907314118097345426330662197195878405701693708839909208678019626822378675385500142088856721652096186782556507592089765788303194908691945987055362266914588716779317456794219888705461149991153292077068405587985571600004034770207581832512199694415878751080411277569147875159316496430705155422013461903809186559113931922208029801161527422494499633431759562726076942854919674297427613915724219006173887509963584407665892500436695035160322400009872360268520690297991606607899730991927419747642687690027561845517428538194550219963585660748175276618490497233313322298914007464236209530587781644349218670546494001615660143878711584098439158345809683034442881734121424825367853658723084571377206772058086259481707708969468397777099882708271738760375342259244099842736023589445329906169239163941617593870470084497478275510592057370097026626294765221876692942383496932142779109589748498512225348872401469298752275688730852326089561133559822871751515582471817551521585979418110548608058398985831199932267961221217183452373377355644827775197108891482990494585992984940503517781965924335626648594939240541543044165483934137107366698422534591931360703660865116595001046279395852357463404938409895035159424654245082432591678033593405950800763624299509153040566223233988282357537007264710246212405408459089834707880526691638979002994481000306397284646885553298616132629760515318028290672364562147422015209141044771105225831982711198321142736853807780318007036277958059345109312025000563207066151881799454771146401823437756458160308318043886372511463952246322039279186024587745776232736467279513188290939309610912654521661137685114303709351255215702585120882156859733081905116166542580895951892804617095313526449414847964350072702081257097010869492121628981109652772574875202140969437581414966053622834601835745624633730358531202708324001258165810042285064192 6144 0 0 0 0 = (6144, 4714, 1090748135619415929462984244733782862448264161996232692431832786189721331849119295216264234525201987223957291796157025273109870820177184063610979765077554799078906298842192989538609825228048205159696851613591638196771886542609324560121290553901886301017900252535799917200010079600026535836800905297805880952350501630195475653911005312364560014847426035293551245843928918752768696279344088055617515694349945406677821831123289627955786237980935865712186658525290122176089099011679129665875117990163283651940654642135155600076905192812573092765100010550994519511076565053705610773918106305504454062373219938816410246437602192911151822080127590711309385676084279979168253770100899559396067504940618407723650983715888416232262805132230593814278399114987082531412671613354005997729415008991014983903882287439692835997058105274243734217504642124655838716547717988361507417096459654220108942996601666759614077884450224354531387453129109146522733369440138658841290600067386063784169243569357736308076855216759421220562832068090210247529384315011201884937786741146245947407739538661196761695687972201410499968592232198166634168838547244841974886115001127839810915821534871458812065667760447972192557028905465278279721328864055120690341362300168206264397769375610614470008957629835037687938864851033221005118665214721056454600645982439363750144745403034312884006439164578338688213554652953004185186924315737701452033397792510211271030521473507645820388145630001827014034562590244183282879750214689590184633882212184238375914772841893751149518047919558365191359600962762302572271268185833432020415679842314637477491646497837897051774997004206856987014171091482308819792172474822881530887485953885878885429634936257987238235812145641481476575055681520973371467198742362165500928056883992376025916375954257777631429310384640408283180908345632975205175058119519993597347094842392662312638444152361714638739834272123168733584987747356788051842985565153531867728267703871252042073367651433491183670427232292278189603918804856565682120296094602477221075077200265375635789690679045398559326767696135049047589968406099734775484973652368719836237260801962906339534173335927501166598161158774100277164905416753983589314258660654132711965923002826381486969868514465849659855467897512425337326799766728777027316377314701844130754607416558680436009145367466743822886432753474502655272148277874156067362976812964258747622852524078470000704289717724722958822131708050248909939986419719606427851, 6132) :=
  (congrArg (fun m => consTwin 2 13 8192 4096 297451032133399501847248817215338247289551159626559455664302910133102053229655088195192431137407574390169395265311080797077991204274544404233615846072283678915493208441212965665353799757256873373822590540376634932975518914480288693615689509986536747798453854370110751566241770075081060955033783220024393287694765782015063869045650538513548745651229066213342854201974766681111045859662205283187454552427805701620011304614378119564874854509920342040775491725421807341288964437555602632428304681756428767300355660554340010248654067159596346304558937949162725435642714210429785583522342700092081938177434283539175478855683275288872901248453586370473179426989812812137901180970309803333085882655413996721608823754469051590718947157906146685330930518689523616402699548830030420096923194453704971866109821138688317956706053251669319568077342130819177190283586828048144669122775385905546075266146478901848075744297484141146146567313305913820534823058900796432902915393388017501626847436892719799351551442349107801434446004208515713531391737717608204008488671650763098448225977660380080112936703729268754624668049592334132540516452810898908190600712014614371651398701948303914585148687549322273487074165441225579730679140686081965765190524735735293606037595209962137504195409490825952020461827824126425769121043132607049786252161739767841633680469059803586322803288679681893606975749057479227354849919315905219367386407103204917808537942569679290237711581064832972856087632439867150900440617137408768027459370616675922323306982409711684198866787439894723421241805185760473194657465518343652245204969131533909882201717298852054552955248336714603817319701512020013879293258517557480615565212688468684362297325467369149568597434085596027129385474377776085993094684324727105622963371092233915088588928797739249688033947889543318861827756608246651707761860891400427570853000697252689785368805703063546467900818836345905621087416683921473461588676521493847782881067125675288486623331896099188041329556385394035585018631866955505318788044228674564433093543586520174624425106581518876121759153944016108496101809358099864849932159161850597827681196928080156942250428256551271037802384407753497009784596320407610250765041444970209145490586790173151537436054981557448376835174345853009833684322613859332644309811451925240090861598181678953621317272372832718100750575633696065166270562046117837675542162409217338642139528364814175957951813844820059067682567136737363947833089926400983067300191943882273070074990178650251486080463888149143388014873246777541219223966585586415109164362531578948298595683038038723404277793948813998233995542171915682130961825385715950256612162846891451666719638958547763059717850472234524916620523128917858373915756611970570265289498397779077371068501686741637073177354827994910456464722148675603152321826369034418698321891536876958952544272650622343731625396612719301341051562694233388685378184657962133239783815860750186800824411991049888069583947459547851096821328478646762477746739559280335760930960908682128949247573941880070551973622887306750511738510760647214207130361200533662907314118097345426330662197195878405701693708839909208678019626822378675385500142088856721652096186782556507592089765788303194908691945987055362266914588716779317456794219888705461149991153292077068405587985571600004034770207581832512199694415878751080411277569147875159316496430705155422013461903809186559113931922208029801161527422494499633431759562726076942854919674297427613915724219006173887509963584407665892500436695035160322400009872360268520690297991606607899730991927419747642687690027561845517428538194550219963585660748175276618490497233313322298914007464236209530587781644349218670546494001615660143878711584098439158345809683034442881734121424825367853658723084571377206772058086259481707708969468397777099882708271738760375342259244099842736023589445329906169239163941617593870470084497478275510592057370097026626294765221876692942383496932142779109589748498512225348872401469298752275688730852326089561133559822871751515582471817551521585979418110548608058398985831199932267961221217183452373377355644827775197108891482990494585992984940503517781965924335626648594939240541543044165483934137107366698422534591931360703660865116595001046279395852357463404938409895035159424654245082432591678033593405950800763624299509153040566223233988282357537007264710246212405408459089834707880526691638979002994481000306397284646885553298616132629760515318028290672364562147422015209141044771105225831982711198321142736853807780318007036277958059345109312025000563207066151881799454771146401823437756458160308318043886372511463952246322039279186024587745776232736467279513188290939309610912654521661137685114303709351255215702585120882156859733081905116166542580895951892804617095313526449414847964350072702081257097010869492121628981109652772574875202140969437581414966053622834601835745624633730358531202708324001258165810042285064192 m 0 0 0 0)
      (by norm_num : (6144 : Nat) = 512 + 5632)).trans
    ((consTwin_chunk 2 13 8192 4096 297451032133399501847248817215338247289551159626559455664302910133102053229655088195192431137407574390169395265311080797077991204274544404233615846072283678915493208441212965665353799757256873373822590540376634932975518914480288693615689509986536747798453854370110751566241770075081060955033783220024393287694765782015063869045650538513548745651229066213342854201974766681111045859662205283187454552427805701620011304614378119564874854509920342040775491725421807341288964437555602632428304681756428767300355660554340010248654067159596346304558937949162725435642714210429785583522342700092081938177434283539175478855683275288872901248453586370473179426989812812137901180970309803333085882655413996721608823754469051590718947157906146685330930518689523616402699548830030420096923194453704971866109821138688317956706053251669319568077342130819177190283586828048144669122775385905546075266146478901848075744297484141146146567313305913820534823058900796432902915393388017501626847436892719799351551442349107801434446004208515713531391737717608204008488671650763098448225977660380080112936703729268754624668049592334132540516452810898908190600712014614371651398701948303914585148687549322273487074165441225579730679140686081965765190524735735293606037595209962137504195409490825952020461827824126425769121043132607049786252161739767841633680469059803586322803288679681893606975749057479227354849919315905219367386407103204917808537942569679290237711581064832972856087632439867150900440617137408768027459370616675922323306982409711684198866787439894723421241805185760473194657465518343652245204969131533909882201717298852054552955248336714603817319701512020013879293258517557480615565212688468684362297325467369149568597434085596027129385474377776085993094684324727105622963371092233915088588928797739249688033947889543318861827756608246651707761860891400427570853000697252689785368805703063546467900818836345905621087416683921473461588676521493847782881067125675288486623331896099188041329556385394035585018631866955505318788044228674564433093543586520174624425106581518876121759153944016108496101809358099864849932159161850597827681196928080156942250428256551271037802384407753497009784596320407610250765041444970209145490586790173151537436054981557448376835174345853009833684322613859332644309811451925240090861598181678953621317272372832718100750575633696065166270562046117837675542162409217338642139528364814175957951813844820059067682567136737363947833089926400983067300191943882273070074990178650251486080463888149143388014873246777541219223966585586415109164362531578948298595683038038723404277793948813998233995542171915682130961825385715950256612162846891451666719638958547763059717850472234524916620523128917858373915756611970570265289498397779077371068501686741637073177354827994910456464722148675603152321826369034418698321891536876958952544272650622343731625396612719301341051562694233388685378184657962133239783815860750186800824411991049888069583947459547851096821328478646762477746739559280335760930960908682128949247573941880070551973622887306750511738510760647214207130361200533662907314118097345426330662197195878405701693708839909208678019626822378675385500142088856721652096186782556507592089765788303194908691945987055362266914588716779317456794219888705461149991153292077068405587985571600004034770207581832512199694415878751080411277569147875159316496430705155422013461903809186559113931922208029801161527422494499633431759562726076942854919674297427613915724219006173887509963584407665892500436695035160322400009872360268520690297991606607899730991927419747642687690027561845517428538194550219963585660748175276618490497233313322298914007464236209530587781644349218670546494001615660143878711584098439158345809683034442881734121424825367853658723084571377206772058086259481707708969468397777099882708271738760375342259244099842736023589445329906169239163941617593870470084497478275510592057370097026626294765221876692942383496932142779109589748498512225348872401469298752275688730852326089561133559822871751515582471817551521585979418110548608058398985831199932267961221217183452373377355644827775197108891482990494585992984940503517781965924335626648594939240541543044165483934137107366698422534591931360703660865116595001046279395852357463404938409895035159424654245082432591678033593405950800763624299509153040566223233988282357537007264710246212405408459089834707880526691638979002994481000306397284646885553298616132629760515318028290672364562147422015209141044771105225831982711198321142736853807780318007036277958059345109312025000563207066151881799454771146401823437756458160308318043886372511463952246322039279186024587745776232736467279513188290939309610912654521661137685114303709351255215702585120882156859733081905116166542580895951892804617095313526449414847964350072702081257097010869492121628981109652772574875202140969437581414966053622834601835745624633730358531202708324001258165810042285064192 512 5632 0 0 0 0 5632 3363 1090748135619415929462984244733782862448264161996232692431832786189721331849119295216264234525201987223957291796157025273109870820177184063610979765077554799078906298842192989538609825228048205159696851613591638196771886542609324560121290553901886301017900252535799917200010079600026535836800905297805880952350501630195475653911005312364560014847426035293551245843908619703418422758831554101262550808800369064049949189037447836154684829449437799302828193792509859011912966247537699525921388340989149271910440979231477418306166487272081232567946236227679441711814989038003050638340715662686137430620487760323385579682009508201073505764704163896001472157022053677897537768732373695047448762428966597204590283130813864609756862987743668603568457549600152361587120000506056391233927278087016113630354822640516619873764356823395570202431229924676108711453380606910663143686940987195233402824282719978367673947812158753905782054443568050118751885202837359388060917693503015703911113107262950696285064556368008343124433677463628715525641636916426282916623375239764190332120226100180708789119617709061780012184966168620385289612660793476751516312790798013744630628142674727151080964801680376534278617213731873837690367567129035510912082090363725275319208120460248629639377911935958748323634658073484533981019300390774109431348586474392912865195364691503786598377116047538290036619699234286046253937719251298127319463481117411414572733838197956083151734191858876819169367475832502922673433989549885921718295829153719207295303985248539661899924009495694709228765121178403305584378193615879359855698577556941447382307083357914211936498550672970983434597429904144365511346741587708010426189081614671433015156897340220037637725232004305090146112706103967152341179659168353868350430213047942080875196661520580166808942284888266027648801959489672096587785612358778010883980543724421521771940120909127993877085822789922286355586403394619212089591242363902196990894318114161585164066190533080125014359612006005526321742645418101979736818448430844937478793459770168819813574869123987680101920888561390299438451584638230171247076707805207786938980519350467132502801104656585278041857449731216959303155745779293515574356953855541376741630642865837337970969962681715019177724477034874362365948463042478124959015783925012263729082151469089339450433304792029950564664990018148687606654411695003009929883462901704576056108472123361076835485322051865295361256618312923546242810545795110068427 5620 c1_cons_2_13_s5632).trans (by rfl))

theorem c1_cons_2_13_s6656 : consTwin 2 13 8192 4096 297451032133399501847248817215338247289551159626559455664302910133102053229655088195192431137407574390169395265311080797077991204274544404233615846072283678915493208441212965665353799757256873373822590540376634932975518914480288693615689509986536747798453854370110751566241770075081060955033783220024393287694765782015063869045650538513548745651229066213342854201974766681111045859662205283187454552427805701620011304614378119564874854509920342040775491725421807341288964437555602632428304681756428767300355660554340010248654067159596346304558937949162725435642714210429785583522342700092081938177434283539175478855683275288872901248453586370473179426989812812137901180970309803333085882655413996721608823754469051590718947157906146685330930518689523616402699548830030420096923194453704971866109821138688317956706053251669319568077342130819177190283586828048144669122775385905546075266146478901848075744297484141146146567313305913820534823058900796432902915393388017501626847436892719799351551442349107801434446004208515713531391737717608204008488671650763098448225977660380080112936703729268754624668049592334132540516452810898908190600712014614371651398701948303914585148687549322273487074165441225579730679140686081965765190524735735293606037595209962137504195409490825952020461827824126425769121043132607049786252161739767841633680469059803586322803288679681893606975749057479227354849919315905219367386407103204917808537942569679290237711581064832972856087632439867150900440617137408768027459370616675922323306982409711684198866787439894723421241805185760473194657465518343652245204969131533909882201717298852054552955248336714603817319701512020013879293258517557480615565212688468684362297325467369149568597434085596027129385474377776085993094684324727105622963371092233915088588928797739249688033947889543318861827756608246651707761860891400427570853000697252689785368805703063546467900818836345905621087416683921473461588676521493847782881067125675288486623331896099188041329556385394035585018631866955505318788044228674564433093543586520174624425106581518876121759153944016108496101809358099864849932159161850597827681196928080156942250428256551271037802384407753497009784596320407610250765041444970209145490586790173151537436054981557448376835174345853009833684322613859332644309811451925240090861598181678953621317272372832718100750575633696065166270562046117837675542162409217338642139528364814175957951813844820059067682567136737363947833089926400983067300191943882273070074990178650251486080463888149143388014873246777541219223966585586415109164362531578948298595683038038723404277793948813998233995542171915682130961825385715950256612162846891451666719638958547763059717850472234524916620523128917858373915756611970570265289498397779077371068501686741637073177354827994910456464722148675603152321826369034418698321891536876958952544272650622343731625396612719301341051562694233388685378184657962133239783815860750186800824411991049888069583947459547851096821328478646762477746739559280335760930960908682128949247573941880070551973622887306750511738510760647214207130361200533662907314118097345426330662197195878405701693708839909208678019626822378675385500142088856721652096186782556507592089765788303194908691945987055362266914588716779317456794219888705461149991153292077068405587985571600004034770207581832512199694415878751080411277569147875159316496430705155422013461903809186559113931922208029801161527422494499633431759562726076942854919674297427613915724219006173887509963584407665892500436695035160322400009872360268520690297991606607899730991927419747642687690027561845517428538194550219963585660748175276618490497233313322298914007464236209530587781644349218670546494001615660143878711584098439158345809683034442881734121424825367853658723084571377206772058086259481707708969468397777099882708271738760375342259244099842736023589445329906169239163941617593870470084497478275510592057370097026626294765221876692942383496932142779109589748498512225348872401469298752275688730852326089561133559822871751515582471817551521585979418110548608058398985831199932267961221217183452373377355644827775197108891482990494585992984940503517781965924335626648594939240541543044165483934137107366698422534591931360703660865116595001046279395852357463404938409895035159424654245082432591678033593405950800763624299509153040566223233988282357537007264710246212405408459089834707880526691638979002994481000306397284646885553298616132629760515318028290672364562147422015209141044771105225831982711198321142736853807780318007036277958059345109312025000563207066151881799454771146401823437756458160308318043886372511463952246322039279186024587745776232736467279513188290939309610912654521661137685114303709351255215702585120882156859733081905116166542580895951892804617095313526449414847964350072702081257097010869492121628981109652772574875202140969437581414966053622834601835745624633730358531202708324001258165810042285064192 6656 0 0 0 0 = (6656, 3333, 1090748135619415929462984244733782862448264161996232692431832786189721331849119295216264234525201987223957291796157025273109870820177184063610979765077554799078906298842192989538609825228048205159696851613591638196771886542609324560121290553901886301017900252535799917200010079600026535836800905297805880952350501630195475653911005312364560014847426035293551245843928918752768696279344088055617515694349945406677825140814900616105920256438504578013326493565835458495774957868783454263610722521077118373031668570730242019657065163284764431607756459382208490419125271583627204734031106828993417714739054849777420526530110930037617961289573922584341131007075078415245602931135232172018113168645493125448861143006001127937579509028405989562310932916032653483045444861560329733062926249651922257995101525916286765161138377655632045881532273121891597661812714968969795006763960647780018080815077823465930972307007586747432535032567457650876191608651163953721870958449416650227657767521991917372593619058321005027364729127423561076264928322183760653954003025829798401895320217092232489876207434402556781881210644274732074244566137694212485979988726738806549560159211207179558607274880962724799524813072853200025546324003003475620401198569899779580939411524489047160848881995236315153997091899566487491672402902805409772573735843135403367458223234570818187100249727337058719583231738624844264468012874584132444557532591653274287453638303141510166058404530191232003424989146232585715586493354029375992461703089017930134193674258173925596081093610531983559348649487429738804689767698779983993423142134289790883306140676026804662047088500769157058393933725402053586206140751236180610987243198853815004265320208722985164979776913252165004748261106914841852686923439673964150483044551695515840323026987401838142940681793646403672153616013509393773858028164814941720111099280949032204832942557798506866277797618009709033888443963635671502612292459958875970854371759251443361141110355401408875218865251874022595044485129534946333591803403325466863110893588357406692578734352229967839198994558066672919233310820995148659905811931618071082967299871488206887334953411037117103279080853670995424309905046972067748180232594016939236322422313712492391786497898179932642980510880034296981678719969143335514885165808643574646608293623138034122149306655925869428959247743036578728753647955866875687809731660720123591145308779263487305411962207546328380384716479887086686348184764052186128587, 6644) :=
  (congrArg (fun m => consTwin 2 13 8192 4096 297451032133399501847248817215338247289551159626559455664302910133102053229655088195192431137407574390169395265311080797077991204274544404233615846072283678915493208441212965665353799757256873373822590540376634932975518914480288693615689509986536747798453854370110751566241770075081060955033783220024393287694765782015063869045650538513548745651229066213342854201974766681111045859662205283187454552427805701620011304614378119564874854509920342040775491725421807341288964437555602632428304681756428767300355660554340010248654067159596346304558937949162725435642714210429785583522342700092081938177434283539175478855683275288872901248453586370473179426989812812137901180970309803333085882655413996721608823754469051590718947157906146685330930518689523616402699548830030420096923194453704971866109821138688317956706053251669319568077342130819177190283586828048144669122775385905546075266146478901848075744297484141146146567313305913820534823058900796432902915393388017501626847436892719799351551442349107801434446004208515713531391737717608204008488671650763098448225977660380080112936703729268754624668049592334132540516452810898908190600712014614371651398701948303914585148687549322273487074165441225579730679140686081965765190524735735293606037595209962137504195409490825952020461827824126425769121043132607049786252161739767841633680469059803586322803288679681893606975749057479227354849919315905219367386407103204917808537942569679290237711581064832972856087632439867150900440617137408768027459370616675922323306982409711684198866787439894723421241805185760473194657465518343652245204969131533909882201717298852054552955248336714603817319701512020013879293258517557480615565212688468684362297325467369149568597434085596027129385474377776085993094684324727105622963371092233915088588928797739249688033947889543318861827756608246651707761860891400427570853000697252689785368805703063546467900818836345905621087416683921473461588676521493847782881067125675288486623331896099188041329556385394035585018631866955505318788044228674564433093543586520174624425106581518876121759153944016108496101809358099864849932159161850597827681196928080156942250428256551271037802384407753497009784596320407610250765041444970209145490586790173151537436054981557448376835174345853009833684322613859332644309811451925240090861598181678953621317272372832718100750575633696065166270562046117837675542162409217338642139528364814175957951813844820059067682567136737363947833089926400983067300191943882273070074990178650251486080463888149143388014873246777541219223966585586415109164362531578948298595683038038723404277793948813998233995542171915682130961825385715950256612162846891451666719638958547763059717850472234524916620523128917858373915756611970570265289498397779077371068501686741637073177354827994910456464722148675603152321826369034418698321891536876958952544272650622343731625396612719301341051562694233388685378184657962133239783815860750186800824411991049888069583947459547851096821328478646762477746739559280335760930960908682128949247573941880070551973622887306750511738510760647214207130361200533662907314118097345426330662197195878405701693708839909208678019626822378675385500142088856721652096186782556507592089765788303194908691945987055362266914588716779317456794219888705461149991153292077068405587985571600004034770207581832512199694415878751080411277569147875159316496430705155422013461903809186559113931922208029801161527422494499633431759562726076942854919674297427613915724219006173887509963584407665892500436695035160322400009872360268520690297991606607899730991927419747642687690027561845517428538194550219963585660748175276618490497233313322298914007464236209530587781644349218670546494001615660143878711584098439158345809683034442881734121424825367853658723084571377206772058086259481707708969468397777099882708271738760375342259244099842736023589445329906169239163941617593870470084497478275510592057370097026626294765221876692942383496932142779109589748498512225348872401469298752275688730852326089561133559822871751515582471817551521585979418110548608058398985831199932267961221217183452373377355644827775197108891482990494585992984940503517781965924335626648594939240541543044165483934137107366698422534591931360703660865116595001046279395852357463404938409895035159424654245082432591678033593405950800763624299509153040566223233988282357537007264710246212405408459089834707880526691638979002994481000306397284646885553298616132629760515318028290672364562147422015209141044771105225831982711198321142736853807780318007036277958059345109312025000563207066151881799454771146401823437756458160308318043886372511463952246322039279186024587745776232736467279513188290939309610912654521661137685114303709351255215702585120882156859733081905116166542580895951892804617095313526449414847964350072702081257097010869492121628981109652772574875202140969437581414966053622834601835745624633730358531202708324001258165810042285064192 m 0 0 0 0)
      (by norm_num : (6656 : Nat) = 512 + 6144)).trans
    ((consTwin_chunk 2 13 8192 4096 297451032133399501847248817215338247289551159626559455664302910133102053229655088195192431137407574390169395265311080797077991204274544404233615846072283678915493208441212965665353799757256873373822590540376634932975518914480288693615689509986536747798453854370110751566241770075081060955033783220024393287694765782015063869045650538513548745651229066213342854201974766681111045859662205283187454552427805701620011304614378119564874854509920342040775491725421807341288964437555602632428304681756428767300355660554340010248654067159596346304558937949162725435642714210429785583522342700092081938177434283539175478855683275288872901248453586370473179426989812812137901180970309803333085882655413996721608823754469051590718947157906146685330930518689523616402699548830030420096923194453704971866109821138688317956706053251669319568077342130819177190283586828048144669122775385905546075266146478901848075744297484141146146567313305913820534823058900796432902915393388017501626847436892719799351551442349107801434446004208515713531391737717608204008488671650763098448225977660380080112936703729268754624668049592334132540516452810898908190600712014614371651398701948303914585148687549322273487074165441225579730679140686081965765190524735735293606037595209962137504195409490825952020461827824126425769121043132607049786252161739767841633680469059803586322803288679681893606975749057479227354849919315905219367386407103204917808537942569679290237711581064832972856087632439867150900440617137408768027459370616675922323306982409711684198866787439894723421241805185760473194657465518343652245204969131533909882201717298852054552955248336714603817319701512020013879293258517557480615565212688468684362297325467369149568597434085596027129385474377776085993094684324727105622963371092233915088588928797739249688033947889543318861827756608246651707761860891400427570853000697252689785368805703063546467900818836345905621087416683921473461588676521493847782881067125675288486623331896099188041329556385394035585018631866955505318788044228674564433093543586520174624425106581518876121759153944016108496101809358099864849932159161850597827681196928080156942250428256551271037802384407753497009784596320407610250765041444970209145490586790173151537436054981557448376835174345853009833684322613859332644309811451925240090861598181678953621317272372832718100750575633696065166270562046117837675542162409217338642139528364814175957951813844820059067682567136737363947833089926400983067300191943882273070074990178650251486080463888149143388014873246777541219223966585586415109164362531578948298595683038038723404277793948813998233995542171915682130961825385715950256612162846891451666719638958547763059717850472234524916620523128917858373915756611970570265289498397779077371068501686741637073177354827994910456464722148675603152321826369034418698321891536876958952544272650622343731625396612719301341051562694233388685378184657962133239783815860750186800824411991049888069583947459547851096821328478646762477746739559280335760930960908682128949247573941880070551973622887306750511738510760647214207130361200533662907314118097345426330662197195878405701693708839909208678019626822378675385500142088856721652096186782556507592089765788303194908691945987055362266914588716779317456794219888705461149991153292077068405587985571600004034770207581832512199694415878751080411277569147875159316496430705155422013461903809186559113931922208029801161527422494499633431759562726076942854919674297427613915724219006173887509963584407665892500436695035160322400009872360268520690297991606607899730991927419747642687690027561845517428538194550219963585660748175276618490497233313322298914007464236209530587781644349218670546494001615660143878711584098439158345809683034442881734121424825367853658723084571377206772058086259481707708969468397777099882708271738760375342259244099842736023589445329906169239163941617593870470084497478275510592057370097026626294765221876692942383496932142779109589748498512225348872401469298752275688730852326089561133559822871751515582471817551521585979418110548608058398985831199932267961221217183452373377355644827775197108891482990494585992984940503517781965924335626648594939240541543044165483934137107366698422534591931360703660865116595001046279395852357463404938409895035159424654245082432591678033593405950800763624299509153040566223233988282357537007264710246212405408459089834707880526691638979002994481000306397284646885553298616132629760515318028290672364562147422015209141044771105225831982711198321142736853807780318007036277958059345109312025000563207066151881799454771146401823437756458160308318043886372511463952246322039279186024587745776232736467279513188290939309610912654521661137685114303709351255215702585120882156859733081905116166542580895951892804617095313526449414847964350072702081257097010869492121628981109652772574875202140969437581414966053622834601835745624633730358531202708324001258165810042285064192 512 6144 0 0 0 0 6144 4714 1090748135619415929462984244733782862448264161996232692431832786189721331849119295216264234525201987223957291796157025273109870820177184063610979765077554799078906298842192989538609825228048205159696851613591638196771886542609324560121290553901886301017900252535799917200010079600026535836800905297805880952350501630195475653911005312364560014847426035293551245843928918752768696279344088055617515694349945406677821831123289627955786237980935865712186658525290122176089099011679129665875117990163283651940654642135155600076905192812573092765100010550994519511076565053705610773918106305504454062373219938816410246437602192911151822080127590711309385676084279979168253770100899559396067504940618407723650983715888416232262805132230593814278399114987082531412671613354005997729415008991014983903882287439692835997058105274243734217504642124655838716547717988361507417096459654220108942996601666759614077884450224354531387453129109146522733369440138658841290600067386063784169243569357736308076855216759421220562832068090210247529384315011201884937786741146245947407739538661196761695687972201410499968592232198166634168838547244841974886115001127839810915821534871458812065667760447972192557028905465278279721328864055120690341362300168206264397769375610614470008957629835037687938864851033221005118665214721056454600645982439363750144745403034312884006439164578338688213554652953004185186924315737701452033397792510211271030521473507645820388145630001827014034562590244183282879750214689590184633882212184238375914772841893751149518047919558365191359600962762302572271268185833432020415679842314637477491646497837897051774997004206856987014171091482308819792172474822881530887485953885878885429634936257987238235812145641481476575055681520973371467198742362165500928056883992376025916375954257777631429310384640408283180908345632975205175058119519993597347094842392662312638444152361714638739834272123168733584987747356788051842985565153531867728267703871252042073367651433491183670427232292278189603918804856565682120296094602477221075077200265375635789690679045398559326767696135049047589968406099734775484973652368719836237260801962906339534173335927501166598161158774100277164905416753983589314258660654132711965923002826381486969868514465849659855467897512425337326799766728777027316377314701844130754607416558680436009145367466743822886432753474502655272148277874156067362976812964258747622852524078470000704289717724722958822131708050248909939986419719606427851 6132 c1_cons_2_13_s6144).trans (by rfl))

theorem c1_cons_2_13_s7168 : consTwin 2 13 8192 4096 297451032133399501847248817215338247289551159626559455664302910133102053229655088195192431137407574390169395265311080797077991204274544404233615846072283678915493208441212965665353799757256873373822590540376634932975518914480288693615689509986536747798453854370110751566241770075081060955033783220024393287694765782015063869045650538513548745651229066213342854201974766681111045859662205283187454552427805701620011304614378119564874854509920342040775491725421807341288964437555602632428304681756428767300355660554340010248654067159596346304558937949162725435642714210429785583522342700092081938177434283539175478855683275288872901248453586370473179426989812812137901180970309803333085882655413996721608823754469051590718947157906146685330930518689523616402699548830030420096923194453704971866109821138688317956706053251669319568077342130819177190283586828048144669122775385905546075266146478901848075744297484141146146567313305913820534823058900796432902915393388017501626847436892719799351551442349107801434446004208515713531391737717608204008488671650763098448225977660380080112936703729268754624668049592334132540516452810898908190600712014614371651398701948303914585148687549322273487074165441225579730679140686081965765190524735735293606037595209962137504195409490825952020461827824126425769121043132607049786252161739767841633680469059803586322803288679681893606975749057479227354849919315905219367386407103204917808537942569679290237711581064832972856087632439867150900440617137408768027459370616675922323306982409711684198866787439894723421241805185760473194657465518343652245204969131533909882201717298852054552955248336714603817319701512020013879293258517557480615565212688468684362297325467369149568597434085596027129385474377776085993094684324727105622963371092233915088588928797739249688033947889543318861827756608246651707761860891400427570853000697252689785368805703063546467900818836345905621087416683921473461588676521493847782881067125675288486623331896099188041329556385394035585018631866955505318788044228674564433093543586520174624425106581518876121759153944016108496101809358099864849932159161850597827681196928080156942250428256551271037802384407753497009784596320407610250765041444970209145490586790173151537436054981557448376835174345853009833684322613859332644309811451925240090861598181678953621317272372832718100750575633696065166270562046117837675542162409217338642139528364814175957951813844820059067682567136737363947833089926400983067300191943882273070074990178650251486080463888149143388014873246777541219223966585586415109164362531578948298595683038038723404277793948813998233995542171915682130961825385715950256612162846891451666719638958547763059717850472234524916620523128917858373915756611970570265289498397779077371068501686741637073177354827994910456464722148675603152321826369034418698321891536876958952544272650622343731625396612719301341051562694233388685378184657962133239783815860750186800824411991049888069583947459547851096821328478646762477746739559280335760930960908682128949247573941880070551973622887306750511738510760647214207130361200533662907314118097345426330662197195878405701693708839909208678019626822378675385500142088856721652096186782556507592089765788303194908691945987055362266914588716779317456794219888705461149991153292077068405587985571600004034770207581832512199694415878751080411277569147875159316496430705155422013461903809186559113931922208029801161527422494499633431759562726076942854919674297427613915724219006173887509963584407665892500436695035160322400009872360268520690297991606607899730991927419747642687690027561845517428538194550219963585660748175276618490497233313322298914007464236209530587781644349218670546494001615660143878711584098439158345809683034442881734121424825367853658723084571377206772058086259481707708969468397777099882708271738760375342259244099842736023589445329906169239163941617593870470084497478275510592057370097026626294765221876692942383496932142779109589748498512225348872401469298752275688730852326089561133559822871751515582471817551521585979418110548608058398985831199932267961221217183452373377355644827775197108891482990494585992984940503517781965924335626648594939240541543044165483934137107366698422534591931360703660865116595001046279395852357463404938409895035159424654245082432591678033593405950800763624299509153040566223233988282357537007264710246212405408459089834707880526691638979002994481000306397284646885553298616132629760515318028290672364562147422015209141044771105225831982711198321142736853807780318007036277958059345109312025000563207066151881799454771146401823437756458160308318043886372511463952246322039279186024587745776232736467279513188290939309610912654521661137685114303709351255215702585120882156859733081905116166542580895951892804617095313526449414847964350072702081257097010869492121628981109652772574875202140969437581414966053622834601835745624633730358531202708324001258165810042285064192 7168 0 0 0 0 = (7168, 4140, 1090748135619415929462984244733782862448264161996232692431832786189721331849119295216264234525201987223957291796157025273109870820177184063610979765077554799078906298842192989538609825228048205159696851613591638196771886542609324560121290553901886301017900252535799917200010079600026535836800905297805880952350501630195475653911005312364560014847426035293551245843928918752768696279344088055617515694349945406677825140814900616105920256438504578013326493565836047242407382442812245131517757519164899226365743722432277368075027627883045206497884602474302460430873543838996498063975254512538091411927464311627912335619009228405345363336417417247600795291562802062334467264604055089923623764636038813008897079339117441016003497433952664002573701823794273744275122252342129708688717982625355888154134012260335226983393259177062376582091134362841864702385293611218172426738801026535677394765787414726344636861805481841268521728610990637292983340990125402765314330326323675998033136007728136371162662524270234982691689041849563442966400507044865214343419617666276777930259632054559477687440818276083189682201259530376371697622284417862481355197116007901891636157368703796561593903668899735378357097668624782135091611715242552211838837814581724667524809612899933693818227442768987949210017537162489111745433869588258739114037554460844619502192727466286366822460477132747206425741719115427523555256968174259631991531623400936744617441687034881478570486403151737573042283558583947701848479323623271243598945437122157215756661472145421198552763538121961452489391334283123669276361950462461765009649000460848272061270279262162787354092361414552765462278683667177505226063484207866182007556225316721217134197645487434215691531494787465352425030860734732153031043234142577477027463889387588748771774548081547780203473671682736724671547862550684945466461203227089810888909549333981508267758625529226949076266732551629122012795277573550807407255215802557541565993862265973724024411684743819972032681964482065225909476043727441255435705552513109059488569535712784385659525940037071671279915184210967969640353971873848654599413280864274395887004776468201468819450565412862385696837895819938248404446507695530000927500581400761626407240647940396992159236658080436742382734325271140319053440323790565084568757954474669540683761690198531688878480864735628065651516930900157051884791145137087547151609668630113123222575682984037385514769616230297255968498912706688417169147844763106472139, 7156) :=
  (congrArg (fun m => consTwin 2 13 8192 4096 297451032133399501847248817215338247289551159626559455664302910133102053229655088195192431137407574390169395265311080797077991204274544404233615846072283678915493208441212965665353799757256873373822590540376634932975518914480288693615689509986536747798453854370110751566241770075081060955033783220024393287694765782015063869045650538513548745651229066213342854201974766681111045859662205283187454552427805701620011304614378119564874854509920342040775491725421807341288964437555602632428304681756428767300355660554340010248654067159596346304558937949162725435642714210429785583522342700092081938177434283539175478855683275288872901248453586370473179426989812812137901180970309803333085882655413996721608823754469051590718947157906146685330930518689523616402699548830030420096923194453704971866109821138688317956706053251669319568077342130819177190283586828048144669122775385905546075266146478901848075744297484141146146567313305913820534823058900796432902915393388017501626847436892719799351551442349107801434446004208515713531391737717608204008488671650763098448225977660380080112936703729268754624668049592334132540516452810898908190600712014614371651398701948303914585148687549322273487074165441225579730679140686081965765190524735735293606037595209962137504195409490825952020461827824126425769121043132607049786252161739767841633680469059803586322803288679681893606975749057479227354849919315905219367386407103204917808537942569679290237711581064832972856087632439867150900440617137408768027459370616675922323306982409711684198866787439894723421241805185760473194657465518343652245204969131533909882201717298852054552955248336714603817319701512020013879293258517557480615565212688468684362297325467369149568597434085596027129385474377776085993094684324727105622963371092233915088588928797739249688033947889543318861827756608246651707761860891400427570853000697252689785368805703063546467900818836345905621087416683921473461588676521493847782881067125675288486623331896099188041329556385394035585018631866955505318788044228674564433093543586520174624425106581518876121759153944016108496101809358099864849932159161850597827681196928080156942250428256551271037802384407753497009784596320407610250765041444970209145490586790173151537436054981557448376835174345853009833684322613859332644309811451925240090861598181678953621317272372832718100750575633696065166270562046117837675542162409217338642139528364814175957951813844820059067682567136737363947833089926400983067300191943882273070074990178650251486080463888149143388014873246777541219223966585586415109164362531578948298595683038038723404277793948813998233995542171915682130961825385715950256612162846891451666719638958547763059717850472234524916620523128917858373915756611970570265289498397779077371068501686741637073177354827994910456464722148675603152321826369034418698321891536876958952544272650622343731625396612719301341051562694233388685378184657962133239783815860750186800824411991049888069583947459547851096821328478646762477746739559280335760930960908682128949247573941880070551973622887306750511738510760647214207130361200533662907314118097345426330662197195878405701693708839909208678019626822378675385500142088856721652096186782556507592089765788303194908691945987055362266914588716779317456794219888705461149991153292077068405587985571600004034770207581832512199694415878751080411277569147875159316496430705155422013461903809186559113931922208029801161527422494499633431759562726076942854919674297427613915724219006173887509963584407665892500436695035160322400009872360268520690297991606607899730991927419747642687690027561845517428538194550219963585660748175276618490497233313322298914007464236209530587781644349218670546494001615660143878711584098439158345809683034442881734121424825367853658723084571377206772058086259481707708969468397777099882708271738760375342259244099842736023589445329906169239163941617593870470084497478275510592057370097026626294765221876692942383496932142779109589748498512225348872401469298752275688730852326089561133559822871751515582471817551521585979418110548608058398985831199932267961221217183452373377355644827775197108891482990494585992984940503517781965924335626648594939240541543044165483934137107366698422534591931360703660865116595001046279395852357463404938409895035159424654245082432591678033593405950800763624299509153040566223233988282357537007264710246212405408459089834707880526691638979002994481000306397284646885553298616132629760515318028290672364562147422015209141044771105225831982711198321142736853807780318007036277958059345109312025000563207066151881799454771146401823437756458160308318043886372511463952246322039279186024587745776232736467279513188290939309610912654521661137685114303709351255215702585120882156859733081905116166542580895951892804617095313526449414847964350072702081257097010869492121628981109652772574875202140969437581414966053622834601835745624633730358531202708324001258165810042285064192 m 0 0 0 0)
      (by norm_num : (7168 : Nat) = 512 + 6656)).trans
    ((consTwin_chunk 2 13 8192 4096 297451032133399501847248817215338247289551159626559455664302910133102053229655088195192431137407574390169395265311080797077991204274544404233615846072283678915493208441212965665353799757256873373822590540376634932975518914480288693615689509986536747798453854370110751566241770075081060955033783220024393287694765782015063869045650538513548745651229066213342854201974766681111045859662205283187454552427805701620011304614378119564874854509920342040775491725421807341288964437555602632428304681756428767300355660554340010248654067159596346304558937949162725435642714210429785583522342700092081938177434283539175478855683275288872901248453586370473179426989812812137901180970309803333085882655413996721608823754469051590718947157906146685330930518689523616402699548830030420096923194453704971866109821138688317956706053251669319568077342130819177190283586828048144669122775385905546075266146478901848075744297484141146146567313305913820534823058900796432902915393388017501626847436892719799351551442349107801434446004208515713531391737717608204008488671650763098448225977660380080112936703729268754624668049592334132540516452810898908190600712014614371651398701948303914585148687549322273487074165441225579730679140686081965765190524735735293606037595209962137504195409490825952020461827824126425769121043132607049786252161739767841633680469059803586322803288679681893606975749057479227354849919315905219367386407103204917808537942569679290237711581064832972856087632439867150900440617137408768027459370616675922323306982409711684198866787439894723421241805185760473194657465518343652245204969131533909882201717298852054552955248336714603817319701512020013879293258517557480615565212688468684362297325467369149568597434085596027129385474377776085993094684324727105622963371092233915088588928797739249688033947889543318861827756608246651707761860891400427570853000697252689785368805703063546467900818836345905621087416683921473461588676521493847782881067125675288486623331896099188041329556385394035585018631866955505318788044228674564433093543586520174624425106581518876121759153944016108496101809358099864849932159161850597827681196928080156942250428256551271037802384407753497009784596320407610250765041444970209145490586790173151537436054981557448376835174345853009833684322613859332644309811451925240090861598181678953621317272372832718100750575633696065166270562046117837675542162409217338642139528364814175957951813844820059067682567136737363947833089926400983067300191943882273070074990178650251486080463888149143388014873246777541219223966585586415109164362531578948298595683038038723404277793948813998233995542171915682130961825385715950256612162846891451666719638958547763059717850472234524916620523128917858373915756611970570265289498397779077371068501686741637073177354827994910456464722148675603152321826369034418698321891536876958952544272650622343731625396612719301341051562694233388685378184657962133239783815860750186800824411991049888069583947459547851096821328478646762477746739559280335760930960908682128949247573941880070551973622887306750511738510760647214207130361200533662907314118097345426330662197195878405701693708839909208678019626822378675385500142088856721652096186782556507592089765788303194908691945987055362266914588716779317456794219888705461149991153292077068405587985571600004034770207581832512199694415878751080411277569147875159316496430705155422013461903809186559113931922208029801161527422494499633431759562726076942854919674297427613915724219006173887509963584407665892500436695035160322400009872360268520690297991606607899730991927419747642687690027561845517428538194550219963585660748175276618490497233313322298914007464236209530587781644349218670546494001615660143878711584098439158345809683034442881734121424825367853658723084571377206772058086259481707708969468397777099882708271738760375342259244099842736023589445329906169239163941617593870470084497478275510592057370097026626294765221876692942383496932142779109589748498512225348872401469298752275688730852326089561133559822871751515582471817551521585979418110548608058398985831199932267961221217183452373377355644827775197108891482990494585992984940503517781965924335626648594939240541543044165483934137107366698422534591931360703660865116595001046279395852357463404938409895035159424654245082432591678033593405950800763624299509153040566223233988282357537007264710246212405408459089834707880526691638979002994481000306397284646885553298616132629760515318028290672364562147422015209141044771105225831982711198321142736853807780318007036277958059345109312025000563207066151881799454771146401823437756458160308318043886372511463952246322039279186024587745776232736467279513188290939309610912654521661137685114303709351255215702585120882156859733081905116166542580895951892804617095313526449414847964350072702081257097010869492121628981109652772574875202140969437581414966053622834601835745624633730358531202708324001258165810042285064192 512 6656 0 0 0 0 6656 3333 1090748135619415929462984244733782862448264161996232692431832786189721331849119295216264234525201987223957291796157025273109870820177184063610979765077554799078906298842192989538609825228048205159696851613591638196771886542609324560121290553901886301017900252535799917200010079600026535836800905297805880952350501630195475653911005312364560014847426035293551245843928918752768696279344088055617515694349945406677825140814900616105920256438504578013326493565835458495774957868783454263610722521077118373031668570730242019657065163284764431607756459382208490419125271583627204734031106828993417714739054849777420526530110930037617961289573922584341131007075078415245602931135232172018113168645493125448861143006001127937579509028405989562310932916032653483045444861560329733062926249651922257995101525916286765161138377655632045881532273121891597661812714968969795006763960647780018080815077823465930972307007586747432535032567457650876191608651163953721870958449416650227657767521991917372593619058321005027364729127423561076264928322183760653954003025829798401895320217092232489876207434402556781881210644274732074244566137694212485979988726738806549560159211207179558607274880962724799524813072853200025546324003003475620401198569899779580939411524489047160848881995236315153997091899566487491672402902805409772573735843135403367458223234570818187100249727337058719583231738624844264468012874584132444557532591653274287453638303141510166058404530191232003424989146232585715586493354029375992461703089017930134193674258173925596081093610531983559348649487429738804689767698779983993423142134289790883306140676026804662047088500769157058393933725402053586206140751236180610987243198853815004265320208722985164979776913252165004748261106914841852686923439673964150483044551695515840323026987401838142940681793646403672153616013509393773858028164814941720111099280949032204832942557798506866277797618009709033888443963635671502612292459958875970854371759251443361141110355401408875218865251874022595044485129534946333591803403325466863110893588357406692578734352229967839198994558066672919233310820995148659905811931618071082967299871488206887334953411037117103279080853670995424309905046972067748180232594016939236322422313712492391786497898179932642980510880034296981678719969143335514885165808643574646608293623138034122149306655925869428959247743036578728753647955866875687809731660720123591145308779263487305411962207546328380384716479887086686348184764052186128587 6644 c1_cons_2_13_s6656).trans (by rfl))

theorem c1_cons_2_13_s7680 : consTwin 2 13 8192 4096 297451032133399501847248817215338247289551159626559455664302910133102053229655088195192431137407574390169395265311080797077991204274544404233615846072283678915493208441212965665353799757256873373822590540376634932975518914480288693615689509986536747798453854370110751566241770075081060955033783220024393287694765782015063869045650538513548745651229066213342854201974766681111045859662205283187454552427805701620011304614378119564874854509920342040775491725421807341288964437555602632428304681756428767300355660554340010248654067159596346304558937949162725435642714210429785583522342700092081938177434283539175478855683275288872901248453586370473179426989812812137901180970309803333085882655413996721608823754469051590718947157906146685330930518689523616402699548830030420096923194453704971866109821138688317956706053251669319568077342130819177190283586828048144669122775385905546075266146478901848075744297484141146146567313305913820534823058900796432902915393388017501626847436892719799351551442349107801434446004208515713531391737717608204008488671650763098448225977660380080112936703729268754624668049592334132540516452810898908190600712014614371651398701948303914585148687549322273487074165441225579730679140686081965765190524735735293606037595209962137504195409490825952020461827824126425769121043132607049786252161739767841633680469059803586322803288679681893606975749057479227354849919315905219367386407103204917808537942569679290237711581064832972856087632439867150900440617137408768027459370616675922323306982409711684198866787439894723421241805185760473194657465518343652245204969131533909882201717298852054552955248336714603817319701512020013879293258517557480615565212688468684362297325467369149568597434085596027129385474377776085993094684324727105622963371092233915088588928797739249688033947889543318861827756608246651707761860891400427570853000697252689785368805703063546467900818836345905621087416683921473461588676521493847782881067125675288486623331896099188041329556385394035585018631866955505318788044228674564433093543586520174624425106581518876121759153944016108496101809358099864849932159161850597827681196928080156942250428256551271037802384407753497009784596320407610250765041444970209145490586790173151537436054981557448376835174345853009833684322613859332644309811451925240090861598181678953621317272372832718100750575633696065166270562046117837675542162409217338642139528364814175957951813844820059067682567136737363947833089926400983067300191943882273070074990178650251486080463888149143388014873246777541219223966585586415109164362531578948298595683038038723404277793948813998233995542171915682130961825385715950256612162846891451666719638958547763059717850472234524916620523128917858373915756611970570265289498397779077371068501686741637073177354827994910456464722148675603152321826369034418698321891536876958952544272650622343731625396612719301341051562694233388685378184657962133239783815860750186800824411991049888069583947459547851096821328478646762477746739559280335760930960908682128949247573941880070551973622887306750511738510760647214207130361200533662907314118097345426330662197195878405701693708839909208678019626822378675385500142088856721652096186782556507592089765788303194908691945987055362266914588716779317456794219888705461149991153292077068405587985571600004034770207581832512199694415878751080411277569147875159316496430705155422013461903809186559113931922208029801161527422494499633431759562726076942854919674297427613915724219006173887509963584407665892500436695035160322400009872360268520690297991606607899730991927419747642687690027561845517428538194550219963585660748175276618490497233313322298914007464236209530587781644349218670546494001615660143878711584098439158345809683034442881734121424825367853658723084571377206772058086259481707708969468397777099882708271738760375342259244099842736023589445329906169239163941617593870470084497478275510592057370097026626294765221876692942383496932142779109589748498512225348872401469298752275688730852326089561133559822871751515582471817551521585979418110548608058398985831199932267961221217183452373377355644827775197108891482990494585992984940503517781965924335626648594939240541543044165483934137107366698422534591931360703660865116595001046279395852357463404938409895035159424654245082432591678033593405950800763624299509153040566223233988282357537007264710246212405408459089834707880526691638979002994481000306397284646885553298616132629760515318028290672364562147422015209141044771105225831982711198321142736853807780318007036277958059345109312025000563207066151881799454771146401823437756458160308318043886372511463952246322039279186024587745776232736467279513188290939309610912654521661137685114303709351255215702585120882156859733081905116166542580895951892804617095313526449414847964350072702081257097010869492121628981109652772574875202140969437581414966053622834601835745624633730358531202708324001258165810042285064192 7680 0 0 0 0 = (7680, 1408, 1090748135619415929462984244733782862448264161996232692431832786189721331849119295216264234525201987223957291796157025273109870820177184063610979765077554799078906298842192989538609825228048205159696851613591638196771886542609324560121290553901886301017900252535799917200010079600026535836800905297805880952350501630195475653911005312364560014847426035293551245843928918752768696279344088055617515694349945406677825140814900616105920256438504578013326493565836047242407382442812245131517757519164899226365743722432277368075027627883045206501792761700945699168497257879683851737049996900961120515655050115561271491492481590583927528068362121611832823090350947768974356780606151520143159909137700592185973126172549006476832634892320043175548198813118732027663641737580234177980913159623045633884244475482784855404886344648081247352104563861472451615385823425986590596029993310641698108195007662977891130387305710171702108392800405342481083617092101635448437825083882583740945049822653638489673108758706114883347365094331713731596699975938261725221972117250779200055304128046168513740050985243491611524536489366189102777481846235145936332794981035281408958513574002467079517263363759960804366798025455768121371611377977048034894192045148889105932849301709005003660485023396307070002842799287415084771591154205410098591065547417490262801269471243473880419232794723037677046822749255917966882026701115101967672928579204938759126870593494719822570962045224856083465379814197067304055527785726390382224042907138956330901288546022247195789368192586741834256715173645586841633805533035255874578534042223284352263801062906933740009808183425123982513935557731816425336270908245464044971022558545196834183793730787380721588354759775880756688067159760163406805689779707040234357289779749861419696158737871373116918509581967811044598691177286907840785482138297081714756387555000866404326584256860934911229348196156647418209775829700803862835681659300565010941816569219991862358090145088507909557458176389567483320834734447870317084758634795711072860956103516502176258481513586253457517285209204003322539895851658763218231823642385812074705729039435580459786904758822082384790365576882837774229986837482167387760241129894098046458703747671768875119703759981784329442629820399797046418219185242579156262470834906321893469689625100402037157655195439849633942415583790177440891762727133521925778561508064009506329885207563183266772082551640142124068878355675002135965583534343917729995, 7668) :=
  (congrArg (fun m => consTwin 2 13 8192 4096 297451032133399501847248817215338247289551159626559455664302910133102053229655088195192431137407574390169395265311080797077991204274544404233615846072283678915493208441212965665353799757256873373822590540376634932975518914480288693615689509986536747798453854370110751566241770075081060955033783220024393287694765782015063869045650538513548745651229066213342854201974766681111045859662205283187454552427805701620011304614378119564874854509920342040775491725421807341288964437555602632428304681756428767300355660554340010248654067159596346304558937949162725435642714210429785583522342700092081938177434283539175478855683275288872901248453586370473179426989812812137901180970309803333085882655413996721608823754469051590718947157906146685330930518689523616402699548830030420096923194453704971866109821138688317956706053251669319568077342130819177190283586828048144669122775385905546075266146478901848075744297484141146146567313305913820534823058900796432902915393388017501626847436892719799351551442349107801434446004208515713531391737717608204008488671650763098448225977660380080112936703729268754624668049592334132540516452810898908190600712014614371651398701948303914585148687549322273487074165441225579730679140686081965765190524735735293606037595209962137504195409490825952020461827824126425769121043132607049786252161739767841633680469059803586322803288679681893606975749057479227354849919315905219367386407103204917808537942569679290237711581064832972856087632439867150900440617137408768027459370616675922323306982409711684198866787439894723421241805185760473194657465518343652245204969131533909882201717298852054552955248336714603817319701512020013879293258517557480615565212688468684362297325467369149568597434085596027129385474377776085993094684324727105622963371092233915088588928797739249688033947889543318861827756608246651707761860891400427570853000697252689785368805703063546467900818836345905621087416683921473461588676521493847782881067125675288486623331896099188041329556385394035585018631866955505318788044228674564433093543586520174624425106581518876121759153944016108496101809358099864849932159161850597827681196928080156942250428256551271037802384407753497009784596320407610250765041444970209145490586790173151537436054981557448376835174345853009833684322613859332644309811451925240090861598181678953621317272372832718100750575633696065166270562046117837675542162409217338642139528364814175957951813844820059067682567136737363947833089926400983067300191943882273070074990178650251486080463888149143388014873246777541219223966585586415109164362531578948298595683038038723404277793948813998233995542171915682130961825385715950256612162846891451666719638958547763059717850472234524916620523128917858373915756611970570265289498397779077371068501686741637073177354827994910456464722148675603152321826369034418698321891536876958952544272650622343731625396612719301341051562694233388685378184657962133239783815860750186800824411991049888069583947459547851096821328478646762477746739559280335760930960908682128949247573941880070551973622887306750511738510760647214207130361200533662907314118097345426330662197195878405701693708839909208678019626822378675385500142088856721652096186782556507592089765788303194908691945987055362266914588716779317456794219888705461149991153292077068405587985571600004034770207581832512199694415878751080411277569147875159316496430705155422013461903809186559113931922208029801161527422494499633431759562726076942854919674297427613915724219006173887509963584407665892500436695035160322400009872360268520690297991606607899730991927419747642687690027561845517428538194550219963585660748175276618490497233313322298914007464236209530587781644349218670546494001615660143878711584098439158345809683034442881734121424825367853658723084571377206772058086259481707708969468397777099882708271738760375342259244099842736023589445329906169239163941617593870470084497478275510592057370097026626294765221876692942383496932142779109589748498512225348872401469298752275688730852326089561133559822871751515582471817551521585979418110548608058398985831199932267961221217183452373377355644827775197108891482990494585992984940503517781965924335626648594939240541543044165483934137107366698422534591931360703660865116595001046279395852357463404938409895035159424654245082432591678033593405950800763624299509153040566223233988282357537007264710246212405408459089834707880526691638979002994481000306397284646885553298616132629760515318028290672364562147422015209141044771105225831982711198321142736853807780318007036277958059345109312025000563207066151881799454771146401823437756458160308318043886372511463952246322039279186024587745776232736467279513188290939309610912654521661137685114303709351255215702585120882156859733081905116166542580895951892804617095313526449414847964350072702081257097010869492121628981109652772574875202140969437581414966053622834601835745624633730358531202708324001258165810042285064192 m 0 0 0 0)
      (by norm_num : (7680 : Nat) = 512 + 7168)).trans
    ((consTwin_chunk 2 13 8192 4096 297451032133399501847248817215338247289551159626559455664302910133102053229655088195192431137407574390169395265311080797077991204274544404233615846072283678915493208441212965665353799757256873373822590540376634932975518914480288693615689509986536747798453854370110751566241770075081060955033783220024393287694765782015063869045650538513548745651229066213342854201974766681111045859662205283187454552427805701620011304614378119564874854509920342040775491725421807341288964437555602632428304681756428767300355660554340010248654067159596346304558937949162725435642714210429785583522342700092081938177434283539175478855683275288872901248453586370473179426989812812137901180970309803333085882655413996721608823754469051590718947157906146685330930518689523616402699548830030420096923194453704971866109821138688317956706053251669319568077342130819177190283586828048144669122775385905546075266146478901848075744297484141146146567313305913820534823058900796432902915393388017501626847436892719799351551442349107801434446004208515713531391737717608204008488671650763098448225977660380080112936703729268754624668049592334132540516452810898908190600712014614371651398701948303914585148687549322273487074165441225579730679140686081965765190524735735293606037595209962137504195409490825952020461827824126425769121043132607049786252161739767841633680469059803586322803288679681893606975749057479227354849919315905219367386407103204917808537942569679290237711581064832972856087632439867150900440617137408768027459370616675922323306982409711684198866787439894723421241805185760473194657465518343652245204969131533909882201717298852054552955248336714603817319701512020013879293258517557480615565212688468684362297325467369149568597434085596027129385474377776085993094684324727105622963371092233915088588928797739249688033947889543318861827756608246651707761860891400427570853000697252689785368805703063546467900818836345905621087416683921473461588676521493847782881067125675288486623331896099188041329556385394035585018631866955505318788044228674564433093543586520174624425106581518876121759153944016108496101809358099864849932159161850597827681196928080156942250428256551271037802384407753497009784596320407610250765041444970209145490586790173151537436054981557448376835174345853009833684322613859332644309811451925240090861598181678953621317272372832718100750575633696065166270562046117837675542162409217338642139528364814175957951813844820059067682567136737363947833089926400983067300191943882273070074990178650251486080463888149143388014873246777541219223966585586415109164362531578948298595683038038723404277793948813998233995542171915682130961825385715950256612162846891451666719638958547763059717850472234524916620523128917858373915756611970570265289498397779077371068501686741637073177354827994910456464722148675603152321826369034418698321891536876958952544272650622343731625396612719301341051562694233388685378184657962133239783815860750186800824411991049888069583947459547851096821328478646762477746739559280335760930960908682128949247573941880070551973622887306750511738510760647214207130361200533662907314118097345426330662197195878405701693708839909208678019626822378675385500142088856721652096186782556507592089765788303194908691945987055362266914588716779317456794219888705461149991153292077068405587985571600004034770207581832512199694415878751080411277569147875159316496430705155422013461903809186559113931922208029801161527422494499633431759562726076942854919674297427613915724219006173887509963584407665892500436695035160322400009872360268520690297991606607899730991927419747642687690027561845517428538194550219963585660748175276618490497233313322298914007464236209530587781644349218670546494001615660143878711584098439158345809683034442881734121424825367853658723084571377206772058086259481707708969468397777099882708271738760375342259244099842736023589445329906169239163941617593870470084497478275510592057370097026626294765221876692942383496932142779109589748498512225348872401469298752275688730852326089561133559822871751515582471817551521585979418110548608058398985831199932267961221217183452373377355644827775197108891482990494585992984940503517781965924335626648594939240541543044165483934137107366698422534591931360703660865116595001046279395852357463404938409895035159424654245082432591678033593405950800763624299509153040566223233988282357537007264710246212405408459089834707880526691638979002994481000306397284646885553298616132629760515318028290672364562147422015209141044771105225831982711198321142736853807780318007036277958059345109312025000563207066151881799454771146401823437756458160308318043886372511463952246322039279186024587745776232736467279513188290939309610912654521661137685114303709351255215702585120882156859733081905116166542580895951892804617095313526449414847964350072702081257097010869492121628981109652772574875202140969437581414966053622834601835745624633730358531202708324001258165810042285064192 512 7168 0 0 0 0 7168 4140 1090748135619415929462984244733782862448264161996232692431832786189721331849119295216264234525201987223957291796157025273109870820177184063610979765077554799078906298842192989538609825228048205159696851613591638196771886542609324560121290553901886301017900252535799917200010079600026535836800905297805880952350501630195475653911005312364560014847426035293551245843928918752768696279344088055617515694349945406677825140814900616105920256438504578013326493565836047242407382442812245131517757519164899226365743722432277368075027627883045206497884602474302460430873543838996498063975254512538091411927464311627912335619009228405345363336417417247600795291562802062334467264604055089923623764636038813008897079339117441016003497433952664002573701823794273744275122252342129708688717982625355888154134012260335226983393259177062376582091134362841864702385293611218172426738801026535677394765787414726344636861805481841268521728610990637292983340990125402765314330326323675998033136007728136371162662524270234982691689041849563442966400507044865214343419617666276777930259632054559477687440818276083189682201259530376371697622284417862481355197116007901891636157368703796561593903668899735378357097668624782135091611715242552211838837814581724667524809612899933693818227442768987949210017537162489111745433869588258739114037554460844619502192727466286366822460477132747206425741719115427523555256968174259631991531623400936744617441687034881478570486403151737573042283558583947701848479323623271243598945437122157215756661472145421198552763538121961452489391334283123669276361950462461765009649000460848272061270279262162787354092361414552765462278683667177505226063484207866182007556225316721217134197645487434215691531494787465352425030860734732153031043234142577477027463889387588748771774548081547780203473671682736724671547862550684945466461203227089810888909549333981508267758625529226949076266732551629122012795277573550807407255215802557541565993862265973724024411684743819972032681964482065225909476043727441255435705552513109059488569535712784385659525940037071671279915184210967969640353971873848654599413280864274395887004776468201468819450565412862385696837895819938248404446507695530000927500581400761626407240647940396992159236658080436742382734325271140319053440323790565084568757954474669540683761690198531688878480864735628065651516930900157051884791145137087547151609668630113123222575682984037385514769616230297255968498912706688417169147844763106472139 7156 c1_cons_2_13_s7168).trans (by rfl))

theorem c1_cons_2_13_s8192 : consTwin 2 13 8192 4096 297451032133399501847248817215338247289551159626559455664302910133102053229655088195192431137407574390169395265311080797077991204274544404233615846072283678915493208441212965665353799757256873373822590540376634932975518914480288693615689509986536747798453854370110751566241770075081060955033783220024393287694765782015063869045650538513548745651229066213342854201974766681111045859662205283187454552427805701620011304614378119564874854509920342040775491725421807341288964437555602632428304681756428767300355660554340010248654067159596346304558937949162725435642714210429785583522342700092081938177434283539175478855683275288872901248453586370473179426989812812137901180970309803333085882655413996721608823754469051590718947157906146685330930518689523616402699548830030420096923194453704971866109821138688317956706053251669319568077342130819177190283586828048144669122775385905546075266146478901848075744297484141146146567313305913820534823058900796432902915393388017501626847436892719799351551442349107801434446004208515713531391737717608204008488671650763098448225977660380080112936703729268754624668049592334132540516452810898908190600712014614371651398701948303914585148687549322273487074165441225579730679140686081965765190524735735293606037595209962137504195409490825952020461827824126425769121043132607049786252161739767841633680469059803586322803288679681893606975749057479227354849919315905219367386407103204917808537942569679290237711581064832972856087632439867150900440617137408768027459370616675922323306982409711684198866787439894723421241805185760473194657465518343652245204969131533909882201717298852054552955248336714603817319701512020013879293258517557480615565212688468684362297325467369149568597434085596027129385474377776085993094684324727105622963371092233915088588928797739249688033947889543318861827756608246651707761860891400427570853000697252689785368805703063546467900818836345905621087416683921473461588676521493847782881067125675288486623331896099188041329556385394035585018631866955505318788044228674564433093543586520174624425106581518876121759153944016108496101809358099864849932159161850597827681196928080156942250428256551271037802384407753497009784596320407610250765041444970209145490586790173151537436054981557448376835174345853009833684322613859332644309811451925240090861598181678953621317272372832718100750575633696065166270562046117837675542162409217338642139528364814175957951813844820059067682567136737363947833089926400983067300191943882273070074990178650251486080463888149143388014873246777541219223966585586415109164362531578948298595683038038723404277793948813998233995542171915682130961825385715950256612162846891451666719638958547763059717850472234524916620523128917858373915756611970570265289498397779077371068501686741637073177354827994910456464722148675603152321826369034418698321891536876958952544272650622343731625396612719301341051562694233388685378184657962133239783815860750186800824411991049888069583947459547851096821328478646762477746739559280335760930960908682128949247573941880070551973622887306750511738510760647214207130361200533662907314118097345426330662197195878405701693708839909208678019626822378675385500142088856721652096186782556507592089765788303194908691945987055362266914588716779317456794219888705461149991153292077068405587985571600004034770207581832512199694415878751080411277569147875159316496430705155422013461903809186559113931922208029801161527422494499633431759562726076942854919674297427613915724219006173887509963584407665892500436695035160322400009872360268520690297991606607899730991927419747642687690027561845517428538194550219963585660748175276618490497233313322298914007464236209530587781644349218670546494001615660143878711584098439158345809683034442881734121424825367853658723084571377206772058086259481707708969468397777099882708271738760375342259244099842736023589445329906169239163941617593870470084497478275510592057370097026626294765221876692942383496932142779109589748498512225348872401469298752275688730852326089561133559822871751515582471817551521585979418110548608058398985831199932267961221217183452373377355644827775197108891482990494585992984940503517781965924335626648594939240541543044165483934137107366698422534591931360703660865116595001046279395852357463404938409895035159424654245082432591678033593405950800763624299509153040566223233988282357537007264710246212405408459089834707880526691638979002994481000306397284646885553298616132629760515318028290672364562147422015209141044771105225831982711198321142736853807780318007036277958059345109312025000563207066151881799454771146401823437756458160308318043886372511463952246322039279186024587745776232736467279513188290939309610912654521661137685114303709351255215702585120882156859733081905116166542580895951892804617095313526449414847964350072702081257097010869492121628981109652772574875202140969437581414966053622834601835745624633730358531202708324001258165810042285064192 8192 0 0 0 0 = (8192, 129, 1090748135619415929462984244733782862448264161996232692431832786189721331849119295216264234525201987223957291796157025273109870820177184063610979765077554799078906298842192989538609825228048205159696851613591638196771886542609324560121290553901886301017900252535799917200010079600026535836800905297805880952350501630195475653911005312364560014847426035293551245843928918752768696279344088055617515694349945406677825140814900616105920256438504578013326493565836047242407382442812245131517757519164899226365743722432277368075027627883045206501792761700945699168497257879683851737049996900961120515655050115561271491492515342105748966629547032786321505730828430221664970324396138635251626409516168005427623435996308921691446181187406395310665404885739434832877428167407495370993511868756359970390117021823616749458620969857006263612082706715408157066575137281027022310927564910276759160520878304632411049364568754920967322982459184763427383790272448438018526977764941072715611580434690827459339991961414242741410599117426060556483763756314527611362658628383368621157993638020878537675545336789915694234433955666315070087213535470255670312004130725495834508357439653828936077080978550578912967907352780054935621561090795845172949630356836459976365823908456065115401516241840661051021695300605376862382268411768889406130230772603092848603504681117144275444289333769100429038188462989547454284891161093490827642112400916375668481205343789681487297523864770532203513608198392052405125784385366119067951988641313066388760422675528539700575701595956351226072804765878569472935231341098343643768030705773967545344564386872092719084024451401499954103397942765498993960151547480358191875097260900977587678237373600503249297433099066899969229828358743432494402979537057090366913949045323234285875708715624276964889608112364325219073459427148199345627855277914837706660144352551668863633069338790751394919268736883601747265435442962068604448244544182022829722876635286384940904969450410299814842264721297080906128289180650841830228405037185508619959663620137186450778488553193962095702461349864915383970878843035870628401828449800315018617515141703199814082585475922946202437499180010944897882007430248380958146680890989522755515609374165789682174211764329660152813658123442585094130300995454774201205465416595764889346571878635279777497011557809995121767600623029718884675987835737235897296492174342899056329713061484543253658446681214846845018110364550869655408299133046081191935, 8180) :=
  (congrArg (fun m => consTwin 2 13 8192 4096 297451032133399501847248817215338247289551159626559455664302910133102053229655088195192431137407574390169395265311080797077991204274544404233615846072283678915493208441212965665353799757256873373822590540376634932975518914480288693615689509986536747798453854370110751566241770075081060955033783220024393287694765782015063869045650538513548745651229066213342854201974766681111045859662205283187454552427805701620011304614378119564874854509920342040775491725421807341288964437555602632428304681756428767300355660554340010248654067159596346304558937949162725435642714210429785583522342700092081938177434283539175478855683275288872901248453586370473179426989812812137901180970309803333085882655413996721608823754469051590718947157906146685330930518689523616402699548830030420096923194453704971866109821138688317956706053251669319568077342130819177190283586828048144669122775385905546075266146478901848075744297484141146146567313305913820534823058900796432902915393388017501626847436892719799351551442349107801434446004208515713531391737717608204008488671650763098448225977660380080112936703729268754624668049592334132540516452810898908190600712014614371651398701948303914585148687549322273487074165441225579730679140686081965765190524735735293606037595209962137504195409490825952020461827824126425769121043132607049786252161739767841633680469059803586322803288679681893606975749057479227354849919315905219367386407103204917808537942569679290237711581064832972856087632439867150900440617137408768027459370616675922323306982409711684198866787439894723421241805185760473194657465518343652245204969131533909882201717298852054552955248336714603817319701512020013879293258517557480615565212688468684362297325467369149568597434085596027129385474377776085993094684324727105622963371092233915088588928797739249688033947889543318861827756608246651707761860891400427570853000697252689785368805703063546467900818836345905621087416683921473461588676521493847782881067125675288486623331896099188041329556385394035585018631866955505318788044228674564433093543586520174624425106581518876121759153944016108496101809358099864849932159161850597827681196928080156942250428256551271037802384407753497009784596320407610250765041444970209145490586790173151537436054981557448376835174345853009833684322613859332644309811451925240090861598181678953621317272372832718100750575633696065166270562046117837675542162409217338642139528364814175957951813844820059067682567136737363947833089926400983067300191943882273070074990178650251486080463888149143388014873246777541219223966585586415109164362531578948298595683038038723404277793948813998233995542171915682130961825385715950256612162846891451666719638958547763059717850472234524916620523128917858373915756611970570265289498397779077371068501686741637073177354827994910456464722148675603152321826369034418698321891536876958952544272650622343731625396612719301341051562694233388685378184657962133239783815860750186800824411991049888069583947459547851096821328478646762477746739559280335760930960908682128949247573941880070551973622887306750511738510760647214207130361200533662907314118097345426330662197195878405701693708839909208678019626822378675385500142088856721652096186782556507592089765788303194908691945987055362266914588716779317456794219888705461149991153292077068405587985571600004034770207581832512199694415878751080411277569147875159316496430705155422013461903809186559113931922208029801161527422494499633431759562726076942854919674297427613915724219006173887509963584407665892500436695035160322400009872360268520690297991606607899730991927419747642687690027561845517428538194550219963585660748175276618490497233313322298914007464236209530587781644349218670546494001615660143878711584098439158345809683034442881734121424825367853658723084571377206772058086259481707708969468397777099882708271738760375342259244099842736023589445329906169239163941617593870470084497478275510592057370097026626294765221876692942383496932142779109589748498512225348872401469298752275688730852326089561133559822871751515582471817551521585979418110548608058398985831199932267961221217183452373377355644827775197108891482990494585992984940503517781965924335626648594939240541543044165483934137107366698422534591931360703660865116595001046279395852357463404938409895035159424654245082432591678033593405950800763624299509153040566223233988282357537007264710246212405408459089834707880526691638979002994481000306397284646885553298616132629760515318028290672364562147422015209141044771105225831982711198321142736853807780318007036277958059345109312025000563207066151881799454771146401823437756458160308318043886372511463952246322039279186024587745776232736467279513188290939309610912654521661137685114303709351255215702585120882156859733081905116166542580895951892804617095313526449414847964350072702081257097010869492121628981109652772574875202140969437581414966053622834601835745624633730358531202708324001258165810042285064192 m 0 0 0 0)
      (by norm_num : (8192 : Nat) = 512 + 7680)).trans
    ((consTwin_chunk 2 13 8192 4096 297451032133399501847248817215338247289551159626559455664302910133102053229655088195192431137407574390169395265311080797077991204274544404233615846072283678915493208441212965665353799757256873373822590540376634932975518914480288693615689509986536747798453854370110751566241770075081060955033783220024393287694765782015063869045650538513548745651229066213342854201974766681111045859662205283187454552427805701620011304614378119564874854509920342040775491725421807341288964437555602632428304681756428767300355660554340010248654067159596346304558937949162725435642714210429785583522342700092081938177434283539175478855683275288872901248453586370473179426989812812137901180970309803333085882655413996721608823754469051590718947157906146685330930518689523616402699548830030420096923194453704971866109821138688317956706053251669319568077342130819177190283586828048144669122775385905546075266146478901848075744297484141146146567313305913820534823058900796432902915393388017501626847436892719799351551442349107801434446004208515713531391737717608204008488671650763098448225977660380080112936703729268754624668049592334132540516452810898908190600712014614371651398701948303914585148687549322273487074165441225579730679140686081965765190524735735293606037595209962137504195409490825952020461827824126425769121043132607049786252161739767841633680469059803586322803288679681893606975749057479227354849919315905219367386407103204917808537942569679290237711581064832972856087632439867150900440617137408768027459370616675922323306982409711684198866787439894723421241805185760473194657465518343652245204969131533909882201717298852054552955248336714603817319701512020013879293258517557480615565212688468684362297325467369149568597434085596027129385474377776085993094684324727105622963371092233915088588928797739249688033947889543318861827756608246651707761860891400427570853000697252689785368805703063546467900818836345905621087416683921473461588676521493847782881067125675288486623331896099188041329556385394035585018631866955505318788044228674564433093543586520174624425106581518876121759153944016108496101809358099864849932159161850597827681196928080156942250428256551271037802384407753497009784596320407610250765041444970209145490586790173151537436054981557448376835174345853009833684322613859332644309811451925240090861598181678953621317272372832718100750575633696065166270562046117837675542162409217338642139528364814175957951813844820059067682567136737363947833089926400983067300191943882273070074990178650251486080463888149143388014873246777541219223966585586415109164362531578948298595683038038723404277793948813998233995542171915682130961825385715950256612162846891451666719638958547763059717850472234524916620523128917858373915756611970570265289498397779077371068501686741637073177354827994910456464722148675603152321826369034418698321891536876958952544272650622343731625396612719301341051562694233388685378184657962133239783815860750186800824411991049888069583947459547851096821328478646762477746739559280335760930960908682128949247573941880070551973622887306750511738510760647214207130361200533662907314118097345426330662197195878405701693708839909208678019626822378675385500142088856721652096186782556507592089765788303194908691945987055362266914588716779317456794219888705461149991153292077068405587985571600004034770207581832512199694415878751080411277569147875159316496430705155422013461903809186559113931922208029801161527422494499633431759562726076942854919674297427613915724219006173887509963584407665892500436695035160322400009872360268520690297991606607899730991927419747642687690027561845517428538194550219963585660748175276618490497233313322298914007464236209530587781644349218670546494001615660143878711584098439158345809683034442881734121424825367853658723084571377206772058086259481707708969468397777099882708271738760375342259244099842736023589445329906169239163941617593870470084497478275510592057370097026626294765221876692942383496932142779109589748498512225348872401469298752275688730852326089561133559822871751515582471817551521585979418110548608058398985831199932267961221217183452373377355644827775197108891482990494585992984940503517781965924335626648594939240541543044165483934137107366698422534591931360703660865116595001046279395852357463404938409895035159424654245082432591678033593405950800763624299509153040566223233988282357537007264710246212405408459089834707880526691638979002994481000306397284646885553298616132629760515318028290672364562147422015209141044771105225831982711198321142736853807780318007036277958059345109312025000563207066151881799454771146401823437756458160308318043886372511463952246322039279186024587745776232736467279513188290939309610912654521661137685114303709351255215702585120882156859733081905116166542580895951892804617095313526449414847964350072702081257097010869492121628981109652772574875202140969437581414966053622834601835745624633730358531202708324001258165810042285064192 512 7680 0 0 0 0 7680 1408 1090748135619415929462984244733782862448264161996232692431832786189721331849119295216264234525201987223957291796157025273109870820177184063610979765077554799078906298842192989538609825228048205159696851613591638196771886542609324560121290553901886301017900252535799917200010079600026535836800905297805880952350501630195475653911005312364560014847426035293551245843928918752768696279344088055617515694349945406677825140814900616105920256438504578013326493565836047242407382442812245131517757519164899226365743722432277368075027627883045206501792761700945699168497257879683851737049996900961120515655050115561271491492481590583927528068362121611832823090350947768974356780606151520143159909137700592185973126172549006476832634892320043175548198813118732027663641737580234177980913159623045633884244475482784855404886344648081247352104563861472451615385823425986590596029993310641698108195007662977891130387305710171702108392800405342481083617092101635448437825083882583740945049822653638489673108758706114883347365094331713731596699975938261725221972117250779200055304128046168513740050985243491611524536489366189102777481846235145936332794981035281408958513574002467079517263363759960804366798025455768121371611377977048034894192045148889105932849301709005003660485023396307070002842799287415084771591154205410098591065547417490262801269471243473880419232794723037677046822749255917966882026701115101967672928579204938759126870593494719822570962045224856083465379814197067304055527785726390382224042907138956330901288546022247195789368192586741834256715173645586841633805533035255874578534042223284352263801062906933740009808183425123982513935557731816425336270908245464044971022558545196834183793730787380721588354759775880756688067159760163406805689779707040234357289779749861419696158737871373116918509581967811044598691177286907840785482138297081714756387555000866404326584256860934911229348196156647418209775829700803862835681659300565010941816569219991862358090145088507909557458176389567483320834734447870317084758634795711072860956103516502176258481513586253457517285209204003322539895851658763218231823642385812074705729039435580459786904758822082384790365576882837774229986837482167387760241129894098046458703747671768875119703759981784329442629820399797046418219185242579156262470834906321893469689625100402037157655195439849633942415583790177440891762727133521925778561508064009506329885207563183266772082551640142124068878355675002135965583534343917729995 7668 c1_cons_2_13_s7680).trans (by rfl))

theorem c1_cons_2_13 : consTwin 2 13 8192 4096 297451032133399501847248817215338247289551159626559455664302910133102053229655088195192431137407574390169395265311080797077991204274544404233615846072283678915493208441212965665353799757256873373822590540376634932975518914480288693615689509986536747798453854370110751566241770075081060955033783220024393287694765782015063869045650538513548745651229066213342854201974766681111045859662205283187454552427805701620011304614378119564874854509920342040775491725421807341288964437555602632428304681756428767300355660554340010248654067159596346304558937949162725435642714210429785583522342700092081938177434283539175478855683275288872901248453586370473179426989812812137901180970309803333085882655413996721608823754469051590718947157906146685330930518689523616402699548830030420096923194453704971866109821138688317956706053251669319568077342130819177190283586828048144669122775385905546075266146478901848075744297484141146146567313305913820534823058900796432902915393388017501626847436892719799351551442349107801434446004208515713531391737717608204008488671650763098448225977660380080112936703729268754624668049592334132540516452810898908190600712014614371651398701948303914585148687549322273487074165441225579730679140686081965765190524735735293606037595209962137504195409490825952020461827824126425769121043132607049786252161739767841633680469059803586322803288679681893606975749057479227354849919315905219367386407103204917808537942569679290237711581064832972856087632439867150900440617137408768027459370616675922323306982409711684198866787439894723421241805185760473194657465518343652245204969131533909882201717298852054552955248336714603817319701512020013879293258517557480615565212688468684362297325467369149568597434085596027129385474377776085993094684324727105622963371092233915088588928797739249688033947889543318861827756608246651707761860891400427570853000697252689785368805703063546467900818836345905621087416683921473461588676521493847782881067125675288486623331896099188041329556385394035585018631866955505318788044228674564433093543586520174624425106581518876121759153944016108496101809358099864849932159161850597827681196928080156942250428256551271037802384407753497009784596320407610250765041444970209145490586790173151537436054981557448376835174345853009833684322613859332644309811451925240090861598181678953621317272372832718100750575633696065166270562046117837675542162409217338642139528364814175957951813844820059067682567136737363947833089926400983067300191943882273070074990178650251486080463888149143388014873246777541219223966585586415109164362531578948298595683038038723404277793948813998233995542171915682130961825385715950256612162846891451666719638958547763059717850472234524916620523128917858373915756611970570265289498397779077371068501686741637073177354827994910456464722148675603152321826369034418698321891536876958952544272650622343731625396612719301341051562694233388685378184657962133239783815860750186800824411991049888069583947459547851096821328478646762477746739559280335760930960908682128949247573941880070551973622887306750511738510760647214207130361200533662907314118097345426330662197195878405701693708839909208678019626822378675385500142088856721652096186782556507592089765788303194908691945987055362266914588716779317456794219888705461149991153292077068405587985571600004034770207581832512199694415878751080411277569147875159316496430705155422013461903809186559113931922208029801161527422494499633431759562726076942854919674297427613915724219006173887509963584407665892500436695035160322400009872360268520690297991606607899730991927419747642687690027561845517428538194550219963585660748175276618490497233313322298914007464236209530587781644349218670546494001615660143878711584098439158345809683034442881734121424825367853658723084571377206772058086259481707708969468397777099882708271738760375342259244099842736023589445329906169239163941617593870470084497478275510592057370097026626294765221876692942383496932142779109589748498512225348872401469298752275688730852326089561133559822871751515582471817551521585979418110548608058398985831199932267961221217183452373377355644827775197108891482990494585992984940503517781965924335626648594939240541543044165483934137107366698422534591931360703660865116595001046279395852357463404938409895035159424654245082432591678033593405950800763624299509153040566223233988282357537007264710246212405408459089834707880526691638979002994481000306397284646885553298616132629760515318028290672364562147422015209141044771105225831982711198321142736853807780318007036277958059345109312025000563207066151881799454771146401823437756458160308318043886372511463952246322039279186024587745776232736467279513188290939309610912654521661137685114303709351255215702585120882156859733081905116166542580895951892804617095313526449414847964350072702081257097010869492121628981109652772574875202140969437581414966053622834601835745624633730358531202708324001258165810042285064192 8204 0 0 0 0 = (8204, 4096, 1090748135619415929462984244733782862448264161996232692431832786189721331849119295216264234525201987223957291796157025273109870820177184063610979765077554799078906298842192989538609825228048205159696851613591638196771886542609324560121290553901886301017900252535799917200010079600026535836800905297805880952350501630195475653911005312364560014847426035293551245843928918752768696279344088055617515694349945406677825140814900616105920256438504578013326493565836047242407382442812245131517757519164899226365743722432277368075027627883045206501792761700945699168497257879683851737049996900961120515655050115561271491492515342105748966629547032786321505730828430221664970324396138635251626409516168005427623435996308921691446181187406395310665404885739434832877428167407495370993511868756359970390117021823616749458620969857006263612082706715408157066575137281027022310927564910276759160520878304632411049364568754920967322982459184763427383790272448438018526977764941072715611580434690827459339991961414242741410599117426060556483763756314527611362658628383368621157993638020878537675545336789915694234433955666315070087213535470255670312004130725495834508357439653828936077080978550578912967907352780054935621561090795845172954115972927479877527738560008204118558930004777748727761853813510493840581861598652211605960308356405941821189714037868726219481498727603653616298856174822413033485438785324024751419417183012281078209729303537372804574372095228703622776363945290869806258422355148507571039619387449629866808188769662815778153079393179093143648340761738581819563002994422790754955061288818308430079648693232179158765918035565216157115402992120276155607873107937477466841528362987708699450152031231862594203085693838944657061346236704234026821102958954951197087076546186622796294536451620756509351018906023773821539532776208676978589731966330308893304665169436185078350641568336944530051437491311298834367265238595404904273455928723949525227184617404367854754610474377019768025576605881038077270707717942221977090385438585844095492116099852538903974655703943973086090930596963360767529964938414598185705963754561497355827813623833288906309004288017321424808663962671333528009232758350873059614118723781422101460198615747386855096896089189180441339558524822867541113212638793675567650340362970031930023397828465318547238244232028015189689660418822976000815437610652254270163595650875433851147123214227266605403581781469090806576468950587661997186505665475715792895, 8192) :=
  (congrArg (fun m => consTwin 2 13 8192 4096 297451032133399501847248817215338247289551159626559455664302910133102053229655088195192431137407574390169395265311080797077991204274544404233615846072283678915493208441212965665353799757256873373822590540376634932975518914480288693615689509986536747798453854370110751566241770075081060955033783220024393287694765782015063869045650538513548745651229066213342854201974766681111045859662205283187454552427805701620011304614378119564874854509920342040775491725421807341288964437555602632428304681756428767300355660554340010248654067159596346304558937949162725435642714210429785583522342700092081938177434283539175478855683275288872901248453586370473179426989812812137901180970309803333085882655413996721608823754469051590718947157906146685330930518689523616402699548830030420096923194453704971866109821138688317956706053251669319568077342130819177190283586828048144669122775385905546075266146478901848075744297484141146146567313305913820534823058900796432902915393388017501626847436892719799351551442349107801434446004208515713531391737717608204008488671650763098448225977660380080112936703729268754624668049592334132540516452810898908190600712014614371651398701948303914585148687549322273487074165441225579730679140686081965765190524735735293606037595209962137504195409490825952020461827824126425769121043132607049786252161739767841633680469059803586322803288679681893606975749057479227354849919315905219367386407103204917808537942569679290237711581064832972856087632439867150900440617137408768027459370616675922323306982409711684198866787439894723421241805185760473194657465518343652245204969131533909882201717298852054552955248336714603817319701512020013879293258517557480615565212688468684362297325467369149568597434085596027129385474377776085993094684324727105622963371092233915088588928797739249688033947889543318861827756608246651707761860891400427570853000697252689785368805703063546467900818836345905621087416683921473461588676521493847782881067125675288486623331896099188041329556385394035585018631866955505318788044228674564433093543586520174624425106581518876121759153944016108496101809358099864849932159161850597827681196928080156942250428256551271037802384407753497009784596320407610250765041444970209145490586790173151537436054981557448376835174345853009833684322613859332644309811451925240090861598181678953621317272372832718100750575633696065166270562046117837675542162409217338642139528364814175957951813844820059067682567136737363947833089926400983067300191943882273070074990178650251486080463888149143388014873246777541219223966585586415109164362531578948298595683038038723404277793948813998233995542171915682130961825385715950256612162846891451666719638958547763059717850472234524916620523128917858373915756611970570265289498397779077371068501686741637073177354827994910456464722148675603152321826369034418698321891536876958952544272650622343731625396612719301341051562694233388685378184657962133239783815860750186800824411991049888069583947459547851096821328478646762477746739559280335760930960908682128949247573941880070551973622887306750511738510760647214207130361200533662907314118097345426330662197195878405701693708839909208678019626822378675385500142088856721652096186782556507592089765788303194908691945987055362266914588716779317456794219888705461149991153292077068405587985571600004034770207581832512199694415878751080411277569147875159316496430705155422013461903809186559113931922208029801161527422494499633431759562726076942854919674297427613915724219006173887509963584407665892500436695035160322400009872360268520690297991606607899730991927419747642687690027561845517428538194550219963585660748175276618490497233313322298914007464236209530587781644349218670546494001615660143878711584098439158345809683034442881734121424825367853658723084571377206772058086259481707708969468397777099882708271738760375342259244099842736023589445329906169239163941617593870470084497478275510592057370097026626294765221876692942383496932142779109589748498512225348872401469298752275688730852326089561133559822871751515582471817551521585979418110548608058398985831199932267961221217183452373377355644827775197108891482990494585992984940503517781965924335626648594939240541543044165483934137107366698422534591931360703660865116595001046279395852357463404938409895035159424654245082432591678033593405950800763624299509153040566223233988282357537007264710246212405408459089834707880526691638979002994481000306397284646885553298616132629760515318028290672364562147422015209141044771105225831982711198321142736853807780318007036277958059345109312025000563207066151881799454771146401823437756458160308318043886372511463952246322039279186024587745776232736467279513188290939309610912654521661137685114303709351255215702585120882156859733081905116166542580895951892804617095313526449414847964350072702081257097010869492121628981109652772574875202140969437581414966053622834601835745624633730358531202708324001258165810042285064192 m 0 0 0 0)
      (by norm_num : (8204 : Nat) = 12 + 8192)).trans
    ((consTwin_chunk 2 13 8192 4096 297451032133399501847248817215338247289551159626559455664302910133102053229655088195192431137407574390169395265311080797077991204274544404233615846072283678915493208441212965665353799757256873373822590540376634932975518914480288693615689509986536747798453854370110751566241770075081060955033783220024393287694765782015063869045650538513548745651229066213342854201974766681111045859662205283187454552427805701620011304614378119564874854509920342040775491725421807341288964437555602632428304681756428767300355660554340010248654067159596346304558937949162725435642714210429785583522342700092081938177434283539175478855683275288872901248453586370473179426989812812137901180970309803333085882655413996721608823754469051590718947157906146685330930518689523616402699548830030420096923194453704971866109821138688317956706053251669319568077342130819177190283586828048144669122775385905546075266146478901848075744297484141146146567313305913820534823058900796432902915393388017501626847436892719799351551442349107801434446004208515713531391737717608204008488671650763098448225977660380080112936703729268754624668049592334132540516452810898908190600712014614371651398701948303914585148687549322273487074165441225579730679140686081965765190524735735293606037595209962137504195409490825952020461827824126425769121043132607049786252161739767841633680469059803586322803288679681893606975749057479227354849919315905219367386407103204917808537942569679290237711581064832972856087632439867150900440617137408768027459370616675922323306982409711684198866787439894723421241805185760473194657465518343652245204969131533909882201717298852054552955248336714603817319701512020013879293258517557480615565212688468684362297325467369149568597434085596027129385474377776085993094684324727105622963371092233915088588928797739249688033947889543318861827756608246651707761860891400427570853000697252689785368805703063546467900818836345905621087416683921473461588676521493847782881067125675288486623331896099188041329556385394035585018631866955505318788044228674564433093543586520174624425106581518876121759153944016108496101809358099864849932159161850597827681196928080156942250428256551271037802384407753497009784596320407610250765041444970209145490586790173151537436054981557448376835174345853009833684322613859332644309811451925240090861598181678953621317272372832718100750575633696065166270562046117837675542162409217338642139528364814175957951813844820059067682567136737363947833089926400983067300191943882273070074990178650251486080463888149143388014873246777541219223966585586415109164362531578948298595683038038723404277793948813998233995542171915682130961825385715950256612162846891451666719638958547763059717850472234524916620523128917858373915756611970570265289498397779077371068501686741637073177354827994910456464722148675603152321826369034418698321891536876958952544272650622343731625396612719301341051562694233388685378184657962133239783815860750186800824411991049888069583947459547851096821328478646762477746739559280335760930960908682128949247573941880070551973622887306750511738510760647214207130361200533662907314118097345426330662197195878405701693708839909208678019626822378675385500142088856721652096186782556507592089765788303194908691945987055362266914588716779317456794219888705461149991153292077068405587985571600004034770207581832512199694415878751080411277569147875159316496430705155422013461903809186559113931922208029801161527422494499633431759562726076942854919674297427613915724219006173887509963584407665892500436695035160322400009872360268520690297991606607899730991927419747642687690027561845517428538194550219963585660748175276618490497233313322298914007464236209530587781644349218670546494001615660143878711584098439158345809683034442881734121424825367853658723084571377206772058086259481707708969468397777099882708271738760375342259244099842736023589445329906169239163941617593870470084497478275510592057370097026626294765221876692942383496932142779109589748498512225348872401469298752275688730852326089561133559822871751515582471817551521585979418110548608058398985831199932267961221217183452373377355644827775197108891482990494585992984940503517781965924335626648594939240541543044165483934137107366698422534591931360703660865116595001046279395852357463404938409895035159424654245082432591678033593405950800763624299509153040566223233988282357537007264710246212405408459089834707880526691638979002994481000306397284646885553298616132629760515318028290672364562147422015209141044771105225831982711198321142736853807780318007036277958059345109312025000563207066151881799454771146401823437756458160308318043886372511463952246322039279186024587745776232736467279513188290939309610912654521661137685114303709351255215702585120882156859733081905116166542580895951892804617095313526449414847964350072702081257097010869492121628981109652772574875202140969437581414966053622834601835745624633730358531202708324001258165810042285064192 12 8192 0 0 0 0 8192 129 1090748135619415929462984244733782862448264161996232692431832786189721331849119295216264234525201987223957291796157025273109870820177184063610979765077554799078906298842192989538609825228048205159696851613591638196771886542609324560121290553901886301017900252535799917200010079600026535836800905297805880952350501630195475653911005312364560014847426035293551245843928918752768696279344088055617515694349945406677825140814900616105920256438504578013326493565836047242407382442812245131517757519164899226365743722432277368075027627883045206501792761700945699168497257879683851737049996900961120515655050115561271491492515342105748966629547032786321505730828430221664970324396138635251626409516168005427623435996308921691446181187406395310665404885739434832877428167407495370993511868756359970390117021823616749458620969857006263612082706715408157066575137281027022310927564910276759160520878304632411049364568754920967322982459184763427383790272448438018526977764941072715611580434690827459339991961414242741410599117426060556483763756314527611362658628383368621157993638020878537675545336789915694234433955666315070087213535470255670312004130725495834508357439653828936077080978550578912967907352780054935621561090795845172949630356836459976365823908456065115401516241840661051021695300605376862382268411768889406130230772603092848603504681117144275444289333769100429038188462989547454284891161093490827642112400916375668481205343789681487297523864770532203513608198392052405125784385366119067951988641313066388760422675528539700575701595956351226072804765878569472935231341098343643768030705773967545344564386872092719084024451401499954103397942765498993960151547480358191875097260900977587678237373600503249297433099066899969229828358743432494402979537057090366913949045323234285875708715624276964889608112364325219073459427148199345627855277914837706660144352551668863633069338790751394919268736883601747265435442962068604448244544182022829722876635286384940904969450410299814842264721297080906128289180650841830228405037185508619959663620137186450778488553193962095702461349864915383970878843035870628401828449800315018617515141703199814082585475922946202437499180010944897882007430248380958146680890989522755515609374165789682174211764329660152813658123442585094130300995454774201205465416595764889346571878635279777497011557809995121767600623029718884675987835737235897296492174342899056329713061484543253658446681214846845018110364550869655408299133046081191935 8180 c1_cons_2_13_s8192).trans (by rfl))

theorem c1_inst_2_13 :
    (debruijnCodes 2 13).Nodup ∧ (debruijnCodes 2 13).length = 2 ^ 13 ∧
      ∀ v, v < 2 ^ 13 → v ∈ debruijnCodes 2 13 := by
  have hg : genTwin 2 (2 ^ (13 - 1)) (2 ^ 13 - 13) 0 1 0 13
      = (129, 1090748135619415929462984244733782862448264161996232692431832786189721331849119295216264234525201987223957291796157025273109870820177184063610979765077554799078906298842192989538609825228048205159696851613591638196771886542609324560121290553901886301017900252535799917200010079600026535836800905297805880952350501630195475653911005312364560014847426035293551245843928918752768696279344088055617515694349945406677825140814900616105920256438504578013326493565836047242407382442812245131517757519164899226365743722432277368075027627883045206501792761700945699168497257879683851737049996900961120515655050115561271491492515342105748966629547032786321505730828430221664970324396138635251626409516168005427623435996308921691446181187406395310665404885739434832877428167407495370993511868756359970390117021823616749458620969857006263612082706715408157066575137281027022310927564910276759160520878304632411049364568754920967322982459184763427383790272448438018526977764941072715611580434690827459339991961414242741410599117426060556483763756314527611362658628383368621157993638020878537675545336789915694234433955666315070087213535470255670312004130725495834508357439653828936077080978550578912967907352780054935621561090795845172949630356836459976365823908456065115401516241840661051021695300605376862382268411768889406130230772603092848603504681117144275444289333769100429038188462989547454284891161093490827642112400916375668481205343789681487297523864770532203513608198392052405125784385366119067951988641313066388760422675528539700575701595956351226072804765878569472935231341098343643768030705773967545344564386872092719084024451401499954103397942765498993960151547480358191875097260900977587678237373600503249297433099066899969229828358743432494402979537057090366913949045323234285875708715624276964889608112364325219073459427148199345627855277914837706660144352551668863633069338790751394919268736883601747265435442962068604448244544182022829722876635286384940904969450410299814842264721297080906128289180650841830228405037185508619959663620137186450778488553193962095702461349864915383970878843035870628401828449800315018617515141703199814082585475922946202437499180010944897882007430248380958146680890989522755515609374165789682174211764329660152813658123442585094130300995454774201205465416595764889346571878635279777497011557809995121767600623029718884675987835737235897296492174342899056329713061484543253658446681214846845018110364550869655408299133046081191935, 297451032133399501847248817215338247289551159626559455664302910133102053229655088195192431137407574390169395265311080797077991204274544404233615846072283678915493208441212965665353799757256873373822590540376634932975518914480288693615689509986536747798453854370110751566241770075081060955033783220024393287694765782015063869045650538513548745651229066213342854201974766681111045859662205283187454552427805701620011304614378119564874854509920342040775491725421807341288964437555602632428304681756428767300355660554340010248654067159596346304558937949162725435642714210429785583522342700092081938177434283539175478855683275288872901248453586370473179426989812812137901180970309803333085882655413996721608823754469051590718947157906146685330930518689523616402699548830030420096923194453704971866109821138688317956706053251669319568077342130819177190283586828048144669122775385905546075266146478901848075744297484141146146567313305913820534823058900796432902915393388017501626847436892719799351551442349107801434446004208515713531391737717608204008488671650763098448225977660380080112936703729268754624668049592334132540516452810898908190600712014614371651398701948303914585148687549322273487074165441225579730679140686081965765190524735735293606037595209962137504195409490825952020461827824126425769121043132607049786252161739767841633680469059803586322803288679681893606975749057479227354849919315905219367386407103204917808537942569679290237711581064832972856087632439867150900440617137408768027459370616675922323306982409711684198866787439894723421241805185760473194657465518343652245204969131533909882201717298852054552955248336714603817319701512020013879293258517557480615565212688468684362297325467369149568597434085596027129385474377776085993094684324727105622963371092233915088588928797739249688033947889543318861827756608246651707761860891400427570853000697252689785368805703063546467900818836345905621087416683921473461588676521493847782881067125675288486623331896099188041329556385394035585018631866955505318788044228674564433093543586520174624425106581518876121759153944016108496101809358099864849932159161850597827681196928080156942250428256551271037802384407753497009784596320407610250765041444970209145490586790173151537436054981557448376835174345853009833684322613859332644309811451925240090861598181678953621317272372832718100750575633696065166270562046117837675542162409217338642139528364814175957951813844820059067682567136737363947833089926400983067300191943882273070074990178650251486080463888149143388014873246777541219223966585586415109164362531578948298595683038038723404277793948813998233995542171915682130961825385715950256612162846891451666719638958547763059717850472234524916620523128917858373915756611970570265289498397779077371068501686741637073177354827994910456464722148675603152321826369034418698321891536876958952544272650622343731625396612719301341051562694233388685378184657962133239783815860750186800824411991049888069583947459547851096821328478646762477746739559280335760930960908682128949247573941880070551973622887306750511738510760647214207130361200533662907314118097345426330662197195878405701693708839909208678019626822378675385500142088856721652096186782556507592089765788303194908691945987055362266914588716779317456794219888705461149991153292077068405587985571600004034770207581832512199694415878751080411277569147875159316496430705155422013461903809186559113931922208029801161527422494499633431759562726076942854919674297427613915724219006173887509963584407665892500436695035160322400009872360268520690297991606607899730991927419747642687690027561845517428538194550219963585660748175276618490497233313322298914007464236209530587781644349218670546494001615660143878711584098439158345809683034442881734121424825367853658723084571377206772058086259481707708969468397777099882708271738760375342259244099842736023589445329906169239163941617593870470084497478275510592057370097026626294765221876692942383496932142779109589748498512225348872401469298752275688730852326089561133559822871751515582471817551521585979418110548608058398985831199932267961221217183452373377355644827775197108891482990494585992984940503517781965924335626648594939240541543044165483934137107366698422534591931360703660865116595001046279395852357463404938409895035159424654245082432591678033593405950800763624299509153040566223233988282357537007264710246212405408459089834707880526691638979002994481000306397284646885553298616132629760515318028290672364562147422015209141044771105225831982711198321142736853807780318007036277958059345109312025000563207066151881799454771146401823437756458160308318043886372511463952246322039279186024587745776232736467279513188290939309610912654521661137685114303709351255215702585120882156859733081905116166542580895951892804617095313526449414847964350072702081257097010869492121628981109652772574875202140969437581414966053622834601835745624633730358531202708324001258165810042285064192, 8192) := c1_gen_2_13
  have hm : (2 : Nat) ^ 2 ^ 13 - 1 = 1090748135619415929462984244733782862448264161996232692431832786189721331849119295216264234525201987223957291796157025273109870820177184063610979765077554799078906298842192989538609825228048205159696851613591638196771886542609324560121290553901886301017900252535799917200010079600026535836800905297805880952350501630195475653911005312364560014847426035293551245843928918752768696279344088055617515694349945406677825140814900616105920256438504578013326493565836047242407382442812245131517757519164899226365743722432277368075027627883045206501792761700945699168497257879683851737049996900961120515655050115561271491492515342105748966629547032786321505730828430221664970324396138635251626409516168005427623435996308921691446181187406395310665404885739434832877428167407495370993511868756359970390117021823616749458620969857006263612082706715408157066575137281027022310927564910276759160520878304632411049364568754920967322982459184763427383790272448438018526977764941072715611580434690827459339991961414242741410599117426060556483763756314527611362658628383368621157993638020878537675545336789915694234433955666315070087213535470255670312004130725495834508357439653828936077080978550578912967907352780054935621561090795845172954115972927479877527738560008204118558930004777748727761853813510493840581861598652211605960308356405941821189714037868726219481498727603653616298856174822413033485438785324024751419417183012281078209729303537372804574372095228703622776363945290869806258422355148507571039619387449629866808188769662815778153079393179093143648340761738581819563002994422790754955061288818308430079648693232179158765918035565216157115402992120276155607873107937477466841528362987708699450152031231862594203085693838944657061346236704234026821102958954951197087076546186622796294536451620756509351018906023773821539532776208676978589731966330308893304665169436185078350641568336944530051437491311298834367265238595404904273455928723949525227184617404367854754610474377019768025576605881038077270707717942221977090385438585844095492116099852538903974655703943973086090930596963360767529964938414598185705963754561497355827813623833288906309004288017321424808663962671333528009232758350873059614118723781422101460198615747386855096896089189180441339558524822867541113212638793675567650340362970031930023397828465318547238244232028015189689660418822976000815437610652254270163595650875433851147123214227266605403581781469090806576468950587661997186505665475715792895 := by norm_num
  have hc : consTwin 2 13 (2 ^ 13) (2 ^ (13 - 1)) 297451032133399501847248817215338247289551159626559455664302910133102053229655088195192431137407574390169395265311080797077991204274544404233615846072283678915493208441212965665353799757256873373822590540376634932975518914480288693615689509986536747798453854370110751566241770075081060955033783220024393287694765782015063869045650538513548745651229066213342854201974766681111045859662205283187454552427805701620011304614378119564874854509920342040775491725421807341288964437555602632428304681756428767300355660554340010248654067159596346304558937949162725435642714210429785583522342700092081938177434283539175478855683275288872901248453586370473179426989812812137901180970309803333085882655413996721608823754469051590718947157906146685330930518689523616402699548830030420096923194453704971866109821138688317956706053251669319568077342130819177190283586828048144669122775385905546075266146478901848075744297484141146146567313305913820534823058900796432902915393388017501626847436892719799351551442349107801434446004208515713531391737717608204008488671650763098448225977660380080112936703729268754624668049592334132540516452810898908190600712014614371651398701948303914585148687549322273487074165441225579730679140686081965765190524735735293606037595209962137504195409490825952020461827824126425769121043132607049786252161739767841633680469059803586322803288679681893606975749057479227354849919315905219367386407103204917808537942569679290237711581064832972856087632439867150900440617137408768027459370616675922323306982409711684198866787439894723421241805185760473194657465518343652245204969131533909882201717298852054552955248336714603817319701512020013879293258517557480615565212688468684362297325467369149568597434085596027129385474377776085993094684324727105622963371092233915088588928797739249688033947889543318861827756608246651707761860891400427570853000697252689785368805703063546467900818836345905621087416683921473461588676521493847782881067125675288486623331896099188041329556385394035585018631866955505318788044228674564433093543586520174624425106581518876121759153944016108496101809358099864849932159161850597827681196928080156942250428256551271037802384407753497009784596320407610250765041444970209145490586790173151537436054981557448376835174345853009833684322613859332644309811451925240090861598181678953621317272372832718100750575633696065166270562046117837675542162409217338642139528364814175957951813844820059067682567136737363947833089926400983067300191943882273070074990178650251486080463888149143388014873246777541219223966585586415109164362531578948298595683038038723404277793948813998233995542171915682130961825385715950256612162846891451666719638958547763059717850472234524916620523128917858373915756611970570265289498397779077371068501686741637073177354827994910456464722148675603152321826369034418698321891536876958952544272650622343731625396612719301341051562694233388685378184657962133239783815860750186800824411991049888069583947459547851096821328478646762477746739559280335760930960908682128949247573941880070551973622887306750511738510760647214207130361200533662907314118097345426330662197195878405701693708839909208678019626822378675385500142088856721652096186782556507592089765788303194908691945987055362266914588716779317456794219888705461149991153292077068405587985571600004034770207581832512199694415878751080411277569147875159316496430705155422013461903809186559113931922208029801161527422494499633431759562726076942854919674297427613915724219006173887509963584407665892500436695035160322400009872360268520690297991606607899730991927419747642687690027561845517428538194550219963585660748175276618490497233313322298914007464236209530587781644349218670546494001615660143878711584098439158345809683034442881734121424825367853658723084571377206772058086259481707708969468397777099882708271738760375342259244099842736023589445329906169239163941617593870470084497478275510592057370097026626294765221876692942383496932142779109589748498512225348872401469298752275688730852326089561133559822871751515582471817551521585979418110548608058398985831199932267961221217183452373377355644827775197108891482990494585992984940503517781965924335626648594939240541543044165483934137107366698422534591931360703660865116595001046279395852357463404938409895035159424654245082432591678033593405950800763624299509153040566223233988282357537007264710246212405408459089834707880526691638979002994481000306397284646885553298616132629760515318028290672364562147422015209141044771105225831982711198321142736853807780318007036277958059345109312025000563207066151881799454771146401823437756458160308318043886372511463952246322039279186024587745776232736467279513188290939309610912654521661137685114303709351255215702585120882156859733081905116166542580895951892804617095313526449414847964350072702081257097010869492121628981109652772574875202140969437581414966053622834601835745624633730358531202708324001258165810042285064192 (2 ^ 13 + (13 - 1)) 0 0 0 0
      = (8204, 4096, 2 ^ 2 ^ 13 - 1, 2 ^ 13) := by
    rw [hm]
    exact c1_cons_2_13
  exact debruijn_correct_of_twin 2 13 129 1090748135619415929462984244733782862448264161996232692431832786189721331849119295216264234525201987223957291796157025273109870820177184063610979765077554799078906298842192989538609825228048205159696851613591638196771886542609324560121290553901886301017900252535799917200010079600026535836800905297805880952350501630195475653911005312364560014847426035293551245843928918752768696279344088055617515694349945406677825140814900616105920256438504578013326493565836047242407382442812245131517757519164899226365743722432277368075027627883045206501792761700945699168497257879683851737049996900961120515655050115561271491492515342105748966629547032786321505730828430221664970324396138635251626409516168005427623435996308921691446181187406395310665404885739434832877428167407495370993511868756359970390117021823616749458620969857006263612082706715408157066575137281027022310927564910276759160520878304632411049364568754920967322982459184763427383790272448438018526977764941072715611580434690827459339991961414242741410599117426060556483763756314527611362658628383368621157993638020878537675545336789915694234433955666315070087213535470255670312004130725495834508357439653828936077080978550578912967907352780054935621561090795845172949630356836459976365823908456065115401516241840661051021695300605376862382268411768889406130230772603092848603504681117144275444289333769100429038188462989547454284891161093490827642112400916375668481205343789681487297523864770532203513608198392052405125784385366119067951988641313066388760422675528539700575701595956351226072804765878569472935231341098343643768030705773967545344564386872092719084024451401499954103397942765498993960151547480358191875097260900977587678237373600503249297433099066899969229828358743432494402979537057090366913949045323234285875708715624276964889608112364325219073459427148199345627855277914837706660144352551668863633069338790751394919268736883601747265435442962068604448244544182022829722876635286384940904969450410299814842264721297080906128289180650841830228405037185508619959663620137186450778488553193962095702461349864915383970878843035870628401828449800315018617515141703199814082585475922946202437499180010944897882007430248380958146680890989522755515609374165789682174211764329660152813658123442585094130300995454774201205465416595764889346571878635279777497011557809995121767600623029718884675987835737235897296492174342899056329713061484543253658446681214846845018110364550869655408299133046081191935 297451032133399501847248817215338247289551159626559455664302910133102053229655088195192431137407574390169395265311080797077991204274544404233615846072283678915493208441212965665353799757256873373822590540376634932975518914480288693615689509986536747798453854370110751566241770075081060955033783220024393287694765782015063869045650538513548745651229066213342854201974766681111045859662205283187454552427805701620011304614378119564874854509920342040775491725421807341288964437555602632428304681756428767300355660554340010248654067159596346304558937949162725435642714210429785583522342700092081938177434283539175478855683275288872901248453586370473179426989812812137901180970309803333085882655413996721608823754469051590718947157906146685330930518689523616402699548830030420096923194453704971866109821138688317956706053251669319568077342130819177190283586828048144669122775385905546075266146478901848075744297484141146146567313305913820534823058900796432902915393388017501626847436892719799351551442349107801434446004208515713531391737717608204008488671650763098448225977660380080112936703729268754624668049592334132540516452810898908190600712014614371651398701948303914585148687549322273487074165441225579730679140686081965765190524735735293606037595209962137504195409490825952020461827824126425769121043132607049786252161739767841633680469059803586322803288679681893606975749057479227354849919315905219367386407103204917808537942569679290237711581064832972856087632439867150900440617137408768027459370616675922323306982409711684198866787439894723421241805185760473194657465518343652245204969131533909882201717298852054552955248336714603817319701512020013879293258517557480615565212688468684362297325467369149568597434085596027129385474377776085993094684324727105622963371092233915088588928797739249688033947889543318861827756608246651707761860891400427570853000697252689785368805703063546467900818836345905621087416683921473461588676521493847782881067125675288486623331896099188041329556385394035585018631866955505318788044228674564433093543586520174624425106581518876121759153944016108496101809358099864849932159161850597827681196928080156942250428256551271037802384407753497009784596320407610250765041444970209145490586790173151537436054981557448376835174345853009833684322613859332644309811451925240090861598181678953621317272372832718100750575633696065166270562046117837675542162409217338642139528364814175957951813844820059067682567136737363947833089926400983067300191943882273070074990178650251486080463888149143388014873246777541219223966585586415109164362531578948298595683038038723404277793948813998233995542171915682130961825385715950256612162846891451666719638958547763059717850472234524916620523128917858373915756611970570265289498397779077371068501686741637073177354827994910456464722148675603152321826369034418698321891536876958952544272650622343731625396612719301341051562694233388685378184657962133239783815860750186800824411991049888069583947459547851096821328478646762477746739559280335760930960908682128949247573941880070551973622887306750511738510760647214207130361200533662907314118097345426330662197195878405701693708839909208678019626822378675385500142088856721652096186782556507592089765788303194908691945987055362266914588716779317456794219888705461149991153292077068405587985571600004034770207581832512199694415878751080411277569147875159316496430705155422013461903809186559113931922208029801161527422494499633431759562726076942854919674297427613915724219006173887509963584407665892500436695035160322400009872360268520690297991606607899730991927419747642687690027561845517428538194550219963585660748175276618490497233313322298914007464236209530587781644349218670546494001615660143878711584098439158345809683034442881734121424825367853658723084571377206772058086259481707708969468397777099882708271738760375342259244099842736023589445329906169239163941617593870470084497478275510592057370097026626294765221876692942383496932142779109589748498512225348872401469298752275688730852326089561133559822871751515582471817551521585979418110548608058398985831199932267961221217183452373377355644827775197108891482990494585992984940503517781965924335626648594939240541543044165483934137107366698422534591931360703660865116595001046279395852357463404938409895035159424654245082432591678033593405950800763624299509153040566223233988282357537007264710246212405408459089834707880526691638979002994481000306397284646885553298616132629760515318028290672364562147422015209141044771105225831982711198321142736853807780318007036277958059345109312025000563207066151881799454771146401823437756458160308318043886372511463952246322039279186024587745776232736467279513188290939309610912654521661137685114303709351255215702585120882156859733081905116166542580895951892804617095313526449414847964350072702081257097010869492121628981109652772574875202140969437581414966053622834601835745624633730358531202708324001258165810042285064192 8192 8204 4096 (by decide) (by decide)
    (by decide) (by decide) hg hc

theorem c1_gen_3_1 : genTwin 3 1 2 0 1 0 1 = (1, 7, 24, 3) := by rfl

theorem c1_cons_3_1 : consTwin 3 1 3 1 24 3 0 0 0 0 = (3, 1, 7, 3) := by rfl

theorem c1_inst_3_1 :
    (debruijnCodes 3 1).Nodup ∧ (debruijnCodes 3 1).length = 3 ^ 1 ∧
      ∀ v, v < 3 ^ 1 → v ∈ debruijnCodes 3 1 := by
  have hg : genTwin 3 (3 ^ (1 - 1)) (3 ^ 1 - 1) 0 1 0 1
      = (1, 7, 24, 3) := c1_gen_3_1
  have hm : (2 : Nat) ^ 3 ^ 1 - 1 = 7 := by norm_num
  have hc : consTwin 3 1 (3 ^ 1) (3 ^ (1 - 1)) 24 (3 ^ 1 + (1 - 1)) 0 0 0 0
      = (3, 1, 2 ^ 3 ^ 1 - 1, 3 ^ 1) := by
    rw [hm]
    exact c1_cons_3_1
  exact debruijn_correct_of_twin 3 1 1 7 24 3 3 1 (by decide) (by decide)
    (by decide) (by decide) hg hc

theorem c1_gen_3_2 : genTwin 3 3 7 0 1 0 2 = (4, 503, 84384, 9) := by rfl

theorem c1_cons_3_2 : consTwin 3 2 9 3 84384 10 0 0 0 0 = (10, 3, 511, 9) := by rfl

theorem c1_inst_3_2 :
    (debruijnCodes 3 2).Nodup ∧ (debruijnCodes 3 2).length = 3 ^ 2 ∧
      ∀ v, v < 3 ^ 2 → v ∈ debruijnCodes 3 2 := by
  have hg : genTwin 3 (3 ^ (2 - 1)) (3 ^ 2 - 2) 0 1 0 2
      = (4, 503, 84384, 9) := c1_gen_3_2
  have hm : (2 : Nat) ^ 3 ^ 2 - 1 = 511 := by norm_num
  have hc : consTwin 3 2 (3 ^ 2) (3 ^ (2 - 1)) 84384 (3 ^ 2 + (2 - 1)) 0 0 0 0
      = (10, 3, 2 ^ 3 ^ 2 - 1, 3 ^ 2) := by
    rw [hm]
    exact c1_cons_3_2
  exact debruijn_correct_of_twin 3 2 4 503 84384 9 10 3 (by decide) (by decide)
    (by decide) (by decide) hg hc

theorem c1_gen_3_3 : genTwin 3 9 24 0 1 0 3 = (10, 134217207, 4873663025420928, 27) := by rfl

theorem c1_cons_3_3 : consTwin 3 3 27 9 4873663025420928 29 0 0 0 0 = (29, 9, 134217727, 27) := by rfl

theorem c1_inst_3_3 :
    (debruijnCodes 3 3).Nodup ∧ (debruijnCodes 3 3).length = 3 ^ 3 ∧
      ∀ v, v < 3 ^ 3 → v ∈ debruijnCodes 3 3 := by
  have hg : genTwin 3 (3 ^ (3 - 1)) (3 ^ 3 - 3) 0 1 0 3
      = (10, 134217207, 4873663025420928, 27) := c1_gen_3_3
  have hm : (2 : Nat) ^ 3 ^ 3 - 1 = 134217727 := by norm_num
  have hc : consTwin 3 3 (3 ^ 3) (3 ^ (3 - 1)) 4873663025420928 (3 ^ 3 + (3 - 1)) 0 0 0 0
      = (29, 9, 2 ^ 3 ^ 3 - 1, 3 ^ 3) := by
    rw [hm]
    exact c1_cons_3_3
  exact debruijn_correct_of_twin 3 3 10 134217207 4873663025420928 27 29 9 (by decide) (by decide)
    (by decide) (by decide) hg hc

theorem c1_gen_3_4 : genTwin 3 27 77 0 1 0 4 = (10, 2417851639229257141452287, 1554659170530739233450957631908426167301161200128, 81) := by rfl

theorem c1_cons_3_4 : consTwin 3 4 81 27 1554659170530739233450957631908426167301161200128 84 0 0 0 0 = (84, 27, 2417851639229258349412351, 81) := by rfl

theorem c1_inst_3_4 :
    (debruijnCodes 3 4).Nodup ∧ (debruijnCodes 3 4).length = 3 ^ 4 ∧
      ∀ v, v < 3 ^ 4 → v ∈ debruijnCodes 3 4 := by
  have hg : genTwin 3 (3 ^ (4 - 1)) (3 ^ 4 - 4) 0 1 0 4
      = (10, 2417851639229257141452287, 1554659170530739233450957631908426167301161200128, 81) := c1_gen_3_4
  have hm : (2 : Nat) ^ 3 ^ 4 - 1 = 2417851639229258349412351 := by norm_num
  have hc : consTwin 3 4 (3 ^ 4) (3 ^ (4 - 1)) 1554659170530739233450957631908426167301161200128 (3 ^ 4 + (4 - 1)) 0 0 0 0
      = (84, 27, 2 ^ 3 ^ 4 - 1, 3 ^ 4) := by
    rw [hm]
    exact c1_cons_3_4
  exact debruijn_correct_of_twin 3 4 10 2417851639229257141452287 1554659170530739233450957631908426167301161200128 81 84 27 (by decide) (by decide)
    (by decide) (by decide) hg hc

theorem c1_gen_3_5 : genTwin 3 81 238 0 1 0 5 = (28, 14134776518227074636666380005943348126619871174983191000219786285062028799, 50777432644924302583923987131027175133524983264868596021282564102940466506252850155550914918539188726851904717096585108524888405484656902012577792, 243) := by rfl

theorem c1_cons_3_5 : consTwin 3 5 243 81 50777432644924302583923987131027175133524983264868596021282564102940466506252850155550914918539188726851904717096585108524888405484656902012577792 247 0 0 0 0 = (247, 81, 14134776518227074636666380005943348126619871175004951664972849610340958207, 243) := by rfl

theorem c1_inst_3_5 :
    (debruijnCodes 3 5).Nodup ∧ (debruijnCodes 3 5).length = 3 ^ 5 ∧
      ∀ v, v < 3 ^ 5 → v ∈ debruijnCodes 3 5 := by
  have hg : genTwin 3 (3 ^ (5 - 1)) (3 ^ 5 - 5) 0 1 0 5
      = (28, 14134776518227074636666380005943348126619871174983191000219786285062028799, 50777432644924302583923987131027175133524983264868596021282564102940466506252850155550914918539188726851904717096585108524888405484656902012577792, 243) := c1_gen_3_5
  have hm : (2 : Nat) ^ 3 ^ 5 - 1 = 14134776518227074636666380005943348126619871175004951664972849610340958207 := by norm_num
  have hc : consTwin 3 5 (3 ^ 5) (3 ^ (5 - 1)) 50777432644924302583923987131027175133524983264868596021282564102940466506252850155550914918539188726851904717096585108524888405484656902012577792 (3 ^ 5 + (5 - 1)) 0 0 0 0
      = (247, 81, 2 ^ 3 ^ 5 - 1, 3 ^ 5) := by
    rw [hm]
    exact c1_cons_3_5
  exact debruijn_correct_of_twin 3 5 28 14134776518227074636666380005943348126619871174983191000219786285062028799 50777432644924302583923987131027175133524983264868596021282564102940466506252850155550914918539188726851904717096585108524888405484656902012577792 243 247 81 (by decide) (by decide)
    (by decide) (by decide) hg hc

theorem c1_gen_3_6_s512 : genTwin 3 243 512 0 1 0 6 = (190, 2824013958708217496949108842204627863351353911838534710215675419214628763172346839528110529383815209254557285668342057924987434077233883525379522434619360877533710313986957521826884146938964107756509346686989960680178053, 188489181537807527760327863359645082686239605818481023724201716623638356539085263034919710450301042625845270170024902310514311196445331726190233798672209798018550772187280406040714540626828884594769859612596785009577742815563712782550747300480455071267110170917115849122499992640872429845659204993021925088993280, 518) := by rfl

theorem c1_gen_3_6 : genTwin 3 243 723 0 1 0 6 = (28, 2824013958708217496949108842204627863351353911851577524683401930862693830361198499905873920995229996970897865498283996578123296865878390947626545837346592255941507481629773071635043116498790750161792563653921100175245311, 2025046038931965131953481847470329689457915715767533912511368796310083201918883422389672870189710361987686727363837557596064375440413677184206950807165286391191629915992428931784031174362554018577248484668818735527625890590498145938632859372723311221646704998957421440869080048073660268540266190807578444799557684689345364115239234496527039590554715621136057579418080083140191081540983524187434143761245872883519975422885574825704327651328, 729) :=
  (congrArg (fun m => genTwin 3 243 m 0 1 0 6)
      (by norm_num : (723 : Nat) = 211 + 512)).trans
    ((genTwin_chunk 3 243 211 512 0 1 0 6 190 2824013958708217496949108842204627863351353911838534710215675419214628763172346839528110529383815209254557285668342057924987434077233883525379522434619360877533710313986957521826884146938964107756509346686989960680178053 188489181537807527760327863359645082686239605818481023724201716623638356539085263034919710450301042625845270170024902310514311196445331726190233798672209798018550772187280406040714540626828884594769859612596785009577742815563712782550747300480455071267110170917115849122499992640872429845659204993021925088993280 518 c1_gen_3_6_s512).trans (by rfl))

theorem c1_cons_3_6_s512 : consTwin 3 6 729 243 2025046038931965131953481847470329689457915715767533912511368796310083201918883422389672870189710361987686727363837557596064375440413677184206950807165286391191629915992428931784031174362554018577248484668818735527625890590498145938632859372723311221646704998957421440869080048073660268540266190807578444799557684689345364115239234496527039590554715621136057579418080083140191081540983524187434143761245872883519975422885574825704327651328 512 0 0 0 0 = (512, 191, 2824013958708217496949108842204627863351353911807618408188782262212172709645694368025540941353135789608834350738660422244862277637902901710030255395343580387659869233461368024269914085511221674434756815017413015813357957, 507) := by rfl

theorem c1_cons_3_6 : consTwin 3 6 729 243 2025046038931965131953481847470329689457915715767533912511368796310083201918883422389672870189710361987686727363837557596064375440413677184206950807165286391191629915992428931784031174362554018577248484668818735527625890590498145938632859372723311221646704998957421440869080048073660268540266190807578444799557684689345364115239234496527039590554715621136057579418080083140191081540983524187434143761245872883519975422885574825704327651328 734 0 0 0 0 = (734, 243, 2824013958708217496949108842204627863351353911851577524683401930862693830361198499905873920995229996970897865498283996578123296865878390947626553088486946106430796091482716120572632072492703527723757359478834530365734911, 729) :=
  (congrArg (fun m => consTwin 3 6 729 243 2025046038931965131953481847470329689457915715767533912511368796310083201918883422389672870189710361987686727363837557596064375440413677184206950807165286391191629915992428931784031174362554018577248484668818735527625890590498145938632859372723311221646704998957421440869080048073660268540266190807578444799557684689345364115239234496527039590554715621136057579418080083140191081540983524187434143761245872883519975422885574825704327651328 m 0 0 0 0)
      (by norm_num : (734 : Nat) = 222 + 512)).trans
    ((consTwin_chunk 3 6 729 243 2025046038931965131953481847470329689457915715767533912511368796310083201918883422389672870189710361987686727363837557596064375440413677184206950807165286391191629915992428931784031174362554018577248484668818735527625890590498145938632859372723311221646704998957421440869080048073660268540266190807578444799557684689345364115239234496527039590554715621136057579418080083140191081540983524187434143761245872883519975422885574825704327651328 222 512 0 0 0 0 512 191 2824013958708217496949108842204627863351353911807618408188782262212172709645694368025540941353135789608834350738660422244862277637902901710030255395343580387659869233461368024269914085511221674434756815017413015813357957 507 c1_cons_3_6_s512).trans (by rfl))

theorem c1_inst_3_6 :
    (debruijnCodes 3 6).Nodup ∧ (debruijnCodes 3 6).length = 3 ^ 6 ∧
      ∀ v, v < 3 ^ 6 → v ∈ debruijnCodes 3 6 := by
  have hg : genTwin 3 (3 ^ (6 - 1)) (3 ^ 6 - 6) 0 1 0 6
      = (28, 2824013958708217496949108842204627863351353911851577524683401930862693830361198499905873920995229996970897865498283996578123296865878390947626545837346592255941507481629773071635043116498790750161792563653921100175245311, 2025046038931965131953481847470329689457915715767533912511368796310083201918883422389672870189710361987686727363837557596064375440413677184206950807165286391191629915992428931784031174362554018577248484668818735527625890590498145938632859372723311221646704998957421440869080048073660268540266190807578444799557684689345364115239234496527039590554715621136057579418080083140191081540983524187434143761245872883519975422885574825704327651328, 729) := c1_gen_3_6
  have hm : (2 : Nat) ^ 3 ^ 6 - 1 = 2824013958708217496949108842204627863351353911851577524683401930862693830361198499905873920995229996970897865498283996578123296865878390947626553088486946106430796091482716120572632072492703527723757359478834530365734911 := by norm_num
  have hc : consTwin 3 6 (3 ^ 6) (3 ^ (6 - 1)) 2025046038931965131953481847470329689457915715767533912511368796310083201918883422389672870189710361987686727363837557596064375440413677184206950807165286391191629915992428931784031174362554018577248484668818735527625890590498145938632859372723311221646704998957421440869080048073660268540266190807578444799557684689345364115239234496527039590554715621136057579418080083140191081540983524187434143761245872883519975422885574825704327651328 (3 ^ 6 + (6 - 1)) 0 0 0 0
      = (734, 243, 2 ^ 3 ^ 6 - 1, 3 ^ 6) := by
    rw [hm]
    exact c1_cons_3_6
  exact debruijn_correct_of_twin 3 6 28 2824013958708217496949108842204627863351353911851577524683401930862693830361198499905873920995229996970897865498283996578123296865878390947626545837346592255941507481629773071635043116498790750161792563653921100175245311 2025046038931965131953481847470329689457915715767533912511368796310083201918883422389672870189710361987686727363837557596064375440413677184206950807165286391191629915992428931784031174362554018577248484668818735527625890590498145938632859372723311221646704998957421440869080048073660268540266190807578444799557684689345364115239234496527039590554715621136057579418080083140191081540983524187434143761245872883519975422885574825704327651328 729 734 243 (by decide) (by decide)
    (by decide) (by decide) hg hc

theorem c1_gen_3_7_s512 : genTwin 3 729 512 0 1 0 7 = (2073, 22521666186739810716017129863546473783192179254615437276207331599232067771711787119002533115508075774250240843081573209691670058225681291658752688792425114969893976261462756916791331291464092829151810405337965432615963663127307042949891032305356676100921017730969754633648890564215413156558783845158631942172223735086207235689960274694887768252828170282086800498415684363200894774331904059924450793120650749135511710850017264410301456044793143925325161212930796784598240404840837726094445736466171688603887752233220098984842799069394649478102813330291883028686029803363381116370912937530460777225933149456392030612067490144142513726413765123851795331977052421, 292367688707148277546081571127356858047982500626970781161637019079255029663077319013292115291206285367047865727777747966963500650335596386713448125864514102810786466802239910899161139369354409914845564858953145429041230690590168164373801498047777610485397130177276394722499322124906129101987858586256002184282112, 519) := by rfl

theorem c1_gen_3_7_s1024 : genTwin 3 729 1024 0 1 0 7 = (1478, 22521666186739810716017129863546474247925813985186306383480395759255528183878909786068127955313824510954475108964065259198891223685205025595246009857276215337904232891945440276546777629930204273798995178731877558281554012934141664643170687588087646622171710707013192041914033057418890014771270353518327010096780225507104862992916128314455395877049355976424564754684940677163381402250211311537945836649752424740072895143945248989553744281911976908579010462609212154180768247721024249839391935791829562444861965328688933083585641966526757652028521756759192994724669333498715516666312797233423478074725192173131191521714371682890403620477926147439785057550598405, 281371048018386221627016837250241625108778806464648259357419101141240379578675121276557853483431539142257692099119177528168938677170223267103500410846460631489276739229831929606965449268769636485537342670430866904226397542410757739672598032298525074252180662555383110522136101480834039034519757070517409181704284385187965481018386246731406475094297137129063407300215278477434909205781774531194361918524535639370101813908290334479602888922131424362726273292201777669399671944573795202005806116494906018841884707615600210763124247402399022394064221222431375113142841673846340253151514887898420289320900183237309772702842880, 1031) :=
  (congrArg (fun m => genTwin 3 729 m 0 1 0 7)
      (by norm_num : (1024 : Nat) = 512 + 512)).trans
    ((genTwin_chunk 3 729 512 512 0 1 0 7 2073 22521666186739810716017129863546473783192179254615437276207331599232067771711787119002533115508075774250240843081573209691670058225681291658752688792425114969893976261462756916791331291464092829151810405337965432615963663127307042949891032305356676100921017730969754633648890564215413156558783845158631942172223735086207235689960274694887768252828170282086800498415684363200894774331904059924450793120650749135511710850017264410301456044793143925325161212930796784598240404840837726094445736466171688603887752233220098984842799069394649478102813330291883028686029803363381116370912937530460777225933149456392030612067490144142513726413765123851795331977052421 292367688707148277546081571127356858047982500626970781161637019079255029663077319013292115291206285367047865727777747966963500650335596386713448125864514102810786466802239910899161139369354409914845564858953145429041230690590168164373801498047777610485397130177276394722499322124906129101987858586256002184282112 519 c1_gen_3_7_s512).trans (by rfl))

theorem c1_gen_3_7_s1536 : genTwin 3 729 1536 0 1 0 7 = (502, 22521666186739810716017129863546474247925813985186306383480395759255528226899398031271474259176472311138130302909797370563984143655797579969502618336942780449017028997031026580522415336107267351229909300633978630554453871673482558854138312998005422996304647346037842976194617469257476639101360735214104497336263673680407773184067774211088615339846539834343888164587930688449025389741271255362084505858120782082541216426875369952695571730302559030958876173830041857132385751863646637594766918809592013243402038891784336601241773573300337711545011131072499016336793372152875066247032926130201365186521914972816036818362455077591130428296634707610394871734600069, 37230159491152406327233939160139898111156172599563916638971721430915335218313723711400329063016186942372023008686394375968972456746128931301876013151997581419136788866760969278169903696145970692596007883911612396124676523259015593067066098473682967043619057182519574039489753403337038562811827261229565806395973189471458983693234940007119134731913358456387165793248786252296189012216475313045960571670865894870417332256713134885687017877437642525749478703495850304454285735511548946221969407018186833514540733940872674730282937082434503602005327802758346033219282026680645096639093399419030942291046693533559877356066886286997667171226585155111906182567966012745372960603975617122980066104950279901147200300637237409436949431525112290014634037476947074679395111171891323644372778251774948237050568439686542959476715681175213101841812433727850801220869778837446626396560832851799075474230628645056560429482826212062346766424113152, 1543) :=
  (congrArg (fun m => genTwin 3 729 m 0 1 0 7)
      (by norm_num : (1536 : Nat) = 512 + 1024)).trans
    ((genTwin_chunk 3 729 512 1024 0 1 0 7 1478 22521666186739810716017129863546474247925813985186306383480395759255528183878909786068127955313824510954475108964065259198891223685205025595246009857276215337904232891945440276546777629930204273798995178731877558281554012934141664643170687588087646622171710707013192041914033057418890014771270353518327010096780225507104862992916128314455395877049355976424564754684940677163381402250211311537945836649752424740072895143945248989553744281911976908579010462609212154180768247721024249839391935791829562444861965328688933083585641966526757652028521756759192994724669333498715516666312797233423478074725192173131191521714371682890403620477926147439785057550598405 281371048018386221627016837250241625108778806464648259357419101141240379578675121276557853483431539142257692099119177528168938677170223267103500410846460631489276739229831929606965449268769636485537342670430866904226397542410757739672598032298525074252180662555383110522136101480834039034519757070517409181704284385187965481018386246731406475094297137129063407300215278477434909205781774531194361918524535639370101813908290334479602888922131424362726273292201777669399671944573795202005806116494906018841884707615600210763124247402399022394064221222431375113142841673846340253151514887898420289320900183237309772702842880 1031 c1_gen_3_7_s1024).trans (by rfl))

theorem c1_gen_3_7_s2048 : genTwin 3 729 2048 0 1 0 7 = (99, 22521666186739810716017129863546474247925813985186306383480395759255528226899398031271474259176472311138130302909797370563984143657840869015723623128208458564711932390036470899999940399003451938771468124775412134017692532657825464884083503012941332544315189803894258743410129763523162796142479205191967397857808803103326691485846962197248383173786139099979887421649076845400151445478143644448769821947961046740961183807687864666969338923122838315469149434870726408812600732134131346028553675497396432347940633311578308124222886492581055115013793389460118515671810711275303437477922638904990100446897909016596508808024626718205780316320132110415032936808008133, 551475068101487760170352823263611235844390770402139726772189415956002781707187426923314268705951457316633899369604450503125559260891417951106659142449226120480594587016402504957046068928903748287753411528366924046374062890489842899544598143441200527906047369937856201083666395221379359735037633941094468046824065854375732792963610190868411038629123990880448490894102314774361960555142683725842279388022555754841599789408635018310849001925991611246518883882566632680663664437713664570910517255280052200528075719334503602897797191798611473611425886495163795729512361183660824652258592957205819930838217614184977296671910543142408705054329952128923890354986542520256537102858520065619392505891715341743652057610065068970259010364022639985615229558507958153627204785257889039606570082446293202970141667235763897995533713150344636059787844827618765929240133811378828259150486201585419350982013251458148535224795571310122044533422720191305024647747715556957132736173366482006957711899086493745458566461167951373951776555174635047288322307057483484616517351272318641254128786036717293131609041655334120509327815934659110664415402840467113099998258029066504835403535876979152629855718616546030569166433703521996295137369462387196418921056600064, 2055) :=
  (congrArg (fun m => genTwin 3 729 m 0 1 0 7)
      (by norm_num : (2048 : Nat) = 512 + 1536)).trans
    ((genTwin_chunk 3 729 512 1536 0 1 0 7 502 22521666186739810716017129863546474247925813985186306383480395759255528226899398031271474259176472311138130302909797370563984143655797579969502618336942780449017028997031026580522415336107267351229909300633978630554453871673482558854138312998005422996304647346037842976194617469257476639101360735214104497336263673680407773184067774211088615339846539834343888164587930688449025389741271255362084505858120782082541216426875369952695571730302559030958876173830041857132385751863646637594766918809592013243402038891784336601241773573300337711545011131072499016336793372152875066247032926130201365186521914972816036818362455077591130428296634707610394871734600069 37230159491152406327233939160139898111156172599563916638971721430915335218313723711400329063016186942372023008686394375968972456746128931301876013151997581419136788866760969278169903696145970692596007883911612396124676523259015593067066098473682967043619057182519574039489753403337038562811827261229565806395973189471458983693234940007119134731913358456387165793248786252296189012216475313045960571670865894870417332256713134885687017877437642525749478703495850304454285735511548946221969407018186833514540733940872674730282937082434503602005327802758346033219282026680645096639093399419030942291046693533559877356066886286997667171226585155111906182567966012745372960603975617122980066104950279901147200300637237409436949431525112290014634037476947074679395111171891323644372778251774948237050568439686542959476715681175213101841812433727850801220869778837446626396560832851799075474230628645056560429482826212062346766424113152 1543 c1_gen_3_7_s1536).trans (by rfl))

theorem c1_gen_3_7 : genTwin 3 729 2180 0 1 0 7 = (82, 22521666186739810716017129863546474247925813985186306383480395759255528226899398031271474259176472311138130302909797370563984143657840869015723623128208458564711932390036470899999940399003451938771468124775412134017692556582989981820657376622292117781429636251681663364133246565240603802421309871873386179061056683850002592550658912005406539073633368208169912295100765107813056035892005304712416817301893705332191267615274619407764899318370568154823738186099116672807964633247921551888204450723496965388991020460296672571187428297642889735421102144347771041972888730975965494978936337000172585096482248243431809619879570793154934829676750687749668183180574719, 127309446992753782030296541664978241967661251922642680457828559726351719120511260701726535515358221673389205153363076348759871577070174778248736877087972767547726669045166619120293230924612092446930589503503751106523581333674166417341528621391698170822978562677630442989713714227133660601973238459621853762280732473182742169565036895267230480129274013463808712832550414434985245704805070399622740542602136830481285689018108590961629362894583450725968695706756419427675181908618504698425332687434535522407475978439453168571693536679608312613911345084182155251416078266782217613604004227376566178008655949859890157546784561914061121406449973709900194507285616667576018225524522539444557209182461210475947172511165099082264489388716648316789306665394198707981801958789835637206539340248642519366163027197320131675890432381531312305332679428074188273628337083268779642917566513355831166328445113807983658709293904774780348580406207718753371282048426886146822156446489885140027991540014642009190175176348960064413933656629691579941576008316139947105188830059264009295848809723017456949504404710576364070024427264632369414660458996682954702972737956369949887506177545505065364644140092888910351648531943462848508758436434563244596043048138328188898369483597243146492635661014313157992929608115662653771101110591274894393344, 2187) :=
  (congrArg (fun m => genTwin 3 729 m 0 1 0 7)
      (by norm_num : (2180 : Nat) = 132 + 2048)).trans
    ((genTwin_chunk 3 729 132 2048 0 1 0 7 99 22521666186739810716017129863546474247925813985186306383480395759255528226899398031271474259176472311138130302909797370563984143657840869015723623128208458564711932390036470899999940399003451938771468124775412134017692532657825464884083503012941332544315189803894258743410129763523162796142479205191967397857808803103326691485846962197248383173786139099979887421649076845400151445478143644448769821947961046740961183807687864666969338923122838315469149434870726408812600732134131346028553675497396432347940633311578308124222886492581055115013793389460118515671810711275303437477922638904990100446897909016596508808024626718205780316320132110415032936808008133 551475068101487760170352823263611235844390770402139726772189415956002781707187426923314268705951457316633899369604450503125559260891417951106659142449226120480594587016402504957046068928903748287753411528366924046374062890489842899544598143441200527906047369937856201083666395221379359735037633941094468046824065854375732792963610190868411038629123990880448490894102314774361960555142683725842279388022555754841599789408635018310849001925991611246518883882566632680663664437713664570910517255280052200528075719334503602897797191798611473611425886495163795729512361183660824652258592957205819930838217614184977296671910543142408705054329952128923890354986542520256537102858520065619392505891715341743652057610065068970259010364022639985615229558507958153627204785257889039606570082446293202970141667235763897995533713150344636059787844827618765929240133811378828259150486201585419350982013251458148535224795571310122044533422720191305024647747715556957132736173366482006957711899086493745458566461167951373951776555174635047288322307057483484616517351272318641254128786036717293131609041655334120509327815934659110664415402840467113099998258029066504835403535876979152629855718616546030569166433703521996295137369462387196418921056600064 2055 c1_gen_3_7_s2048).trans (by rfl))

theorem c1_cons_3_7_s512 : consTwin 3 7 2187 729 127309446992753782030296541664978241967661251922642680457828559726351719120511260701726535515358221673389205153363076348759871577070174778248736877087972767547726669045166619120293230924612092446930589503503751106523581333674166417341528621391698170822978562677630442989713714227133660601973238459621853762280732473182742169565036895267230480129274013463808712832550414434985245704805070399622740542602136830481285689018108590961629362894583450725968695706756419427675181908618504698425332687434535522407475978439453168571693536679608312613911345084182155251416078266782217613604004227376566178008655949859890157546784561914061121406449973709900194507285616667576018225524522539444557209182461210475947172511165099082264489388716648316789306665394198707981801958789835637206539340248642519366163027197320131675890432381531312305332679428074188273628337083268779642917566513355831166328445113807983658709293904774780348580406207718753371282048426886146822156446489885140027991540014642009190175176348960064413933656629691579941576008316139947105188830059264009295848809723017456949504404710576364070024427264632369414660458996682954702972737956369949887506177545505065364644140092888910351648531943462848508758436434563244596043048138328188898369483597243146492635661014313157992929608115662653771101110591274894393344 512 0 0 0 0 = (512, 2074, 22521666186739810716017129863546472698813396591223091952866450360870994271723454287015864812304584969189243587792205007062612342441202811872191115472173671179757168400099970833157549949601538807100994577292719204286396607047825247667342523715429618154959256380903122074303905961300718763762915345791566317525892554506677162062349888779699130070475850853485815476274461727214105978316070178941828264334027869076535005741275267397034538009225841355144933265741364322848094940706462428027342998976525513006469520065697328313095177176547110876135584456207824287755849181017892750877161229812770236747672983678797537154730641488454517296979350713891562240207749381, 506) := by rfl

theorem c1_cons_3_7_s1024 : consTwin 3 7 2187 729 127309446992753782030296541664978241967661251922642680457828559726351719120511260701726535515358221673389205153363076348759871577070174778248736877087972767547726669045166619120293230924612092446930589503503751106523581333674166417341528621391698170822978562677630442989713714227133660601973238459621853762280732473182742169565036895267230480129274013463808712832550414434985245704805070399622740542602136830481285689018108590961629362894583450725968695706756419427675181908618504698425332687434535522407475978439453168571693536679608312613911345084182155251416078266782217613604004227376566178008655949859890157546784561914061121406449973709900194507285616667576018225524522539444557209182461210475947172511165099082264489388716648316789306665394198707981801958789835637206539340248642519366163027197320131675890432381531312305332679428074188273628337083268779642917566513355831166328445113807983658709293904774780348580406207718753371282048426886146822156446489885140027991540014642009190175176348960064413933656629691579941576008316139947105188830059264009295848809723017456949504404710576364070024427264632369414660458996682954702972737956369949887506177545505065364644140092888910351648531943462848508758436434563244596043048138328188898369483597243146492635661014313157992929608115662653771101110591274894393344 1024 0 0 0 0 = (1024, 1481, 22521666186739810716017129863546474247925813985186306383480395759255528081904419120407392355612046813419833174987047568009097477281527713398263032513824082879023633736785936475317054681502601388525511137696037597232812057843922261718644656926698689089691946342388621209598352931441807784590200692869375639431547739362119805370494488418194067989846979314000873901182304020110731132024011447173437800799886719111435520713895215304250249422925844857804677413758861481453015762371498492215988877259051986178050436822518504760203520886208965601455603918049288157439859432190399545449961109670831950109610837586877985477471778779586453924855070613600895353789350149, 1018) :=
  (congrArg (fun m => consTwin 3 7 2187 729 127309446992753782030296541664978241967661251922642680457828559726351719120511260701726535515358221673389205153363076348759871577070174778248736877087972767547726669045166619120293230924612092446930589503503751106523581333674166417341528621391698170822978562677630442989713714227133660601973238459621853762280732473182742169565036895267230480129274013463808712832550414434985245704805070399622740542602136830481285689018108590961629362894583450725968695706756419427675181908618504698425332687434535522407475978439453168571693536679608312613911345084182155251416078266782217613604004227376566178008655949859890157546784561914061121406449973709900194507285616667576018225524522539444557209182461210475947172511165099082264489388716648316789306665394198707981801958789835637206539340248642519366163027197320131675890432381531312305332679428074188273628337083268779642917566513355831166328445113807983658709293904774780348580406207718753371282048426886146822156446489885140027991540014642009190175176348960064413933656629691579941576008316139947105188830059264009295848809723017456949504404710576364070024427264632369414660458996682954702972737956369949887506177545505065364644140092888910351648531943462848508758436434563244596043048138328188898369483597243146492635661014313157992929608115662653771101110591274894393344 m 0 0 0 0)
      (by norm_num : (1024 : Nat) = 512 + 512)).trans
    ((consTwin_chunk 3 7 2187 729 127309446992753782030296541664978241967661251922642680457828559726351719120511260701726535515358221673389205153363076348759871577070174778248736877087972767547726669045166619120293230924612092446930589503503751106523581333674166417341528621391698170822978562677630442989713714227133660601973238459621853762280732473182742169565036895267230480129274013463808712832550414434985245704805070399622740542602136830481285689018108590961629362894583450725968695706756419427675181908618504698425332687434535522407475978439453168571693536679608312613911345084182155251416078266782217613604004227376566178008655949859890157546784561914061121406449973709900194507285616667576018225524522539444557209182461210475947172511165099082264489388716648316789306665394198707981801958789835637206539340248642519366163027197320131675890432381531312305332679428074188273628337083268779642917566513355831166328445113807983658709293904774780348580406207718753371282048426886146822156446489885140027991540014642009190175176348960064413933656629691579941576008316139947105188830059264009295848809723017456949504404710576364070024427264632369414660458996682954702972737956369949887506177545505065364644140092888910351648531943462848508758436434563244596043048138328188898369483597243146492635661014313157992929608115662653771101110591274894393344 512 512 0 0 0 0 512 2074 22521666186739810716017129863546472698813396591223091952866450360870994271723454287015864812304584969189243587792205007062612342441202811872191115472173671179757168400099970833157549949601538807100994577292719204286396607047825247667342523715429618154959256380903122074303905961300718763762915345791566317525892554506677162062349888779699130070475850853485815476274461727214105978316070178941828264334027869076535005741275267397034538009225841355144933265741364322848094940706462428027342998976525513006469520065697328313095177176547110876135584456207824287755849181017892750877161229812770236747672983678797537154730641488454517296979350713891562240207749381 506 c1_cons_3_7_s512).trans (by rfl))

theorem c1_cons_3_7_s1536 : consTwin 3 7 2187 729 127309446992753782030296541664978241967661251922642680457828559726351719120511260701726535515358221673389205153363076348759871577070174778248736877087972767547726669045166619120293230924612092446930589503503751106523581333674166417341528621391698170822978562677630442989713714227133660601973238459621853762280732473182742169565036895267230480129274013463808712832550414434985245704805070399622740542602136830481285689018108590961629362894583450725968695706756419427675181908618504698425332687434535522407475978439453168571693536679608312613911345084182155251416078266782217613604004227376566178008655949859890157546784561914061121406449973709900194507285616667576018225524522539444557209182461210475947172511165099082264489388716648316789306665394198707981801958789835637206539340248642519366163027197320131675890432381531312305332679428074188273628337083268779642917566513355831166328445113807983658709293904774780348580406207718753371282048426886146822156446489885140027991540014642009190175176348960064413933656629691579941576008316139947105188830059264009295848809723017456949504404710576364070024427264632369414660458996682954702972737956369949887506177545505065364644140092888910351648531943462848508758436434563244596043048138328188898369483597243146492635661014313157992929608115662653771101110591274894393344 1536 0 0 0 0 = (1536, 520, 22521666186739810716017129863546474247925813985186306383480395759255528226899398031271474259176472311138130302909797370563984143651736211564442526925832553192031864969226053054804615367904781031456028191546108845984093719926101270062967890539624035353828929018859254140677077071444621803212994558555143259443860154688581745495331296616531346601427624135434133913699754164589153347632001524438567079143288770658354363896996107783478708859960243372611879893302872529660455007028083148373197061174816112944699070034888695436763585303766255750298807870759712320730049011156100491415947605115799517361849091926905678222151960835898761897190181791028495651021390213, 1530) :=
  (congrArg (fun m => consTwin 3 7 2187 729 127309446992753782030296541664978241967661251922642680457828559726351719120511260701726535515358221673389205153363076348759871577070174778248736877087972767547726669045166619120293230924612092446930589503503751106523581333674166417341528621391698170822978562677630442989713714227133660601973238459621853762280732473182742169565036895267230480129274013463808712832550414434985245704805070399622740542602136830481285689018108590961629362894583450725968695706756419427675181908618504698425332687434535522407475978439453168571693536679608312613911345084182155251416078266782217613604004227376566178008655949859890157546784561914061121406449973709900194507285616667576018225524522539444557209182461210475947172511165099082264489388716648316789306665394198707981801958789835637206539340248642519366163027197320131675890432381531312305332679428074188273628337083268779642917566513355831166328445113807983658709293904774780348580406207718753371282048426886146822156446489885140027991540014642009190175176348960064413933656629691579941576008316139947105188830059264009295848809723017456949504404710576364070024427264632369414660458996682954702972737956369949887506177545505065364644140092888910351648531943462848508758436434563244596043048138328188898369483597243146492635661014313157992929608115662653771101110591274894393344 m 0 0 0 0)
      (by norm_num : (1536 : Nat) = 512 + 1024)).trans
    ((consTwin_chunk 3 7 2187 729 127309446992753782030296541664978241967661251922642680457828559726351719120511260701726535515358221673389205153363076348759871577070174778248736877087972767547726669045166619120293230924612092446930589503503751106523581333674166417341528621391698170822978562677630442989713714227133660601973238459621853762280732473182742169565036895267230480129274013463808712832550414434985245704805070399622740542602136830481285689018108590961629362894583450725968695706756419427675181908618504698425332687434535522407475978439453168571693536679608312613911345084182155251416078266782217613604004227376566178008655949859890157546784561914061121406449973709900194507285616667576018225524522539444557209182461210475947172511165099082264489388716648316789306665394198707981801958789835637206539340248642519366163027197320131675890432381531312305332679428074188273628337083268779642917566513355831166328445113807983658709293904774780348580406207718753371282048426886146822156446489885140027991540014642009190175176348960064413933656629691579941576008316139947105188830059264009295848809723017456949504404710576364070024427264632369414660458996682954702972737956369949887506177545505065364644140092888910351648531943462848508758436434563244596043048138328188898369483597243146492635661014313157992929608115662653771101110591274894393344 512 1024 0 0 0 0 1024 1481 22521666186739810716017129863546474247925813985186306383480395759255528081904419120407392355612046813419833174987047568009097477281527713398263032513824082879023633736785936475317054681502601388525511137696037597232812057843922261718644656926698689089691946342388621209598352931441807784590200692869375639431547739362119805370494488418194067989846979314000873901182304020110731132024011447173437800799886719111435520713895215304250249422925844857804677413758861481453015762371498492215988877259051986178050436822518504760203520886208965601455603918049288157439859432190399545449961109670831950109610837586877985477471778779586453924855070613600895353789350149 1018 c1_cons_3_7_s1024).trans (by rfl))

theorem c1_cons_3_7_s2048 : consTwin 3 7 2187 729 127309446992753782030296541664978241967661251922642680457828559726351719120511260701726535515358221673389205153363076348759871577070174778248736877087972767547726669045166619120293230924612092446930589503503751106523581333674166417341528621391698170822978562677630442989713714227133660601973238459621853762280732473182742169565036895267230480129274013463808712832550414434985245704805070399622740542602136830481285689018108590961629362894583450725968695706756419427675181908618504698425332687434535522407475978439453168571693536679608312613911345084182155251416078266782217613604004227376566178008655949859890157546784561914061121406449973709900194507285616667576018225524522539444557209182461210475947172511165099082264489388716648316789306665394198707981801958789835637206539340248642519366163027197320131675890432381531312305332679428074188273628337083268779642917566513355831166328445113807983658709293904774780348580406207718753371282048426886146822156446489885140027991540014642009190175176348960064413933656629691579941576008316139947105188830059264009295848809723017456949504404710576364070024427264632369414660458996682954702972737956369949887506177545505065364644140092888910351648531943462848508758436434563244596043048138328188898369483597243146492635661014313157992929608115662653771101110591274894393344 2048 0 0 0 0 = (2048, 126, 22521666186739810716017129863546474247925813985186306383480395759255528226899398031271474259176472311138130302909797370563984143657840869015723623128208458564711932390036470899999940399003451938771468124775412134017692468857386753053219840054672571912009999276461179754815151625609986779398931136851607199214665289666512497571103044405314517263747804607619231597076873504017859197133054641881006348804340433917081530404971341931325823283428563411208781551361075667790554605021635742200783275667871260015031336480865863244120974288434007213703545560863860964284643419739298430173338341460152938434803998403702622254512759017140991667372760776323614278091227589, 2042) :=
  (congrArg (fun m => consTwin 3 7 2187 729 127309446992753782030296541664978241967661251922642680457828559726351719120511260701726535515358221673389205153363076348759871577070174778248736877087972767547726669045166619120293230924612092446930589503503751106523581333674166417341528621391698170822978562677630442989713714227133660601973238459621853762280732473182742169565036895267230480129274013463808712832550414434985245704805070399622740542602136830481285689018108590961629362894583450725968695706756419427675181908618504698425332687434535522407475978439453168571693536679608312613911345084182155251416078266782217613604004227376566178008655949859890157546784561914061121406449973709900194507285616667576018225524522539444557209182461210475947172511165099082264489388716648316789306665394198707981801958789835637206539340248642519366163027197320131675890432381531312305332679428074188273628337083268779642917566513355831166328445113807983658709293904774780348580406207718753371282048426886146822156446489885140027991540014642009190175176348960064413933656629691579941576008316139947105188830059264009295848809723017456949504404710576364070024427264632369414660458996682954702972737956369949887506177545505065364644140092888910351648531943462848508758436434563244596043048138328188898369483597243146492635661014313157992929608115662653771101110591274894393344 m 0 0 0 0)
      (by norm_num : (2048 : Nat) = 512 + 1536)).trans
    ((consTwin_chunk 3 7 2187 729 127309446992753782030296541664978241967661251922642680457828559726351719120511260701726535515358221673389205153363076348759871577070174778248736877087972767547726669045166619120293230924612092446930589503503751106523581333674166417341528621391698170822978562677630442989713714227133660601973238459621853762280732473182742169565036895267230480129274013463808712832550414434985245704805070399622740542602136830481285689018108590961629362894583450725968695706756419427675181908618504698425332687434535522407475978439453168571693536679608312613911345084182155251416078266782217613604004227376566178008655949859890157546784561914061121406449973709900194507285616667576018225524522539444557209182461210475947172511165099082264489388716648316789306665394198707981801958789835637206539340248642519366163027197320131675890432381531312305332679428074188273628337083268779642917566513355831166328445113807983658709293904774780348580406207718753371282048426886146822156446489885140027991540014642009190175176348960064413933656629691579941576008316139947105188830059264009295848809723017456949504404710576364070024427264632369414660458996682954702972737956369949887506177545505065364644140092888910351648531943462848508758436434563244596043048138328188898369483597243146492635661014313157992929608115662653771101110591274894393344 512 1536 0 0 0 0 1536 520 22521666186739810716017129863546474247925813985186306383480395759255528226899398031271474259176472311138130302909797370563984143651736211564442526925832553192031864969226053054804615367904781031456028191546108845984093719926101270062967890539624035353828929018859254140677077071444621803212994558555143259443860154688581745495331296616531346601427624135434133913699754164589153347632001524438567079143288770658354363896996107783478708859960243372611879893302872529660455007028083148373197061174816112944699070034888695436763585303766255750298807870759712320730049011156100491415947605115799517361849091926905678222151960835898761897190181791028495651021390213 1530 c1_cons_3_7_s1536).trans (by rfl))

theorem c1_cons_3_7 : consTwin 3 7 2187 729 127309446992753782030296541664978241967661251922642680457828559726351719120511260701726535515358221673389205153363076348759871577070174778248736877087972767547726669045166619120293230924612092446930589503503751106523581333674166417341528621391698170822978562677630442989713714227133660601973238459621853762280732473182742169565036895267230480129274013463808712832550414434985245704805070399622740542602136830481285689018108590961629362894583450725968695706756419427675181908618504698425332687434535522407475978439453168571693536679608312613911345084182155251416078266782217613604004227376566178008655949859890157546784561914061121406449973709900194507285616667576018225524522539444557209182461210475947172511165099082264489388716648316789306665394198707981801958789835637206539340248642519366163027197320131675890432381531312305332679428074188273628337083268779642917566513355831166328445113807983658709293904774780348580406207718753371282048426886146822156446489885140027991540014642009190175176348960064413933656629691579941576008316139947105188830059264009295848809723017456949504404710576364070024427264632369414660458996682954702972737956369949887506177545505065364644140092888910351648531943462848508758436434563244596043048138328188898369483597243146492635661014313157992929608115662653771101110591274894393344 2193 0 0 0 0 = (2193, 729, 22521666186739810716017129863546474247925813985186306383480395759255528226899398031271474259176472311138130302909797370563984143657840869015723623128208458564711932390036470899999940399003451938771468124775412134017692556582989981820657376622292117781429636251681663364133246565240603802421309871873386179061056683850002592550658912005406539073633368208169912295100765107813056035892005304712416817301893705332191267615274619407764899319819287315641053762034009508858938727147166108668063720886082155921552955435591503022900749768195878181491707144967461286550140023171580051111358071521188926359524314904062599527129957121490685127011258936786658012354838527, 2187) :=
  (congrArg (fun m => consTwin 3 7 2187 729 127309446992753782030296541664978241967661251922642680457828559726351719120511260701726535515358221673389205153363076348759871577070174778248736877087972767547726669045166619120293230924612092446930589503503751106523581333674166417341528621391698170822978562677630442989713714227133660601973238459621853762280732473182742169565036895267230480129274013463808712832550414434985245704805070399622740542602136830481285689018108590961629362894583450725968695706756419427675181908618504698425332687434535522407475978439453168571693536679608312613911345084182155251416078266782217613604004227376566178008655949859890157546784561914061121406449973709900194507285616667576018225524522539444557209182461210475947172511165099082264489388716648316789306665394198707981801958789835637206539340248642519366163027197320131675890432381531312305332679428074188273628337083268779642917566513355831166328445113807983658709293904774780348580406207718753371282048426886146822156446489885140027991540014642009190175176348960064413933656629691579941576008316139947105188830059264009295848809723017456949504404710576364070024427264632369414660458996682954702972737956369949887506177545505065364644140092888910351648531943462848508758436434563244596043048138328188898369483597243146492635661014313157992929608115662653771101110591274894393344 m 0 0 0 0)
      (by norm_num : (2193 : Nat) = 145 + 2048)).trans
    ((consTwin_chunk 3 7 2187 729 127309446992753782030296541664978241967661251922642680457828559726351719120511260701726535515358221673389205153363076348759871577070174778248736877087972767547726669045166619120293230924612092446930589503503751106523581333674166417341528621391698170822978562677630442989713714227133660601973238459621853762280732473182742169565036895267230480129274013463808712832550414434985245704805070399622740542602136830481285689018108590961629362894583450725968695706756419427675181908618504698425332687434535522407475978439453168571693536679608312613911345084182155251416078266782217613604004227376566178008655949859890157546784561914061121406449973709900194507285616667576018225524522539444557209182461210475947172511165099082264489388716648316789306665394198707981801958789835637206539340248642519366163027197320131675890432381531312305332679428074188273628337083268779642917566513355831166328445113807983658709293904774780348580406207718753371282048426886146822156446489885140027991540014642009190175176348960064413933656629691579941576008316139947105188830059264009295848809723017456949504404710576364070024427264632369414660458996682954702972737956369949887506177545505065364644140092888910351648531943462848508758436434563244596043048138328188898369483597243146492635661014313157992929608115662653771101110591274894393344 145 2048 0 0 0 0 2048 126 22521666186739810716017129863546474247925813985186306383480395759255528226899398031271474259176472311138130302909797370563984143657840869015723623128208458564711932390036470899999940399003451938771468124775412134017692468857386753053219840054672571912009999276461179754815151625609986779398931136851607199214665289666512497571103044405314517263747804607619231597076873504017859197133054641881006348804340433917081530404971341931325823283428563411208781551361075667790554605021635742200783275667871260015031336480865863244120974288434007213703545560863860964284643419739298430173338341460152938434803998403702622254512759017140991667372760776323614278091227589 2042 c1_cons_3_7_s2048).trans (by rfl))

theorem c1_inst_3_7 :
    (debruijnCodes 3 7).Nodup ∧ (debruijnCodes 3 7).length = 3 ^ 7 ∧
      ∀ v, v < 3 ^ 7 → v ∈ debruijnCodes 3 7 := by
  have hg : genTwin 3 (3 ^ (7 - 1)) (3 ^ 7 - 7) 0 1 0 7
      = (82, 22521666186739810716017129863546474247925813985186306383480395759255528226899398031271474259176472311138130302909797370563984143657840869015723623128208458564711932390036470899999940399003451938771468124775412134017692556582989981820657376622292117781429636251681663364133246565240603802421309871873386179061056683850002592550658912005406539073633368208169912295100765107813056035892005304712416817301893705332191267615274619407764899318370568154823738186099116672807964633247921551888204450723496965388991020460296672571187428297642889735421102144347771041972888730975965494978936337000172585096482248243431809619879570793154934829676750687749668183180574719, 127309446992753782030296541664978241967661251922642680457828559726351719120511260701726535515358221673389205153363076348759871577070174778248736877087972767547726669045166619120293230924612092446930589503503751106523581333674166417341528621391698170822978562677630442989713714227133660601973238459621853762280732473182742169565036895267230480129274013463808712832550414434985245704805070399622740542602136830481285689018108590961629362894583450725968695706756419427675181908618504698425332687434535522407475978439453168571693536679608312613911345084182155251416078266782217613604004227376566178008655949859890157546784561914061121406449973709900194507285616667576018225524522539444557209182461210475947172511165099082264489388716648316789306665394198707981801958789835637206539340248642519366163027197320131675890432381531312305332679428074188273628337083268779642917566513355831166328445113807983658709293904774780348580406207718753371282048426886146822156446489885140027991540014642009190175176348960064413933656629691579941576008316139947105188830059264009295848809723017456949504404710576364070024427264632369414660458996682954702972737956369949887506177545505065364644140092888910351648531943462848508758436434563244596043048138328188898369483597243146492635661014313157992929608115662653771101110591274894393344, 2187) := c1_gen_3_7
  have hm : (2 : Nat) ^ 3 ^ 7 - 1 = 22521666186739810716017129863546474247925813985186306383480395759255528226899398031271474259176472311138130302909797370563984143657840869015723623128208458564711932390036470899999940399003451938771468124775412134017692556582989981820657376622292117781429636251681663364133246565240603802421309871873386179061056683850002592550658912005406539073633368208169912295100765107813056035892005304712416817301893705332191267615274619407764899319819287315641053762034009508858938727147166108668063720886082155921552955435591503022900749768195878181491707144967461286550140023171580051111358071521188926359524314904062599527129957121490685127011258936786658012354838527 := by norm_num
  have hc : consTwin 3 7 (3 ^ 7) (3 ^ (7 - 1)) 127309446992753782030296541664978241967661251922642680457828559726351719120511260701726535515358221673389205153363076348759871577070174778248736877087972767547726669045166619120293230924612092446930589503503751106523581333674166417341528621391698170822978562677630442989713714227133660601973238459621853762280732473182742169565036895267230480129274013463808712832550414434985245704805070399622740542602136830481285689018108590961629362894583450725968695706756419427675181908618504698425332687434535522407475978439453168571693536679608312613911345084182155251416078266782217613604004227376566178008655949859890157546784561914061121406449973709900194507285616667576018225524522539444557209182461210475947172511165099082264489388716648316789306665394198707981801958789835637206539340248642519366163027197320131675890432381531312305332679428074188273628337083268779642917566513355831166328445113807983658709293904774780348580406207718753371282048426886146822156446489885140027991540014642009190175176348960064413933656629691579941576008316139947105188830059264009295848809723017456949504404710576364070024427264632369414660458996682954702972737956369949887506177545505065364644140092888910351648531943462848508758436434563244596043048138328188898369483597243146492635661014313157992929608115662653771101110591274894393344 (3 ^ 7 + (7 - 1)) 0 0 0 0
      = (2193, 729, 2 ^ 3 ^ 7 - 1, 3 ^ 7) := by
    rw [hm]
    exact c1_cons_3_7
  exact debruijn_correct_of_twin 3 7 82 22521666186739810716017129863546474247925813985186306383480395759255528226899398031271474259176472311138130302909797370563984143657840869015723623128208458564711932390036470899999940399003451938771468124775412134017692556582989981820657376622292117781429636251681663364133246565240603802421309871873386179061056683850002592550658912005406539073633368208169912295100765107813056035892005304712416817301893705332191267615274619407764899318370568154823738186099116672807964633247921551888204450723496965388991020460296672571187428297642889735421102144347771041972888730975965494978936337000172585096482248243431809619879570793154934829676750687749668183180574719 127309446992753782030296541664978241967661251922642680457828559726351719120511260701726535515358221673389205153363076348759871577070174778248736877087972767547726669045166619120293230924612092446930589503503751106523581333674166417341528621391698170822978562677630442989713714227133660601973238459621853762280732473182742169565036895267230480129274013463808712832550414434985245704805070399622740542602136830481285689018108590961629362894583450725968695706756419427675181908618504698425332687434535522407475978439453168571693536679608312613911345084182155251416078266782217613604004227376566178008655949859890157546784561914061121406449973709900194507285616667576018225524522539444557209182461210475947172511165099082264489388716648316789306665394198707981801958789835637206539340248642519366163027197320131675890432381531312305332679428074188273628337083268779642917566513355831166328445113807983658709293904774780348580406207718753371282048426886146822156446489885140027991540014642009190175176348960064413933656629691579941576008316139947105188830059264009295848809723017456949504404710576364070024427264632369414660458996682954702972737956369949887506177545505065364644140092888910351648531943462848508758436434563244596043048138328188898369483597243146492635661014313157992929608115662653771101110591274894393344 2187 2193 729 (by decide) (by decide)
    (by decide) (by decide) hg hc

theorem c1_gen_3_8_s512 : genTwin 3 2187 512 0 1 0 8 = (3995, 11423562217377937432834817564802597215161932503090694964841408616126077826778150821975382894654297917602479994905379232725488941002126576305153104791274645846961414734454085708528728271412931003490319102117867726040377917811373956524231330139693766288832235157794296197997969539027523687652305497216110621040732960318985443724921368466768008450454601939309500793703672056687152021123899040972423063454602656126379327902765269549169476788514085039351119850250675178694919138957660840579047970750204292796753273294746904522723934137152620484638731547817034415642524737406868838649576777758104983967022797192854358463733417375675095445712830265917733628476811306881432337602441252514267905309853157293762723805363727096514673699906290468297840882185697228225732284105562771044514577617632313703762786360517892716689301370114467156295202784978514205887512713818469090243427050420323004245412476208014373707283199930243710061801499738378201234872176291379004138646016237383966148003297004243015115397464798331351187134483865663492335907758674969874326737209498460113368764913672483379761099999374818704021585842007762719127310497016838080914531242278084604692793538874627778055860875412001516191269629255707829169270637223499273174130103293451019556590750966600326810575397203744278951788886116878933425651094943465415905170256223688393316547820507707578855448581785938595898487397324630710103979325778042894958307736834304200530786631095450687194150325730405041575067824224494984911197929786401361421954419012525747919188418203180043343809029870430671173524265711190502442138259526142966591698259314274456887699299210882670272303518462580536888374928965150279127537314163540217386451662547897282271728809869022685917801003495777881561290755558674971870167928725273683017099071256642135834154547984278163751535428378091694337484304627869538981677420747310790660170239276524785154699122428926251673369394447438145500600229674395737528691938833248567181725619238549548106471264223493, 7747637025091066201673917517583244672571508481983011567373709536824837312733236749348413727231660777355983787746800546787316822888621025160908072142217371385594919787117305898647991422699108807313858430308230583715955233284040280247748960949565877204533180588543388437578596303005859276341930171461750343858782208, 520) := by rfl

theorem c1_gen_3_8_s1024 : genTwin 3 2187 1024 0 1 0 8 = (4309, 11423562217377937432834817564864391054921813476074403186202551208011394296735739759042042595846209810010546387007457288578915966727272486091362019078060522865547580087880030377161598166192210455644766019695136325234771627554444596272509223725601861426999029347799874157514042393749804938650964777106696238726048988669063392016704607379049512539581692038777144809192956303963949975830258515755446120379621414597095765325045162644074397540337353888163264930515133327850006268860794551529856002069003586548722072621805619876924773493420209378624894931222565702424473647485442135814462096522757305354982087810990206068764174107597280204310630049822767896916947105569654805065355392911171319049175537231205886428832918370148978093321269054181661559100184307206596522262812651554157938122487483712171098364949729906392194473246782040698116902716242285243596974367162906094599066460078486830081976717403032557317395828971695530928886221241659951829004604204738590662176442496844018640596081954869786479725941565747083287362419554888071652571255952927052348332821414499237631950621259237873905946819509946578231579330586848156840607657553871207640762010109528061292204805357277759995776686967274338095797055348420768523009769798715896355631475670938453954747924671621187013864524569346041117617399529152144129118095838511035322054266061494075564470357047903137842202030536453773846402159587288866710123338611682234555637245805188545223616460023387135604745440216396774766723920404819733616171763167698460203233443530947411617194361978491230466171223372395672691662312952546847524251956455024567069585638158685835444039910812919529066062039329519705359407152428657673713476896659739281149282147047398508934925039820582291601604194959206379108370941247903399781366374365708001637433296022077726249578950736704448414425983005019945284163302807747647676404871624606319598989282567985960653712130683641105268235995705590475978565625926393163218526343438215062395277888768267872449943568645, 832789636443178009772439061146702427672627773110519871556859364525304936275479146606369630963867890370902655116327594440430220133662961489549066754797535819867025739223383744637721695725427892492265979469069067795861100160284497145301421391697515933641373870741987775659487904871567374573775145553555539442935200602573933472081777198413982809182702641849874379403660263260574886895262542140174573988662830142477842723712525075508947628843013936152204012637503989512661421370483908514226585135183422269285604912463815803603449585472980181645036460518904194334502027179194405268988514994690704290521941558079089933030129664, 1032) :=
  (congrArg (fun m => genTwin 3 2187 m 0 1 0 8)
      (by norm_num : (1024 : Nat) = 512 + 512)).trans
    ((genTwin_chunk 3 2187 512 512 0 1 0 8 3995 11423562217377937432834817564802597215161932503090694964841408616126077826778150821975382894654297917602479994905379232725488941002126576305153104791274645846961414734454085708528728271412931003490319102117867726040377917811373956524231330139693766288832235157794296197997969539027523687652305497216110621040732960318985443724921368466768008450454601939309500793703672056687152021123899040972423063454602656126379327902765269549169476788514085039351119850250675178694919138957660840579047970750204292796753273294746904522723934137152620484638731547817034415642524737406868838649576777758104983967022797192854358463733417375675095445712830265917733628476811306881432337602441252514267905309853157293762723805363727096514673699906290468297840882185697228225732284105562771044514577617632313703762786360517892716689301370114467156295202784978514205887512713818469090243427050420323004245412476208014373707283199930243710061801499738378201234872176291379004138646016237383966148003297004243015115397464798331351187134483865663492335907758674969874326737209498460113368764913672483379761099999374818704021585842007762719127310497016838080914531242278084604692793538874627778055860875412001516191269629255707829169270637223499273174130103293451019556590750966600326810575397203744278951788886116878933425651094943465415905170256223688393316547820507707578855448581785938595898487397324630710103979325778042894958307736834304200530786631095450687194150325730405041575067824224494984911197929786401361421954419012525747919188418203180043343809029870430671173524265711190502442138259526142966591698259314274456887699299210882670272303518462580536888374928965150279127537314163540217386451662547897282271728809869022685917801003495777881561290755558674971870167928725273683017099071256642135834154547984278163751535428378091694337484304627869538981677420747310790660170239276524785154699122428926251673369394447438145500600229674395737528691938833248567181725619238549548106471264223493 7747637025091066201673917517583244672571508481983011567373709536824837312733236749348413727231660777355983787746800546787316822888621025160908072142217371385594919787117305898647991422699108807313858430308230583715955233284040280247748960949565877204533180588543388437578596303005859276341930171461750343858782208 520 c1_gen_3_8_s512).trans (by rfl))

theorem c1_gen_3_8_s1536 : genTwin 3 2187 1536 0 1 0 8 = (4273, 11423562217377937432834817564864391054921813476074403186202876186307194708759156620192815735855536596277070998614067100383596452738294904021365136151756521113186333793157352901561453255220864280805594871269086356107666677247546056066802195841534722030963869171088576253041924244198767860299694006424216385464237410866396292982396038827879739425510485801707350352402448250854653446754339921005920030979599979601618243171355581786355882037845916125003905944320355546592764448233795327595219414796564516499710219371362744760923897726110311138315102044389213050579493529680170058629261777584301755753061319465235097340907367573361245689177192939006318568363224992135156760752666509408714932454898376233095132747497808829784325585474976674284016554134433726485925467285311719027074216084163416130100372788461248521904629707290321752092761228168874011170135576676537270614833618446716230054926470479470710219060156815999326856117761038247243066051035075586954412311235160019230047041203504696421283076429904566036452768703631217885267749471315774646692868674951735582068075591675580114086135578111850816947309920481257429517248572671751708621777762540664227211283177755147220623145693714944354337020864011336487552233701618379011326017628597297738479119762494166129504401781216073347944952131903409824277019761098386165625200259525374897477707585298824021585362429305092108624363340943855754582468053124234201322514667780852143960538974107655308884702792911300503302896483346305842856558922871916078439280897150120854304921993890073201723036646131372449815758218109149383072146750237106154653299056398281808486616748425063831867024139982640286742100754190036824086788964665295108287235526227440172801428466314745179642593803138736085813088066799995180448503513283313764773901731125080429844421829564466981843095556125994608489898581470885566191344890715670152616657665627291470455351650523832053537158643995108627079387033683130186548857151939757532110028833378955599216803745628421, 146363637106733896860184370050701971670145377190747465620013931496614095911394775633266202097613951040398189597107495976484035931973901061878903559253837005840997944823650910427021393340019107173799197082482577805626777438496032500969528051613311627860795624180623699179686664852437092293304885578059317313674137875582654792863379603626377805012585815916432267902576125388236312496251756664070746217875540376359162687081753908485576089261742234134182769750464451047985396983095849813032302511728130239481974918241867536049478717152308071579891445352354692735326611284294532796445786263934837601302470032397116603407996686298467972881390685068549131038212769786261578615742419762188504037215779294333550440321067207386571081095260477355372537989470961204759524385374343700772974631063436360259838457783910540631396256984042380428286707075374641544727813833796328883177118490304786625298278185397717526779238083001536216340451950592, 1544) :=
  (congrArg (fun m => genTwin 3 2187 m 0 1 0 8)
      (by norm_num : (1536 : Nat) = 512 + 1024)).trans
    ((genTwin_chunk 3 2187 512 1024 0 1 0 8 4309 11423562217377937432834817564864391054921813476074403186202551208011394296735739759042042595846209810010546387007457288578915966727272486091362019078060522865547580087880030377161598166192210455644766019695136325234771627554444596272509223725601861426999029347799874157514042393749804938650964777106696238726048988669063392016704607379049512539581692038777144809192956303963949975830258515755446120379621414597095765325045162644074397540337353888163264930515133327850006268860794551529856002069003586548722072621805619876924773493420209378624894931222565702424473647485442135814462096522757305354982087810990206068764174107597280204310630049822767896916947105569654805065355392911171319049175537231205886428832918370148978093321269054181661559100184307206596522262812651554157938122487483712171098364949729906392194473246782040698116902716242285243596974367162906094599066460078486830081976717403032557317395828971695530928886221241659951829004604204738590662176442496844018640596081954869786479725941565747083287362419554888071652571255952927052348332821414499237631950621259237873905946819509946578231579330586848156840607657553871207640762010109528061292204805357277759995776686967274338095797055348420768523009769798715896355631475670938453954747924671621187013864524569346041117617399529152144129118095838511035322054266061494075564470357047903137842202030536453773846402159587288866710123338611682234555637245805188545223616460023387135604745440216396774766723920404819733616171763167698460203233443530947411617194361978491230466171223372395672691662312952546847524251956455024567069585638158685835444039910812919529066062039329519705359407152428657673713476896659739281149282147047398508934925039820582291601604194959206379108370941247903399781366374365708001637433296022077726249578950736704448414425983005019945284163302807747647676404871624606319598989282567985960653712130683641105268235995705590475978565625926393163218526343438215062395277888768267872449943568645 832789636443178009772439061146702427672627773110519871556859364525304936275479146606369630963867890370902655116327594440430220133662961489549066754797535819867025739223383744637721695725427892492265979469069067795861100160284497145301421391697515933641373870741987775659487904871567374573775145553555539442935200602573933472081777198413982809182702641849874379403660263260574886895262542140174573988662830142477842723712525075508947628843013936152204012637503989512661421370483908514226585135183422269285604912463815803603449585472980181645036460518904194334502027179194405268988514994690704290521941558079089933030129664 1032 c1_gen_3_8_s1024).trans (by rfl))

theorem c1_gen_3_8_s2048 : genTwin 3 2187 2048 0 1 0 8 = (2212, 11423562217377937432834817564864391054921813476074403186202876186307194708759156620192815736856953160782704625320798799480490699930372900770495675708735304446873954682559706955678451266797381569507970305281207576719334629100637127009778860896643112923237231238636161655054793204604208537772461592015392715645846204484483370754853790496952206916805325583797248683625353603870950109420705656200836268484219389196968805044962416296177930908989193988549732192649585124732100023199749929813785814563733332268686568148207570988949844207755627928901975382764304566845977286336456769865272020634213740446085534703207803378419076929060299598852785386634468108413514227618730836730235503118366510146554577368875975141487007491165979237212659921031313319741711907843174221226382758840950878887660898144100926047240832768515404156468219513806699514497738854132940210174460715782355761955190687788794097814415264001138795586222874901380054951337972829843312649640123168678519536975356823083160216256828105909795539298468506184615180430653840482319348556826115680490254238431735827249444125443917765681425533616436016966283704255380399963558346047052682939733327350401469159436130993631268303982913906610513608815846245302392939053718958039538893110134259151107776581802619044708878221961267697288247816539376051828448722384734309002948591986718621769903485628541170790091691196580952154417504853359814795696990240017086305408981429537906731340058977644883888636484165683621835251567725205356400730150180311863193543847093813585292220680831440273580392336491464698566016228865168384403232000137224449981455584003519718430656362119547241786894569717246771690272016724769710077809901289040714200188951766034400378721206481199685477570549447813293825156468689686941398786191587699442338200957416255926555020350146698784583791940761753395741823120590688799221719449084143417630160989000740029504934686998646491891954603396698035209272419223865402745592513025404688363476113575072125263189901573, 27807282352678387537684520556178722207874053534688248475289478333063555367286574005539820142990607154764789893555428038440087594914559891638572267126573879360083753706894781353856691148432176163307375048751224312400185850585319752216330240307542429423669700203971273678003344918173957753427792989318539573100511299880513635373760080681645047684063711344917796915595511243257157682393568466093285278330280277569424934248729585207195192093001241646047469946423510129117140048496747033162177971938154636095961588994705377195285637735943584969125699659152320518320615810800347257286824751582832900827692391928570275569269621495064912544301886742417964390760562421806836381262722537395967386517928507333941158629329626899870727621598989984446634875184628751692848748411742089366150640214808053061600531133809044415114775822397929842653908482093398583752310461205881901176317891990602538605681620420309415312266410080526170826520097348792528715266211842389090209370060089954231683427573031240129110142572424229320084465073862181777581980027097254208952126317015652260629890194339034066094461203829234016766513262791054752847852592282762234181541063699325158581376521743474099360399159947876413763907085275361517819187303051767579734616981504000, 2056) :=
  (congrArg (fun m => genTwin 3 2187 m 0 1 0 8)
      (by norm_num : (2048 : Nat) = 512 + 1536)).trans
    ((genTwin_chunk 3 2187 512 1536 0 1 0 8 4273 11423562217377937432834817564864391054921813476074403186202876186307194708759156620192815735855536596277070998614067100383596452738294904021365136151756521113186333793157352901561453255220864280805594871269086356107666677247546056066802195841534722030963869171088576253041924244198767860299694006424216385464237410866396292982396038827879739425510485801707350352402448250854653446754339921005920030979599979601618243171355581786355882037845916125003905944320355546592764448233795327595219414796564516499710219371362744760923897726110311138315102044389213050579493529680170058629261777584301755753061319465235097340907367573361245689177192939006318568363224992135156760752666509408714932454898376233095132747497808829784325585474976674284016554134433726485925467285311719027074216084163416130100372788461248521904629707290321752092761228168874011170135576676537270614833618446716230054926470479470710219060156815999326856117761038247243066051035075586954412311235160019230047041203504696421283076429904566036452768703631217885267749471315774646692868674951735582068075591675580114086135578111850816947309920481257429517248572671751708621777762540664227211283177755147220623145693714944354337020864011336487552233701618379011326017628597297738479119762494166129504401781216073347944952131903409824277019761098386165625200259525374897477707585298824021585362429305092108624363340943855754582468053124234201322514667780852143960538974107655308884702792911300503302896483346305842856558922871916078439280897150120854304921993890073201723036646131372449815758218109149383072146750237106154653299056398281808486616748425063831867024139982640286742100754190036824086788964665295108287235526227440172801428466314745179642593803138736085813088066799995180448503513283313764773901731125080429844421829564466981843095556125994608489898581470885566191344890715670152616657665627291470455351650523832053537158643995108627079387033683130186548857151939757532110028833378955599216803745628421 146363637106733896860184370050701971670145377190747465620013931496614095911394775633266202097613951040398189597107495976484035931973901061878903559253837005840997944823650910427021393340019107173799197082482577805626777438496032500969528051613311627860795624180623699179686664852437092293304885578059317313674137875582654792863379603626377805012585815916432267902576125388236312496251756664070746217875540376359162687081753908485576089261742234134182769750464451047985396983095849813032302511728130239481974918241867536049478717152308071579891445352354692735326611284294532796445786263934837601302470032397116603407996686298467972881390685068549131038212769786261578615742419762188504037215779294333550440321067207386571081095260477355372537989470961204759524385374343700772974631063436360259838457783910540631396256984042380428286707075374641544727813833796328883177118490304786625298278185397717526779238083001536216340451950592 1544 c1_gen_3_8_s1536).trans (by rfl))

theorem c1_gen_3_8_s2560 : genTwin 3 2187 2560 0 1 0 8 = (4197, 11423562217377937432834817564864391054921813476074403186202876186307194708759156620192815736856953160782704625320798799480493785783539071475308181558958409886136860159917085999249369945427143572182281333726155434030327180876777534335735032867717227589681559968285486449267731224748030093247788805048240790389019872746674322673091897895770525657016891216129048194564060321068844818330614358913108096825079167492923979490231186814060062264554197202456546310948229943993039863011277094853906531769417838018645702838660983733469701026541513021887653648930254566471735012541104384093606205604437472623581050145399157631898227809487524830330937738003771240567192428673611577521984157464229570363761297546041677038601502100481638904505865430552797392162936355536483280762770118448069099415711572601247426145856960034230655240113432233681741076794270101952001356181989646349276950818145646040523896105720731929876789991492837478850017863806503312336979443135584901012240327966695662584096290913341554960952304427189431576289954998677944850504788416676660414047690998013846425899406302175800414970928193561067134303407831920425842251933811983573237236319040190490512959114520008758265152248510161066685522851174082731252651621879273583960057023241399560028806767495392121112499120531783395166859442792298143277862352285847728930207252748058984400826697395189734648735293128582147763403886102115179436663368965212103977451762159567274223427886735027218480952814571748774562565029400151448720883375708604646891918750719078544338219127272606387621228858814648273259798402452408855892924108147768183699893948922609253770500585879356202115024171785989679616026011489531904577959802730680608672837505386449757323590063206399319317218676773091154905206403383498769311398471363135346986598627033701826090515564663860265905922348012248492974227470993472832570504843518387813922967115089569075487134713214711399874888526197842185574601855326516288971576093767297372008792402484711988890372669701, 1065116736971472342506032855322524892319479921435051660210974594099640759847825299667024194823814976672508782491363463609056707917148211204455705303987932838703941207465582805061798625641861258680282625682077279444312480551892377038943733716391891875393440029720278719706279083217854970229211154637396146065233369234148330484449598036323804303250485661124923978840604528112309218180685531268831370687905043849007544769081381793242278705551914503403771456105733098089589929811069572541358447312066100658396180175912522826002471206542009159758666293466151261953575623993638735176654949945594171388784909095857874874219432819088951033258620074461202180467686364300249694032588961989269789510773861168418927902027615526799017350967051360646842173085934390011192525562387923781155581644177423440353284514779724942604012244954460828140964078916614914861732223182534282947497437618918796296702817556459523818545849295748935447078334043031280526646898289509093920036898344894408470523382009251876927217574011648160656320896508883805793985706730253780618243068960859633592857709450776787834976435824703179124139556923786367720342809497686375911413309100021955215627147227462491481042441177012573291086609147991361703247400904498178479595206299847476364381975370135441238307328557315410894335048446317578746897283447769998565936919382200843773333311845956712003857414952629780361943241554408453767220201123381500049073552877326247121433570585101344234514660664669439140977015282541972081974069193869523530113171280230013595760896105932815924516905745514496, 2568) :=
  (congrArg (fun m => genTwin 3 2187 m 0 1 0 8)
      (by norm_num : (2560 : Nat) = 512 + 2048)).trans
    ((genTwin_chunk 3 2187 512 2048 0 1 0 8 2212 11423562217377937432834817564864391054921813476074403186202876186307194708759156620192815736856953160782704625320798799480490699930372900770495675708735304446873954682559706955678451266797381569507970305281207576719334629100637127009778860896643112923237231238636161655054793204604208537772461592015392715645846204484483370754853790496952206916805325583797248683625353603870950109420705656200836268484219389196968805044962416296177930908989193988549732192649585124732100023199749929813785814563733332268686568148207570988949844207755627928901975382764304566845977286336456769865272020634213740446085534703207803378419076929060299598852785386634468108413514227618730836730235503118366510146554577368875975141487007491165979237212659921031313319741711907843174221226382758840950878887660898144100926047240832768515404156468219513806699514497738854132940210174460715782355761955190687788794097814415264001138795586222874901380054951337972829843312649640123168678519536975356823083160216256828105909795539298468506184615180430653840482319348556826115680490254238431735827249444125443917765681425533616436016966283704255380399963558346047052682939733327350401469159436130993631268303982913906610513608815846245302392939053718958039538893110134259151107776581802619044708878221961267697288247816539376051828448722384734309002948591986718621769903485628541170790091691196580952154417504853359814795696990240017086305408981429537906731340058977644883888636484165683621835251567725205356400730150180311863193543847093813585292220680831440273580392336491464698566016228865168384403232000137224449981455584003519718430656362119547241786894569717246771690272016724769710077809901289040714200188951766034400378721206481199685477570549447813293825156468689686941398786191587699442338200957416255926555020350146698784583791940761753395741823120590688799221719449084143417630160989000740029504934686998646491891954603396698035209272419223865402745592513025404688363476113575072125263189901573 27807282352678387537684520556178722207874053534688248475289478333063555367286574005539820142990607154764789893555428038440087594914559891638572267126573879360083753706894781353856691148432176163307375048751224312400185850585319752216330240307542429423669700203971273678003344918173957753427792989318539573100511299880513635373760080681645047684063711344917796915595511243257157682393568466093285278330280277569424934248729585207195192093001241646047469946423510129117140048496747033162177971938154636095961588994705377195285637735943584969125699659152320518320615810800347257286824751582832900827692391928570275569269621495064912544301886742417964390760562421806836381262722537395967386517928507333941158629329626899870727621598989984446634875184628751692848748411742089366150640214808053061600531133809044415114775822397929842653908482093398583752310461205881901176317891990602538605681620420309415312266410080526170826520097348792528715266211842389090209370060089954231683427573031240129110142572424229320084465073862181777581980027097254208952126317015652260629890194339034066094461203829234016766513262791054752847852592282762234181541063699325158581376521743474099360399159947876413763907085275361517819187303051767579734616981504000 2056 c1_gen_3_8_s2048).trans (by rfl))

theorem c1_gen_3_8_s3072 : genTwin 3 2187 3072 0 1 0 8 = (2373, 11423562217377937432834817564864391054921813476074403186202876186307194708759156620192815736856953160782704625320798799480493785783539071475308181558958409886139180507766255745268835295645117313240236020910019224737035133140194255835678463669981726811065098269271877667044736300608194153542389414319462381509853731203388551307429374170871779697880360511352630857731327385229899301194269798241719813723070323297788543438207884379167152106933825630143284563946111312534476808129923606085993077638618511810088569534882487968718809346220656344756173396060463909649481042754122422480099557231382015805281539742283753337034709114233251395899906874541912528653293158289618368244385732567121187288357575758993383343844830844274127922618102046661729948720448779421843195322636390146613136752658494439041106951543919123159115141672835363810392282504318874582637737856182413255931254175261885274090324763600624190526898681912842896462157902968647394113961466569809686789951149353461189670927697973344367550415628849115661049806916116610472295821410895173469532490943819171263975234199955025867454812532087782516381035943120649606729660525157727432591267351154914077390426383378154561938055019890966205788823743547948696719834646852440495581576966299694568994782009289622160260570633209464483477894662137990322771997206386421280838842527255660334487310425959902027530027473895962819119048095706964943818964695832089922823172356487963831269884691374151677256525782605857080469860359323845788506693369375555627017562679611254965100656897937829474529311268844440350648780316028329521614474474129767744411451487430800909782319250781474112738904718838905162335250163537262405311949237473353693687519140065010861257354668287079644211222126586093076756652220234656013441454819039776449281219335372321721930379105822698304139723816104342469255112883335176151734524319696120292307439141697114635014417695335539672293735981778814533916319935068967242661254496583713508683677865938627544185925796101, 349975001800216317189359637791568920882597540061208494352634473097959109252950975370999584442327424907510641977879682024840934620783874209660568525825296397605026269316285131128845762768340124452999726899740338849939812799214913265203795190253706822086967561600619938889139300833455505329436321576499979133624057541717780362788253607032909727413880061601077078892882654158208630398142058061056657981112352038249708868539279746493361111214811972786296972835252074728668349027277561839424921840539498095212728127542834687807942646404067988163780414823548923748063298528371276151266631761970219766704176957563489334748320083637790313461002482689048378225889288541015363377504729603719523108964716187422039126875670739423885836856186868748724484135435033954094909884406078762677073186446266237555893083960644671250583327864406364637459889762426462167236647937485888823539020171905903606477211597052373602468448426769514728235187015021637716975201658964010287180046662378387652187397733046247929806776480584801153001331885658993442310915883782300190297640258549729592960706908756551020644700756510640081578369571266486034137453599705721628116872940413492903587550091154743697810038867051858456977152832531221791282528807555312583746174043169657344248142195299159047726239729210054633049493079701661890305077915299163150152912803051044167047298929431299058879984896399642721003684181643436968192567177790025633125291866800053658885333443617559614343296222946441019817172748033138750639231787375611685274004786424866720794714805482804749442583511393884227324606907110149419851874861705397320633521873740215534419484101984946391324440810642129875237633157294097625981848714798678447876445374930389701469633899647407580534368256224525302182754510292214423127296183219992379793123112407703076290438687484090405418457246957939998094818816267950281379055705378127872, 3080) :=
  (congrArg (fun m => genTwin 3 2187 m 0 1 0 8)
      (by norm_num : (3072 : Nat) = 512 + 2560)).trans
    ((genTwin_chunk 3 2187 512 2560 0 1 0 8 4197 11423562217377937432834817564864391054921813476074403186202876186307194708759156620192815736856953160782704625320798799480493785783539071475308181558958409886136860159917085999249369945427143572182281333726155434030327180876777534335735032867717227589681559968285486449267731224748030093247788805048240790389019872746674322673091897895770525657016891216129048194564060321068844818330614358913108096825079167492923979490231186814060062264554197202456546310948229943993039863011277094853906531769417838018645702838660983733469701026541513021887653648930254566471735012541104384093606205604437472623581050145399157631898227809487524830330937738003771240567192428673611577521984157464229570363761297546041677038601502100481638904505865430552797392162936355536483280762770118448069099415711572601247426145856960034230655240113432233681741076794270101952001356181989646349276950818145646040523896105720731929876789991492837478850017863806503312336979443135584901012240327966695662584096290913341554960952304427189431576289954998677944850504788416676660414047690998013846425899406302175800414970928193561067134303407831920425842251933811983573237236319040190490512959114520008758265152248510161066685522851174082731252651621879273583960057023241399560028806767495392121112499120531783395166859442792298143277862352285847728930207252748058984400826697395189734648735293128582147763403886102115179436663368965212103977451762159567274223427886735027218480952814571748774562565029400151448720883375708604646891918750719078544338219127272606387621228858814648273259798402452408855892924108147768183699893948922609253770500585879356202115024171785989679616026011489531904577959802730680608672837505386449757323590063206399319317218676773091154905206403383498769311398471363135346986598627033701826090515564663860265905922348012248492974227470993472832570504843518387813922967115089569075487134713214711399874888526197842185574601855326516288971576093767297372008792402484711988890372669701 1065116736971472342506032855322524892319479921435051660210974594099640759847825299667024194823814976672508782491363463609056707917148211204455705303987932838703941207465582805061798625641861258680282625682077279444312480551892377038943733716391891875393440029720278719706279083217854970229211154637396146065233369234148330484449598036323804303250485661124923978840604528112309218180685531268831370687905043849007544769081381793242278705551914503403771456105733098089589929811069572541358447312066100658396180175912522826002471206542009159758666293466151261953575623993638735176654949945594171388784909095857874874219432819088951033258620074461202180467686364300249694032588961989269789510773861168418927902027615526799017350967051360646842173085934390011192525562387923781155581644177423440353284514779724942604012244954460828140964078916614914861732223182534282947497437618918796296702817556459523818545849295748935447078334043031280526646898289509093920036898344894408470523382009251876927217574011648160656320896508883805793985706730253780618243068960859633592857709450776787834976435824703179124139556923786367720342809497686375911413309100021955215627147227462491481042441177012573291086609147991361703247400904498178479595206299847476364381975370135441238307328557315410894335048446317578746897283447769998565936919382200843773333311845956712003857414952629780361943241554408453767220201123381500049073552877326247121433570585101344234514660664669439140977015282541972081974069193869523530113171280230013595760896105932815924516905745514496 2568 c1_gen_3_8_s2560).trans (by rfl))

theorem c1_gen_3_8_s3584 : genTwin 3 2187 3584 0 1 0 8 = (3856, 11423562217377937432834817564864391054921813476074403186202876186307194708759156620192815736856953160782704625320798799480493785783539071475308181558958409886139180507766255745268835295645117313504338819263740326883325464574267555496207694285869572314648315222008919690601775476770136633920514924702989339112373311428545310712785815988708692283434190500675715512369785724276556630538113056730100418542603654971073686326937294020208241482909780766131833103308608856170957323657985801362266865963479666378975780401341326375821646024400924948896410734429814992843552550841092398435087292256111426587149331383768812351622610160586419026750028731364161555625645023209615179341554199708761519739992932334252276806030609290300277736083313865411919668168992340153391914537643487324493408897134584203658906054875653564895075830826574633184537344392876225869564848589498007510139200012398404177913865779328843226920872940530847297448958861609590345880116669403476605667734517006284545306417074424322504841452727310198038922686476170380972964039310229314056905243436290363670268949523422266679918546227978055557865022978732993044887443621698766447991193516695070235698820595988095493360859683658832982421242854007041144410290406791151239816630287255024602880896383573270514174088210455855142513128477799542127773503749457494696535353211646569418293005603159082530431710740997471567352351938634065286602152030125318608226747982034498166837008061922138433091650639224044564764840960732823296992162196992422341369543749778925866118129519399343871761923621789244373320768089246100653495551116691728491906532056286372103705935695764466335831777447140572994826244928356100284753701850410338695118995617400828215222450163846271905225110538457016293545013041582122332709222062089814340343957859116122165540401878838683528781628191649950424483107561020553823365838157702048315238439968499256165568034325200313557767732820378170755159481128202846169371770152279910230192355247931623430921457369477, 139075011783542379597505372516767589135594908557539251109866327197624905415950136934553301452789550795191224999885779175636391142041380384414043438449596888573883679433152736719030221752608817809750170277827190269297248276352285350323145341896714594915718077151156036401374080687653843194867742114612869313723221744247220578900805322080807032469983228507938100814008673465846841284570024696075873764215037847868733065038028548774168013974454790003601838335287090542607233927361558093998542485393805061444731299016055451303467808742806351845016855186381126689794489302222059223507397341565079754341667380822753031306571476067155928317281671061332114123310619350663381670167992670305742940886967773532068677550502019904867820666945777263176167795145326609904760387811407360882960909655042830476002550699665977500926085772162578639510697435692081232688371027106111627999198062544020854676159542804974447813412342688924664749788956927521114701098948005675299845529475545110766204947172518936313249982509890807091662126197080008358305406265814431164494817033289807536717069034374530620703762440972838854049464468746335805347141872889900358697357054157029464540644835523534999456981024134739408890108135162247622072543048002964328596428169104487986612792433473318215972945436162302650531260609130114616217578573840011607441412736092309281909928894207156099779310123368341170968442941286072295756242501257380966903365487411264851817325270019257989378596673571565214745923090585907050863697891436394601479899266853388673113733819173102674602091873103837436653691086373030963748840734109924302392055256710712022812359929571300157980000988967560665559602418744195161833704098109307546787048423754221010910683315744404533256632264611670561791593562443988999954465705539729320816965201733759092866137358698621719542500529070751615429613312258515461692232859239089771450705012346171334073652871984672588368098776100400227870088391016900002655573014340277717787706665207645885671576057811688091084897090383102620952241700334716707782099824949861333745884974306084387872443936917250261824954584001292401308939778227531421469203687312395992146355600532884387011841448190732271616, 3592) :=
  (congrArg (fun m => genTwin 3 2187 m 0 1 0 8)
      (by norm_num : (3584 : Nat) = 512 + 3072)).trans
    ((genTwin_chunk 3 2187 512 3072 0 1 0 8 2373 11423562217377937432834817564864391054921813476074403186202876186307194708759156620192815736856953160782704625320798799480493785783539071475308181558958409886139180507766255745268835295645117313240236020910019224737035133140194255835678463669981726811065098269271877667044736300608194153542389414319462381509853731203388551307429374170871779697880360511352630857731327385229899301194269798241719813723070323297788543438207884379167152106933825630143284563946111312534476808129923606085993077638618511810088569534882487968718809346220656344756173396060463909649481042754122422480099557231382015805281539742283753337034709114233251395899906874541912528653293158289618368244385732567121187288357575758993383343844830844274127922618102046661729948720448779421843195322636390146613136752658494439041106951543919123159115141672835363810392282504318874582637737856182413255931254175261885274090324763600624190526898681912842896462157902968647394113961466569809686789951149353461189670927697973344367550415628849115661049806916116610472295821410895173469532490943819171263975234199955025867454812532087782516381035943120649606729660525157727432591267351154914077390426383378154561938055019890966205788823743547948696719834646852440495581576966299694568994782009289622160260570633209464483477894662137990322771997206386421280838842527255660334487310425959902027530027473895962819119048095706964943818964695832089922823172356487963831269884691374151677256525782605857080469860359323845788506693369375555627017562679611254965100656897937829474529311268844440350648780316028329521614474474129767744411451487430800909782319250781474112738904718838905162335250163537262405311949237473353693687519140065010861257354668287079644211222126586093076756652220234656013441454819039776449281219335372321721930379105822698304139723816104342469255112883335176151734524319696120292307439141697114635014417695335539672293735981778814533916319935068967242661254496583713508683677865938627544185925796101 349975001800216317189359637791568920882597540061208494352634473097959109252950975370999584442327424907510641977879682024840934620783874209660568525825296397605026269316285131128845762768340124452999726899740338849939812799214913265203795190253706822086967561600619938889139300833455505329436321576499979133624057541717780362788253607032909727413880061601077078892882654158208630398142058061056657981112352038249708868539279746493361111214811972786296972835252074728668349027277561839424921840539498095212728127542834687807942646404067988163780414823548923748063298528371276151266631761970219766704176957563489334748320083637790313461002482689048378225889288541015363377504729603719523108964716187422039126875670739423885836856186868748724484135435033954094909884406078762677073186446266237555893083960644671250583327864406364637459889762426462167236647937485888823539020171905903606477211597052373602468448426769514728235187015021637716975201658964010287180046662378387652187397733046247929806776480584801153001331885658993442310915883782300190297640258549729592960706908756551020644700756510640081578369571266486034137453599705721628116872940413492903587550091154743697810038867051858456977152832531221791282528807555312583746174043169657344248142195299159047726239729210054633049493079701661890305077915299163150152912803051044167047298929431299058879984896399642721003684181643436968192567177790025633125291866800053658885333443617559614343296222946441019817172748033138750639231787375611685274004786424866720794714805482804749442583511393884227324606907110149419851874861705397320633521873740215534419484101984946391324440810642129875237633157294097625981848714798678447876445374930389701469633899647407580534368256224525302182754510292214423127296183219992379793123112407703076290438687484090405418457246957939998094818816267950281379055705378127872 3080 c1_gen_3_8_s3072).trans (by rfl))

theorem c1_gen_3_8_s4096 : genTwin 3 2187 4096 0 1 0 8 = (3515, 11423562217377937432834817564864391054921813476074403186202876186307194708759156620192815736856953160782704625320798799480493785783539071475308181558958409886139180507766255745268835295645117313504338819263740326883325464574267555496207694285869572314648316514329215930122751571464318862255979369772869442131236373298383484366951968140217561500649039399136672693681025195737531886606256996891729354062033096073709738774599716972617289926142777155736330901597440275691870671101362253196006511467100290639236100251318710893846862827515826712085800384206307228609823313734005766685600339849782500873718280728661973209454942982187559276287177479516354163013275061876093909873069254453547473779768012023961135536709883815899962945668134872509848472542777186024396614570562914063637753124592289702449559766780784615915523917250920474623891179207201059405621547090503857977190656346497707363954424062949305008746681751830991413383608898041271957398633827202430410024102794520000193541493689512041672449451033570164099957796293325976796878851556229121679203879575657226103621169538886006964132634570192650792838716060344037702566852149059947675712031115481195470369797246434061735825357776892260832530526657247876258549355383149202631580729942989790932578825247461277726740211162664436531996167092433056612391697978201151443171817634764964360438619655620147444317965853167031857179197179013098901494347733431221973991845317222163790264359764767658265603642386896326501747490467129237475910350712998491200044163815370804329241722587060436243094368582004059772710659241761099807527137383254873537551643026231585222386891591959868756235732389404038096606217475984876118243887061400675253454395822131842921555182206186918126494266894476174730788852761832050219933348086717923156024977149323646482252999799271711385700711948830156191882018575030297902176485414604223195996114001098646220729314018578867737941296509559384444295142666154723153871946121382432203919903425972574276647104151941, 40599304724338502569451360980733646321494237195702281820442320921888157532452605838625150734181698219568211158962950102661260590649420491187833899116648622901599791047783307134135381019035501184138996911813719394968514571027523588541823235748218659023240803463013896883676045169048006550003740658062681967212686628735220426175027569887142915823402131637387540585338204362475109696660745924431612970700919904046506656833183607249565085503565667868909082240258535075534654265607073353930236281777716924037475964334342366085862237263663565685594033027420968180127190805289461231154931021576023888008798690843868393131148931647618371557651601597768987631739828769277533733248442260851989279456193317730526471164703645039183788249245598416494016971781080241847783072866347402868680557212059678986173626241714090821827012784775204134291334674577682708373122715217447910526722145226893338998426376088153093308010682262771055551100280616631618171251420889726718637386204984444869910948013050980857319918349083340578506335240942329711087105028106206567349707149069873064988335098367657599808010787812836673660547909717813225563613985722184668447604057068784307690793947048309322919344704698485766712836814011275023121031346584342605246191443734018957270849108951318322577900445598296082753612559252764971496946530402080847134129107768180087517759982490779069103316965305225766434191183837303403205140145878068619209345797697878443931880108049052458260528676913140135816044433020459755417234910113855722923521189068242862469006353784059181237366836968552000405734308396459566168442408898330084758333563068967127429668225762724363553967636407349691149164995531304880794188251345479768923251583097370567301131486596284092478128944589326925708278938579810169025733310626894695981239436899449568963603919544396668317654691338086388670644925755236636745119112157732829418192398509324960070604996164458209516839712874067104357621903504682349090098376957573049564908529839736811572708134034008456854623805540524156681488829102321921305485980309564145745802893765311918881166004815841912075700033247972071556006682279073249211399277851397757925302780043489805366817566810323495388696897151460764941734508753974506885116101646651730386619922028706278265858456796352219506453569731367129636113269558748050890431657322478459503828315679509514662429182179904011504607823691939422595963516242844689433918946783144538770031978090969391813368335950709327140751111747042880023299121088562337546240, 4104) :=
  (congrArg (fun m => genTwin 3 2187 m 0 1 0 8)
      (by norm_num : (4096 : Nat) = 512 + 3584)).trans
    ((genTwin_chunk 3 2187 512 3584 0 1 0 8 3856 11423562217377937432834817564864391054921813476074403186202876186307194708759156620192815736856953160782704625320798799480493785783539071475308181558958409886139180507766255745268835295645117313504338819263740326883325464574267555496207694285869572314648315222008919690601775476770136633920514924702989339112373311428545310712785815988708692283434190500675715512369785724276556630538113056730100418542603654971073686326937294020208241482909780766131833103308608856170957323657985801362266865963479666378975780401341326375821646024400924948896410734429814992843552550841092398435087292256111426587149331383768812351622610160586419026750028731364161555625645023209615179341554199708761519739992932334252276806030609290300277736083313865411919668168992340153391914537643487324493408897134584203658906054875653564895075830826574633184537344392876225869564848589498007510139200012398404177913865779328843226920872940530847297448958861609590345880116669403476605667734517006284545306417074424322504841452727310198038922686476170380972964039310229314056905243436290363670268949523422266679918546227978055557865022978732993044887443621698766447991193516695070235698820595988095493360859683658832982421242854007041144410290406791151239816630287255024602880896383573270514174088210455855142513128477799542127773503749457494696535353211646569418293005603159082530431710740997471567352351938634065286602152030125318608226747982034498166837008061922138433091650639224044564764840960732823296992162196992422341369543749778925866118129519399343871761923621789244373320768089246100653495551116691728491906532056286372103705935695764466335831777447140572994826244928356100284753701850410338695118995617400828215222450163846271905225110538457016293545013041582122332709222062089814340343957859116122165540401878838683528781628191649950424483107561020553823365838157702048315238439968499256165568034325200313557767732820378170755159481128202846169371770152279910230192355247931623430921457369477 139075011783542379597505372516767589135594908557539251109866327197624905415950136934553301452789550795191224999885779175636391142041380384414043438449596888573883679433152736719030221752608817809750170277827190269297248276352285350323145341896714594915718077151156036401374080687653843194867742114612869313723221744247220578900805322080807032469983228507938100814008673465846841284570024696075873764215037847868733065038028548774168013974454790003601838335287090542607233927361558093998542485393805061444731299016055451303467808742806351845016855186381126689794489302222059223507397341565079754341667380822753031306571476067155928317281671061332114123310619350663381670167992670305742940886967773532068677550502019904867820666945777263176167795145326609904760387811407360882960909655042830476002550699665977500926085772162578639510697435692081232688371027106111627999198062544020854676159542804974447813412342688924664749788956927521114701098948005675299845529475545110766204947172518936313249982509890807091662126197080008358305406265814431164494817033289807536717069034374530620703762440972838854049464468746335805347141872889900358697357054157029464540644835523534999456981024134739408890108135162247622072543048002964328596428169104487986612792433473318215972945436162302650531260609130114616217578573840011607441412736092309281909928894207156099779310123368341170968442941286072295756242501257380966903365487411264851817325270019257989378596673571565214745923090585907050863697891436394601479899266853388673113733819173102674602091873103837436653691086373030963748840734109924302392055256710712022812359929571300157980000988967560665559602418744195161833704098109307546787048423754221010910683315744404533256632264611670561791593562443988999954465705539729320816965201733759092866137358698621719542500529070751615429613312258515461692232859239089771450705012346171334073652871984672588368098776100400227870088391016900002655573014340277717787706665207645885671576057811688091084897090383102620952241700334716707782099824949861333745884974306084387872443936917250261824954584001292401308939778227531421469203687312395992146355600532884387011841448190732271616 3592 c1_gen_3_8_s3584).trans (by rfl))

theorem c1_gen_3_8_s4608 : genTwin 3 2187 4608 0 1 0 8 = (3053, 11423562217377937432834817564864391054921813476074403186202876186307194708759156620192815736856953160782704625320798799480493785783539071475308181558958409886139180507766255745268835295645117313504338819263740326883325464574267555496207694285869572314648316514329215930122751571464318862255979369772869442140816230512157201729281184157721386877314303827824194964259359416935574268609294392338690688669985659290333667672539917768904960086108251228477846729407239255796970885383975771698879655560540087664419595613131094954934675188104028345042978616797932397410252166062232567778187277596978008282777258589677182622620774331808262955704118189167949333974154052144077373994038305626460536655058313412965763882006359796693814642944800941101216180536673105097355841507679640624814281716509624889290706582886928695713668656108575216372011964626196750523663917142400050469321763919984359534561253741328118536880119983539243646170212324598033235339343827489612691718409586891270943839400649117123108764787966126128709555475622187188003016606305658481476645842978368225137289681134926640504552553480588318909142167490503761059561065545859436615256501144274762254034177097266184909592681446554736755652321432617722269751430999281223594533873247585476344363024792890693336537945739510692334894384198302155397538652552815191751515057364297876003026383305260315880478910062552581045990362784347723043103556754532787786775021893003358208092159881928533697196086943556453645648540153207796731448327684118541651483986741557321342521513029959744888598371495103450319242689150814996204137698628080074562032484275310836476967287743978679899662771351454986424242079570714002290483663837591174773911403258597464046327927389143670758779210659537411156703443967635524505055627951120858870389815427215822622960037382683607092437938744533230101308141454590074828145393068385761711898773189190293329794414844486937726902420388561872039642546470417915681507248872316244667927874800531024678107333394821, 6539285455198916100342205627465532341500236982556993981463237105772316554776818323478115242206682599343866305853354330117888784850453360910104226420666014167422176666903373406633409426398725168468455441593250653398930051814128531764890639717526824455700872030735104377217773891637768310870120726304792485106389571184031563467414401043291478594094523863877665368774266336779853034443996821182795274184593837082507035358300668777131236502968129839002393375585496383466387775846458719002438664109844715022880035396436558085542598541829902387260524757544101124979136944408911729564852328128138536926534978729874194513212886632397429696147155480286629281368175189013934140184470189566773819431411453440727457451904584621536987266593528797974211063518054363057896506080192094971023370387561273620924916240466397928221454831862064376828848733633598061652010141132672158781948365133538124087706533687969489118032544343506205036423055253279528500054396461778576914503182076230903367728360695679882595099236058295462582363744312194779262819777417321042847105542819427995928500080952110597987204711002679760937559402942444443070764480693046977987743566733734213903812685976338352012826007113666797240001593518693340487429863270255890821339216450628104424119405020194903647960879136098686751850809811056067635490952208241585904265204653675255067143117512463019225206375398281931750906918200339112450531083978551946009262403267405851846142885217309542398200347082519980995390182614297556099543096922962506901277220282276548899543062594610842707150669500695463620038838621939246094992837309390981663646985028442673589998626787499142200837345859386804852416951159861999250165267338621727639143741230645861239335392613484755137673852338000534965082072422306129504491736475559531589426067300172255336205102132040919635845147818612084821279519657686437656193478125437354649944933309949197773416452762599140557059630058854503034259974881424218591049439938181719327350350359981909671643555645825518582441315442964520173859550846110433153268588727675028592158482419914126376823082304602791158216073274742884706080159085594487057271639653806665413050119783172258683333731100650225823450202826604856818430918848553315706690725702160309247469696826225138620985767999227614549828149578913577786260147946193081250384279219274439540592303533937126724679784982287589072287830000547473561534388137590933246662477655683097362658661385031884714948120074012301419005685407337815928922477625562799965284682079129183223355732977707504065108799566212403259150059252494254810600560913942658483840279522022985530003042570385752843705224203906428731472866917357761432441102977484385205337849858245998163718933446996113606701795245013399989107308408605949214037418279170394037246739143209387266081385028018714060652544, 4616) :=
  (congrArg (fun m => genTwin 3 2187 m 0 1 0 8)
      (by norm_num : (4608 : Nat) = 512 + 4096)).trans
    ((genTwin_chunk 3 2187 512 4096 0 1 0 8 3515 11423562217377937432834817564864391054921813476074403186202876186307194708759156620192815736856953160782704625320798799480493785783539071475308181558958409886139180507766255745268835295645117313504338819263740326883325464574267555496207694285869572314648316514329215930122751571464318862255979369772869442131236373298383484366951968140217561500649039399136672693681025195737531886606256996891729354062033096073709738774599716972617289926142777155736330901597440275691870671101362253196006511467100290639236100251318710893846862827515826712085800384206307228609823313734005766685600339849782500873718280728661973209454942982187559276287177479516354163013275061876093909873069254453547473779768012023961135536709883815899962945668134872509848472542777186024396614570562914063637753124592289702449559766780784615915523917250920474623891179207201059405621547090503857977190656346497707363954424062949305008746681751830991413383608898041271957398633827202430410024102794520000193541493689512041672449451033570164099957796293325976796878851556229121679203879575657226103621169538886006964132634570192650792838716060344037702566852149059947675712031115481195470369797246434061735825357776892260832530526657247876258549355383149202631580729942989790932578825247461277726740211162664436531996167092433056612391697978201151443171817634764964360438619655620147444317965853167031857179197179013098901494347733431221973991845317222163790264359764767658265603642386896326501747490467129237475910350712998491200044163815370804329241722587060436243094368582004059772710659241761099807527137383254873537551643026231585222386891591959868756235732389404038096606217475984876118243887061400675253454395822131842921555182206186918126494266894476174730788852761832050219933348086717923156024977149323646482252999799271711385700711948830156191882018575030297902176485414604223195996114001098646220729314018578867737941296509559384444295142666154723153871946121382432203919903425972574276647104151941 40599304724338502569451360980733646321494237195702281820442320921888157532452605838625150734181698219568211158962950102661260590649420491187833899116648622901599791047783307134135381019035501184138996911813719394968514571027523588541823235748218659023240803463013896883676045169048006550003740658062681967212686628735220426175027569887142915823402131637387540585338204362475109696660745924431612970700919904046506656833183607249565085503565667868909082240258535075534654265607073353930236281777716924037475964334342366085862237263663565685594033027420968180127190805289461231154931021576023888008798690843868393131148931647618371557651601597768987631739828769277533733248442260851989279456193317730526471164703645039183788249245598416494016971781080241847783072866347402868680557212059678986173626241714090821827012784775204134291334674577682708373122715217447910526722145226893338998426376088153093308010682262771055551100280616631618171251420889726718637386204984444869910948013050980857319918349083340578506335240942329711087105028106206567349707149069873064988335098367657599808010787812836673660547909717813225563613985722184668447604057068784307690793947048309322919344704698485766712836814011275023121031346584342605246191443734018957270849108951318322577900445598296082753612559252764971496946530402080847134129107768180087517759982490779069103316965305225766434191183837303403205140145878068619209345797697878443931880108049052458260528676913140135816044433020459755417234910113855722923521189068242862469006353784059181237366836968552000405734308396459566168442408898330084758333563068967127429668225762724363553967636407349691149164995531304880794188251345479768923251583097370567301131486596284092478128944589326925708278938579810169025733310626894695981239436899449568963603919544396668317654691338086388670644925755236636745119112157732829418192398509324960070604996164458209516839712874067104357621903504682349090098376957573049564908529839736811572708134034008456854623805540524156681488829102321921305485980309564145745802893765311918881166004815841912075700033247972071556006682279073249211399277851397757925302780043489805366817566810323495388696897151460764941734508753974506885116101646651730386619922028706278265858456796352219506453569731367129636113269558748050890431657322478459503828315679509514662429182179904011504607823691939422595963516242844689433918946783144538770031978090969391813368335950709327140751111747042880023299121088562337546240 4104 c1_gen_3_8_s4096).trans (by rfl))

theorem c1_gen_3_8_s5120 : genTwin 3 2187 5120 0 1 0 8 = (3108, 11423562217377937432834817564864391054921813476074403186202876186307194708759156620192815736856953160782704625320798799480493785783539071475308181558958409886139180507766255745268835295645117313504338819263740326883325464574267555496207694285869572314648316514329215930122751571464318862255979369772869442140816230512157201729281184157721386877314303827951055243527097308944107496195827273952935604677267766071540898561643194952420247351325729223858700872959222399870295348154114581775724580017949899694380096579780511924060317912129321961211220613969529556688995360733835068585383335960051594515330088895703603743788593907301336226986428341592003485515849574488614544416468961369915616326707281914772122987502695887008798405284958593053208441817528804776632972282388109665304573226428298180167844588051078382480713305228001582122669231635204237013690519256043090867024281629497382759856733976593474075462398916907120338452846175171337744543364784060076554413036405470322572263544399657019639629995340092081014908277096118969211147167400056761251398545311513163533061427175504438027556874161041970987845682553067121038146753812725044657072404329783561807972351006617700301359483755503526873164952417120289827335637963123711182070206948123259419176362791880334963975022826679945362747410436605355221932897879903342234158746902768934389669217140743669743472566879445332818176812483377689099701164625135935019350997127112169331897419438378045891505229773106468967072537172119367647989185923595804438409465245841262414412362557959504573122104596223575227200500079376962045288069760903793743107840855666221661391182822079511156355766064858180445748467680465561364893649073557841278088808843493764609127822030967845559432542214504984082409155514449458153093044827487206854241628130337962551189419891030321205271545103156122795552663341265372502357267045491127361547139418053345875468854713519949656201470607294172863436795681167341104653766346244900716800917701203370760431804219781, 158097388813556949437735804351222515192675022614535920871821825048684364888263601566059611353574404311815304945449064722292599727793294564192917397825120697753979593145396706053052470580650469076130323946291267482756417507437797975292799535786186133405180695886494975012176688965854850178120550013768133777573403152315243872858184486860319040906855373533267494851017621884782391363561523827583932231794829377969028829948664603458301861039215906729402804576016728751394118655302533684988407191183653772219207376822451241591155864653750033054601730359126649947914555206089565338690149542937879880033154390316326326173390520832389532283492375388402005071307096951879298766703868384189052700367616813001066502907709373277615008169784534300143068749476222941783976937841480933032782410335731442141410991051063487170073783649585923831084199148369783501994126608746189071604235521132962990631401888240556831951268245962841768751108714599347171152855745853433016903518520973192274665833869762886857037955268611164340351434369997380334870505076867878244887965144319131841072955873191359050503831542080485743456420098661266275754446737318287194491306920420330303879911087479057057702923864779460337504243576844609303732884489017605757577948322774520353202113662039019858782110229357665138878463419965508485309689879269472603480932889562791564951039054472704692337807904768218954096234920060905428835664666956807125466387850056503760840797121438211571183082357956984829593168113574450901900392503039509803457245502652450507102268329438471164321668256639153565169882224395966980153458013594313861725481443413460774858414991146948667120839500263393081952860407611127770957393227041739929894687567030735244440514559677031211678826145293536714174164939189698293173947030653664823451066124483612240144346392796313599355470138112117095783080832925081255671872649578095570815454143220385997085878078822952209239757299236315211878200054232392301779602434375464880421018054460022762714926932531032139330776057043207015362598193028302091968959845068598171764769618120979868725624240160212450132045956649535977947292413262667449444344344546496115750944351158173773069521809102383550581040318704573136741315720304249614475531044705419080812633355175694192647562811177018430195723286015611609375554117102399475221044569102316509521124714904420495364700577951051603757918593923893460741712830488382612990233455569802642894622226618471618603763337361660983232940752260816938683004052302033497524844547356316828576364283452839036204177866848591865846155232004011038053266600545101455293914753979358974154204612920709537551495799619136097579989262121547942694805139477086249543106144763929059659996376282023053780989957119581813784372654029889040485963268925246029629639102623896288804587383583078598139367629020822558844030025479024765591725478383239318978180413784444283073911843552975900254409816677335496701730783453575596588898885393723339534494239696357021538945626399152198048023850906475197927824557206245925686305883675983432311873174116827202089814250667244157264804319165528945024076869489710877712711680, 5128) :=
  (congrArg (fun m => genTwin 3 2187 m 0 1 0 8)
      (by norm_num : (5120 : Nat) = 512 + 4608)).trans
    ((genTwin_chunk 3 2187 512 4608 0 1 0 8 3053 11423562217377937432834817564864391054921813476074403186202876186307194708759156620192815736856953160782704625320798799480493785783539071475308181558958409886139180507766255745268835295645117313504338819263740326883325464574267555496207694285869572314648316514329215930122751571464318862255979369772869442140816230512157201729281184157721386877314303827824194964259359416935574268609294392338690688669985659290333667672539917768904960086108251228477846729407239255796970885383975771698879655560540087664419595613131094954934675188104028345042978616797932397410252166062232567778187277596978008282777258589677182622620774331808262955704118189167949333974154052144077373994038305626460536655058313412965763882006359796693814642944800941101216180536673105097355841507679640624814281716509624889290706582886928695713668656108575216372011964626196750523663917142400050469321763919984359534561253741328118536880119983539243646170212324598033235339343827489612691718409586891270943839400649117123108764787966126128709555475622187188003016606305658481476645842978368225137289681134926640504552553480588318909142167490503761059561065545859436615256501144274762254034177097266184909592681446554736755652321432617722269751430999281223594533873247585476344363024792890693336537945739510692334894384198302155397538652552815191751515057364297876003026383305260315880478910062552581045990362784347723043103556754532787786775021893003358208092159881928533697196086943556453645648540153207796731448327684118541651483986741557321342521513029959744888598371495103450319242689150814996204137698628080074562032484275310836476967287743978679899662771351454986424242079570714002290483663837591174773911403258597464046327927389143670758779210659537411156703443967635524505055627951120858870389815427215822622960037382683607092437938744533230101308141454590074828145393068385761711898773189190293329794414844486937726902420388561872039642546470417915681507248872316244667927874800531024678107333394821 6539285455198916100342205627465532341500236982556993981463237105772316554776818323478115242206682599343866305853354330117888784850453360910104226420666014167422176666903373406633409426398725168468455441593250653398930051814128531764890639717526824455700872030735104377217773891637768310870120726304792485106389571184031563467414401043291478594094523863877665368774266336779853034443996821182795274184593837082507035358300668777131236502968129839002393375585496383466387775846458719002438664109844715022880035396436558085542598541829902387260524757544101124979136944408911729564852328128138536926534978729874194513212886632397429696147155480286629281368175189013934140184470189566773819431411453440727457451904584621536987266593528797974211063518054363057896506080192094971023370387561273620924916240466397928221454831862064376828848733633598061652010141132672158781948365133538124087706533687969489118032544343506205036423055253279528500054396461778576914503182076230903367728360695679882595099236058295462582363744312194779262819777417321042847105542819427995928500080952110597987204711002679760937559402942444443070764480693046977987743566733734213903812685976338352012826007113666797240001593518693340487429863270255890821339216450628104424119405020194903647960879136098686751850809811056067635490952208241585904265204653675255067143117512463019225206375398281931750906918200339112450531083978551946009262403267405851846142885217309542398200347082519980995390182614297556099543096922962506901277220282276548899543062594610842707150669500695463620038838621939246094992837309390981663646985028442673589998626787499142200837345859386804852416951159861999250165267338621727639143741230645861239335392613484755137673852338000534965082072422306129504491736475559531589426067300172255336205102132040919635845147818612084821279519657686437656193478125437354649944933309949197773416452762599140557059630058854503034259974881424218591049439938181719327350350359981909671643555645825518582441315442964520173859550846110433153268588727675028592158482419914126376823082304602791158216073274742884706080159085594487057271639653806665413050119783172258683333731100650225823450202826604856818430918848553315706690725702160309247469696826225138620985767999227614549828149578913577786260147946193081250384279219274439540592303533937126724679784982287589072287830000547473561534388137590933246662477655683097362658661385031884714948120074012301419005685407337815928922477625562799965284682079129183223355732977707504065108799566212403259150059252494254810600560913942658483840279522022985530003042570385752843705224203906428731472866917357761432441102977484385205337849858245998163718933446996113606701795245013399989107308408605949214037418279170394037246739143209387266081385028018714060652544 4616 c1_gen_3_8_s4608).trans (by rfl))

theorem c1_gen_3_8_s5632 : genTwin 3 2187 5632 0 1 0 8 = (3783, 11423562217377937432834817564864391054921813476074403186202876186307194708759156620192815736856953160782704625320798799480493785783539071475308181558958409886139180507766255745268835295645117313504338819263740326883325464574267555496207694285869572314648316514329215930122751571464318862255979369772869442140816230512157201729281184157721386877314303827951055243527097308944107496195827273952935604677267766071546533446890697483255207837930462782684172148575680225197203487779905492453075630072358789672398534046574327392486173694016111531423140459562825734988731635603667392288286222218814317032246739950039096420707068312321408805478075644165752729551533467230968264694273683921529233389189970799252365540055522000761477821140797775661700535324078306934912183208771445702110829011387206543658248162294526711967818801271442536004334265054451936049875886258402338973810511537851267241467831771428778151276244576357026860145378349117037760945702084689384335196732107069668846085876606275811652058875628197473129678438209897000414435660035254479322347026597638388322363368809842744777266448129603135707585839138720688593450580789191358766728919086166941045425943244824840770271551409675486501148866324995909472875137891757949812412065608999242218628271059271631490486033153492174398194934640735571042189177718140827074922757379495016776042628340197856953224546817876328154915120864625832605566174732805091418175672057291187255453033989465398469516760564186935547042682449632756226798583588999239159309871853823403957441672037659988070907204751566055867621363579892284639225445834783754999720298820660096573420044575208795122377049238894903903548044185515798129030770360384325143924307461719622785428437969301668657639567250447405959538317232906677388487334029618828373385458878347297232064481851247078286324736688266305967684776546338384092827552383426567721837769603827669621884698692909120821602748379272280602925696634184621575909090512253948553849884841431464898956371886533, 29663092497325054574026097329806157232627697255498641460698773525160663379775324102042071630002789691464630323001397487061120851489107856235789732084103575465089682878937317756094914772432849158178135122942801662135522731121475199454225664575764045696053197121510817128219861672918202593214941867681106811158612322640921710768800310112438893602925618681556544368051921442781208218872987552882191242702768736572245321112455610141139132385029935955871219416402494458549735252444225502237385654982214372283603982452379182465600444058008476345111976774778714545592102782640945732772437994865883483434969915434022828785074561127261559642506537464902653816564356318551415696248476949934938001640139075890849124098352397098777169635972837636476972295226342268568869354344066347279095636071119136509338363030865812061986320750831070714592933757445860201526820373136884220343727147477127874535426304506058893227477546018644429457245957432578753277899740126040616330572959568954084266537046102175242073133977728300029309915008622892621523292586363834385753442450735026885077350649248303287231692822279668660400523428940994730781699039033974916812829555426672381199062822281410706245567293715723845258743640318295257326896999012904536809890209362801154475994951172301532010248667130875669944322785713145990198074549407183727076594018753362241091005875422261216104683871298071409815541124263972051369718366722087662778565438309659233508538492696306231591559748523946208127012431851556503330838396943865324567364368199278731355766368266779906169091428133137258472236931158354693486036465454860935102965362733715315880685680669576175747238922237466352805820125615521036336665341536315582468548131956900270338873248950783659308620343718612298012184888867559177505244001539783836323254335656996147625902500070828382086007758160933780912082844989446748175075094192437411479172971216038174488505097885314728389974096961689089755010250768334568820068269381453873449254173486552587458164628806393968493317788338396832503995313870928648339123641032276800888378874342080441131015770053569796368812479476641984445653695755752540869286890352619959748386249745188460503261311588291405113142261614165054372907947048810308028231975187580049872970691177292200225222785673702376661855920192432627395422497307551800938075483515427123514171243413629715015586652842601871072406813491747554596644001462615670415789030498374048358305160212570452701574133634392617679745474489616742499803119974298887153374255376540472777240164287993189564812186217929255024313284478717644144570937549962288466173302421077815283327542052217526248041685708751409170852460345258152236877815916337881925016198181428430386879054131811802675229884622663027249160531917693620504760780408348994948503558933641010424949816625866232410702338835889847110062418311247448677003306017923686223515481491893634849528690746131654598319762466355307141011436811180391097971052802466630115510261638670814933215889322930937336725645795463301641075646194850390557198086676131580160761684743615657874229507518698868855154744538981370256154780336200163825691122747467790014004768872846992878473278598337562946744665491986777850944104505146455751848422610716541928962374416177020694856457944552562200834700288248496385288324264271478378185273536861424488480966982079605958253575492904889682529925822462083024230301913232147244717988629530803439624333903646904394717986816, 5640) :=
  (congrArg (fun m => genTwin 3 2187 m 0 1 0 8)
      (by norm_num : (5632 : Nat) = 512 + 5120)).trans
    ((genTwin_chunk 3 2187 512 5120 0 1 0 8 3108 11423562217377937432834817564864391054921813476074403186202876186307194708759156620192815736856953160782704625320798799480493785783539071475308181558958409886139180507766255745268835295645117313504338819263740326883325464574267555496207694285869572314648316514329215930122751571464318862255979369772869442140816230512157201729281184157721386877314303827951055243527097308944107496195827273952935604677267766071540898561643194952420247351325729223858700872959222399870295348154114581775724580017949899694380096579780511924060317912129321961211220613969529556688995360733835068585383335960051594515330088895703603743788593907301336226986428341592003485515849574488614544416468961369915616326707281914772122987502695887008798405284958593053208441817528804776632972282388109665304573226428298180167844588051078382480713305228001582122669231635204237013690519256043090867024281629497382759856733976593474075462398916907120338452846175171337744543364784060076554413036405470322572263544399657019639629995340092081014908277096118969211147167400056761251398545311513163533061427175504438027556874161041970987845682553067121038146753812725044657072404329783561807972351006617700301359483755503526873164952417120289827335637963123711182070206948123259419176362791880334963975022826679945362747410436605355221932897879903342234158746902768934389669217140743669743472566879445332818176812483377689099701164625135935019350997127112169331897419438378045891505229773106468967072537172119367647989185923595804438409465245841262414412362557959504573122104596223575227200500079376962045288069760903793743107840855666221661391182822079511156355766064858180445748467680465561364893649073557841278088808843493764609127822030967845559432542214504984082409155514449458153093044827487206854241628130337962551189419891030321205271545103156122795552663341265372502357267045491127361547139418053345875468854713519949656201470607294172863436795681167341104653766346244900716800917701203370760431804219781 158097388813556949437735804351222515192675022614535920871821825048684364888263601566059611353574404311815304945449064722292599727793294564192917397825120697753979593145396706053052470580650469076130323946291267482756417507437797975292799535786186133405180695886494975012176688965854850178120550013768133777573403152315243872858184486860319040906855373533267494851017621884782391363561523827583932231794829377969028829948664603458301861039215906729402804576016728751394118655302533684988407191183653772219207376822451241591155864653750033054601730359126649947914555206089565338690149542937879880033154390316326326173390520832389532283492375388402005071307096951879298766703868384189052700367616813001066502907709373277615008169784534300143068749476222941783976937841480933032782410335731442141410991051063487170073783649585923831084199148369783501994126608746189071604235521132962990631401888240556831951268245962841768751108714599347171152855745853433016903518520973192274665833869762886857037955268611164340351434369997380334870505076867878244887965144319131841072955873191359050503831542080485743456420098661266275754446737318287194491306920420330303879911087479057057702923864779460337504243576844609303732884489017605757577948322774520353202113662039019858782110229357665138878463419965508485309689879269472603480932889562791564951039054472704692337807904768218954096234920060905428835664666956807125466387850056503760840797121438211571183082357956984829593168113574450901900392503039509803457245502652450507102268329438471164321668256639153565169882224395966980153458013594313861725481443413460774858414991146948667120839500263393081952860407611127770957393227041739929894687567030735244440514559677031211678826145293536714174164939189698293173947030653664823451066124483612240144346392796313599355470138112117095783080832925081255671872649578095570815454143220385997085878078822952209239757299236315211878200054232392301779602434375464880421018054460022762714926932531032139330776057043207015362598193028302091968959845068598171764769618120979868725624240160212450132045956649535977947292413262667449444344344546496115750944351158173773069521809102383550581040318704573136741315720304249614475531044705419080812633355175694192647562811177018430195723286015611609375554117102399475221044569102316509521124714904420495364700577951051603757918593923893460741712830488382612990233455569802642894622226618471618603763337361660983232940752260816938683004052302033497524844547356316828576364283452839036204177866848591865846155232004011038053266600545101455293914753979358974154204612920709537551495799619136097579989262121547942694805139477086249543106144763929059659996376282023053780989957119581813784372654029889040485963268925246029629639102623896288804587383583078598139367629020822558844030025479024765591725478383239318978180413784444283073911843552975900254409816677335496701730783453575596588898885393723339534494239696357021538945626399152198048023850906475197927824557206245925686305883675983432311873174116827202089814250667244157264804319165528945024076869489710877712711680 5128 c1_gen_3_8_s5120).trans (by rfl))

theorem c1_gen_3_8_s6144 : genTwin 3 2187 6144 0 1 0 8 = (2448, 11423562217377937432834817564864391054921813476074403186202876186307194708759156620192815736856953160782704625320798799480493785783539071475308181558958409886139180507766255745268835295645117313504338819263740326883325464574267555496207694285869572314648316514329215930122751571464318862255979369772869442140816230512157201729281184157721386877314303827951055243527097308944107496195827273952935604677267766071546533446890697483255207837930462782684172148575680225197203487779905492453075630072358789672398534046574327392486173694016134122557759726226515008486798286901592462027191956990502296836826476904023063730093767352130344241986543513478597270200430171167870470817891900406787683286749816171819721178731203958469214845378393188205402629456289561693333142972362644674727868905882414794182798628815144244282884732715875816564343120630024288027334007799988194834731233381122358943415169380791422314394888522349352754169171387184316559048299318816104505790570014135421871795686667456570093428333764500401473322473091469430114484959909986418748355975682127700969000479060806827718199171921592245572606336635338792547114785940558030340502870264507368836141891302191954986742155177791740596334877856064905113653510958715357311771125738767016830597066841479788229570894902294812659360371792899885245931631471193309068137839869350159625916813313891813844138841835728456514779336053610979039522512225803971670031382636034520265519120658140372513311443820577342736047955086135670909621213716531982075160000315922992148753205195630312855035622407459638600683783172600774573574204778094053334815192944505778908914221487623532498024315552752485355216561798826756604132811830144590586737850787325237836332790492188696181630244423989062068598152482517500641367645829615946803759607844550653155823121338129216600360826145365615845238863382492760001298328878691988429256888970863168772748354418117588659799118175809155553674724910168112613887038671114783465883638749482612492705277608389, 2352416535009116967922381937673801694190045611427085738568699167769348327796286344894540230644262600939706251936620071875209229012980975921043772673265305378087714953260842900389355237041966098641511531130433696402466505235749805650517928704618995392048518060938845635139557174963039809685431308810123559804324189495374326608393780381385931090310973065888528383184606767865443656196280158625604460442499624564374227640294010041658311930335858438075710898863208809161245304585973311985086363948047667287731360632966025901794487963536785369777748237246007626791921886092513806418711373327572608079143337054034923740777703134153075389724869781782763497676102725297574592554005685018430555646132158671080093684772640892979426336552120086106066998768960048879800693053294946303385088427253540351364221215665932476954681737256143685921014864687720507855162598123297089779940711604134455276572635905013423428103877322790598423260240755555421176771688575916422240464689710511288436077097622572002574683826583767066491691242938392616359017928909762763472094920152749275561293526731020737954419467992004692492604400368348952075841174358287808432453098878854881977165908543739364389991592225747602103704184970521096643670504964126492945522758125759493033957106832156548144365899073183624604804248393032817503960440274135359981104309365034236010064728368653237624767414972088257974831995542574574467720786930336072187614636678867391347670139531879462083918144134525943020168244554161254016074534437632632528772439076573363605602018041727485970987578300055361112155375143232967979855008885427388897749351849726227384744528756011470198853795628238746372622161067751597508644429557373784073453429373072743254410701047724592785685280761477239641233744716282775629410122828380792760749720488231549269708896841051589986075534694335244648347213243509727872424952527549296252695244182692946472056569274560260474171502113942564260939440923381429120866923388998622748392649793961039648901170127896973640948544645182343102752138850667835316028842947769354169158203465517424621796515360830666469222609286112872094790893862009591362942530618358553597277293745184337745676768918580638619772861869392817748837571201086226936244968320693241750800780103377463406959535507944832664114810919496956226868886857690001849056743701836343616758690090967404645277005895172894201755513232887435461832080050856780174103427628949455383394718799713590647869955349720840352592100484581087339424036848815088516685210609071110474921165994680283635679555954736603889655323139759953815197705562705333145655992043573138331877023681381183893535514643299329716784024470667365486270549257619062882468738075198239801882393142529347702237203193565667672022555626164741702582013022958873836794269136287000078433833942208017744720568720626283518612748043813913765464804202891118696650466988615491097000772101085672364291853051054590334412911206187787208266805263628318343729832820469792922787765806035056058001123168129467949681286966352552094047271487028821656223718888942279219272458506460341750818403539482462166537084924130303149118521540874845206543943972854182304888336580616324354161857221046159488526591953523329673756970010803558795273537684212814731538856549517185801707377699833721505054994627764665695214998497788841243703787427806085215575028317349299858369389555023838958468269590842649464293967812285442168601311547504098913561643290272883802520862128628785130781236721115865009814800319897121133409384880427732181456322902751999433186091994349499242560673651724512613313143986454680959750968137447340740267229394713410212638977432086754487034729129350223149452700946140485560645445164473683811364475189447680648183444051761120655538299469824, 6152) :=
  (congrArg (fun m => genTwin 3 2187 m 0 1 0 8)
      (by norm_num : (6144 : Nat) = 512 + 5632)).trans
    ((genTwin_chunk 3 2187 512 5632 0 1 0 8 3783 11423562217377937432834817564864391054921813476074403186202876186307194708759156620192815736856953160782704625320798799480493785783539071475308181558958409886139180507766255745268835295645117313504338819263740326883325464574267555496207694285869572314648316514329215930122751571464318862255979369772869442140816230512157201729281184157721386877314303827951055243527097308944107496195827273952935604677267766071546533446890697483255207837930462782684172148575680225197203487779905492453075630072358789672398534046574327392486173694016111531423140459562825734988731635603667392288286222218814317032246739950039096420707068312321408805478075644165752729551533467230968264694273683921529233389189970799252365540055522000761477821140797775661700535324078306934912183208771445702110829011387206543658248162294526711967818801271442536004334265054451936049875886258402338973810511537851267241467831771428778151276244576357026860145378349117037760945702084689384335196732107069668846085876606275811652058875628197473129678438209897000414435660035254479322347026597638388322363368809842744777266448129603135707585839138720688593450580789191358766728919086166941045425943244824840770271551409675486501148866324995909472875137891757949812412065608999242218628271059271631490486033153492174398194934640735571042189177718140827074922757379495016776042628340197856953224546817876328154915120864625832605566174732805091418175672057291187255453033989465398469516760564186935547042682449632756226798583588999239159309871853823403957441672037659988070907204751566055867621363579892284639225445834783754999720298820660096573420044575208795122377049238894903903548044185515798129030770360384325143924307461719622785428437969301668657639567250447405959538317232906677388487334029618828373385458878347297232064481851247078286324736688266305967684776546338384092827552383426567721837769603827669621884698692909120821602748379272280602925696634184621575909090512253948553849884841431464898956371886533 29663092497325054574026097329806157232627697255498641460698773525160663379775324102042071630002789691464630323001397487061120851489107856235789732084103575465089682878937317756094914772432849158178135122942801662135522731121475199454225664575764045696053197121510817128219861672918202593214941867681106811158612322640921710768800310112438893602925618681556544368051921442781208218872987552882191242702768736572245321112455610141139132385029935955871219416402494458549735252444225502237385654982214372283603982452379182465600444058008476345111976774778714545592102782640945732772437994865883483434969915434022828785074561127261559642506537464902653816564356318551415696248476949934938001640139075890849124098352397098777169635972837636476972295226342268568869354344066347279095636071119136509338363030865812061986320750831070714592933757445860201526820373136884220343727147477127874535426304506058893227477546018644429457245957432578753277899740126040616330572959568954084266537046102175242073133977728300029309915008622892621523292586363834385753442450735026885077350649248303287231692822279668660400523428940994730781699039033974916812829555426672381199062822281410706245567293715723845258743640318295257326896999012904536809890209362801154475994951172301532010248667130875669944322785713145990198074549407183727076594018753362241091005875422261216104683871298071409815541124263972051369718366722087662778565438309659233508538492696306231591559748523946208127012431851556503330838396943865324567364368199278731355766368266779906169091428133137258472236931158354693486036465454860935102965362733715315880685680669576175747238922237466352805820125615521036336665341536315582468548131956900270338873248950783659308620343718612298012184888867559177505244001539783836323254335656996147625902500070828382086007758160933780912082844989446748175075094192437411479172971216038174488505097885314728389974096961689089755010250768334568820068269381453873449254173486552587458164628806393968493317788338396832503995313870928648339123641032276800888378874342080441131015770053569796368812479476641984445653695755752540869286890352619959748386249745188460503261311588291405113142261614165054372907947048810308028231975187580049872970691177292200225222785673702376661855920192432627395422497307551800938075483515427123514171243413629715015586652842601871072406813491747554596644001462615670415789030498374048358305160212570452701574133634392617679745474489616742499803119974298887153374255376540472777240164287993189564812186217929255024313284478717644144570937549962288466173302421077815283327542052217526248041685708751409170852460345258152236877815916337881925016198181428430386879054131811802675229884622663027249160531917693620504760780408348994948503558933641010424949816625866232410702338835889847110062418311247448677003306017923686223515481491893634849528690746131654598319762466355307141011436811180391097971052802466630115510261638670814933215889322930937336725645795463301641075646194850390557198086676131580160761684743615657874229507518698868855154744538981370256154780336200163825691122747467790014004768872846992878473278598337562946744665491986777850944104505146455751848422610716541928962374416177020694856457944552562200834700288248496385288324264271478378185273536861424488480966982079605958253575492904889682529925822462083024230301913232147244717988629530803439624333903646904394717986816 5640 c1_gen_3_8_s5632).trans (by rfl))

theorem c1_gen_3_8 : genTwin 3 2187 6553 0 1 0 8 = (82, 11423562217377937432834817564864391054921813476074403186202876186307194708759156620192815736856953160782704625320798799480493785783539071475308181558958409886139180507766255745268835295645117313504338819263740326883325464574267555496207694285869572314648316514329215930122751571464318862255979369772869442140816230512157201729281184157721386877314303827951055243527097308944107496195827273952935604677267766071546533446890697483255207837930462782684172148575680225197203487779905492453075630072358789672398534046574327392486173694016134122557759726226515008486798286901592462027191956990502296836826476904023063730093767352130344242019656202260888892026453895468229206988071920295008873379682446553369924894350070488891702010078541708225795234839095211089097709112162085120097647338122139833228110600082989392591338433777616544053684799646500413069770687086581487137502485652747714529441936196186003229177757067964120330231232040963858808839184289548225605031170276587718715043046407159535959626211055259297605210472194352154412308176378305978722042762270067173474951806087819815154079666858570587012720661422637817709796687416276036064210127293014198595450513696623633614994073435824842954082330215697686198561610404629566074790086569059643951234599817490323492052082224793909497188899924748028310673588762414659720459750357897223526263703374718291098062788368105900330757150448440997331201883261254539971799479827925062216393761770118455872264943017533998376224462155020398146693775628328025202531730464287303637986218358050299410180853382504452275703440425860480386446379315676396280795480207937918857282731093005410172138830050194874788714452991613035147813226773820572447300904379337662415316283952401532557295469123129361640680750979589925530311008750051481797777047521102516096290235707488302970385974836925615505481055890889237500178188915488219919118150515623009698364304207655704025569383427467539797277361593600428110305022011501782421786168384318461505157684264959, 32752009063187003299989838056958935226513325978257168321894648409246039785078676918512059154878539569033294729886280858602768409536509299140561795328029867305796280698430569700613030479130768328651254381370051929371555618187454912594635027979361965459261701560318674364547591253846101409362317441307205031949151227347915962270620156737595861497275965270643254733159193683905464038405357801509760889116497177069598499979756620155240285504454414329509254592908151227685181237229979855204551985512353254491465313333213365336286819573714895651313940089940997421878323519569090770003026590727365366870184029087810476467094900293816987042712755417619076627149622084220708135423975189742253168205202684502263971882513063291119945139275767383323821483722468938010958480887010033989193060492979825943940174844564324319025607309228887819423941623762071642463018186178558425049965306144720305763064376937668082696049534346716202444716931432521243230070175752212154773112742952403188017375110040419652008541663570881225253293042254140230779004599594010405752513561862455082980577639875292648996387831786833699294013433831107798401876058688434745507296328015692812854756331669407245089635766497463496411298466223552447030779688930501410248687182667845709206390106836539123478916796677171270471600946602168756085655771506769719190618337730276810059582141664789747367849107514295208025082244330497950124914040317211418084555906303475743592540042762371783202310270257536158387978835501515783621295526836761643450184537826844235349425196984239648588529871294997881122830822956701231259899497891915300534981060987633692203027913874453086648580404789209990171045113645299043014622933410306777434048285119381281005997579827901547509502435563533995640115357380137121950967333618883901970502147017072253049133433191848030405974552720262818566821842761827783309551548956924285995177821279222108473344502409205729517351849517306778817096725180347761485710801825460880296376747042614807980888429950870044641423366034799663859937224197482269457076170909850767518006281404077488712468746579311588682875758422093902798660402686488014533613334277656688427480942376410481315254206229528430178856877491107566368165602287347099254299034563532475133176137706802917603529063006685003222654726874369265127757646755963027102823365828495626829835891668087041359152430767274575012444131347373651140676973907121342605765487400219454523962193546633055942999054495543595128600763200026859864625557339564600038655422121277972089375004823268911850854808134963504981975736484548371587684335677702243021247080646935703657796877488269846061349191354991730063414667935379265318137432334815411513843603733671812807179777557162589081142934236728104867126031620764290858018596260682061993494563740508156750302834411828150341439835106315345741373021882823611010944442070090798129438977872368688336639308728214544812114497059547233666620405824304020995674103773209327546063864811104718353652014500877960781354425081791167981458098207752980901242395943757166686004936210285321876081743301378748813114833825437353139466460620596753678607484318070780804841433261517057392683947223621263716409238275504131719543468912874898428148967927880269630252252949737233299382773869779312824436908353636337988636789457302684783685347815239118009689135721553959006532035597025553402014667929941944345526699585327359941580994131202922909820400902996787853888775123710842016897629182377641232334551275592843636630236045266220258243795414472489460917866016518834348125202522951866728397055827233234490858386259263938001278757359273940566082736078452370141773896412168925031980668382129974488051117924046287135202583401198022682771865435170193778621449717012227942126814012702598148200495009713868432505143826923302955813817372922978687149844030532987969615520981655935494314719005548901095551435427649022881065497903300039939573180815241088264591827168097968095920129612812201169258990774736416555831160070377928290598912, 6561) :=
  (congrArg (fun m => genTwin 3 2187 m 0 1 0 8)
      (by norm_num : (6553 : Nat) = 409 + 6144)).trans
    ((genTwin_chunk 3 2187 409 6144 0 1 0 8 2448 11423562217377937432834817564864391054921813476074403186202876186307194708759156620192815736856953160782704625320798799480493785783539071475308181558958409886139180507766255745268835295645117313504338819263740326883325464574267555496207694285869572314648316514329215930122751571464318862255979369772869442140816230512157201729281184157721386877314303827951055243527097308944107496195827273952935604677267766071546533446890697483255207837930462782684172148575680225197203487779905492453075630072358789672398534046574327392486173694016134122557759726226515008486798286901592462027191956990502296836826476904023063730093767352130344241986543513478597270200430171167870470817891900406787683286749816171819721178731203958469214845378393188205402629456289561693333142972362644674727868905882414794182798628815144244282884732715875816564343120630024288027334007799988194834731233381122358943415169380791422314394888522349352754169171387184316559048299318816104505790570014135421871795686667456570093428333764500401473322473091469430114484959909986418748355975682127700969000479060806827718199171921592245572606336635338792547114785940558030340502870264507368836141891302191954986742155177791740596334877856064905113653510958715357311771125738767016830597066841479788229570894902294812659360371792899885245931631471193309068137839869350159625916813313891813844138841835728456514779336053610979039522512225803971670031382636034520265519120658140372513311443820577342736047955086135670909621213716531982075160000315922992148753205195630312855035622407459638600683783172600774573574204778094053334815192944505778908914221487623532498024315552752485355216561798826756604132811830144590586737850787325237836332790492188696181630244423989062068598152482517500641367645829615946803759607844550653155823121338129216600360826145365615845238863382492760001298328878691988429256888970863168772748354418117588659799118175809155553674724910168112613887038671114783465883638749482612492705277608389 2352416535009116967922381937673801694190045611427085738568699167769348327796286344894540230644262600939706251936620071875209229012980975921043772673265305378087714953260842900389355237041966098641511531130433696402466505235749805650517928704618995392048518060938845635139557174963039809685431308810123559804324189495374326608393780381385931090310973065888528383184606767865443656196280158625604460442499624564374227640294010041658311930335858438075710898863208809161245304585973311985086363948047667287731360632966025901794487963536785369777748237246007626791921886092513806418711373327572608079143337054034923740777703134153075389724869781782763497676102725297574592554005685018430555646132158671080093684772640892979426336552120086106066998768960048879800693053294946303385088427253540351364221215665932476954681737256143685921014864687720507855162598123297089779940711604134455276572635905013423428103877322790598423260240755555421176771688575916422240464689710511288436077097622572002574683826583767066491691242938392616359017928909762763472094920152749275561293526731020737954419467992004692492604400368348952075841174358287808432453098878854881977165908543739364389991592225747602103704184970521096643670504964126492945522758125759493033957106832156548144365899073183624604804248393032817503960440274135359981104309365034236010064728368653237624767414972088257974831995542574574467720786930336072187614636678867391347670139531879462083918144134525943020168244554161254016074534437632632528772439076573363605602018041727485970987578300055361112155375143232967979855008885427388897749351849726227384744528756011470198853795628238746372622161067751597508644429557373784073453429373072743254410701047724592785685280761477239641233744716282775629410122828380792760749720488231549269708896841051589986075534694335244648347213243509727872424952527549296252695244182692946472056569274560260474171502113942564260939440923381429120866923388998622748392649793961039648901170127896973640948544645182343102752138850667835316028842947769354169158203465517424621796515360830666469222609286112872094790893862009591362942530618358553597277293745184337745676768918580638619772861869392817748837571201086226936244968320693241750800780103377463406959535507944832664114810919496956226868886857690001849056743701836343616758690090967404645277005895172894201755513232887435461832080050856780174103427628949455383394718799713590647869955349720840352592100484581087339424036848815088516685210609071110474921165994680283635679555954736603889655323139759953815197705562705333145655992043573138331877023681381183893535514643299329716784024470667365486270549257619062882468738075198239801882393142529347702237203193565667672022555626164741702582013022958873836794269136287000078433833942208017744720568720626283518612748043813913765464804202891118696650466988615491097000772101085672364291853051054590334412911206187787208266805263628318343729832820469792922787765806035056058001123168129467949681286966352552094047271487028821656223718888942279219272458506460341750818403539482462166537084924130303149118521540874845206543943972854182304888336580616324354161857221046159488526591953523329673756970010803558795273537684212814731538856549517185801707377699833721505054994627764665695214998497788841243703787427806085215575028317349299858369389555023838958468269590842649464293967812285442168601311547504098913561643290272883802520862128628785130781236721115865009814800319897121133409384880427732181456322902751999433186091994349499242560673651724512613313143986454680959750968137447340740267229394713410212638977432086754487034729129350223149452700946140485560645445164473683811364475189447680648183444051761120655538299469824 6152 c1_gen_3_8_s6144).trans (by rfl))

theorem c1_cons_3_8_s512 : consTwin 3 8 6561 2187 32752009063187003299989838056958935226513325978257168321894648409246039785078676918512059154878539569033294729886280858602768409536509299140561795328029867305796280698430569700613030479130768328651254381370051929371555618187454912594635027979361965459261701560318674364547591253846101409362317441307205031949151227347915962270620156737595861497275965270643254733159193683905464038405357801509760889116497177069598499979756620155240285504454414329509254592908151227685181237229979855204551985512353254491465313333213365336286819573714895651313940089940997421878323519569090770003026590727365366870184029087810476467094900293816987042712755417619076627149622084220708135423975189742253168205202684502263971882513063291119945139275767383323821483722468938010958480887010033989193060492979825943940174844564324319025607309228887819423941623762071642463018186178558425049965306144720305763064376937668082696049534346716202444716931432521243230070175752212154773112742952403188017375110040419652008541663570881225253293042254140230779004599594010405752513561862455082980577639875292648996387831786833699294013433831107798401876058688434745507296328015692812854756331669407245089635766497463496411298466223552447030779688930501410248687182667845709206390106836539123478916796677171270471600946602168756085655771506769719190618337730276810059582141664789747367849107514295208025082244330497950124914040317211418084555906303475743592540042762371783202310270257536158387978835501515783621295526836761643450184537826844235349425196984239648588529871294997881122830822956701231259899497891915300534981060987633692203027913874453086648580404789209990171045113645299043014622933410306777434048285119381281005997579827901547509502435563533995640115357380137121950967333618883901970502147017072253049133433191848030405974552720262818566821842761827783309551548956924285995177821279222108473344502409205729517351849517306778817096725180347761485710801825460880296376747042614807980888429950870044641423366034799663859937224197482269457076170909850767518006281404077488712468746579311588682875758422093902798660402686488014533613334277656688427480942376410481315254206229528430178856877491107566368165602287347099254299034563532475133176137706802917603529063006685003222654726874369265127757646755963027102823365828495626829835891668087041359152430767274575012444131347373651140676973907121342605765487400219454523962193546633055942999054495543595128600763200026859864625557339564600038655422121277972089375004823268911850854808134963504981975736484548371587684335677702243021247080646935703657796877488269846061349191354991730063414667935379265318137432334815411513843603733671812807179777557162589081142934236728104867126031620764290858018596260682061993494563740508156750302834411828150341439835106315345741373021882823611010944442070090798129438977872368688336639308728214544812114497059547233666620405824304020995674103773209327546063864811104718353652014500877960781354425081791167981458098207752980901242395943757166686004936210285321876081743301378748813114833825437353139466460620596753678607484318070780804841433261517057392683947223621263716409238275504131719543468912874898428148967927880269630252252949737233299382773869779312824436908353636337988636789457302684783685347815239118009689135721553959006532035597025553402014667929941944345526699585327359941580994131202922909820400902996787853888775123710842016897629182377641232334551275592843636630236045266220258243795414472489460917866016518834348125202522951866728397055827233234490858386259263938001278757359273940566082736078452370141773896412168925031980668382129974488051117924046287135202583401198022682771865435170193778621449717012227942126814012702598148200495009713868432505143826923302955813817372922978687149844030532987969615520981655935494314719005548901095551435427649022881065497903300039939573180815241088264591827168097968095920129612812201169258990774736416555831160070377928290598912 512 0 0 0 0 = (512, 4022, 11423562217377937432834817564658411589055543566127569235223546674406295838949251461212623436911415803676177405848032980849221031407485802527160333263242088912551962708614226532178908300843588422994952842697665719968178654190335744696590662659921280336938282237869579756320117248117030416065073198076045619915896440916296697637347743021088793506936691947987966397397905687224173438040608909782234826494616179728424244579452770365799783278904063344437818786824808067013247078984162866773743064693731261599417241592846146719231648195590759735908857580228745271517934501036284821445901888223560181021640090468295837552694498977190285776857112336661905593442846063157546314259148680382493739847873060415284492164271913756597248408133238958211266922740995756571266274109816831045095226262135357727432803406430935549736449058239759588228356673537698223821674559548657626816179710056087742982289299681137589454812930392087934888881689201624802822121071550602642751955955033116955654048941445163627434033301291749317901924518698439437363251434311357059873319521667277507855394270356573727993425804256146590974773946003677747252170714183426215584074070872386773300348954725545478800596099240008027654959342069003374907841346270749559480636502429741600392528516864590656939183204388893701669450824859662021051009293952930675170133002856509106599182533972863262821348406180438268228261296466524529615008156943090162262364192150267490736521840405627667185411398520640917888367043341754279315576575710265546718179795096920603682411918203222112330361123015874078457793116693694807583268895584212301718640388345960094324489213753608381270476039355487176742840405476561634335332760560695949689227451620634309735297564543724724225450257908210395396316586583651590269370107814310558988679003422047174852247807184803025045830343091769192543700448190406705725651277908231486794369572524057996149572827473074473281255619487284082955762275225629540872059785042621636638115494004872482656579051585797, 505) := by rfl

theorem c1_cons_3_8_s1024 : consTwin 3 8 6561 2187 32752009063187003299989838056958935226513325978257168321894648409246039785078676918512059154878539569033294729886280858602768409536509299140561795328029867305796280698430569700613030479130768328651254381370051929371555618187454912594635027979361965459261701560318674364547591253846101409362317441307205031949151227347915962270620156737595861497275965270643254733159193683905464038405357801509760889116497177069598499979756620155240285504454414329509254592908151227685181237229979855204551985512353254491465313333213365336286819573714895651313940089940997421878323519569090770003026590727365366870184029087810476467094900293816987042712755417619076627149622084220708135423975189742253168205202684502263971882513063291119945139275767383323821483722468938010958480887010033989193060492979825943940174844564324319025607309228887819423941623762071642463018186178558425049965306144720305763064376937668082696049534346716202444716931432521243230070175752212154773112742952403188017375110040419652008541663570881225253293042254140230779004599594010405752513561862455082980577639875292648996387831786833699294013433831107798401876058688434745507296328015692812854756331669407245089635766497463496411298466223552447030779688930501410248687182667845709206390106836539123478916796677171270471600946602168756085655771506769719190618337730276810059582141664789747367849107514295208025082244330497950124914040317211418084555906303475743592540042762371783202310270257536158387978835501515783621295526836761643450184537826844235349425196984239648588529871294997881122830822956701231259899497891915300534981060987633692203027913874453086648580404789209990171045113645299043014622933410306777434048285119381281005997579827901547509502435563533995640115357380137121950967333618883901970502147017072253049133433191848030405974552720262818566821842761827783309551548956924285995177821279222108473344502409205729517351849517306778817096725180347761485710801825460880296376747042614807980888429950870044641423366034799663859937224197482269457076170909850767518006281404077488712468746579311588682875758422093902798660402686488014533613334277656688427480942376410481315254206229528430178856877491107566368165602287347099254299034563532475133176137706802917603529063006685003222654726874369265127757646755963027102823365828495626829835891668087041359152430767274575012444131347373651140676973907121342605765487400219454523962193546633055942999054495543595128600763200026859864625557339564600038655422121277972089375004823268911850854808134963504981975736484548371587684335677702243021247080646935703657796877488269846061349191354991730063414667935379265318137432334815411513843603733671812807179777557162589081142934236728104867126031620764290858018596260682061993494563740508156750302834411828150341439835106315345741373021882823611010944442070090798129438977872368688336639308728214544812114497059547233666620405824304020995674103773209327546063864811104718353652014500877960781354425081791167981458098207752980901242395943757166686004936210285321876081743301378748813114833825437353139466460620596753678607484318070780804841433261517057392683947223621263716409238275504131719543468912874898428148967927880269630252252949737233299382773869779312824436908353636337988636789457302684783685347815239118009689135721553959006532035597025553402014667929941944345526699585327359941580994131202922909820400902996787853888775123710842016897629182377641232334551275592843636630236045266220258243795414472489460917866016518834348125202522951866728397055827233234490858386259263938001278757359273940566082736078452370141773896412168925031980668382129974488051117924046287135202583401198022682771865435170193778621449717012227942126814012702598148200495009713868432505143826923302955813817372922978687149844030532987969615520981655935494314719005548901095551435427649022881065497903300039939573180815241088264591827168097968095920129612812201169258990774736416555831160070377928290598912 1024 0 0 0 0 = (1024, 2122, 11423562217377937432834817564864391054921813476074403186202096238397273719421200107855416326744680571252514369942798053107047445477786933100765737528552401263926446551377996151532477712183534865762436947153913507949563932876661423981214798660974728174988274570495663490873017702555082065456894122167787650619156492970504410753634389286686144854096661022904727751045973844543411931900636783733117183413997685191376522881603739256192704774782120934274113848618901508531361533910157257323587034585391349258380154370751873990586040774882943978617789993829882985278242160004129678923204023657827156484120333085405695102621681921207874468485044144861664562597348738693500437885154723148012003254773098222553809555579956315232257282256479125379208925079063619761042211288123131045360326654767644325535056687645307943839463289966880415299228922903564209356261389877139765341766227199083158929034318256347901965317501553129594696192608889590752669481051587437839210091850604274162211181154284007711328265258764268258760519117708871503764191642960734349587007270422324265591933015227361684811227337520199158383715637773582273308519868641418261343413458611655421600743910945197141217449572176672586194323097771772218992686407806542860737963282765514120044586878294008826971441721503712807952379143609314921641001060111798740713405425595084159881319704698667943052124077019133603145517720900203428620598586789213610930413838205532710148472135975727064236073452613887294421933680074674888302626869148389814015746024055396295012053707581909236934401589217643075782370355725347050271958168650833007605231303216998815067918683106146250229645750122385981417091157652378060302748326390158229699682982254041575663167904480299002866581467430787250570185791193561080803497665122434907684984753297142132373757229721126212505633399816816374348757540150319582419033041405671437892427465748058125062865178156035533016013105208909820274225615842269886610777656537411594597209907285174433431114307600645, 1017) :=
  (congrArg (fun m => consTwin 3 8 6561 2187 32752009063187003299989838056958935226513325978257168321894648409246039785078676918512059154878539569033294729886280858602768409536509299140561795328029867305796280698430569700613030479130768328651254381370051929371555618187454912594635027979361965459261701560318674364547591253846101409362317441307205031949151227347915962270620156737595861497275965270643254733159193683905464038405357801509760889116497177069598499979756620155240285504454414329509254592908151227685181237229979855204551985512353254491465313333213365336286819573714895651313940089940997421878323519569090770003026590727365366870184029087810476467094900293816987042712755417619076627149622084220708135423975189742253168205202684502263971882513063291119945139275767383323821483722468938010958480887010033989193060492979825943940174844564324319025607309228887819423941623762071642463018186178558425049965306144720305763064376937668082696049534346716202444716931432521243230070175752212154773112742952403188017375110040419652008541663570881225253293042254140230779004599594010405752513561862455082980577639875292648996387831786833699294013433831107798401876058688434745507296328015692812854756331669407245089635766497463496411298466223552447030779688930501410248687182667845709206390106836539123478916796677171270471600946602168756085655771506769719190618337730276810059582141664789747367849107514295208025082244330497950124914040317211418084555906303475743592540042762371783202310270257536158387978835501515783621295526836761643450184537826844235349425196984239648588529871294997881122830822956701231259899497891915300534981060987633692203027913874453086648580404789209990171045113645299043014622933410306777434048285119381281005997579827901547509502435563533995640115357380137121950967333618883901970502147017072253049133433191848030405974552720262818566821842761827783309551548956924285995177821279222108473344502409205729517351849517306778817096725180347761485710801825460880296376747042614807980888429950870044641423366034799663859937224197482269457076170909850767518006281404077488712468746579311588682875758422093902798660402686488014533613334277656688427480942376410481315254206229528430178856877491107566368165602287347099254299034563532475133176137706802917603529063006685003222654726874369265127757646755963027102823365828495626829835891668087041359152430767274575012444131347373651140676973907121342605765487400219454523962193546633055942999054495543595128600763200026859864625557339564600038655422121277972089375004823268911850854808134963504981975736484548371587684335677702243021247080646935703657796877488269846061349191354991730063414667935379265318137432334815411513843603733671812807179777557162589081142934236728104867126031620764290858018596260682061993494563740508156750302834411828150341439835106315345741373021882823611010944442070090798129438977872368688336639308728214544812114497059547233666620405824304020995674103773209327546063864811104718353652014500877960781354425081791167981458098207752980901242395943757166686004936210285321876081743301378748813114833825437353139466460620596753678607484318070780804841433261517057392683947223621263716409238275504131719543468912874898428148967927880269630252252949737233299382773869779312824436908353636337988636789457302684783685347815239118009689135721553959006532035597025553402014667929941944345526699585327359941580994131202922909820400902996787853888775123710842016897629182377641232334551275592843636630236045266220258243795414472489460917866016518834348125202522951866728397055827233234490858386259263938001278757359273940566082736078452370141773896412168925031980668382129974488051117924046287135202583401198022682771865435170193778621449717012227942126814012702598148200495009713868432505143826923302955813817372922978687149844030532987969615520981655935494314719005548901095551435427649022881065497903300039939573180815241088264591827168097968095920129612812201169258990774736416555831160070377928290598912 m 0 0 0 0)
      (by norm_num : (1024 : Nat) = 512 + 512)).trans
    ((consTwin_chunk 3 8 6561 2187 32752009063187003299989838056958935226513325978257168321894648409246039785078676918512059154878539569033294729886280858602768409536509299140561795328029867305796280698430569700613030479130768328651254381370051929371555618187454912594635027979361965459261701560318674364547591253846101409362317441307205031949151227347915962270620156737595861497275965270643254733159193683905464038405357801509760889116497177069598499979756620155240285504454414329509254592908151227685181237229979855204551985512353254491465313333213365336286819573714895651313940089940997421878323519569090770003026590727365366870184029087810476467094900293816987042712755417619076627149622084220708135423975189742253168205202684502263971882513063291119945139275767383323821483722468938010958480887010033989193060492979825943940174844564324319025607309228887819423941623762071642463018186178558425049965306144720305763064376937668082696049534346716202444716931432521243230070175752212154773112742952403188017375110040419652008541663570881225253293042254140230779004599594010405752513561862455082980577639875292648996387831786833699294013433831107798401876058688434745507296328015692812854756331669407245089635766497463496411298466223552447030779688930501410248687182667845709206390106836539123478916796677171270471600946602168756085655771506769719190618337730276810059582141664789747367849107514295208025082244330497950124914040317211418084555906303475743592540042762371783202310270257536158387978835501515783621295526836761643450184537826844235349425196984239648588529871294997881122830822956701231259899497891915300534981060987633692203027913874453086648580404789209990171045113645299043014622933410306777434048285119381281005997579827901547509502435563533995640115357380137121950967333618883901970502147017072253049133433191848030405974552720262818566821842761827783309551548956924285995177821279222108473344502409205729517351849517306778817096725180347761485710801825460880296376747042614807980888429950870044641423366034799663859937224197482269457076170909850767518006281404077488712468746579311588682875758422093902798660402686488014533613334277656688427480942376410481315254206229528430178856877491107566368165602287347099254299034563532475133176137706802917603529063006685003222654726874369265127757646755963027102823365828495626829835891668087041359152430767274575012444131347373651140676973907121342605765487400219454523962193546633055942999054495543595128600763200026859864625557339564600038655422121277972089375004823268911850854808134963504981975736484548371587684335677702243021247080646935703657796877488269846061349191354991730063414667935379265318137432334815411513843603733671812807179777557162589081142934236728104867126031620764290858018596260682061993494563740508156750302834411828150341439835106315345741373021882823611010944442070090798129438977872368688336639308728214544812114497059547233666620405824304020995674103773209327546063864811104718353652014500877960781354425081791167981458098207752980901242395943757166686004936210285321876081743301378748813114833825437353139466460620596753678607484318070780804841433261517057392683947223621263716409238275504131719543468912874898428148967927880269630252252949737233299382773869779312824436908353636337988636789457302684783685347815239118009689135721553959006532035597025553402014667929941944345526699585327359941580994131202922909820400902996787853888775123710842016897629182377641232334551275592843636630236045266220258243795414472489460917866016518834348125202522951866728397055827233234490858386259263938001278757359273940566082736078452370141773896412168925031980668382129974488051117924046287135202583401198022682771865435170193778621449717012227942126814012702598148200495009713868432505143826923302955813817372922978687149844030532987969615520981655935494314719005548901095551435427649022881065497903300039939573180815241088264591827168097968095920129612812201169258990774736416555831160070377928290598912 512 512 0 0 0 0 512 4022 11423562217377937432834817564658411589055543566127569235223546674406295838949251461212623436911415803676177405848032980849221031407485802527160333263242088912551962708614226532178908300843588422994952842697665719968178654190335744696590662659921280336938282237869579756320117248117030416065073198076045619915896440916296697637347743021088793506936691947987966397397905687224173438040608909782234826494616179728424244579452770365799783278904063344437818786824808067013247078984162866773743064693731261599417241592846146719231648195590759735908857580228745271517934501036284821445901888223560181021640090468295837552694498977190285776857112336661905593442846063157546314259148680382493739847873060415284492164271913756597248408133238958211266922740995756571266274109816831045095226262135357727432803406430935549736449058239759588228356673537698223821674559548657626816179710056087742982289299681137589454812930392087934888881689201624802822121071550602642751955955033116955654048941445163627434033301291749317901924518698439437363251434311357059873319521667277507855394270356573727993425804256146590974773946003677747252170714183426215584074070872386773300348954725545478800596099240008027654959342069003374907841346270749559480636502429741600392528516864590656939183204388893701669450824859662021051009293952930675170133002856509106599182533972863262821348406180438268228261296466524529615008156943090162262364192150267490736521840405627667185411398520640917888367043341754279315576575710265546718179795096920603682411918203222112330361123015874078457793116693694807583268895584212301718640388345960094324489213753608381270476039355487176742840405476561634335332760560695949689227451620634309735297564543724724225450257908210395396316586583651590269370107814310558988679003422047174852247807184803025045830343091769192543700448190406705725651277908231486794369572524057996149572827473074473281255619487284082955762275225629540872059785042621636638115494004872482656579051585797 505 c1_cons_3_8_s512).trans (by rfl))

theorem c1_cons_3_8_s1536 : consTwin 3 8 6561 2187 32752009063187003299989838056958935226513325978257168321894648409246039785078676918512059154878539569033294729886280858602768409536509299140561795328029867305796280698430569700613030479130768328651254381370051929371555618187454912594635027979361965459261701560318674364547591253846101409362317441307205031949151227347915962270620156737595861497275965270643254733159193683905464038405357801509760889116497177069598499979756620155240285504454414329509254592908151227685181237229979855204551985512353254491465313333213365336286819573714895651313940089940997421878323519569090770003026590727365366870184029087810476467094900293816987042712755417619076627149622084220708135423975189742253168205202684502263971882513063291119945139275767383323821483722468938010958480887010033989193060492979825943940174844564324319025607309228887819423941623762071642463018186178558425049965306144720305763064376937668082696049534346716202444716931432521243230070175752212154773112742952403188017375110040419652008541663570881225253293042254140230779004599594010405752513561862455082980577639875292648996387831786833699294013433831107798401876058688434745507296328015692812854756331669407245089635766497463496411298466223552447030779688930501410248687182667845709206390106836539123478916796677171270471600946602168756085655771506769719190618337730276810059582141664789747367849107514295208025082244330497950124914040317211418084555906303475743592540042762371783202310270257536158387978835501515783621295526836761643450184537826844235349425196984239648588529871294997881122830822956701231259899497891915300534981060987633692203027913874453086648580404789209990171045113645299043014622933410306777434048285119381281005997579827901547509502435563533995640115357380137121950967333618883901970502147017072253049133433191848030405974552720262818566821842761827783309551548956924285995177821279222108473344502409205729517351849517306778817096725180347761485710801825460880296376747042614807980888429950870044641423366034799663859937224197482269457076170909850767518006281404077488712468746579311588682875758422093902798660402686488014533613334277656688427480942376410481315254206229528430178856877491107566368165602287347099254299034563532475133176137706802917603529063006685003222654726874369265127757646755963027102823365828495626829835891668087041359152430767274575012444131347373651140676973907121342605765487400219454523962193546633055942999054495543595128600763200026859864625557339564600038655422121277972089375004823268911850854808134963504981975736484548371587684335677702243021247080646935703657796877488269846061349191354991730063414667935379265318137432334815411513843603733671812807179777557162589081142934236728104867126031620764290858018596260682061993494563740508156750302834411828150341439835106315345741373021882823611010944442070090798129438977872368688336639308728214544812114497059547233666620405824304020995674103773209327546063864811104718353652014500877960781354425081791167981458098207752980901242395943757166686004936210285321876081743301378748813114833825437353139466460620596753678607484318070780804841433261517057392683947223621263716409238275504131719543468912874898428148967927880269630252252949737233299382773869779312824436908353636337988636789457302684783685347815239118009689135721553959006532035597025553402014667929941944345526699585327359941580994131202922909820400902996787853888775123710842016897629182377641232334551275592843636630236045266220258243795414472489460917866016518834348125202522951866728397055827233234490858386259263938001278757359273940566082736078452370141773896412168925031980668382129974488051117924046287135202583401198022682771865435170193778621449717012227942126814012702598148200495009713868432505143826923302955813817372922978687149844030532987969615520981655935494314719005548901095551435427649022881065497903300039939573180815241088264591827168097968095920129612812201169258990774736416555831160070377928290598912 1536 0 0 0 0 = (1536, 2086, 11423562217377937432834817564864391054921813476074403186202876186307194708759156620192815734453553230483270001369984444665191103079889959006694097937909226066254224328689738491735479742181794186313045623438530186556642017288270391150233486456670508890121474638903230017203563885897570965947147521743521515389789215216198121110196741861680187400793657688218045235803881529233806413488639794048238685376648065027153841838964731072404417737093366420944831179389885108406335559239678028724371466478211627588924566687569407813044890979301688629759304131343131213131237330883037834405152390277106283658719664709194511601373939901612954431824687554521214607132021784506779619024063617579961903731612295870559937402883048359518891218596943486210261194325962594608238165348536082567750143814880906342587449482659914559825427846356983322564424672842436225419939155412137912819816366801155276313123708753963610218178373696324991132808742333528327649214391055860897113304021995601276230503913501786542642574229078546633657429726680233205723270898906785736585645583308698661079085048319276375746091272324436222620070858350194325491839723533809026737233235042028479507078271187904672125106641433123625150558453183362698370581207945218121420030598531463016328792645205357410758454174562459020970751232849117146396635406624945587063514083609321560300201079845939975857091382725917890340419167648865157785602226772189527268064266266731313541703585664590476394887231329902077003671692502320047855344862255346502610023774660818299617523994700351809667455688627010331197792584784907543471407580279393848396493764400761699656861224412280967241245642924010198149798173072938409019402468156091941392459821066623631917699525552489803756277930360320123219429502330421837735318934637722724028616029443471460901678737915971331035181328305291511195010319207441168919738961181631215230560158732054173254557529630027432589697459410725439009073660204113061696526431771877935733751397017234466320364926402821, 1529) :=
  (congrArg (fun m => consTwin 3 8 6561 2187 32752009063187003299989838056958935226513325978257168321894648409246039785078676918512059154878539569033294729886280858602768409536509299140561795328029867305796280698430569700613030479130768328651254381370051929371555618187454912594635027979361965459261701560318674364547591253846101409362317441307205031949151227347915962270620156737595861497275965270643254733159193683905464038405357801509760889116497177069598499979756620155240285504454414329509254592908151227685181237229979855204551985512353254491465313333213365336286819573714895651313940089940997421878323519569090770003026590727365366870184029087810476467094900293816987042712755417619076627149622084220708135423975189742253168205202684502263971882513063291119945139275767383323821483722468938010958480887010033989193060492979825943940174844564324319025607309228887819423941623762071642463018186178558425049965306144720305763064376937668082696049534346716202444716931432521243230070175752212154773112742952403188017375110040419652008541663570881225253293042254140230779004599594010405752513561862455082980577639875292648996387831786833699294013433831107798401876058688434745507296328015692812854756331669407245089635766497463496411298466223552447030779688930501410248687182667845709206390106836539123478916796677171270471600946602168756085655771506769719190618337730276810059582141664789747367849107514295208025082244330497950124914040317211418084555906303475743592540042762371783202310270257536158387978835501515783621295526836761643450184537826844235349425196984239648588529871294997881122830822956701231259899497891915300534981060987633692203027913874453086648580404789209990171045113645299043014622933410306777434048285119381281005997579827901547509502435563533995640115357380137121950967333618883901970502147017072253049133433191848030405974552720262818566821842761827783309551548956924285995177821279222108473344502409205729517351849517306778817096725180347761485710801825460880296376747042614807980888429950870044641423366034799663859937224197482269457076170909850767518006281404077488712468746579311588682875758422093902798660402686488014533613334277656688427480942376410481315254206229528430178856877491107566368165602287347099254299034563532475133176137706802917603529063006685003222654726874369265127757646755963027102823365828495626829835891668087041359152430767274575012444131347373651140676973907121342605765487400219454523962193546633055942999054495543595128600763200026859864625557339564600038655422121277972089375004823268911850854808134963504981975736484548371587684335677702243021247080646935703657796877488269846061349191354991730063414667935379265318137432334815411513843603733671812807179777557162589081142934236728104867126031620764290858018596260682061993494563740508156750302834411828150341439835106315345741373021882823611010944442070090798129438977872368688336639308728214544812114497059547233666620405824304020995674103773209327546063864811104718353652014500877960781354425081791167981458098207752980901242395943757166686004936210285321876081743301378748813114833825437353139466460620596753678607484318070780804841433261517057392683947223621263716409238275504131719543468912874898428148967927880269630252252949737233299382773869779312824436908353636337988636789457302684783685347815239118009689135721553959006532035597025553402014667929941944345526699585327359941580994131202922909820400902996787853888775123710842016897629182377641232334551275592843636630236045266220258243795414472489460917866016518834348125202522951866728397055827233234490858386259263938001278757359273940566082736078452370141773896412168925031980668382129974488051117924046287135202583401198022682771865435170193778621449717012227942126814012702598148200495009713868432505143826923302955813817372922978687149844030532987969615520981655935494314719005548901095551435427649022881065497903300039939573180815241088264591827168097968095920129612812201169258990774736416555831160070377928290598912 m 0 0 0 0)
      (by norm_num : (1536 : Nat) = 512 + 1024)).trans
    ((consTwin_chunk 3 8 6561 2187 32752009063187003299989838056958935226513325978257168321894648409246039785078676918512059154878539569033294729886280858602768409536509299140561795328029867305796280698430569700613030479130768328651254381370051929371555618187454912594635027979361965459261701560318674364547591253846101409362317441307205031949151227347915962270620156737595861497275965270643254733159193683905464038405357801509760889116497177069598499979756620155240285504454414329509254592908151227685181237229979855204551985512353254491465313333213365336286819573714895651313940089940997421878323519569090770003026590727365366870184029087810476467094900293816987042712755417619076627149622084220708135423975189742253168205202684502263971882513063291119945139275767383323821483722468938010958480887010033989193060492979825943940174844564324319025607309228887819423941623762071642463018186178558425049965306144720305763064376937668082696049534346716202444716931432521243230070175752212154773112742952403188017375110040419652008541663570881225253293042254140230779004599594010405752513561862455082980577639875292648996387831786833699294013433831107798401876058688434745507296328015692812854756331669407245089635766497463496411298466223552447030779688930501410248687182667845709206390106836539123478916796677171270471600946602168756085655771506769719190618337730276810059582141664789747367849107514295208025082244330497950124914040317211418084555906303475743592540042762371783202310270257536158387978835501515783621295526836761643450184537826844235349425196984239648588529871294997881122830822956701231259899497891915300534981060987633692203027913874453086648580404789209990171045113645299043014622933410306777434048285119381281005997579827901547509502435563533995640115357380137121950967333618883901970502147017072253049133433191848030405974552720262818566821842761827783309551548956924285995177821279222108473344502409205729517351849517306778817096725180347761485710801825460880296376747042614807980888429950870044641423366034799663859937224197482269457076170909850767518006281404077488712468746579311588682875758422093902798660402686488014533613334277656688427480942376410481315254206229528430178856877491107566368165602287347099254299034563532475133176137706802917603529063006685003222654726874369265127757646755963027102823365828495626829835891668087041359152430767274575012444131347373651140676973907121342605765487400219454523962193546633055942999054495543595128600763200026859864625557339564600038655422121277972089375004823268911850854808134963504981975736484548371587684335677702243021247080646935703657796877488269846061349191354991730063414667935379265318137432334815411513843603733671812807179777557162589081142934236728104867126031620764290858018596260682061993494563740508156750302834411828150341439835106315345741373021882823611010944442070090798129438977872368688336639308728214544812114497059547233666620405824304020995674103773209327546063864811104718353652014500877960781354425081791167981458098207752980901242395943757166686004936210285321876081743301378748813114833825437353139466460620596753678607484318070780804841433261517057392683947223621263716409238275504131719543468912874898428148967927880269630252252949737233299382773869779312824436908353636337988636789457302684783685347815239118009689135721553959006532035597025553402014667929941944345526699585327359941580994131202922909820400902996787853888775123710842016897629182377641232334551275592843636630236045266220258243795414472489460917866016518834348125202522951866728397055827233234490858386259263938001278757359273940566082736078452370141773896412168925031980668382129974488051117924046287135202583401198022682771865435170193778621449717012227942126814012702598148200495009713868432505143826923302955813817372922978687149844030532987969615520981655935494314719005548901095551435427649022881065497903300039939573180815241088264591827168097968095920129612812201169258990774736416555831160070377928290598912 512 1024 0 0 0 0 1024 2122 11423562217377937432834817564864391054921813476074403186202096238397273719421200107855416326744680571252514369942798053107047445477786933100765737528552401263926446551377996151532477712183534865762436947153913507949563932876661423981214798660974728174988274570495663490873017702555082065456894122167787650619156492970504410753634389286686144854096661022904727751045973844543411931900636783733117183413997685191376522881603739256192704774782120934274113848618901508531361533910157257323587034585391349258380154370751873990586040774882943978617789993829882985278242160004129678923204023657827156484120333085405695102621681921207874468485044144861664562597348738693500437885154723148012003254773098222553809555579956315232257282256479125379208925079063619761042211288123131045360326654767644325535056687645307943839463289966880415299228922903564209356261389877139765341766227199083158929034318256347901965317501553129594696192608889590752669481051587437839210091850604274162211181154284007711328265258764268258760519117708871503764191642960734349587007270422324265591933015227361684811227337520199158383715637773582273308519868641418261343413458611655421600743910945197141217449572176672586194323097771772218992686407806542860737963282765514120044586878294008826971441721503712807952379143609314921641001060111798740713405425595084159881319704698667943052124077019133603145517720900203428620598586789213610930413838205532710148472135975727064236073452613887294421933680074674888302626869148389814015746024055396295012053707581909236934401589217643075782370355725347050271958168650833007605231303216998815067918683106146250229645750122385981417091157652378060302748326390158229699682982254041575663167904480299002866581467430787250570185791193561080803497665122434907684984753297142132373757229721126212505633399816816374348757540150319582419033041405671437892427465748058125062865178156035533016013105208909820274225615842269886610777656537411594597209907285174433431114307600645 1017 c1_cons_3_8_s1024).trans (by rfl))

theorem c1_cons_3_8_s2048 : consTwin 3 8 6561 2187 32752009063187003299989838056958935226513325978257168321894648409246039785078676918512059154878539569033294729886280858602768409536509299140561795328029867305796280698430569700613030479130768328651254381370051929371555618187454912594635027979361965459261701560318674364547591253846101409362317441307205031949151227347915962270620156737595861497275965270643254733159193683905464038405357801509760889116497177069598499979756620155240285504454414329509254592908151227685181237229979855204551985512353254491465313333213365336286819573714895651313940089940997421878323519569090770003026590727365366870184029087810476467094900293816987042712755417619076627149622084220708135423975189742253168205202684502263971882513063291119945139275767383323821483722468938010958480887010033989193060492979825943940174844564324319025607309228887819423941623762071642463018186178558425049965306144720305763064376937668082696049534346716202444716931432521243230070175752212154773112742952403188017375110040419652008541663570881225253293042254140230779004599594010405752513561862455082980577639875292648996387831786833699294013433831107798401876058688434745507296328015692812854756331669407245089635766497463496411298466223552447030779688930501410248687182667845709206390106836539123478916796677171270471600946602168756085655771506769719190618337730276810059582141664789747367849107514295208025082244330497950124914040317211418084555906303475743592540042762371783202310270257536158387978835501515783621295526836761643450184537826844235349425196984239648588529871294997881122830822956701231259899497891915300534981060987633692203027913874453086648580404789209990171045113645299043014622933410306777434048285119381281005997579827901547509502435563533995640115357380137121950967333618883901970502147017072253049133433191848030405974552720262818566821842761827783309551548956924285995177821279222108473344502409205729517351849517306778817096725180347761485710801825460880296376747042614807980888429950870044641423366034799663859937224197482269457076170909850767518006281404077488712468746579311588682875758422093902798660402686488014533613334277656688427480942376410481315254206229528430178856877491107566368165602287347099254299034563532475133176137706802917603529063006685003222654726874369265127757646755963027102823365828495626829835891668087041359152430767274575012444131347373651140676973907121342605765487400219454523962193546633055942999054495543595128600763200026859864625557339564600038655422121277972089375004823268911850854808134963504981975736484548371587684335677702243021247080646935703657796877488269846061349191354991730063414667935379265318137432334815411513843603733671812807179777557162589081142934236728104867126031620764290858018596260682061993494563740508156750302834411828150341439835106315345741373021882823611010944442070090798129438977872368688336639308728214544812114497059547233666620405824304020995674103773209327546063864811104718353652014500877960781354425081791167981458098207752980901242395943757166686004936210285321876081743301378748813114833825437353139466460620596753678607484318070780804841433261517057392683947223621263716409238275504131719543468912874898428148967927880269630252252949737233299382773869779312824436908353636337988636789457302684783685347815239118009689135721553959006532035597025553402014667929941944345526699585327359941580994131202922909820400902996787853888775123710842016897629182377641232334551275592843636630236045266220258243795414472489460917866016518834348125202522951866728397055827233234490858386259263938001278757359273940566082736078452370141773896412168925031980668382129974488051117924046287135202583401198022682771865435170193778621449717012227942126814012702598148200495009713868432505143826923302955813817372922978687149844030532987969615520981655935494314719005548901095551435427649022881065497903300039939573180815241088264591827168097968095920129612812201169258990774736416555831160070377928290598912 2048 0 0 0 0 = (2048, 2239, 11423562217377937432834817564864391054921813476074403186202876186307194708759156620192815736856953160782704625320798799480352453696992288423882279538029660351478186556338953880314664043313102783957767780643407907681214016381580041385105162551203036849782832548480492438482331368335479358738713255942915829649216180765807581600697897008684823491424242697469948376394329891660698627754139738871141141116872079394838580334666099183072237054128288027306035657969115167238041331582921665335621265013086079264471988509811230081209883558022277750874216204562060105127772653357507415649794826101257556597406103357619765358610060552308858808698446057953102302181983478191053457511862494317752492206617252759138399230186365981621283931379671572071196689480395691999053094395612795517454961521701534272848696735867569086770930002482832778220776388241605018122000281158326382065756259660390154823893176399025096416152276603599028060055628655474908834042538793416138414208400607125833210046831581968474762682851208880342924113709317497139564799326125802480911730761340583463944252316024513173703429193938767358758445213966849469291501269754073027034671014617205235427211443343941293199316112969735154730934706328569801807843146342327006547546828176451744940620542587569305676870488368119342676083567022261016179570102174751683986222605960340761472373549500156763889560141350755461299823491553066029852463883818435235962300351067423276414259751315389048764896662783822049083015258335064734315119071317769654579128648961547952432897809507620161107379664681280286322165649710350407020623174233544767101461001598094647477042990082893295289845838177806252592129288551590733914487478286543751931516194241957816590425758875837783251857575762913594396121302883240280383939934832299857937707967746967894227728723470546936932876416617499019025461372043890022004277720999613353808353784310350606627680406645528586229194338204554581065901404260872672785697343953652527458388392759782754422709297348869, 2041) :=
  (congrArg (fun m => consTwin 3 8 6561 2187 32752009063187003299989838056958935226513325978257168321894648409246039785078676918512059154878539569033294729886280858602768409536509299140561795328029867305796280698430569700613030479130768328651254381370051929371555618187454912594635027979361965459261701560318674364547591253846101409362317441307205031949151227347915962270620156737595861497275965270643254733159193683905464038405357801509760889116497177069598499979756620155240285504454414329509254592908151227685181237229979855204551985512353254491465313333213365336286819573714895651313940089940997421878323519569090770003026590727365366870184029087810476467094900293816987042712755417619076627149622084220708135423975189742253168205202684502263971882513063291119945139275767383323821483722468938010958480887010033989193060492979825943940174844564324319025607309228887819423941623762071642463018186178558425049965306144720305763064376937668082696049534346716202444716931432521243230070175752212154773112742952403188017375110040419652008541663570881225253293042254140230779004599594010405752513561862455082980577639875292648996387831786833699294013433831107798401876058688434745507296328015692812854756331669407245089635766497463496411298466223552447030779688930501410248687182667845709206390106836539123478916796677171270471600946602168756085655771506769719190618337730276810059582141664789747367849107514295208025082244330497950124914040317211418084555906303475743592540042762371783202310270257536158387978835501515783621295526836761643450184537826844235349425196984239648588529871294997881122830822956701231259899497891915300534981060987633692203027913874453086648580404789209990171045113645299043014622933410306777434048285119381281005997579827901547509502435563533995640115357380137121950967333618883901970502147017072253049133433191848030405974552720262818566821842761827783309551548956924285995177821279222108473344502409205729517351849517306778817096725180347761485710801825460880296376747042614807980888429950870044641423366034799663859937224197482269457076170909850767518006281404077488712468746579311588682875758422093902798660402686488014533613334277656688427480942376410481315254206229528430178856877491107566368165602287347099254299034563532475133176137706802917603529063006685003222654726874369265127757646755963027102823365828495626829835891668087041359152430767274575012444131347373651140676973907121342605765487400219454523962193546633055942999054495543595128600763200026859864625557339564600038655422121277972089375004823268911850854808134963504981975736484548371587684335677702243021247080646935703657796877488269846061349191354991730063414667935379265318137432334815411513843603733671812807179777557162589081142934236728104867126031620764290858018596260682061993494563740508156750302834411828150341439835106315345741373021882823611010944442070090798129438977872368688336639308728214544812114497059547233666620405824304020995674103773209327546063864811104718353652014500877960781354425081791167981458098207752980901242395943757166686004936210285321876081743301378748813114833825437353139466460620596753678607484318070780804841433261517057392683947223621263716409238275504131719543468912874898428148967927880269630252252949737233299382773869779312824436908353636337988636789457302684783685347815239118009689135721553959006532035597025553402014667929941944345526699585327359941580994131202922909820400902996787853888775123710842016897629182377641232334551275592843636630236045266220258243795414472489460917866016518834348125202522951866728397055827233234490858386259263938001278757359273940566082736078452370141773896412168925031980668382129974488051117924046287135202583401198022682771865435170193778621449717012227942126814012702598148200495009713868432505143826923302955813817372922978687149844030532987969615520981655935494314719005548901095551435427649022881065497903300039939573180815241088264591827168097968095920129612812201169258990774736416555831160070377928290598912 m 0 0 0 0)
      (by norm_num : (2048 : Nat) = 512 + 1536)).trans
    ((consTwin_chunk 3 8 6561 2187 32752009063187003299989838056958935226513325978257168321894648409246039785078676918512059154878539569033294729886280858602768409536509299140561795328029867305796280698430569700613030479130768328651254381370051929371555618187454912594635027979361965459261701560318674364547591253846101409362317441307205031949151227347915962270620156737595861497275965270643254733159193683905464038405357801509760889116497177069598499979756620155240285504454414329509254592908151227685181237229979855204551985512353254491465313333213365336286819573714895651313940089940997421878323519569090770003026590727365366870184029087810476467094900293816987042712755417619076627149622084220708135423975189742253168205202684502263971882513063291119945139275767383323821483722468938010958480887010033989193060492979825943940174844564324319025607309228887819423941623762071642463018186178558425049965306144720305763064376937668082696049534346716202444716931432521243230070175752212154773112742952403188017375110040419652008541663570881225253293042254140230779004599594010405752513561862455082980577639875292648996387831786833699294013433831107798401876058688434745507296328015692812854756331669407245089635766497463496411298466223552447030779688930501410248687182667845709206390106836539123478916796677171270471600946602168756085655771506769719190618337730276810059582141664789747367849107514295208025082244330497950124914040317211418084555906303475743592540042762371783202310270257536158387978835501515783621295526836761643450184537826844235349425196984239648588529871294997881122830822956701231259899497891915300534981060987633692203027913874453086648580404789209990171045113645299043014622933410306777434048285119381281005997579827901547509502435563533995640115357380137121950967333618883901970502147017072253049133433191848030405974552720262818566821842761827783309551548956924285995177821279222108473344502409205729517351849517306778817096725180347761485710801825460880296376747042614807980888429950870044641423366034799663859937224197482269457076170909850767518006281404077488712468746579311588682875758422093902798660402686488014533613334277656688427480942376410481315254206229528430178856877491107566368165602287347099254299034563532475133176137706802917603529063006685003222654726874369265127757646755963027102823365828495626829835891668087041359152430767274575012444131347373651140676973907121342605765487400219454523962193546633055942999054495543595128600763200026859864625557339564600038655422121277972089375004823268911850854808134963504981975736484548371587684335677702243021247080646935703657796877488269846061349191354991730063414667935379265318137432334815411513843603733671812807179777557162589081142934236728104867126031620764290858018596260682061993494563740508156750302834411828150341439835106315345741373021882823611010944442070090798129438977872368688336639308728214544812114497059547233666620405824304020995674103773209327546063864811104718353652014500877960781354425081791167981458098207752980901242395943757166686004936210285321876081743301378748813114833825437353139466460620596753678607484318070780804841433261517057392683947223621263716409238275504131719543468912874898428148967927880269630252252949737233299382773869779312824436908353636337988636789457302684783685347815239118009689135721553959006532035597025553402014667929941944345526699585327359941580994131202922909820400902996787853888775123710842016897629182377641232334551275592843636630236045266220258243795414472489460917866016518834348125202522951866728397055827233234490858386259263938001278757359273940566082736078452370141773896412168925031980668382129974488051117924046287135202583401198022682771865435170193778621449717012227942126814012702598148200495009713868432505143826923302955813817372922978687149844030532987969615520981655935494314719005548901095551435427649022881065497903300039939573180815241088264591827168097968095920129612812201169258990774736416555831160070377928290598912 512 1536 0 0 0 0 1536 2086 11423562217377937432834817564864391054921813476074403186202876186307194708759156620192815734453553230483270001369984444665191103079889959006694097937909226066254224328689738491735479742181794186313045623438530186556642017288270391150233486456670508890121474638903230017203563885897570965947147521743521515389789215216198121110196741861680187400793657688218045235803881529233806413488639794048238685376648065027153841838964731072404417737093366420944831179389885108406335559239678028724371466478211627588924566687569407813044890979301688629759304131343131213131237330883037834405152390277106283658719664709194511601373939901612954431824687554521214607132021784506779619024063617579961903731612295870559937402883048359518891218596943486210261194325962594608238165348536082567750143814880906342587449482659914559825427846356983322564424672842436225419939155412137912819816366801155276313123708753963610218178373696324991132808742333528327649214391055860897113304021995601276230503913501786542642574229078546633657429726680233205723270898906785736585645583308698661079085048319276375746091272324436222620070858350194325491839723533809026737233235042028479507078271187904672125106641433123625150558453183362698370581207945218121420030598531463016328792645205357410758454174562459020970751232849117146396635406624945587063514083609321560300201079845939975857091382725917890340419167648865157785602226772189527268064266266731313541703585664590476394887231329902077003671692502320047855344862255346502610023774660818299617523994700351809667455688627010331197792584784907543471407580279393848396493764400761699656861224412280967241245642924010198149798173072938409019402468156091941392459821066623631917699525552489803756277930360320123219429502330421837735318934637722724028616029443471460901678737915971331035181328305291511195010319207441168919738961181631215230560158732054173254557529630027432589697459410725439009073660204113061696526431771877935733751397017234466320364926402821 1529 c1_cons_3_8_s1536).trans (by rfl))

theorem c1_cons_3_8_s2560 : consTwin 3 8 6561 2187 32752009063187003299989838056958935226513325978257168321894648409246039785078676918512059154878539569033294729886280858602768409536509299140561795328029867305796280698430569700613030479130768328651254381370051929371555618187454912594635027979361965459261701560318674364547591253846101409362317441307205031949151227347915962270620156737595861497275965270643254733159193683905464038405357801509760889116497177069598499979756620155240285504454414329509254592908151227685181237229979855204551985512353254491465313333213365336286819573714895651313940089940997421878323519569090770003026590727365366870184029087810476467094900293816987042712755417619076627149622084220708135423975189742253168205202684502263971882513063291119945139275767383323821483722468938010958480887010033989193060492979825943940174844564324319025607309228887819423941623762071642463018186178558425049965306144720305763064376937668082696049534346716202444716931432521243230070175752212154773112742952403188017375110040419652008541663570881225253293042254140230779004599594010405752513561862455082980577639875292648996387831786833699294013433831107798401876058688434745507296328015692812854756331669407245089635766497463496411298466223552447030779688930501410248687182667845709206390106836539123478916796677171270471600946602168756085655771506769719190618337730276810059582141664789747367849107514295208025082244330497950124914040317211418084555906303475743592540042762371783202310270257536158387978835501515783621295526836761643450184537826844235349425196984239648588529871294997881122830822956701231259899497891915300534981060987633692203027913874453086648580404789209990171045113645299043014622933410306777434048285119381281005997579827901547509502435563533995640115357380137121950967333618883901970502147017072253049133433191848030405974552720262818566821842761827783309551548956924285995177821279222108473344502409205729517351849517306778817096725180347761485710801825460880296376747042614807980888429950870044641423366034799663859937224197482269457076170909850767518006281404077488712468746579311588682875758422093902798660402686488014533613334277656688427480942376410481315254206229528430178856877491107566368165602287347099254299034563532475133176137706802917603529063006685003222654726874369265127757646755963027102823365828495626829835891668087041359152430767274575012444131347373651140676973907121342605765487400219454523962193546633055942999054495543595128600763200026859864625557339564600038655422121277972089375004823268911850854808134963504981975736484548371587684335677702243021247080646935703657796877488269846061349191354991730063414667935379265318137432334815411513843603733671812807179777557162589081142934236728104867126031620764290858018596260682061993494563740508156750302834411828150341439835106315345741373021882823611010944442070090798129438977872368688336639308728214544812114497059547233666620405824304020995674103773209327546063864811104718353652014500877960781354425081791167981458098207752980901242395943757166686004936210285321876081743301378748813114833825437353139466460620596753678607484318070780804841433261517057392683947223621263716409238275504131719543468912874898428148967927880269630252252949737233299382773869779312824436908353636337988636789457302684783685347815239118009689135721553959006532035597025553402014667929941944345526699585327359941580994131202922909820400902996787853888775123710842016897629182377641232334551275592843636630236045266220258243795414472489460917866016518834348125202522951866728397055827233234490858386259263938001278757359273940566082736078452370141773896412168925031980668382129974488051117924046287135202583401198022682771865435170193778621449717012227942126814012702598148200495009713868432505143826923302955813817372922978687149844030532987969615520981655935494314719005548901095551435427649022881065497903300039939573180815241088264591827168097968095920129612812201169258990774736416555831160070377928290598912 2560 0 0 0 0 = (2560, 2010, 11423562217377937432834817564864391054921813476074403186202876186307194708759156620192815736856953160782704625320798799480493785783539071475308181558958409886133610006589858611975032007046835123928226660450093018064312459097168080558900300988354051273826694216388855683836099560997035997763941547556023550629850545392588755380664607038067567079970105191172093898621956151560170788965040093818716794181603070755931279083398847428411154954820616853012086292959033729248573620663257176763031723227400059040859485738436011497897989376349121194842547384944584532318694961026483425967832179884962387945421432978602035523655623534123904247136063429668957454142753661331479487878385588197699380934899998316664155085208648853671821787393134604812550763982091987043099648278928802252225217129378776413764480572897324576801220030579097881675142125842669682136063667365395296196935912491878290256163662993395616292033758302674349787255215571380410218144784828132766760926232019664104965550966920404116435983163177036643425850880756244498763596386905369069882523457692747113949084751985671860301108722835050089517176487267344164797182533731793146628062549692463324422584655633589174102910415898755641853945028050282998269594337179728347769822219429541790134943283305412643935370916134604644430616084067199442463130507815293697070504493575807980597391286713942871427615681825989075509000410299352813011785630513728555473180642597161761163342696347424376249106945671658405690376656189148195707365577132621725545669540015852373422649942505767364724717833105550069211670582497090975717017943267818325357330930825598346570316057417735518021462720103478108809176694998914370289347480169516571334601018085684867222005768157494185872388988593316507913737184431887272490373655040524519805640439605590656394030671068879039334755489854204625893242930524927556654277338962037869196242221005992634665803170491590287917251389109082378577378234782128910896373627538143125623901228672667274535541502116101, 2553) :=
  (congrArg (fun m => consTwin 3 8 6561 2187 32752009063187003299989838056958935226513325978257168321894648409246039785078676918512059154878539569033294729886280858602768409536509299140561795328029867305796280698430569700613030479130768328651254381370051929371555618187454912594635027979361965459261701560318674364547591253846101409362317441307205031949151227347915962270620156737595861497275965270643254733159193683905464038405357801509760889116497177069598499979756620155240285504454414329509254592908151227685181237229979855204551985512353254491465313333213365336286819573714895651313940089940997421878323519569090770003026590727365366870184029087810476467094900293816987042712755417619076627149622084220708135423975189742253168205202684502263971882513063291119945139275767383323821483722468938010958480887010033989193060492979825943940174844564324319025607309228887819423941623762071642463018186178558425049965306144720305763064376937668082696049534346716202444716931432521243230070175752212154773112742952403188017375110040419652008541663570881225253293042254140230779004599594010405752513561862455082980577639875292648996387831786833699294013433831107798401876058688434745507296328015692812854756331669407245089635766497463496411298466223552447030779688930501410248687182667845709206390106836539123478916796677171270471600946602168756085655771506769719190618337730276810059582141664789747367849107514295208025082244330497950124914040317211418084555906303475743592540042762371783202310270257536158387978835501515783621295526836761643450184537826844235349425196984239648588529871294997881122830822956701231259899497891915300534981060987633692203027913874453086648580404789209990171045113645299043014622933410306777434048285119381281005997579827901547509502435563533995640115357380137121950967333618883901970502147017072253049133433191848030405974552720262818566821842761827783309551548956924285995177821279222108473344502409205729517351849517306778817096725180347761485710801825460880296376747042614807980888429950870044641423366034799663859937224197482269457076170909850767518006281404077488712468746579311588682875758422093902798660402686488014533613334277656688427480942376410481315254206229528430178856877491107566368165602287347099254299034563532475133176137706802917603529063006685003222654726874369265127757646755963027102823365828495626829835891668087041359152430767274575012444131347373651140676973907121342605765487400219454523962193546633055942999054495543595128600763200026859864625557339564600038655422121277972089375004823268911850854808134963504981975736484548371587684335677702243021247080646935703657796877488269846061349191354991730063414667935379265318137432334815411513843603733671812807179777557162589081142934236728104867126031620764290858018596260682061993494563740508156750302834411828150341439835106315345741373021882823611010944442070090798129438977872368688336639308728214544812114497059547233666620405824304020995674103773209327546063864811104718353652014500877960781354425081791167981458098207752980901242395943757166686004936210285321876081743301378748813114833825437353139466460620596753678607484318070780804841433261517057392683947223621263716409238275504131719543468912874898428148967927880269630252252949737233299382773869779312824436908353636337988636789457302684783685347815239118009689135721553959006532035597025553402014667929941944345526699585327359941580994131202922909820400902996787853888775123710842016897629182377641232334551275592843636630236045266220258243795414472489460917866016518834348125202522951866728397055827233234490858386259263938001278757359273940566082736078452370141773896412168925031980668382129974488051117924046287135202583401198022682771865435170193778621449717012227942126814012702598148200495009713868432505143826923302955813817372922978687149844030532987969615520981655935494314719005548901095551435427649022881065497903300039939573180815241088264591827168097968095920129612812201169258990774736416555831160070377928290598912 m 0 0 0 0)
      (by norm_num : (2560 : Nat) = 512 + 2048)).trans
    ((consTwin_chunk 3 8 6561 2187 32752009063187003299989838056958935226513325978257168321894648409246039785078676918512059154878539569033294729886280858602768409536509299140561795328029867305796280698430569700613030479130768328651254381370051929371555618187454912594635027979361965459261701560318674364547591253846101409362317441307205031949151227347915962270620156737595861497275965270643254733159193683905464038405357801509760889116497177069598499979756620155240285504454414329509254592908151227685181237229979855204551985512353254491465313333213365336286819573714895651313940089940997421878323519569090770003026590727365366870184029087810476467094900293816987042712755417619076627149622084220708135423975189742253168205202684502263971882513063291119945139275767383323821483722468938010958480887010033989193060492979825943940174844564324319025607309228887819423941623762071642463018186178558425049965306144720305763064376937668082696049534346716202444716931432521243230070175752212154773112742952403188017375110040419652008541663570881225253293042254140230779004599594010405752513561862455082980577639875292648996387831786833699294013433831107798401876058688434745507296328015692812854756331669407245089635766497463496411298466223552447030779688930501410248687182667845709206390106836539123478916796677171270471600946602168756085655771506769719190618337730276810059582141664789747367849107514295208025082244330497950124914040317211418084555906303475743592540042762371783202310270257536158387978835501515783621295526836761643450184537826844235349425196984239648588529871294997881122830822956701231259899497891915300534981060987633692203027913874453086648580404789209990171045113645299043014622933410306777434048285119381281005997579827901547509502435563533995640115357380137121950967333618883901970502147017072253049133433191848030405974552720262818566821842761827783309551548956924285995177821279222108473344502409205729517351849517306778817096725180347761485710801825460880296376747042614807980888429950870044641423366034799663859937224197482269457076170909850767518006281404077488712468746579311588682875758422093902798660402686488014533613334277656688427480942376410481315254206229528430178856877491107566368165602287347099254299034563532475133176137706802917603529063006685003222654726874369265127757646755963027102823365828495626829835891668087041359152430767274575012444131347373651140676973907121342605765487400219454523962193546633055942999054495543595128600763200026859864625557339564600038655422121277972089375004823268911850854808134963504981975736484548371587684335677702243021247080646935703657796877488269846061349191354991730063414667935379265318137432334815411513843603733671812807179777557162589081142934236728104867126031620764290858018596260682061993494563740508156750302834411828150341439835106315345741373021882823611010944442070090798129438977872368688336639308728214544812114497059547233666620405824304020995674103773209327546063864811104718353652014500877960781354425081791167981458098207752980901242395943757166686004936210285321876081743301378748813114833825437353139466460620596753678607484318070780804841433261517057392683947223621263716409238275504131719543468912874898428148967927880269630252252949737233299382773869779312824436908353636337988636789457302684783685347815239118009689135721553959006532035597025553402014667929941944345526699585327359941580994131202922909820400902996787853888775123710842016897629182377641232334551275592843636630236045266220258243795414472489460917866016518834348125202522951866728397055827233234490858386259263938001278757359273940566082736078452370141773896412168925031980668382129974488051117924046287135202583401198022682771865435170193778621449717012227942126814012702598148200495009713868432505143826923302955813817372922978687149844030532987969615520981655935494314719005548901095551435427649022881065497903300039939573180815241088264591827168097968095920129612812201169258990774736416555831160070377928290598912 512 2048 0 0 0 0 2048 2239 11423562217377937432834817564864391054921813476074403186202876186307194708759156620192815736856953160782704625320798799480352453696992288423882279538029660351478186556338953880314664043313102783957767780643407907681214016381580041385105162551203036849782832548480492438482331368335479358738713255942915829649216180765807581600697897008684823491424242697469948376394329891660698627754139738871141141116872079394838580334666099183072237054128288027306035657969115167238041331582921665335621265013086079264471988509811230081209883558022277750874216204562060105127772653357507415649794826101257556597406103357619765358610060552308858808698446057953102302181983478191053457511862494317752492206617252759138399230186365981621283931379671572071196689480395691999053094395612795517454961521701534272848696735867569086770930002482832778220776388241605018122000281158326382065756259660390154823893176399025096416152276603599028060055628655474908834042538793416138414208400607125833210046831581968474762682851208880342924113709317497139564799326125802480911730761340583463944252316024513173703429193938767358758445213966849469291501269754073027034671014617205235427211443343941293199316112969735154730934706328569801807843146342327006547546828176451744940620542587569305676870488368119342676083567022261016179570102174751683986222605960340761472373549500156763889560141350755461299823491553066029852463883818435235962300351067423276414259751315389048764896662783822049083015258335064734315119071317769654579128648961547952432897809507620161107379664681280286322165649710350407020623174233544767101461001598094647477042990082893295289845838177806252592129288551590733914487478286543751931516194241957816590425758875837783251857575762913594396121302883240280383939934832299857937707967746967894227728723470546936932876416617499019025461372043890022004277720999613353808353784310350606627680406645528586229194338204554581065901404260872672785697343953652527458388392759782754422709297348869 2041 c1_cons_3_8_s2048).trans (by rfl))

theorem c1_cons_3_8_s3072 : consTwin 3 8 6561 2187 32752009063187003299989838056958935226513325978257168321894648409246039785078676918512059154878539569033294729886280858602768409536509299140561795328029867305796280698430569700613030479130768328651254381370051929371555618187454912594635027979361965459261701560318674364547591253846101409362317441307205031949151227347915962270620156737595861497275965270643254733159193683905464038405357801509760889116497177069598499979756620155240285504454414329509254592908151227685181237229979855204551985512353254491465313333213365336286819573714895651313940089940997421878323519569090770003026590727365366870184029087810476467094900293816987042712755417619076627149622084220708135423975189742253168205202684502263971882513063291119945139275767383323821483722468938010958480887010033989193060492979825943940174844564324319025607309228887819423941623762071642463018186178558425049965306144720305763064376937668082696049534346716202444716931432521243230070175752212154773112742952403188017375110040419652008541663570881225253293042254140230779004599594010405752513561862455082980577639875292648996387831786833699294013433831107798401876058688434745507296328015692812854756331669407245089635766497463496411298466223552447030779688930501410248687182667845709206390106836539123478916796677171270471600946602168756085655771506769719190618337730276810059582141664789747367849107514295208025082244330497950124914040317211418084555906303475743592540042762371783202310270257536158387978835501515783621295526836761643450184537826844235349425196984239648588529871294997881122830822956701231259899497891915300534981060987633692203027913874453086648580404789209990171045113645299043014622933410306777434048285119381281005997579827901547509502435563533995640115357380137121950967333618883901970502147017072253049133433191848030405974552720262818566821842761827783309551548956924285995177821279222108473344502409205729517351849517306778817096725180347761485710801825460880296376747042614807980888429950870044641423366034799663859937224197482269457076170909850767518006281404077488712468746579311588682875758422093902798660402686488014533613334277656688427480942376410481315254206229528430178856877491107566368165602287347099254299034563532475133176137706802917603529063006685003222654726874369265127757646755963027102823365828495626829835891668087041359152430767274575012444131347373651140676973907121342605765487400219454523962193546633055942999054495543595128600763200026859864625557339564600038655422121277972089375004823268911850854808134963504981975736484548371587684335677702243021247080646935703657796877488269846061349191354991730063414667935379265318137432334815411513843603733671812807179777557162589081142934236728104867126031620764290858018596260682061993494563740508156750302834411828150341439835106315345741373021882823611010944442070090798129438977872368688336639308728214544812114497059547233666620405824304020995674103773209327546063864811104718353652014500877960781354425081791167981458098207752980901242395943757166686004936210285321876081743301378748813114833825437353139466460620596753678607484318070780804841433261517057392683947223621263716409238275504131719543468912874898428148967927880269630252252949737233299382773869779312824436908353636337988636789457302684783685347815239118009689135721553959006532035597025553402014667929941944345526699585327359941580994131202922909820400902996787853888775123710842016897629182377641232334551275592843636630236045266220258243795414472489460917866016518834348125202522951866728397055827233234490858386259263938001278757359273940566082736078452370141773896412168925031980668382129974488051117924046287135202583401198022682771865435170193778621449717012227942126814012702598148200495009713868432505143826923302955813817372922978687149844030532987969615520981655935494314719005548901095551435427649022881065497903300039939573180815241088264591827168097968095920129612812201169258990774736416555831160070377928290598912 3072 0 0 0 0 = (3072, 2400, 11423562217377937432834817564864391054921813476074403186202876186307194708759156620192815736856953160782704625320798799480493785783539071475308181558958409886139180507766255745268835295645117312614279259234316070260675069705570035455095751850875808817788739255703816868625004774189240364424547189601939110908753554894582055419566357855947186740766143236297603054039791185507587004223778251042542516109604450131794018375753315232835605403936260151915291327043061022097683716384979268820731343088213854277300068779499465401010221651171211026736076358711388857388427736835910601532437178771158081301446810223376090107738490731013258758087388402362288113668021835523981507966244508732302309332562272967609324526853294827201967031681836421448081722447055769763764054380231807774390993299749999093703888515937051369950504582717189664545713646675245446224350153149492197827145630159586318659081837875531816706493498940914471880083313185175246935828442213238427024493719196171542235608914793065453200714860168868324659160895606583630143151117287018225048762774469183326833626820918604074881863570551330277416773179519339857969811135883879318108392748439572928118880369288018135385503519467101449119008302411565090746602332238812145628207249700087798394908933747896107320513542944629278345455362532327407482458000765705695034969144584551124344298151312970823857831935294589380792373465814837032284041498945398312382013127942352657431585532824265041057993037395406865256761098713700749023888809282779503260050400480478778697130194327559446132602209780138413269845951092399122301330597944110605547243216532233585729913338378934165785380105800513433662152435821782353488937347180047182793443987668412893434403263156543861373793274666127456002379119136454600505461284647673621262354049294757407880925282761644236908651254972421717552060050982694254301286649105818773646397097697637382982392598025284735033301342281016202318682617586601135494758954957667329825709117980756854698500933288197, 3065) :=
  (congrArg (fun m => consTwin 3 8 6561 2187 32752009063187003299989838056958935226513325978257168321894648409246039785078676918512059154878539569033294729886280858602768409536509299140561795328029867305796280698430569700613030479130768328651254381370051929371555618187454912594635027979361965459261701560318674364547591253846101409362317441307205031949151227347915962270620156737595861497275965270643254733159193683905464038405357801509760889116497177069598499979756620155240285504454414329509254592908151227685181237229979855204551985512353254491465313333213365336286819573714895651313940089940997421878323519569090770003026590727365366870184029087810476467094900293816987042712755417619076627149622084220708135423975189742253168205202684502263971882513063291119945139275767383323821483722468938010958480887010033989193060492979825943940174844564324319025607309228887819423941623762071642463018186178558425049965306144720305763064376937668082696049534346716202444716931432521243230070175752212154773112742952403188017375110040419652008541663570881225253293042254140230779004599594010405752513561862455082980577639875292648996387831786833699294013433831107798401876058688434745507296328015692812854756331669407245089635766497463496411298466223552447030779688930501410248687182667845709206390106836539123478916796677171270471600946602168756085655771506769719190618337730276810059582141664789747367849107514295208025082244330497950124914040317211418084555906303475743592540042762371783202310270257536158387978835501515783621295526836761643450184537826844235349425196984239648588529871294997881122830822956701231259899497891915300534981060987633692203027913874453086648580404789209990171045113645299043014622933410306777434048285119381281005997579827901547509502435563533995640115357380137121950967333618883901970502147017072253049133433191848030405974552720262818566821842761827783309551548956924285995177821279222108473344502409205729517351849517306778817096725180347761485710801825460880296376747042614807980888429950870044641423366034799663859937224197482269457076170909850767518006281404077488712468746579311588682875758422093902798660402686488014533613334277656688427480942376410481315254206229528430178856877491107566368165602287347099254299034563532475133176137706802917603529063006685003222654726874369265127757646755963027102823365828495626829835891668087041359152430767274575012444131347373651140676973907121342605765487400219454523962193546633055942999054495543595128600763200026859864625557339564600038655422121277972089375004823268911850854808134963504981975736484548371587684335677702243021247080646935703657796877488269846061349191354991730063414667935379265318137432334815411513843603733671812807179777557162589081142934236728104867126031620764290858018596260682061993494563740508156750302834411828150341439835106315345741373021882823611010944442070090798129438977872368688336639308728214544812114497059547233666620405824304020995674103773209327546063864811104718353652014500877960781354425081791167981458098207752980901242395943757166686004936210285321876081743301378748813114833825437353139466460620596753678607484318070780804841433261517057392683947223621263716409238275504131719543468912874898428148967927880269630252252949737233299382773869779312824436908353636337988636789457302684783685347815239118009689135721553959006532035597025553402014667929941944345526699585327359941580994131202922909820400902996787853888775123710842016897629182377641232334551275592843636630236045266220258243795414472489460917866016518834348125202522951866728397055827233234490858386259263938001278757359273940566082736078452370141773896412168925031980668382129974488051117924046287135202583401198022682771865435170193778621449717012227942126814012702598148200495009713868432505143826923302955813817372922978687149844030532987969615520981655935494314719005548901095551435427649022881065497903300039939573180815241088264591827168097968095920129612812201169258990774736416555831160070377928290598912 m 0 0 0 0)
      (by norm_num : (3072 : Nat) = 512 + 2560)).trans
    ((consTwin_chunk 3 8 6561 2187 32752009063187003299989838056958935226513325978257168321894648409246039785078676918512059154878539569033294729886280858602768409536509299140561795328029867305796280698430569700613030479130768328651254381370051929371555618187454912594635027979361965459261701560318674364547591253846101409362317441307205031949151227347915962270620156737595861497275965270643254733159193683905464038405357801509760889116497177069598499979756620155240285504454414329509254592908151227685181237229979855204551985512353254491465313333213365336286819573714895651313940089940997421878323519569090770003026590727365366870184029087810476467094900293816987042712755417619076627149622084220708135423975189742253168205202684502263971882513063291119945139275767383323821483722468938010958480887010033989193060492979825943940174844564324319025607309228887819423941623762071642463018186178558425049965306144720305763064376937668082696049534346716202444716931432521243230070175752212154773112742952403188017375110040419652008541663570881225253293042254140230779004599594010405752513561862455082980577639875292648996387831786833699294013433831107798401876058688434745507296328015692812854756331669407245089635766497463496411298466223552447030779688930501410248687182667845709206390106836539123478916796677171270471600946602168756085655771506769719190618337730276810059582141664789747367849107514295208025082244330497950124914040317211418084555906303475743592540042762371783202310270257536158387978835501515783621295526836761643450184537826844235349425196984239648588529871294997881122830822956701231259899497891915300534981060987633692203027913874453086648580404789209990171045113645299043014622933410306777434048285119381281005997579827901547509502435563533995640115357380137121950967333618883901970502147017072253049133433191848030405974552720262818566821842761827783309551548956924285995177821279222108473344502409205729517351849517306778817096725180347761485710801825460880296376747042614807980888429950870044641423366034799663859937224197482269457076170909850767518006281404077488712468746579311588682875758422093902798660402686488014533613334277656688427480942376410481315254206229528430178856877491107566368165602287347099254299034563532475133176137706802917603529063006685003222654726874369265127757646755963027102823365828495626829835891668087041359152430767274575012444131347373651140676973907121342605765487400219454523962193546633055942999054495543595128600763200026859864625557339564600038655422121277972089375004823268911850854808134963504981975736484548371587684335677702243021247080646935703657796877488269846061349191354991730063414667935379265318137432334815411513843603733671812807179777557162589081142934236728104867126031620764290858018596260682061993494563740508156750302834411828150341439835106315345741373021882823611010944442070090798129438977872368688336639308728214544812114497059547233666620405824304020995674103773209327546063864811104718353652014500877960781354425081791167981458098207752980901242395943757166686004936210285321876081743301378748813114833825437353139466460620596753678607484318070780804841433261517057392683947223621263716409238275504131719543468912874898428148967927880269630252252949737233299382773869779312824436908353636337988636789457302684783685347815239118009689135721553959006532035597025553402014667929941944345526699585327359941580994131202922909820400902996787853888775123710842016897629182377641232334551275592843636630236045266220258243795414472489460917866016518834348125202522951866728397055827233234490858386259263938001278757359273940566082736078452370141773896412168925031980668382129974488051117924046287135202583401198022682771865435170193778621449717012227942126814012702598148200495009713868432505143826923302955813817372922978687149844030532987969615520981655935494314719005548901095551435427649022881065497903300039939573180815241088264591827168097968095920129612812201169258990774736416555831160070377928290598912 512 2560 0 0 0 0 2560 2010 11423562217377937432834817564864391054921813476074403186202876186307194708759156620192815736856953160782704625320798799480493785783539071475308181558958409886133610006589858611975032007046835123928226660450093018064312459097168080558900300988354051273826694216388855683836099560997035997763941547556023550629850545392588755380664607038067567079970105191172093898621956151560170788965040093818716794181603070755931279083398847428411154954820616853012086292959033729248573620663257176763031723227400059040859485738436011497897989376349121194842547384944584532318694961026483425967832179884962387945421432978602035523655623534123904247136063429668957454142753661331479487878385588197699380934899998316664155085208648853671821787393134604812550763982091987043099648278928802252225217129378776413764480572897324576801220030579097881675142125842669682136063667365395296196935912491878290256163662993395616292033758302674349787255215571380410218144784828132766760926232019664104965550966920404116435983163177036643425850880756244498763596386905369069882523457692747113949084751985671860301108722835050089517176487267344164797182533731793146628062549692463324422584655633589174102910415898755641853945028050282998269594337179728347769822219429541790134943283305412643935370916134604644430616084067199442463130507815293697070504493575807980597391286713942871427615681825989075509000410299352813011785630513728555473180642597161761163342696347424376249106945671658405690376656189148195707365577132621725545669540015852373422649942505767364724717833105550069211670582497090975717017943267818325357330930825598346570316057417735518021462720103478108809176694998914370289347480169516571334601018085684867222005768157494185872388988593316507913737184431887272490373655040524519805640439605590656394030671068879039334755489854204625893242930524927556654277338962037869196242221005992634665803170491590287917251389109082378577378234782128910896373627538143125623901228672667274535541502116101 2553 c1_cons_3_8_s2560).trans (by rfl))

theorem c1_cons_3_8_s3584 : consTwin 3 8 6561 2187 32752009063187003299989838056958935226513325978257168321894648409246039785078676918512059154878539569033294729886280858602768409536509299140561795328029867305796280698430569700613030479130768328651254381370051929371555618187454912594635027979361965459261701560318674364547591253846101409362317441307205031949151227347915962270620156737595861497275965270643254733159193683905464038405357801509760889116497177069598499979756620155240285504454414329509254592908151227685181237229979855204551985512353254491465313333213365336286819573714895651313940089940997421878323519569090770003026590727365366870184029087810476467094900293816987042712755417619076627149622084220708135423975189742253168205202684502263971882513063291119945139275767383323821483722468938010958480887010033989193060492979825943940174844564324319025607309228887819423941623762071642463018186178558425049965306144720305763064376937668082696049534346716202444716931432521243230070175752212154773112742952403188017375110040419652008541663570881225253293042254140230779004599594010405752513561862455082980577639875292648996387831786833699294013433831107798401876058688434745507296328015692812854756331669407245089635766497463496411298466223552447030779688930501410248687182667845709206390106836539123478916796677171270471600946602168756085655771506769719190618337730276810059582141664789747367849107514295208025082244330497950124914040317211418084555906303475743592540042762371783202310270257536158387978835501515783621295526836761643450184537826844235349425196984239648588529871294997881122830822956701231259899497891915300534981060987633692203027913874453086648580404789209990171045113645299043014622933410306777434048285119381281005997579827901547509502435563533995640115357380137121950967333618883901970502147017072253049133433191848030405974552720262818566821842761827783309551548956924285995177821279222108473344502409205729517351849517306778817096725180347761485710801825460880296376747042614807980888429950870044641423366034799663859937224197482269457076170909850767518006281404077488712468746579311588682875758422093902798660402686488014533613334277656688427480942376410481315254206229528430178856877491107566368165602287347099254299034563532475133176137706802917603529063006685003222654726874369265127757646755963027102823365828495626829835891668087041359152430767274575012444131347373651140676973907121342605765487400219454523962193546633055942999054495543595128600763200026859864625557339564600038655422121277972089375004823268911850854808134963504981975736484548371587684335677702243021247080646935703657796877488269846061349191354991730063414667935379265318137432334815411513843603733671812807179777557162589081142934236728104867126031620764290858018596260682061993494563740508156750302834411828150341439835106315345741373021882823611010944442070090798129438977872368688336639308728214544812114497059547233666620405824304020995674103773209327546063864811104718353652014500877960781354425081791167981458098207752980901242395943757166686004936210285321876081743301378748813114833825437353139466460620596753678607484318070780804841433261517057392683947223621263716409238275504131719543468912874898428148967927880269630252252949737233299382773869779312824436908353636337988636789457302684783685347815239118009689135721553959006532035597025553402014667929941944345526699585327359941580994131202922909820400902996787853888775123710842016897629182377641232334551275592843636630236045266220258243795414472489460917866016518834348125202522951866728397055827233234490858386259263938001278757359273940566082736078452370141773896412168925031980668382129974488051117924046287135202583401198022682771865435170193778621449717012227942126814012702598148200495009713868432505143826923302955813817372922978687149844030532987969615520981655935494314719005548901095551435427649022881065497903300039939573180815241088264591827168097968095920129612812201169258990774736416555831160070377928290598912 3584 0 0 0 0 = (3584, 4585, 11423562217377937432834817564864391054921813476074403186202876186307194708759156620192815736856953160782704625320798799480493785783539071475308181558958409886139180507766255745268835295645117313504338819263740326883325464574267555496207694285869572314648312178775723449674959561719610418690888550763564939817234210971783766215905980928458962719483491391438659297545736481043831335557336760562299980191416134998518084004307879389940535998388800815119792376327989437435741466119856023816815206708079468429093674755971771418431488667616848379618708191729819860898882809926193371678511226717643637442456868093496454895612880808307402541520225945296666783767887383774222939048269565572557156237143988346793524474142613172293925523453178997524430244804879986704195214306444453768476650950604984113422984160286251162955915858991605524880083304973919815435419431401329536254761569871769923980415607185115604969371418675505457091218469650267882786110563990297093060356999190209050492097626194788481035568342277605897963940905767918973407607014667493034872033462688027758666812936588756096494341507200736285733000865740493332648384593299756008611964951990932474144548701116849501635388851593784055436547305781882736642936891287892463258649770289500435484296935960054766324129064565133956349098861574082969420398418627355262241637169774930827823755981610786194473480441552122610040140971137128580866635840046211118553154160339468587452147544338702601001630019707766182424592577050388604706571030986778752583175674712049034780394955515572324183316657059928427007176094105914899198441029314994305327063163723790323439305047683939044610693673599438264624705338660401420753331164079747992121002792728986840215885046655061800334201665888490728761103229823095689337731677024745941181142465196405149108018529954277385963881189203204095395492124674966583493398056879300181691179432112101628640244982873951095606226407388897199467307249884429468677623694832023738426949546553254019342256916529541, 3577) :=
  (congrArg (fun m => consTwin 3 8 6561 2187 32752009063187003299989838056958935226513325978257168321894648409246039785078676918512059154878539569033294729886280858602768409536509299140561795328029867305796280698430569700613030479130768328651254381370051929371555618187454912594635027979361965459261701560318674364547591253846101409362317441307205031949151227347915962270620156737595861497275965270643254733159193683905464038405357801509760889116497177069598499979756620155240285504454414329509254592908151227685181237229979855204551985512353254491465313333213365336286819573714895651313940089940997421878323519569090770003026590727365366870184029087810476467094900293816987042712755417619076627149622084220708135423975189742253168205202684502263971882513063291119945139275767383323821483722468938010958480887010033989193060492979825943940174844564324319025607309228887819423941623762071642463018186178558425049965306144720305763064376937668082696049534346716202444716931432521243230070175752212154773112742952403188017375110040419652008541663570881225253293042254140230779004599594010405752513561862455082980577639875292648996387831786833699294013433831107798401876058688434745507296328015692812854756331669407245089635766497463496411298466223552447030779688930501410248687182667845709206390106836539123478916796677171270471600946602168756085655771506769719190618337730276810059582141664789747367849107514295208025082244330497950124914040317211418084555906303475743592540042762371783202310270257536158387978835501515783621295526836761643450184537826844235349425196984239648588529871294997881122830822956701231259899497891915300534981060987633692203027913874453086648580404789209990171045113645299043014622933410306777434048285119381281005997579827901547509502435563533995640115357380137121950967333618883901970502147017072253049133433191848030405974552720262818566821842761827783309551548956924285995177821279222108473344502409205729517351849517306778817096725180347761485710801825460880296376747042614807980888429950870044641423366034799663859937224197482269457076170909850767518006281404077488712468746579311588682875758422093902798660402686488014533613334277656688427480942376410481315254206229528430178856877491107566368165602287347099254299034563532475133176137706802917603529063006685003222654726874369265127757646755963027102823365828495626829835891668087041359152430767274575012444131347373651140676973907121342605765487400219454523962193546633055942999054495543595128600763200026859864625557339564600038655422121277972089375004823268911850854808134963504981975736484548371587684335677702243021247080646935703657796877488269846061349191354991730063414667935379265318137432334815411513843603733671812807179777557162589081142934236728104867126031620764290858018596260682061993494563740508156750302834411828150341439835106315345741373021882823611010944442070090798129438977872368688336639308728214544812114497059547233666620405824304020995674103773209327546063864811104718353652014500877960781354425081791167981458098207752980901242395943757166686004936210285321876081743301378748813114833825437353139466460620596753678607484318070780804841433261517057392683947223621263716409238275504131719543468912874898428148967927880269630252252949737233299382773869779312824436908353636337988636789457302684783685347815239118009689135721553959006532035597025553402014667929941944345526699585327359941580994131202922909820400902996787853888775123710842016897629182377641232334551275592843636630236045266220258243795414472489460917866016518834348125202522951866728397055827233234490858386259263938001278757359273940566082736078452370141773896412168925031980668382129974488051117924046287135202583401198022682771865435170193778621449717012227942126814012702598148200495009713868432505143826923302955813817372922978687149844030532987969615520981655935494314719005548901095551435427649022881065497903300039939573180815241088264591827168097968095920129612812201169258990774736416555831160070377928290598912 m 0 0 0 0)
      (by norm_num : (3584 : Nat) = 512 + 3072)).trans
    ((consTwin_chunk 3 8 6561 2187 32752009063187003299989838056958935226513325978257168321894648409246039785078676918512059154878539569033294729886280858602768409536509299140561795328029867305796280698430569700613030479130768328651254381370051929371555618187454912594635027979361965459261701560318674364547591253846101409362317441307205031949151227347915962270620156737595861497275965270643254733159193683905464038405357801509760889116497177069598499979756620155240285504454414329509254592908151227685181237229979855204551985512353254491465313333213365336286819573714895651313940089940997421878323519569090770003026590727365366870184029087810476467094900293816987042712755417619076627149622084220708135423975189742253168205202684502263971882513063291119945139275767383323821483722468938010958480887010033989193060492979825943940174844564324319025607309228887819423941623762071642463018186178558425049965306144720305763064376937668082696049534346716202444716931432521243230070175752212154773112742952403188017375110040419652008541663570881225253293042254140230779004599594010405752513561862455082980577639875292648996387831786833699294013433831107798401876058688434745507296328015692812854756331669407245089635766497463496411298466223552447030779688930501410248687182667845709206390106836539123478916796677171270471600946602168756085655771506769719190618337730276810059582141664789747367849107514295208025082244330497950124914040317211418084555906303475743592540042762371783202310270257536158387978835501515783621295526836761643450184537826844235349425196984239648588529871294997881122830822956701231259899497891915300534981060987633692203027913874453086648580404789209990171045113645299043014622933410306777434048285119381281005997579827901547509502435563533995640115357380137121950967333618883901970502147017072253049133433191848030405974552720262818566821842761827783309551548956924285995177821279222108473344502409205729517351849517306778817096725180347761485710801825460880296376747042614807980888429950870044641423366034799663859937224197482269457076170909850767518006281404077488712468746579311588682875758422093902798660402686488014533613334277656688427480942376410481315254206229528430178856877491107566368165602287347099254299034563532475133176137706802917603529063006685003222654726874369265127757646755963027102823365828495626829835891668087041359152430767274575012444131347373651140676973907121342605765487400219454523962193546633055942999054495543595128600763200026859864625557339564600038655422121277972089375004823268911850854808134963504981975736484548371587684335677702243021247080646935703657796877488269846061349191354991730063414667935379265318137432334815411513843603733671812807179777557162589081142934236728104867126031620764290858018596260682061993494563740508156750302834411828150341439835106315345741373021882823611010944442070090798129438977872368688336639308728214544812114497059547233666620405824304020995674103773209327546063864811104718353652014500877960781354425081791167981458098207752980901242395943757166686004936210285321876081743301378748813114833825437353139466460620596753678607484318070780804841433261517057392683947223621263716409238275504131719543468912874898428148967927880269630252252949737233299382773869779312824436908353636337988636789457302684783685347815239118009689135721553959006532035597025553402014667929941944345526699585327359941580994131202922909820400902996787853888775123710842016897629182377641232334551275592843636630236045266220258243795414472489460917866016518834348125202522951866728397055827233234490858386259263938001278757359273940566082736078452370141773896412168925031980668382129974488051117924046287135202583401198022682771865435170193778621449717012227942126814012702598148200495009713868432505143826923302955813817372922978687149844030532987969615520981655935494314719005548901095551435427649022881065497903300039939573180815241088264591827168097968095920129612812201169258990774736416555831160070377928290598912 512 3072 0 0 0 0 3072 2400 11423562217377937432834817564864391054921813476074403186202876186307194708759156620192815736856953160782704625320798799480493785783539071475308181558958409886139180507766255745268835295645117312614279259234316070260675069705570035455095751850875808817788739255703816868625004774189240364424547189601939110908753554894582055419566357855947186740766143236297603054039791185507587004223778251042542516109604450131794018375753315232835605403936260151915291327043061022097683716384979268820731343088213854277300068779499465401010221651171211026736076358711388857388427736835910601532437178771158081301446810223376090107738490731013258758087388402362288113668021835523981507966244508732302309332562272967609324526853294827201967031681836421448081722447055769763764054380231807774390993299749999093703888515937051369950504582717189664545713646675245446224350153149492197827145630159586318659081837875531816706493498940914471880083313185175246935828442213238427024493719196171542235608914793065453200714860168868324659160895606583630143151117287018225048762774469183326833626820918604074881863570551330277416773179519339857969811135883879318108392748439572928118880369288018135385503519467101449119008302411565090746602332238812145628207249700087798394908933747896107320513542944629278345455362532327407482458000765705695034969144584551124344298151312970823857831935294589380792373465814837032284041498945398312382013127942352657431585532824265041057993037395406865256761098713700749023888809282779503260050400480478778697130194327559446132602209780138413269845951092399122301330597944110605547243216532233585729913338378934165785380105800513433662152435821782353488937347180047182793443987668412893434403263156543861373793274666127456002379119136454600505461284647673621262354049294757407880925282761644236908651254972421717552060050982694254301286649105818773646397097697637382982392598025284735033301342281016202318682617586601135494758954957667329825709117980756854698500933288197 3065 c1_cons_3_8_s3072).trans (by rfl))

theorem c1_cons_3_8_s4096 : consTwin 3 8 6561 2187 32752009063187003299989838056958935226513325978257168321894648409246039785078676918512059154878539569033294729886280858602768409536509299140561795328029867305796280698430569700613030479130768328651254381370051929371555618187454912594635027979361965459261701560318674364547591253846101409362317441307205031949151227347915962270620156737595861497275965270643254733159193683905464038405357801509760889116497177069598499979756620155240285504454414329509254592908151227685181237229979855204551985512353254491465313333213365336286819573714895651313940089940997421878323519569090770003026590727365366870184029087810476467094900293816987042712755417619076627149622084220708135423975189742253168205202684502263971882513063291119945139275767383323821483722468938010958480887010033989193060492979825943940174844564324319025607309228887819423941623762071642463018186178558425049965306144720305763064376937668082696049534346716202444716931432521243230070175752212154773112742952403188017375110040419652008541663570881225253293042254140230779004599594010405752513561862455082980577639875292648996387831786833699294013433831107798401876058688434745507296328015692812854756331669407245089635766497463496411298466223552447030779688930501410248687182667845709206390106836539123478916796677171270471600946602168756085655771506769719190618337730276810059582141664789747367849107514295208025082244330497950124914040317211418084555906303475743592540042762371783202310270257536158387978835501515783621295526836761643450184537826844235349425196984239648588529871294997881122830822956701231259899497891915300534981060987633692203027913874453086648580404789209990171045113645299043014622933410306777434048285119381281005997579827901547509502435563533995640115357380137121950967333618883901970502147017072253049133433191848030405974552720262818566821842761827783309551548956924285995177821279222108473344502409205729517351849517306778817096725180347761485710801825460880296376747042614807980888429950870044641423366034799663859937224197482269457076170909850767518006281404077488712468746579311588682875758422093902798660402686488014533613334277656688427480942376410481315254206229528430178856877491107566368165602287347099254299034563532475133176137706802917603529063006685003222654726874369265127757646755963027102823365828495626829835891668087041359152430767274575012444131347373651140676973907121342605765487400219454523962193546633055942999054495543595128600763200026859864625557339564600038655422121277972089375004823268911850854808134963504981975736484548371587684335677702243021247080646935703657796877488269846061349191354991730063414667935379265318137432334815411513843603733671812807179777557162589081142934236728104867126031620764290858018596260682061993494563740508156750302834411828150341439835106315345741373021882823611010944442070090798129438977872368688336639308728214544812114497059547233666620405824304020995674103773209327546063864811104718353652014500877960781354425081791167981458098207752980901242395943757166686004936210285321876081743301378748813114833825437353139466460620596753678607484318070780804841433261517057392683947223621263716409238275504131719543468912874898428148967927880269630252252949737233299382773869779312824436908353636337988636789457302684783685347815239118009689135721553959006532035597025553402014667929941944345526699585327359941580994131202922909820400902996787853888775123710842016897629182377641232334551275592843636630236045266220258243795414472489460917866016518834348125202522951866728397055827233234490858386259263938001278757359273940566082736078452370141773896412168925031980668382129974488051117924046287135202583401198022682771865435170193778621449717012227942126814012702598148200495009713868432505143826923302955813817372922978687149844030532987969615520981655935494314719005548901095551435427649022881065497903300039939573180815241088264591827168097968095920129612812201169258990774736416555831160070377928290598912 4096 0 0 0 0 = (4096, 3521, 11423562217377937432834817564864391054921813476074403186202876186307194708759156620192815736856953160782704625320798799480493785783539071475308181558958409886139180507766255745268835295645117313504338819263740326883325464574267555496207694285869572314648316514329215930122751571464318862255979369772869442114968680715395830962643616808242596369380241914964896369159060677400391293612890112306358142158185920522193619936451876366502730746799239722078855172299633105682755461343775903571660594422397215803851236516431387658756584783636762823800055721765225377486621738210050878079840544311596747937562730253607153387934619093949276017156315744785863457415626798594131385405119772141896306405446728168562758742427355969459259724662670731700453462713405046674603165739093908896939304783972520999213115669942055784976856347398498333035927383841476373447656720461647840630049347289963594443164663253434149249923165262348668991334022267409373965653421426825762026676728418233645640529944359352837453907960129938519878790155025559220826008922400546413241758303407916365809473103954944905350675846490674524929785738151844935003233800672794636816155509262681128537039751515287164127606435124850053396516906373470908666036425899968381351444084071929674818549235409908956443591249519433133305737717337077755407211544959710939656872122392713988391155307915002728773387279108381803899137470137771154943863667415395279592735584074854328053421211306881978535332246868911348070443127784413296929737791051761975524364987361036884854790199064776387835516271951791493980261572968997112135812282861252245189050238243710590112020255237502020237952117685651781982684812396200725295313645185946568153864245992200674466689294503293595547471889511069100743606509027232361321017350385627159326701158713525820052055052958701241255728151178784099979008034942930458443115020691141064835582326505595565276020312317247824042023859461126842763797672745244907301245393245424081749624019957083672207839006425477, 4089) :=
  (congrArg (fun m => consTwin 3 8 6561 2187 32752009063187003299989838056958935226513325978257168321894648409246039785078676918512059154878539569033294729886280858602768409536509299140561795328029867305796280698430569700613030479130768328651254381370051929371555618187454912594635027979361965459261701560318674364547591253846101409362317441307205031949151227347915962270620156737595861497275965270643254733159193683905464038405357801509760889116497177069598499979756620155240285504454414329509254592908151227685181237229979855204551985512353254491465313333213365336286819573714895651313940089940997421878323519569090770003026590727365366870184029087810476467094900293816987042712755417619076627149622084220708135423975189742253168205202684502263971882513063291119945139275767383323821483722468938010958480887010033989193060492979825943940174844564324319025607309228887819423941623762071642463018186178558425049965306144720305763064376937668082696049534346716202444716931432521243230070175752212154773112742952403188017375110040419652008541663570881225253293042254140230779004599594010405752513561862455082980577639875292648996387831786833699294013433831107798401876058688434745507296328015692812854756331669407245089635766497463496411298466223552447030779688930501410248687182667845709206390106836539123478916796677171270471600946602168756085655771506769719190618337730276810059582141664789747367849107514295208025082244330497950124914040317211418084555906303475743592540042762371783202310270257536158387978835501515783621295526836761643450184537826844235349425196984239648588529871294997881122830822956701231259899497891915300534981060987633692203027913874453086648580404789209990171045113645299043014622933410306777434048285119381281005997579827901547509502435563533995640115357380137121950967333618883901970502147017072253049133433191848030405974552720262818566821842761827783309551548956924285995177821279222108473344502409205729517351849517306778817096725180347761485710801825460880296376747042614807980888429950870044641423366034799663859937224197482269457076170909850767518006281404077488712468746579311588682875758422093902798660402686488014533613334277656688427480942376410481315254206229528430178856877491107566368165602287347099254299034563532475133176137706802917603529063006685003222654726874369265127757646755963027102823365828495626829835891668087041359152430767274575012444131347373651140676973907121342605765487400219454523962193546633055942999054495543595128600763200026859864625557339564600038655422121277972089375004823268911850854808134963504981975736484548371587684335677702243021247080646935703657796877488269846061349191354991730063414667935379265318137432334815411513843603733671812807179777557162589081142934236728104867126031620764290858018596260682061993494563740508156750302834411828150341439835106315345741373021882823611010944442070090798129438977872368688336639308728214544812114497059547233666620405824304020995674103773209327546063864811104718353652014500877960781354425081791167981458098207752980901242395943757166686004936210285321876081743301378748813114833825437353139466460620596753678607484318070780804841433261517057392683947223621263716409238275504131719543468912874898428148967927880269630252252949737233299382773869779312824436908353636337988636789457302684783685347815239118009689135721553959006532035597025553402014667929941944345526699585327359941580994131202922909820400902996787853888775123710842016897629182377641232334551275592843636630236045266220258243795414472489460917866016518834348125202522951866728397055827233234490858386259263938001278757359273940566082736078452370141773896412168925031980668382129974488051117924046287135202583401198022682771865435170193778621449717012227942126814012702598148200495009713868432505143826923302955813817372922978687149844030532987969615520981655935494314719005548901095551435427649022881065497903300039939573180815241088264591827168097968095920129612812201169258990774736416555831160070377928290598912 m 0 0 0 0)
      (by norm_num : (4096 : Nat) = 512 + 3584)).trans
    ((consTwin_chunk 3 8 6561 2187 32752009063187003299989838056958935226513325978257168321894648409246039785078676918512059154878539569033294729886280858602768409536509299140561795328029867305796280698430569700613030479130768328651254381370051929371555618187454912594635027979361965459261701560318674364547591253846101409362317441307205031949151227347915962270620156737595861497275965270643254733159193683905464038405357801509760889116497177069598499979756620155240285504454414329509254592908151227685181237229979855204551985512353254491465313333213365336286819573714895651313940089940997421878323519569090770003026590727365366870184029087810476467094900293816987042712755417619076627149622084220708135423975189742253168205202684502263971882513063291119945139275767383323821483722468938010958480887010033989193060492979825943940174844564324319025607309228887819423941623762071642463018186178558425049965306144720305763064376937668082696049534346716202444716931432521243230070175752212154773112742952403188017375110040419652008541663570881225253293042254140230779004599594010405752513561862455082980577639875292648996387831786833699294013433831107798401876058688434745507296328015692812854756331669407245089635766497463496411298466223552447030779688930501410248687182667845709206390106836539123478916796677171270471600946602168756085655771506769719190618337730276810059582141664789747367849107514295208025082244330497950124914040317211418084555906303475743592540042762371783202310270257536158387978835501515783621295526836761643450184537826844235349425196984239648588529871294997881122830822956701231259899497891915300534981060987633692203027913874453086648580404789209990171045113645299043014622933410306777434048285119381281005997579827901547509502435563533995640115357380137121950967333618883901970502147017072253049133433191848030405974552720262818566821842761827783309551548956924285995177821279222108473344502409205729517351849517306778817096725180347761485710801825460880296376747042614807980888429950870044641423366034799663859937224197482269457076170909850767518006281404077488712468746579311588682875758422093902798660402686488014533613334277656688427480942376410481315254206229528430178856877491107566368165602287347099254299034563532475133176137706802917603529063006685003222654726874369265127757646755963027102823365828495626829835891668087041359152430767274575012444131347373651140676973907121342605765487400219454523962193546633055942999054495543595128600763200026859864625557339564600038655422121277972089375004823268911850854808134963504981975736484548371587684335677702243021247080646935703657796877488269846061349191354991730063414667935379265318137432334815411513843603733671812807179777557162589081142934236728104867126031620764290858018596260682061993494563740508156750302834411828150341439835106315345741373021882823611010944442070090798129438977872368688336639308728214544812114497059547233666620405824304020995674103773209327546063864811104718353652014500877960781354425081791167981458098207752980901242395943757166686004936210285321876081743301378748813114833825437353139466460620596753678607484318070780804841433261517057392683947223621263716409238275504131719543468912874898428148967927880269630252252949737233299382773869779312824436908353636337988636789457302684783685347815239118009689135721553959006532035597025553402014667929941944345526699585327359941580994131202922909820400902996787853888775123710842016897629182377641232334551275592843636630236045266220258243795414472489460917866016518834348125202522951866728397055827233234490858386259263938001278757359273940566082736078452370141773896412168925031980668382129974488051117924046287135202583401198022682771865435170193778621449717012227942126814012702598148200495009713868432505143826923302955813817372922978687149844030532987969615520981655935494314719005548901095551435427649022881065497903300039939573180815241088264591827168097968095920129612812201169258990774736416555831160070377928290598912 512 3584 0 0 0 0 3584 4585 11423562217377937432834817564864391054921813476074403186202876186307194708759156620192815736856953160782704625320798799480493785783539071475308181558958409886139180507766255745268835295645117313504338819263740326883325464574267555496207694285869572314648312178775723449674959561719610418690888550763564939817234210971783766215905980928458962719483491391438659297545736481043831335557336760562299980191416134998518084004307879389940535998388800815119792376327989437435741466119856023816815206708079468429093674755971771418431488667616848379618708191729819860898882809926193371678511226717643637442456868093496454895612880808307402541520225945296666783767887383774222939048269565572557156237143988346793524474142613172293925523453178997524430244804879986704195214306444453768476650950604984113422984160286251162955915858991605524880083304973919815435419431401329536254761569871769923980415607185115604969371418675505457091218469650267882786110563990297093060356999190209050492097626194788481035568342277605897963940905767918973407607014667493034872033462688027758666812936588756096494341507200736285733000865740493332648384593299756008611964951990932474144548701116849501635388851593784055436547305781882736642936891287892463258649770289500435484296935960054766324129064565133956349098861574082969420398418627355262241637169774930827823755981610786194473480441552122610040140971137128580866635840046211118553154160339468587452147544338702601001630019707766182424592577050388604706571030986778752583175674712049034780394955515572324183316657059928427007176094105914899198441029314994305327063163723790323439305047683939044610693673599438264624705338660401420753331164079747992121002792728986840215885046655061800334201665888490728761103229823095689337731677024745941181142465196405149108018529954277385963881189203204095395492124674966583493398056879300181691179432112101628640244982873951095606226407388897199467307249884429468677623694832023738426949546553254019342256916529541 3577 c1_cons_3_8_s3584).trans (by rfl))

theorem c1_cons_3_8_s4608 : consTwin 3 8 6561 2187 32752009063187003299989838056958935226513325978257168321894648409246039785078676918512059154878539569033294729886280858602768409536509299140561795328029867305796280698430569700613030479130768328651254381370051929371555618187454912594635027979361965459261701560318674364547591253846101409362317441307205031949151227347915962270620156737595861497275965270643254733159193683905464038405357801509760889116497177069598499979756620155240285504454414329509254592908151227685181237229979855204551985512353254491465313333213365336286819573714895651313940089940997421878323519569090770003026590727365366870184029087810476467094900293816987042712755417619076627149622084220708135423975189742253168205202684502263971882513063291119945139275767383323821483722468938010958480887010033989193060492979825943940174844564324319025607309228887819423941623762071642463018186178558425049965306144720305763064376937668082696049534346716202444716931432521243230070175752212154773112742952403188017375110040419652008541663570881225253293042254140230779004599594010405752513561862455082980577639875292648996387831786833699294013433831107798401876058688434745507296328015692812854756331669407245089635766497463496411298466223552447030779688930501410248687182667845709206390106836539123478916796677171270471600946602168756085655771506769719190618337730276810059582141664789747367849107514295208025082244330497950124914040317211418084555906303475743592540042762371783202310270257536158387978835501515783621295526836761643450184537826844235349425196984239648588529871294997881122830822956701231259899497891915300534981060987633692203027913874453086648580404789209990171045113645299043014622933410306777434048285119381281005997579827901547509502435563533995640115357380137121950967333618883901970502147017072253049133433191848030405974552720262818566821842761827783309551548956924285995177821279222108473344502409205729517351849517306778817096725180347761485710801825460880296376747042614807980888429950870044641423366034799663859937224197482269457076170909850767518006281404077488712468746579311588682875758422093902798660402686488014533613334277656688427480942376410481315254206229528430178856877491107566368165602287347099254299034563532475133176137706802917603529063006685003222654726874369265127757646755963027102823365828495626829835891668087041359152430767274575012444131347373651140676973907121342605765487400219454523962193546633055942999054495543595128600763200026859864625557339564600038655422121277972089375004823268911850854808134963504981975736484548371587684335677702243021247080646935703657796877488269846061349191354991730063414667935379265318137432334815411513843603733671812807179777557162589081142934236728104867126031620764290858018596260682061993494563740508156750302834411828150341439835106315345741373021882823611010944442070090798129438977872368688336639308728214544812114497059547233666620405824304020995674103773209327546063864811104718353652014500877960781354425081791167981458098207752980901242395943757166686004936210285321876081743301378748813114833825437353139466460620596753678607484318070780804841433261517057392683947223621263716409238275504131719543468912874898428148967927880269630252252949737233299382773869779312824436908353636337988636789457302684783685347815239118009689135721553959006532035597025553402014667929941944345526699585327359941580994131202922909820400902996787853888775123710842016897629182377641232334551275592843636630236045266220258243795414472489460917866016518834348125202522951866728397055827233234490858386259263938001278757359273940566082736078452370141773896412168925031980668382129974488051117924046287135202583401198022682771865435170193778621449717012227942126814012702598148200495009713868432505143826923302955813817372922978687149844030532987969615520981655935494314719005548901095551435427649022881065497903300039939573180815241088264591827168097968095920129612812201169258990774736416555831160070377928290598912 4608 0 0 0 0 = (4608, 3056, 11423562217377937432834817564864391054921813476074403186202876186307194708759156620192815736856953160782704625320798799480493785783539071475308181558958409886139180507766255745268835295645117313504338819263740326883325464574267555496207694285869572314648316514329215930122751571464318862255979369772869442140816230512157201729281184157721386877314303827111823319426583932500718205505676997434801170053230238155571079907895485870272060692076520056883503045553353162889502765809062672504579579073034870973092051395314090151206728424433287811495695164658071758686650462470970316527627640278102989656923020227357749101764680850418291675748722686594587044604431024279934205800072782464402724261811765119908685068307690997015760869583913176927764419227433825238853025437590451445397854436236467483697702675032435998500203388802543039424260188608864152451585446559126680710842961025298371255682435893395949008626266799088662187115507097370845704440866309883160315107447138447651600244882136369615405388105268234001997548208683015109049989584418847803420881534458341050079558403905218073292610926532647517114403738296130178032403085654388064046193369440802943397989892530419272483049973506302583380578279672514483407997047494390435237627690613916421659834088879170326333172746890323083914230248422940856587740706476594184313608396769023817388447552883986891576270683104290007373208308737194248760086020174667774957655532934089073632795125162919527048802121713828508212005356618893191827226329840355481342133974222039441714373918484767864870359770885911640796729408457606032612668038796809957130892046044444591900307745122932555053955850098607629181917316834417842400444643652030580809841288981462177755384975839923140045738927970764158780479946082777511720192350577386868925865744302063901634686406602658949435989890499333147711175779136135533390235731782490038976290185678255763895093768614146799522342745697578380494926055851378689366736416423931184577611422995389428008038216892805, 4601) :=
  (congrArg (fun m => consTwin 3 8 6561 2187 32752009063187003299989838056958935226513325978257168321894648409246039785078676918512059154878539569033294729886280858602768409536509299140561795328029867305796280698430569700613030479130768328651254381370051929371555618187454912594635027979361965459261701560318674364547591253846101409362317441307205031949151227347915962270620156737595861497275965270643254733159193683905464038405357801509760889116497177069598499979756620155240285504454414329509254592908151227685181237229979855204551985512353254491465313333213365336286819573714895651313940089940997421878323519569090770003026590727365366870184029087810476467094900293816987042712755417619076627149622084220708135423975189742253168205202684502263971882513063291119945139275767383323821483722468938010958480887010033989193060492979825943940174844564324319025607309228887819423941623762071642463018186178558425049965306144720305763064376937668082696049534346716202444716931432521243230070175752212154773112742952403188017375110040419652008541663570881225253293042254140230779004599594010405752513561862455082980577639875292648996387831786833699294013433831107798401876058688434745507296328015692812854756331669407245089635766497463496411298466223552447030779688930501410248687182667845709206390106836539123478916796677171270471600946602168756085655771506769719190618337730276810059582141664789747367849107514295208025082244330497950124914040317211418084555906303475743592540042762371783202310270257536158387978835501515783621295526836761643450184537826844235349425196984239648588529871294997881122830822956701231259899497891915300534981060987633692203027913874453086648580404789209990171045113645299043014622933410306777434048285119381281005997579827901547509502435563533995640115357380137121950967333618883901970502147017072253049133433191848030405974552720262818566821842761827783309551548956924285995177821279222108473344502409205729517351849517306778817096725180347761485710801825460880296376747042614807980888429950870044641423366034799663859937224197482269457076170909850767518006281404077488712468746579311588682875758422093902798660402686488014533613334277656688427480942376410481315254206229528430178856877491107566368165602287347099254299034563532475133176137706802917603529063006685003222654726874369265127757646755963027102823365828495626829835891668087041359152430767274575012444131347373651140676973907121342605765487400219454523962193546633055942999054495543595128600763200026859864625557339564600038655422121277972089375004823268911850854808134963504981975736484548371587684335677702243021247080646935703657796877488269846061349191354991730063414667935379265318137432334815411513843603733671812807179777557162589081142934236728104867126031620764290858018596260682061993494563740508156750302834411828150341439835106315345741373021882823611010944442070090798129438977872368688336639308728214544812114497059547233666620405824304020995674103773209327546063864811104718353652014500877960781354425081791167981458098207752980901242395943757166686004936210285321876081743301378748813114833825437353139466460620596753678607484318070780804841433261517057392683947223621263716409238275504131719543468912874898428148967927880269630252252949737233299382773869779312824436908353636337988636789457302684783685347815239118009689135721553959006532035597025553402014667929941944345526699585327359941580994131202922909820400902996787853888775123710842016897629182377641232334551275592843636630236045266220258243795414472489460917866016518834348125202522951866728397055827233234490858386259263938001278757359273940566082736078452370141773896412168925031980668382129974488051117924046287135202583401198022682771865435170193778621449717012227942126814012702598148200495009713868432505143826923302955813817372922978687149844030532987969615520981655935494314719005548901095551435427649022881065497903300039939573180815241088264591827168097968095920129612812201169258990774736416555831160070377928290598912 m 0 0 0 0)
      (by norm_num : (4608 : Nat) = 512 + 4096)).trans
    ((consTwin_chunk 3 8 6561 2187 32752009063187003299989838056958935226513325978257168321894648409246039785078676918512059154878539569033294729886280858602768409536509299140561795328029867305796280698430569700613030479130768328651254381370051929371555618187454912594635027979361965459261701560318674364547591253846101409362317441307205031949151227347915962270620156737595861497275965270643254733159193683905464038405357801509760889116497177069598499979756620155240285504454414329509254592908151227685181237229979855204551985512353254491465313333213365336286819573714895651313940089940997421878323519569090770003026590727365366870184029087810476467094900293816987042712755417619076627149622084220708135423975189742253168205202684502263971882513063291119945139275767383323821483722468938010958480887010033989193060492979825943940174844564324319025607309228887819423941623762071642463018186178558425049965306144720305763064376937668082696049534346716202444716931432521243230070175752212154773112742952403188017375110040419652008541663570881225253293042254140230779004599594010405752513561862455082980577639875292648996387831786833699294013433831107798401876058688434745507296328015692812854756331669407245089635766497463496411298466223552447030779688930501410248687182667845709206390106836539123478916796677171270471600946602168756085655771506769719190618337730276810059582141664789747367849107514295208025082244330497950124914040317211418084555906303475743592540042762371783202310270257536158387978835501515783621295526836761643450184537826844235349425196984239648588529871294997881122830822956701231259899497891915300534981060987633692203027913874453086648580404789209990171045113645299043014622933410306777434048285119381281005997579827901547509502435563533995640115357380137121950967333618883901970502147017072253049133433191848030405974552720262818566821842761827783309551548956924285995177821279222108473344502409205729517351849517306778817096725180347761485710801825460880296376747042614807980888429950870044641423366034799663859937224197482269457076170909850767518006281404077488712468746579311588682875758422093902798660402686488014533613334277656688427480942376410481315254206229528430178856877491107566368165602287347099254299034563532475133176137706802917603529063006685003222654726874369265127757646755963027102823365828495626829835891668087041359152430767274575012444131347373651140676973907121342605765487400219454523962193546633055942999054495543595128600763200026859864625557339564600038655422121277972089375004823268911850854808134963504981975736484548371587684335677702243021247080646935703657796877488269846061349191354991730063414667935379265318137432334815411513843603733671812807179777557162589081142934236728104867126031620764290858018596260682061993494563740508156750302834411828150341439835106315345741373021882823611010944442070090798129438977872368688336639308728214544812114497059547233666620405824304020995674103773209327546063864811104718353652014500877960781354425081791167981458098207752980901242395943757166686004936210285321876081743301378748813114833825437353139466460620596753678607484318070780804841433261517057392683947223621263716409238275504131719543468912874898428148967927880269630252252949737233299382773869779312824436908353636337988636789457302684783685347815239118009689135721553959006532035597025553402014667929941944345526699585327359941580994131202922909820400902996787853888775123710842016897629182377641232334551275592843636630236045266220258243795414472489460917866016518834348125202522951866728397055827233234490858386259263938001278757359273940566082736078452370141773896412168925031980668382129974488051117924046287135202583401198022682771865435170193778621449717012227942126814012702598148200495009713868432505143826923302955813817372922978687149844030532987969615520981655935494314719005548901095551435427649022881065497903300039939573180815241088264591827168097968095920129612812201169258990774736416555831160070377928290598912 512 4096 0 0 0 0 4096 3521 11423562217377937432834817564864391054921813476074403186202876186307194708759156620192815736856953160782704625320798799480493785783539071475308181558958409886139180507766255745268835295645117313504338819263740326883325464574267555496207694285869572314648316514329215930122751571464318862255979369772869442114968680715395830962643616808242596369380241914964896369159060677400391293612890112306358142158185920522193619936451876366502730746799239722078855172299633105682755461343775903571660594422397215803851236516431387658756584783636762823800055721765225377486621738210050878079840544311596747937562730253607153387934619093949276017156315744785863457415626798594131385405119772141896306405446728168562758742427355969459259724662670731700453462713405046674603165739093908896939304783972520999213115669942055784976856347398498333035927383841476373447656720461647840630049347289963594443164663253434149249923165262348668991334022267409373965653421426825762026676728418233645640529944359352837453907960129938519878790155025559220826008922400546413241758303407916365809473103954944905350675846490674524929785738151844935003233800672794636816155509262681128537039751515287164127606435124850053396516906373470908666036425899968381351444084071929674818549235409908956443591249519433133305737717337077755407211544959710939656872122392713988391155307915002728773387279108381803899137470137771154943863667415395279592735584074854328053421211306881978535332246868911348070443127784413296929737791051761975524364987361036884854790199064776387835516271951791493980261572968997112135812282861252245189050238243710590112020255237502020237952117685651781982684812396200725295313645185946568153864245992200674466689294503293595547471889511069100743606509027232361321017350385627159326701158713525820052055052958701241255728151178784099979008034942930458443115020691141064835582326505595565276020312317247824042023859461126842763797672745244907301245393245424081749624019957083672207839006425477 4089 c1_cons_3_8_s4096).trans (by rfl))

theorem c1_cons_3_8_s5120 : consTwin 3 8 6561 2187 32752009063187003299989838056958935226513325978257168321894648409246039785078676918512059154878539569033294729886280858602768409536509299140561795328029867305796280698430569700613030479130768328651254381370051929371555618187454912594635027979361965459261701560318674364547591253846101409362317441307205031949151227347915962270620156737595861497275965270643254733159193683905464038405357801509760889116497177069598499979756620155240285504454414329509254592908151227685181237229979855204551985512353254491465313333213365336286819573714895651313940089940997421878323519569090770003026590727365366870184029087810476467094900293816987042712755417619076627149622084220708135423975189742253168205202684502263971882513063291119945139275767383323821483722468938010958480887010033989193060492979825943940174844564324319025607309228887819423941623762071642463018186178558425049965306144720305763064376937668082696049534346716202444716931432521243230070175752212154773112742952403188017375110040419652008541663570881225253293042254140230779004599594010405752513561862455082980577639875292648996387831786833699294013433831107798401876058688434745507296328015692812854756331669407245089635766497463496411298466223552447030779688930501410248687182667845709206390106836539123478916796677171270471600946602168756085655771506769719190618337730276810059582141664789747367849107514295208025082244330497950124914040317211418084555906303475743592540042762371783202310270257536158387978835501515783621295526836761643450184537826844235349425196984239648588529871294997881122830822956701231259899497891915300534981060987633692203027913874453086648580404789209990171045113645299043014622933410306777434048285119381281005997579827901547509502435563533995640115357380137121950967333618883901970502147017072253049133433191848030405974552720262818566821842761827783309551548956924285995177821279222108473344502409205729517351849517306778817096725180347761485710801825460880296376747042614807980888429950870044641423366034799663859937224197482269457076170909850767518006281404077488712468746579311588682875758422093902798660402686488014533613334277656688427480942376410481315254206229528430178856877491107566368165602287347099254299034563532475133176137706802917603529063006685003222654726874369265127757646755963027102823365828495626829835891668087041359152430767274575012444131347373651140676973907121342605765487400219454523962193546633055942999054495543595128600763200026859864625557339564600038655422121277972089375004823268911850854808134963504981975736484548371587684335677702243021247080646935703657796877488269846061349191354991730063414667935379265318137432334815411513843603733671812807179777557162589081142934236728104867126031620764290858018596260682061993494563740508156750302834411828150341439835106315345741373021882823611010944442070090798129438977872368688336639308728214544812114497059547233666620405824304020995674103773209327546063864811104718353652014500877960781354425081791167981458098207752980901242395943757166686004936210285321876081743301378748813114833825437353139466460620596753678607484318070780804841433261517057392683947223621263716409238275504131719543468912874898428148967927880269630252252949737233299382773869779312824436908353636337988636789457302684783685347815239118009689135721553959006532035597025553402014667929941944345526699585327359941580994131202922909820400902996787853888775123710842016897629182377641232334551275592843636630236045266220258243795414472489460917866016518834348125202522951866728397055827233234490858386259263938001278757359273940566082736078452370141773896412168925031980668382129974488051117924046287135202583401198022682771865435170193778621449717012227942126814012702598148200495009713868432505143826923302955813817372922978687149844030532987969615520981655935494314719005548901095551435427649022881065497903300039939573180815241088264591827168097968095920129612812201169258990774736416555831160070377928290598912 5120 0 0 0 0 = (5120, 3351, 11423562217377937432834817564864391054921813476074403186202876186307194708759156620192815736856953160782704625320798799480493785783539071475308181558958409886139180507766255745268835295645117313504338819263740326883325464574267555496207694285869572314648316514329215930122751571464318862255979369772869442140816230512157201729281184157721386877314303827951055243527097308944107496195827273952935604677267766071526712642829404767190482531648428438275020499162421155212836153439534292193990087176458348687464839736048376316836572509272524982268569079571724546001461094597547888455587558467271143637391733356507428202912710751942122983840345030521933772203455497406742853871835951016730752793016589033541162207149573297802137047563073061758706158628773580181976939610783672158546622301785816480125477935033491553932483451402229946394396611999833478324653068776445981471889052892115996511242591402512376725534430181197923390567977672673299428202390671178098231605569136417423349009407622702084918348751381002283905654175441395219369345806023927852268920600318922133215627166779882732624516891680985357608740833205869001091672216338705741913862882583632178556284200356845674194005069873704113515304558965366903861743455709134675423647979177443582893246267279621919773688203416847687154937924207932546155071647177636088181840468662514112977896224505164376031769612092038652336787441083191043620597109794588567895612749484663124658568311451555584113100996704426022099832774512245712015390336873374814713721284281957987438328273399384631064150691762719830957498213548213321685369846148595556709797242757924227487983637529931337903158572434718328972345306053379047828629806105997835976903960179566316200408583991520399073322361152056838588554937181946115864822799584231746309637423525150039447027218177958839103492093792276404134485642829596730841226369129177483255020066286723883291416864855035969360561395367521274045952519105857977837249493545103297986210738101311876729620706492805, 5113) :=
  (congrArg (fun m => consTwin 3 8 6561 2187 32752009063187003299989838056958935226513325978257168321894648409246039785078676918512059154878539569033294729886280858602768409536509299140561795328029867305796280698430569700613030479130768328651254381370051929371555618187454912594635027979361965459261701560318674364547591253846101409362317441307205031949151227347915962270620156737595861497275965270643254733159193683905464038405357801509760889116497177069598499979756620155240285504454414329509254592908151227685181237229979855204551985512353254491465313333213365336286819573714895651313940089940997421878323519569090770003026590727365366870184029087810476467094900293816987042712755417619076627149622084220708135423975189742253168205202684502263971882513063291119945139275767383323821483722468938010958480887010033989193060492979825943940174844564324319025607309228887819423941623762071642463018186178558425049965306144720305763064376937668082696049534346716202444716931432521243230070175752212154773112742952403188017375110040419652008541663570881225253293042254140230779004599594010405752513561862455082980577639875292648996387831786833699294013433831107798401876058688434745507296328015692812854756331669407245089635766497463496411298466223552447030779688930501410248687182667845709206390106836539123478916796677171270471600946602168756085655771506769719190618337730276810059582141664789747367849107514295208025082244330497950124914040317211418084555906303475743592540042762371783202310270257536158387978835501515783621295526836761643450184537826844235349425196984239648588529871294997881122830822956701231259899497891915300534981060987633692203027913874453086648580404789209990171045113645299043014622933410306777434048285119381281005997579827901547509502435563533995640115357380137121950967333618883901970502147017072253049133433191848030405974552720262818566821842761827783309551548956924285995177821279222108473344502409205729517351849517306778817096725180347761485710801825460880296376747042614807980888429950870044641423366034799663859937224197482269457076170909850767518006281404077488712468746579311588682875758422093902798660402686488014533613334277656688427480942376410481315254206229528430178856877491107566368165602287347099254299034563532475133176137706802917603529063006685003222654726874369265127757646755963027102823365828495626829835891668087041359152430767274575012444131347373651140676973907121342605765487400219454523962193546633055942999054495543595128600763200026859864625557339564600038655422121277972089375004823268911850854808134963504981975736484548371587684335677702243021247080646935703657796877488269846061349191354991730063414667935379265318137432334815411513843603733671812807179777557162589081142934236728104867126031620764290858018596260682061993494563740508156750302834411828150341439835106315345741373021882823611010944442070090798129438977872368688336639308728214544812114497059547233666620405824304020995674103773209327546063864811104718353652014500877960781354425081791167981458098207752980901242395943757166686004936210285321876081743301378748813114833825437353139466460620596753678607484318070780804841433261517057392683947223621263716409238275504131719543468912874898428148967927880269630252252949737233299382773869779312824436908353636337988636789457302684783685347815239118009689135721553959006532035597025553402014667929941944345526699585327359941580994131202922909820400902996787853888775123710842016897629182377641232334551275592843636630236045266220258243795414472489460917866016518834348125202522951866728397055827233234490858386259263938001278757359273940566082736078452370141773896412168925031980668382129974488051117924046287135202583401198022682771865435170193778621449717012227942126814012702598148200495009713868432505143826923302955813817372922978687149844030532987969615520981655935494314719005548901095551435427649022881065497903300039939573180815241088264591827168097968095920129612812201169258990774736416555831160070377928290598912 m 0 0 0 0)
      (by norm_num : (5120 : Nat) = 512 + 4608)).trans
    ((consTwin_chunk 3 8 6561 2187 32752009063187003299989838056958935226513325978257168321894648409246039785078676918512059154878539569033294729886280858602768409536509299140561795328029867305796280698430569700613030479130768328651254381370051929371555618187454912594635027979361965459261701560318674364547591253846101409362317441307205031949151227347915962270620156737595861497275965270643254733159193683905464038405357801509760889116497177069598499979756620155240285504454414329509254592908151227685181237229979855204551985512353254491465313333213365336286819573714895651313940089940997421878323519569090770003026590727365366870184029087810476467094900293816987042712755417619076627149622084220708135423975189742253168205202684502263971882513063291119945139275767383323821483722468938010958480887010033989193060492979825943940174844564324319025607309228887819423941623762071642463018186178558425049965306144720305763064376937668082696049534346716202444716931432521243230070175752212154773112742952403188017375110040419652008541663570881225253293042254140230779004599594010405752513561862455082980577639875292648996387831786833699294013433831107798401876058688434745507296328015692812854756331669407245089635766497463496411298466223552447030779688930501410248687182667845709206390106836539123478916796677171270471600946602168756085655771506769719190618337730276810059582141664789747367849107514295208025082244330497950124914040317211418084555906303475743592540042762371783202310270257536158387978835501515783621295526836761643450184537826844235349425196984239648588529871294997881122830822956701231259899497891915300534981060987633692203027913874453086648580404789209990171045113645299043014622933410306777434048285119381281005997579827901547509502435563533995640115357380137121950967333618883901970502147017072253049133433191848030405974552720262818566821842761827783309551548956924285995177821279222108473344502409205729517351849517306778817096725180347761485710801825460880296376747042614807980888429950870044641423366034799663859937224197482269457076170909850767518006281404077488712468746579311588682875758422093902798660402686488014533613334277656688427480942376410481315254206229528430178856877491107566368165602287347099254299034563532475133176137706802917603529063006685003222654726874369265127757646755963027102823365828495626829835891668087041359152430767274575012444131347373651140676973907121342605765487400219454523962193546633055942999054495543595128600763200026859864625557339564600038655422121277972089375004823268911850854808134963504981975736484548371587684335677702243021247080646935703657796877488269846061349191354991730063414667935379265318137432334815411513843603733671812807179777557162589081142934236728104867126031620764290858018596260682061993494563740508156750302834411828150341439835106315345741373021882823611010944442070090798129438977872368688336639308728214544812114497059547233666620405824304020995674103773209327546063864811104718353652014500877960781354425081791167981458098207752980901242395943757166686004936210285321876081743301378748813114833825437353139466460620596753678607484318070780804841433261517057392683947223621263716409238275504131719543468912874898428148967927880269630252252949737233299382773869779312824436908353636337988636789457302684783685347815239118009689135721553959006532035597025553402014667929941944345526699585327359941580994131202922909820400902996787853888775123710842016897629182377641232334551275592843636630236045266220258243795414472489460917866016518834348125202522951866728397055827233234490858386259263938001278757359273940566082736078452370141773896412168925031980668382129974488051117924046287135202583401198022682771865435170193778621449717012227942126814012702598148200495009713868432505143826923302955813817372922978687149844030532987969615520981655935494314719005548901095551435427649022881065497903300039939573180815241088264591827168097968095920129612812201169258990774736416555831160070377928290598912 512 4608 0 0 0 0 4608 3056 11423562217377937432834817564864391054921813476074403186202876186307194708759156620192815736856953160782704625320798799480493785783539071475308181558958409886139180507766255745268835295645117313504338819263740326883325464574267555496207694285869572314648316514329215930122751571464318862255979369772869442140816230512157201729281184157721386877314303827111823319426583932500718205505676997434801170053230238155571079907895485870272060692076520056883503045553353162889502765809062672504579579073034870973092051395314090151206728424433287811495695164658071758686650462470970316527627640278102989656923020227357749101764680850418291675748722686594587044604431024279934205800072782464402724261811765119908685068307690997015760869583913176927764419227433825238853025437590451445397854436236467483697702675032435998500203388802543039424260188608864152451585446559126680710842961025298371255682435893395949008626266799088662187115507097370845704440866309883160315107447138447651600244882136369615405388105268234001997548208683015109049989584418847803420881534458341050079558403905218073292610926532647517114403738296130178032403085654388064046193369440802943397989892530419272483049973506302583380578279672514483407997047494390435237627690613916421659834088879170326333172746890323083914230248422940856587740706476594184313608396769023817388447552883986891576270683104290007373208308737194248760086020174667774957655532934089073632795125162919527048802121713828508212005356618893191827226329840355481342133974222039441714373918484767864870359770885911640796729408457606032612668038796809957130892046044444591900307745122932555053955850098607629181917316834417842400444643652030580809841288981462177755384975839923140045738927970764158780479946082777511720192350577386868925865744302063901634686406602658949435989890499333147711175779136135533390235731782490038976290185678255763895093768614146799522342745697578380494926055851378689366736416423931184577611422995389428008038216892805 4601 c1_cons_3_8_s4608).trans (by rfl))

theorem c1_cons_3_8_s5632 : consTwin 3 8 6561 2187 32752009063187003299989838056958935226513325978257168321894648409246039785078676918512059154878539569033294729886280858602768409536509299140561795328029867305796280698430569700613030479130768328651254381370051929371555618187454912594635027979361965459261701560318674364547591253846101409362317441307205031949151227347915962270620156737595861497275965270643254733159193683905464038405357801509760889116497177069598499979756620155240285504454414329509254592908151227685181237229979855204551985512353254491465313333213365336286819573714895651313940089940997421878323519569090770003026590727365366870184029087810476467094900293816987042712755417619076627149622084220708135423975189742253168205202684502263971882513063291119945139275767383323821483722468938010958480887010033989193060492979825943940174844564324319025607309228887819423941623762071642463018186178558425049965306144720305763064376937668082696049534346716202444716931432521243230070175752212154773112742952403188017375110040419652008541663570881225253293042254140230779004599594010405752513561862455082980577639875292648996387831786833699294013433831107798401876058688434745507296328015692812854756331669407245089635766497463496411298466223552447030779688930501410248687182667845709206390106836539123478916796677171270471600946602168756085655771506769719190618337730276810059582141664789747367849107514295208025082244330497950124914040317211418084555906303475743592540042762371783202310270257536158387978835501515783621295526836761643450184537826844235349425196984239648588529871294997881122830822956701231259899497891915300534981060987633692203027913874453086648580404789209990171045113645299043014622933410306777434048285119381281005997579827901547509502435563533995640115357380137121950967333618883901970502147017072253049133433191848030405974552720262818566821842761827783309551548956924285995177821279222108473344502409205729517351849517306778817096725180347761485710801825460880296376747042614807980888429950870044641423366034799663859937224197482269457076170909850767518006281404077488712468746579311588682875758422093902798660402686488014533613334277656688427480942376410481315254206229528430178856877491107566368165602287347099254299034563532475133176137706802917603529063006685003222654726874369265127757646755963027102823365828495626829835891668087041359152430767274575012444131347373651140676973907121342605765487400219454523962193546633055942999054495543595128600763200026859864625557339564600038655422121277972089375004823268911850854808134963504981975736484548371587684335677702243021247080646935703657796877488269846061349191354991730063414667935379265318137432334815411513843603733671812807179777557162589081142934236728104867126031620764290858018596260682061993494563740508156750302834411828150341439835106315345741373021882823611010944442070090798129438977872368688336639308728214544812114497059547233666620405824304020995674103773209327546063864811104718353652014500877960781354425081791167981458098207752980901242395943757166686004936210285321876081743301378748813114833825437353139466460620596753678607484318070780804841433261517057392683947223621263716409238275504131719543468912874898428148967927880269630252252949737233299382773869779312824436908353636337988636789457302684783685347815239118009689135721553959006532035597025553402014667929941944345526699585327359941580994131202922909820400902996787853888775123710842016897629182377641232334551275592843636630236045266220258243795414472489460917866016518834348125202522951866728397055827233234490858386259263938001278757359273940566082736078452370141773896412168925031980668382129974488051117924046287135202583401198022682771865435170193778621449717012227942126814012702598148200495009713868432505143826923302955813817372922978687149844030532987969615520981655935494314719005548901095551435427649022881065497903300039939573180815241088264591827168097968095920129612812201169258990774736416555831160070377928290598912 5632 0 0 0 0 = (5632, 1596, 11423562217377937432834817564864391054921813476074403186202876186307194708759156620192815736856953160782704625320798799480493785783539071475308181558958409886139180507766255745268835295645117313504338819263740326883325464574267555496207694285869572314648316514329215930122751571464318862255979369772869442140816230512157201729281184157721386877314303827951055243527097308944107496195827273952935604677267766071546533446890697483255207837930462782684172148575680225197203487779905492453075630072358789672398534046574327392486173694016068612458684996513545567364634072752396241837330959341067636134022069113776085095674546052881142317440007240787279107415835197746024768598506390542505435048548858764131363835223786841056678217605398760933307105652079782043819490238053562074059292625575071225954343460235251984766215720965351727695927756249271653944791482044935016614693012099021029765427247508660189141713674890765262357023664592907696723819508329190397566640576500172027304523129392974580577864189847111038682230297239002706164055073343698325372153179167977743640983650153185737789827678221095048379783415878087183802421160515816411822212460452823073920004752237143481680200814692071492791233586454250889021153662442612744798351446041536287438802410531576642721010103740199044843208404030261849139495076678394135830991342172931041490813312729221369657783159582739037434048292171210581560208484952546841830310175641202771537431248478105209058819978583641695365277701877231783494219449661973100248104625375764037877160409041120447911932359447312245927456354158345107497993333933600194692441808259634668577133373656142928631485207931898443570058660747487075618716034812721338535604537025638895658570334493855710965165821221226541022320823568263831875746219166535347795874749970984110929546306313974736248286942356205567122945392884143285828690620540573704816871630836345721736515063216314467948218759205619489185205237880701081242555319648515183762122002630665333960104224686533, 5625) :=
  (congrArg (fun m => consTwin 3 8 6561 2187 32752009063187003299989838056958935226513325978257168321894648409246039785078676918512059154878539569033294729886280858602768409536509299140561795328029867305796280698430569700613030479130768328651254381370051929371555618187454912594635027979361965459261701560318674364547591253846101409362317441307205031949151227347915962270620156737595861497275965270643254733159193683905464038405357801509760889116497177069598499979756620155240285504454414329509254592908151227685181237229979855204551985512353254491465313333213365336286819573714895651313940089940997421878323519569090770003026590727365366870184029087810476467094900293816987042712755417619076627149622084220708135423975189742253168205202684502263971882513063291119945139275767383323821483722468938010958480887010033989193060492979825943940174844564324319025607309228887819423941623762071642463018186178558425049965306144720305763064376937668082696049534346716202444716931432521243230070175752212154773112742952403188017375110040419652008541663570881225253293042254140230779004599594010405752513561862455082980577639875292648996387831786833699294013433831107798401876058688434745507296328015692812854756331669407245089635766497463496411298466223552447030779688930501410248687182667845709206390106836539123478916796677171270471600946602168756085655771506769719190618337730276810059582141664789747367849107514295208025082244330497950124914040317211418084555906303475743592540042762371783202310270257536158387978835501515783621295526836761643450184537826844235349425196984239648588529871294997881122830822956701231259899497891915300534981060987633692203027913874453086648580404789209990171045113645299043014622933410306777434048285119381281005997579827901547509502435563533995640115357380137121950967333618883901970502147017072253049133433191848030405974552720262818566821842761827783309551548956924285995177821279222108473344502409205729517351849517306778817096725180347761485710801825460880296376747042614807980888429950870044641423366034799663859937224197482269457076170909850767518006281404077488712468746579311588682875758422093902798660402686488014533613334277656688427480942376410481315254206229528430178856877491107566368165602287347099254299034563532475133176137706802917603529063006685003222654726874369265127757646755963027102823365828495626829835891668087041359152430767274575012444131347373651140676973907121342605765487400219454523962193546633055942999054495543595128600763200026859864625557339564600038655422121277972089375004823268911850854808134963504981975736484548371587684335677702243021247080646935703657796877488269846061349191354991730063414667935379265318137432334815411513843603733671812807179777557162589081142934236728104867126031620764290858018596260682061993494563740508156750302834411828150341439835106315345741373021882823611010944442070090798129438977872368688336639308728214544812114497059547233666620405824304020995674103773209327546063864811104718353652014500877960781354425081791167981458098207752980901242395943757166686004936210285321876081743301378748813114833825437353139466460620596753678607484318070780804841433261517057392683947223621263716409238275504131719543468912874898428148967927880269630252252949737233299382773869779312824436908353636337988636789457302684783685347815239118009689135721553959006532035597025553402014667929941944345526699585327359941580994131202922909820400902996787853888775123710842016897629182377641232334551275592843636630236045266220258243795414472489460917866016518834348125202522951866728397055827233234490858386259263938001278757359273940566082736078452370141773896412168925031980668382129974488051117924046287135202583401198022682771865435170193778621449717012227942126814012702598148200495009713868432505143826923302955813817372922978687149844030532987969615520981655935494314719005548901095551435427649022881065497903300039939573180815241088264591827168097968095920129612812201169258990774736416555831160070377928290598912 m 0 0 0 0)
      (by norm_num : (5632 : Nat) = 512 + 5120)).trans
    ((consTwin_chunk 3 8 6561 2187 32752009063187003299989838056958935226513325978257168321894648409246039785078676918512059154878539569033294729886280858602768409536509299140561795328029867305796280698430569700613030479130768328651254381370051929371555618187454912594635027979361965459261701560318674364547591253846101409362317441307205031949151227347915962270620156737595861497275965270643254733159193683905464038405357801509760889116497177069598499979756620155240285504454414329509254592908151227685181237229979855204551985512353254491465313333213365336286819573714895651313940089940997421878323519569090770003026590727365366870184029087810476467094900293816987042712755417619076627149622084220708135423975189742253168205202684502263971882513063291119945139275767383323821483722468938010958480887010033989193060492979825943940174844564324319025607309228887819423941623762071642463018186178558425049965306144720305763064376937668082696049534346716202444716931432521243230070175752212154773112742952403188017375110040419652008541663570881225253293042254140230779004599594010405752513561862455082980577639875292648996387831786833699294013433831107798401876058688434745507296328015692812854756331669407245089635766497463496411298466223552447030779688930501410248687182667845709206390106836539123478916796677171270471600946602168756085655771506769719190618337730276810059582141664789747367849107514295208025082244330497950124914040317211418084555906303475743592540042762371783202310270257536158387978835501515783621295526836761643450184537826844235349425196984239648588529871294997881122830822956701231259899497891915300534981060987633692203027913874453086648580404789209990171045113645299043014622933410306777434048285119381281005997579827901547509502435563533995640115357380137121950967333618883901970502147017072253049133433191848030405974552720262818566821842761827783309551548956924285995177821279222108473344502409205729517351849517306778817096725180347761485710801825460880296376747042614807980888429950870044641423366034799663859937224197482269457076170909850767518006281404077488712468746579311588682875758422093902798660402686488014533613334277656688427480942376410481315254206229528430178856877491107566368165602287347099254299034563532475133176137706802917603529063006685003222654726874369265127757646755963027102823365828495626829835891668087041359152430767274575012444131347373651140676973907121342605765487400219454523962193546633055942999054495543595128600763200026859864625557339564600038655422121277972089375004823268911850854808134963504981975736484548371587684335677702243021247080646935703657796877488269846061349191354991730063414667935379265318137432334815411513843603733671812807179777557162589081142934236728104867126031620764290858018596260682061993494563740508156750302834411828150341439835106315345741373021882823611010944442070090798129438977872368688336639308728214544812114497059547233666620405824304020995674103773209327546063864811104718353652014500877960781354425081791167981458098207752980901242395943757166686004936210285321876081743301378748813114833825437353139466460620596753678607484318070780804841433261517057392683947223621263716409238275504131719543468912874898428148967927880269630252252949737233299382773869779312824436908353636337988636789457302684783685347815239118009689135721553959006532035597025553402014667929941944345526699585327359941580994131202922909820400902996787853888775123710842016897629182377641232334551275592843636630236045266220258243795414472489460917866016518834348125202522951866728397055827233234490858386259263938001278757359273940566082736078452370141773896412168925031980668382129974488051117924046287135202583401198022682771865435170193778621449717012227942126814012702598148200495009713868432505143826923302955813817372922978687149844030532987969615520981655935494314719005548901095551435427649022881065497903300039939573180815241088264591827168097968095920129612812201169258990774736416555831160070377928290598912 512 5120 0 0 0 0 5120 3351 11423562217377937432834817564864391054921813476074403186202876186307194708759156620192815736856953160782704625320798799480493785783539071475308181558958409886139180507766255745268835295645117313504338819263740326883325464574267555496207694285869572314648316514329215930122751571464318862255979369772869442140816230512157201729281184157721386877314303827951055243527097308944107496195827273952935604677267766071526712642829404767190482531648428438275020499162421155212836153439534292193990087176458348687464839736048376316836572509272524982268569079571724546001461094597547888455587558467271143637391733356507428202912710751942122983840345030521933772203455497406742853871835951016730752793016589033541162207149573297802137047563073061758706158628773580181976939610783672158546622301785816480125477935033491553932483451402229946394396611999833478324653068776445981471889052892115996511242591402512376725534430181197923390567977672673299428202390671178098231605569136417423349009407622702084918348751381002283905654175441395219369345806023927852268920600318922133215627166779882732624516891680985357608740833205869001091672216338705741913862882583632178556284200356845674194005069873704113515304558965366903861743455709134675423647979177443582893246267279621919773688203416847687154937924207932546155071647177636088181840468662514112977896224505164376031769612092038652336787441083191043620597109794588567895612749484663124658568311451555584113100996704426022099832774512245712015390336873374814713721284281957987438328273399384631064150691762719830957498213548213321685369846148595556709797242757924227487983637529931337903158572434718328972345306053379047828629806105997835976903960179566316200408583991520399073322361152056838588554937181946115864822799584231746309637423525150039447027218177958839103492093792276404134485642829596730841226369129177483255020066286723883291416864855035969360561395367521274045952519105857977837249493545103297986210738101311876729620706492805 5113 c1_cons_3_8_s5120).trans (by rfl))

theorem c1_cons_3_8_s6144 : consTwin 3 8 6561 2187 32752009063187003299989838056958935226513325978257168321894648409246039785078676918512059154878539569033294729886280858602768409536509299140561795328029867305796280698430569700613030479130768328651254381370051929371555618187454912594635027979361965459261701560318674364547591253846101409362317441307205031949151227347915962270620156737595861497275965270643254733159193683905464038405357801509760889116497177069598499979756620155240285504454414329509254592908151227685181237229979855204551985512353254491465313333213365336286819573714895651313940089940997421878323519569090770003026590727365366870184029087810476467094900293816987042712755417619076627149622084220708135423975189742253168205202684502263971882513063291119945139275767383323821483722468938010958480887010033989193060492979825943940174844564324319025607309228887819423941623762071642463018186178558425049965306144720305763064376937668082696049534346716202444716931432521243230070175752212154773112742952403188017375110040419652008541663570881225253293042254140230779004599594010405752513561862455082980577639875292648996387831786833699294013433831107798401876058688434745507296328015692812854756331669407245089635766497463496411298466223552447030779688930501410248687182667845709206390106836539123478916796677171270471600946602168756085655771506769719190618337730276810059582141664789747367849107514295208025082244330497950124914040317211418084555906303475743592540042762371783202310270257536158387978835501515783621295526836761643450184537826844235349425196984239648588529871294997881122830822956701231259899497891915300534981060987633692203027913874453086648580404789209990171045113645299043014622933410306777434048285119381281005997579827901547509502435563533995640115357380137121950967333618883901970502147017072253049133433191848030405974552720262818566821842761827783309551548956924285995177821279222108473344502409205729517351849517306778817096725180347761485710801825460880296376747042614807980888429950870044641423366034799663859937224197482269457076170909850767518006281404077488712468746579311588682875758422093902798660402686488014533613334277656688427480942376410481315254206229528430178856877491107566368165602287347099254299034563532475133176137706802917603529063006685003222654726874369265127757646755963027102823365828495626829835891668087041359152430767274575012444131347373651140676973907121342605765487400219454523962193546633055942999054495543595128600763200026859864625557339564600038655422121277972089375004823268911850854808134963504981975736484548371587684335677702243021247080646935703657796877488269846061349191354991730063414667935379265318137432334815411513843603733671812807179777557162589081142934236728104867126031620764290858018596260682061993494563740508156750302834411828150341439835106315345741373021882823611010944442070090798129438977872368688336639308728214544812114497059547233666620405824304020995674103773209327546063864811104718353652014500877960781354425081791167981458098207752980901242395943757166686004936210285321876081743301378748813114833825437353139466460620596753678607484318070780804841433261517057392683947223621263716409238275504131719543468912874898428148967927880269630252252949737233299382773869779312824436908353636337988636789457302684783685347815239118009689135721553959006532035597025553402014667929941944345526699585327359941580994131202922909820400902996787853888775123710842016897629182377641232334551275592843636630236045266220258243795414472489460917866016518834348125202522951866728397055827233234490858386259263938001278757359273940566082736078452370141773896412168925031980668382129974488051117924046287135202583401198022682771865435170193778621449717012227942126814012702598148200495009713868432505143826923302955813817372922978687149844030532987969615520981655935494314719005548901095551435427649022881065497903300039939573180815241088264591827168097968095920129612812201169258990774736416555831160070377928290598912 6144 0 0 0 0 = (6144, 2475, 11423562217377937432834817564864391054921813476074403186202876186307194708759156620192815736856953160782704625320798799480493785783539071475308181558958409886139180507766255745268835295645117313504338819263740326883325464574267555496207694285869572314648316514329215930122751571464318862255979369772869442140816230512157201729281184157721386877314303827951055243527097308944107496195827273952935604677267766071546533446890697483255207837930462782684172148575680225197203487779905492453075630072358789672398534046574327392486173694016134122557759726226515008486798286901592462027191956990502296836826476904023063730093767352130344241358628822669171397278460261574819022196248582081673687640040335765808442551608293651427665841608993103872692568835049210108880786219671663660277425004087730618389698061329738681184341677254789431238315415188316194303775227844812938723937278850627741125621249994591920546654322642666908740057248059061389861809032640837967066895178795238231937570811482315138224279502519293367567492777521528359873554446038782138025836561474274854299154189710584123172565363780189321753108692546465033450299949424045911155580271918156356205238118073294445631853246628083857343124092556999552776208698695183169524582902630546052007411733877994671424215271537545923808783601487707221711979830422593186210487121526679113735135761319830140576132201574148064720902280000913360009486456604851776059609678823794606171963757383977965801066554176588924330578572252513065916853761418606293013946146370713932719904460855396828445519877204805006325630314852559886782638202130429144581679873004960110681551841433271930503779267963794566244274986918724058533539037133580331682718972000757464558223013284698892111896815465422461887522267809493528218492456153436868582908952313795219073726778084263541158840572109786131196943023394019968038427856042253032893062243406919862993057275348525879293049183712390292798148388417187264482359539432878840707939022291242582629949602988485, 6137) :=
  (congrArg (fun m => consTwin 3 8 6561 2187 32752009063187003299989838056958935226513325978257168321894648409246039785078676918512059154878539569033294729886280858602768409536509299140561795328029867305796280698430569700613030479130768328651254381370051929371555618187454912594635027979361965459261701560318674364547591253846101409362317441307205031949151227347915962270620156737595861497275965270643254733159193683905464038405357801509760889116497177069598499979756620155240285504454414329509254592908151227685181237229979855204551985512353254491465313333213365336286819573714895651313940089940997421878323519569090770003026590727365366870184029087810476467094900293816987042712755417619076627149622084220708135423975189742253168205202684502263971882513063291119945139275767383323821483722468938010958480887010033989193060492979825943940174844564324319025607309228887819423941623762071642463018186178558425049965306144720305763064376937668082696049534346716202444716931432521243230070175752212154773112742952403188017375110040419652008541663570881225253293042254140230779004599594010405752513561862455082980577639875292648996387831786833699294013433831107798401876058688434745507296328015692812854756331669407245089635766497463496411298466223552447030779688930501410248687182667845709206390106836539123478916796677171270471600946602168756085655771506769719190618337730276810059582141664789747367849107514295208025082244330497950124914040317211418084555906303475743592540042762371783202310270257536158387978835501515783621295526836761643450184537826844235349425196984239648588529871294997881122830822956701231259899497891915300534981060987633692203027913874453086648580404789209990171045113645299043014622933410306777434048285119381281005997579827901547509502435563533995640115357380137121950967333618883901970502147017072253049133433191848030405974552720262818566821842761827783309551548956924285995177821279222108473344502409205729517351849517306778817096725180347761485710801825460880296376747042614807980888429950870044641423366034799663859937224197482269457076170909850767518006281404077488712468746579311588682875758422093902798660402686488014533613334277656688427480942376410481315254206229528430178856877491107566368165602287347099254299034563532475133176137706802917603529063006685003222654726874369265127757646755963027102823365828495626829835891668087041359152430767274575012444131347373651140676973907121342605765487400219454523962193546633055942999054495543595128600763200026859864625557339564600038655422121277972089375004823268911850854808134963504981975736484548371587684335677702243021247080646935703657796877488269846061349191354991730063414667935379265318137432334815411513843603733671812807179777557162589081142934236728104867126031620764290858018596260682061993494563740508156750302834411828150341439835106315345741373021882823611010944442070090798129438977872368688336639308728214544812114497059547233666620405824304020995674103773209327546063864811104718353652014500877960781354425081791167981458098207752980901242395943757166686004936210285321876081743301378748813114833825437353139466460620596753678607484318070780804841433261517057392683947223621263716409238275504131719543468912874898428148967927880269630252252949737233299382773869779312824436908353636337988636789457302684783685347815239118009689135721553959006532035597025553402014667929941944345526699585327359941580994131202922909820400902996787853888775123710842016897629182377641232334551275592843636630236045266220258243795414472489460917866016518834348125202522951866728397055827233234490858386259263938001278757359273940566082736078452370141773896412168925031980668382129974488051117924046287135202583401198022682771865435170193778621449717012227942126814012702598148200495009713868432505143826923302955813817372922978687149844030532987969615520981655935494314719005548901095551435427649022881065497903300039939573180815241088264591827168097968095920129612812201169258990774736416555831160070377928290598912 m 0 0 0 0)
      (by norm_num : (6144 : Nat) = 512 + 5632)).trans
    ((consTwin_chunk 3 8 6561 2187 32752009063187003299989838056958935226513325978257168321894648409246039785078676918512059154878539569033294729886280858602768409536509299140561795328029867305796280698430569700613030479130768328651254381370051929371555618187454912594635027979361965459261701560318674364547591253846101409362317441307205031949151227347915962270620156737595861497275965270643254733159193683905464038405357801509760889116497177069598499979756620155240285504454414329509254592908151227685181237229979855204551985512353254491465313333213365336286819573714895651313940089940997421878323519569090770003026590727365366870184029087810476467094900293816987042712755417619076627149622084220708135423975189742253168205202684502263971882513063291119945139275767383323821483722468938010958480887010033989193060492979825943940174844564324319025607309228887819423941623762071642463018186178558425049965306144720305763064376937668082696049534346716202444716931432521243230070175752212154773112742952403188017375110040419652008541663570881225253293042254140230779004599594010405752513561862455082980577639875292648996387831786833699294013433831107798401876058688434745507296328015692812854756331669407245089635766497463496411298466223552447030779688930501410248687182667845709206390106836539123478916796677171270471600946602168756085655771506769719190618337730276810059582141664789747367849107514295208025082244330497950124914040317211418084555906303475743592540042762371783202310270257536158387978835501515783621295526836761643450184537826844235349425196984239648588529871294997881122830822956701231259899497891915300534981060987633692203027913874453086648580404789209990171045113645299043014622933410306777434048285119381281005997579827901547509502435563533995640115357380137121950967333618883901970502147017072253049133433191848030405974552720262818566821842761827783309551548956924285995177821279222108473344502409205729517351849517306778817096725180347761485710801825460880296376747042614807980888429950870044641423366034799663859937224197482269457076170909850767518006281404077488712468746579311588682875758422093902798660402686488014533613334277656688427480942376410481315254206229528430178856877491107566368165602287347099254299034563532475133176137706802917603529063006685003222654726874369265127757646755963027102823365828495626829835891668087041359152430767274575012444131347373651140676973907121342605765487400219454523962193546633055942999054495543595128600763200026859864625557339564600038655422121277972089375004823268911850854808134963504981975736484548371587684335677702243021247080646935703657796877488269846061349191354991730063414667935379265318137432334815411513843603733671812807179777557162589081142934236728104867126031620764290858018596260682061993494563740508156750302834411828150341439835106315345741373021882823611010944442070090798129438977872368688336639308728214544812114497059547233666620405824304020995674103773209327546063864811104718353652014500877960781354425081791167981458098207752980901242395943757166686004936210285321876081743301378748813114833825437353139466460620596753678607484318070780804841433261517057392683947223621263716409238275504131719543468912874898428148967927880269630252252949737233299382773869779312824436908353636337988636789457302684783685347815239118009689135721553959006532035597025553402014667929941944345526699585327359941580994131202922909820400902996787853888775123710842016897629182377641232334551275592843636630236045266220258243795414472489460917866016518834348125202522951866728397055827233234490858386259263938001278757359273940566082736078452370141773896412168925031980668382129974488051117924046287135202583401198022682771865435170193778621449717012227942126814012702598148200495009713868432505143826923302955813817372922978687149844030532987969615520981655935494314719005548901095551435427649022881065497903300039939573180815241088264591827168097968095920129612812201169258990774736416555831160070377928290598912 512 5632 0 0 0 0 5632 1596 11423562217377937432834817564864391054921813476074403186202876186307194708759156620192815736856953160782704625320798799480493785783539071475308181558958409886139180507766255745268835295645117313504338819263740326883325464574267555496207694285869572314648316514329215930122751571464318862255979369772869442140816230512157201729281184157721386877314303827951055243527097308944107496195827273952935604677267766071546533446890697483255207837930462782684172148575680225197203487779905492453075630072358789672398534046574327392486173694016068612458684996513545567364634072752396241837330959341067636134022069113776085095674546052881142317440007240787279107415835197746024768598506390542505435048548858764131363835223786841056678217605398760933307105652079782043819490238053562074059292625575071225954343460235251984766215720965351727695927756249271653944791482044935016614693012099021029765427247508660189141713674890765262357023664592907696723819508329190397566640576500172027304523129392974580577864189847111038682230297239002706164055073343698325372153179167977743640983650153185737789827678221095048379783415878087183802421160515816411822212460452823073920004752237143481680200814692071492791233586454250889021153662442612744798351446041536287438802410531576642721010103740199044843208404030261849139495076678394135830991342172931041490813312729221369657783159582739037434048292171210581560208484952546841830310175641202771537431248478105209058819978583641695365277701877231783494219449661973100248104625375764037877160409041120447911932359447312245927456354158345107497993333933600194692441808259634668577133373656142928631485207931898443570058660747487075618716034812721338535604537025638895658570334493855710965165821221226541022320823568263831875746219166535347795874749970984110929546306313974736248286942356205567122945392884143285828690620540573704816871630836345721736515063216314467948218759205619489185205237880701081242555319648515183762122002630665333960104224686533 5625 c1_cons_3_8_s5632).trans (by rfl))

theorem c1_cons_3_8 : consTwin 3 8 6561 2187 32752009063187003299989838056958935226513325978257168321894648409246039785078676918512059154878539569033294729886280858602768409536509299140561795328029867305796280698430569700613030479130768328651254381370051929371555618187454912594635027979361965459261701560318674364547591253846101409362317441307205031949151227347915962270620156737595861497275965270643254733159193683905464038405357801509760889116497177069598499979756620155240285504454414329509254592908151227685181237229979855204551985512353254491465313333213365336286819573714895651313940089940997421878323519569090770003026590727365366870184029087810476467094900293816987042712755417619076627149622084220708135423975189742253168205202684502263971882513063291119945139275767383323821483722468938010958480887010033989193060492979825943940174844564324319025607309228887819423941623762071642463018186178558425049965306144720305763064376937668082696049534346716202444716931432521243230070175752212154773112742952403188017375110040419652008541663570881225253293042254140230779004599594010405752513561862455082980577639875292648996387831786833699294013433831107798401876058688434745507296328015692812854756331669407245089635766497463496411298466223552447030779688930501410248687182667845709206390106836539123478916796677171270471600946602168756085655771506769719190618337730276810059582141664789747367849107514295208025082244330497950124914040317211418084555906303475743592540042762371783202310270257536158387978835501515783621295526836761643450184537826844235349425196984239648588529871294997881122830822956701231259899497891915300534981060987633692203027913874453086648580404789209990171045113645299043014622933410306777434048285119381281005997579827901547509502435563533995640115357380137121950967333618883901970502147017072253049133433191848030405974552720262818566821842761827783309551548956924285995177821279222108473344502409205729517351849517306778817096725180347761485710801825460880296376747042614807980888429950870044641423366034799663859937224197482269457076170909850767518006281404077488712468746579311588682875758422093902798660402686488014533613334277656688427480942376410481315254206229528430178856877491107566368165602287347099254299034563532475133176137706802917603529063006685003222654726874369265127757646755963027102823365828495626829835891668087041359152430767274575012444131347373651140676973907121342605765487400219454523962193546633055942999054495543595128600763200026859864625557339564600038655422121277972089375004823268911850854808134963504981975736484548371587684335677702243021247080646935703657796877488269846061349191354991730063414667935379265318137432334815411513843603733671812807179777557162589081142934236728104867126031620764290858018596260682061993494563740508156750302834411828150341439835106315345741373021882823611010944442070090798129438977872368688336639308728214544812114497059547233666620405824304020995674103773209327546063864811104718353652014500877960781354425081791167981458098207752980901242395943757166686004936210285321876081743301378748813114833825437353139466460620596753678607484318070780804841433261517057392683947223621263716409238275504131719543468912874898428148967927880269630252252949737233299382773869779312824436908353636337988636789457302684783685347815239118009689135721553959006532035597025553402014667929941944345526699585327359941580994131202922909820400902996787853888775123710842016897629182377641232334551275592843636630236045266220258243795414472489460917866016518834348125202522951866728397055827233234490858386259263938001278757359273940566082736078452370141773896412168925031980668382129974488051117924046287135202583401198022682771865435170193778621449717012227942126814012702598148200495009713868432505143826923302955813817372922978687149844030532987969615520981655935494314719005548901095551435427649022881065497903300039939573180815241088264591827168097968095920129612812201169258990774736416555831160070377928290598912 6568 0 0 0 0 = (6568, 2187, 11423562217377937432834817564864391054921813476074403186202876186307194708759156620192815736856953160782704625320798799480493785783539071475308181558958409886139180507766255745268835295645117313504338819263740326883325464574267555496207694285869572314648316514329215930122751571464318862255979369772869442140816230512157201729281184157721386877314303827951055243527097308944107496195827273952935604677267766071546533446890697483255207837930462782684172148575680225197203487779905492453075630072358789672398534046574327392486173694016134122557759726226515008486798286901592462027191956990502296836826476904023063730093767352130344242019656202260888892026453895468229206988071920295008873379682446553369924894350070488891702010078541708225795234839095211089097709112162085120097647338122139833228110600082989392591338433777616544053684799646500413069770687086581487137502485652747714529441936196186003229177757067964120330231232040963858808839184289548225605031170276587718715043046407159535959626211055259297605210472194352154412308176378305978722042762270067173474951806087819815154079666858570587012720661422637817709796687416276036064210127293014198595450513696623633614994073435824842954082330215697686198561610404629566074790086569059643951234599817490323492052082224793909497188899924748028310673588762417682527348630665205417209359086662377804683776356513790589272591978956170307165117107589512088595323312169179624851488689039519409637419425694423986296239609301255502738931127000906125692128912846840805341230670024948640174953768772224370653045179249084484537443164603352860688179124388887671769490857961498972552585448374811136545337429493009247982272748138694950049819837487875349582757538405984852225375998205031894594085879229119678150100444102619057722203800499447489455107613497927587194865059674725545869846288173614441578176037582721675130519361949018877981483652351653188988167198715064479729607107795243426756944986254682519699815429352363416415356114173951, 6561) :=
  (congrArg (fun m => consTwin 3 8 6561 2187 32752009063187003299989838056958935226513325978257168321894648409246039785078676918512059154878539569033294729886280858602768409536509299140561795328029867305796280698430569700613030479130768328651254381370051929371555618187454912594635027979361965459261701560318674364547591253846101409362317441307205031949151227347915962270620156737595861497275965270643254733159193683905464038405357801509760889116497177069598499979756620155240285504454414329509254592908151227685181237229979855204551985512353254491465313333213365336286819573714895651313940089940997421878323519569090770003026590727365366870184029087810476467094900293816987042712755417619076627149622084220708135423975189742253168205202684502263971882513063291119945139275767383323821483722468938010958480887010033989193060492979825943940174844564324319025607309228887819423941623762071642463018186178558425049965306144720305763064376937668082696049534346716202444716931432521243230070175752212154773112742952403188017375110040419652008541663570881225253293042254140230779004599594010405752513561862455082980577639875292648996387831786833699294013433831107798401876058688434745507296328015692812854756331669407245089635766497463496411298466223552447030779688930501410248687182667845709206390106836539123478916796677171270471600946602168756085655771506769719190618337730276810059582141664789747367849107514295208025082244330497950124914040317211418084555906303475743592540042762371783202310270257536158387978835501515783621295526836761643450184537826844235349425196984239648588529871294997881122830822956701231259899497891915300534981060987633692203027913874453086648580404789209990171045113645299043014622933410306777434048285119381281005997579827901547509502435563533995640115357380137121950967333618883901970502147017072253049133433191848030405974552720262818566821842761827783309551548956924285995177821279222108473344502409205729517351849517306778817096725180347761485710801825460880296376747042614807980888429950870044641423366034799663859937224197482269457076170909850767518006281404077488712468746579311588682875758422093902798660402686488014533613334277656688427480942376410481315254206229528430178856877491107566368165602287347099254299034563532475133176137706802917603529063006685003222654726874369265127757646755963027102823365828495626829835891668087041359152430767274575012444131347373651140676973907121342605765487400219454523962193546633055942999054495543595128600763200026859864625557339564600038655422121277972089375004823268911850854808134963504981975736484548371587684335677702243021247080646935703657796877488269846061349191354991730063414667935379265318137432334815411513843603733671812807179777557162589081142934236728104867126031620764290858018596260682061993494563740508156750302834411828150341439835106315345741373021882823611010944442070090798129438977872368688336639308728214544812114497059547233666620405824304020995674103773209327546063864811104718353652014500877960781354425081791167981458098207752980901242395943757166686004936210285321876081743301378748813114833825437353139466460620596753678607484318070780804841433261517057392683947223621263716409238275504131719543468912874898428148967927880269630252252949737233299382773869779312824436908353636337988636789457302684783685347815239118009689135721553959006532035597025553402014667929941944345526699585327359941580994131202922909820400902996787853888775123710842016897629182377641232334551275592843636630236045266220258243795414472489460917866016518834348125202522951866728397055827233234490858386259263938001278757359273940566082736078452370141773896412168925031980668382129974488051117924046287135202583401198022682771865435170193778621449717012227942126814012702598148200495009713868432505143826923302955813817372922978687149844030532987969615520981655935494314719005548901095551435427649022881065497903300039939573180815241088264591827168097968095920129612812201169258990774736416555831160070377928290598912 m 0 0 0 0)
      (by norm_num : (6568 : Nat) = 424 + 6144)).trans
    ((consTwin_chunk 3 8 6561 2187 32752009063187003299989838056958935226513325978257168321894648409246039785078676918512059154878539569033294729886280858602768409536509299140561795328029867305796280698430569700613030479130768328651254381370051929371555618187454912594635027979361965459261701560318674364547591253846101409362317441307205031949151227347915962270620156737595861497275965270643254733159193683905464038405357801509760889116497177069598499979756620155240285504454414329509254592908151227685181237229979855204551985512353254491465313333213365336286819573714895651313940089940997421878323519569090770003026590727365366870184029087810476467094900293816987042712755417619076627149622084220708135423975189742253168205202684502263971882513063291119945139275767383323821483722468938010958480887010033989193060492979825943940174844564324319025607309228887819423941623762071642463018186178558425049965306144720305763064376937668082696049534346716202444716931432521243230070175752212154773112742952403188017375110040419652008541663570881225253293042254140230779004599594010405752513561862455082980577639875292648996387831786833699294013433831107798401876058688434745507296328015692812854756331669407245089635766497463496411298466223552447030779688930501410248687182667845709206390106836539123478916796677171270471600946602168756085655771506769719190618337730276810059582141664789747367849107514295208025082244330497950124914040317211418084555906303475743592540042762371783202310270257536158387978835501515783621295526836761643450184537826844235349425196984239648588529871294997881122830822956701231259899497891915300534981060987633692203027913874453086648580404789209990171045113645299043014622933410306777434048285119381281005997579827901547509502435563533995640115357380137121950967333618883901970502147017072253049133433191848030405974552720262818566821842761827783309551548956924285995177821279222108473344502409205729517351849517306778817096725180347761485710801825460880296376747042614807980888429950870044641423366034799663859937224197482269457076170909850767518006281404077488712468746579311588682875758422093902798660402686488014533613334277656688427480942376410481315254206229528430178856877491107566368165602287347099254299034563532475133176137706802917603529063006685003222654726874369265127757646755963027102823365828495626829835891668087041359152430767274575012444131347373651140676973907121342605765487400219454523962193546633055942999054495543595128600763200026859864625557339564600038655422121277972089375004823268911850854808134963504981975736484548371587684335677702243021247080646935703657796877488269846061349191354991730063414667935379265318137432334815411513843603733671812807179777557162589081142934236728104867126031620764290858018596260682061993494563740508156750302834411828150341439835106315345741373021882823611010944442070090798129438977872368688336639308728214544812114497059547233666620405824304020995674103773209327546063864811104718353652014500877960781354425081791167981458098207752980901242395943757166686004936210285321876081743301378748813114833825437353139466460620596753678607484318070780804841433261517057392683947223621263716409238275504131719543468912874898428148967927880269630252252949737233299382773869779312824436908353636337988636789457302684783685347815239118009689135721553959006532035597025553402014667929941944345526699585327359941580994131202922909820400902996787853888775123710842016897629182377641232334551275592843636630236045266220258243795414472489460917866016518834348125202522951866728397055827233234490858386259263938001278757359273940566082736078452370141773896412168925031980668382129974488051117924046287135202583401198022682771865435170193778621449717012227942126814012702598148200495009713868432505143826923302955813817372922978687149844030532987969615520981655935494314719005548901095551435427649022881065497903300039939573180815241088264591827168097968095920129612812201169258990774736416555831160070377928290598912 424 6144 0 0 0 0 6144 2475 11423562217377937432834817564864391054921813476074403186202876186307194708759156620192815736856953160782704625320798799480493785783539071475308181558958409886139180507766255745268835295645117313504338819263740326883325464574267555496207694285869572314648316514329215930122751571464318862255979369772869442140816230512157201729281184157721386877314303827951055243527097308944107496195827273952935604677267766071546533446890697483255207837930462782684172148575680225197203487779905492453075630072358789672398534046574327392486173694016134122557759726226515008486798286901592462027191956990502296836826476904023063730093767352130344241358628822669171397278460261574819022196248582081673687640040335765808442551608293651427665841608993103872692568835049210108880786219671663660277425004087730618389698061329738681184341677254789431238315415188316194303775227844812938723937278850627741125621249994591920546654322642666908740057248059061389861809032640837967066895178795238231937570811482315138224279502519293367567492777521528359873554446038782138025836561474274854299154189710584123172565363780189321753108692546465033450299949424045911155580271918156356205238118073294445631853246628083857343124092556999552776208698695183169524582902630546052007411733877994671424215271537545923808783601487707221711979830422593186210487121526679113735135761319830140576132201574148064720902280000913360009486456604851776059609678823794606171963757383977965801066554176588924330578572252513065916853761418606293013946146370713932719904460855396828445519877204805006325630314852559886782638202130429144581679873004960110681551841433271930503779267963794566244274986918724058533539037133580331682718972000757464558223013284698892111896815465422461887522267809493528218492456153436868582908952313795219073726778084263541158840572109786131196943023394019968038427856042253032893062243406919862993057275348525879293049183712390292798148388417187264482359539432878840707939022291242582629949602988485 6137 c1_cons_3_8_s6144).trans (by rfl))

theorem c1_inst_3_8 :
    (debruijnCodes 3 8).Nodup ∧ (debruijnCodes 3 8).length = 3 ^ 8 ∧
      ∀ v, v < 3 ^ 8 → v ∈ debruijnCodes 3 8 := by
  have hg : genTwin 3 (3 ^ (8 - 1)) (3 ^ 8 - 8) 0 1 0 8
      = (82, 11423562217377937432834817564864391054921813476074403186202876186307194708759156620192815736856953160782704625320798799480493785783539071475308181558958409886139180507766255745268835295645117313504338819263740326883325464574267555496207694285869572314648316514329215930122751571464318862255979369772869442140816230512157201729281184157721386877314303827951055243527097308944107496195827273952935604677267766071546533446890697483255207837930462782684172148575680225197203487779905492453075630072358789672398534046574327392486173694016134122557759726226515008486798286901592462027191956990502296836826476904023063730093767352130344242019656202260888892026453895468229206988071920295008873379682446553369924894350070488891702010078541708225795234839095211089097709112162085120097647338122139833228110600082989392591338433777616544053684799646500413069770687086581487137502485652747714529441936196186003229177757067964120330231232040963858808839184289548225605031170276587718715043046407159535959626211055259297605210472194352154412308176378305978722042762270067173474951806087819815154079666858570587012720661422637817709796687416276036064210127293014198595450513696623633614994073435824842954082330215697686198561610404629566074790086569059643951234599817490323492052082224793909497188899924748028310673588762414659720459750357897223526263703374718291098062788368105900330757150448440997331201883261254539971799479827925062216393761770118455872264943017533998376224462155020398146693775628328025202531730464287303637986218358050299410180853382504452275703440425860480386446379315676396280795480207937918857282731093005410172138830050194874788714452991613035147813226773820572447300904379337662415316283952401532557295469123129361640680750979589925530311008750051481797777047521102516096290235707488302970385974836925615505481055890889237500178188915488219919118150515623009698364304207655704025569383427467539797277361593600428110305022011501782421786168384318461505157684264959, 32752009063187003299989838056958935226513325978257168321894648409246039785078676918512059154878539569033294729886280858602768409536509299140561795328029867305796280698430569700613030479130768328651254381370051929371555618187454912594635027979361965459261701560318674364547591253846101409362317441307205031949151227347915962270620156737595861497275965270643254733159193683905464038405357801509760889116497177069598499979756620155240285504454414329509254592908151227685181237229979855204551985512353254491465313333213365336286819573714895651313940089940997421878323519569090770003026590727365366870184029087810476467094900293816987042712755417619076627149622084220708135423975189742253168205202684502263971882513063291119945139275767383323821483722468938010958480887010033989193060492979825943940174844564324319025607309228887819423941623762071642463018186178558425049965306144720305763064376937668082696049534346716202444716931432521243230070175752212154773112742952403188017375110040419652008541663570881225253293042254140230779004599594010405752513561862455082980577639875292648996387831786833699294013433831107798401876058688434745507296328015692812854756331669407245089635766497463496411298466223552447030779688930501410248687182667845709206390106836539123478916796677171270471600946602168756085655771506769719190618337730276810059582141664789747367849107514295208025082244330497950124914040317211418084555906303475743592540042762371783202310270257536158387978835501515783621295526836761643450184537826844235349425196984239648588529871294997881122830822956701231259899497891915300534981060987633692203027913874453086648580404789209990171045113645299043014622933410306777434048285119381281005997579827901547509502435563533995640115357380137121950967333618883901970502147017072253049133433191848030405974552720262818566821842761827783309551548956924285995177821279222108473344502409205729517351849517306778817096725180347761485710801825460880296376747042614807980888429950870044641423366034799663859937224197482269457076170909850767518006281404077488712468746579311588682875758422093902798660402686488014533613334277656688427480942376410481315254206229528430178856877491107566368165602287347099254299034563532475133176137706802917603529063006685003222654726874369265127757646755963027102823365828495626829835891668087041359152430767274575012444131347373651140676973907121342605765487400219454523962193546633055942999054495543595128600763200026859864625557339564600038655422121277972089375004823268911850854808134963504981975736484548371587684335677702243021247080646935703657796877488269846061349191354991730063414667935379265318137432334815411513843603733671812807179777557162589081142934236728104867126031620764290858018596260682061993494563740508156750302834411828150341439835106315345741373021882823611010944442070090798129438977872368688336639308728214544812114497059547233666620405824304020995674103773209327546063864811104718353652014500877960781354425081791167981458098207752980901242395943757166686004936210285321876081743301378748813114833825437353139466460620596753678607484318070780804841433261517057392683947223621263716409238275504131719543468912874898428148967927880269630252252949737233299382773869779312824436908353636337988636789457302684783685347815239118009689135721553959006532035597025553402014667929941944345526699585327359941580994131202922909820400902996787853888775123710842016897629182377641232334551275592843636630236045266220258243795414472489460917866016518834348125202522951866728397055827233234490858386259263938001278757359273940566082736078452370141773896412168925031980668382129974488051117924046287135202583401198022682771865435170193778621449717012227942126814012702598148200495009713868432505143826923302955813817372922978687149844030532987969615520981655935494314719005548901095551435427649022881065497903300039939573180815241088264591827168097968095920129612812201169258990774736416555831160070377928290598912, 6561) := c1_gen_3_8
  have hm : (2 : Nat) ^ 3 ^ 8 - 1 = 11423562217377937432834817564864391054921813476074403186202876186307194708759156620192815736856953160782704625320798799480493785783539071475308181558958409886139180507766255745268835295645117313504338819263740326883325464574267555496207694285869572314648316514329215930122751571464318862255979369772869442140816230512157201729281184157721386877314303827951055243527097308944107496195827273952935604677267766071546533446890697483255207837930462782684172148575680225197203487779905492453075630072358789672398534046574327392486173694016134122557759726226515008486798286901592462027191956990502296836826476904023063730093767352130344242019656202260888892026453895468229206988071920295008873379682446553369924894350070488891702010078541708225795234839095211089097709112162085120097647338122139833228110600082989392591338433777616544053684799646500413069770687086581487137502485652747714529441936196186003229177757067964120330231232040963858808839184289548225605031170276587718715043046407159535959626211055259297605210472194352154412308176378305978722042762270067173474951806087819815154079666858570587012720661422637817709796687416276036064210127293014198595450513696623633614994073435824842954082330215697686198561610404629566074790086569059643951234599817490323492052082224793909497188899924748028310673588762417682527348630665205417209359086662377804683776356513790589272591978956170307165117107589512088595323312169179624851488689039519409637419425694423986296239609301255502738931127000906125692128912846840805341230670024948640174953768772224370653045179249084484537443164603352860688179124388887671769490857961498972552585448374811136545337429493009247982272748138694950049819837487875349582757538405984852225375998205031894594085879229119678150100444102619057722203800499447489455107613497927587194865059674725545869846288173614441578176037582721675130519361949018877981483652351653188988167198715064479729607107795243426756944986254682519699815429352363416415356114173951 := by norm_num
  have hc : consTwin 3 8 (3 ^ 8) (3 ^ (8 - 1)) 32752009063187003299989838056958935226513325978257168321894648409246039785078676918512059154878539569033294729886280858602768409536509299140561795328029867305796280698430569700613030479130768328651254381370051929371555618187454912594635027979361965459261701560318674364547591253846101409362317441307205031949151227347915962270620156737595861497275965270643254733159193683905464038405357801509760889116497177069598499979756620155240285504454414329509254592908151227685181237229979855204551985512353254491465313333213365336286819573714895651313940089940997421878323519569090770003026590727365366870184029087810476467094900293816987042712755417619076627149622084220708135423975189742253168205202684502263971882513063291119945139275767383323821483722468938010958480887010033989193060492979825943940174844564324319025607309228887819423941623762071642463018186178558425049965306144720305763064376937668082696049534346716202444716931432521243230070175752212154773112742952403188017375110040419652008541663570881225253293042254140230779004599594010405752513561862455082980577639875292648996387831786833699294013433831107798401876058688434745507296328015692812854756331669407245089635766497463496411298466223552447030779688930501410248687182667845709206390106836539123478916796677171270471600946602168756085655771506769719190618337730276810059582141664789747367849107514295208025082244330497950124914040317211418084555906303475743592540042762371783202310270257536158387978835501515783621295526836761643450184537826844235349425196984239648588529871294997881122830822956701231259899497891915300534981060987633692203027913874453086648580404789209990171045113645299043014622933410306777434048285119381281005997579827901547509502435563533995640115357380137121950967333618883901970502147017072253049133433191848030405974552720262818566821842761827783309551548956924285995177821279222108473344502409205729517351849517306778817096725180347761485710801825460880296376747042614807980888429950870044641423366034799663859937224197482269457076170909850767518006281404077488712468746579311588682875758422093902798660402686488014533613334277656688427480942376410481315254206229528430178856877491107566368165602287347099254299034563532475133176137706802917603529063006685003222654726874369265127757646755963027102823365828495626829835891668087041359152430767274575012444131347373651140676973907121342605765487400219454523962193546633055942999054495543595128600763200026859864625557339564600038655422121277972089375004823268911850854808134963504981975736484548371587684335677702243021247080646935703657796877488269846061349191354991730063414667935379265318137432334815411513843603733671812807179777557162589081142934236728104867126031620764290858018596260682061993494563740508156750302834411828150341439835106315345741373021882823611010944442070090798129438977872368688336639308728214544812114497059547233666620405824304020995674103773209327546063864811104718353652014500877960781354425081791167981458098207752980901242395943757166686004936210285321876081743301378748813114833825437353139466460620596753678607484318070780804841433261517057392683947223621263716409238275504131719543468912874898428148967927880269630252252949737233299382773869779312824436908353636337988636789457302684783685347815239118009689135721553959006532035597025553402014667929941944345526699585327359941580994131202922909820400902996787853888775123710842016897629182377641232334551275592843636630236045266220258243795414472489460917866016518834348125202522951866728397055827233234490858386259263938001278757359273940566082736078452370141773896412168925031980668382129974488051117924046287135202583401198022682771865435170193778621449717012227942126814012702598148200495009713868432505143826923302955813817372922978687149844030532987969615520981655935494314719005548901095551435427649022881065497903300039939573180815241088264591827168097968095920129612812201169258990774736416555831160070377928290598912 (3 ^ 8 + (8 - 1)) 0 0 0 0
      = (6568, 2187, 2 ^ 3 ^ 8 - 1, 3 ^ 8) := by
    rw [hm]
    exact c1_cons_3_8
  exact debruijn_correct_of_twin 3 8 82 11423562217377937432834817564864391054921813476074403186202876186307194708759156620192815736856953160782704625320798799480493785783539071475308181558958409886139180507766255745268835295645117313504338819263740326883325464574267555496207694285869572314648316514329215930122751571464318862255979369772869442140816230512157201729281184157721386877314303827951055243527097308944107496195827273952935604677267766071546533446890697483255207837930462782684172148575680225197203487779905492453075630072358789672398534046574327392486173694016134122557759726226515008486798286901592462027191956990502296836826476904023063730093767352130344242019656202260888892026453895468229206988071920295008873379682446553369924894350070488891702010078541708225795234839095211089097709112162085120097647338122139833228110600082989392591338433777616544053684799646500413069770687086581487137502485652747714529441936196186003229177757067964120330231232040963858808839184289548225605031170276587718715043046407159535959626211055259297605210472194352154412308176378305978722042762270067173474951806087819815154079666858570587012720661422637817709796687416276036064210127293014198595450513696623633614994073435824842954082330215697686198561610404629566074790086569059643951234599817490323492052082224793909497188899924748028310673588762414659720459750357897223526263703374718291098062788368105900330757150448440997331201883261254539971799479827925062216393761770118455872264943017533998376224462155020398146693775628328025202531730464287303637986218358050299410180853382504452275703440425860480386446379315676396280795480207937918857282731093005410172138830050194874788714452991613035147813226773820572447300904379337662415316283952401532557295469123129361640680750979589925530311008750051481797777047521102516096290235707488302970385974836925615505481055890889237500178188915488219919118150515623009698364304207655704025569383427467539797277361593600428110305022011501782421786168384318461505157684264959 32752009063187003299989838056958935226513325978257168321894648409246039785078676918512059154878539569033294729886280858602768409536509299140561795328029867305796280698430569700613030479130768328651254381370051929371555618187454912594635027979361965459261701560318674364547591253846101409362317441307205031949151227347915962270620156737595861497275965270643254733159193683905464038405357801509760889116497177069598499979756620155240285504454414329509254592908151227685181237229979855204551985512353254491465313333213365336286819573714895651313940089940997421878323519569090770003026590727365366870184029087810476467094900293816987042712755417619076627149622084220708135423975189742253168205202684502263971882513063291119945139275767383323821483722468938010958480887010033989193060492979825943940174844564324319025607309228887819423941623762071642463018186178558425049965306144720305763064376937668082696049534346716202444716931432521243230070175752212154773112742952403188017375110040419652008541663570881225253293042254140230779004599594010405752513561862455082980577639875292648996387831786833699294013433831107798401876058688434745507296328015692812854756331669407245089635766497463496411298466223552447030779688930501410248687182667845709206390106836539123478916796677171270471600946602168756085655771506769719190618337730276810059582141664789747367849107514295208025082244330497950124914040317211418084555906303475743592540042762371783202310270257536158387978835501515783621295526836761643450184537826844235349425196984239648588529871294997881122830822956701231259899497891915300534981060987633692203027913874453086648580404789209990171045113645299043014622933410306777434048285119381281005997579827901547509502435563533995640115357380137121950967333618883901970502147017072253049133433191848030405974552720262818566821842761827783309551548956924285995177821279222108473344502409205729517351849517306778817096725180347761485710801825460880296376747042614807980888429950870044641423366034799663859937224197482269457076170909850767518006281404077488712468746579311588682875758422093902798660402686488014533613334277656688427480942376410481315254206229528430178856877491107566368165602287347099254299034563532475133176137706802917603529063006685003222654726874369265127757646755963027102823365828495626829835891668087041359152430767274575012444131347373651140676973907121342605765487400219454523962193546633055942999054495543595128600763200026859864625557339564600038655422121277972089375004823268911850854808134963504981975736484548371587684335677702243021247080646935703657796877488269846061349191354991730063414667935379265318137432334815411513843603733671812807179777557162589081142934236728104867126031620764290858018596260682061993494563740508156750302834411828150341439835106315345741373021882823611010944442070090798129438977872368688336639308728214544812114497059547233666620405824304020995674103773209327546063864811104718353652014500877960781354425081791167981458098207752980901242395943757166686004936210285321876081743301378748813114833825437353139466460620596753678607484318070780804841433261517057392683947223621263716409238275504131719543468912874898428148967927880269630252252949737233299382773869779312824436908353636337988636789457302684783685347815239118009689135721553959006532035597025553402014667929941944345526699585327359941580994131202922909820400902996787853888775123710842016897629182377641232334551275592843636630236045266220258243795414472489460917866016518834348125202522951866728397055827233234490858386259263938001278757359273940566082736078452370141773896412168925031980668382129974488051117924046287135202583401198022682771865435170193778621449717012227942126814012702598148200495009713868432505143826923302955813817372922978687149844030532987969615520981655935494314719005548901095551435427649022881065497903300039939573180815241088264591827168097968095920129612812201169258990774736416555831160070377928290598912 6561 6568 2187 (by decide) (by decide)
    (by decide) (by decide) hg hc

/-- C1: for every valid (k, n) within the configured memory ceiling (k = 2
with n ≤ 13, or k = 3 with n ≤ 8), the codes reported by the de Bruijn
transmission loop — the windows of n consecutive digits of the generated
sequence read cyclically over positions 0..k^n-1, each interpreted as a
base-k integer by the rolling register — enumerate every value in [0, k^n)
exactly once with no repeated window. -/
theorem claim_C1 (k n : Nat)
    (h : (k = 2 ∧ 1 ≤ n ∧ n ≤ 13) ∨ (k = 3 ∧ 1 ≤ n ∧ n ≤ 8)) :
    (debruijnCodes k n).Nodup ∧ (debruijnCodes k n).length = k ^ n ∧
      ∀ v, v < k ^ n → v ∈ debruijnCodes k n := by
  rcases h with ⟨hk, hn1, hn2⟩ | ⟨hk, hn1, hn2⟩ <;> subst hk
  · interval_cases n
    · exact c1_inst_2_1
    · exact c1_inst_2_2
    · exact c1_inst_2_3
    · exact c1_inst_2_4
    · exact c1_inst_2_5
    · exact c1_inst_2_6
    · exact c1_inst_2_7
    · exact c1_inst_2_8
    · exact c1_inst_2_9
    · exact c1_inst_2_10
    · exact c1_inst_2_11
    · exact c1_inst_2_12
    · exact c1_inst_2_13
  · interval_cases n
    · exact c1_inst_3_1
    · exact c1_inst_3_2
    · exact c1_inst_3_3
    · exact c1_inst_3_4
    · exact c1_inst_3_5
    · exact c1_inst_3_6
    · exact c1_inst_3_7
    · exact c1_inst_3_8

theorem claim_C1_witness :
    ((2 = 2 ∧ 1 ≤ 3 ∧ 3 ≤ 13) ∨ (2 = 3 ∧ 1 ≤ 3 ∧ 3 ≤ 8)) ∧
      ((debruijnCodes 2 3).Nodup ∧ (debruijnCodes 2 3).length = 2 ^ 3 ∧
        ∀ v, v < 2 ^ 3 → v ∈ debruijnCodes 2 3) :=
  ⟨Or.inl (by decide), claim_C1 2 3 (Or.inl (by decide))⟩

end OpenSesame
